import Mathlib

/-!
# Preview player of the video editor (lvpp)

A shallow embedding of `PreviewPlayer.cpp` and of the parts of
`PreviewPlayerBase.cpp` that `PreviewPlayer` inherits (the member functions are
not virtual, so a call made inside a base-class function binds to the base
class, and a call made inside a `PreviewPlayer` function binds to
`PreviewPlayer` when it defines the function).

* The player object is the record `Player`; every member function is a function
  on `Player`, returning the new record (and a `Status` when the C++ function
  returns `status_t`).
* `mFlags` is a record of Booleans, one per bit of the flag enum.
* Everything the player does to the outside world (listener notifications,
  renderer calls, buffer releases, event-queue posts, audio-player calls) is
  appended to `Player.trace` in program order.
* Everything the outside world answers (clock readings, audio-player replies,
  the outcome of opening and decoding a source) is read from an `Env` record;
  the results of successive `mVideoSource->read` calls are the list
  `MediaSource.reads`, consumed from the front, and an exhausted list reads as
  end of stream.
* `int64_t` quantities are `Int`, with C++ division modelled by `Int.tdiv`;
  `uint32_t` quantities are `Nat`, reduced modulo `2^32` where the C++
  expression is evaluated in 32 bits. The end of the storyboard window of a
  clip, an unsigned 64-bit sum, is reduced modulo `2^64` (`clipWindowEnd`).
* A call that aborts the process (a failing `CHECK`, a call through a pointer
  that holds no object) returns the player marked `aborted`; a run does not go
  on past it (`step`).
* Waiting on `mPreparedCondition` is modelled by running the prepare event
  that ends the wait.
* A member function with several steps is the composition of one definition
  per step; a step changes the record at most once.
-/

namespace Lvpp

/-! ## Data model -/

/-- Values of `status_t` that the player tells apart. -/
inductive Status
  | OK
  | UNKNOWN_ERROR
  | ERROR_END_OF_STREAM
  | other (code : Int)
  deriving DecidableEq, Repr

/-- Flag word `mFlags`: one field per bit. `PreviewPlayerBase.h` gives the bit
2048 the name `PREPARING_CONNECTED`; `PreviewPlayer` uses the same bit 2048
under the name `INFORMED_AV_EOS` (the enum of `PreviewPlayer.h` gives it the
value 2048). The two names are one bit of `mFlags` and one
field here, `INFORMED_AV_EOS`: the statements of `PreviewPlayerBase` that set or
clear `PREPARING_CONNECTED` set or clear it. -/
structure Flags where
  PLAYING : Bool := false
  LOOPING : Bool := false
  FIRST_FRAME : Bool := false
  PREPARING : Bool := false
  PREPARED : Bool := false
  AT_EOS : Bool := false
  PREPARE_CANCELLED : Bool := false
  CACHE_UNDERRUN : Bool := false
  AUDIO_AT_EOS : Bool := false
  VIDEO_AT_EOS : Bool := false
  AUTO_LOOPING : Bool := false
  INFORMED_AV_EOS : Bool := false
  SEEK_PREVIEW : Bool := false
  AUDIO_RUNNING : Bool := false
  AUDIOPLAYER_STARTED : Bool := false
  INCOGNITO : Bool := false
  deriving DecidableEq, Repr

/-- Seek state `mSeeking`. -/
inductive SeekType
  | NO_SEEK
  | SEEK
  | SEEK_VIDEO_ONLY
  deriving DecidableEq, Repr

/-- A `MediaBuffer` as the player sees it: its `kKeyTime` and `range_length()`. -/
structure MediaBuffer where
  timeUs : Int
  rangeLength : Nat
  deriving DecidableEq, Repr

/-- Result of one `MediaSource::read`: a buffer (status `OK`),
`INFO_FORMAT_CHANGED` (with the size that `notifyVideoSize_l` then reports),
`ERROR_END_OF_STREAM`, or another error code. -/
inductive ReadResult
  | buffer (b : MediaBuffer)
  | formatChanged (width height : Int)
  | endOfStream
  | error (code : Int)
  deriving DecidableEq, Repr

/-- A track or decoder (`sp<MediaSource>`): the results of its future `read`
calls, whether its format names a decoder component and whether that is the
dummy audio or video source, its `kKeyDuration`, its MIME type (raw, QCELP), and the size that `notifyVideoSize_l` derives from its format. -/
structure MediaSource where
  reads : List ReadResult := []
  isDummy : Bool := false
  durationUs : Option Int := none
  width : Int := 0
  height : Int := 0
  hasDecoderComponent : Bool := true
  mimeRaw : Bool := false
  mimeQcelp : Bool := false
  deriving DecidableEq, Repr

/-- The shared `VideoEditorAudioPlayer`, as far as the player reads it back:
the source it currently plays. -/
structure AudioPlayer where
  source : Option MediaSource := none
  deriving DecidableEq, Repr

/-- Which clock `mTimeSource` points to. -/
inductive TimeSourceRef
  | system
  | audioPlayer
  deriving DecidableEq, Repr

/-- Effect types of `M4VSS3GPP_VideoEffectType` that
`setVideoPostProcessingNode` maps; every other value is `other`. -/
inductive VideoEffectType
  | FadeFromBlack
  | FadeToBlack
  | BlackAndWhite
  | Pink
  | Green
  | Sepia
  | Negative
  | Framing
  | Fifties
  | ColorRGB16
  | Gradient
  | other (code : Nat)
  deriving DecidableEq, Repr

/-- The single bits of the effect mask `mCurrentVideoEffect` (the `VIDEO_EFFECT_*`
constants other than `VIDEO_EFFECT_NONE`, which is `0`). -/
inductive VideoEffect
  | FADEFROMBLACK
  | FADETOBLACK
  | BLACKANDWHITE
  | PINK
  | GREEN
  | SEPIA
  | NEGATIVE
  | FRAMING
  | FIFTIES
  | COLOR_RGB16
  | GRADIENT
  deriving DecidableEq, Repr, Fintype

/-- Effect mask: the set of bits that are set. `VIDEO_EFFECT_NONE` is the mask
with no bit set. -/
abbrev EffectMask := VideoEffect → Bool

/-- The mask `VIDEO_EFFECT_NONE`. -/
def VIDEO_EFFECT_NONE : EffectMask := fun _ => false

/-- The fields of `M4VSS3GPP_EffectSettings` that the player reads
(`uiStartTime` and `uiDuration` are 32-bit unsigned milliseconds). -/
structure EffectSettings where
  VideoEffectType : VideoEffectType
  uiStartTime : Nat
  uiDuration : Nat
  deriving DecidableEq, Repr

/-- Listener messages. `START_NEXT_PLAYER` is the code `0xAAAAAAAA` and
`OVERLAY_UPDATE` the code `0xBBBBBBBB`. -/
inductive Msg
  | MEDIA_PREPARED
  | MEDIA_PLAYBACK_COMPLETE
  | MEDIA_SEEK_COMPLETE
  | MEDIA_SET_VIDEO_SIZE
  | MEDIA_ERROR
  | MEDIA_INFO
  | START_NEXT_PLAYER
  | OVERLAY_UPDATE
  deriving DecidableEq, Repr

/-- The events of the timed event queue. -/
inductive Event
  | video
  | streamDone
  | checkAudioStatus
  | progressCb
  | overlayUpdate
  | asyncPrepare
  | buffering
  | videoLag
  deriving DecidableEq, Repr

/-- Calls that the player makes on the audio player. -/
inductive AudioCall
  | pause (playPendingSamples : Bool)
  | resume
  | start
  | seekTo (timeUs : Int)
  | setSource
  | setObserver
  | setAudioMixSettings
  | setAudioMixPCMFileHandle
  | setAudioMixStoryBoardSkimTimeStamp (ts beginCut volume : Nat)
  deriving DecidableEq, Repr

/-- Calls that the player makes on a media source. -/
inductive SourceCall
  | pause
  | stop
  | setDuration (durationUs : Int)
  deriving DecidableEq, Repr

/-- What the player does to the outside world. -/
inductive Action
  | notify (msg : Msg) (ext1 ext2 : Int)
  | notifyError (err : Status)
  | render (timeUs : Int) (effects : EffectMask) (isJpg : Bool)
  | release (timeUs : Int)
  | updateVideoSize
  | post (e : Event) (delayUs : Int)
  | cancel (e : Event)
  | audioPlayer (c : AudioCall)
  | audioSource (c : SourceCall)
  | videoSource (c : SourceCall)
  deriving DecidableEq

/-- What `MediaExtractor::Create` found: whether there is a video track and an
audio track, the auto-loop mark of a Vorbis file, and `CAN_SEEK`. -/
structure Extractor where
  videoTrack : Option MediaSource := none
  audioTrack : Option MediaSource := none
  autoLoop : Bool := false
  canSeek : Bool := false
  deriving DecidableEq, Repr

/-- Outcome of the base-class prepare event
(`PreviewPlayerBase::onPrepareAsyncEvent`), whose source opening and decoder
set-up are summarised by what they leave behind. -/
inductive BasePrepare
  | abort (err : Status)
  | done (videoTrack videoSource audioTrack audioSource : Option MediaSource)
      (canSeek cached : Bool)
  deriving DecidableEq, Repr

/-- Answers of the outside world during one operation or event. -/
structure Env where
  realTimeUs1 : Int := 0
  realTimeUs2 : Int := 0
  mediaTimeMapping : Option (Int × Int) := none
  audioStart : Status := Status.OK
  audioIsStarted : Bool := false
  audioIsSeeking : Bool := false
  audioReachedEOS : Option Status := none
  dataSource : Bool := true
  extractor : Option Extractor := none
  dummyAudio : Bool := true
  dummyAudioStart : Status := Status.OK
  dummyVideo : MediaSource := {}
  dummyVideoStart : Status := Status.OK
  videoCodec : Option MediaSource := none
  videoStart : Status := Status.OK
  audioCodec : Option MediaSource := none
  audioSourceStart : Status := Status.OK
  basePrepare : BasePrepare := BasePrepare.abort Status.UNKNOWN_ERROR
  deriving DecidableEq, Repr

/-- The string `mUri`, as far as the player inspects it: its size and whether
its last four characters are `.rgb` in any letter case. -/
structure Uri where
  size : Nat := 0
  rgb : Bool := false
  deriving DecidableEq, Repr

/-- The settings of the clip, which only the setters write: cut times,
storyboard start, effect list, progress interval, audio-mix parameters, and
whether a surface and an audio sink are set. -/
structure Config where
  mPlayBeginTimeMsec : Nat := 0
  mPlayEndTimeMsec : Nat := 0
  mStoryboardStartTimeMsec : Nat := 0
  mDecVideoTsStoryBoard : Int := 0
  mEffectsSettings : List EffectSettings := []
  mProgressCbInterval : Nat := 0
  mAudioMixStoryBoardTS : Nat := 0
  mCurrentMediaBeginCutTime : Nat := 0
  mCurrentMediaVolumeValue : Nat := 0
  mSurface : Bool := false
  mAudioSink : Bool := false

/-- The member variables of `PreviewPlayer` (with those of `PreviewPlayerBase`),
the `trace` of what the player has done so far, and `aborted`: the process has
ended in a failed `CHECK` or in a call through a pointer that holds no
object. -/
structure Player where
  mFlags : Flags := {}
  cfg : Config := {}
  mQueueStarted : Bool := false
  mUri : Uri := {}
  mExtractorFlagsCanSeek : Bool := false
  mVideoTrack : Option MediaSource := none
  mVideoSource : Option MediaSource := none
  mAudioTrack : Option MediaSource := none
  mAudioSource : Option MediaSource := none
  mAudioPlayer : Option AudioPlayer := none
  mVideoRenderer : Bool := false
  mVideoRendererIsPreview : Bool := false
  mTimeSource : Option TimeSourceRef := none
  mVideoBuffer : Option MediaBuffer := none
  mDurationUs : Int := -1
  mVideoWidth : Int := -1
  mVideoHeight : Int := -1
  mTimeSourceDeltaUs : Int := 0
  mVideoTimeUs : Int := 0
  mSeeking : SeekType := SeekType.NO_SEEK
  mSeekNotificationSent : Bool := false
  mSeekTimeUs : Int := 0
  mWatchForAudioSeekComplete : Bool := false
  mWatchForAudioEOS : Bool := false
  mVideoEventPending : Bool := false
  mStreamDoneEventPending : Bool := false
  mBufferingEventPending : Bool := false
  mAudioStatusEventPending : Bool := false
  mVideoLagEventPending : Bool := false
  mProgressCbEventPending : Bool := false
  mOverlayUpdateEventPending : Bool := false
  mIsAsyncPrepare : Bool := false
  mPrepareResult : Status := Status.OK
  mStreamDoneStatus : Status := Status.OK
  mIsVideoSourceJpg : Bool := false
  mDecodedVideoTs : Int := 0
  mCurrentVideoEffect : EffectMask := VIDEO_EFFECT_NONE
  mIsFiftiesEffectStarted : Bool := false
  mOverlayUpdateEventPosted : Bool := false
  mCurrFramingEffectIndex : Nat := 0
  mNumberDecVideoFrames : Nat := 0
  mStartNextPlayer : Bool := false
  mIsChangeSourceRequired : Bool := true
  aborted : Bool := false
  trace : List Action := []

/-- Number of values of a 32-bit unsigned integer. -/
def UINT32 : Nat := 4294967296

/-- Number of values of a 64-bit unsigned integer. -/
def UINT64 : Nat := 18446744073709551616

/-! ## Event queue, listener and the small helpers of `PreviewPlayerBase` -/

/-- Append one action to the trace. -/
def emit (a : Action) (s : Player) : Player :=
  { s with trace := s.trace ++ [a] }

/-- `PreviewPlayerBase::notifyListener_l`: the call `listener->sendEvent`. -/
def notifyListener_l (msg : Msg) (ext1 ext2 : Int) (s : Player) : Player :=
  emit (Action.notify msg ext1 ext2) s

/-- `PreviewPlayerBase::postVideoEvent_l`; the C++ default argument is `-1`. -/
def postVideoEvent_l (delayUs : Int) (s : Player) : Player :=
  if s.mVideoEventPending then s
  else
    { s with
      mVideoEventPending := true,
      trace := s.trace ++ [Action.post Event.video (if delayUs < 0 then 10000 else delayUs)] }

/-- `PreviewPlayerBase::postStreamDoneEvent_l`. -/
def postStreamDoneEvent_l (status : Status) (s : Player) : Player :=
  if s.mStreamDoneEventPending then s
  else
    { s with
      mStreamDoneEventPending := true,
      mStreamDoneStatus := status,
      trace := s.trace ++ [Action.post Event.streamDone 0] }

/-- `PreviewPlayerBase::postBufferingEvent_l`. -/
def postBufferingEvent_l (s : Player) : Player :=
  if s.mBufferingEventPending then s
  else
    { s with
      mBufferingEventPending := true,
      trace := s.trace ++ [Action.post Event.buffering 1000000] }

/-- `PreviewPlayerBase::postVideoLagEvent_l`. -/
def postVideoLagEvent_l (s : Player) : Player :=
  if s.mVideoLagEventPending then s
  else
    { s with
      mVideoLagEventPending := true,
      trace := s.trace ++ [Action.post Event.videoLag 1000000] }

/-- `PreviewPlayerBase::postCheckAudioStatusEvent_l`. -/
def postCheckAudioStatusEvent_l (delayUs : Int) (s : Player) : Player :=
  if s.mAudioStatusEventPending then s
  else
    { s with
      mAudioStatusEventPending := true,
      trace := s.trace ++ [Action.post Event.checkAudioStatus delayUs] }

/-- `PreviewPlayer::postProgressCallbackEvent_l`. -/
def postProgressCallbackEvent_l (s : Player) : Player :=
  if s.mProgressCbEventPending then s
  else
    { s with
      mProgressCbEventPending := true,
      trace := s.trace ++ [Action.post Event.progressCb 0] }

/-- `PreviewPlayer::postOverlayUpdateEvent_l`. -/
def postOverlayUpdateEvent_l (s : Player) : Player :=
  if s.mOverlayUpdateEventPending then s
  else
    { s with
      mOverlayUpdateEventPending := true,
      trace := s.trace ++ [Action.post Event.overlayUpdate 0] }

/-- `PreviewPlayerBase::postAudioEOS`. -/
def postAudioEOS (delayUs : Int) (s : Player) : Player :=
  postCheckAudioStatusEvent_l delayUs s

/-- `PreviewPlayerBase::postAudioSeekComplete`. -/
def postAudioSeekComplete (s : Player) : Player :=
  postCheckAudioStatusEvent_l 0 s

namespace PreviewPlayerBase

/-- `PreviewPlayerBase::cancelPlayerEvents`. -/
def cancelPlayerEvents (keepBufferingGoing : Bool) (s : Player) : Player :=
  { s with
    mVideoEventPending := false,
    mStreamDoneEventPending := false,
    mAudioStatusEventPending := false,
    mVideoLagEventPending := false,
    mBufferingEventPending := if keepBufferingGoing then s.mBufferingEventPending else false,
    trace := s.trace ++
      [Action.cancel Event.video, Action.cancel Event.streamDone,
        Action.cancel Event.checkAudioStatus, Action.cancel Event.videoLag] ++
      (if keepBufferingGoing then [] else [Action.cancel Event.buffering]) }

end PreviewPlayerBase

/-- `PreviewPlayer::cancelPlayerEvents`. -/
def cancelPlayerEvents (s : Player) : Player :=
  { s with
    mVideoEventPending := false,
    mStreamDoneEventPending := false,
    mAudioStatusEventPending := false,
    mProgressCbEventPending := false,
    trace := s.trace ++
      [Action.cancel Event.video, Action.cancel Event.streamDone,
        Action.cancel Event.checkAudioStatus, Action.cancel Event.progressCb] }

/-- `PreviewPlayerBase::seekAudioIfNecessary_l` (no DRM handle). -/
def seekAudioIfNecessary_l (s : Player) : Player :=
  if s.mSeeking ≠ SeekType.NO_SEEK ∧ s.mVideoSource = none ∧ s.mAudioPlayer ≠ none then
    { s with
      mWatchForAudioSeekComplete := true,
      mWatchForAudioEOS := true,
      trace := s.trace ++ [Action.audioPlayer (AudioCall.seekTo s.mSeekTimeUs)] }
  else s

/-- `PreviewPlayerBase::pause_l` after `cancelPlayerEvents`: the audio player is
paused when it runs, and `PLAYING` is cleared. -/
def pause_l_stop (at_eos : Bool) (s : Player) : Player :=
  if s.mAudioPlayer ≠ none ∧ s.mFlags.AUDIO_RUNNING = true then
    { s with
      mFlags := { s.mFlags with AUDIO_RUNNING := false, PLAYING := false },
      trace := s.trace ++ [Action.audioPlayer (AudioCall.pause at_eos)] }
  else { s with mFlags := { s.mFlags with PLAYING := false } }

/-- `PreviewPlayerBase::pause_l` (no DRM handle; battery accounting left out). -/
def pause_l (at_eos : Bool) (s : Player) : Status × Player :=
  if !s.mFlags.PLAYING then (Status.OK, s)
  else (Status.OK, pause_l_stop at_eos (PreviewPlayerBase.cancelPlayerEvents true s))

/-- `PreviewPlayerBase::pause`. -/
def pause (s : Player) : Status × Player :=
  pause_l false { s with mFlags := { s.mFlags with CACHE_UNDERRUN := false } }

/-- `PreviewPlayerBase::finishSeekIfNecessary` (no DRM handle). -/
def finishSeekIfNecessary (videoTimeUs : Int) (s : Player) : Player :=
  if s.mSeeking = SeekType.SEEK_VIDEO_ONLY then { s with mSeeking := SeekType.NO_SEEK }
  else if s.mSeeking = SeekType.NO_SEEK ∨ s.mFlags.SEEK_PREVIEW = true then s
  else if s.mAudioPlayer ≠ none then
    { s with
      mWatchForAudioSeekComplete := true,
      mWatchForAudioEOS := true,
      mFlags := { s.mFlags with FIRST_FRAME := true },
      mSeeking := SeekType.NO_SEEK,
      trace := s.trace ++ [Action.audioPlayer
        (AudioCall.seekTo (if videoTimeUs < 0 then s.mSeekTimeUs else videoTimeUs))] }
  else if !s.mSeekNotificationSent then
    { s with
      mSeekNotificationSent := true,
      mFlags := { s.mFlags with FIRST_FRAME := true },
      mSeeking := SeekType.NO_SEEK,
      trace := s.trace ++ [Action.notify Msg.MEDIA_SEEK_COMPLETE 0 0] }
  else
    { s with
      mFlags := { s.mFlags with FIRST_FRAME := true },
      mSeeking := SeekType.NO_SEEK }

/-- `PreviewPlayerBase::abortPrepare` (called with `err != OK`). It clears
`PREPARING_CONNECTED`, the bit 2048 that is `INFORMED_AV_EOS`. -/
def abortPrepare (err : Status) (s : Player) : Player :=
  { s with
    mPrepareResult := err,
    mFlags := { s.mFlags with
      PREPARING := false, PREPARE_CANCELLED := false, INFORMED_AV_EOS := false },
    trace := s.trace ++ (if s.mIsAsyncPrepare then [Action.notifyError err] else []) }

/-- `PreviewPlayerBase::notifyVideoSize_l`: reports the size taken from the
format of `mVideoSource`. -/
def notifyVideoSize_l (s : Player) : Player :=
  match s.mVideoSource with
  | some v => notifyListener_l Msg.MEDIA_SET_VIDEO_SIZE v.width v.height s
  | none => s

/-- The listener calls at the start of `finishAsyncPrepare_l`, made for an
asynchronous prepare only. -/
def finishAsyncPrepare_notify (s : Player) : Player :=
  if s.mIsAsyncPrepare then
    notifyListener_l Msg.MEDIA_PREPARED 0 0
      (if s.mVideoSource = none then notifyListener_l Msg.MEDIA_SET_VIDEO_SIZE 0 0 s
        else notifyVideoSize_l s)
  else s

namespace PreviewPlayerBase

/-- `PreviewPlayerBase::finishAsyncPrepare_l`. It clears `PREPARING_CONNECTED`,
the bit 2048 that is `INFORMED_AV_EOS`. -/
def finishAsyncPrepare_l (s : Player) : Player :=
  let t := finishAsyncPrepare_notify s
  { t with
    mPrepareResult := Status.OK,
    mFlags := { t.mFlags with
      PREPARING := false, PREPARE_CANCELLED := false, INFORMED_AV_EOS := false,
      PREPARED := true } }

/-- `PreviewPlayerBase::prepareAsync_l`. -/
def prepareAsync_l (s : Player) : Status × Player :=
  if s.mFlags.PREPARING then (Status.UNKNOWN_ERROR, s)
  else
    (Status.OK, { s with
      mQueueStarted := true,
      mFlags := { s.mFlags with PREPARING := true },
      trace := s.trace ++ [Action.post Event.asyncPrepare 0] })

/-- `PreviewPlayerBase::prepareAsync`. -/
def prepareAsync (s : Player) : Status × Player :=
  if s.mFlags.PREPARING then (Status.UNKNOWN_ERROR, s)
  else prepareAsync_l { s with mIsAsyncPrepare := true }

/-- `PreviewPlayerBase::onPrepareAsyncEvent` after its error exits: the sources
are in place and `PREPARING_CONNECTED` is set, the bit 2048 that is
`INFORMED_AV_EOS`. -/
def onPrepareAsyncEvent_connected (vt vs at_ as_ : Option MediaSource) (canSeek : Bool)
    (s : Player) : Player :=
  { s with
    mVideoTrack := vt, mVideoSource := vs, mAudioTrack := at_, mAudioSource := as_,
    mExtractorFlagsCanSeek := canSeek,
    mFlags := { s.mFlags with INFORMED_AV_EOS := true } }

/-- `PreviewPlayerBase::onPrepareAsyncEvent`, with the work of
`finishSetDataSource_l`, `initVideoDecoder` and `initAudioDecoder` of the base
class given by `env.basePrepare`. -/
def onPrepareAsyncEvent (env : Env) (s : Player) : Player :=
  if s.mFlags.PREPARE_CANCELLED then abortPrepare Status.UNKNOWN_ERROR s
  else
    match env.basePrepare with
    | BasePrepare.abort err => abortPrepare err s
    | BasePrepare.done vt vs at_ as_ canSeek cached =>
      if cached then postBufferingEvent_l (onPrepareAsyncEvent_connected vt vs at_ as_ canSeek s)
      else finishAsyncPrepare_l (onPrepareAsyncEvent_connected vt vs at_ as_ canSeek s)

/-- The wait of `PreviewPlayerBase::prepare_l` on `mPreparedCondition`: it ends
when the prepare event, or for a cached source the buffering update that
follows it, has cleared `PREPARING`. -/
def prepare_l_wait (env : Env) (s : Player) : Player :=
  let t := onPrepareAsyncEvent env s
  if t.mFlags.PREPARING then finishAsyncPrepare_l t else t

/-- `PreviewPlayerBase::prepare_l`. -/
def prepare_l (env : Env) (s : Player) : Status × Player :=
  if s.mFlags.PREPARED then (Status.OK, s)
  else if s.mFlags.PREPARING then (Status.UNKNOWN_ERROR, s)
  else
    let t := prepare_l_wait env (prepareAsync_l { s with mIsAsyncPrepare := false }).2
    (t.mPrepareResult, t)

/-- `PreviewPlayerBase::startAudioPlayer_l`. -/
def startAudioPlayer_l (env : Env) (s : Player) : Status × Player :=
  if s.mAudioSource = none ∨ s.mAudioPlayer = none then (Status.OK, s)
  else if !s.mFlags.AUDIOPLAYER_STARTED then
    if env.audioStart ≠ Status.OK then
      (env.audioStart, { s with
        mFlags := { s.mFlags with AUDIOPLAYER_STARTED := true },
        trace := s.trace ++
          [Action.audioPlayer AudioCall.start, Action.notifyError env.audioStart] })
    else
      (Status.OK, { s with
        mFlags := { s.mFlags with AUDIOPLAYER_STARTED := true, AUDIO_RUNNING := true },
        mWatchForAudioEOS := true,
        trace := s.trace ++ [Action.audioPlayer AudioCall.start] })
  else
    (Status.OK, { s with
      mFlags := { s.mFlags with AUDIO_RUNNING := true },
      mWatchForAudioEOS := true,
      trace := s.trace ++ [Action.audioPlayer AudioCall.resume] })

end PreviewPlayerBase

/-- `PreviewPlayerBase::seekTo_l`, the video event posted when video playback
had completed before. -/
def seekTo_l_repost (s : Player) : Player :=
  if s.mFlags.PLAYING = true ∧ s.mVideoSource ≠ none ∧ s.mFlags.VIDEO_AT_EOS = true then
    postVideoEvent_l (-1) s
  else s

/-- `PreviewPlayerBase::seekTo_l`, the assignments that record the seek. -/
def seekTo_l_record (timeUs : Int) (s : Player) : Player :=
  { s with
    mSeeking := SeekType.SEEK, mSeekNotificationSent := false, mSeekTimeUs := timeUs,
    mFlags := { s.mFlags with AT_EOS := false, AUDIO_AT_EOS := false, VIDEO_AT_EOS := false } }

/-- `PreviewPlayerBase::seekTo_l`, the branch for a player that is not `PLAYING`:
seek-complete is notified at once and, for a prepared player with a video
source, one video event is posted under `SEEK_PREVIEW`. -/
def seekTo_l_paused (s : Player) : Player :=
  if !s.mFlags.PLAYING then
    if s.mFlags.PREPARED = true ∧ s.mVideoSource ≠ none then
      postVideoEvent_l (-1)
        { s with
          mSeekNotificationSent := true,
          mFlags := { s.mFlags with SEEK_PREVIEW := true },
          trace := s.trace ++ [Action.notify Msg.MEDIA_SEEK_COMPLETE 0 0] }
    else
      { s with
        mSeekNotificationSent := true,
        trace := s.trace ++ [Action.notify Msg.MEDIA_SEEK_COMPLETE 0 0] }
  else s

/-- The statements of `PreviewPlayerBase::seekTo_l` that follow its
`CACHE_UNDERRUN` block. -/
def seekTo_l_body (timeUs : Int) (s : Player) : Status × Player :=
  (Status.OK,
    seekTo_l_paused (seekAudioIfNecessary_l (seekTo_l_record timeUs (seekTo_l_repost s))))

namespace PreviewPlayerBase

/-- `PreviewPlayerBase::play_l`, the call of `prepare_l` for a player that is
not `PREPARED`. -/
def play_l_prepare (env : Env) (s : Player) : Status × Player :=
  if !s.mFlags.PREPARED then prepare_l env s else (Status.OK, s)

/-- `PreviewPlayerBase::play_l`, the creation of an audio player when the player
has an audio source, no audio player and an audio sink. -/
def play_l_audioPlayer (s : Player) : Player :=
  if s.mAudioSource ≠ none ∧ s.mAudioPlayer = none ∧ s.cfg.mAudioSink = true then
    seekAudioIfNecessary_l
      { s with
        mAudioPlayer := some { source := s.mAudioSource },
        mTimeSource := some TimeSourceRef.audioPlayer,
        trace := s.trace ++ [Action.audioPlayer AudioCall.setSource] }
  else s

/-- `PreviewPlayerBase::play_l`, the start of the audio player of a clip without
video. -/
def play_l_start (env : Env) (s : Player) : Status × Player :=
  if s.mAudioSource ≠ none ∧ s.mVideoSource = none then startAudioPlayer_l env s
  else (Status.OK, s)

/-- `PreviewPlayerBase::play_l`, the exit after a failed start of the audio
player. -/
def play_l_fail (s : Player) : Player :=
  { s with
    mAudioPlayer := none,
    mFlags := { s.mFlags with PLAYING := false, FIRST_FRAME := false } }

/-- `PreviewPlayerBase::play_l`, the choice of the system clock. -/
def play_l_clock (s : Player) : Player :=
  if s.mTimeSource = none ∧ s.mAudioPlayer = none then
    { s with mTimeSource := some TimeSourceRef.system }
  else s

/-- `PreviewPlayerBase::play_l`, the first video event and the video lag event. -/
def play_l_kick (s : Player) : Player :=
  if s.mVideoSource ≠ none then
    if s.mAudioSource ≠ none then postVideoLagEvent_l (postVideoEvent_l (-1) s)
    else postVideoEvent_l (-1) s
  else s

/-- `PreviewPlayerBase::play_l`, the seek to the start of a player that is
`AT_EOS`. Every caller of `play_l` clears `CACHE_UNDERRUN` just before the call
and nothing in `play_l` sets it, so this `seekTo_l(0)` runs the statements after
the `CACHE_UNDERRUN` block. -/
def play_l_replay (s : Player) : Player :=
  if s.mFlags.AT_EOS then (seekTo_l_body 0 s).2 else s

/-- `PreviewPlayerBase::play_l` from `mFlags |= PLAYING` on. -/
def play_l_run (env : Env) (s : Player) : Status × Player :=
  let a := play_l_start env (play_l_audioPlayer
    { s with mFlags := { s.mFlags with PLAYING := true, FIRST_FRAME := true } })
  if a.1 ≠ Status.OK then (a.1, play_l_fail a.2)
  else (Status.OK, play_l_replay (play_l_kick (play_l_clock a.2)))

/-- `PreviewPlayerBase::play_l` (no DRM handle; battery accounting left out;
`CHECK(!(mFlags & AUDIO_RUNNING))` is not modelled). -/
def play_l (env : Env) (s : Player) : Status × Player :=
  if s.mFlags.PLAYING then (Status.OK, { s with mFlags := { s.mFlags with SEEK_PREVIEW := false } })
  else
    let r := play_l_prepare env { s with mFlags := { s.mFlags with SEEK_PREVIEW := false } }
    if r.1 ≠ Status.OK then r else play_l_run env r.2

end PreviewPlayerBase

/-- `PreviewPlayerBase::seekTo_l`, the `CACHE_UNDERRUN` block. -/
def seekTo_l_underrun (env : Env) (s : Player) : Player :=
  if s.mFlags.CACHE_UNDERRUN then
    (PreviewPlayerBase.play_l env
      { s with mFlags := { s.mFlags with CACHE_UNDERRUN := false } }).2
  else s

/-- `PreviewPlayerBase::seekTo_l`. -/
def seekTo_l (env : Env) (timeUs : Int) (s : Player) : Status × Player :=
  seekTo_l_body timeUs (seekTo_l_underrun env s)

/-! ## `PreviewPlayer` -/

/-- `PreviewPlayer::updateSizeToRender`. -/
def updateSizeToRender (s : Player) : Player :=
  if s.mVideoRenderer then emit Action.updateVideoSize s else s

/-- `PreviewPlayer::initRenderer_l`; it always returns `OK`. -/
def initRenderer_l (s : Player) : Player :=
  if s.cfg.mSurface = true ∧ s.mVideoRenderer = false then
    if s.mVideoSource ≠ none then
      { s with mVideoRenderer := true, trace := s.trace ++ [Action.updateVideoSize] }
    else { s with mVideoRenderer := true }
  else s

/-- `PreviewPlayerBase::setSurface` on a player without a video source
(`setNativeWindow_l` then returns at once; the reconfiguration of an existing
decoder is not modelled). -/
def setSurface (s : Player) : Player :=
  { s with cfg := { s.cfg with mSurface := true } }

/-- `PreviewPlayerBase::setAudioSink`. -/
def setAudioSink (sink : Bool) (s : Player) : Player :=
  { s with cfg := { s.cfg with mAudioSink := sink } }

/-- `PreviewPlayerBase::setLooping`. -/
def setLooping (shouldLoop : Bool) (s : Player) : Player :=
  { s with mFlags := { s.mFlags with LOOPING := shouldLoop } }

/-- `PreviewPlayer::loadEffectsSettings`. -/
def loadEffectsSettings (pEffectSettings : List EffectSettings) (s : Player) : Player :=
  { s with cfg := { s.cfg with mEffectsSettings := pEffectSettings } }

/-- `PreviewPlayer::setAudioMixStoryBoardParam`. -/
def setAudioMixStoryBoardParam (audioMixStoryBoardTS currentMediaBeginCutTime
    primaryTrackVolValue : Nat) (s : Player) : Player :=
  { s with cfg := { s.cfg with
    mAudioMixStoryBoardTS := audioMixStoryBoardTS,
    mCurrentMediaBeginCutTime := currentMediaBeginCutTime,
    mCurrentMediaVolumeValue := primaryTrackVolValue } }

/-- `PreviewPlayer::setPlaybackBeginTime`. -/
def setPlaybackBeginTime (msec : Nat) (s : Player) : Player :=
  { s with cfg := { s.cfg with mPlayBeginTimeMsec := msec } }

/-- `PreviewPlayer::setPlaybackEndTime`. -/
def setPlaybackEndTime (msec : Nat) (s : Player) : Player :=
  { s with cfg := { s.cfg with mPlayEndTimeMsec := msec } }

/-- `PreviewPlayer::setStoryboardStartTime`. -/
def setStoryboardStartTime (msec : Nat) (s : Player) : Player :=
  { s with cfg := { s.cfg with
    mStoryboardStartTimeMsec := msec, mDecVideoTsStoryBoard := (msec : Int) * 1000 } }

/-- `PreviewPlayer::setProgressCallbackInterval`. -/
def setProgressCallbackInterval (cbInterval : Nat) (s : Player) : Player :=
  { s with cfg := { s.cfg with mProgressCbInterval := cbInterval } }

/-- `PreviewPlayer::resetJniCallbackTimeStamp`. -/
def resetJniCallbackTimeStamp (s : Player) : Player :=
  { s with cfg := { s.cfg with
    mDecVideoTsStoryBoard := (s.cfg.mStoryboardStartTimeMsec : Int) * 1000 } }

/-- `PreviewPlayer::setImageClipProperties`. -/
def setImageClipProperties (width height : Nat) (s : Player) : Player :=
  { s with mVideoWidth := width, mVideoHeight := height }

/-- The `switch` of `PreviewPlayer::setVideoPostProcessingNode`: the mask bit
of an effect type, `none` for `VIDEO_EFFECT_NONE`. -/
def effectOfType : VideoEffectType → Option VideoEffect
  | VideoEffectType.FadeFromBlack => some VideoEffect.FADEFROMBLACK
  | VideoEffectType.FadeToBlack => some VideoEffect.FADETOBLACK
  | VideoEffectType.BlackAndWhite => some VideoEffect.BLACKANDWHITE
  | VideoEffectType.Pink => some VideoEffect.PINK
  | VideoEffectType.Green => some VideoEffect.GREEN
  | VideoEffectType.Sepia => some VideoEffect.SEPIA
  | VideoEffectType.Negative => some VideoEffect.NEGATIVE
  | VideoEffectType.Framing => some VideoEffect.FRAMING
  | VideoEffectType.Fifties => some VideoEffect.FIFTIES
  | VideoEffectType.ColorRGB16 => some VideoEffect.COLOR_RGB16
  | VideoEffectType.Gradient => some VideoEffect.GRADIENT
  | VideoEffectType.other _ => none

/-- The mask `m | effect` when `enable` holds, `m & ~effect` otherwise. -/
def setBit (m : EffectMask) (effect : VideoEffect) (enable : Bool) : EffectMask :=
  fun k => if k = effect then enable else m k

/-- `PreviewPlayer::setVideoPostProcessingNode`. -/
def setVideoPostProcessingNode (type : VideoEffectType) (enable : Bool) (s : Player) : Player :=
  match effectOfType type with
  | none => s
  | some effect =>
    if enable then
      if !s.mCurrentVideoEffect effect then
        { s with
          mCurrentVideoEffect := setBit s.mCurrentVideoEffect effect true,
          mIsFiftiesEffectStarted :=
            if effect = VideoEffect.FIFTIES then true else s.mIsFiftiesEffectStarted }
      else s
    else
      if s.mCurrentVideoEffect effect then
        { s with mCurrentVideoEffect := setBit s.mCurrentVideoEffect effect false }
      else s

/-- `PreviewPlayer::startAudioPlayer_l`. -/
def startAudioPlayer_l (env : Env) (s : Player) : Status × Player :=
  if s.mAudioSource = none ∨ s.mAudioPlayer = none then (Status.OK, s)
  else if !s.mFlags.AUDIOPLAYER_STARTED then
    if env.audioStart ≠ Status.OK then
      (env.audioStart, { s with
        mFlags := { s.mFlags with AUDIOPLAYER_STARTED := true },
        trace := s.trace ++
          [Action.audioPlayer AudioCall.start, Action.notifyError env.audioStart] })
    else
      (Status.OK, { s with
        mFlags := { s.mFlags with AUDIOPLAYER_STARTED := true, AUDIO_RUNNING := true },
        mWatchForAudioEOS := true,
        trace := s.trace ++ [Action.audioPlayer AudioCall.start] })
  else
    (Status.OK, { s with
      mFlags := { s.mFlags with AUDIO_RUNNING := true },
      mWatchForAudioEOS := true,
      trace := s.trace ++ [Action.audioPlayer AudioCall.resume] })

/-- The test of `PreviewPlayer::setAudioPlayer` that keeps the source of the
shared audio player: the video source is not known to be a real decoder, and
the source of the audio player and the audio source of this player are both
the dummy audio source. -/
def keepsAudioSource (anAudioSource : MediaSource) (s : Player) : Bool :=
  !(match s.mVideoSource with
    | some v => v.hasDecoderComponent && !v.isDummy
    | none => false)
  && (anAudioSource.hasDecoderComponent && anAudioSource.isDummy)
  && (match s.mAudioSource with
    | some a => a.hasDecoderComponent && a.isDummy
    | none => false)

/-- The statements of `PreviewPlayer::setAudioPlayer` after its `CHECK`. -/
def setAudioPlayer_attach (audioPlayer : AudioPlayer) (s : Player) : Status × Player :=
  match audioPlayer.source with
  | none => (Status.OK, { s with mAudioPlayer := some audioPlayer, mIsChangeSourceRequired := true })
  | some anAudioSource =>
    if keepsAudioSource anAudioSource s then
      (Status.OK, { s with
        mIsChangeSourceRequired := false,
        mAudioPlayer := some { audioPlayer with
          source := some { anAudioSource with
            durationUs := some ((s.cfg.mPlayEndTimeMsec : Int) * 1000) } },
        trace := s.trace ++
          [Action.audioSource (SourceCall.setDuration ((s.cfg.mPlayEndTimeMsec : Int) * 1000)),
            Action.audioSource SourceCall.stop] })
    else
      (Status.OK, { s with mAudioPlayer := some audioPlayer, mIsChangeSourceRequired := true })

/-- `PreviewPlayer::setAudioPlayer`. It begins with `CHECK(!(mFlags & PLAYING))`:
on a `PLAYING` player the process aborts and the call does not return (the
status of the pair is of no meaning then). -/
def setAudioPlayer (audioPlayer : AudioPlayer) (s : Player) : Status × Player :=
  if s.mFlags.PLAYING then (Status.UNKNOWN_ERROR, { s with aborted := true })
  else setAudioPlayer_attach audioPlayer s

/-- `PreviewPlayer::onStreamDone`, the branch for a status other than
`ERROR_END_OF_STREAM`. -/
def onStreamDone_error (s : Player) : Player :=
  let t := (pause_l true (emit (Action.notifyError s.mStreamDoneStatus) s)).2
  { t with mFlags := { t.mFlags with AT_EOS := true } }

/-- `PreviewPlayer::onStreamDone`, the looping branch. -/
def onStreamDone_loop (env : Env) (s : Player) : Player :=
  let t := (seekTo_l env 0 s).2
  if t.mVideoSource ≠ none then postVideoEvent_l (-1) t else t

/-- `PreviewPlayer::onStreamDone`, after `pause_l`: `MEDIA_PLAYBACK_COMPLETE` is
notified unless `INFORMED_AV_EOS` is set, and `AT_EOS` is set. -/
def onStreamDone_inform (s : Player) : Player :=
  if !s.mFlags.INFORMED_AV_EOS then
    { s with
      mFlags := { s.mFlags with INFORMED_AV_EOS := true, AT_EOS := true },
      trace := s.trace ++ [Action.notify Msg.MEDIA_PLAYBACK_COMPLETE 0 0] }
  else { s with mFlags := { s.mFlags with AT_EOS := true } }

/-- The value `allDone` of `PreviewPlayer::onStreamDone`. -/
def allDone (s : Player) : Bool :=
  (s.mVideoSource = none || s.mFlags.VIDEO_AT_EOS)
    && (s.mAudioSource = none || s.mFlags.AUDIO_AT_EOS)

/-- `PreviewPlayer::onStreamDone` for a pending event, after the pending mark is
cleared. -/
def onStreamDone_fire (env : Env) (s : Player) : Player :=
  if s.mStreamDoneStatus ≠ Status.ERROR_END_OF_STREAM then onStreamDone_error s
  else if !allDone s then s
  else if s.mFlags.LOOPING || s.mFlags.AUTO_LOOPING then onStreamDone_loop env s
  else onStreamDone_inform (pause_l true s).2

/-- `PreviewPlayer::onStreamDone`. -/
def onStreamDone (env : Env) (s : Player) : Player :=
  if !s.mStreamDoneEventPending then s
  else onStreamDone_fire env { s with mStreamDoneEventPending := false }

/-- `PreviewPlayer::finishAsyncPrepare_l`. -/
def finishAsyncPrepare_l (s : Player) : Player :=
  let t := finishAsyncPrepare_notify s
  { t with
    mPrepareResult := Status.OK,
    mFlags := { t.mFlags with PREPARING := false, PREPARE_CANCELLED := false, PREPARED := true } }

/-- The duration update of `initAudioDecoder` and `initVideoDecoder`. -/
def updateDuration (track : Option MediaSource) (s : Player) : Player :=
  match track with
  | some t =>
    match t.durationUs with
    | some durationUs =>
      if s.mDurationUs < 0 ∨ durationUs > s.mDurationUs then { s with mDurationUs := durationUs }
      else s
    | none => s
  | none => s

/-- `PreviewPlayer::initVideoDecoder` once the renderer exists: `env.videoCodec`
is what `OMXCodec::Create` returns and `env.videoStart` the status of starting
it. -/
def initVideoDecoder_create (env : Env) (s : Player) : Status × Player :=
  match env.videoCodec with
  | some v =>
    if env.videoStart ≠ Status.OK then
      (env.videoStart,
        { updateSizeToRender (updateDuration s.mVideoTrack { s with mVideoSource := some v }) with
          mVideoSource := none })
    else
      (Status.OK, updateSizeToRender (updateDuration s.mVideoTrack { s with mVideoSource := some v }))
  | none => (Status.UNKNOWN_ERROR, { s with mVideoSource := none })

/-- `PreviewPlayer::initVideoDecoder`. -/
def initVideoDecoder (env : Env) (s : Player) : Status × Player :=
  if !(initRenderer_l s).mVideoRenderer then (Status.UNKNOWN_ERROR, initRenderer_l s)
  else initVideoDecoder_create env (initRenderer_l s)

/-- `PreviewPlayer::initAudioDecoder`, the choice of `mAudioSource`: a raw track
is its own source, otherwise `env.audioCodec` is the decoder wrapped in the
sample-rate converter. -/
def initAudioDecoder_source (env : Env) (s : Player) : Player :=
  if (match s.mAudioTrack with
      | some t => t.mimeRaw
      | none => false) then { s with mAudioSource := s.mAudioTrack }
  else if env.audioCodec ≠ none then { s with mAudioSource := env.audioCodec }
  else s

/-- `PreviewPlayer::initAudioDecoder` (called with `mAudioTrack` set) after the
choice of `mAudioSource`. -/
def initAudioDecoder_start (env : Env) (s : Player) : Status × Player :=
  if s.mAudioSource ≠ none then
    if env.audioSourceStart ≠ Status.OK then
      (env.audioSourceStart, { updateDuration s.mAudioTrack s with mAudioSource := none })
    else (Status.OK, updateDuration s.mAudioTrack s)
  else if (match s.mAudioTrack with
      | some t => t.mimeQcelp
      | none => false) then (Status.OK, s)
  else (Status.UNKNOWN_ERROR, s)

/-- `PreviewPlayer::initAudioDecoder`. -/
def initAudioDecoder (env : Env) (s : Player) : Status × Player :=
  initAudioDecoder_start env (initAudioDecoder_source env s)

/-- The source that `DummyAudioSource::Create` returns for the duration given. -/
def dummyAudioSource (durationUs : Int) : MediaSource :=
  { isDummy := true, durationUs := some durationUs, mimeRaw := true }

/-- `PreviewPlayer::setDataSource_l(const sp<MediaExtractor> &)`, the loop over
the tracks: the first video track and the first audio track are taken, and a
Vorbis file marked for it sets `AUTO_LOOPING`. -/
def setDataSource_l_tracks (extractor : Extractor) (s : Player) : Player :=
  { s with
    mVideoTrack := if extractor.videoTrack.isSome then extractor.videoTrack else s.mVideoTrack,
    mAudioTrack := if extractor.audioTrack.isSome then extractor.audioTrack else s.mAudioTrack,
    mFlags :=
      if extractor.audioTrack.isSome && extractor.autoLoop then
        { s.mFlags with AUTO_LOOPING := true }
      else s.mFlags }

/-- `PreviewPlayer::setDataSource_l(const sp<MediaExtractor> &)`: without an
audio track a dummy audio source becomes the audio track. -/
def setDataSource_l_extractor (env : Env) (extractor : Extractor) (s : Player) :
    Status × Player :=
  if extractor.audioTrack.isSome then
    (Status.OK, { setDataSource_l_tracks extractor s with
      mExtractorFlagsCanSeek := extractor.canSeek })
  else if env.dummyAudio then
    (Status.OK, { setDataSource_l_tracks extractor s with
      mAudioTrack := some (dummyAudioSource ((s.cfg.mPlayEndTimeMsec : Int) * 1000)),
      mExtractorFlagsCanSeek := extractor.canSeek })
  else if extractor.videoTrack.isSome then
    (Status.OK, { setDataSource_l_tracks extractor s with
      mAudioTrack := none,
      mExtractorFlagsCanSeek := extractor.canSeek })
  else (Status.UNKNOWN_ERROR, { setDataSource_l_tracks extractor s with mAudioTrack := none })

/-- `PreviewPlayer::setDataSource_l_jpg` after the dummy audio source has
started: the still-image source is created and started. -/
def setDataSource_l_jpg_video (env : Env) (s : Player) : Player :=
  { s with
    mDurationUs :=
      (((s.cfg.mPlayEndTimeMsec + UINT32 - s.cfg.mPlayBeginTimeMsec % UINT32) % UINT32 : Nat) : Int)
        * 1000,
    mVideoSource :=
      if env.dummyVideoStart ≠ Status.OK then none
      else some { env.dummyVideo with isDummy := true },
    mVideoTrack := some { env.dummyVideo with isDummy := true },
    mIsVideoSourceJpg := if env.dummyVideoStart ≠ Status.OK then s.mIsVideoSourceJpg else true,
    trace := s.trace ++ (if s.mVideoRenderer then [Action.updateVideoSize] else []) }

/-- `PreviewPlayer::setDataSource_l_jpg`; on a start failure it returns `err`,
which is `M4NO_ERROR`, that is `OK`. -/
def setDataSource_l_jpg (env : Env) (s : Player) : Status × Player :=
  if env.dummyAudioStart ≠ Status.OK then
    (Status.OK, { s with
      mAudioSource := none,
      mAudioTrack := some (dummyAudioSource ((s.cfg.mPlayEndTimeMsec : Int) * 1000)) })
  else
    (Status.OK, setDataSource_l_jpg_video env { s with
      mAudioSource := some (dummyAudioSource ((s.cfg.mPlayEndTimeMsec : Int) * 1000)),
      mAudioTrack := some (dummyAudioSource ((s.cfg.mPlayEndTimeMsec : Int) * 1000)) })

/-- `PreviewPlayer::finishSetDataSource_l`: `env.dataSource` tells whether
`DataSource::CreateFromURI` returned a source and `env.extractor` is what
`MediaExtractor::Create` returns. -/
def finishSetDataSource_l (env : Env) (s : Player) : Status × Player :=
  if !env.dataSource then (Status.UNKNOWN_ERROR, s)
  else
    match (if s.mUri.rgb then none else env.extractor) with
    | none => setDataSource_l_jpg env s
    | some extractor => setDataSource_l_extractor env extractor s

/-- `PreviewPlayer::onPrepareAsyncEvent`, the call of `finishSetDataSource_l`. -/
def onPrepareAsyncEvent_source (env : Env) (s : Player) : Status × Player :=
  if s.mUri.size > 0 then finishSetDataSource_l env s else (Status.OK, s)

/-- `PreviewPlayer::onPrepareAsyncEvent`, the call of `initVideoDecoder`. -/
def onPrepareAsyncEvent_video (env : Env) (s : Player) : Status × Player :=
  if s.mVideoTrack ≠ none ∧ s.mVideoSource = none then initVideoDecoder env s
  else (Status.OK, s)

/-- `PreviewPlayer::onPrepareAsyncEvent`, the call of `initAudioDecoder`. -/
def onPrepareAsyncEvent_audio (env : Env) (s : Player) : Status × Player :=
  if s.mAudioTrack ≠ none ∧ s.mAudioSource = none then initAudioDecoder env s
  else (Status.OK, s)

/-- `PreviewPlayer::onPrepareAsyncEvent` from the call of `initAudioDecoder` on. -/
def onPrepareAsyncEvent_finish (env : Env) (s : Player) : Player :=
  let r := onPrepareAsyncEvent_audio env s
  if r.1 ≠ Status.OK then abortPrepare r.1 r.2 else finishAsyncPrepare_l r.2

/-- `PreviewPlayer::onPrepareAsyncEvent` from the call of `initVideoDecoder` on. -/
def onPrepareAsyncEvent_decoders (env : Env) (s : Player) : Player :=
  let r := onPrepareAsyncEvent_video env s
  if r.1 ≠ Status.OK then abortPrepare r.1 r.2 else onPrepareAsyncEvent_finish env r.2

/-- `PreviewPlayer::onPrepareAsyncEvent`. -/
def onPrepareAsyncEvent (env : Env) (s : Player) : Player :=
  if s.mFlags.PREPARE_CANCELLED then abortPrepare Status.UNKNOWN_ERROR s
  else
    let r := onPrepareAsyncEvent_source env s
    if r.1 ≠ Status.OK then abortPrepare r.1 r.2 else onPrepareAsyncEvent_decoders env r.2

/-- `PreviewPlayer::prepareAsync_l`. -/
def prepareAsync_l (s : Player) : Status × Player :=
  if s.mFlags.PREPARING then (Status.UNKNOWN_ERROR, s)
  else
    (Status.OK, { s with
      mQueueStarted := true,
      mFlags := { s.mFlags with PREPARING := true },
      trace := s.trace ++ [Action.post Event.asyncPrepare 0] })

/-- `PreviewPlayer::prepare_l`. The wait on `mPreparedCondition` ends when the
prepare event posted by `prepareAsync_l` has run. -/
def prepare_l (env : Env) (s : Player) : Status × Player :=
  if s.mFlags.PREPARED then (Status.OK, s)
  else if s.mFlags.PREPARING then (Status.UNKNOWN_ERROR, s)
  else
    let t := onPrepareAsyncEvent env (prepareAsync_l { s with mIsAsyncPrepare := false }).2
    (t.mPrepareResult, t)

/-- `PreviewPlayer::prepare`. -/
def prepare (env : Env) (s : Player) : Status × Player :=
  prepare_l env s

/-- First step of `PreviewPlayer::reset_l`: a prepare in progress is cancelled
and waited for; the prepare event finds `PREPARE_CANCELLED` and aborts. -/
def reset_cancelPrepare (s : Player) : Player :=
  if s.mFlags.PREPARING then
    abortPrepare Status.UNKNOWN_ERROR
      { s with mFlags := { s.mFlags with PREPARE_CANCELLED := true } }
  else s

/-- The audio shutdown of `PreviewPlayer::reset_l`. -/
def reset_audio (s : Player) : Player :=
  { s with
    mAudioTrack := none, mVideoTrack := none,
    mAudioSource := none, mTimeSource := none, mAudioPlayer := none,
    trace := s.trace ++
      (if s.mAudioPlayer = none ∧ s.mAudioSource ≠ none then [Action.audioSource SourceCall.stop]
        else []) }

/-- The video shutdown of `PreviewPlayer::reset_l`. -/
def reset_video (s : Player) : Player :=
  { s with
    mVideoBuffer := none,
    mVideoSource := none,
    trace := s.trace ++
      (match s.mVideoBuffer with
        | some b => [Action.release b.timeUs]
        | none => []) ++
      (if s.mVideoSource ≠ none then [Action.videoSource SourceCall.stop] else []) }

/-- The closing assignments of `PreviewPlayer::reset_l`. -/
def reset_fields (s : Player) : Player :=
  { s with
    mDurationUs := -1,
    mFlags := {},
    mExtractorFlagsCanSeek := false,
    mVideoWidth := -1,
    mVideoHeight := -1,
    mTimeSourceDeltaUs := 0,
    mVideoTimeUs := 0,
    mSeeking := SeekType.NO_SEEK,
    mSeekNotificationSent := false,
    mSeekTimeUs := 0,
    mUri := {},
    mCurrentVideoEffect := VIDEO_EFFECT_NONE,
    mIsVideoSourceJpg := false }

/-- `PreviewPlayer::reset_l`. -/
def reset_l (s : Player) : Player :=
  reset_fields (reset_video (reset_audio (cancelPlayerEvents (reset_cancelPrepare s))))

/-- `PreviewPlayer::reset`. -/
def reset (s : Player) : Player :=
  reset_l s

/-- `PreviewPlayer::setDataSource(const char *uri, ...)`. -/
def setDataSource (uri : Uri) (s : Player) : Status × Player :=
  (Status.OK, { reset_l s with mUri := uri })

/-- `PreviewPlayer::seekTo`. -/
def seekTo (env : Env) (timeUs : Int) (s : Player) : Status × Player :=
  if s.mExtractorFlagsCanSeek || s.mIsVideoSourceJpg then seekTo_l env timeUs s
  else (Status.OK, s)

/-! ## The video event loop -/

/-- Record what is left of the decoder output after a `read`. -/
def setReads (rest : List ReadResult) (s : Player) : Player :=
  { s with mVideoSource := s.mVideoSource.map (fun v => { v with reads := rest }) }

/-- `PreviewPlayer::onVideoEvent`, the start of a seek: the audio player and the
audio source are paused before the video source is read. -/
def pauseAudioForSeek (s : Player) : Player :=
  if s.mSeeking ≠ SeekType.NO_SEEK ∧ s.mAudioSource ≠ none then
    if s.mAudioPlayer ≠ none ∧ s.mFlags.AUDIO_RUNNING = true then
      { s with
        mFlags := { s.mFlags with AUDIO_RUNNING := false },
        trace := s.trace ++
          [Action.audioPlayer (AudioCall.pause false), Action.audioSource SourceCall.pause] }
    else emit (Action.audioSource SourceCall.pause) s
  else s

/-- The format of the video source after `INFO_FORMAT_CHANGED`. -/
def setVideoFormat (width height : Int) (s : Player) : Player :=
  { s with
    mVideoSource := s.mVideoSource.map (fun v => { v with width := width, height := height }) }

/-- `PreviewPlayer::onVideoEvent`, the renderer part of the `INFO_FORMAT_CHANGED`
branch. -/
def onFormatChanged_renderer (s : Player) : Player :=
  if s.mVideoRenderer then initRenderer_l { s with mVideoRendererIsPreview := false } else s

/-- `PreviewPlayer::onVideoEvent`, the `INFO_FORMAT_CHANGED` branch of the read
loop. -/
def onFormatChanged (width height : Int) (s : Player) : Player :=
  updateSizeToRender (onFormatChanged_renderer (notifyVideoSize_l (setVideoFormat width height s)))

/-- `PreviewPlayer::onVideoEvent`, the branch of the read loop for a `read` that
failed with a status other than `INFO_FORMAT_CHANGED`. -/
def onReadError (err : Status) (s : Player) : Player :=
  let t := finishSeekIfNecessary (-1) s
  postStreamDoneEvent_l err
    { t with
      mFlags := { t.mFlags with VIDEO_AT_EOS := true, AUDIO_AT_EOS := true },
      mOverlayUpdateEventPosted := false,
      mDecodedVideoTs := (t.cfg.mPlayEndTimeMsec : Int) * 1000 }

/-- The test of the read loop that discards a buffer: before the seek time
while seeking, before the begin cut time otherwise. -/
def skipBuffer (b : MediaBuffer) (s : Player) : Bool :=
  if s.mSeeking ≠ SeekType.NO_SEEK then decide (b.timeUs < s.mSeekTimeUs)
  else decide (Int.tdiv b.timeUs 1000 < (s.cfg.mPlayBeginTimeMsec : Int))

/-- The `for (;;)` loop of `PreviewPlayer::onVideoEvent` over the results of
the successive `read` calls. It ends with `mVideoBuffer` set, or through the
error branch with `mVideoBuffer` still `NULL`. -/
def readVideoLoop : List ReadResult → Player → Player
  | [], s => onReadError Status.ERROR_END_OF_STREAM (setReads [] s)
  | ReadResult.formatChanged w h :: rest, s => readVideoLoop rest (onFormatChanged w h s)
  | ReadResult.endOfStream :: rest, s =>
    onReadError Status.ERROR_END_OF_STREAM (setReads rest s)
  | ReadResult.error code :: rest, s => onReadError (Status.other code) (setReads rest s)
  | ReadResult.buffer b :: rest, s =>
    if b.rangeLength = 0 then readVideoLoop rest (emit (Action.release b.timeUs) s)
    else if skipBuffer b s then readVideoLoop rest (emit (Action.release b.timeUs) s)
    else { setReads rest s with mVideoBuffer := some b }

/-- `PreviewPlayer::onVideoEvent`, `if (!mVideoBuffer) { ... }`: a held buffer is
kept, otherwise the video source is read. -/
def fetchFrame (s : Player) : Player :=
  if s.mVideoBuffer ≠ none then s
  else
    match s.mVideoSource with
    | some v => readVideoLoop v.reads s
    | none => s

/-- `PreviewPlayer::onVideoEvent`, the frame counter and `mVideoTimeUs`. -/
def countFrame (timeUs : Int) (s : Player) : Player :=
  { s with mNumberDecVideoFrames := (s.mNumberDecVideoFrames + 1) % UINT32, mVideoTimeUs := timeUs }

/-- `PreviewPlayer::onVideoEvent`, the notification `0xAAAAAAAA` that starts the
next player. -/
def notifyStartNext (timeUs : Int) (s : Player) : Player :=
  if s.mStartNextPlayer = false ∧ (s.cfg.mPlayEndTimeMsec : Int) * 1000 - timeUs ≤ 1500000 then
    { s with
      mStartNextPlayer := true,
      trace := s.trace ++ [Action.notify Msg.START_NEXT_PLAYER 0 0] }
  else s

/-- `PreviewPlayer::onVideoEvent`, the start of the audio player when it is
not running. -/
def startAudioIfNeeded (env : Env) (s : Player) : Status × Player :=
  if s.mAudioPlayer ≠ none ∧ s.mFlags.AUDIO_RUNNING = false then startAudioPlayer_l env s
  else (Status.OK, s)

/-- `PreviewPlayer::onVideoEvent`, the choice of the clock `ts`. -/
def pickTimeSource (s : Player) : Option TimeSourceRef :=
  if s.mFlags.AUDIO_AT_EOS then some TimeSourceRef.system else s.mTimeSource

/-- `PreviewPlayer::onVideoEvent`, the first frame: `FIRST_FRAME` is cleared and
`mTimeSourceDeltaUs` is taken from `ts->getRealTimeUs()`. -/
def syncClock_first (env : Env) (timeUs : Int) (s : Player) : Player :=
  if s.mFlags.FIRST_FRAME then
    { s with
      mFlags := { s.mFlags with FIRST_FRAME := false },
      mTimeSourceDeltaUs := env.realTimeUs1 - timeUs }
  else s

/-- `PreviewPlayer::onVideoEvent`, `mTimeSourceDeltaUs` taken from the media time
mapping of the audio player when it has one. -/
def syncClock_mapping (env : Env) (s : Player) : Player :=
  if s.mFlags.AUDIO_AT_EOS = false ∧ s.mAudioPlayer ≠ none then
    match env.mediaTimeMapping with
    | some m => { s with mTimeSourceDeltaUs := m.1 - m.2 }
    | none => s
  else s

/-- `PreviewPlayer::onVideoEvent`, the update of `mTimeSourceDeltaUs`. -/
def syncClock (env : Env) (timeUs : Int) (s : Player) : Player :=
  syncClock_mapping env (syncClock_first env timeUs s)

/-- `PreviewPlayer::onVideoEvent`, `latenessUs`, once `mTimeSourceDeltaUs` is up
to date. -/
def latenessUs (env : Env) (wasSeeking : SeekType) (timeUs : Int) (s : Player) : Int :=
  if wasSeeking ≠ SeekType.NO_SEEK then 0
  else (env.realTimeUs2 - s.mTimeSourceDeltaUs) - timeUs

/-- `PreviewPlayer::onVideoEvent`, the branch `latenessUs > 40000`. -/
def dropLate (b : MediaBuffer) (s : Player) : Player :=
  postVideoEvent_l 0
    { s with mVideoBuffer := none, trace := s.trace ++ [Action.release b.timeUs] }

/-- `PreviewPlayer::onVideoEvent`, the branch `latenessUs < -25000`. -/
def waitEarly (s : Player) : Player :=
  postVideoEvent_l 25000 s

/-- `PreviewPlayer::onVideoEvent`, the renderer set-up before rendering. -/
def ensureRenderer (s : Player) : Player :=
  if s.mVideoRendererIsPreview = true ∨ s.mVideoRenderer = false then
    initRenderer_l { s with mVideoRendererIsPreview := false }
  else s

/-- `PreviewPlayer::onVideoEvent`, the end-of-stream signal at the end cut time. -/
def markEos (s : Player) : Player :=
  postStreamDoneEvent_l Status.ERROR_END_OF_STREAM
    { s with
      mFlags := { s.mFlags with VIDEO_AT_EOS := true, AUDIO_AT_EOS := true },
      mOverlayUpdateEventPosted := false,
      mDecodedVideoTs := (s.cfg.mPlayEndTimeMsec : Int) * 1000 }

/-- The end of the storyboard window of the clip as the first test of the effect
loop computes it, `(mDecVideoTsStoryBoard/1000) + mPlayEndTimeMsec -
mPlayBeginTimeMsec`: `mDecVideoTsStoryBoard` is an unsigned 64-bit member, so
the sum is unsigned and wraps when the begin cut exceeds the offset plus the
end cut. -/
def clipWindowEnd (c : Config) : Int :=
  (Int.tdiv c.mDecVideoTsStoryBoard 1000 + (c.mPlayEndTimeMsec : Int)
    - (c.mPlayBeginTimeMsec : Int)) % (UINT64 : Int)

/-- The first test of the effect loop, negated: the start time of the effect
lies in the storyboard window of the clip. -/
def effectBelongsToClip (e : EffectSettings) (c : Config) : Bool :=
  !(decide ((e.uiStartTime : Int) < Int.tdiv c.mDecVideoTsStoryBoard 1000)
    || decide ((e.uiStartTime : Int) ≥ clipWindowEnd c))

/-- The storyboard time of a frame in milliseconds,
`((timeUs+mDecVideoTsStoryBoard)/1000)-mPlayBeginTimeMsec`. -/
def frameStoryboardMs (timeUs : Int) (c : Config) : Int :=
  Int.tdiv (timeUs + c.mDecVideoTsStoryBoard) 1000 - (c.mPlayBeginTimeMsec : Int)

/-- The second test of the effect loop: the effect applies to the frame. The
sum `uiStartTime+uiDuration` is computed in 32 bits. -/
def effectAppliesToFrame (e : EffectSettings) (timeUs : Int) (c : Config) : Bool :=
  decide ((e.uiStartTime : Int) ≤ frameStoryboardMs timeUs c)
    && decide ((((e.uiStartTime + e.uiDuration) % UINT32 : Nat) : Int) ≥ frameStoryboardMs timeUs c)
    && decide (e.uiDuration ≠ 0)

/-- One round of the effect loop of `PreviewPlayer::onVideoEvent`. -/
def applyEffect (timeUs : Int) (s : Player) (e : EffectSettings) : Player :=
  if effectBelongsToClip e s.cfg then
    setVideoPostProcessingNode e.VideoEffectType (effectAppliesToFrame e timeUs s.cfg) s
  else s

/-- The effect loop of `PreviewPlayer::onVideoEvent`. -/
def applyEffects (timeUs : Int) (s : Player) : Player :=
  s.cfg.mEffectsSettings.foldl (applyEffect timeUs) s

/-- Conversion of an `int64_t` to `M4OSA_UInt32`. -/
def toUInt32 (x : Int) : Int := x % (UINT32 : Int)

/-- The test of the framing search: a framing effect whose window, taken one
millisecond in at both ends, holds the frame; everything is computed in 32
bits. -/
def framingMatches (e : EffectSettings) (s : Player) : Bool :=
  let timeMs := toUInt32 (Int.tdiv s.mDecodedVideoTs 1000)
  let timeOffset := toUInt32 (Int.tdiv s.cfg.mDecVideoTsStoryBoard 1000)
  let t := toUInt32 (timeMs + timeOffset - (s.cfg.mPlayBeginTimeMsec : Int))
  decide (e.VideoEffectType = VideoEffectType.Framing)
    && decide (toUInt32 ((e.uiStartTime : Int) + 1) ≤ t)
    && decide (toUInt32 ((e.uiStartTime : Int) - 1 + (e.uiDuration : Int)) ≥ t)

/-- The framing search of `PreviewPlayer::onVideoEvent`: the first index from
`index` on whose effect passes `framingMatches`. -/
def findFraming (s : Player) : List EffectSettings → Nat → Option Nat
  | [], _ => none
  | e :: es, index => if framingMatches e s then some index else findFraming s es (index + 1)

/-- `PreviewPlayer::onVideoEvent`, the overlay update indication while the
framing bit is set: the bit is cleared and, unless the overlay event has been
posted, the framing effect is looked up and the event posted. -/
def overlayUpdate_framing (s : Player) : Player :=
  if !s.mOverlayUpdateEventPosted then
    match findFraming s s.cfg.mEffectsSettings 0 with
    | some index =>
      postOverlayUpdateEvent_l
        { s with
          mCurrentVideoEffect := setBit s.mCurrentVideoEffect VideoEffect.FRAMING false,
          mCurrFramingEffectIndex := index,
          mOverlayUpdateEventPosted := true }
    | none =>
      { s with mCurrentVideoEffect := setBit s.mCurrentVideoEffect VideoEffect.FRAMING false }
  else { s with mCurrentVideoEffect := setBit s.mCurrentVideoEffect VideoEffect.FRAMING false }

/-- `PreviewPlayer::onVideoEvent`, the overlay update indication. -/
def overlayUpdate (s : Player) : Player :=
  if s.mCurrentVideoEffect VideoEffect.FRAMING then overlayUpdate_framing s
  else if s.mOverlayUpdateEventPosted then
    postOverlayUpdateEvent_l { s with mOverlayUpdateEventPosted := false }
  else s

/-- `PreviewPlayer::onVideoEvent`, the render call and the release of the buffer. -/
def renderFrame (b : MediaBuffer) (s : Player) : Player :=
  { s with
    mVideoBuffer := none,
    trace := s.trace ++
      (if s.mVideoRenderer then
        [Action.render b.timeUs s.mCurrentVideoEffect s.mIsVideoSourceJpg]
       else []) ++
      [Action.release b.timeUs] }

/-- `PreviewPlayer::onVideoEvent`, the progress callback. -/
def progressCallback (s : Player) : Player :=
  if s.mNumberDecVideoFrames ≥ s.cfg.mProgressCbInterval then
    { postProgressCallbackEvent_l s with mNumberDecVideoFrames := 0 }
  else s

/-- `PreviewPlayer::onVideoEvent`, the close of the function: stream done at the
cut time that ends the clip, otherwise the next video event. -/
def afterRender (wasSeeking : SeekType) (timeUs : Int) (s : Player) : Player :=
  if Int.tdiv timeUs 1000 ≥ (s.cfg.mPlayEndTimeMsec : Int) then markEos s
  else if wasSeeking ≠ SeekType.NO_SEEK ∧ s.mFlags.SEEK_PREVIEW = true then
    { s with mFlags := { s.mFlags with SEEK_PREVIEW := false } }
  else postVideoEvent_l (if s.mIsVideoSourceJpg then 33000 else 0) s

/-- `PreviewPlayer::onVideoEvent`, a frame past the cut time that ends the clip:
it is released without being rendered and stream done is signalled. -/
def dropPastEnd (b : MediaBuffer) (s : Player) : Player :=
  markEos { s with mVideoBuffer := none, trace := s.trace ++ [Action.release b.timeUs] }

/-- `PreviewPlayer::onVideoEvent`, a frame within the cut times: effects,
overlay indication, render, progress callback and the next event. -/
def renderAndAdvance (wasSeeking : SeekType) (b : MediaBuffer) (s : Player) : Player :=
  afterRender wasSeeking b.timeUs
    (progressCallback
      (renderFrame b
        (overlayUpdate (applyEffects b.timeUs { s with mDecodedVideoTs := b.timeUs }))))

/-- `PreviewPlayer::onVideoEvent` from the renderer set-up on, for a frame that
passed the AV-sync test. -/
def renderStage (wasSeeking : SeekType) (b : MediaBuffer) (s : Player) : Player :=
  if Int.tdiv b.timeUs 1000 > ((ensureRenderer s).cfg.mPlayEndTimeMsec : Int) then
    dropPastEnd b (ensureRenderer s)
  else renderAndAdvance wasSeeking b (ensureRenderer s)

/-- `PreviewPlayer::onVideoEvent`, the AV-sync test on the lateness computed
from the clock. -/
def avSync_decide (env : Env) (wasSeeking : SeekType) (b : MediaBuffer) (s : Player) : Player :=
  if latenessUs env wasSeeking b.timeUs s > 40000 then dropLate b s
  else if latenessUs env wasSeeking b.timeUs s < -25000 then waitEarly s
  else renderStage wasSeeking b s

/-- `PreviewPlayer::onVideoEvent`, the AV-sync test (skipped for a still image). -/
def avSync (env : Env) (wasSeeking : SeekType) (b : MediaBuffer) (s : Player) : Player :=
  if s.mIsVideoSourceJpg then renderStage wasSeeking b s
  else avSync_decide env wasSeeking b (syncClock env b.timeUs s)

/-- `PreviewPlayer::onVideoEvent` after the start of the audio player: without a
clock the frame is released, otherwise the AV-sync test follows. -/
def processFrame_sync (env : Env) (wasSeeking : SeekType) (b : MediaBuffer) (s : Player) :
    Player :=
  match pickTimeSource s with
  | none => { s with mVideoBuffer := none, trace := s.trace ++ [Action.release b.timeUs] }
  | some _ => avSync env wasSeeking b s

/-- `PreviewPlayer::onVideoEvent` from `finishSeekIfNecessary` on; `wasSeeking` is
`mSeeking` before that call. -/
def processFrame_seek (env : Env) (b : MediaBuffer) (s : Player) : Player :=
  let r := startAudioIfNeeded env (finishSeekIfNecessary b.timeUs s)
  if r.1 ≠ Status.OK then r.2 else processFrame_sync env s.mSeeking b r.2

/-- `PreviewPlayer::onVideoEvent` once `mVideoBuffer` holds the frame `b`. -/
def processFrame (env : Env) (b : MediaBuffer) (s : Player) : Player :=
  processFrame_seek env b (notifyStartNext b.timeUs (countFrame b.timeUs s))

/-- `PreviewPlayer::onVideoEvent` for a pending event outside `SEEK_PREVIEW`, up
to the point where the frame is in `mVideoBuffer`. -/
def frameState (s : Player) : Player :=
  fetchFrame (pauseAudioForSeek { s with mVideoEventPending := false })

/-- `PreviewPlayer::onVideoEvent`. -/
def onVideoEvent (env : Env) (s : Player) : Player :=
  if !s.mVideoEventPending then s
  else if s.mFlags.SEEK_PREVIEW then
    { s with mVideoEventPending := false, mFlags := { s.mFlags with SEEK_PREVIEW := false } }
  else
    match (frameState s).mVideoBuffer with
    | none => frameState s
    | some b => processFrame env b (frameState s)

/-! ## `play`, the remaining event handlers and `readFirstVideoFrame` -/

/-- The calls that configure an audio player of its own in `PreviewPlayer::play_l`. -/
def newAudioPlayerCalls (c : Config) : List Action :=
  [Action.audioPlayer AudioCall.setSource,
    Action.audioPlayer AudioCall.setAudioMixSettings,
    Action.audioPlayer AudioCall.setAudioMixPCMFileHandle,
    Action.audioPlayer (AudioCall.setAudioMixStoryBoardSkimTimeStamp
      c.mAudioMixStoryBoardTS c.mCurrentMediaBeginCutTime c.mCurrentMediaVolumeValue),
    Action.audioPlayer AudioCall.start]

/-- `PreviewPlayer::play_l`, the branch that creates an audio player of its own
(`mAudioPlayer == NULL` and `mAudioSink != NULL`). The Boolean is
`deferredAudioSeek`. -/
def play_l_newAudioPlayer (env : Env) (s : Player) : Status × Bool × Player :=
  if env.audioStart ≠ Status.OK then
    (env.audioStart, false, { s with
      mAudioPlayer := none,
      mFlags := { s.mFlags with
        AUDIOPLAYER_STARTED := true, PLAYING := false, FIRST_FRAME := false },
      trace := s.trace ++ newAudioPlayerCalls s.cfg })
  else
    (Status.OK, true, { s with
      mAudioPlayer := some { source := s.mAudioSource },
      mTimeSource := some TimeSourceRef.audioPlayer,
      mFlags := { s.mFlags with AUDIOPLAYER_STARTED := true, AUDIO_RUNNING := true },
      mWatchForAudioSeekComplete := false,
      mWatchForAudioEOS := true,
      trace := s.trace ++ newAudioPlayerCalls s.cfg })

/-- The calls that change the source of the shared audio player in
`PreviewPlayer::play_l`; `started` is `isStarted()`. -/
def changeSourceCalls (started : Bool) (c : Config) : List Action :=
  (if started then [Action.audioPlayer (AudioCall.pause false)] else []) ++
    [Action.audioPlayer AudioCall.setSource,
      Action.audioPlayer AudioCall.setObserver,
      Action.audioPlayer AudioCall.setAudioMixSettings,
      Action.audioPlayer (AudioCall.setAudioMixStoryBoardSkimTimeStamp
        c.mAudioMixStoryBoardTS c.mCurrentMediaBeginCutTime c.mCurrentMediaVolumeValue)] ++
    (if started then [Action.audioPlayer AudioCall.resume]
      else [Action.audioPlayer AudioCall.start])

/-- `PreviewPlayer::play_l`, the change of the source of the shared audio player
(`mIsChangeSourceRequired == true`). -/
def play_l_changeSource (env : Env) (ap : AudioPlayer) (s : Player) : Status × Player :=
  if env.audioIsStarted = false ∧ env.audioStart ≠ Status.OK then
    (env.audioStart, { s with
      mAudioPlayer := none,
      mFlags := { s.mFlags with PLAYING := false, FIRST_FRAME := false },
      trace := s.trace ++ changeSourceCalls env.audioIsStarted s.cfg })
  else
    (Status.OK, { s with
      mAudioPlayer := some { ap with source := s.mAudioSource },
      trace := s.trace ++ changeSourceCalls env.audioIsStarted s.cfg })

/-- `PreviewPlayer::play_l`, the branch that keeps the source of the shared
audio player (`mIsChangeSourceRequired == false`). -/
def play_l_keepSource (s : Player) : Player :=
  { s with trace := s.trace ++
    [Action.audioPlayer (AudioCall.setAudioMixStoryBoardSkimTimeStamp
        s.cfg.mAudioMixStoryBoardTS s.cfg.mCurrentMediaBeginCutTime
        s.cfg.mCurrentMediaVolumeValue),
      Action.audioPlayer AudioCall.resume] }

/-- `PreviewPlayer::play_l`, the source of the shared audio player is changed or
kept. -/
def play_l_source (env : Env) (ap : AudioPlayer) (s : Player) : Status × Player :=
  if s.mIsChangeSourceRequired then play_l_changeSource env ap s
  else (Status.OK, play_l_keepSource s)

/-- `PreviewPlayer::play_l`, the flags and the clock set once the shared audio
player runs. -/
def play_l_audioRunning (s : Player) : Player :=
  { s with
    mFlags := { s.mFlags with AUDIOPLAYER_STARTED := true, AUDIO_RUNNING := true },
    mTimeSource := some TimeSourceRef.audioPlayer,
    mWatchForAudioSeekComplete := false,
    mWatchForAudioEOS := true }

/-- `PreviewPlayer::play_l`, the branch for an audio player that exists already.
The Boolean is `deferredAudioSeek`. -/
def play_l_sharedAudioPlayer (env : Env) (ap : AudioPlayer) (s : Player) :
    Status × Bool × Player :=
  let r := play_l_source env ap s
  if r.1 ≠ Status.OK then (r.1, false, r.2) else (Status.OK, true, play_l_audioRunning r.2)

/-- `PreviewPlayer::play_l`, `if (mAudioSource != NULL) { ... }`. The Boolean is
`deferredAudioSeek`. -/
def play_l_audio (env : Env) (s : Player) : Status × Bool × Player :=
  if s.mAudioSource ≠ none then
    match s.mAudioPlayer with
    | none => if s.cfg.mAudioSink then play_l_newAudioPlayer env s else (Status.OK, false, s)
    | some ap => play_l_sharedAudioPlayer env ap s
  else (Status.OK, false, s)

/-- `PreviewPlayer::play_l`, the choice of the system clock. -/
def play_l_clock (s : Player) : Player :=
  if s.mTimeSource = none ∧ s.mAudioPlayer = none then
    { s with mTimeSource := some TimeSourceRef.system }
  else s

/-- `PreviewPlayer::play_l`, the read with a seek option that restarts the time
stamps of an image clip; the buffer read is released. The code calls
`aLocalBuffer->release()` without a test of the status of the read: when the
read gives no buffer, or there is no video source to read, the call goes
through a pointer that holds no object and the process aborts. -/
def play_l_jpgRead (s : Player) : Player :=
  if s.mIsVideoSourceJpg then
    match s.mVideoSource with
    | some v =>
      match v.reads with
      | ReadResult.buffer b :: rest => emit (Action.release b.timeUs) (setReads rest s)
      | _ => { s with aborted := true }
    | none => { s with aborted := true }
  else s

/-- `PreviewPlayer::play_l`, the first video event. -/
def play_l_kick (s : Player) : Player :=
  if s.mVideoSource ≠ none then postVideoEvent_l (-1) s else s

/-- `PreviewPlayer::play_l`, the deferred audio seek. -/
def play_l_deferred (deferredAudioSeek : Bool) (s : Player) : Player :=
  if deferredAudioSeek then seekAudioIfNecessary_l s else s

/-- `PreviewPlayer::play_l`, the seek to the start of a player that is `AT_EOS`. -/
def play_l_replay (env : Env) (s : Player) : Player :=
  if s.mFlags.AT_EOS then (seekTo_l env 0 s).2 else s

/-- `PreviewPlayer::play_l`, the statements after the read of an image clip. -/
def play_l_post (env : Env) (deferredAudioSeek : Bool) (s : Player) : Player :=
  play_l_replay env (play_l_deferred deferredAudioSeek (play_l_kick s))

/-- `PreviewPlayer::play_l`, from the choice of the system clock to the end;
nothing follows a read that aborts the process. -/
def play_l_finish (env : Env) (deferredAudioSeek : Bool) (s : Player) : Player :=
  if (play_l_jpgRead (play_l_clock s)).aborted then play_l_jpgRead (play_l_clock s)
  else play_l_post env deferredAudioSeek (play_l_jpgRead (play_l_clock s))

/-- `PreviewPlayer::play_l`, the call of `prepare_l` for a player that is not
`PREPARED`. -/
def play_l_prepare (env : Env) (s : Player) : Status × Player :=
  if !s.mFlags.PREPARED then prepare_l env s else (Status.OK, s)

/-- The status that `PreviewPlayer::play_l` returns after its last statements:
`OK`, unless the process has aborted, when nothing is returned (the status
`UNKNOWN_ERROR` then stands for no status). -/
def play_l_status (s : Player) : Status :=
  if s.aborted then Status.UNKNOWN_ERROR else Status.OK

/-- `PreviewPlayer::play_l` from `mFlags |= PLAYING` on. -/
def play_l_run (env : Env) (s : Player) : Status × Player :=
  let a := play_l_audio env
    { s with mFlags := { s.mFlags with PLAYING := true, FIRST_FRAME := true } }
  if a.1 ≠ Status.OK then (a.1, a.2.2)
  else (play_l_status (play_l_finish env a.2.1 a.2.2), play_l_finish env a.2.1 a.2.2)

/-- `PreviewPlayer::play_l`. -/
def play_l (env : Env) (s : Player) : Status × Player :=
  if s.mFlags.PLAYING then (Status.OK, { s with mFlags := { s.mFlags with SEEK_PREVIEW := false } })
  else
    let r := play_l_prepare env
      { s with mFlags := { s.mFlags with SEEK_PREVIEW := false }, mStartNextPlayer := false }
    if r.1 ≠ Status.OK then r else play_l_run env r.2

/-- `PreviewPlayer::play`. -/
def play (env : Env) (s : Player) : Status × Player :=
  play_l env { s with
    mFlags := { s.mFlags with CACHE_UNDERRUN := false, INFORMED_AV_EOS := false } }

/-- `PreviewPlayerBase::onCheckAudioStatus`, the seek-complete part. -/
def checkAudioSeekComplete (env : Env) (s : Player) : Player :=
  if s.mWatchForAudioSeekComplete = true ∧ env.audioIsSeeking = false then
    if !s.mSeekNotificationSent then
      { s with
        mWatchForAudioSeekComplete := false,
        mSeekNotificationSent := true,
        mSeeking := SeekType.NO_SEEK,
        trace := s.trace ++ [Action.notify Msg.MEDIA_SEEK_COMPLETE 0 0] }
    else { s with mWatchForAudioSeekComplete := false, mSeeking := SeekType.NO_SEEK }
  else s

/-- `PreviewPlayerBase::onCheckAudioStatus`, the end-of-stream part. -/
def checkAudioEOS (env : Env) (s : Player) : Player :=
  if s.mWatchForAudioEOS then
    match env.audioReachedEOS with
    | some finalStatus =>
      postStreamDoneEvent_l finalStatus
        { s with
          mWatchForAudioEOS := false,
          mFlags := { s.mFlags with AUDIO_AT_EOS := true, FIRST_FRAME := true } }
    | none => s
  else s

/-- `PreviewPlayerBase::onCheckAudioStatus`. -/
def onCheckAudioStatus (env : Env) (s : Player) : Player :=
  if !s.mAudioStatusEventPending then s
  else checkAudioEOS env (checkAudioSeekComplete env { s with mAudioStatusEventPending := false })

/-- The progress value that `PreviewPlayer::onProgressCbEvent` computes, in 64 bits,
from the time stamp of the last decoded frame. -/
def progressMs (s : Player) : Int :=
  if Int.tdiv s.mDecodedVideoTs 1000 < (s.cfg.mPlayBeginTimeMsec : Int) then
    Int.tdiv s.cfg.mDecVideoTsStoryBoard 1000
  else
    Int.tdiv (s.mDecodedVideoTs + s.cfg.mDecVideoTsStoryBoard) 1000
      - (s.cfg.mPlayBeginTimeMsec : Int)

/-- Conversion of an `int64_t` to `int`, the type of the arguments `ext1` and
`ext2` of `notifyListener_l`. -/
def toInt32 (x : Int) : Int := (x + 2147483648) % 4294967296 - 2147483648

/-- `PreviewPlayer::onProgressCbEvent`; the 64-bit progress value is passed as
the `int` argument `ext2`. -/
def onProgressCbEvent (s : Player) : Player :=
  if !s.mProgressCbEventPending then s
  else
    { s with
      mProgressCbEventPending := false,
      trace := s.trace ++ [Action.notify Msg.MEDIA_INFO 0 (toInt32 (progressMs s))] }

/-- `PreviewPlayer::onUpdateOverlayEvent`. -/
def onUpdateOverlayEvent (s : Player) : Player :=
  if !s.mOverlayUpdateEventPending then s
  else
    { s with
      mOverlayUpdateEventPending := false,
      trace := s.trace ++ [Action.notify Msg.OVERLAY_UPDATE
        (if s.mOverlayUpdateEventPosted then 1 else 0) (s.mCurrFramingEffectIndex : Int)] }

/-- `PreviewPlayer::readFirstVideoFrame`, the branch of the read loop for a
`read` that failed with a status other than `INFO_FORMAT_CHANGED`. -/
def onFirstReadError (err : Status) (s : Player) : Player :=
  postStreamDoneEvent_l err
    { s with mFlags := { s.mFlags with VIDEO_AT_EOS := true, AUDIO_AT_EOS := true } }

/-- The `for (;;)` loop of `PreviewPlayer::readFirstVideoFrame`. -/
def readFirstLoop : List ReadResult → Player → Player
  | [], s => onFirstReadError Status.ERROR_END_OF_STREAM (setReads [] s)
  | ReadResult.formatChanged w h :: rest, s => readFirstLoop rest (onFormatChanged w h s)
  | ReadResult.endOfStream :: rest, s =>
    onFirstReadError Status.ERROR_END_OF_STREAM (setReads rest s)
  | ReadResult.error code :: rest, s => onFirstReadError (Status.other code) (setReads rest s)
  | ReadResult.buffer b :: rest, s =>
    if b.rangeLength = 0 then readFirstLoop rest (emit (Action.release b.timeUs) s)
    else if skipBuffer b s then readFirstLoop rest (emit (Action.release b.timeUs) s)
    else { setReads rest s with mVideoBuffer := some b }

/-- `PreviewPlayer::readFirstVideoFrame`, `if (!mVideoBuffer) { ... }`. -/
def fetchFirstFrame (s : Player) : Player :=
  if s.mVideoBuffer ≠ none then s
  else
    match s.mVideoSource with
    | some v => readFirstLoop v.reads s
    | none => s

/-- `PreviewPlayer::readFirstVideoFrame` (called on a player with a video source). -/
def readFirstVideoFrame (s : Player) : Status × Player :=
  match (fetchFirstFrame s).mVideoBuffer with
  | none => (Status.OK, fetchFirstFrame s)
  | some b =>
    (Status.OK, { fetchFirstFrame s with mVideoTimeUs := b.timeUs, mDecodedVideoTs := b.timeUs })

/-! ## Operations and runs -/

/-- The public operations and the event handlers, each with the answers of the
outside world that it reads. -/
inductive Op
  | play (env : Env)
  | pause
  | seekTo (env : Env) (timeUs : Int)
  | prepare (env : Env)
  | prepareAsync
  | reset
  | setDataSource (uri : Uri)
  | readFirstVideoFrame
  | setAudioPlayer (audioPlayer : AudioPlayer)
  | onVideoEvent (env : Env)
  | onStreamDone (env : Env)
  | onCheckAudioStatus (env : Env)
  | onProgressCbEvent
  | onUpdateOverlayEvent
  | onPrepareAsyncEvent (env : Env)
  | postAudioEOS (delayUs : Int)
  | postAudioSeekComplete
  deriving DecidableEq, Repr

/-- The effect of one operation on the player. `onPrepareAsyncEvent` is the
base-class handler, the one that `prepareAsync` posts. -/
def call (s : Player) : Op → Player
  | Op.play env => (play env s).2
  | Op.pause => (pause s).2
  | Op.seekTo env timeUs => (seekTo env timeUs s).2
  | Op.prepare env => (prepare env s).2
  | Op.prepareAsync => (PreviewPlayerBase.prepareAsync s).2
  | Op.reset => reset s
  | Op.setDataSource uri => (setDataSource uri s).2
  | Op.readFirstVideoFrame => (readFirstVideoFrame s).2
  | Op.setAudioPlayer audioPlayer => (setAudioPlayer audioPlayer s).2
  | Op.onVideoEvent env => onVideoEvent env s
  | Op.onStreamDone env => onStreamDone env s
  | Op.onCheckAudioStatus env => onCheckAudioStatus env s
  | Op.onProgressCbEvent => onProgressCbEvent s
  | Op.onUpdateOverlayEvent => onUpdateOverlayEvent s
  | Op.onPrepareAsyncEvent env => PreviewPlayerBase.onPrepareAsyncEvent env s
  | Op.postAudioEOS delayUs => postAudioEOS delayUs s
  | Op.postAudioSeekComplete => postAudioSeekComplete s

/-- One step of a run. Nothing is called on a process that has aborted. A call
that aborts the process leaves no player behind: the run keeps the player as
it was before that call, marked `aborted`, and what the call did before it
aborted is not recorded. -/
def step (s : Player) (op : Op) : Player :=
  if s.aborted then s
  else if (call s op).aborted then { s with aborted := true }
  else call s op

/-- A run: the operations applied one after the other. -/
def run (s : Player) (ops : List Op) : Player :=
  ops.foldl step s

/-- The player that the constructor leaves: every member at its initial value,
then `reset()`. -/
def newPlayer : Player := reset {}

/-! ## Observations on the trace -/

/-- A listener notification. -/
inductive Note
  | event (msg : Msg) (ext1 ext2 : Int)
  | error (err : Status)
  deriving DecidableEq, Repr

/-- The notification that an action is, if it is one. -/
def noteOf : Action → Option Note
  | Action.notify msg ext1 ext2 => some (Note.event msg ext1 ext2)
  | Action.notifyError err => some (Note.error err)
  | _ => none

/-- The frame and effect mask of a render call, if the action is one. -/
def renderOf : Action → Option (Int × EffectMask)
  | Action.render timeUs effects _ => some (timeUs, effects)
  | _ => none

/-- The listener notifications of a trace, in order. -/
def notes (tr : List Action) : List Note := tr.filterMap noteOf

/-- The render calls of a trace, in order. -/
def renders (tr : List Action) : List (Int × EffectMask) := tr.filterMap renderOf

/-- The time stamps of the frames passed to the renderer, in order. -/
def renderedTimes (tr : List Action) : List Int := (renders tr).map Prod.fst

/-- Whether a notification is `MEDIA_PLAYBACK_COMPLETE`. -/
@[simp] def isPlaybackComplete : Note → Bool
  | Note.event Msg.MEDIA_PLAYBACK_COMPLETE _ _ => true
  | _ => false

/-- The number of `MEDIA_PLAYBACK_COMPLETE` notifications. -/
def playbackCompleteCount (tr : List Action) : Nat :=
  (notes tr).countP isPlaybackComplete

/-! ## Scenarios -/

/-- What was appended to the trace between the state `s` and the later state `t`. -/
def newActions (s t : Player) : List Action :=
  t.trace.drop s.trace.length

/-- A buffer with data and the time stamp given. -/
def frameAt (timeUs : Int) : ReadResult :=
  ReadResult.buffer { timeUs := timeUs, rangeLength := 1 }

/-- The answers to a prepare of a seekable clip with one video track whose
decoder returns `reads`. -/
def clipEnv (reads : List ReadResult) : Env :=
  { extractor := some { videoTrack := some {}, canSeek := true },
    videoCodec := some { reads := reads } }

/-- The answers to an event that finds the clock at `t`. -/
def atTime (t : Int) : Env :=
  { realTimeUs1 := t, realTimeUs2 := t }

/-- A new player with a surface and the cut times given, then `setDataSource`
and `prepare` of a clip whose decoder returns `reads`. -/
def preparedClip (beginMs endMs : Nat) (reads : List ReadResult) : Player :=
  run (setPlaybackEndTime endMs (setPlaybackBeginTime beginMs (setSurface newPlayer)))
    [Op.setDataSource { size := 9 }, Op.prepare (clipEnv reads)]

/-- Scenario for C1: a clip cut to 1000..3000 ms is played and `seekTo(0)` is
called; the decoder then returns the frame at 500 ms. -/
def seekBeforeBeginCut : Player :=
  run (preparedClip 1000 3000 [frameAt 500000])
    [Op.play {}, Op.seekTo {} 0, Op.onVideoEvent (atTime 1000)]

/-- Scenario for C2, up to the seek: the frame at 0 is rendered, the frame at
100 ms comes 99 ms early and is held, and `seekTo(5000000)` is called. -/
def seekWithHeldFrame : Player :=
  run (preparedClip 0 10000 [frameAt 0, frameAt 100000, frameAt 5000000])
    [Op.play {}, Op.onVideoEvent (atTime 1000), Op.onVideoEvent (atTime 2000),
      Op.seekTo {} 5000000]

/-- Scenario for C3, the operations after `play`: the clip plays to its
completion, then a new source is set and prepared, its first frame is read
from a decoder at the end of its stream, and stream done fires. -/
def completeThenReload : List Op :=
  [Op.onVideoEvent (atTime 1000), Op.onStreamDone {},
    Op.setDataSource { size := 9 }, Op.prepare (clipEnv []),
    Op.readFirstVideoFrame, Op.onStreamDone {}]

/-- Scenario for C3, the operations after `play`: the clip plays to its
completion, then `prepareAsync` posts the prepare event of the base class, which
aborts; the first frame is read from the decoder at the end of its stream, and
stream done fires. -/
def completeThenPrepare : List Op :=
  [Op.onVideoEvent (atTime 1000), Op.onStreamDone {},
    Op.prepareAsync, Op.onPrepareAsyncEvent {},
    Op.readFirstVideoFrame, Op.onStreamDone {}]

/-- Scenario for C3, the state after `play`. -/
def playingShortClip : Player :=
  run (preparedClip 0 1000 [frameAt 1000000]) [Op.play {}]

/-- The framing effect of the scenario for C4: active from 0 to 1000 ms. -/
def framingEffect : EffectSettings :=
  { VideoEffectType := VideoEffectType.Framing, uiStartTime := 0, uiDuration := 1000 }

/-- Scenario for C4: a clip cut to 0..3000 ms with one framing effect; the frame
at 500 ms is rendered. -/
def framedClip : Player :=
  run (loadEffectsSettings [framingEffect] (preparedClip 0 3000 [frameAt 500000]))
    [Op.play {}, Op.onVideoEvent (atTime 1000)]

/-- Scenario for C7: `prepareAsync` on a player that `prepare` has prepared. -/
def prepareThenPrepareAsync : Player :=
  run (preparedClip 0 3000 [frameAt 0]) [Op.prepareAsync]

/-- Scenario for C10: begin cut and end cut are both 1000 ms and the decoder
returns a frame at 1000 ms. -/
def emptyCutClip : Player :=
  run (preparedClip 1000 1000 [frameAt 1000000])
    [Op.play {}, Op.onVideoEvent (atTime 1000), Op.onStreamDone {}]

/-! ## Definitions used in the statements -/

/-- One round of the effect loop, on the mask alone: an effect whose start lies
in the storyboard window of the clip sets or clears the bit of its type. -/
def maskStep (timeUs : Int) (c : Config) (m : EffectMask) (e : EffectSettings) : EffectMask :=
  if effectBelongsToClip e c then
    match effectOfType e.VideoEffectType with
    | none => m
    | some effect => setBit m effect (effectAppliesToFrame e timeUs c)
  else m

/-- The mask that `onVideoEvent` hands to the renderer for a frame at `timeUs`,
from the settings `c` and the mask `m` before the event: the effect loop, then
the framing bit cleared. -/
def frameMask (timeUs : Int) (c : Config) (m : EffectMask) : EffectMask :=
  setBit (c.mEffectsSettings.foldl (maskStep timeUs c) m) VideoEffect.FRAMING false

/-- The state `t` has the render calls of `s`, or those and one more: the frame
`b`, not past the end cut time, with the mask `frameMask`. -/
def RendersFrame (b : MediaBuffer) (s t : Player) : Prop :=
  renders t.trace = renders s.trace ∨
    (Int.tdiv b.timeUs 1000 ≤ (s.cfg.mPlayEndTimeMsec : Int) ∧
      renders t.trace =
        renders s.trace ++ [(b.timeUs, frameMask b.timeUs s.cfg s.mCurrentVideoEffect)])

/-- Operations that leave the bit `INFORMED_AV_EOS` of a session alone in the
state `s`. `play` clears it; `reset` and `setDataSource` clear `mFlags`; the
prepare event of the base class, and a `prepare` that does not return at once,
end in `abortPrepare` or `finishAsyncPrepare_l`, which clear the bit under its
name `PREPARING_CONNECTED`. A `prepare` that finds the player prepared or
preparing returns at once. All other operations keep the session. -/
def keepsSession (s : Player) : Op → Bool
  | Op.play _ => false
  | Op.reset => false
  | Op.setDataSource _ => false
  | Op.prepare _ => s.mFlags.PREPARED || s.mFlags.PREPARING
  | Op.onPrepareAsyncEvent _ => false
  | _ => true

/-- A run from `s` in which every operation keeps the session. -/
def sessionRun : Player → List Op → Bool
  | _, [] => true
  | s, op :: ops => keepsSession s op && sessionRun (step s op) ops

/-- The number of `MEDIA_PLAYBACK_COMPLETE` notifications still possible in the
session plus those made: the count so far, and one more while `INFORMED_AV_EOS`
is clear. -/
def completionBudget (s : Player) : Nat :=
  playbackCompleteCount s.trace + (if s.mFlags.INFORMED_AV_EOS then 0 else 1)

/-- The sepia effect of scenario S4: from 1000 ms, for 1000 ms. -/
def sepiaEffect : EffectSettings :=
  { VideoEffectType := VideoEffectType.Sepia, uiStartTime := 1000, uiDuration := 1000 }

/-- The effects of the list `l` that belong to the clip and have the kind `k`. -/
def effectsOfKind (k : VideoEffect) (c : Config) (l : List EffectSettings) : List EffectSettings :=
  l.filter (fun e => effectBelongsToClip e c && decide (effectOfType e.VideoEffectType = some k))

def AtEosNotPlaying (s : Player) : Prop :=
  s.mFlags.AT_EOS = true → s.mFlags.PLAYING = false

/-- Answers of a prepare whose data source cannot be created. -/
def noSourceEnv : Env := { dataSource := false }

/-- Scenario for C6: a new player with a surface, after `setDataSource`. -/
def unpreparedClip : Player :=
  run (setSurface newPlayer) [Op.setDataSource { size := 9 }]

/-- Scenario for C6: a player in the middle of an asynchronous prepare. -/
def preparingClip : Player :=
  run unpreparedClip [Op.prepareAsync]

/-- `PreviewPlayer::onVideoEvent` for the frame `b` up to the start of the audio
player: the status is that of `startAudioPlayer_l`. -/
def syncInput (env : Env) (b : MediaBuffer) (s : Player) : Status × Player :=
  startAudioIfNeeded env
    (finishSeekIfNecessary b.timeUs
      (notifyStartNext b.timeUs (countFrame b.timeUs (frameState s))))

/-- The state of `PreviewPlayer::onVideoEvent` at the AV-sync test of the frame
`b`: `mTimeSourceDeltaUs` is up to date. -/
def syncState (env : Env) (b : MediaBuffer) (s : Player) : Player :=
  syncClock env b.timeUs (syncInput env b s).2

/-- Scenario S3, before the late frame: the frame at 0 has been rendered with
the clock at 1000, and the decoder is at the frame at 33 ms. -/
def lateFrameClip : Player :=
  run (preparedClip 0 10000 [frameAt 0, frameAt 33000])
    [Op.play {}, Op.onVideoEvent (atTime 1000)]

/-- Scenario for C9, before the early frame: the frame at 0 has been rendered
with the clock at 1000, and the decoder is at the frame at 100 ms. -/
def earlyFrameClip : Player :=
  run (preparedClip 0 10000 [frameAt 0, frameAt 100000, frameAt 200000])
    [Op.play {}, Op.onVideoEvent (atTime 1000)]

/-- The events of a play session: the video event and the stream-done event. -/
def isVideoOrStreamDone : Op → Bool
  | Op.onVideoEvent _ => true
  | Op.onStreamDone _ => true
  | _ => false

/-- Invariant of a play session, without looping and without a seek, of a clip
whose cut times are both `c`: a held frame is not before the cut time, and
since the session had the rendered frames `r0` it has rendered nothing, or one
frame whose time in ms is `c`, after which no video event is pending. -/
def EmptyCutSession (c : Nat) (r0 : List Int) (s : Player) : Prop :=
  s.cfg.mPlayBeginTimeMsec = c ∧ s.cfg.mPlayEndTimeMsec = c ∧
  s.mSeeking = SeekType.NO_SEEK ∧
  s.mFlags.LOOPING = false ∧ s.mFlags.AUTO_LOOPING = false ∧
  (∀ b, s.mVideoBuffer = some b → (c : Int) ≤ Int.tdiv b.timeUs 1000) ∧
  (renderedTimes s.trace = r0 ∨
    ∃ t, renderedTimes s.trace = r0 ++ [t] ∧ Int.tdiv t 1000 = (c : Int) ∧
      s.mVideoEventPending = false)

/-- The stream-done event is pending for the end of the stream, both streams
are marked at their end, and the session has not notified its completion and
does not loop. -/
def AwaitsCompletion (s : Player) : Prop :=
  s.mStreamDoneEventPending = true ∧ s.mStreamDoneStatus = Status.ERROR_END_OF_STREAM ∧
  s.mFlags.VIDEO_AT_EOS = true ∧ s.mFlags.AUDIO_AT_EOS = true ∧
  s.mFlags.INFORMED_AV_EOS = false ∧ s.mFlags.LOOPING = false ∧ s.mFlags.AUTO_LOOPING = false

/-! ## Definitions for the claims on seeking, the audio player and the overlay -/

/-- The answers to a prepare of a clip with one video track whose extractor
does not advertise `CAN_SEEK`. -/
def fixedEnv (reads : List ReadResult) : Env :=
  { extractor := some { videoTrack := some {}, canSeek := false },
    videoCodec := some { reads := reads } }

/-- Scenario for C11: a prepared, paused clip that cannot seek. -/
def fixedClip : Player :=
  run (setPlaybackEndTime 5000 (setSurface newPlayer))
    [Op.setDataSource { size := 9 }, Op.prepare (fixedEnv [frameAt 1500000])]

/-- Scenario S2: a prepared, paused clip of 5000 ms. -/
def pausedClip : Player :=
  preparedClip 0 5000 [frameAt 1500000, frameAt 1533000]

/-- A new player with a surface, an audio sink and the end cut at 5000 ms, then
`setDataSource` and `prepare` of a clip whose decoder returns `reads`. -/
def sinkClip (reads : List ReadResult) : Player :=
  run (setPlaybackEndTime 5000 (setAudioSink true (setSurface newPlayer)))
    [Op.setDataSource { size := 9 }, Op.prepare (clipEnv reads)]

/-- The answers to an operation during which the start of the audio player
fails. -/
def failEnv : Env := { audioStart := Status.UNKNOWN_ERROR }

/-- The answers to an audio status event that finds the audio player at its
end with the final status `err`. -/
def audioEndEnv (err : Status) : Env := { audioReachedEOS := some err }

/-- Scenario for C13: a paused seek posts a video event, `play` fails at the
start of its audio player and leaves that event pending, a shared audio player
is attached, and the video event runs. -/
def audioStartedWhilePaused : Player :=
  run (sinkClip [frameAt 0, frameAt 33000])
    [Op.seekTo {} 0, Op.play failEnv, Op.setAudioPlayer {}, Op.onVideoEvent (atTime 1000)]

/-- Scenario for C16: after `audioStartedWhilePaused` the audio player reports
its end with an error status, which posts the stream-done event. -/
def audioErrorPending : Player :=
  run audioStartedWhilePaused
    [Op.postAudioEOS 0, Op.onCheckAudioStatus (audioEndEnv (Status.other 5))]

/-- Scenario for C16: a playing clip whose second read fails with the status 7,
which posts the stream-done event. -/
def readErrorPending : Player :=
  run (sinkClip [frameAt 0, ReadResult.error 7])
    [Op.play {}, Op.onVideoEvent (atTime 0), Op.onVideoEvent (atTime 33000)]

/-- Operations that leave a prepared player prepared: all but `reset`,
`setDataSource`, `prepareAsync` and the prepare event. -/
def keepsPrepared : Op → Bool
  | Op.reset => false
  | Op.setDataSource _ => false
  | Op.prepareAsync => false
  | Op.onPrepareAsyncEvent _ => false
  | _ => true

/-- The operation is a stream-done event that fires in the state `s` with a
status other than `ERROR_END_OF_STREAM`. -/
def firesWithError (s : Player) : Op → Bool
  | Op.onStreamDone _ =>
    s.mStreamDoneEventPending && decide (s.mStreamDoneStatus ≠ Status.ERROR_END_OF_STREAM)
  | _ => false

/-- A run from `s` in which every operation keeps the player prepared and no
stream-done event fires with a status other than `ERROR_END_OF_STREAM`. -/
def eosRun : Player → List Op → Bool
  | _, [] => true
  | s, op :: ops => keepsPrepared op && !firesWithError s op && eosRun (step s op) ops

/-- Scenario for C14: a clip is played to its only frame and a stream-done
event fires. -/
def playedToEnd : List Op :=
  [Op.play {}, Op.onVideoEvent (atTime 0), Op.onVideoEvent (atTime 33000), Op.onStreamDone {}]

/-- Scenario for C14: while the video plays, the audio player reports its end
with the status 5, and the stream-done event fires. -/
def audioErrorAtEos : Player :=
  run (sinkClip [frameAt 0, frameAt 33000])
    [Op.play {}, Op.onVideoEvent (atTime 0), Op.postAudioEOS 0,
      Op.onCheckAudioStatus (audioEndEnv (Status.other 5)), Op.onStreamDone {}]

/-- The invariant of C14 on a prepared player outside a cache underrun:
`AT_EOS` implies that the video is at its end or there is no video source, and
that the audio is at its end or there is no audio source. -/
def EosSession (s : Player) : Prop :=
  s.mFlags.PREPARED = true ∧ s.mFlags.CACHE_UNDERRUN = false ∧
    (s.mFlags.AT_EOS = true →
      (s.mFlags.VIDEO_AT_EOS = true ∨ s.mVideoSource = none) ∧
      (s.mFlags.AUDIO_AT_EOS = true ∨ s.mAudioSource = none))

/-- A new player with a surface and the end cut given, then `setDataSource` and
`prepare` of a still image: no extractor is created, and the clip gets the
dummy audio source and the dummy video source. -/
def imageClip (endMs : Nat) : Player :=
  run (setPlaybackEndTime endMs (setSurface newPlayer))
    [Op.setDataSource { size := 9 }, Op.prepare {}]

/-- Scenario for C17: a prepared clip whose extractor finds no track; it has the
dummy audio source and no video source. -/
def silentClip : Player :=
  run (setPlaybackEndTime 4000 (setSurface newPlayer))
    [Op.setDataSource { size := 9 }, Op.prepare { extractor := some {} }]

/-- The shared audio player of scenario S6: it plays the dummy audio source of
the clip before, which ends at 2000 ms. -/
def sharedDummyPlayer : AudioPlayer :=
  { source := some (dummyAudioSource 2000000) }

/-- The audio-player call that an action is, if it is one. -/
def audioCallOf : Action → Option AudioCall
  | Action.audioPlayer c => some c
  | _ => none

/-- The audio-player calls of a trace, in order. -/
def audioCalls (tr : List Action) : List AudioCall := tr.filterMap audioCallOf

/-- Whether an audio-player call is `seekTo`. -/
def isAudioSeek : AudioCall → Bool
  | AudioCall.seekTo _ => true
  | _ => false

/-- Scenario for C18: the still-image clip of scenario S6, whose dummy video
source returns the image as frames, with the shared audio player attached; its
source is kept. -/
def imageClipShared : Player :=
  (setAudioPlayer { source := some (dummyAudioSource 2000000) }
    (run (setPlaybackEndTime 4000 (setSurface newPlayer))
      [Op.setDataSource { size := 9 },
        Op.prepare { dummyVideo := { reads := [frameAt 0, frameAt 33000] } }])).2

/-- The fields behind the overlay-update notification: `mOverlayUpdateEventPosted`,
`mCurrFramingEffectIndex` and whether the overlay-update event is pending. -/
def overlayState (s : Player) : Bool × Nat × Bool :=
  (s.mOverlayUpdateEventPosted, s.mCurrFramingEffectIndex, s.mOverlayUpdateEventPending)

/-- Scenario for C20: a shared audio player is attached to a prepared clip, a
paused seek posts a video event, and `play` fails at the start of the shared
audio player, which leaves that event pending; a second audio player is
attached and the video event is due. The player is not `PLAYING`. -/
def attachedAfterFailedPlay : Player :=
  run (sinkClip [frameAt 0, frameAt 33000])
    [Op.setAudioPlayer {}, Op.seekTo {} 0, Op.play failEnv, Op.setAudioPlayer {}]

/-! ## Definitions for the claims on prepare, progress, looping, effects and
notifications -/

/-- The answers to a prepare of a clip with a video track and a compressed audio
track for which no audio decoder can be created; the video decoder returns
`reads`. -/
def noAudioCodecEnv (reads : List ReadResult) : Env :=
  { extractor := some { videoTrack := some {}, audioTrack := some {}, canSeek := true },
    videoCodec := some { reads := reads },
    audioCodec := none }

/-- An audio track of raw samples, which needs no decoder. -/
def rawAudioTrack : MediaSource := { mimeRaw := true }

/-- The answers to a prepare of a clip with a video track, for which no video
decoder can be created, and a raw audio track. -/
def noVideoCodecEnv : Env :=
  { extractor := some { videoTrack := some {}, audioTrack := some rawAudioTrack, canSeek := true },
    videoCodec := none }

/-- The answers to a prepare of a clip with a video track and a raw audio track;
the video decoder returns `reads`. -/
def bothTracksEnv (reads : List ReadResult) : Env :=
  { extractor := some { videoTrack := some {}, audioTrack := some rawAudioTrack, canSeek := true },
    videoCodec := some { reads := reads } }

/-- A QCELP audio track. -/
def qcelpAudioTrack : MediaSource := { mimeQcelp := true }

/-- The answers to a prepare of a clip with a video track and a QCELP audio track
for which no audio decoder can be created; the video decoder returns `reads`. -/
def qcelpEnv (reads : List ReadResult) : Env :=
  { extractor := some { videoTrack := some {}, audioTrack := some qcelpAudioTrack, canSeek := true },
    videoCodec := some { reads := reads },
    audioCodec := none }

/-- A new player with a surface and the end cut at 5000 ms, after
`setDataSource`. -/
def sourcedPlayer : Player :=
  run (setPlaybackEndTime 5000 (setSurface newPlayer)) [Op.setDataSource { size := 9 }]

/-- Scenario for C22: a clip cut to 0..3000000000 ms whose decoder returns the
frames at 2147483647000 us and 2147483648000 us; each frame is rendered and its
progress callback runs. -/
def longClipProgress : Player :=
  run (preparedClip 0 3000000000 [frameAt 2147483647000, frameAt 2147483648000])
    [Op.play {}, Op.onVideoEvent (atTime 0), Op.onProgressCbEvent,
      Op.onVideoEvent (atTime 1000), Op.onProgressCbEvent]

/-- Scenario for C22: a clip cut to 0..5000 ms whose decoder returns the frames
at 0 and 1000000 us; each frame is rendered and its progress callback runs. -/
def shortClipProgress : Player :=
  run (preparedClip 0 5000 [frameAt 0, frameAt 1000000])
    [Op.play {}, Op.onVideoEvent (atTime 0), Op.onProgressCbEvent,
      Op.onVideoEvent (atTime 1000000), Op.onProgressCbEvent]

/-- The answers to a prepare of a clip that has a raw audio track and no video
track. -/
def audioOnlyEnv : Env :=
  { extractor := some { audioTrack := some rawAudioTrack, canSeek := true } }

/-- Scenario for C23: a looping clip without a video track is played, its audio
player reports the end of the stream, and the stream-done event is pending. -/
def audioOnlyAtEnd : Player :=
  run
    (setLooping true
      (run (setPlaybackEndTime 5000 (setAudioSink true (setSurface newPlayer)))
        [Op.setDataSource { size := 9 }, Op.prepare audioOnlyEnv]))
    [Op.play {}, Op.postAudioEOS 0,
      Op.onCheckAudioStatus (audioEndEnv Status.ERROR_END_OF_STREAM)]

/-- Scenario for C23: a looping clip with a video track is played to the end of
its decoder output, and the stream-done event is pending. -/
def loopingAtEnd : Player :=
  run (setLooping true (sinkClip [frameAt 0]))
    [Op.play {}, Op.onVideoEvent (atTime 0), Op.onVideoEvent (atTime 33000)]

/-- What `PreviewPlayer::onVideoEvent` does to signal the end of the stream, read
off the player `t` that it leaves when it started from `s`: both end-of-stream
flags are set, `mDecodedVideoTs` is the end cut time in microseconds and a
stream-done event is pending; its status is end-of-stream when no stream-done
event was pending in `s`, and the status of `s` otherwise. -/
def EosSignalled (s t : Player) : Prop :=
  t.mFlags.VIDEO_AT_EOS = true ∧ t.mFlags.AUDIO_AT_EOS = true ∧
  t.mDecodedVideoTs = (s.cfg.mPlayEndTimeMsec : Int) * 1000 ∧
  t.mStreamDoneEventPending = true ∧
  (s.mStreamDoneEventPending = false → t.mStreamDoneStatus = Status.ERROR_END_OF_STREAM) ∧
  (s.mStreamDoneEventPending = true → t.mStreamDoneStatus = s.mStreamDoneStatus)

/-- Scenario for C24: a clip cut at 5000 ms plays its first frame; the audio
player then ends with an error, which leaves a stream-done event pending, and
the next video event is due with the frame that carries the end cut time. -/
def errorBeforeEndCut : Player :=
  run (sinkClip [frameAt 0, frameAt 5000000])
    [Op.play {}, Op.onVideoEvent (atTime 0), Op.postAudioEOS 0,
      Op.onCheckAudioStatus (audioEndEnv (Status.other 5))]

/-- Scenario for C24: a clip cut at 5000 ms is played and a video event is due
with the first frame of the clip. -/
def firstFrameDue : Player :=
  run (sinkClip [frameAt 0, frameAt 5000000]) [Op.play {}]

/-- Scenario for C25: a playing clip with an audio player of its own on which a
seek to 33000 us has been recorded. -/
def seekingWithAudio : Player :=
  run (sinkClip [frameAt 0, frameAt 33000]) [Op.play {}, Op.seekTo {} 33000]

/-- Scenario for C26: a clip cut to 0..5000 ms with the sepia effect of S4 is
played and renders its frame at 1500 ms, which sets the sepia bit. -/
def sepiaShown : Player :=
  run (loadEffectsSettings [sepiaEffect]
      (preparedClip 0 5000 [frameAt 1500000, frameAt 1533000]))
    [Op.play {}, Op.onVideoEvent (atTime 1500000)]

/-- Scenario for C26, continued: `setPlaybackBeginTime(6000)` puts the begin cut
after the end cut, and a seek to 1533 ms brings the next frame to the renderer. -/
def sepiaAfterLateBeginCut : Player :=
  run (setPlaybackBeginTime 6000 sepiaShown)
    [Op.seekTo {} 1533000, Op.onVideoEvent (atTime 1533000)]

/-- A sepia effect that starts at 4000 ms, after the end of a clip cut to
0..3000 ms. -/
def lateSepiaEffect : EffectSettings :=
  { VideoEffectType := VideoEffectType.Sepia, uiStartTime := 4000, uiDuration := 1000 }

/-- A player whose clip is cut to 0..`endMs` ms, with the effects `l`. -/
def effectsPlayer (endMs : Nat) (l : List EffectSettings) : Player :=
  loadEffectsSettings l (setPlaybackEndTime endMs newPlayer)

/-- Whether a notification is `MEDIA_SEEK_COMPLETE`. -/
@[simp] def isSeekComplete : Note → Bool
  | Note.event Msg.MEDIA_SEEK_COMPLETE _ _ => true
  | _ => false

/-- The number of `MEDIA_SEEK_COMPLETE` notifications. -/
def seekCompleteCount (tr : List Action) : Nat :=
  (notes tr).countP isSeekComplete

/-- Whether a notification is the code `0xAAAAAAAA` that starts the next player. -/
@[simp] def isStartNext : Note → Bool
  | Note.event Msg.START_NEXT_PLAYER _ _ => true
  | _ => false

/-- The number of notifications `0xAAAAAAAA`. -/
def startNextCount (tr : List Action) : Nat :=
  (notes tr).countP isStartNext

/-- The number of notifications `0xAAAAAAAA` made plus those still possible
before `play_l` clears `mStartNextPlayer` again: the count so far, and one more
while `mStartNextPlayer` is clear. -/
def startNextBudget (s : Player) : Nat :=
  startNextCount s.trace + (if s.mStartNextPlayer then 0 else 1)

/-- Whether the call `op` on the player `s` is a `play` that gets past the
`PLAYING` test of `PreviewPlayer::play_l`, the point where `mStartNextPlayer` is
cleared. -/
def clearsStartNext (s : Player) : Op → Bool
  | Op.play _ => !s.mFlags.PLAYING
  | _ => false

/-- Whether no call of `ops`, run from `s`, is a `play` on a player that is not
`PLAYING`. -/
def noPlayRestart : Player → List Op → Bool
  | _, [] => true
  | s, op :: ops => !clearsStartNext s op && noPlayRestart (step s op) ops

/-- Scenario for C27: a clip cut at 5000 ms whose decoder returns frames from
4000000 us on, within 1.5 s of the end cut. -/
def lastSecondClip : Player :=
  sinkClip [frameAt 4000000, frameAt 4033000, frameAt 4066000]

/-- Scenario for C27: `play` starts playback and the first video event notifies
`0xAAAAAAAA`; the player is paused, a fresh audio player is attached, a seek
posts a video event, and a `play` fails at the start of that audio player. -/
def failedRestart : List Op :=
  [Op.play {}, Op.onVideoEvent (atTime 0), Op.pause, Op.setAudioPlayer {},
    Op.seekTo {} 4000000, Op.play failEnv]

/-- Scenario for C27: video events and a pause and resume of the clip that do
not restart it: the second `play` finds the player `PLAYING`. -/
def playedOn : List Op :=
  [Op.onVideoEvent (atTime 0), Op.onVideoEvent (atTime 33000), Op.play {},
    Op.onVideoEvent (atTime 66000)]

/-- The number of `MEDIA_SEEK_COMPLETE` notifications made plus those still
possible for the seek in progress: the count so far, and one more while
`mSeekNotificationSent` is clear. -/
def seekBudget (s : Player) : Nat :=
  seekCompleteCount s.trace + (if s.mSeekNotificationSent then 0 else 1)

/-- The calls that C29 interleaves after a seek: video events, audio status
events (with the two audio player callbacks that post them), `pause` and
`play`. -/
def afterSeekOp : Op → Bool
  | Op.onVideoEvent _ => true
  | Op.onCheckAudioStatus _ => true
  | Op.pause => true
  | Op.play _ => true
  | Op.postAudioEOS _ => true
  | Op.postAudioSeekComplete => true
  | _ => false

/-- Scenario for C29: a clip with a video track and a raw audio track. -/
def avClip (reads : List ReadResult) : Player :=
  run (setPlaybackEndTime 5000 (setAudioSink true (setSurface newPlayer)))
    [Op.setDataSource { size := 9 }, Op.prepare (bothTracksEnv reads)]

/-- Scenario for C29: the clip with both tracks, playing. -/
def playingAvClip : Player :=
  run (avClip [frameAt 0, frameAt 33000, frameAt 66000]) [Op.play {}]

/-- Scenario for C29: the calls that follow a seek of the playing clip: the video
event that finishes the seek, the seek-complete callback of the audio player,
the audio status event, a pause and a play, and a further video event and audio
status event. -/
def afterSeekCalls : List Op :=
  [Op.onVideoEvent (atTime 0), Op.postAudioSeekComplete, Op.onCheckAudioStatus {},
    Op.pause, Op.play {}, Op.onVideoEvent (atTime 33000), Op.postAudioSeekComplete,
    Op.onCheckAudioStatus {}]

/-! ## Lemmas on the observations -/

@[simp] theorem notes_nil : notes [] = [] := rfl

@[simp] theorem notes_append (l₁ l₂ : List Action) : notes (l₁ ++ l₂) = notes l₁ ++ notes l₂ := by
  simp [notes]

@[simp] theorem notes_cons (a : Action) (l : List Action) :
    notes (a :: l) = (noteOf a).toList ++ notes l := by
  cases h : noteOf a <;> simp [notes, h]

@[simp] theorem renders_nil : renders [] = [] := rfl

@[simp] theorem renders_append (l₁ l₂ : List Action) :
    renders (l₁ ++ l₂) = renders l₁ ++ renders l₂ := by
  simp [renders]

@[simp] theorem renders_cons (a : Action) (l : List Action) :
    renders (a :: l) = (renderOf a).toList ++ renders l := by
  cases h : renderOf a <;> simp [renders, h]

@[simp] theorem playbackCompleteCount_nil : playbackCompleteCount [] = 0 := rfl

@[simp] theorem playbackCompleteCount_append (l₁ l₂ : List Action) :
    playbackCompleteCount (l₁ ++ l₂) = playbackCompleteCount l₁ + playbackCompleteCount l₂ := by
  simp [playbackCompleteCount]

@[simp] theorem playbackCompleteCount_cons (a : Action) (l : List Action) :
    playbackCompleteCount (a :: l) =
      (if (noteOf a).any isPlaybackComplete then 1 else 0) + playbackCompleteCount l := by
  cases h : noteOf a with
  | none => simp [playbackCompleteCount, h]
  | some n =>
    cases hn : isPlaybackComplete n <;>
      simp [playbackCompleteCount, h, hn, List.countP_cons, Nat.add_comm]

@[simp] theorem renderedTimes_nil : renderedTimes [] = [] := rfl

@[simp] theorem renderedTimes_append (l₁ l₂ : List Action) :
    renderedTimes (l₁ ++ l₂) = renderedTimes l₁ ++ renderedTimes l₂ := by
  simp [renderedTimes]

@[simp] theorem emit_trace (a : Action) (s : Player) : (emit a s).trace = s.trace ++ [a] := rfl

@[simp] theorem notifyListener_l_trace (msg : Msg) (ext1 ext2 : Int) (s : Player) :
    (notifyListener_l msg ext1 ext2 s).trace = s.trace ++ [Action.notify msg ext1 ext2] := rfl

@[simp] theorem renders_newAudioPlayerCalls (c : Config) : renders (newAudioPlayerCalls c) = [] := by
  simp [newAudioPlayerCalls, renderOf]

@[simp] theorem renders_changeSourceCalls (started : Bool) (c : Config) :
    renders (changeSourceCalls started c) = [] := by
  cases started <;> simp [changeSourceCalls, renderOf]

@[simp] theorem notes_newAudioPlayerCalls (c : Config) : notes (newAudioPlayerCalls c) = [] := by
  simp [newAudioPlayerCalls, noteOf]

@[simp] theorem notes_changeSourceCalls (started : Bool) (c : Config) :
    notes (changeSourceCalls started c) = [] := by
  cases started <;> simp [changeSourceCalls, noteOf]

@[simp] theorem playbackCompleteCount_newAudioPlayerCalls (c : Config) :
    playbackCompleteCount (newAudioPlayerCalls c) = 0 := by
  simp [playbackCompleteCount]

@[simp] theorem playbackCompleteCount_changeSourceCalls (started : Bool) (c : Config) :
    playbackCompleteCount (changeSourceCalls started c) = 0 := by
  simp [playbackCompleteCount]

set_option linter.unusedTactic false
set_option linter.unreachableTactic false
set_option linter.unnecessarySeqFocus false
set_option linter.unnecessarySimpa false

/-! ## Counting the seek-complete and start-next notifications -/

@[simp] theorem seekCompleteCount_nil : seekCompleteCount [] = 0 := rfl

@[simp] theorem seekCompleteCount_append (l₁ l₂ : List Action) :
    seekCompleteCount (l₁ ++ l₂) = seekCompleteCount l₁ + seekCompleteCount l₂ := by
  simp [seekCompleteCount]

@[simp] theorem seekCompleteCount_cons (a : Action) (l : List Action) :
    seekCompleteCount (a :: l) =
      (if (noteOf a).any isSeekComplete then 1 else 0) + seekCompleteCount l := by
  cases h : noteOf a with
  | none => simp [seekCompleteCount, h]
  | some n =>
    cases hn : isSeekComplete n <;>
      simp [seekCompleteCount, h, hn, List.countP_cons, Nat.add_comm]

@[simp] theorem startNextCount_nil : startNextCount [] = 0 := rfl

@[simp] theorem startNextCount_append (l₁ l₂ : List Action) :
    startNextCount (l₁ ++ l₂) = startNextCount l₁ + startNextCount l₂ := by
  simp [startNextCount]

@[simp] theorem startNextCount_cons (a : Action) (l : List Action) :
    startNextCount (a :: l) =
      (if (noteOf a).any isStartNext then 1 else 0) + startNextCount l := by
  cases h : noteOf a with
  | none => simp [startNextCount, h]
  | some n =>
    cases hn : isStartNext n <;>
      simp [startNextCount, h, hn, List.countP_cons, Nat.add_comm]

@[simp] theorem seekCompleteCount_newAudioPlayerCalls (c : Config) :
    seekCompleteCount (newAudioPlayerCalls c) = 0 := by
  simp [newAudioPlayerCalls, noteOf]

@[simp] theorem seekCompleteCount_changeSourceCalls (started : Bool) (c : Config) :
    seekCompleteCount (changeSourceCalls started c) = 0 := by
  cases started <;> simp [changeSourceCalls, noteOf]

@[simp] theorem startNextCount_newAudioPlayerCalls (c : Config) :
    startNextCount (newAudioPlayerCalls c) = 0 := by
  simp [newAudioPlayerCalls, noteOf]

@[simp] theorem startNextCount_changeSourceCalls (started : Bool) (c : Config) :
    startNextCount (changeSourceCalls started c) = 0 := by
  cases started <;> simp [changeSourceCalls, noteOf]

set_option linter.unusedVariables false

/-! ## What the functions of the model leave unchanged -/

/-- What `emit` leaves unchanged (settings, render calls, completion count, flags). -/
@[simp] theorem emit_frame (a : Action) (s : Player) :
    ((emit a s).cfg = s.cfg) ∧
    ((emit a s).mFlags = s.mFlags) := by
  refine ⟨?_, ?_⟩ <;> simp only [emit] <;> (repeat' split) <;> first | rfl | simp_all [renderOf, noteOf]

/-- What `emit` leaves unchanged (fields of the video loop). -/
@[simp] theorem emit_fields (a : Action) (s : Player) :
    ((emit a s).mCurrentVideoEffect = s.mCurrentVideoEffect) ∧
    ((emit a s).mVideoRenderer = s.mVideoRenderer) ∧
    ((emit a s).mVideoBuffer = s.mVideoBuffer) ∧
    ((emit a s).mSeeking = s.mSeeking) ∧
    ((emit a s).mSeekTimeUs = s.mSeekTimeUs) ∧
    ((emit a s).mIsVideoSourceJpg = s.mIsVideoSourceJpg) ∧
    ((emit a s).mVideoEventPending = s.mVideoEventPending) ∧
    ((emit a s).mStreamDoneEventPending = s.mStreamDoneEventPending) := by
  refine ⟨?_, ?_, ?_, ?_, ?_, ?_, ?_, ?_⟩ <;> simp only [emit] <;> (repeat' split) <;> first | rfl | simp_all [renderOf, noteOf]

/-- What `emit` leaves unchanged (sources, clock and pending marks). -/
@[simp] theorem emit_wiring (a : Action) (s : Player) :
    ((emit a s).mStreamDoneStatus = s.mStreamDoneStatus) ∧
    ((emit a s).mAudioPlayer = s.mAudioPlayer) ∧
    ((emit a s).mAudioSource = s.mAudioSource) ∧
    ((emit a s).mVideoSource = s.mVideoSource) ∧
    ((emit a s).mTimeSource = s.mTimeSource) ∧
    ((emit a s).mTimeSourceDeltaUs = s.mTimeSourceDeltaUs) ∧
    ((emit a s).mOverlayUpdateEventPosted = s.mOverlayUpdateEventPosted) := by
  refine ⟨?_, ?_, ?_, ?_, ?_, ?_, ?_⟩ <;> simp only [emit] <;> (repeat' split) <;> first | rfl | simp_all [renderOf, noteOf]

/-- What `emit` leaves unchanged (the counts of the seek-complete and start-next notifications and
the marks that guard them). -/
@[simp] theorem emit_notices (a : Action) (s : Player) :
    ((emit a s).mSeekNotificationSent = s.mSeekNotificationSent) ∧
    ((emit a s).mStartNextPlayer = s.mStartNextPlayer) := by
  refine ⟨?_, ?_⟩ <;> simp only [emit] <;> (repeat' split) <;> first | rfl | simp_all [renderOf, noteOf]

/-- What `emit` leaves unchanged (the abort mark and the seek state). -/
@[simp] theorem emit_process (a : Action) (s : Player) :
    ((emit a s).aborted = s.aborted) ∧
    ((emit a s).mSeeking = s.mSeeking) := by
  refine ⟨?_, ?_⟩ <;> simp only [emit] <;> (repeat' split) <;> first | rfl | simp_all [renderOf, noteOf]

/-- What `notifyListener_l` leaves unchanged (settings, render calls, completion count, flags). -/
@[simp] theorem notifyListener_l_frame (msg : Msg) (ext1 ext2 : Int) (s : Player) :
    ((notifyListener_l msg ext1 ext2 s).cfg = s.cfg) ∧
    (renders (notifyListener_l msg ext1 ext2 s).trace = renders s.trace) ∧
    ((notifyListener_l msg ext1 ext2 s).mFlags = s.mFlags) := by
  refine ⟨?_, ?_, ?_⟩ <;> simp only [notifyListener_l] <;> (repeat' split) <;> first | rfl | simp_all [renderOf, noteOf]

/-- What `notifyListener_l` leaves unchanged (fields of the video loop). -/
@[simp] theorem notifyListener_l_fields (msg : Msg) (ext1 ext2 : Int) (s : Player) :
    ((notifyListener_l msg ext1 ext2 s).mCurrentVideoEffect = s.mCurrentVideoEffect) ∧
    ((notifyListener_l msg ext1 ext2 s).mVideoRenderer = s.mVideoRenderer) ∧
    ((notifyListener_l msg ext1 ext2 s).mVideoBuffer = s.mVideoBuffer) ∧
    ((notifyListener_l msg ext1 ext2 s).mSeeking = s.mSeeking) ∧
    ((notifyListener_l msg ext1 ext2 s).mSeekTimeUs = s.mSeekTimeUs) ∧
    ((notifyListener_l msg ext1 ext2 s).mIsVideoSourceJpg = s.mIsVideoSourceJpg) ∧
    ((notifyListener_l msg ext1 ext2 s).mVideoEventPending = s.mVideoEventPending) ∧
    ((notifyListener_l msg ext1 ext2 s).mStreamDoneEventPending = s.mStreamDoneEventPending) := by
  refine ⟨?_, ?_, ?_, ?_, ?_, ?_, ?_, ?_⟩ <;> simp only [notifyListener_l] <;> (repeat' split) <;> first | rfl | simp_all [renderOf, noteOf]

/-- What `notifyListener_l` leaves unchanged (sources, clock and pending marks). -/
@[simp] theorem notifyListener_l_wiring (msg : Msg) (ext1 ext2 : Int) (s : Player) :
    ((notifyListener_l msg ext1 ext2 s).mStreamDoneStatus = s.mStreamDoneStatus) ∧
    ((notifyListener_l msg ext1 ext2 s).mAudioPlayer = s.mAudioPlayer) ∧
    ((notifyListener_l msg ext1 ext2 s).mAudioSource = s.mAudioSource) ∧
    ((notifyListener_l msg ext1 ext2 s).mVideoSource = s.mVideoSource) ∧
    ((notifyListener_l msg ext1 ext2 s).mTimeSource = s.mTimeSource) ∧
    ((notifyListener_l msg ext1 ext2 s).mTimeSourceDeltaUs = s.mTimeSourceDeltaUs) ∧
    ((notifyListener_l msg ext1 ext2 s).mOverlayUpdateEventPosted = s.mOverlayUpdateEventPosted) := by
  refine ⟨?_, ?_, ?_, ?_, ?_, ?_, ?_⟩ <;> simp only [notifyListener_l] <;> (repeat' split) <;> first | rfl | simp_all [renderOf, noteOf]

/-- What `notifyListener_l` leaves unchanged (the counts of the seek-complete and start-next
notifications and the marks that guard them). -/
@[simp] theorem notifyListener_l_notices (msg : Msg) (ext1 ext2 : Int) (s : Player) :
    ((notifyListener_l msg ext1 ext2 s).mSeekNotificationSent = s.mSeekNotificationSent) ∧
    ((notifyListener_l msg ext1 ext2 s).mStartNextPlayer = s.mStartNextPlayer) := by
  refine ⟨?_, ?_⟩ <;> simp only [notifyListener_l] <;> (repeat' split) <;> first | rfl | simp_all [renderOf, noteOf]

/-- What `notifyListener_l` leaves unchanged (the abort mark and the seek state). -/
@[simp] theorem notifyListener_l_process (msg : Msg) (ext1 ext2 : Int) (s : Player) :
    ((notifyListener_l msg ext1 ext2 s).aborted = s.aborted) ∧
    ((notifyListener_l msg ext1 ext2 s).mSeeking = s.mSeeking) := by
  refine ⟨?_, ?_⟩ <;> simp only [notifyListener_l] <;> (repeat' split) <;> first | rfl | simp_all [renderOf, noteOf]

/-- What `postVideoEvent_l` leaves unchanged (settings, render calls, completion count, flags). -/
@[simp] theorem postVideoEvent_l_frame (delayUs : Int) (s : Player) :
    ((postVideoEvent_l delayUs s).cfg = s.cfg) ∧
    (renders (postVideoEvent_l delayUs s).trace = renders s.trace) ∧
    (playbackCompleteCount (postVideoEvent_l delayUs s).trace = playbackCompleteCount s.trace) ∧
    ((postVideoEvent_l delayUs s).mFlags = s.mFlags) := by
  refine ⟨?_, ?_, ?_, ?_⟩ <;> simp only [postVideoEvent_l] <;> (repeat' split) <;> first | rfl | simp_all [renderOf, noteOf]

/-- What `postVideoEvent_l` leaves unchanged (fields of the video loop). -/
@[simp] theorem postVideoEvent_l_fields (delayUs : Int) (s : Player) :
    ((postVideoEvent_l delayUs s).mCurrentVideoEffect = s.mCurrentVideoEffect) ∧
    ((postVideoEvent_l delayUs s).mVideoRenderer = s.mVideoRenderer) ∧
    ((postVideoEvent_l delayUs s).mVideoBuffer = s.mVideoBuffer) ∧
    ((postVideoEvent_l delayUs s).mSeeking = s.mSeeking) ∧
    ((postVideoEvent_l delayUs s).mSeekTimeUs = s.mSeekTimeUs) ∧
    ((postVideoEvent_l delayUs s).mIsVideoSourceJpg = s.mIsVideoSourceJpg) ∧
    ((postVideoEvent_l delayUs s).mStreamDoneEventPending = s.mStreamDoneEventPending) := by
  refine ⟨?_, ?_, ?_, ?_, ?_, ?_, ?_⟩ <;> simp only [postVideoEvent_l] <;> (repeat' split) <;> first | rfl | simp_all [renderOf, noteOf]

/-- What `postVideoEvent_l` leaves unchanged (sources, clock and pending marks). -/
@[simp] theorem postVideoEvent_l_wiring (delayUs : Int) (s : Player) :
    ((postVideoEvent_l delayUs s).mStreamDoneStatus = s.mStreamDoneStatus) ∧
    ((postVideoEvent_l delayUs s).mAudioPlayer = s.mAudioPlayer) ∧
    ((postVideoEvent_l delayUs s).mAudioSource = s.mAudioSource) ∧
    ((postVideoEvent_l delayUs s).mVideoSource = s.mVideoSource) ∧
    ((postVideoEvent_l delayUs s).mTimeSource = s.mTimeSource) ∧
    ((postVideoEvent_l delayUs s).mTimeSourceDeltaUs = s.mTimeSourceDeltaUs) ∧
    ((postVideoEvent_l delayUs s).mOverlayUpdateEventPosted = s.mOverlayUpdateEventPosted) := by
  refine ⟨?_, ?_, ?_, ?_, ?_, ?_, ?_⟩ <;> simp only [postVideoEvent_l] <;> (repeat' split) <;> first | rfl | simp_all [renderOf, noteOf]

/-- What `postVideoEvent_l` leaves unchanged (the counts of the seek-complete and start-next
notifications and the marks that guard them). -/
@[simp] theorem postVideoEvent_l_notices (delayUs : Int) (s : Player) :
    (seekCompleteCount (postVideoEvent_l delayUs s).trace = seekCompleteCount s.trace) ∧
    ((postVideoEvent_l delayUs s).mSeekNotificationSent = s.mSeekNotificationSent) ∧
    (startNextCount (postVideoEvent_l delayUs s).trace = startNextCount s.trace) ∧
    ((postVideoEvent_l delayUs s).mStartNextPlayer = s.mStartNextPlayer) := by
  refine ⟨?_, ?_, ?_, ?_⟩ <;> simp only [postVideoEvent_l] <;> (repeat' split) <;> first | rfl | simp_all [renderOf, noteOf]

/-- What `postVideoEvent_l` leaves unchanged (the abort mark and the seek state). -/
@[simp] theorem postVideoEvent_l_process (delayUs : Int) (s : Player) :
    ((postVideoEvent_l delayUs s).aborted = s.aborted) ∧
    ((postVideoEvent_l delayUs s).mSeeking = s.mSeeking) := by
  refine ⟨?_, ?_⟩ <;> simp only [postVideoEvent_l] <;> (repeat' split) <;> first | rfl | simp_all [renderOf, noteOf]

/-- What `postStreamDoneEvent_l` leaves unchanged (settings, render calls, completion count,
flags). -/
@[simp] theorem postStreamDoneEvent_l_frame (status : Status) (s : Player) :
    ((postStreamDoneEvent_l status s).cfg = s.cfg) ∧
    (renders (postStreamDoneEvent_l status s).trace = renders s.trace) ∧
    (playbackCompleteCount (postStreamDoneEvent_l status s).trace = playbackCompleteCount s.trace) ∧
    ((postStreamDoneEvent_l status s).mFlags = s.mFlags) := by
  refine ⟨?_, ?_, ?_, ?_⟩ <;> simp only [postStreamDoneEvent_l] <;> (repeat' split) <;> first | rfl | simp_all [renderOf, noteOf]

/-- What `postStreamDoneEvent_l` leaves unchanged (fields of the video loop). -/
@[simp] theorem postStreamDoneEvent_l_fields (status : Status) (s : Player) :
    ((postStreamDoneEvent_l status s).mCurrentVideoEffect = s.mCurrentVideoEffect) ∧
    ((postStreamDoneEvent_l status s).mVideoRenderer = s.mVideoRenderer) ∧
    ((postStreamDoneEvent_l status s).mVideoBuffer = s.mVideoBuffer) ∧
    ((postStreamDoneEvent_l status s).mSeeking = s.mSeeking) ∧
    ((postStreamDoneEvent_l status s).mSeekTimeUs = s.mSeekTimeUs) ∧
    ((postStreamDoneEvent_l status s).mIsVideoSourceJpg = s.mIsVideoSourceJpg) ∧
    ((postStreamDoneEvent_l status s).mVideoEventPending = s.mVideoEventPending) := by
  refine ⟨?_, ?_, ?_, ?_, ?_, ?_, ?_⟩ <;> simp only [postStreamDoneEvent_l] <;> (repeat' split) <;> first | rfl | simp_all [renderOf, noteOf]

/-- What `postStreamDoneEvent_l` leaves unchanged (sources, clock and pending marks). -/
@[simp] theorem postStreamDoneEvent_l_wiring (status : Status) (s : Player) :
    ((postStreamDoneEvent_l status s).mAudioPlayer = s.mAudioPlayer) ∧
    ((postStreamDoneEvent_l status s).mAudioSource = s.mAudioSource) ∧
    ((postStreamDoneEvent_l status s).mVideoSource = s.mVideoSource) ∧
    ((postStreamDoneEvent_l status s).mTimeSource = s.mTimeSource) ∧
    ((postStreamDoneEvent_l status s).mTimeSourceDeltaUs = s.mTimeSourceDeltaUs) ∧
    ((postStreamDoneEvent_l status s).mOverlayUpdateEventPosted = s.mOverlayUpdateEventPosted) := by
  refine ⟨?_, ?_, ?_, ?_, ?_, ?_⟩ <;> simp only [postStreamDoneEvent_l] <;> (repeat' split) <;> first | rfl | simp_all [renderOf, noteOf]

/-- What `postStreamDoneEvent_l` leaves unchanged (the counts of the seek-complete and start-next
notifications and the marks that guard them). -/
@[simp] theorem postStreamDoneEvent_l_notices (status : Status) (s : Player) :
    (seekCompleteCount (postStreamDoneEvent_l status s).trace = seekCompleteCount s.trace) ∧
    ((postStreamDoneEvent_l status s).mSeekNotificationSent = s.mSeekNotificationSent) ∧
    (startNextCount (postStreamDoneEvent_l status s).trace = startNextCount s.trace) ∧
    ((postStreamDoneEvent_l status s).mStartNextPlayer = s.mStartNextPlayer) := by
  refine ⟨?_, ?_, ?_, ?_⟩ <;> simp only [postStreamDoneEvent_l] <;> (repeat' split) <;> first | rfl | simp_all [renderOf, noteOf]

/-- What `postStreamDoneEvent_l` leaves unchanged (the abort mark and the seek state). -/
@[simp] theorem postStreamDoneEvent_l_process (status : Status) (s : Player) :
    ((postStreamDoneEvent_l status s).aborted = s.aborted) ∧
    ((postStreamDoneEvent_l status s).mSeeking = s.mSeeking) := by
  refine ⟨?_, ?_⟩ <;> simp only [postStreamDoneEvent_l] <;> (repeat' split) <;> first | rfl | simp_all [renderOf, noteOf]

/-- What `postBufferingEvent_l` leaves unchanged (settings, render calls, completion count,
flags). -/
@[simp] theorem postBufferingEvent_l_frame (s : Player) :
    ((postBufferingEvent_l s).cfg = s.cfg) ∧
    (renders (postBufferingEvent_l s).trace = renders s.trace) ∧
    (playbackCompleteCount (postBufferingEvent_l s).trace = playbackCompleteCount s.trace) ∧
    ((postBufferingEvent_l s).mFlags = s.mFlags) := by
  refine ⟨?_, ?_, ?_, ?_⟩ <;> simp only [postBufferingEvent_l] <;> (repeat' split) <;> first | rfl | simp_all [renderOf, noteOf]

/-- What `postBufferingEvent_l` leaves unchanged (the counts of the seek-complete and start-next
notifications and the marks that guard them). -/
@[simp] theorem postBufferingEvent_l_notices (s : Player) :
    (seekCompleteCount (postBufferingEvent_l s).trace = seekCompleteCount s.trace) ∧
    ((postBufferingEvent_l s).mSeekNotificationSent = s.mSeekNotificationSent) ∧
    (startNextCount (postBufferingEvent_l s).trace = startNextCount s.trace) ∧
    ((postBufferingEvent_l s).mStartNextPlayer = s.mStartNextPlayer) := by
  refine ⟨?_, ?_, ?_, ?_⟩ <;> simp only [postBufferingEvent_l] <;> (repeat' split) <;> first | rfl | simp_all [renderOf, noteOf]

/-- What `postBufferingEvent_l` leaves unchanged (the abort mark and the seek state). -/
@[simp] theorem postBufferingEvent_l_process (s : Player) :
    ((postBufferingEvent_l s).aborted = s.aborted) ∧
    ((postBufferingEvent_l s).mSeeking = s.mSeeking) := by
  refine ⟨?_, ?_⟩ <;> simp only [postBufferingEvent_l] <;> (repeat' split) <;> first | rfl | simp_all [renderOf, noteOf]

/-- What `postVideoLagEvent_l` leaves unchanged (settings, render calls, completion count, flags).
-/
@[simp] theorem postVideoLagEvent_l_frame (s : Player) :
    ((postVideoLagEvent_l s).cfg = s.cfg) ∧
    (renders (postVideoLagEvent_l s).trace = renders s.trace) ∧
    (playbackCompleteCount (postVideoLagEvent_l s).trace = playbackCompleteCount s.trace) ∧
    ((postVideoLagEvent_l s).mFlags = s.mFlags) := by
  refine ⟨?_, ?_, ?_, ?_⟩ <;> simp only [postVideoLagEvent_l] <;> (repeat' split) <;> first | rfl | simp_all [renderOf, noteOf]

/-- What `postVideoLagEvent_l` leaves unchanged (the counts of the seek-complete and start-next
notifications and the marks that guard them). -/
@[simp] theorem postVideoLagEvent_l_notices (s : Player) :
    (seekCompleteCount (postVideoLagEvent_l s).trace = seekCompleteCount s.trace) ∧
    ((postVideoLagEvent_l s).mSeekNotificationSent = s.mSeekNotificationSent) ∧
    (startNextCount (postVideoLagEvent_l s).trace = startNextCount s.trace) ∧
    ((postVideoLagEvent_l s).mStartNextPlayer = s.mStartNextPlayer) := by
  refine ⟨?_, ?_, ?_, ?_⟩ <;> simp only [postVideoLagEvent_l] <;> (repeat' split) <;> first | rfl | simp_all [renderOf, noteOf]

/-- What `postVideoLagEvent_l` leaves unchanged (the abort mark and the seek state). -/
@[simp] theorem postVideoLagEvent_l_process (s : Player) :
    ((postVideoLagEvent_l s).aborted = s.aborted) ∧
    ((postVideoLagEvent_l s).mSeeking = s.mSeeking) := by
  refine ⟨?_, ?_⟩ <;> simp only [postVideoLagEvent_l] <;> (repeat' split) <;> first | rfl | simp_all [renderOf, noteOf]

/-- What `postCheckAudioStatusEvent_l` leaves unchanged (settings, render calls, completion count,
flags). -/
@[simp] theorem postCheckAudioStatusEvent_l_frame (delayUs : Int) (s : Player) :
    ((postCheckAudioStatusEvent_l delayUs s).cfg = s.cfg) ∧
    (renders (postCheckAudioStatusEvent_l delayUs s).trace = renders s.trace) ∧
    (playbackCompleteCount (postCheckAudioStatusEvent_l delayUs s).trace = playbackCompleteCount s.trace) ∧
    ((postCheckAudioStatusEvent_l delayUs s).mFlags = s.mFlags) := by
  refine ⟨?_, ?_, ?_, ?_⟩ <;> simp only [postCheckAudioStatusEvent_l] <;> (repeat' split) <;> first | rfl | simp_all [renderOf, noteOf]

/-- What `postCheckAudioStatusEvent_l` leaves unchanged (the counts of the seek-complete and
start-next notifications and the marks that guard them). -/
@[simp] theorem postCheckAudioStatusEvent_l_notices (delayUs : Int) (s : Player) :
    (seekCompleteCount (postCheckAudioStatusEvent_l delayUs s).trace = seekCompleteCount s.trace) ∧
    ((postCheckAudioStatusEvent_l delayUs s).mSeekNotificationSent = s.mSeekNotificationSent) ∧
    (startNextCount (postCheckAudioStatusEvent_l delayUs s).trace = startNextCount s.trace) ∧
    ((postCheckAudioStatusEvent_l delayUs s).mStartNextPlayer = s.mStartNextPlayer) := by
  refine ⟨?_, ?_, ?_, ?_⟩ <;> simp only [postCheckAudioStatusEvent_l] <;> (repeat' split) <;> first | rfl | simp_all [renderOf, noteOf]

/-- What `postCheckAudioStatusEvent_l` leaves unchanged (the abort mark and the seek state). -/
@[simp] theorem postCheckAudioStatusEvent_l_process (delayUs : Int) (s : Player) :
    ((postCheckAudioStatusEvent_l delayUs s).aborted = s.aborted) ∧
    ((postCheckAudioStatusEvent_l delayUs s).mSeeking = s.mSeeking) := by
  refine ⟨?_, ?_⟩ <;> simp only [postCheckAudioStatusEvent_l] <;> (repeat' split) <;> first | rfl | simp_all [renderOf, noteOf]

/-- What `postProgressCallbackEvent_l` leaves unchanged (settings, render calls, completion count,
flags). -/
@[simp] theorem postProgressCallbackEvent_l_frame (s : Player) :
    ((postProgressCallbackEvent_l s).cfg = s.cfg) ∧
    (renders (postProgressCallbackEvent_l s).trace = renders s.trace) ∧
    (playbackCompleteCount (postProgressCallbackEvent_l s).trace = playbackCompleteCount s.trace) ∧
    ((postProgressCallbackEvent_l s).mFlags = s.mFlags) := by
  refine ⟨?_, ?_, ?_, ?_⟩ <;> simp only [postProgressCallbackEvent_l] <;> (repeat' split) <;> first | rfl | simp_all [renderOf, noteOf]

/-- What `postProgressCallbackEvent_l` leaves unchanged (fields of the video loop). -/
@[simp] theorem postProgressCallbackEvent_l_fields (s : Player) :
    ((postProgressCallbackEvent_l s).mCurrentVideoEffect = s.mCurrentVideoEffect) ∧
    ((postProgressCallbackEvent_l s).mVideoRenderer = s.mVideoRenderer) ∧
    ((postProgressCallbackEvent_l s).mVideoBuffer = s.mVideoBuffer) ∧
    ((postProgressCallbackEvent_l s).mSeeking = s.mSeeking) ∧
    ((postProgressCallbackEvent_l s).mSeekTimeUs = s.mSeekTimeUs) ∧
    ((postProgressCallbackEvent_l s).mIsVideoSourceJpg = s.mIsVideoSourceJpg) ∧
    ((postProgressCallbackEvent_l s).mVideoEventPending = s.mVideoEventPending) ∧
    ((postProgressCallbackEvent_l s).mStreamDoneEventPending = s.mStreamDoneEventPending) := by
  refine ⟨?_, ?_, ?_, ?_, ?_, ?_, ?_, ?_⟩ <;> simp only [postProgressCallbackEvent_l] <;> (repeat' split) <;> first | rfl | simp_all [renderOf, noteOf]

/-- What `postProgressCallbackEvent_l` leaves unchanged (sources, clock and pending marks). -/
@[simp] theorem postProgressCallbackEvent_l_wiring (s : Player) :
    ((postProgressCallbackEvent_l s).mStreamDoneStatus = s.mStreamDoneStatus) ∧
    ((postProgressCallbackEvent_l s).mAudioPlayer = s.mAudioPlayer) ∧
    ((postProgressCallbackEvent_l s).mAudioSource = s.mAudioSource) ∧
    ((postProgressCallbackEvent_l s).mVideoSource = s.mVideoSource) ∧
    ((postProgressCallbackEvent_l s).mTimeSource = s.mTimeSource) ∧
    ((postProgressCallbackEvent_l s).mTimeSourceDeltaUs = s.mTimeSourceDeltaUs) ∧
    ((postProgressCallbackEvent_l s).mOverlayUpdateEventPosted = s.mOverlayUpdateEventPosted) := by
  refine ⟨?_, ?_, ?_, ?_, ?_, ?_, ?_⟩ <;> simp only [postProgressCallbackEvent_l] <;> (repeat' split) <;> first | rfl | simp_all [renderOf, noteOf]

/-- What `postProgressCallbackEvent_l` leaves unchanged (the counts of the seek-complete and
start-next notifications and the marks that guard them). -/
@[simp] theorem postProgressCallbackEvent_l_notices (s : Player) :
    (seekCompleteCount (postProgressCallbackEvent_l s).trace = seekCompleteCount s.trace) ∧
    ((postProgressCallbackEvent_l s).mSeekNotificationSent = s.mSeekNotificationSent) ∧
    (startNextCount (postProgressCallbackEvent_l s).trace = startNextCount s.trace) ∧
    ((postProgressCallbackEvent_l s).mStartNextPlayer = s.mStartNextPlayer) := by
  refine ⟨?_, ?_, ?_, ?_⟩ <;> simp only [postProgressCallbackEvent_l] <;> (repeat' split) <;> first | rfl | simp_all [renderOf, noteOf]

/-- What `postProgressCallbackEvent_l` leaves unchanged (the abort mark and the seek state). -/
@[simp] theorem postProgressCallbackEvent_l_process (s : Player) :
    ((postProgressCallbackEvent_l s).aborted = s.aborted) ∧
    ((postProgressCallbackEvent_l s).mSeeking = s.mSeeking) := by
  refine ⟨?_, ?_⟩ <;> simp only [postProgressCallbackEvent_l] <;> (repeat' split) <;> first | rfl | simp_all [renderOf, noteOf]

/-- What `postOverlayUpdateEvent_l` leaves unchanged (settings, render calls, completion count,
flags). -/
@[simp] theorem postOverlayUpdateEvent_l_frame (s : Player) :
    ((postOverlayUpdateEvent_l s).cfg = s.cfg) ∧
    (renders (postOverlayUpdateEvent_l s).trace = renders s.trace) ∧
    (playbackCompleteCount (postOverlayUpdateEvent_l s).trace = playbackCompleteCount s.trace) ∧
    ((postOverlayUpdateEvent_l s).mFlags = s.mFlags) := by
  refine ⟨?_, ?_, ?_, ?_⟩ <;> simp only [postOverlayUpdateEvent_l] <;> (repeat' split) <;> first | rfl | simp_all [renderOf, noteOf]

/-- What `postOverlayUpdateEvent_l` leaves unchanged (fields of the video loop). -/
@[simp] theorem postOverlayUpdateEvent_l_fields (s : Player) :
    ((postOverlayUpdateEvent_l s).mCurrentVideoEffect = s.mCurrentVideoEffect) ∧
    ((postOverlayUpdateEvent_l s).mVideoRenderer = s.mVideoRenderer) ∧
    ((postOverlayUpdateEvent_l s).mVideoBuffer = s.mVideoBuffer) ∧
    ((postOverlayUpdateEvent_l s).mSeeking = s.mSeeking) ∧
    ((postOverlayUpdateEvent_l s).mSeekTimeUs = s.mSeekTimeUs) ∧
    ((postOverlayUpdateEvent_l s).mIsVideoSourceJpg = s.mIsVideoSourceJpg) ∧
    ((postOverlayUpdateEvent_l s).mVideoEventPending = s.mVideoEventPending) ∧
    ((postOverlayUpdateEvent_l s).mStreamDoneEventPending = s.mStreamDoneEventPending) := by
  refine ⟨?_, ?_, ?_, ?_, ?_, ?_, ?_, ?_⟩ <;> simp only [postOverlayUpdateEvent_l] <;> (repeat' split) <;> first | rfl | simp_all [renderOf, noteOf]

/-- What `postOverlayUpdateEvent_l` leaves unchanged (sources, clock and pending marks). -/
@[simp] theorem postOverlayUpdateEvent_l_wiring (s : Player) :
    ((postOverlayUpdateEvent_l s).mStreamDoneStatus = s.mStreamDoneStatus) ∧
    ((postOverlayUpdateEvent_l s).mAudioPlayer = s.mAudioPlayer) ∧
    ((postOverlayUpdateEvent_l s).mAudioSource = s.mAudioSource) ∧
    ((postOverlayUpdateEvent_l s).mVideoSource = s.mVideoSource) ∧
    ((postOverlayUpdateEvent_l s).mTimeSource = s.mTimeSource) ∧
    ((postOverlayUpdateEvent_l s).mTimeSourceDeltaUs = s.mTimeSourceDeltaUs) ∧
    ((postOverlayUpdateEvent_l s).mOverlayUpdateEventPosted = s.mOverlayUpdateEventPosted) := by
  refine ⟨?_, ?_, ?_, ?_, ?_, ?_, ?_⟩ <;> simp only [postOverlayUpdateEvent_l] <;> (repeat' split) <;> first | rfl | simp_all [renderOf, noteOf]

/-- What `postOverlayUpdateEvent_l` leaves unchanged (the counts of the seek-complete and
start-next notifications and the marks that guard them). -/
@[simp] theorem postOverlayUpdateEvent_l_notices (s : Player) :
    (seekCompleteCount (postOverlayUpdateEvent_l s).trace = seekCompleteCount s.trace) ∧
    ((postOverlayUpdateEvent_l s).mSeekNotificationSent = s.mSeekNotificationSent) ∧
    (startNextCount (postOverlayUpdateEvent_l s).trace = startNextCount s.trace) ∧
    ((postOverlayUpdateEvent_l s).mStartNextPlayer = s.mStartNextPlayer) := by
  refine ⟨?_, ?_, ?_, ?_⟩ <;> simp only [postOverlayUpdateEvent_l] <;> (repeat' split) <;> first | rfl | simp_all [renderOf, noteOf]

/-- What `postOverlayUpdateEvent_l` leaves unchanged (the abort mark and the seek state). -/
@[simp] theorem postOverlayUpdateEvent_l_process (s : Player) :
    ((postOverlayUpdateEvent_l s).aborted = s.aborted) ∧
    ((postOverlayUpdateEvent_l s).mSeeking = s.mSeeking) := by
  refine ⟨?_, ?_⟩ <;> simp only [postOverlayUpdateEvent_l] <;> (repeat' split) <;> first | rfl | simp_all [renderOf, noteOf]

/-- What `postAudioEOS` leaves unchanged (settings, render calls, completion count, flags). -/
@[simp] theorem postAudioEOS_frame (delayUs : Int) (s : Player) :
    ((postAudioEOS delayUs s).cfg = s.cfg) ∧
    (renders (postAudioEOS delayUs s).trace = renders s.trace) ∧
    (playbackCompleteCount (postAudioEOS delayUs s).trace = playbackCompleteCount s.trace) ∧
    ((postAudioEOS delayUs s).mFlags = s.mFlags) := by
  refine ⟨?_, ?_, ?_, ?_⟩ <;> simp only [postAudioEOS] <;> (repeat' split) <;> first | rfl | simp_all [renderOf, noteOf]

/-- What `postAudioEOS` leaves unchanged (the counts of the seek-complete and start-next
notifications and the marks that guard them). -/
@[simp] theorem postAudioEOS_notices (delayUs : Int) (s : Player) :
    (seekCompleteCount (postAudioEOS delayUs s).trace = seekCompleteCount s.trace) ∧
    ((postAudioEOS delayUs s).mSeekNotificationSent = s.mSeekNotificationSent) ∧
    (startNextCount (postAudioEOS delayUs s).trace = startNextCount s.trace) ∧
    ((postAudioEOS delayUs s).mStartNextPlayer = s.mStartNextPlayer) := by
  refine ⟨?_, ?_, ?_, ?_⟩ <;> simp only [postAudioEOS] <;> (repeat' split) <;> first | rfl | simp_all [renderOf, noteOf]

/-- What `postAudioEOS` leaves unchanged (the abort mark and the seek state). -/
@[simp] theorem postAudioEOS_process (delayUs : Int) (s : Player) :
    ((postAudioEOS delayUs s).aborted = s.aborted) ∧
    ((postAudioEOS delayUs s).mSeeking = s.mSeeking) := by
  refine ⟨?_, ?_⟩ <;> simp only [postAudioEOS] <;> (repeat' split) <;> first | rfl | simp_all [renderOf, noteOf]

/-- What `postAudioSeekComplete` leaves unchanged (settings, render calls, completion count,
flags). -/
@[simp] theorem postAudioSeekComplete_frame (s : Player) :
    ((postAudioSeekComplete s).cfg = s.cfg) ∧
    (renders (postAudioSeekComplete s).trace = renders s.trace) ∧
    (playbackCompleteCount (postAudioSeekComplete s).trace = playbackCompleteCount s.trace) ∧
    ((postAudioSeekComplete s).mFlags = s.mFlags) := by
  refine ⟨?_, ?_, ?_, ?_⟩ <;> simp only [postAudioSeekComplete] <;> (repeat' split) <;> first | rfl | simp_all [renderOf, noteOf]

/-- What `postAudioSeekComplete` leaves unchanged (the counts of the seek-complete and start-next
notifications and the marks that guard them). -/
@[simp] theorem postAudioSeekComplete_notices (s : Player) :
    (seekCompleteCount (postAudioSeekComplete s).trace = seekCompleteCount s.trace) ∧
    ((postAudioSeekComplete s).mSeekNotificationSent = s.mSeekNotificationSent) ∧
    (startNextCount (postAudioSeekComplete s).trace = startNextCount s.trace) ∧
    ((postAudioSeekComplete s).mStartNextPlayer = s.mStartNextPlayer) := by
  refine ⟨?_, ?_, ?_, ?_⟩ <;> simp only [postAudioSeekComplete] <;> (repeat' split) <;> first | rfl | simp_all [renderOf, noteOf]

/-- What `postAudioSeekComplete` leaves unchanged (the abort mark and the seek state). -/
@[simp] theorem postAudioSeekComplete_process (s : Player) :
    ((postAudioSeekComplete s).aborted = s.aborted) ∧
    ((postAudioSeekComplete s).mSeeking = s.mSeeking) := by
  refine ⟨?_, ?_⟩ <;> simp only [postAudioSeekComplete] <;> (repeat' split) <;> first | rfl | simp_all [renderOf, noteOf]

/-- What `PreviewPlayerBase.cancelPlayerEvents` leaves unchanged (settings, render calls,
completion count, flags). -/
@[simp] theorem base_cancelPlayerEvents_frame (keep : Bool) (s : Player) :
    ((PreviewPlayerBase.cancelPlayerEvents keep s).cfg = s.cfg) ∧
    (renders (PreviewPlayerBase.cancelPlayerEvents keep s).trace = renders s.trace) ∧
    (playbackCompleteCount (PreviewPlayerBase.cancelPlayerEvents keep s).trace = playbackCompleteCount s.trace) ∧
    ((PreviewPlayerBase.cancelPlayerEvents keep s).mFlags = s.mFlags) := by
  refine ⟨?_, ?_, ?_, ?_⟩ <;> simp only [PreviewPlayerBase.cancelPlayerEvents] <;> (repeat' split) <;> first | rfl | simp_all [renderOf, noteOf]

/-- What `PreviewPlayerBase.cancelPlayerEvents` leaves unchanged (fields of the video loop). -/
@[simp] theorem base_cancelPlayerEvents_fields (keep : Bool) (s : Player) :
    ((PreviewPlayerBase.cancelPlayerEvents keep s).mCurrentVideoEffect = s.mCurrentVideoEffect) ∧
    ((PreviewPlayerBase.cancelPlayerEvents keep s).mVideoRenderer = s.mVideoRenderer) ∧
    ((PreviewPlayerBase.cancelPlayerEvents keep s).mVideoBuffer = s.mVideoBuffer) ∧
    ((PreviewPlayerBase.cancelPlayerEvents keep s).mSeeking = s.mSeeking) ∧
    ((PreviewPlayerBase.cancelPlayerEvents keep s).mSeekTimeUs = s.mSeekTimeUs) ∧
    ((PreviewPlayerBase.cancelPlayerEvents keep s).mIsVideoSourceJpg = s.mIsVideoSourceJpg) := by
  refine ⟨?_, ?_, ?_, ?_, ?_, ?_⟩ <;> simp only [PreviewPlayerBase.cancelPlayerEvents] <;> (repeat' split) <;> first | rfl | simp_all [renderOf, noteOf]

/-- What `PreviewPlayerBase.cancelPlayerEvents` leaves unchanged (sources, clock and pending
marks). -/
@[simp] theorem base_cancelPlayerEvents_wiring (keep : Bool) (s : Player) :
    ((PreviewPlayerBase.cancelPlayerEvents keep s).mStreamDoneStatus = s.mStreamDoneStatus) ∧
    ((PreviewPlayerBase.cancelPlayerEvents keep s).mAudioPlayer = s.mAudioPlayer) ∧
    ((PreviewPlayerBase.cancelPlayerEvents keep s).mAudioSource = s.mAudioSource) ∧
    ((PreviewPlayerBase.cancelPlayerEvents keep s).mVideoSource = s.mVideoSource) ∧
    ((PreviewPlayerBase.cancelPlayerEvents keep s).mTimeSource = s.mTimeSource) ∧
    ((PreviewPlayerBase.cancelPlayerEvents keep s).mTimeSourceDeltaUs = s.mTimeSourceDeltaUs) ∧
    ((PreviewPlayerBase.cancelPlayerEvents keep s).mOverlayUpdateEventPosted = s.mOverlayUpdateEventPosted) := by
  refine ⟨?_, ?_, ?_, ?_, ?_, ?_, ?_⟩ <;> simp only [PreviewPlayerBase.cancelPlayerEvents] <;> (repeat' split) <;> first | rfl | simp_all [renderOf, noteOf]

/-- What `PreviewPlayerBase.cancelPlayerEvents` leaves unchanged (the counts of the seek-complete
and start-next notifications and the marks that guard them). -/
@[simp] theorem base_cancelPlayerEvents_notices (keep : Bool) (s : Player) :
    (seekCompleteCount (PreviewPlayerBase.cancelPlayerEvents keep s).trace = seekCompleteCount s.trace) ∧
    ((PreviewPlayerBase.cancelPlayerEvents keep s).mSeekNotificationSent = s.mSeekNotificationSent) ∧
    (startNextCount (PreviewPlayerBase.cancelPlayerEvents keep s).trace = startNextCount s.trace) ∧
    ((PreviewPlayerBase.cancelPlayerEvents keep s).mStartNextPlayer = s.mStartNextPlayer) := by
  refine ⟨?_, ?_, ?_, ?_⟩ <;> simp only [PreviewPlayerBase.cancelPlayerEvents] <;> (repeat' split) <;> first | rfl | simp_all [renderOf, noteOf]

/-- What `PreviewPlayerBase.cancelPlayerEvents` leaves unchanged (the abort mark and the seek
state). -/
@[simp] theorem base_cancelPlayerEvents_process (keep : Bool) (s : Player) :
    ((PreviewPlayerBase.cancelPlayerEvents keep s).aborted = s.aborted) ∧
    ((PreviewPlayerBase.cancelPlayerEvents keep s).mSeeking = s.mSeeking) := by
  refine ⟨?_, ?_⟩ <;> simp only [PreviewPlayerBase.cancelPlayerEvents] <;> (repeat' split) <;> first | rfl | simp_all [renderOf, noteOf]

/-- What `cancelPlayerEvents` leaves unchanged (settings, render calls, completion count, flags). -/
@[simp] theorem cancelPlayerEvents_frame (s : Player) :
    ((cancelPlayerEvents s).cfg = s.cfg) ∧
    (renders (cancelPlayerEvents s).trace = renders s.trace) ∧
    (playbackCompleteCount (cancelPlayerEvents s).trace = playbackCompleteCount s.trace) ∧
    ((cancelPlayerEvents s).mFlags = s.mFlags) := by
  refine ⟨?_, ?_, ?_, ?_⟩ <;> simp only [cancelPlayerEvents] <;> (repeat' split) <;> first | rfl | simp_all [renderOf, noteOf]

/-- What `cancelPlayerEvents` leaves unchanged (the counts of the seek-complete and start-next
notifications and the marks that guard them). -/
@[simp] theorem cancelPlayerEvents_notices (s : Player) :
    (seekCompleteCount (cancelPlayerEvents s).trace = seekCompleteCount s.trace) ∧
    ((cancelPlayerEvents s).mSeekNotificationSent = s.mSeekNotificationSent) ∧
    (startNextCount (cancelPlayerEvents s).trace = startNextCount s.trace) ∧
    ((cancelPlayerEvents s).mStartNextPlayer = s.mStartNextPlayer) := by
  refine ⟨?_, ?_, ?_, ?_⟩ <;> simp only [cancelPlayerEvents] <;> (repeat' split) <;> first | rfl | simp_all [renderOf, noteOf]

/-- What `cancelPlayerEvents` leaves unchanged (the abort mark and the seek state). -/
@[simp] theorem cancelPlayerEvents_process (s : Player) :
    ((cancelPlayerEvents s).aborted = s.aborted) ∧
    ((cancelPlayerEvents s).mSeeking = s.mSeeking) := by
  refine ⟨?_, ?_⟩ <;> simp only [cancelPlayerEvents] <;> (repeat' split) <;> first | rfl | simp_all [renderOf, noteOf]

/-- What `seekAudioIfNecessary_l` leaves unchanged (settings, render calls, completion count,
flags). -/
@[simp] theorem seekAudioIfNecessary_l_frame (s : Player) :
    ((seekAudioIfNecessary_l s).cfg = s.cfg) ∧
    (renders (seekAudioIfNecessary_l s).trace = renders s.trace) ∧
    (playbackCompleteCount (seekAudioIfNecessary_l s).trace = playbackCompleteCount s.trace) ∧
    ((seekAudioIfNecessary_l s).mFlags = s.mFlags) := by
  refine ⟨?_, ?_, ?_, ?_⟩ <;> simp only [seekAudioIfNecessary_l] <;> (repeat' split) <;> first | rfl | simp_all [renderOf, noteOf]

/-- What `seekAudioIfNecessary_l` leaves unchanged (fields of the video loop). -/
@[simp] theorem seekAudioIfNecessary_l_fields (s : Player) :
    ((seekAudioIfNecessary_l s).mCurrentVideoEffect = s.mCurrentVideoEffect) ∧
    ((seekAudioIfNecessary_l s).mVideoRenderer = s.mVideoRenderer) ∧
    ((seekAudioIfNecessary_l s).mVideoBuffer = s.mVideoBuffer) ∧
    ((seekAudioIfNecessary_l s).mSeeking = s.mSeeking) ∧
    ((seekAudioIfNecessary_l s).mSeekTimeUs = s.mSeekTimeUs) ∧
    ((seekAudioIfNecessary_l s).mIsVideoSourceJpg = s.mIsVideoSourceJpg) ∧
    ((seekAudioIfNecessary_l s).mVideoEventPending = s.mVideoEventPending) ∧
    ((seekAudioIfNecessary_l s).mStreamDoneEventPending = s.mStreamDoneEventPending) := by
  refine ⟨?_, ?_, ?_, ?_, ?_, ?_, ?_, ?_⟩ <;> simp only [seekAudioIfNecessary_l] <;> (repeat' split) <;> first | rfl | simp_all [renderOf, noteOf]

/-- What `seekAudioIfNecessary_l` leaves unchanged (sources, clock and pending marks). -/
@[simp] theorem seekAudioIfNecessary_l_wiring (s : Player) :
    ((seekAudioIfNecessary_l s).mStreamDoneStatus = s.mStreamDoneStatus) ∧
    ((seekAudioIfNecessary_l s).mAudioPlayer = s.mAudioPlayer) ∧
    ((seekAudioIfNecessary_l s).mAudioSource = s.mAudioSource) ∧
    ((seekAudioIfNecessary_l s).mVideoSource = s.mVideoSource) ∧
    ((seekAudioIfNecessary_l s).mTimeSource = s.mTimeSource) ∧
    ((seekAudioIfNecessary_l s).mTimeSourceDeltaUs = s.mTimeSourceDeltaUs) ∧
    ((seekAudioIfNecessary_l s).mOverlayUpdateEventPosted = s.mOverlayUpdateEventPosted) := by
  refine ⟨?_, ?_, ?_, ?_, ?_, ?_, ?_⟩ <;> simp only [seekAudioIfNecessary_l] <;> (repeat' split) <;> first | rfl | simp_all [renderOf, noteOf]

/-- What `seekAudioIfNecessary_l` leaves unchanged (the counts of the seek-complete and start-next
notifications and the marks that guard them). -/
@[simp] theorem seekAudioIfNecessary_l_notices (s : Player) :
    (seekCompleteCount (seekAudioIfNecessary_l s).trace = seekCompleteCount s.trace) ∧
    ((seekAudioIfNecessary_l s).mSeekNotificationSent = s.mSeekNotificationSent) ∧
    (startNextCount (seekAudioIfNecessary_l s).trace = startNextCount s.trace) ∧
    ((seekAudioIfNecessary_l s).mStartNextPlayer = s.mStartNextPlayer) := by
  refine ⟨?_, ?_, ?_, ?_⟩ <;> simp only [seekAudioIfNecessary_l] <;> (repeat' split) <;> first | rfl | simp_all [renderOf, noteOf]

/-- What `seekAudioIfNecessary_l` leaves unchanged (the abort mark and the seek state). -/
@[simp] theorem seekAudioIfNecessary_l_process (s : Player) :
    ((seekAudioIfNecessary_l s).aborted = s.aborted) ∧
    ((seekAudioIfNecessary_l s).mSeeking = s.mSeeking) := by
  refine ⟨?_, ?_⟩ <;> simp only [seekAudioIfNecessary_l] <;> (repeat' split) <;> first | rfl | simp_all [renderOf, noteOf]

/-- What `pause_l_stop` leaves unchanged (settings, render calls, completion count, flags). -/
@[simp] theorem pause_l_stop_frame (at_eos : Bool) (s : Player) :
    ((pause_l_stop at_eos s).cfg = s.cfg) ∧
    (renders (pause_l_stop at_eos s).trace = renders s.trace) ∧
    (playbackCompleteCount (pause_l_stop at_eos s).trace = playbackCompleteCount s.trace) := by
  refine ⟨?_, ?_, ?_⟩ <;> simp only [pause_l_stop] <;> (repeat' split) <;> first | rfl | simp_all [renderOf, noteOf]

/-- What `pause_l_stop` leaves unchanged (flags). -/
@[simp] theorem pause_l_stop_flags (at_eos : Bool) (s : Player) :
    ((pause_l_stop at_eos s).mFlags.AT_EOS = s.mFlags.AT_EOS) ∧
    ((pause_l_stop at_eos s).mFlags.INFORMED_AV_EOS = s.mFlags.INFORMED_AV_EOS) ∧
    ((pause_l_stop at_eos s).mFlags.CACHE_UNDERRUN = s.mFlags.CACHE_UNDERRUN) ∧
    ((pause_l_stop at_eos s).mFlags.LOOPING = s.mFlags.LOOPING) ∧
    ((pause_l_stop at_eos s).mFlags.AUTO_LOOPING = s.mFlags.AUTO_LOOPING) ∧
    ((pause_l_stop at_eos s).mFlags.VIDEO_AT_EOS = s.mFlags.VIDEO_AT_EOS) ∧
    ((pause_l_stop at_eos s).mFlags.AUDIO_AT_EOS = s.mFlags.AUDIO_AT_EOS) ∧
    ((pause_l_stop at_eos s).mFlags.FIRST_FRAME = s.mFlags.FIRST_FRAME) ∧
    ((pause_l_stop at_eos s).mFlags.SEEK_PREVIEW = s.mFlags.SEEK_PREVIEW) := by
  refine ⟨?_, ?_, ?_, ?_, ?_, ?_, ?_, ?_, ?_⟩ <;> simp only [pause_l_stop] <;> (repeat' split) <;> first | rfl | simp_all [renderOf, noteOf]

/-- What `pause_l_stop` leaves unchanged (fields of the video loop). -/
@[simp] theorem pause_l_stop_fields (at_eos : Bool) (s : Player) :
    ((pause_l_stop at_eos s).mCurrentVideoEffect = s.mCurrentVideoEffect) ∧
    ((pause_l_stop at_eos s).mVideoRenderer = s.mVideoRenderer) ∧
    ((pause_l_stop at_eos s).mVideoBuffer = s.mVideoBuffer) ∧
    ((pause_l_stop at_eos s).mSeeking = s.mSeeking) ∧
    ((pause_l_stop at_eos s).mSeekTimeUs = s.mSeekTimeUs) ∧
    ((pause_l_stop at_eos s).mIsVideoSourceJpg = s.mIsVideoSourceJpg) ∧
    ((pause_l_stop at_eos s).mVideoEventPending = s.mVideoEventPending) ∧
    ((pause_l_stop at_eos s).mStreamDoneEventPending = s.mStreamDoneEventPending) := by
  refine ⟨?_, ?_, ?_, ?_, ?_, ?_, ?_, ?_⟩ <;> simp only [pause_l_stop] <;> (repeat' split) <;> first | rfl | simp_all [renderOf, noteOf]

/-- What `pause_l_stop` leaves unchanged (sources, clock and pending marks). -/
@[simp] theorem pause_l_stop_wiring (at_eos : Bool) (s : Player) :
    ((pause_l_stop at_eos s).mStreamDoneStatus = s.mStreamDoneStatus) ∧
    ((pause_l_stop at_eos s).mAudioPlayer = s.mAudioPlayer) ∧
    ((pause_l_stop at_eos s).mAudioSource = s.mAudioSource) ∧
    ((pause_l_stop at_eos s).mVideoSource = s.mVideoSource) ∧
    ((pause_l_stop at_eos s).mTimeSource = s.mTimeSource) ∧
    ((pause_l_stop at_eos s).mTimeSourceDeltaUs = s.mTimeSourceDeltaUs) ∧
    ((pause_l_stop at_eos s).mOverlayUpdateEventPosted = s.mOverlayUpdateEventPosted) := by
  refine ⟨?_, ?_, ?_, ?_, ?_, ?_, ?_⟩ <;> simp only [pause_l_stop] <;> (repeat' split) <;> first | rfl | simp_all [renderOf, noteOf]

/-- What `pause_l_stop` leaves unchanged (the counts of the seek-complete and start-next
notifications and the marks that guard them). -/
@[simp] theorem pause_l_stop_notices (at_eos : Bool) (s : Player) :
    (seekCompleteCount (pause_l_stop at_eos s).trace = seekCompleteCount s.trace) ∧
    ((pause_l_stop at_eos s).mSeekNotificationSent = s.mSeekNotificationSent) ∧
    (startNextCount (pause_l_stop at_eos s).trace = startNextCount s.trace) ∧
    ((pause_l_stop at_eos s).mStartNextPlayer = s.mStartNextPlayer) := by
  refine ⟨?_, ?_, ?_, ?_⟩ <;> simp only [pause_l_stop] <;> (repeat' split) <;> first | rfl | simp_all [renderOf, noteOf]

/-- What `pause_l_stop` leaves unchanged (the abort mark and the seek state). -/
@[simp] theorem pause_l_stop_process (at_eos : Bool) (s : Player) :
    ((pause_l_stop at_eos s).aborted = s.aborted) ∧
    ((pause_l_stop at_eos s).mSeeking = s.mSeeking) := by
  refine ⟨?_, ?_⟩ <;> simp only [pause_l_stop] <;> (repeat' split) <;> first | rfl | simp_all [renderOf, noteOf]

/-- What `pause_l` leaves unchanged (settings, render calls, completion count, flags). -/
@[simp] theorem pause_l_frame (at_eos : Bool) (s : Player) :
    ((pause_l at_eos s).2.cfg = s.cfg) ∧
    (renders (pause_l at_eos s).2.trace = renders s.trace) ∧
    (playbackCompleteCount (pause_l at_eos s).2.trace = playbackCompleteCount s.trace) := by
  refine ⟨?_, ?_, ?_⟩ <;> simp only [pause_l] <;> (repeat' split) <;> first | rfl | simp_all [renderOf, noteOf]

/-- What `pause_l` leaves unchanged (flags). -/
@[simp] theorem pause_l_flags (at_eos : Bool) (s : Player) :
    ((pause_l at_eos s).2.mFlags.AT_EOS = s.mFlags.AT_EOS) ∧
    ((pause_l at_eos s).2.mFlags.INFORMED_AV_EOS = s.mFlags.INFORMED_AV_EOS) ∧
    ((pause_l at_eos s).2.mFlags.CACHE_UNDERRUN = s.mFlags.CACHE_UNDERRUN) ∧
    ((pause_l at_eos s).2.mFlags.LOOPING = s.mFlags.LOOPING) ∧
    ((pause_l at_eos s).2.mFlags.AUTO_LOOPING = s.mFlags.AUTO_LOOPING) ∧
    ((pause_l at_eos s).2.mFlags.VIDEO_AT_EOS = s.mFlags.VIDEO_AT_EOS) ∧
    ((pause_l at_eos s).2.mFlags.AUDIO_AT_EOS = s.mFlags.AUDIO_AT_EOS) ∧
    ((pause_l at_eos s).2.mFlags.FIRST_FRAME = s.mFlags.FIRST_FRAME) ∧
    ((pause_l at_eos s).2.mFlags.SEEK_PREVIEW = s.mFlags.SEEK_PREVIEW) := by
  refine ⟨?_, ?_, ?_, ?_, ?_, ?_, ?_, ?_, ?_⟩ <;> simp only [pause_l] <;> (repeat' split) <;> first | rfl | simp_all [renderOf, noteOf]

/-- What `pause_l` leaves unchanged (fields of the video loop). -/
@[simp] theorem pause_l_fields (at_eos : Bool) (s : Player) :
    ((pause_l at_eos s).2.mCurrentVideoEffect = s.mCurrentVideoEffect) ∧
    ((pause_l at_eos s).2.mVideoRenderer = s.mVideoRenderer) ∧
    ((pause_l at_eos s).2.mVideoBuffer = s.mVideoBuffer) ∧
    ((pause_l at_eos s).2.mSeeking = s.mSeeking) ∧
    ((pause_l at_eos s).2.mSeekTimeUs = s.mSeekTimeUs) ∧
    ((pause_l at_eos s).2.mIsVideoSourceJpg = s.mIsVideoSourceJpg) := by
  refine ⟨?_, ?_, ?_, ?_, ?_, ?_⟩ <;> simp only [pause_l] <;> (repeat' split) <;> first | rfl | simp_all [renderOf, noteOf]

/-- What `pause_l` leaves unchanged (sources, clock and pending marks). -/
@[simp] theorem pause_l_wiring (at_eos : Bool) (s : Player) :
    ((pause_l at_eos s).2.mStreamDoneStatus = s.mStreamDoneStatus) ∧
    ((pause_l at_eos s).2.mAudioPlayer = s.mAudioPlayer) ∧
    ((pause_l at_eos s).2.mAudioSource = s.mAudioSource) ∧
    ((pause_l at_eos s).2.mVideoSource = s.mVideoSource) ∧
    ((pause_l at_eos s).2.mTimeSource = s.mTimeSource) ∧
    ((pause_l at_eos s).2.mTimeSourceDeltaUs = s.mTimeSourceDeltaUs) ∧
    ((pause_l at_eos s).2.mOverlayUpdateEventPosted = s.mOverlayUpdateEventPosted) := by
  refine ⟨?_, ?_, ?_, ?_, ?_, ?_, ?_⟩ <;> simp only [pause_l] <;> (repeat' split) <;> first | rfl | simp_all [renderOf, noteOf]

/-- What `pause_l` leaves unchanged (the counts of the seek-complete and start-next notifications
and the marks that guard them). -/
@[simp] theorem pause_l_notices (at_eos : Bool) (s : Player) :
    (seekCompleteCount (pause_l at_eos s).2.trace = seekCompleteCount s.trace) ∧
    ((pause_l at_eos s).2.mSeekNotificationSent = s.mSeekNotificationSent) ∧
    (startNextCount (pause_l at_eos s).2.trace = startNextCount s.trace) ∧
    ((pause_l at_eos s).2.mStartNextPlayer = s.mStartNextPlayer) := by
  refine ⟨?_, ?_, ?_, ?_⟩ <;> simp only [pause_l] <;> (repeat' split) <;> first | rfl | simp_all [renderOf, noteOf]

/-- What `pause_l` leaves unchanged (the abort mark and the seek state). -/
@[simp] theorem pause_l_process (at_eos : Bool) (s : Player) :
    ((pause_l at_eos s).2.aborted = s.aborted) ∧
    ((pause_l at_eos s).2.mSeeking = s.mSeeking) := by
  refine ⟨?_, ?_⟩ <;> simp only [pause_l] <;> (repeat' split) <;> first | rfl | simp_all [renderOf, noteOf]

/-- What `pause` leaves unchanged (settings, render calls, completion count, flags). -/
@[simp] theorem pause_frame (s : Player) :
    ((pause s).2.cfg = s.cfg) ∧
    (renders (pause s).2.trace = renders s.trace) ∧
    (playbackCompleteCount (pause s).2.trace = playbackCompleteCount s.trace) := by
  refine ⟨?_, ?_, ?_⟩ <;> simp only [pause] <;> (repeat' split) <;> first | rfl | simp_all [renderOf, noteOf]

/-- What `pause` leaves unchanged (flags). -/
@[simp] theorem pause_flags (s : Player) :
    ((pause s).2.mFlags.AT_EOS = s.mFlags.AT_EOS) ∧
    ((pause s).2.mFlags.INFORMED_AV_EOS = s.mFlags.INFORMED_AV_EOS) ∧
    ((pause s).2.mFlags.LOOPING = s.mFlags.LOOPING) ∧
    ((pause s).2.mFlags.AUTO_LOOPING = s.mFlags.AUTO_LOOPING) ∧
    ((pause s).2.mFlags.VIDEO_AT_EOS = s.mFlags.VIDEO_AT_EOS) ∧
    ((pause s).2.mFlags.AUDIO_AT_EOS = s.mFlags.AUDIO_AT_EOS) ∧
    ((pause s).2.mFlags.FIRST_FRAME = s.mFlags.FIRST_FRAME) ∧
    ((pause s).2.mFlags.SEEK_PREVIEW = s.mFlags.SEEK_PREVIEW) := by
  refine ⟨?_, ?_, ?_, ?_, ?_, ?_, ?_, ?_⟩ <;> simp only [pause] <;> (repeat' split) <;> first | rfl | simp_all [renderOf, noteOf]

/-- What `pause` leaves unchanged (fields of the video loop). -/
@[simp] theorem pause_fields (s : Player) :
    ((pause s).2.mCurrentVideoEffect = s.mCurrentVideoEffect) ∧
    ((pause s).2.mVideoRenderer = s.mVideoRenderer) ∧
    ((pause s).2.mVideoBuffer = s.mVideoBuffer) ∧
    ((pause s).2.mSeeking = s.mSeeking) ∧
    ((pause s).2.mSeekTimeUs = s.mSeekTimeUs) ∧
    ((pause s).2.mIsVideoSourceJpg = s.mIsVideoSourceJpg) := by
  refine ⟨?_, ?_, ?_, ?_, ?_, ?_⟩ <;> simp only [pause] <;> (repeat' split) <;> first | rfl | simp_all [renderOf, noteOf]

/-- What `pause` leaves unchanged (sources, clock and pending marks). -/
@[simp] theorem pause_wiring (s : Player) :
    ((pause s).2.mStreamDoneStatus = s.mStreamDoneStatus) ∧
    ((pause s).2.mAudioPlayer = s.mAudioPlayer) ∧
    ((pause s).2.mAudioSource = s.mAudioSource) ∧
    ((pause s).2.mVideoSource = s.mVideoSource) ∧
    ((pause s).2.mTimeSource = s.mTimeSource) ∧
    ((pause s).2.mTimeSourceDeltaUs = s.mTimeSourceDeltaUs) ∧
    ((pause s).2.mOverlayUpdateEventPosted = s.mOverlayUpdateEventPosted) := by
  refine ⟨?_, ?_, ?_, ?_, ?_, ?_, ?_⟩ <;> simp only [pause] <;> (repeat' split) <;> first | rfl | simp_all [renderOf, noteOf]

/-- What `pause` leaves unchanged (the counts of the seek-complete and start-next notifications
and the marks that guard them). -/
@[simp] theorem pause_notices (s : Player) :
    (seekCompleteCount (pause s).2.trace = seekCompleteCount s.trace) ∧
    ((pause s).2.mSeekNotificationSent = s.mSeekNotificationSent) ∧
    (startNextCount (pause s).2.trace = startNextCount s.trace) ∧
    ((pause s).2.mStartNextPlayer = s.mStartNextPlayer) := by
  refine ⟨?_, ?_, ?_, ?_⟩ <;> simp only [pause] <;> (repeat' split) <;> first | rfl | simp_all [renderOf, noteOf]

/-- What `pause` leaves unchanged (the abort mark and the seek state). -/
@[simp] theorem pause_process (s : Player) :
    ((pause s).2.aborted = s.aborted) ∧
    ((pause s).2.mSeeking = s.mSeeking) := by
  refine ⟨?_, ?_⟩ <;> simp only [pause] <;> (repeat' split) <;> first | rfl | simp_all [renderOf, noteOf]

/-- What `finishSeekIfNecessary` leaves unchanged (settings, render calls, completion count,
flags). -/
@[simp] theorem finishSeekIfNecessary_frame (videoTimeUs : Int) (s : Player) :
    ((finishSeekIfNecessary videoTimeUs s).cfg = s.cfg) ∧
    (renders (finishSeekIfNecessary videoTimeUs s).trace = renders s.trace) ∧
    (playbackCompleteCount (finishSeekIfNecessary videoTimeUs s).trace = playbackCompleteCount s.trace) := by
  refine ⟨?_, ?_, ?_⟩ <;> simp only [finishSeekIfNecessary] <;> (repeat' split) <;> first | rfl | simp_all [renderOf, noteOf]

/-- What `finishSeekIfNecessary` leaves unchanged (flags). -/
@[simp] theorem finishSeekIfNecessary_flags (videoTimeUs : Int) (s : Player) :
    ((finishSeekIfNecessary videoTimeUs s).mFlags.PLAYING = s.mFlags.PLAYING) ∧
    ((finishSeekIfNecessary videoTimeUs s).mFlags.AT_EOS = s.mFlags.AT_EOS) ∧
    ((finishSeekIfNecessary videoTimeUs s).mFlags.INFORMED_AV_EOS = s.mFlags.INFORMED_AV_EOS) ∧
    ((finishSeekIfNecessary videoTimeUs s).mFlags.CACHE_UNDERRUN = s.mFlags.CACHE_UNDERRUN) ∧
    ((finishSeekIfNecessary videoTimeUs s).mFlags.LOOPING = s.mFlags.LOOPING) ∧
    ((finishSeekIfNecessary videoTimeUs s).mFlags.AUTO_LOOPING = s.mFlags.AUTO_LOOPING) ∧
    ((finishSeekIfNecessary videoTimeUs s).mFlags.VIDEO_AT_EOS = s.mFlags.VIDEO_AT_EOS) ∧
    ((finishSeekIfNecessary videoTimeUs s).mFlags.AUDIO_AT_EOS = s.mFlags.AUDIO_AT_EOS) ∧
    ((finishSeekIfNecessary videoTimeUs s).mFlags.SEEK_PREVIEW = s.mFlags.SEEK_PREVIEW) ∧
    ((finishSeekIfNecessary videoTimeUs s).mFlags.AUDIO_RUNNING = s.mFlags.AUDIO_RUNNING) := by
  refine ⟨?_, ?_, ?_, ?_, ?_, ?_, ?_, ?_, ?_, ?_⟩ <;> simp only [finishSeekIfNecessary] <;> (repeat' split) <;> first | rfl | simp_all [renderOf, noteOf]

/-- What `finishSeekIfNecessary` leaves unchanged (fields of the video loop). -/
@[simp] theorem finishSeekIfNecessary_fields (videoTimeUs : Int) (s : Player) :
    ((finishSeekIfNecessary videoTimeUs s).mCurrentVideoEffect = s.mCurrentVideoEffect) ∧
    ((finishSeekIfNecessary videoTimeUs s).mVideoRenderer = s.mVideoRenderer) ∧
    ((finishSeekIfNecessary videoTimeUs s).mVideoBuffer = s.mVideoBuffer) ∧
    ((finishSeekIfNecessary videoTimeUs s).mSeekTimeUs = s.mSeekTimeUs) ∧
    ((finishSeekIfNecessary videoTimeUs s).mIsVideoSourceJpg = s.mIsVideoSourceJpg) ∧
    ((finishSeekIfNecessary videoTimeUs s).mVideoEventPending = s.mVideoEventPending) ∧
    ((finishSeekIfNecessary videoTimeUs s).mStreamDoneEventPending = s.mStreamDoneEventPending) := by
  refine ⟨?_, ?_, ?_, ?_, ?_, ?_, ?_⟩ <;> simp only [finishSeekIfNecessary] <;> (repeat' split) <;> first | rfl | simp_all [renderOf, noteOf]

/-- What `finishSeekIfNecessary` leaves unchanged (sources, clock and pending marks). -/
@[simp] theorem finishSeekIfNecessary_wiring (videoTimeUs : Int) (s : Player) :
    ((finishSeekIfNecessary videoTimeUs s).mStreamDoneStatus = s.mStreamDoneStatus) ∧
    ((finishSeekIfNecessary videoTimeUs s).mAudioPlayer = s.mAudioPlayer) ∧
    ((finishSeekIfNecessary videoTimeUs s).mAudioSource = s.mAudioSource) ∧
    ((finishSeekIfNecessary videoTimeUs s).mVideoSource = s.mVideoSource) ∧
    ((finishSeekIfNecessary videoTimeUs s).mTimeSource = s.mTimeSource) ∧
    ((finishSeekIfNecessary videoTimeUs s).mTimeSourceDeltaUs = s.mTimeSourceDeltaUs) ∧
    ((finishSeekIfNecessary videoTimeUs s).mOverlayUpdateEventPosted = s.mOverlayUpdateEventPosted) := by
  refine ⟨?_, ?_, ?_, ?_, ?_, ?_, ?_⟩ <;> simp only [finishSeekIfNecessary] <;> (repeat' split) <;> first | rfl | simp_all [renderOf, noteOf]

/-- What `finishSeekIfNecessary` leaves unchanged (the counts of the seek-complete and start-next
notifications and the marks that guard them). -/
@[simp] theorem finishSeekIfNecessary_notices (videoTimeUs : Int) (s : Player) :
    (startNextCount (finishSeekIfNecessary videoTimeUs s).trace = startNextCount s.trace) ∧
    ((finishSeekIfNecessary videoTimeUs s).mStartNextPlayer = s.mStartNextPlayer) := by
  refine ⟨?_, ?_⟩ <;> simp only [finishSeekIfNecessary] <;> (repeat' split) <;> first | rfl | simp_all [renderOf, noteOf]

/-- What `finishSeekIfNecessary` leaves unchanged (the abort mark and the seek state). -/
@[simp] theorem finishSeekIfNecessary_process (videoTimeUs : Int) (s : Player) :
    (finishSeekIfNecessary videoTimeUs s).aborted = s.aborted := by
  simp only [finishSeekIfNecessary] <;> (repeat' split) <;> first | rfl | simp_all [renderOf, noteOf]

/-- What `abortPrepare` leaves unchanged (settings, render calls, completion count, flags). -/
@[simp] theorem abortPrepare_frame (err : Status) (s : Player) :
    ((abortPrepare err s).cfg = s.cfg) ∧
    (renders (abortPrepare err s).trace = renders s.trace) ∧
    (playbackCompleteCount (abortPrepare err s).trace = playbackCompleteCount s.trace) := by
  refine ⟨?_, ?_, ?_⟩ <;> simp only [abortPrepare] <;> (repeat' split) <;> first | rfl | simp_all [renderOf, noteOf]

/-- What `abortPrepare` leaves unchanged (flags). -/
@[simp] theorem abortPrepare_flags (err : Status) (s : Player) :
    ((abortPrepare err s).mFlags.PLAYING = s.mFlags.PLAYING) ∧
    ((abortPrepare err s).mFlags.AT_EOS = s.mFlags.AT_EOS) ∧
    ((abortPrepare err s).mFlags.CACHE_UNDERRUN = s.mFlags.CACHE_UNDERRUN) ∧
    ((abortPrepare err s).mFlags.LOOPING = s.mFlags.LOOPING) ∧
    ((abortPrepare err s).mFlags.AUTO_LOOPING = s.mFlags.AUTO_LOOPING) := by
  refine ⟨?_, ?_, ?_, ?_, ?_⟩ <;> simp only [abortPrepare] <;> (repeat' split) <;> first | rfl | simp_all [renderOf, noteOf]

/-- What `abortPrepare` leaves unchanged (the counts of the seek-complete and start-next
notifications and the marks that guard them). -/
@[simp] theorem abortPrepare_notices (err : Status) (s : Player) :
    (seekCompleteCount (abortPrepare err s).trace = seekCompleteCount s.trace) ∧
    ((abortPrepare err s).mSeekNotificationSent = s.mSeekNotificationSent) ∧
    (startNextCount (abortPrepare err s).trace = startNextCount s.trace) ∧
    ((abortPrepare err s).mStartNextPlayer = s.mStartNextPlayer) := by
  refine ⟨?_, ?_, ?_, ?_⟩ <;> simp only [abortPrepare] <;> (repeat' split) <;> first | rfl | simp_all [renderOf, noteOf]

/-- What `abortPrepare` leaves unchanged (the abort mark and the seek state). -/
@[simp] theorem abortPrepare_process (err : Status) (s : Player) :
    ((abortPrepare err s).aborted = s.aborted) ∧
    ((abortPrepare err s).mSeeking = s.mSeeking) := by
  refine ⟨?_, ?_⟩ <;> simp only [abortPrepare] <;> (repeat' split) <;> first | rfl | simp_all [renderOf, noteOf]

/-- What `notifyVideoSize_l` leaves unchanged (settings, render calls, completion count, flags). -/
@[simp] theorem notifyVideoSize_l_frame (s : Player) :
    ((notifyVideoSize_l s).cfg = s.cfg) ∧
    (renders (notifyVideoSize_l s).trace = renders s.trace) ∧
    (playbackCompleteCount (notifyVideoSize_l s).trace = playbackCompleteCount s.trace) ∧
    ((notifyVideoSize_l s).mFlags = s.mFlags) := by
  refine ⟨?_, ?_, ?_, ?_⟩ <;> simp only [notifyVideoSize_l] <;> (repeat' split) <;> first | rfl | simp_all [renderOf, noteOf]

/-- What `notifyVideoSize_l` leaves unchanged (fields of the video loop). -/
@[simp] theorem notifyVideoSize_l_fields (s : Player) :
    ((notifyVideoSize_l s).mCurrentVideoEffect = s.mCurrentVideoEffect) ∧
    ((notifyVideoSize_l s).mVideoRenderer = s.mVideoRenderer) ∧
    ((notifyVideoSize_l s).mVideoBuffer = s.mVideoBuffer) ∧
    ((notifyVideoSize_l s).mSeeking = s.mSeeking) ∧
    ((notifyVideoSize_l s).mSeekTimeUs = s.mSeekTimeUs) ∧
    ((notifyVideoSize_l s).mIsVideoSourceJpg = s.mIsVideoSourceJpg) ∧
    ((notifyVideoSize_l s).mVideoEventPending = s.mVideoEventPending) ∧
    ((notifyVideoSize_l s).mStreamDoneEventPending = s.mStreamDoneEventPending) := by
  refine ⟨?_, ?_, ?_, ?_, ?_, ?_, ?_, ?_⟩ <;> simp only [notifyVideoSize_l] <;> (repeat' split) <;> first | rfl | simp_all [renderOf, noteOf]

/-- What `notifyVideoSize_l` leaves unchanged (sources, clock and pending marks). -/
@[simp] theorem notifyVideoSize_l_wiring (s : Player) :
    ((notifyVideoSize_l s).mStreamDoneStatus = s.mStreamDoneStatus) ∧
    ((notifyVideoSize_l s).mAudioPlayer = s.mAudioPlayer) ∧
    ((notifyVideoSize_l s).mAudioSource = s.mAudioSource) ∧
    ((notifyVideoSize_l s).mVideoSource = s.mVideoSource) ∧
    ((notifyVideoSize_l s).mTimeSource = s.mTimeSource) ∧
    ((notifyVideoSize_l s).mTimeSourceDeltaUs = s.mTimeSourceDeltaUs) ∧
    ((notifyVideoSize_l s).mOverlayUpdateEventPosted = s.mOverlayUpdateEventPosted) := by
  refine ⟨?_, ?_, ?_, ?_, ?_, ?_, ?_⟩ <;> simp only [notifyVideoSize_l] <;> (repeat' split) <;> first | rfl | simp_all [renderOf, noteOf]

/-- What `notifyVideoSize_l` leaves unchanged (the counts of the seek-complete and start-next
notifications and the marks that guard them). -/
@[simp] theorem notifyVideoSize_l_notices (s : Player) :
    (seekCompleteCount (notifyVideoSize_l s).trace = seekCompleteCount s.trace) ∧
    ((notifyVideoSize_l s).mSeekNotificationSent = s.mSeekNotificationSent) ∧
    (startNextCount (notifyVideoSize_l s).trace = startNextCount s.trace) ∧
    ((notifyVideoSize_l s).mStartNextPlayer = s.mStartNextPlayer) := by
  refine ⟨?_, ?_, ?_, ?_⟩ <;> simp only [notifyVideoSize_l] <;> (repeat' split) <;> first | rfl | simp_all [renderOf, noteOf]

/-- What `notifyVideoSize_l` leaves unchanged (the abort mark and the seek state). -/
@[simp] theorem notifyVideoSize_l_process (s : Player) :
    ((notifyVideoSize_l s).aborted = s.aborted) ∧
    ((notifyVideoSize_l s).mSeeking = s.mSeeking) := by
  refine ⟨?_, ?_⟩ <;> simp only [notifyVideoSize_l] <;> (repeat' split) <;> first | rfl | simp_all [renderOf, noteOf]

/-- What `finishAsyncPrepare_notify` leaves unchanged (settings, render calls, completion count,
flags). -/
@[simp] theorem finishAsyncPrepare_notify_frame (s : Player) :
    ((finishAsyncPrepare_notify s).cfg = s.cfg) ∧
    (renders (finishAsyncPrepare_notify s).trace = renders s.trace) ∧
    (playbackCompleteCount (finishAsyncPrepare_notify s).trace = playbackCompleteCount s.trace) ∧
    ((finishAsyncPrepare_notify s).mFlags = s.mFlags) := by
  refine ⟨?_, ?_, ?_, ?_⟩ <;> simp only [finishAsyncPrepare_notify] <;> (repeat' split) <;> first | rfl | simp_all [renderOf, noteOf]

/-- What `finishAsyncPrepare_notify` leaves unchanged (the counts of the seek-complete and
start-next notifications and the marks that guard them). -/
@[simp] theorem finishAsyncPrepare_notify_notices (s : Player) :
    (seekCompleteCount (finishAsyncPrepare_notify s).trace = seekCompleteCount s.trace) ∧
    ((finishAsyncPrepare_notify s).mSeekNotificationSent = s.mSeekNotificationSent) ∧
    (startNextCount (finishAsyncPrepare_notify s).trace = startNextCount s.trace) ∧
    ((finishAsyncPrepare_notify s).mStartNextPlayer = s.mStartNextPlayer) := by
  refine ⟨?_, ?_, ?_, ?_⟩ <;> simp only [finishAsyncPrepare_notify] <;> (repeat' split) <;> first | rfl | simp_all [renderOf, noteOf]

/-- What `finishAsyncPrepare_notify` leaves unchanged (the abort mark and the seek state). -/
@[simp] theorem finishAsyncPrepare_notify_process (s : Player) :
    ((finishAsyncPrepare_notify s).aborted = s.aborted) ∧
    ((finishAsyncPrepare_notify s).mSeeking = s.mSeeking) := by
  refine ⟨?_, ?_⟩ <;> simp only [finishAsyncPrepare_notify] <;> (repeat' split) <;> first | rfl | simp_all [renderOf, noteOf]

/-- What `PreviewPlayerBase.finishAsyncPrepare_l` leaves unchanged (settings, render calls,
completion count, flags). -/
@[simp] theorem base_finishAsyncPrepare_l_frame (s : Player) :
    ((PreviewPlayerBase.finishAsyncPrepare_l s).cfg = s.cfg) ∧
    (renders (PreviewPlayerBase.finishAsyncPrepare_l s).trace = renders s.trace) ∧
    (playbackCompleteCount (PreviewPlayerBase.finishAsyncPrepare_l s).trace = playbackCompleteCount s.trace) := by
  refine ⟨?_, ?_, ?_⟩ <;> simp only [PreviewPlayerBase.finishAsyncPrepare_l] <;> (repeat' split) <;> first | rfl | simp_all [renderOf, noteOf]

/-- What `PreviewPlayerBase.finishAsyncPrepare_l` leaves unchanged (flags). -/
@[simp] theorem base_finishAsyncPrepare_l_flags (s : Player) :
    ((PreviewPlayerBase.finishAsyncPrepare_l s).mFlags.PLAYING = s.mFlags.PLAYING) ∧
    ((PreviewPlayerBase.finishAsyncPrepare_l s).mFlags.AT_EOS = s.mFlags.AT_EOS) ∧
    ((PreviewPlayerBase.finishAsyncPrepare_l s).mFlags.CACHE_UNDERRUN = s.mFlags.CACHE_UNDERRUN) ∧
    ((PreviewPlayerBase.finishAsyncPrepare_l s).mFlags.LOOPING = s.mFlags.LOOPING) ∧
    ((PreviewPlayerBase.finishAsyncPrepare_l s).mFlags.AUTO_LOOPING = s.mFlags.AUTO_LOOPING) := by
  refine ⟨?_, ?_, ?_, ?_, ?_⟩ <;> simp only [PreviewPlayerBase.finishAsyncPrepare_l] <;> (repeat' split) <;> first | rfl | simp_all [renderOf, noteOf]

/-- What `PreviewPlayerBase.finishAsyncPrepare_l` leaves unchanged (the counts of the
seek-complete and start-next notifications and the marks that guard them). -/
@[simp] theorem base_finishAsyncPrepare_l_notices (s : Player) :
    (seekCompleteCount (PreviewPlayerBase.finishAsyncPrepare_l s).trace = seekCompleteCount s.trace) ∧
    ((PreviewPlayerBase.finishAsyncPrepare_l s).mSeekNotificationSent = s.mSeekNotificationSent) ∧
    (startNextCount (PreviewPlayerBase.finishAsyncPrepare_l s).trace = startNextCount s.trace) ∧
    ((PreviewPlayerBase.finishAsyncPrepare_l s).mStartNextPlayer = s.mStartNextPlayer) := by
  refine ⟨?_, ?_, ?_, ?_⟩ <;> simp only [PreviewPlayerBase.finishAsyncPrepare_l] <;> (repeat' split) <;> first | rfl | simp_all [renderOf, noteOf]

/-- What `PreviewPlayerBase.finishAsyncPrepare_l` leaves unchanged (the abort mark and the seek
state). -/
@[simp] theorem base_finishAsyncPrepare_l_process (s : Player) :
    ((PreviewPlayerBase.finishAsyncPrepare_l s).aborted = s.aborted) ∧
    ((PreviewPlayerBase.finishAsyncPrepare_l s).mSeeking = s.mSeeking) := by
  refine ⟨?_, ?_⟩ <;> simp only [PreviewPlayerBase.finishAsyncPrepare_l] <;> (repeat' split) <;> first | rfl | simp_all [renderOf, noteOf]

/-- What `PreviewPlayerBase.prepareAsync_l` leaves unchanged (settings, render calls, completion
count, flags). -/
@[simp] theorem base_prepareAsync_l_frame (s : Player) :
    ((PreviewPlayerBase.prepareAsync_l s).2.cfg = s.cfg) ∧
    (renders (PreviewPlayerBase.prepareAsync_l s).2.trace = renders s.trace) ∧
    (playbackCompleteCount (PreviewPlayerBase.prepareAsync_l s).2.trace = playbackCompleteCount s.trace) := by
  refine ⟨?_, ?_, ?_⟩ <;> simp only [PreviewPlayerBase.prepareAsync_l] <;> (repeat' split) <;> first | rfl | simp_all [renderOf, noteOf]

/-- What `PreviewPlayerBase.prepareAsync_l` leaves unchanged (flags). -/
@[simp] theorem base_prepareAsync_l_flags (s : Player) :
    ((PreviewPlayerBase.prepareAsync_l s).2.mFlags.PLAYING = s.mFlags.PLAYING) ∧
    ((PreviewPlayerBase.prepareAsync_l s).2.mFlags.AT_EOS = s.mFlags.AT_EOS) ∧
    ((PreviewPlayerBase.prepareAsync_l s).2.mFlags.INFORMED_AV_EOS = s.mFlags.INFORMED_AV_EOS) ∧
    ((PreviewPlayerBase.prepareAsync_l s).2.mFlags.CACHE_UNDERRUN = s.mFlags.CACHE_UNDERRUN) ∧
    ((PreviewPlayerBase.prepareAsync_l s).2.mFlags.LOOPING = s.mFlags.LOOPING) ∧
    ((PreviewPlayerBase.prepareAsync_l s).2.mFlags.AUTO_LOOPING = s.mFlags.AUTO_LOOPING) := by
  refine ⟨?_, ?_, ?_, ?_, ?_, ?_⟩ <;> simp only [PreviewPlayerBase.prepareAsync_l] <;> (repeat' split) <;> first | rfl | simp_all [renderOf, noteOf]

/-- What `PreviewPlayerBase.prepareAsync_l` leaves unchanged (the counts of the seek-complete and
start-next notifications and the marks that guard them). -/
@[simp] theorem base_prepareAsync_l_notices (s : Player) :
    (seekCompleteCount (PreviewPlayerBase.prepareAsync_l s).2.trace = seekCompleteCount s.trace) ∧
    ((PreviewPlayerBase.prepareAsync_l s).2.mSeekNotificationSent = s.mSeekNotificationSent) ∧
    (startNextCount (PreviewPlayerBase.prepareAsync_l s).2.trace = startNextCount s.trace) ∧
    ((PreviewPlayerBase.prepareAsync_l s).2.mStartNextPlayer = s.mStartNextPlayer) := by
  refine ⟨?_, ?_, ?_, ?_⟩ <;> simp only [PreviewPlayerBase.prepareAsync_l] <;> (repeat' split) <;> first | rfl | simp_all [renderOf, noteOf]

/-- What `PreviewPlayerBase.prepareAsync_l` leaves unchanged (the abort mark and the seek state). -/
@[simp] theorem base_prepareAsync_l_process (s : Player) :
    ((PreviewPlayerBase.prepareAsync_l s).2.aborted = s.aborted) ∧
    ((PreviewPlayerBase.prepareAsync_l s).2.mSeeking = s.mSeeking) := by
  refine ⟨?_, ?_⟩ <;> simp only [PreviewPlayerBase.prepareAsync_l] <;> (repeat' split) <;> first | rfl | simp_all [renderOf, noteOf]

/-- What `PreviewPlayerBase.prepareAsync` leaves unchanged (settings, render calls, completion
count, flags). -/
@[simp] theorem base_prepareAsync_frame (s : Player) :
    ((PreviewPlayerBase.prepareAsync s).2.cfg = s.cfg) ∧
    (renders (PreviewPlayerBase.prepareAsync s).2.trace = renders s.trace) ∧
    (playbackCompleteCount (PreviewPlayerBase.prepareAsync s).2.trace = playbackCompleteCount s.trace) := by
  refine ⟨?_, ?_, ?_⟩ <;> simp only [PreviewPlayerBase.prepareAsync] <;> (repeat' split) <;> first | rfl | simp_all [renderOf, noteOf]

/-- What `PreviewPlayerBase.prepareAsync` leaves unchanged (flags). -/
@[simp] theorem base_prepareAsync_flags (s : Player) :
    ((PreviewPlayerBase.prepareAsync s).2.mFlags.PLAYING = s.mFlags.PLAYING) ∧
    ((PreviewPlayerBase.prepareAsync s).2.mFlags.AT_EOS = s.mFlags.AT_EOS) ∧
    ((PreviewPlayerBase.prepareAsync s).2.mFlags.INFORMED_AV_EOS = s.mFlags.INFORMED_AV_EOS) ∧
    ((PreviewPlayerBase.prepareAsync s).2.mFlags.CACHE_UNDERRUN = s.mFlags.CACHE_UNDERRUN) ∧
    ((PreviewPlayerBase.prepareAsync s).2.mFlags.LOOPING = s.mFlags.LOOPING) ∧
    ((PreviewPlayerBase.prepareAsync s).2.mFlags.AUTO_LOOPING = s.mFlags.AUTO_LOOPING) := by
  refine ⟨?_, ?_, ?_, ?_, ?_, ?_⟩ <;> simp only [PreviewPlayerBase.prepareAsync] <;> (repeat' split) <;> first | rfl | simp_all [renderOf, noteOf]

/-- What `PreviewPlayerBase.prepareAsync` leaves unchanged (the counts of the seek-complete and
start-next notifications and the marks that guard them). -/
@[simp] theorem base_prepareAsync_notices (s : Player) :
    (seekCompleteCount (PreviewPlayerBase.prepareAsync s).2.trace = seekCompleteCount s.trace) ∧
    ((PreviewPlayerBase.prepareAsync s).2.mSeekNotificationSent = s.mSeekNotificationSent) ∧
    (startNextCount (PreviewPlayerBase.prepareAsync s).2.trace = startNextCount s.trace) ∧
    ((PreviewPlayerBase.prepareAsync s).2.mStartNextPlayer = s.mStartNextPlayer) := by
  refine ⟨?_, ?_, ?_, ?_⟩ <;> simp only [PreviewPlayerBase.prepareAsync] <;> (repeat' split) <;> first | rfl | simp_all [renderOf, noteOf]

/-- What `PreviewPlayerBase.prepareAsync` leaves unchanged (the abort mark and the seek state). -/
@[simp] theorem base_prepareAsync_process (s : Player) :
    ((PreviewPlayerBase.prepareAsync s).2.aborted = s.aborted) ∧
    ((PreviewPlayerBase.prepareAsync s).2.mSeeking = s.mSeeking) := by
  refine ⟨?_, ?_⟩ <;> simp only [PreviewPlayerBase.prepareAsync] <;> (repeat' split) <;> first | rfl | simp_all [renderOf, noteOf]

/-- What `PreviewPlayerBase.onPrepareAsyncEvent_connected` leaves unchanged (settings, render
calls, completion count, flags). -/
@[simp] theorem base_onPrepareAsyncEvent_connected_frame (vt vs at_ as_ : Option MediaSource) (canSeek : Bool) (s : Player) :
    ((PreviewPlayerBase.onPrepareAsyncEvent_connected vt vs at_ as_ canSeek s).cfg = s.cfg) ∧
    (renders (PreviewPlayerBase.onPrepareAsyncEvent_connected vt vs at_ as_ canSeek s).trace = renders s.trace) ∧
    (playbackCompleteCount (PreviewPlayerBase.onPrepareAsyncEvent_connected vt vs at_ as_ canSeek s).trace = playbackCompleteCount s.trace) := by
  refine ⟨?_, ?_, ?_⟩ <;> simp only [PreviewPlayerBase.onPrepareAsyncEvent_connected] <;> (repeat' split) <;> first | rfl | simp_all [renderOf, noteOf]

/-- What `PreviewPlayerBase.onPrepareAsyncEvent_connected` leaves unchanged (flags). -/
@[simp] theorem base_onPrepareAsyncEvent_connected_flags (vt vs at_ as_ : Option MediaSource) (canSeek : Bool) (s : Player) :
    ((PreviewPlayerBase.onPrepareAsyncEvent_connected vt vs at_ as_ canSeek s).mFlags.PLAYING = s.mFlags.PLAYING) ∧
    ((PreviewPlayerBase.onPrepareAsyncEvent_connected vt vs at_ as_ canSeek s).mFlags.AT_EOS = s.mFlags.AT_EOS) ∧
    ((PreviewPlayerBase.onPrepareAsyncEvent_connected vt vs at_ as_ canSeek s).mFlags.CACHE_UNDERRUN = s.mFlags.CACHE_UNDERRUN) ∧
    ((PreviewPlayerBase.onPrepareAsyncEvent_connected vt vs at_ as_ canSeek s).mFlags.LOOPING = s.mFlags.LOOPING) ∧
    ((PreviewPlayerBase.onPrepareAsyncEvent_connected vt vs at_ as_ canSeek s).mFlags.AUTO_LOOPING = s.mFlags.AUTO_LOOPING) := by
  refine ⟨?_, ?_, ?_, ?_, ?_⟩ <;> simp only [PreviewPlayerBase.onPrepareAsyncEvent_connected] <;> (repeat' split) <;> first | rfl | simp_all [renderOf, noteOf]

/-- What `PreviewPlayerBase.onPrepareAsyncEvent_connected` leaves unchanged (the counts of the
seek-complete and start-next notifications and the marks that guard them). -/
@[simp] theorem base_onPrepareAsyncEvent_connected_notices (vt vs at_ as_ : Option MediaSource) (canSeek : Bool) (s : Player) :
    (seekCompleteCount (PreviewPlayerBase.onPrepareAsyncEvent_connected vt vs at_ as_ canSeek s).trace = seekCompleteCount s.trace) ∧
    ((PreviewPlayerBase.onPrepareAsyncEvent_connected vt vs at_ as_ canSeek s).mSeekNotificationSent = s.mSeekNotificationSent) ∧
    (startNextCount (PreviewPlayerBase.onPrepareAsyncEvent_connected vt vs at_ as_ canSeek s).trace = startNextCount s.trace) ∧
    ((PreviewPlayerBase.onPrepareAsyncEvent_connected vt vs at_ as_ canSeek s).mStartNextPlayer = s.mStartNextPlayer) := by
  refine ⟨?_, ?_, ?_, ?_⟩ <;> simp only [PreviewPlayerBase.onPrepareAsyncEvent_connected] <;> (repeat' split) <;> first | rfl | simp_all [renderOf, noteOf]

/-- What `PreviewPlayerBase.onPrepareAsyncEvent_connected` leaves unchanged (the abort mark and
the seek state). -/
@[simp] theorem base_onPrepareAsyncEvent_connected_process (vt vs at_ as_ : Option MediaSource) (canSeek : Bool) (s : Player) :
    ((PreviewPlayerBase.onPrepareAsyncEvent_connected vt vs at_ as_ canSeek s).aborted = s.aborted) ∧
    ((PreviewPlayerBase.onPrepareAsyncEvent_connected vt vs at_ as_ canSeek s).mSeeking = s.mSeeking) := by
  refine ⟨?_, ?_⟩ <;> simp only [PreviewPlayerBase.onPrepareAsyncEvent_connected] <;> (repeat' split) <;> first | rfl | simp_all [renderOf, noteOf]

/-- What `PreviewPlayerBase.onPrepareAsyncEvent` leaves unchanged (settings, render calls,
completion count, flags). -/
@[simp] theorem base_onPrepareAsyncEvent_frame (env : Env) (s : Player) :
    ((PreviewPlayerBase.onPrepareAsyncEvent env s).cfg = s.cfg) ∧
    (renders (PreviewPlayerBase.onPrepareAsyncEvent env s).trace = renders s.trace) ∧
    (playbackCompleteCount (PreviewPlayerBase.onPrepareAsyncEvent env s).trace = playbackCompleteCount s.trace) := by
  refine ⟨?_, ?_, ?_⟩ <;> simp only [PreviewPlayerBase.onPrepareAsyncEvent] <;> (repeat' split) <;> first | rfl | simp_all [renderOf, noteOf]

/-- What `PreviewPlayerBase.onPrepareAsyncEvent` leaves unchanged (flags). -/
@[simp] theorem base_onPrepareAsyncEvent_flags (env : Env) (s : Player) :
    ((PreviewPlayerBase.onPrepareAsyncEvent env s).mFlags.PLAYING = s.mFlags.PLAYING) ∧
    ((PreviewPlayerBase.onPrepareAsyncEvent env s).mFlags.AT_EOS = s.mFlags.AT_EOS) ∧
    ((PreviewPlayerBase.onPrepareAsyncEvent env s).mFlags.CACHE_UNDERRUN = s.mFlags.CACHE_UNDERRUN) ∧
    ((PreviewPlayerBase.onPrepareAsyncEvent env s).mFlags.LOOPING = s.mFlags.LOOPING) ∧
    ((PreviewPlayerBase.onPrepareAsyncEvent env s).mFlags.AUTO_LOOPING = s.mFlags.AUTO_LOOPING) := by
  refine ⟨?_, ?_, ?_, ?_, ?_⟩ <;> simp only [PreviewPlayerBase.onPrepareAsyncEvent] <;> (repeat' split) <;> first | rfl | simp_all [renderOf, noteOf]

/-- What `PreviewPlayerBase.onPrepareAsyncEvent` leaves unchanged (the counts of the seek-complete
and start-next notifications and the marks that guard them). -/
@[simp] theorem base_onPrepareAsyncEvent_notices (env : Env) (s : Player) :
    (seekCompleteCount (PreviewPlayerBase.onPrepareAsyncEvent env s).trace = seekCompleteCount s.trace) ∧
    ((PreviewPlayerBase.onPrepareAsyncEvent env s).mSeekNotificationSent = s.mSeekNotificationSent) ∧
    (startNextCount (PreviewPlayerBase.onPrepareAsyncEvent env s).trace = startNextCount s.trace) ∧
    ((PreviewPlayerBase.onPrepareAsyncEvent env s).mStartNextPlayer = s.mStartNextPlayer) := by
  refine ⟨?_, ?_, ?_, ?_⟩ <;> simp only [PreviewPlayerBase.onPrepareAsyncEvent] <;> (repeat' split) <;> first | rfl | simp_all [renderOf, noteOf]

/-- What `PreviewPlayerBase.onPrepareAsyncEvent` leaves unchanged (the abort mark and the seek
state). -/
@[simp] theorem base_onPrepareAsyncEvent_process (env : Env) (s : Player) :
    ((PreviewPlayerBase.onPrepareAsyncEvent env s).aborted = s.aborted) ∧
    ((PreviewPlayerBase.onPrepareAsyncEvent env s).mSeeking = s.mSeeking) := by
  refine ⟨?_, ?_⟩ <;> simp only [PreviewPlayerBase.onPrepareAsyncEvent] <;> (repeat' split) <;> first | rfl | simp_all [renderOf, noteOf]

/-- What `PreviewPlayerBase.prepare_l_wait` leaves unchanged (settings, render calls, completion
count, flags). -/
@[simp] theorem base_prepare_l_wait_frame (env : Env) (s : Player) :
    ((PreviewPlayerBase.prepare_l_wait env s).cfg = s.cfg) ∧
    (renders (PreviewPlayerBase.prepare_l_wait env s).trace = renders s.trace) ∧
    (playbackCompleteCount (PreviewPlayerBase.prepare_l_wait env s).trace = playbackCompleteCount s.trace) := by
  refine ⟨?_, ?_, ?_⟩ <;> simp only [PreviewPlayerBase.prepare_l_wait] <;> (repeat' split) <;> first | rfl | simp_all [renderOf, noteOf]

/-- What `PreviewPlayerBase.prepare_l_wait` leaves unchanged (flags). -/
@[simp] theorem base_prepare_l_wait_flags (env : Env) (s : Player) :
    ((PreviewPlayerBase.prepare_l_wait env s).mFlags.PLAYING = s.mFlags.PLAYING) ∧
    ((PreviewPlayerBase.prepare_l_wait env s).mFlags.AT_EOS = s.mFlags.AT_EOS) ∧
    ((PreviewPlayerBase.prepare_l_wait env s).mFlags.CACHE_UNDERRUN = s.mFlags.CACHE_UNDERRUN) ∧
    ((PreviewPlayerBase.prepare_l_wait env s).mFlags.LOOPING = s.mFlags.LOOPING) ∧
    ((PreviewPlayerBase.prepare_l_wait env s).mFlags.AUTO_LOOPING = s.mFlags.AUTO_LOOPING) := by
  refine ⟨?_, ?_, ?_, ?_, ?_⟩ <;> simp only [PreviewPlayerBase.prepare_l_wait] <;> (repeat' split) <;> first | rfl | simp_all [renderOf, noteOf]

/-- What `PreviewPlayerBase.prepare_l_wait` leaves unchanged (the counts of the seek-complete and
start-next notifications and the marks that guard them). -/
@[simp] theorem base_prepare_l_wait_notices (env : Env) (s : Player) :
    (seekCompleteCount (PreviewPlayerBase.prepare_l_wait env s).trace = seekCompleteCount s.trace) ∧
    ((PreviewPlayerBase.prepare_l_wait env s).mSeekNotificationSent = s.mSeekNotificationSent) ∧
    (startNextCount (PreviewPlayerBase.prepare_l_wait env s).trace = startNextCount s.trace) ∧
    ((PreviewPlayerBase.prepare_l_wait env s).mStartNextPlayer = s.mStartNextPlayer) := by
  refine ⟨?_, ?_, ?_, ?_⟩ <;> simp only [PreviewPlayerBase.prepare_l_wait] <;> (repeat' split) <;> first | rfl | simp_all [renderOf, noteOf]

/-- What `PreviewPlayerBase.prepare_l_wait` leaves unchanged (the abort mark and the seek state). -/
@[simp] theorem base_prepare_l_wait_process (env : Env) (s : Player) :
    ((PreviewPlayerBase.prepare_l_wait env s).aborted = s.aborted) ∧
    ((PreviewPlayerBase.prepare_l_wait env s).mSeeking = s.mSeeking) := by
  refine ⟨?_, ?_⟩ <;> simp only [PreviewPlayerBase.prepare_l_wait] <;> (repeat' split) <;> first | rfl | simp_all [renderOf, noteOf]

/-- What `PreviewPlayerBase.prepare_l` leaves unchanged (settings, render calls, completion count,
flags). -/
@[simp] theorem base_prepare_l_frame (env : Env) (s : Player) :
    ((PreviewPlayerBase.prepare_l env s).2.cfg = s.cfg) ∧
    (renders (PreviewPlayerBase.prepare_l env s).2.trace = renders s.trace) ∧
    (playbackCompleteCount (PreviewPlayerBase.prepare_l env s).2.trace = playbackCompleteCount s.trace) := by
  refine ⟨?_, ?_, ?_⟩ <;> simp only [PreviewPlayerBase.prepare_l] <;> (repeat' split) <;> first | rfl | simp_all [renderOf, noteOf]

/-- What `PreviewPlayerBase.prepare_l` leaves unchanged (flags). -/
@[simp] theorem base_prepare_l_flags (env : Env) (s : Player) :
    ((PreviewPlayerBase.prepare_l env s).2.mFlags.PLAYING = s.mFlags.PLAYING) ∧
    ((PreviewPlayerBase.prepare_l env s).2.mFlags.AT_EOS = s.mFlags.AT_EOS) ∧
    ((PreviewPlayerBase.prepare_l env s).2.mFlags.CACHE_UNDERRUN = s.mFlags.CACHE_UNDERRUN) ∧
    ((PreviewPlayerBase.prepare_l env s).2.mFlags.LOOPING = s.mFlags.LOOPING) ∧
    ((PreviewPlayerBase.prepare_l env s).2.mFlags.AUTO_LOOPING = s.mFlags.AUTO_LOOPING) := by
  refine ⟨?_, ?_, ?_, ?_, ?_⟩ <;> simp only [PreviewPlayerBase.prepare_l] <;> (repeat' split) <;> first | rfl | simp_all [renderOf, noteOf]

/-- What `PreviewPlayerBase.prepare_l` leaves unchanged (the counts of the seek-complete and
start-next notifications and the marks that guard them). -/
@[simp] theorem base_prepare_l_notices (env : Env) (s : Player) :
    (seekCompleteCount (PreviewPlayerBase.prepare_l env s).2.trace = seekCompleteCount s.trace) ∧
    ((PreviewPlayerBase.prepare_l env s).2.mSeekNotificationSent = s.mSeekNotificationSent) ∧
    (startNextCount (PreviewPlayerBase.prepare_l env s).2.trace = startNextCount s.trace) ∧
    ((PreviewPlayerBase.prepare_l env s).2.mStartNextPlayer = s.mStartNextPlayer) := by
  refine ⟨?_, ?_, ?_, ?_⟩ <;> simp only [PreviewPlayerBase.prepare_l] <;> (repeat' split) <;> first | rfl | simp_all [renderOf, noteOf]

/-- What `PreviewPlayerBase.prepare_l` leaves unchanged (the abort mark and the seek state). -/
@[simp] theorem base_prepare_l_process (env : Env) (s : Player) :
    ((PreviewPlayerBase.prepare_l env s).2.aborted = s.aborted) ∧
    ((PreviewPlayerBase.prepare_l env s).2.mSeeking = s.mSeeking) := by
  refine ⟨?_, ?_⟩ <;> simp only [PreviewPlayerBase.prepare_l] <;> (repeat' split) <;> first | rfl | simp_all [renderOf, noteOf]

/-- What `PreviewPlayerBase.startAudioPlayer_l` leaves unchanged (settings, render calls,
completion count, flags). -/
@[simp] theorem base_startAudioPlayer_l_frame (env : Env) (s : Player) :
    ((PreviewPlayerBase.startAudioPlayer_l env s).2.cfg = s.cfg) ∧
    (renders (PreviewPlayerBase.startAudioPlayer_l env s).2.trace = renders s.trace) ∧
    (playbackCompleteCount (PreviewPlayerBase.startAudioPlayer_l env s).2.trace = playbackCompleteCount s.trace) := by
  refine ⟨?_, ?_, ?_⟩ <;> simp only [PreviewPlayerBase.startAudioPlayer_l] <;> (repeat' split) <;> first | rfl | simp_all [renderOf, noteOf]

/-- What `PreviewPlayerBase.startAudioPlayer_l` leaves unchanged (flags). -/
@[simp] theorem base_startAudioPlayer_l_flags (env : Env) (s : Player) :
    ((PreviewPlayerBase.startAudioPlayer_l env s).2.mFlags.PLAYING = s.mFlags.PLAYING) ∧
    ((PreviewPlayerBase.startAudioPlayer_l env s).2.mFlags.AT_EOS = s.mFlags.AT_EOS) ∧
    ((PreviewPlayerBase.startAudioPlayer_l env s).2.mFlags.INFORMED_AV_EOS = s.mFlags.INFORMED_AV_EOS) ∧
    ((PreviewPlayerBase.startAudioPlayer_l env s).2.mFlags.CACHE_UNDERRUN = s.mFlags.CACHE_UNDERRUN) ∧
    ((PreviewPlayerBase.startAudioPlayer_l env s).2.mFlags.LOOPING = s.mFlags.LOOPING) ∧
    ((PreviewPlayerBase.startAudioPlayer_l env s).2.mFlags.AUTO_LOOPING = s.mFlags.AUTO_LOOPING) := by
  refine ⟨?_, ?_, ?_, ?_, ?_, ?_⟩ <;> simp only [PreviewPlayerBase.startAudioPlayer_l] <;> (repeat' split) <;> first | rfl | simp_all [renderOf, noteOf]

/-- What `PreviewPlayerBase.startAudioPlayer_l` leaves unchanged (the counts of the seek-complete
and start-next notifications and the marks that guard them). -/
@[simp] theorem base_startAudioPlayer_l_notices (env : Env) (s : Player) :
    (seekCompleteCount (PreviewPlayerBase.startAudioPlayer_l env s).2.trace = seekCompleteCount s.trace) ∧
    ((PreviewPlayerBase.startAudioPlayer_l env s).2.mSeekNotificationSent = s.mSeekNotificationSent) ∧
    (startNextCount (PreviewPlayerBase.startAudioPlayer_l env s).2.trace = startNextCount s.trace) ∧
    ((PreviewPlayerBase.startAudioPlayer_l env s).2.mStartNextPlayer = s.mStartNextPlayer) := by
  refine ⟨?_, ?_, ?_, ?_⟩ <;> simp only [PreviewPlayerBase.startAudioPlayer_l] <;> (repeat' split) <;> first | rfl | simp_all [renderOf, noteOf]

/-- What `PreviewPlayerBase.startAudioPlayer_l` leaves unchanged (the abort mark and the seek
state). -/
@[simp] theorem base_startAudioPlayer_l_process (env : Env) (s : Player) :
    ((PreviewPlayerBase.startAudioPlayer_l env s).2.aborted = s.aborted) ∧
    ((PreviewPlayerBase.startAudioPlayer_l env s).2.mSeeking = s.mSeeking) := by
  refine ⟨?_, ?_⟩ <;> simp only [PreviewPlayerBase.startAudioPlayer_l] <;> (repeat' split) <;> first | rfl | simp_all [renderOf, noteOf]

/-- What `seekTo_l_repost` leaves unchanged (settings, render calls, completion count, flags). -/
@[simp] theorem seekTo_l_repost_frame (s : Player) :
    ((seekTo_l_repost s).cfg = s.cfg) ∧
    (renders (seekTo_l_repost s).trace = renders s.trace) ∧
    (playbackCompleteCount (seekTo_l_repost s).trace = playbackCompleteCount s.trace) ∧
    ((seekTo_l_repost s).mFlags = s.mFlags) := by
  refine ⟨?_, ?_, ?_, ?_⟩ <;> simp only [seekTo_l_repost] <;> (repeat' split) <;> first | rfl | simp_all [renderOf, noteOf]

/-- What `seekTo_l_repost` leaves unchanged (fields of the video loop). -/
@[simp] theorem seekTo_l_repost_fields (s : Player) :
    ((seekTo_l_repost s).mCurrentVideoEffect = s.mCurrentVideoEffect) ∧
    ((seekTo_l_repost s).mVideoRenderer = s.mVideoRenderer) ∧
    ((seekTo_l_repost s).mVideoBuffer = s.mVideoBuffer) ∧
    ((seekTo_l_repost s).mSeeking = s.mSeeking) ∧
    ((seekTo_l_repost s).mSeekTimeUs = s.mSeekTimeUs) ∧
    ((seekTo_l_repost s).mIsVideoSourceJpg = s.mIsVideoSourceJpg) ∧
    ((seekTo_l_repost s).mStreamDoneEventPending = s.mStreamDoneEventPending) := by
  refine ⟨?_, ?_, ?_, ?_, ?_, ?_, ?_⟩ <;> simp only [seekTo_l_repost] <;> (repeat' split) <;> first | rfl | simp_all [renderOf, noteOf]

/-- What `seekTo_l_repost` leaves unchanged (sources, clock and pending marks). -/
@[simp] theorem seekTo_l_repost_wiring (s : Player) :
    ((seekTo_l_repost s).mStreamDoneStatus = s.mStreamDoneStatus) ∧
    ((seekTo_l_repost s).mAudioPlayer = s.mAudioPlayer) ∧
    ((seekTo_l_repost s).mAudioSource = s.mAudioSource) ∧
    ((seekTo_l_repost s).mVideoSource = s.mVideoSource) ∧
    ((seekTo_l_repost s).mTimeSource = s.mTimeSource) ∧
    ((seekTo_l_repost s).mTimeSourceDeltaUs = s.mTimeSourceDeltaUs) ∧
    ((seekTo_l_repost s).mOverlayUpdateEventPosted = s.mOverlayUpdateEventPosted) := by
  refine ⟨?_, ?_, ?_, ?_, ?_, ?_, ?_⟩ <;> simp only [seekTo_l_repost] <;> (repeat' split) <;> first | rfl | simp_all [renderOf, noteOf]

/-- What `seekTo_l_repost` leaves unchanged (the counts of the seek-complete and start-next
notifications and the marks that guard them). -/
@[simp] theorem seekTo_l_repost_notices (s : Player) :
    (seekCompleteCount (seekTo_l_repost s).trace = seekCompleteCount s.trace) ∧
    ((seekTo_l_repost s).mSeekNotificationSent = s.mSeekNotificationSent) ∧
    (startNextCount (seekTo_l_repost s).trace = startNextCount s.trace) ∧
    ((seekTo_l_repost s).mStartNextPlayer = s.mStartNextPlayer) := by
  refine ⟨?_, ?_, ?_, ?_⟩ <;> simp only [seekTo_l_repost] <;> (repeat' split) <;> first | rfl | simp_all [renderOf, noteOf]

/-- What `seekTo_l_repost` leaves unchanged (the abort mark and the seek state). -/
@[simp] theorem seekTo_l_repost_process (s : Player) :
    ((seekTo_l_repost s).aborted = s.aborted) ∧
    ((seekTo_l_repost s).mSeeking = s.mSeeking) := by
  refine ⟨?_, ?_⟩ <;> simp only [seekTo_l_repost] <;> (repeat' split) <;> first | rfl | simp_all [renderOf, noteOf]

/-- What `seekTo_l_record` leaves unchanged (settings, render calls, completion count, flags). -/
@[simp] theorem seekTo_l_record_frame (timeUs : Int) (s : Player) :
    ((seekTo_l_record timeUs s).cfg = s.cfg) ∧
    (renders (seekTo_l_record timeUs s).trace = renders s.trace) ∧
    (playbackCompleteCount (seekTo_l_record timeUs s).trace = playbackCompleteCount s.trace) := by
  refine ⟨?_, ?_, ?_⟩ <;> simp only [seekTo_l_record] <;> (repeat' split) <;> first | rfl | simp_all [renderOf, noteOf]

/-- What `seekTo_l_record` leaves unchanged (flags). -/
@[simp] theorem seekTo_l_record_flags (timeUs : Int) (s : Player) :
    ((seekTo_l_record timeUs s).mFlags.PLAYING = s.mFlags.PLAYING) ∧
    ((seekTo_l_record timeUs s).mFlags.INFORMED_AV_EOS = s.mFlags.INFORMED_AV_EOS) ∧
    ((seekTo_l_record timeUs s).mFlags.CACHE_UNDERRUN = s.mFlags.CACHE_UNDERRUN) ∧
    ((seekTo_l_record timeUs s).mFlags.LOOPING = s.mFlags.LOOPING) ∧
    ((seekTo_l_record timeUs s).mFlags.AUTO_LOOPING = s.mFlags.AUTO_LOOPING) ∧
    ((seekTo_l_record timeUs s).mFlags.FIRST_FRAME = s.mFlags.FIRST_FRAME) ∧
    ((seekTo_l_record timeUs s).mFlags.SEEK_PREVIEW = s.mFlags.SEEK_PREVIEW) ∧
    ((seekTo_l_record timeUs s).mFlags.AUDIO_RUNNING = s.mFlags.AUDIO_RUNNING) := by
  refine ⟨?_, ?_, ?_, ?_, ?_, ?_, ?_, ?_⟩ <;> simp only [seekTo_l_record] <;> (repeat' split) <;> first | rfl | simp_all [renderOf, noteOf]

/-- What `seekTo_l_record` leaves unchanged (fields of the video loop). -/
@[simp] theorem seekTo_l_record_fields (timeUs : Int) (s : Player) :
    ((seekTo_l_record timeUs s).mCurrentVideoEffect = s.mCurrentVideoEffect) ∧
    ((seekTo_l_record timeUs s).mVideoRenderer = s.mVideoRenderer) ∧
    ((seekTo_l_record timeUs s).mVideoBuffer = s.mVideoBuffer) ∧
    ((seekTo_l_record timeUs s).mIsVideoSourceJpg = s.mIsVideoSourceJpg) ∧
    ((seekTo_l_record timeUs s).mVideoEventPending = s.mVideoEventPending) ∧
    ((seekTo_l_record timeUs s).mStreamDoneEventPending = s.mStreamDoneEventPending) := by
  refine ⟨?_, ?_, ?_, ?_, ?_, ?_⟩ <;> simp only [seekTo_l_record] <;> (repeat' split) <;> first | rfl | simp_all [renderOf, noteOf]

/-- What `seekTo_l_record` leaves unchanged (sources, clock and pending marks). -/
@[simp] theorem seekTo_l_record_wiring (timeUs : Int) (s : Player) :
    ((seekTo_l_record timeUs s).mStreamDoneStatus = s.mStreamDoneStatus) ∧
    ((seekTo_l_record timeUs s).mAudioPlayer = s.mAudioPlayer) ∧
    ((seekTo_l_record timeUs s).mAudioSource = s.mAudioSource) ∧
    ((seekTo_l_record timeUs s).mVideoSource = s.mVideoSource) ∧
    ((seekTo_l_record timeUs s).mTimeSource = s.mTimeSource) ∧
    ((seekTo_l_record timeUs s).mTimeSourceDeltaUs = s.mTimeSourceDeltaUs) ∧
    ((seekTo_l_record timeUs s).mOverlayUpdateEventPosted = s.mOverlayUpdateEventPosted) := by
  refine ⟨?_, ?_, ?_, ?_, ?_, ?_, ?_⟩ <;> simp only [seekTo_l_record] <;> (repeat' split) <;> first | rfl | simp_all [renderOf, noteOf]

/-- What `seekTo_l_record` leaves unchanged (the counts of the seek-complete and start-next
notifications and the marks that guard them). -/
@[simp] theorem seekTo_l_record_notices (timeUs : Int) (s : Player) :
    (seekCompleteCount (seekTo_l_record timeUs s).trace = seekCompleteCount s.trace) ∧
    (startNextCount (seekTo_l_record timeUs s).trace = startNextCount s.trace) ∧
    ((seekTo_l_record timeUs s).mStartNextPlayer = s.mStartNextPlayer) := by
  refine ⟨?_, ?_, ?_⟩ <;> simp only [seekTo_l_record] <;> (repeat' split) <;> first | rfl | simp_all [renderOf, noteOf]

/-- What `seekTo_l_record` leaves unchanged (the abort mark and the seek state). -/
@[simp] theorem seekTo_l_record_process (timeUs : Int) (s : Player) :
    (seekTo_l_record timeUs s).aborted = s.aborted := by
  simp only [seekTo_l_record] <;> (repeat' split) <;> first | rfl | simp_all [renderOf, noteOf]

/-- What `seekTo_l_paused` leaves unchanged (settings, render calls, completion count, flags). -/
@[simp] theorem seekTo_l_paused_frame (s : Player) :
    ((seekTo_l_paused s).cfg = s.cfg) ∧
    (renders (seekTo_l_paused s).trace = renders s.trace) ∧
    (playbackCompleteCount (seekTo_l_paused s).trace = playbackCompleteCount s.trace) := by
  refine ⟨?_, ?_, ?_⟩ <;> simp only [seekTo_l_paused] <;> (repeat' split) <;> first | rfl | simp_all [renderOf, noteOf]

/-- What `seekTo_l_paused` leaves unchanged (flags). -/
@[simp] theorem seekTo_l_paused_flags (s : Player) :
    ((seekTo_l_paused s).mFlags.PLAYING = s.mFlags.PLAYING) ∧
    ((seekTo_l_paused s).mFlags.AT_EOS = s.mFlags.AT_EOS) ∧
    ((seekTo_l_paused s).mFlags.INFORMED_AV_EOS = s.mFlags.INFORMED_AV_EOS) ∧
    ((seekTo_l_paused s).mFlags.CACHE_UNDERRUN = s.mFlags.CACHE_UNDERRUN) ∧
    ((seekTo_l_paused s).mFlags.LOOPING = s.mFlags.LOOPING) ∧
    ((seekTo_l_paused s).mFlags.AUTO_LOOPING = s.mFlags.AUTO_LOOPING) ∧
    ((seekTo_l_paused s).mFlags.VIDEO_AT_EOS = s.mFlags.VIDEO_AT_EOS) ∧
    ((seekTo_l_paused s).mFlags.AUDIO_AT_EOS = s.mFlags.AUDIO_AT_EOS) ∧
    ((seekTo_l_paused s).mFlags.FIRST_FRAME = s.mFlags.FIRST_FRAME) ∧
    ((seekTo_l_paused s).mFlags.AUDIO_RUNNING = s.mFlags.AUDIO_RUNNING) := by
  refine ⟨?_, ?_, ?_, ?_, ?_, ?_, ?_, ?_, ?_, ?_⟩ <;> simp only [seekTo_l_paused] <;> (repeat' split) <;> first | rfl | simp_all [renderOf, noteOf]

/-- What `seekTo_l_paused` leaves unchanged (fields of the video loop). -/
@[simp] theorem seekTo_l_paused_fields (s : Player) :
    ((seekTo_l_paused s).mCurrentVideoEffect = s.mCurrentVideoEffect) ∧
    ((seekTo_l_paused s).mVideoRenderer = s.mVideoRenderer) ∧
    ((seekTo_l_paused s).mVideoBuffer = s.mVideoBuffer) ∧
    ((seekTo_l_paused s).mSeeking = s.mSeeking) ∧
    ((seekTo_l_paused s).mSeekTimeUs = s.mSeekTimeUs) ∧
    ((seekTo_l_paused s).mIsVideoSourceJpg = s.mIsVideoSourceJpg) ∧
    ((seekTo_l_paused s).mStreamDoneEventPending = s.mStreamDoneEventPending) := by
  refine ⟨?_, ?_, ?_, ?_, ?_, ?_, ?_⟩ <;> simp only [seekTo_l_paused] <;> (repeat' split) <;> first | rfl | simp_all [renderOf, noteOf]

/-- What `seekTo_l_paused` leaves unchanged (sources, clock and pending marks). -/
@[simp] theorem seekTo_l_paused_wiring (s : Player) :
    ((seekTo_l_paused s).mStreamDoneStatus = s.mStreamDoneStatus) ∧
    ((seekTo_l_paused s).mAudioPlayer = s.mAudioPlayer) ∧
    ((seekTo_l_paused s).mAudioSource = s.mAudioSource) ∧
    ((seekTo_l_paused s).mVideoSource = s.mVideoSource) ∧
    ((seekTo_l_paused s).mTimeSource = s.mTimeSource) ∧
    ((seekTo_l_paused s).mTimeSourceDeltaUs = s.mTimeSourceDeltaUs) ∧
    ((seekTo_l_paused s).mOverlayUpdateEventPosted = s.mOverlayUpdateEventPosted) := by
  refine ⟨?_, ?_, ?_, ?_, ?_, ?_, ?_⟩ <;> simp only [seekTo_l_paused] <;> (repeat' split) <;> first | rfl | simp_all [renderOf, noteOf]

/-- What `seekTo_l_paused` leaves unchanged (the counts of the seek-complete and start-next
notifications and the marks that guard them). -/
@[simp] theorem seekTo_l_paused_notices (s : Player) :
    (startNextCount (seekTo_l_paused s).trace = startNextCount s.trace) ∧
    ((seekTo_l_paused s).mStartNextPlayer = s.mStartNextPlayer) := by
  refine ⟨?_, ?_⟩ <;> simp only [seekTo_l_paused] <;> (repeat' split) <;> first | rfl | simp_all [renderOf, noteOf]

/-- What `seekTo_l_paused` leaves unchanged (the abort mark and the seek state). -/
@[simp] theorem seekTo_l_paused_process (s : Player) :
    ((seekTo_l_paused s).aborted = s.aborted) ∧
    ((seekTo_l_paused s).mSeeking = s.mSeeking) := by
  refine ⟨?_, ?_⟩ <;> simp only [seekTo_l_paused] <;> (repeat' split) <;> first | rfl | simp_all [renderOf, noteOf]

/-- What `seekTo_l_body` leaves unchanged (settings, render calls, completion count, flags). -/
@[simp] theorem seekTo_l_body_frame (timeUs : Int) (s : Player) :
    ((seekTo_l_body timeUs s).2.cfg = s.cfg) ∧
    (renders (seekTo_l_body timeUs s).2.trace = renders s.trace) ∧
    (playbackCompleteCount (seekTo_l_body timeUs s).2.trace = playbackCompleteCount s.trace) := by
  refine ⟨?_, ?_, ?_⟩ <;> simp only [seekTo_l_body] <;> (repeat' split) <;> first | rfl | simp_all [renderOf, noteOf]

/-- What `seekTo_l_body` leaves unchanged (flags). -/
@[simp] theorem seekTo_l_body_flags (timeUs : Int) (s : Player) :
    ((seekTo_l_body timeUs s).2.mFlags.PLAYING = s.mFlags.PLAYING) ∧
    ((seekTo_l_body timeUs s).2.mFlags.INFORMED_AV_EOS = s.mFlags.INFORMED_AV_EOS) ∧
    ((seekTo_l_body timeUs s).2.mFlags.CACHE_UNDERRUN = s.mFlags.CACHE_UNDERRUN) ∧
    ((seekTo_l_body timeUs s).2.mFlags.LOOPING = s.mFlags.LOOPING) ∧
    ((seekTo_l_body timeUs s).2.mFlags.AUTO_LOOPING = s.mFlags.AUTO_LOOPING) ∧
    ((seekTo_l_body timeUs s).2.mFlags.FIRST_FRAME = s.mFlags.FIRST_FRAME) ∧
    ((seekTo_l_body timeUs s).2.mFlags.AUDIO_RUNNING = s.mFlags.AUDIO_RUNNING) := by
  refine ⟨?_, ?_, ?_, ?_, ?_, ?_, ?_⟩ <;> simp only [seekTo_l_body] <;> (repeat' split) <;> first | rfl | simp_all [renderOf, noteOf]

/-- What `seekTo_l_body` leaves unchanged (fields of the video loop). -/
@[simp] theorem seekTo_l_body_fields (timeUs : Int) (s : Player) :
    ((seekTo_l_body timeUs s).2.mCurrentVideoEffect = s.mCurrentVideoEffect) ∧
    ((seekTo_l_body timeUs s).2.mVideoRenderer = s.mVideoRenderer) ∧
    ((seekTo_l_body timeUs s).2.mVideoBuffer = s.mVideoBuffer) ∧
    ((seekTo_l_body timeUs s).2.mIsVideoSourceJpg = s.mIsVideoSourceJpg) ∧
    ((seekTo_l_body timeUs s).2.mStreamDoneEventPending = s.mStreamDoneEventPending) := by
  refine ⟨?_, ?_, ?_, ?_, ?_⟩ <;> simp only [seekTo_l_body] <;> (repeat' split) <;> first | rfl | simp_all [renderOf, noteOf]

/-- What `seekTo_l_body` leaves unchanged (sources, clock and pending marks). -/
@[simp] theorem seekTo_l_body_wiring (timeUs : Int) (s : Player) :
    ((seekTo_l_body timeUs s).2.mStreamDoneStatus = s.mStreamDoneStatus) ∧
    ((seekTo_l_body timeUs s).2.mAudioPlayer = s.mAudioPlayer) ∧
    ((seekTo_l_body timeUs s).2.mAudioSource = s.mAudioSource) ∧
    ((seekTo_l_body timeUs s).2.mVideoSource = s.mVideoSource) ∧
    ((seekTo_l_body timeUs s).2.mTimeSource = s.mTimeSource) ∧
    ((seekTo_l_body timeUs s).2.mTimeSourceDeltaUs = s.mTimeSourceDeltaUs) ∧
    ((seekTo_l_body timeUs s).2.mOverlayUpdateEventPosted = s.mOverlayUpdateEventPosted) := by
  refine ⟨?_, ?_, ?_, ?_, ?_, ?_, ?_⟩ <;> simp only [seekTo_l_body] <;> (repeat' split) <;> first | rfl | simp_all [renderOf, noteOf]

/-- What `seekTo_l_body` leaves unchanged (the counts of the seek-complete and start-next
notifications and the marks that guard them). -/
@[simp] theorem seekTo_l_body_notices (timeUs : Int) (s : Player) :
    (startNextCount (seekTo_l_body timeUs s).2.trace = startNextCount s.trace) ∧
    ((seekTo_l_body timeUs s).2.mStartNextPlayer = s.mStartNextPlayer) := by
  refine ⟨?_, ?_⟩ <;> simp only [seekTo_l_body] <;> (repeat' split) <;> first | rfl | simp_all [renderOf, noteOf]

/-- What `seekTo_l_body` leaves unchanged (the abort mark and the seek state). -/
@[simp] theorem seekTo_l_body_process (timeUs : Int) (s : Player) :
    (seekTo_l_body timeUs s).2.aborted = s.aborted := by
  simp only [seekTo_l_body] <;> (repeat' split) <;> first | rfl | simp_all [renderOf, noteOf]

/-- What `PreviewPlayerBase.play_l_prepare` leaves unchanged (settings, render calls, completion
count, flags). -/
@[simp] theorem base_play_l_prepare_frame (env : Env) (s : Player) :
    ((PreviewPlayerBase.play_l_prepare env s).2.cfg = s.cfg) ∧
    (renders (PreviewPlayerBase.play_l_prepare env s).2.trace = renders s.trace) ∧
    (playbackCompleteCount (PreviewPlayerBase.play_l_prepare env s).2.trace = playbackCompleteCount s.trace) := by
  refine ⟨?_, ?_, ?_⟩ <;> simp only [PreviewPlayerBase.play_l_prepare] <;> (repeat' split) <;> first | rfl | simp_all [renderOf, noteOf]

/-- What `PreviewPlayerBase.play_l_prepare` leaves unchanged (flags). -/
@[simp] theorem base_play_l_prepare_flags (env : Env) (s : Player) :
    ((PreviewPlayerBase.play_l_prepare env s).2.mFlags.PLAYING = s.mFlags.PLAYING) ∧
    ((PreviewPlayerBase.play_l_prepare env s).2.mFlags.AT_EOS = s.mFlags.AT_EOS) ∧
    ((PreviewPlayerBase.play_l_prepare env s).2.mFlags.CACHE_UNDERRUN = s.mFlags.CACHE_UNDERRUN) ∧
    ((PreviewPlayerBase.play_l_prepare env s).2.mFlags.LOOPING = s.mFlags.LOOPING) ∧
    ((PreviewPlayerBase.play_l_prepare env s).2.mFlags.AUTO_LOOPING = s.mFlags.AUTO_LOOPING) := by
  refine ⟨?_, ?_, ?_, ?_, ?_⟩ <;> simp only [PreviewPlayerBase.play_l_prepare] <;> (repeat' split) <;> first | rfl | simp_all [renderOf, noteOf]

/-- What `PreviewPlayerBase.play_l_prepare` leaves unchanged (the counts of the seek-complete and
start-next notifications and the marks that guard them). -/
@[simp] theorem base_play_l_prepare_notices (env : Env) (s : Player) :
    (seekCompleteCount (PreviewPlayerBase.play_l_prepare env s).2.trace = seekCompleteCount s.trace) ∧
    ((PreviewPlayerBase.play_l_prepare env s).2.mSeekNotificationSent = s.mSeekNotificationSent) ∧
    (startNextCount (PreviewPlayerBase.play_l_prepare env s).2.trace = startNextCount s.trace) ∧
    ((PreviewPlayerBase.play_l_prepare env s).2.mStartNextPlayer = s.mStartNextPlayer) := by
  refine ⟨?_, ?_, ?_, ?_⟩ <;> simp only [PreviewPlayerBase.play_l_prepare] <;> (repeat' split) <;> first | rfl | simp_all [renderOf, noteOf]

/-- What `PreviewPlayerBase.play_l_prepare` leaves unchanged (the abort mark and the seek state). -/
@[simp] theorem base_play_l_prepare_process (env : Env) (s : Player) :
    ((PreviewPlayerBase.play_l_prepare env s).2.aborted = s.aborted) ∧
    ((PreviewPlayerBase.play_l_prepare env s).2.mSeeking = s.mSeeking) := by
  refine ⟨?_, ?_⟩ <;> simp only [PreviewPlayerBase.play_l_prepare] <;> (repeat' split) <;> first | rfl | simp_all [renderOf, noteOf]

/-- What `PreviewPlayerBase.play_l_audioPlayer` leaves unchanged (settings, render calls,
completion count, flags). -/
@[simp] theorem base_play_l_audioPlayer_frame (s : Player) :
    ((PreviewPlayerBase.play_l_audioPlayer s).cfg = s.cfg) ∧
    (renders (PreviewPlayerBase.play_l_audioPlayer s).trace = renders s.trace) ∧
    (playbackCompleteCount (PreviewPlayerBase.play_l_audioPlayer s).trace = playbackCompleteCount s.trace) ∧
    ((PreviewPlayerBase.play_l_audioPlayer s).mFlags = s.mFlags) := by
  refine ⟨?_, ?_, ?_, ?_⟩ <;> simp only [PreviewPlayerBase.play_l_audioPlayer] <;> (repeat' split) <;> first | rfl | simp_all [renderOf, noteOf]

/-- What `PreviewPlayerBase.play_l_audioPlayer` leaves unchanged (the counts of the seek-complete
and start-next notifications and the marks that guard them). -/
@[simp] theorem base_play_l_audioPlayer_notices (s : Player) :
    (seekCompleteCount (PreviewPlayerBase.play_l_audioPlayer s).trace = seekCompleteCount s.trace) ∧
    ((PreviewPlayerBase.play_l_audioPlayer s).mSeekNotificationSent = s.mSeekNotificationSent) ∧
    (startNextCount (PreviewPlayerBase.play_l_audioPlayer s).trace = startNextCount s.trace) ∧
    ((PreviewPlayerBase.play_l_audioPlayer s).mStartNextPlayer = s.mStartNextPlayer) := by
  refine ⟨?_, ?_, ?_, ?_⟩ <;> simp only [PreviewPlayerBase.play_l_audioPlayer] <;> (repeat' split) <;> first | rfl | simp_all [renderOf, noteOf]

/-- What `PreviewPlayerBase.play_l_audioPlayer` leaves unchanged (the abort mark and the seek
state). -/
@[simp] theorem base_play_l_audioPlayer_process (s : Player) :
    ((PreviewPlayerBase.play_l_audioPlayer s).aborted = s.aborted) ∧
    ((PreviewPlayerBase.play_l_audioPlayer s).mSeeking = s.mSeeking) := by
  refine ⟨?_, ?_⟩ <;> simp only [PreviewPlayerBase.play_l_audioPlayer] <;> (repeat' split) <;> first | rfl | simp_all [renderOf, noteOf]

/-- What `PreviewPlayerBase.play_l_start` leaves unchanged (settings, render calls, completion
count, flags). -/
@[simp] theorem base_play_l_start_frame (env : Env) (s : Player) :
    ((PreviewPlayerBase.play_l_start env s).2.cfg = s.cfg) ∧
    (renders (PreviewPlayerBase.play_l_start env s).2.trace = renders s.trace) ∧
    (playbackCompleteCount (PreviewPlayerBase.play_l_start env s).2.trace = playbackCompleteCount s.trace) := by
  refine ⟨?_, ?_, ?_⟩ <;> simp only [PreviewPlayerBase.play_l_start] <;> (repeat' split) <;> first | rfl | simp_all [renderOf, noteOf]

/-- What `PreviewPlayerBase.play_l_start` leaves unchanged (flags). -/
@[simp] theorem base_play_l_start_flags (env : Env) (s : Player) :
    ((PreviewPlayerBase.play_l_start env s).2.mFlags.PLAYING = s.mFlags.PLAYING) ∧
    ((PreviewPlayerBase.play_l_start env s).2.mFlags.AT_EOS = s.mFlags.AT_EOS) ∧
    ((PreviewPlayerBase.play_l_start env s).2.mFlags.INFORMED_AV_EOS = s.mFlags.INFORMED_AV_EOS) ∧
    ((PreviewPlayerBase.play_l_start env s).2.mFlags.CACHE_UNDERRUN = s.mFlags.CACHE_UNDERRUN) ∧
    ((PreviewPlayerBase.play_l_start env s).2.mFlags.LOOPING = s.mFlags.LOOPING) ∧
    ((PreviewPlayerBase.play_l_start env s).2.mFlags.AUTO_LOOPING = s.mFlags.AUTO_LOOPING) := by
  refine ⟨?_, ?_, ?_, ?_, ?_, ?_⟩ <;> simp only [PreviewPlayerBase.play_l_start] <;> (repeat' split) <;> first | rfl | simp_all [renderOf, noteOf]

/-- What `PreviewPlayerBase.play_l_start` leaves unchanged (the counts of the seek-complete and
start-next notifications and the marks that guard them). -/
@[simp] theorem base_play_l_start_notices (env : Env) (s : Player) :
    (seekCompleteCount (PreviewPlayerBase.play_l_start env s).2.trace = seekCompleteCount s.trace) ∧
    ((PreviewPlayerBase.play_l_start env s).2.mSeekNotificationSent = s.mSeekNotificationSent) ∧
    (startNextCount (PreviewPlayerBase.play_l_start env s).2.trace = startNextCount s.trace) ∧
    ((PreviewPlayerBase.play_l_start env s).2.mStartNextPlayer = s.mStartNextPlayer) := by
  refine ⟨?_, ?_, ?_, ?_⟩ <;> simp only [PreviewPlayerBase.play_l_start] <;> (repeat' split) <;> first | rfl | simp_all [renderOf, noteOf]

/-- What `PreviewPlayerBase.play_l_start` leaves unchanged (the abort mark and the seek state). -/
@[simp] theorem base_play_l_start_process (env : Env) (s : Player) :
    ((PreviewPlayerBase.play_l_start env s).2.aborted = s.aborted) ∧
    ((PreviewPlayerBase.play_l_start env s).2.mSeeking = s.mSeeking) := by
  refine ⟨?_, ?_⟩ <;> simp only [PreviewPlayerBase.play_l_start] <;> (repeat' split) <;> first | rfl | simp_all [renderOf, noteOf]

/-- What `PreviewPlayerBase.play_l_fail` leaves unchanged (settings, render calls, completion
count, flags). -/
@[simp] theorem base_play_l_fail_frame (s : Player) :
    ((PreviewPlayerBase.play_l_fail s).cfg = s.cfg) ∧
    (renders (PreviewPlayerBase.play_l_fail s).trace = renders s.trace) ∧
    (playbackCompleteCount (PreviewPlayerBase.play_l_fail s).trace = playbackCompleteCount s.trace) := by
  refine ⟨?_, ?_, ?_⟩ <;> simp only [PreviewPlayerBase.play_l_fail] <;> (repeat' split) <;> first | rfl | simp_all [renderOf, noteOf]

/-- What `PreviewPlayerBase.play_l_fail` leaves unchanged (flags). -/
@[simp] theorem base_play_l_fail_flags (s : Player) :
    ((PreviewPlayerBase.play_l_fail s).mFlags.AT_EOS = s.mFlags.AT_EOS) ∧
    ((PreviewPlayerBase.play_l_fail s).mFlags.INFORMED_AV_EOS = s.mFlags.INFORMED_AV_EOS) ∧
    ((PreviewPlayerBase.play_l_fail s).mFlags.CACHE_UNDERRUN = s.mFlags.CACHE_UNDERRUN) ∧
    ((PreviewPlayerBase.play_l_fail s).mFlags.LOOPING = s.mFlags.LOOPING) ∧
    ((PreviewPlayerBase.play_l_fail s).mFlags.AUTO_LOOPING = s.mFlags.AUTO_LOOPING) := by
  refine ⟨?_, ?_, ?_, ?_, ?_⟩ <;> simp only [PreviewPlayerBase.play_l_fail] <;> (repeat' split) <;> first | rfl | simp_all [renderOf, noteOf]

/-- What `PreviewPlayerBase.play_l_fail` leaves unchanged (the counts of the seek-complete and
start-next notifications and the marks that guard them). -/
@[simp] theorem base_play_l_fail_notices (s : Player) :
    (seekCompleteCount (PreviewPlayerBase.play_l_fail s).trace = seekCompleteCount s.trace) ∧
    ((PreviewPlayerBase.play_l_fail s).mSeekNotificationSent = s.mSeekNotificationSent) ∧
    (startNextCount (PreviewPlayerBase.play_l_fail s).trace = startNextCount s.trace) ∧
    ((PreviewPlayerBase.play_l_fail s).mStartNextPlayer = s.mStartNextPlayer) := by
  refine ⟨?_, ?_, ?_, ?_⟩ <;> simp only [PreviewPlayerBase.play_l_fail] <;> (repeat' split) <;> first | rfl | simp_all [renderOf, noteOf]

/-- What `PreviewPlayerBase.play_l_fail` leaves unchanged (the abort mark and the seek state). -/
@[simp] theorem base_play_l_fail_process (s : Player) :
    ((PreviewPlayerBase.play_l_fail s).aborted = s.aborted) ∧
    ((PreviewPlayerBase.play_l_fail s).mSeeking = s.mSeeking) := by
  refine ⟨?_, ?_⟩ <;> simp only [PreviewPlayerBase.play_l_fail] <;> (repeat' split) <;> first | rfl | simp_all [renderOf, noteOf]

/-- What `PreviewPlayerBase.play_l_clock` leaves unchanged (settings, render calls, completion
count, flags). -/
@[simp] theorem base_play_l_clock_frame (s : Player) :
    ((PreviewPlayerBase.play_l_clock s).cfg = s.cfg) ∧
    (renders (PreviewPlayerBase.play_l_clock s).trace = renders s.trace) ∧
    (playbackCompleteCount (PreviewPlayerBase.play_l_clock s).trace = playbackCompleteCount s.trace) ∧
    ((PreviewPlayerBase.play_l_clock s).mFlags = s.mFlags) := by
  refine ⟨?_, ?_, ?_, ?_⟩ <;> simp only [PreviewPlayerBase.play_l_clock] <;> (repeat' split) <;> first | rfl | simp_all [renderOf, noteOf]

/-- What `PreviewPlayerBase.play_l_clock` leaves unchanged (the counts of the seek-complete and
start-next notifications and the marks that guard them). -/
@[simp] theorem base_play_l_clock_notices (s : Player) :
    (seekCompleteCount (PreviewPlayerBase.play_l_clock s).trace = seekCompleteCount s.trace) ∧
    ((PreviewPlayerBase.play_l_clock s).mSeekNotificationSent = s.mSeekNotificationSent) ∧
    (startNextCount (PreviewPlayerBase.play_l_clock s).trace = startNextCount s.trace) ∧
    ((PreviewPlayerBase.play_l_clock s).mStartNextPlayer = s.mStartNextPlayer) := by
  refine ⟨?_, ?_, ?_, ?_⟩ <;> simp only [PreviewPlayerBase.play_l_clock] <;> (repeat' split) <;> first | rfl | simp_all [renderOf, noteOf]

/-- What `PreviewPlayerBase.play_l_clock` leaves unchanged (the abort mark and the seek state). -/
@[simp] theorem base_play_l_clock_process (s : Player) :
    ((PreviewPlayerBase.play_l_clock s).aborted = s.aborted) ∧
    ((PreviewPlayerBase.play_l_clock s).mSeeking = s.mSeeking) := by
  refine ⟨?_, ?_⟩ <;> simp only [PreviewPlayerBase.play_l_clock] <;> (repeat' split) <;> first | rfl | simp_all [renderOf, noteOf]

/-- What `PreviewPlayerBase.play_l_kick` leaves unchanged (settings, render calls, completion
count, flags). -/
@[simp] theorem base_play_l_kick_frame (s : Player) :
    ((PreviewPlayerBase.play_l_kick s).cfg = s.cfg) ∧
    (renders (PreviewPlayerBase.play_l_kick s).trace = renders s.trace) ∧
    (playbackCompleteCount (PreviewPlayerBase.play_l_kick s).trace = playbackCompleteCount s.trace) ∧
    ((PreviewPlayerBase.play_l_kick s).mFlags = s.mFlags) := by
  refine ⟨?_, ?_, ?_, ?_⟩ <;> simp only [PreviewPlayerBase.play_l_kick] <;> (repeat' split) <;> first | rfl | simp_all [renderOf, noteOf]

/-- What `PreviewPlayerBase.play_l_kick` leaves unchanged (the counts of the seek-complete and
start-next notifications and the marks that guard them). -/
@[simp] theorem base_play_l_kick_notices (s : Player) :
    (seekCompleteCount (PreviewPlayerBase.play_l_kick s).trace = seekCompleteCount s.trace) ∧
    ((PreviewPlayerBase.play_l_kick s).mSeekNotificationSent = s.mSeekNotificationSent) ∧
    (startNextCount (PreviewPlayerBase.play_l_kick s).trace = startNextCount s.trace) ∧
    ((PreviewPlayerBase.play_l_kick s).mStartNextPlayer = s.mStartNextPlayer) := by
  refine ⟨?_, ?_, ?_, ?_⟩ <;> simp only [PreviewPlayerBase.play_l_kick] <;> (repeat' split) <;> first | rfl | simp_all [renderOf, noteOf]

/-- What `PreviewPlayerBase.play_l_kick` leaves unchanged (the abort mark and the seek state). -/
@[simp] theorem base_play_l_kick_process (s : Player) :
    ((PreviewPlayerBase.play_l_kick s).aborted = s.aborted) ∧
    ((PreviewPlayerBase.play_l_kick s).mSeeking = s.mSeeking) := by
  refine ⟨?_, ?_⟩ <;> simp only [PreviewPlayerBase.play_l_kick] <;> (repeat' split) <;> first | rfl | simp_all [renderOf, noteOf]

/-- What `PreviewPlayerBase.play_l_replay` leaves unchanged (settings, render calls, completion
count, flags). -/
@[simp] theorem base_play_l_replay_frame (s : Player) :
    ((PreviewPlayerBase.play_l_replay s).cfg = s.cfg) ∧
    (renders (PreviewPlayerBase.play_l_replay s).trace = renders s.trace) ∧
    (playbackCompleteCount (PreviewPlayerBase.play_l_replay s).trace = playbackCompleteCount s.trace) := by
  refine ⟨?_, ?_, ?_⟩ <;> simp only [PreviewPlayerBase.play_l_replay] <;> (repeat' split) <;> first | rfl | simp_all [renderOf, noteOf]

/-- What `PreviewPlayerBase.play_l_replay` leaves unchanged (flags). -/
@[simp] theorem base_play_l_replay_flags (s : Player) :
    ((PreviewPlayerBase.play_l_replay s).mFlags.PLAYING = s.mFlags.PLAYING) ∧
    ((PreviewPlayerBase.play_l_replay s).mFlags.INFORMED_AV_EOS = s.mFlags.INFORMED_AV_EOS) ∧
    ((PreviewPlayerBase.play_l_replay s).mFlags.CACHE_UNDERRUN = s.mFlags.CACHE_UNDERRUN) ∧
    ((PreviewPlayerBase.play_l_replay s).mFlags.LOOPING = s.mFlags.LOOPING) ∧
    ((PreviewPlayerBase.play_l_replay s).mFlags.AUTO_LOOPING = s.mFlags.AUTO_LOOPING) := by
  refine ⟨?_, ?_, ?_, ?_, ?_⟩ <;> simp only [PreviewPlayerBase.play_l_replay] <;> (repeat' split) <;> first | rfl | simp_all [renderOf, noteOf]

/-- What `PreviewPlayerBase.play_l_replay` leaves unchanged (the counts of the seek-complete and
start-next notifications and the marks that guard them). -/
@[simp] theorem base_play_l_replay_notices (s : Player) :
    (startNextCount (PreviewPlayerBase.play_l_replay s).trace = startNextCount s.trace) ∧
    ((PreviewPlayerBase.play_l_replay s).mStartNextPlayer = s.mStartNextPlayer) := by
  refine ⟨?_, ?_⟩ <;> simp only [PreviewPlayerBase.play_l_replay] <;> (repeat' split) <;> first | rfl | simp_all [renderOf, noteOf]

/-- What `PreviewPlayerBase.play_l_replay` leaves unchanged (the abort mark and the seek state). -/
@[simp] theorem base_play_l_replay_process (s : Player) :
    (PreviewPlayerBase.play_l_replay s).aborted = s.aborted := by
  simp only [PreviewPlayerBase.play_l_replay] <;> (repeat' split) <;> first | rfl | simp_all [renderOf, noteOf]

/-- What `PreviewPlayerBase.play_l_run` leaves unchanged (settings, render calls, completion
count, flags). -/
@[simp] theorem base_play_l_run_frame (env : Env) (s : Player) :
    ((PreviewPlayerBase.play_l_run env s).2.cfg = s.cfg) ∧
    (renders (PreviewPlayerBase.play_l_run env s).2.trace = renders s.trace) ∧
    (playbackCompleteCount (PreviewPlayerBase.play_l_run env s).2.trace = playbackCompleteCount s.trace) := by
  refine ⟨?_, ?_, ?_⟩ <;> simp only [PreviewPlayerBase.play_l_run] <;> (repeat' split) <;> first | rfl | simp_all [renderOf, noteOf]

/-- What `PreviewPlayerBase.play_l_run` leaves unchanged (flags). -/
@[simp] theorem base_play_l_run_flags (env : Env) (s : Player) :
    ((PreviewPlayerBase.play_l_run env s).2.mFlags.INFORMED_AV_EOS = s.mFlags.INFORMED_AV_EOS) ∧
    ((PreviewPlayerBase.play_l_run env s).2.mFlags.CACHE_UNDERRUN = s.mFlags.CACHE_UNDERRUN) ∧
    ((PreviewPlayerBase.play_l_run env s).2.mFlags.LOOPING = s.mFlags.LOOPING) ∧
    ((PreviewPlayerBase.play_l_run env s).2.mFlags.AUTO_LOOPING = s.mFlags.AUTO_LOOPING) := by
  refine ⟨?_, ?_, ?_, ?_⟩ <;> simp only [PreviewPlayerBase.play_l_run] <;> (repeat' split) <;> first | rfl | simp_all [renderOf, noteOf]

/-- What `PreviewPlayerBase.play_l_run` leaves unchanged (the counts of the seek-complete and
start-next notifications and the marks that guard them). -/
@[simp] theorem base_play_l_run_notices (env : Env) (s : Player) :
    (startNextCount (PreviewPlayerBase.play_l_run env s).2.trace = startNextCount s.trace) ∧
    ((PreviewPlayerBase.play_l_run env s).2.mStartNextPlayer = s.mStartNextPlayer) := by
  refine ⟨?_, ?_⟩ <;> simp only [PreviewPlayerBase.play_l_run] <;> (repeat' split) <;> first | rfl | simp_all [renderOf, noteOf]

/-- What `PreviewPlayerBase.play_l_run` leaves unchanged (the abort mark and the seek state). -/
@[simp] theorem base_play_l_run_process (env : Env) (s : Player) :
    (PreviewPlayerBase.play_l_run env s).2.aborted = s.aborted := by
  simp only [PreviewPlayerBase.play_l_run] <;> (repeat' split) <;> first | rfl | simp_all [renderOf, noteOf]

/-- What `PreviewPlayerBase.play_l` leaves unchanged (settings, render calls, completion count,
flags). -/
@[simp] theorem base_play_l_frame (env : Env) (s : Player) :
    ((PreviewPlayerBase.play_l env s).2.cfg = s.cfg) ∧
    (renders (PreviewPlayerBase.play_l env s).2.trace = renders s.trace) ∧
    (playbackCompleteCount (PreviewPlayerBase.play_l env s).2.trace = playbackCompleteCount s.trace) := by
  refine ⟨?_, ?_, ?_⟩ <;> simp only [PreviewPlayerBase.play_l] <;> (repeat' split) <;> first | rfl | simp_all [renderOf, noteOf]

/-- What `PreviewPlayerBase.play_l` leaves unchanged (flags). -/
@[simp] theorem base_play_l_flags (env : Env) (s : Player) :
    ((PreviewPlayerBase.play_l env s).2.mFlags.CACHE_UNDERRUN = s.mFlags.CACHE_UNDERRUN) ∧
    ((PreviewPlayerBase.play_l env s).2.mFlags.LOOPING = s.mFlags.LOOPING) ∧
    ((PreviewPlayerBase.play_l env s).2.mFlags.AUTO_LOOPING = s.mFlags.AUTO_LOOPING) := by
  refine ⟨?_, ?_, ?_⟩ <;> simp only [PreviewPlayerBase.play_l] <;> (repeat' split) <;> first | rfl | simp_all [renderOf, noteOf]

/-- What `PreviewPlayerBase.play_l` leaves unchanged (the counts of the seek-complete and
start-next notifications and the marks that guard them). -/
@[simp] theorem base_play_l_notices (env : Env) (s : Player) :
    (startNextCount (PreviewPlayerBase.play_l env s).2.trace = startNextCount s.trace) ∧
    ((PreviewPlayerBase.play_l env s).2.mStartNextPlayer = s.mStartNextPlayer) := by
  refine ⟨?_, ?_⟩ <;> simp only [PreviewPlayerBase.play_l] <;> (repeat' split) <;> first | rfl | simp_all [renderOf, noteOf]

/-- What `PreviewPlayerBase.play_l` leaves unchanged (the abort mark and the seek state). -/
@[simp] theorem base_play_l_process (env : Env) (s : Player) :
    (PreviewPlayerBase.play_l env s).2.aborted = s.aborted := by
  simp only [PreviewPlayerBase.play_l] <;> (repeat' split) <;> first | rfl | simp_all [renderOf, noteOf]

/-- What `seekTo_l_underrun` leaves unchanged (settings, render calls, completion count, flags). -/
@[simp] theorem seekTo_l_underrun_frame (env : Env) (s : Player) :
    ((seekTo_l_underrun env s).cfg = s.cfg) ∧
    (renders (seekTo_l_underrun env s).trace = renders s.trace) ∧
    (playbackCompleteCount (seekTo_l_underrun env s).trace = playbackCompleteCount s.trace) := by
  refine ⟨?_, ?_, ?_⟩ <;> simp only [seekTo_l_underrun] <;> (repeat' split) <;> first | rfl | simp_all [renderOf, noteOf]

/-- What `seekTo_l_underrun` leaves unchanged (flags). -/
@[simp] theorem seekTo_l_underrun_flags (env : Env) (s : Player) :
    ((seekTo_l_underrun env s).mFlags.LOOPING = s.mFlags.LOOPING) ∧
    ((seekTo_l_underrun env s).mFlags.AUTO_LOOPING = s.mFlags.AUTO_LOOPING) := by
  refine ⟨?_, ?_⟩ <;> simp only [seekTo_l_underrun] <;> (repeat' split) <;> first | rfl | simp_all [renderOf, noteOf]

/-- What `seekTo_l_underrun` leaves unchanged (the counts of the seek-complete and start-next
notifications and the marks that guard them). -/
@[simp] theorem seekTo_l_underrun_notices (env : Env) (s : Player) :
    (startNextCount (seekTo_l_underrun env s).trace = startNextCount s.trace) ∧
    ((seekTo_l_underrun env s).mStartNextPlayer = s.mStartNextPlayer) := by
  refine ⟨?_, ?_⟩ <;> simp only [seekTo_l_underrun] <;> (repeat' split) <;> first | rfl | simp_all [renderOf, noteOf]

/-- What `seekTo_l_underrun` leaves unchanged (the abort mark and the seek state). -/
@[simp] theorem seekTo_l_underrun_process (env : Env) (s : Player) :
    (seekTo_l_underrun env s).aborted = s.aborted := by
  simp only [seekTo_l_underrun] <;> (repeat' split) <;> first | rfl | simp_all [renderOf, noteOf]

/-- What `seekTo_l` leaves unchanged (settings, render calls, completion count, flags). -/
@[simp] theorem seekTo_l_frame (env : Env) (timeUs : Int) (s : Player) :
    ((seekTo_l env timeUs s).2.cfg = s.cfg) ∧
    (renders (seekTo_l env timeUs s).2.trace = renders s.trace) ∧
    (playbackCompleteCount (seekTo_l env timeUs s).2.trace = playbackCompleteCount s.trace) := by
  refine ⟨?_, ?_, ?_⟩ <;> simp only [seekTo_l] <;> (repeat' split) <;> first | rfl | simp_all [renderOf, noteOf]

/-- What `seekTo_l` leaves unchanged (flags). -/
@[simp] theorem seekTo_l_flags (env : Env) (timeUs : Int) (s : Player) :
    ((seekTo_l env timeUs s).2.mFlags.LOOPING = s.mFlags.LOOPING) ∧
    ((seekTo_l env timeUs s).2.mFlags.AUTO_LOOPING = s.mFlags.AUTO_LOOPING) := by
  refine ⟨?_, ?_⟩ <;> simp only [seekTo_l] <;> (repeat' split) <;> first | rfl | simp_all [renderOf, noteOf]

/-- What `seekTo_l` leaves unchanged (the counts of the seek-complete and start-next notifications
and the marks that guard them). -/
@[simp] theorem seekTo_l_notices (env : Env) (timeUs : Int) (s : Player) :
    (startNextCount (seekTo_l env timeUs s).2.trace = startNextCount s.trace) ∧
    ((seekTo_l env timeUs s).2.mStartNextPlayer = s.mStartNextPlayer) := by
  refine ⟨?_, ?_⟩ <;> simp only [seekTo_l] <;> (repeat' split) <;> first | rfl | simp_all [renderOf, noteOf]

/-- What `seekTo_l` leaves unchanged (the abort mark and the seek state). -/
@[simp] theorem seekTo_l_process (env : Env) (timeUs : Int) (s : Player) :
    (seekTo_l env timeUs s).2.aborted = s.aborted := by
  simp only [seekTo_l] <;> (repeat' split) <;> first | rfl | simp_all [renderOf, noteOf]

/-- What `updateSizeToRender` leaves unchanged (settings, render calls, completion count, flags). -/
@[simp] theorem updateSizeToRender_frame (s : Player) :
    ((updateSizeToRender s).cfg = s.cfg) ∧
    (renders (updateSizeToRender s).trace = renders s.trace) ∧
    (playbackCompleteCount (updateSizeToRender s).trace = playbackCompleteCount s.trace) ∧
    ((updateSizeToRender s).mFlags = s.mFlags) := by
  refine ⟨?_, ?_, ?_, ?_⟩ <;> simp only [updateSizeToRender] <;> (repeat' split) <;> first | rfl | simp_all [renderOf, noteOf]

/-- What `updateSizeToRender` leaves unchanged (fields of the video loop). -/
@[simp] theorem updateSizeToRender_fields (s : Player) :
    ((updateSizeToRender s).mCurrentVideoEffect = s.mCurrentVideoEffect) ∧
    ((updateSizeToRender s).mVideoRenderer = s.mVideoRenderer) ∧
    ((updateSizeToRender s).mVideoBuffer = s.mVideoBuffer) ∧
    ((updateSizeToRender s).mSeeking = s.mSeeking) ∧
    ((updateSizeToRender s).mSeekTimeUs = s.mSeekTimeUs) ∧
    ((updateSizeToRender s).mIsVideoSourceJpg = s.mIsVideoSourceJpg) ∧
    ((updateSizeToRender s).mVideoEventPending = s.mVideoEventPending) ∧
    ((updateSizeToRender s).mStreamDoneEventPending = s.mStreamDoneEventPending) := by
  refine ⟨?_, ?_, ?_, ?_, ?_, ?_, ?_, ?_⟩ <;> simp only [updateSizeToRender] <;> (repeat' split) <;> first | rfl | simp_all [renderOf, noteOf]

/-- What `updateSizeToRender` leaves unchanged (sources, clock and pending marks). -/
@[simp] theorem updateSizeToRender_wiring (s : Player) :
    ((updateSizeToRender s).mStreamDoneStatus = s.mStreamDoneStatus) ∧
    ((updateSizeToRender s).mAudioPlayer = s.mAudioPlayer) ∧
    ((updateSizeToRender s).mAudioSource = s.mAudioSource) ∧
    ((updateSizeToRender s).mVideoSource = s.mVideoSource) ∧
    ((updateSizeToRender s).mTimeSource = s.mTimeSource) ∧
    ((updateSizeToRender s).mTimeSourceDeltaUs = s.mTimeSourceDeltaUs) ∧
    ((updateSizeToRender s).mOverlayUpdateEventPosted = s.mOverlayUpdateEventPosted) := by
  refine ⟨?_, ?_, ?_, ?_, ?_, ?_, ?_⟩ <;> simp only [updateSizeToRender] <;> (repeat' split) <;> first | rfl | simp_all [renderOf, noteOf]

/-- What `updateSizeToRender` leaves unchanged (the counts of the seek-complete and start-next
notifications and the marks that guard them). -/
@[simp] theorem updateSizeToRender_notices (s : Player) :
    (seekCompleteCount (updateSizeToRender s).trace = seekCompleteCount s.trace) ∧
    ((updateSizeToRender s).mSeekNotificationSent = s.mSeekNotificationSent) ∧
    (startNextCount (updateSizeToRender s).trace = startNextCount s.trace) ∧
    ((updateSizeToRender s).mStartNextPlayer = s.mStartNextPlayer) := by
  refine ⟨?_, ?_, ?_, ?_⟩ <;> simp only [updateSizeToRender] <;> (repeat' split) <;> first | rfl | simp_all [renderOf, noteOf]

/-- What `updateSizeToRender` leaves unchanged (the abort mark and the seek state). -/
@[simp] theorem updateSizeToRender_process (s : Player) :
    ((updateSizeToRender s).aborted = s.aborted) ∧
    ((updateSizeToRender s).mSeeking = s.mSeeking) := by
  refine ⟨?_, ?_⟩ <;> simp only [updateSizeToRender] <;> (repeat' split) <;> first | rfl | simp_all [renderOf, noteOf]

/-- What `initRenderer_l` leaves unchanged (settings, render calls, completion count, flags). -/
@[simp] theorem initRenderer_l_frame (s : Player) :
    ((initRenderer_l s).cfg = s.cfg) ∧
    (renders (initRenderer_l s).trace = renders s.trace) ∧
    (playbackCompleteCount (initRenderer_l s).trace = playbackCompleteCount s.trace) ∧
    ((initRenderer_l s).mFlags = s.mFlags) := by
  refine ⟨?_, ?_, ?_, ?_⟩ <;> simp only [initRenderer_l] <;> (repeat' split) <;> first | rfl | simp_all [renderOf, noteOf]

/-- What `initRenderer_l` leaves unchanged (fields of the video loop). -/
@[simp] theorem initRenderer_l_fields (s : Player) :
    ((initRenderer_l s).mCurrentVideoEffect = s.mCurrentVideoEffect) ∧
    ((initRenderer_l s).mVideoBuffer = s.mVideoBuffer) ∧
    ((initRenderer_l s).mSeeking = s.mSeeking) ∧
    ((initRenderer_l s).mSeekTimeUs = s.mSeekTimeUs) ∧
    ((initRenderer_l s).mIsVideoSourceJpg = s.mIsVideoSourceJpg) ∧
    ((initRenderer_l s).mVideoEventPending = s.mVideoEventPending) ∧
    ((initRenderer_l s).mStreamDoneEventPending = s.mStreamDoneEventPending) := by
  refine ⟨?_, ?_, ?_, ?_, ?_, ?_, ?_⟩ <;> simp only [initRenderer_l] <;> (repeat' split) <;> first | rfl | simp_all [renderOf, noteOf]

/-- What `initRenderer_l` leaves unchanged (sources, clock and pending marks). -/
@[simp] theorem initRenderer_l_wiring (s : Player) :
    ((initRenderer_l s).mStreamDoneStatus = s.mStreamDoneStatus) ∧
    ((initRenderer_l s).mAudioPlayer = s.mAudioPlayer) ∧
    ((initRenderer_l s).mAudioSource = s.mAudioSource) ∧
    ((initRenderer_l s).mVideoSource = s.mVideoSource) ∧
    ((initRenderer_l s).mTimeSource = s.mTimeSource) ∧
    ((initRenderer_l s).mTimeSourceDeltaUs = s.mTimeSourceDeltaUs) ∧
    ((initRenderer_l s).mOverlayUpdateEventPosted = s.mOverlayUpdateEventPosted) := by
  refine ⟨?_, ?_, ?_, ?_, ?_, ?_, ?_⟩ <;> simp only [initRenderer_l] <;> (repeat' split) <;> first | rfl | simp_all [renderOf, noteOf]

/-- What `initRenderer_l` leaves unchanged (the counts of the seek-complete and start-next
notifications and the marks that guard them). -/
@[simp] theorem initRenderer_l_notices (s : Player) :
    (seekCompleteCount (initRenderer_l s).trace = seekCompleteCount s.trace) ∧
    ((initRenderer_l s).mSeekNotificationSent = s.mSeekNotificationSent) ∧
    (startNextCount (initRenderer_l s).trace = startNextCount s.trace) ∧
    ((initRenderer_l s).mStartNextPlayer = s.mStartNextPlayer) := by
  refine ⟨?_, ?_, ?_, ?_⟩ <;> simp only [initRenderer_l] <;> (repeat' split) <;> first | rfl | simp_all [renderOf, noteOf]

/-- What `initRenderer_l` leaves unchanged (the abort mark and the seek state). -/
@[simp] theorem initRenderer_l_process (s : Player) :
    ((initRenderer_l s).aborted = s.aborted) ∧
    ((initRenderer_l s).mSeeking = s.mSeeking) := by
  refine ⟨?_, ?_⟩ <;> simp only [initRenderer_l] <;> (repeat' split) <;> first | rfl | simp_all [renderOf, noteOf]

/-- What `setVideoPostProcessingNode` leaves unchanged (settings, render calls, completion count,
flags). -/
@[simp] theorem setVideoPostProcessingNode_frame (type : VideoEffectType) (enable : Bool) (s : Player) :
    ((setVideoPostProcessingNode type enable s).cfg = s.cfg) ∧
    (renders (setVideoPostProcessingNode type enable s).trace = renders s.trace) ∧
    (playbackCompleteCount (setVideoPostProcessingNode type enable s).trace = playbackCompleteCount s.trace) ∧
    ((setVideoPostProcessingNode type enable s).mFlags = s.mFlags) := by
  refine ⟨?_, ?_, ?_, ?_⟩ <;> simp only [setVideoPostProcessingNode] <;> (repeat' split) <;> first | rfl | simp_all [renderOf, noteOf]

/-- What `setVideoPostProcessingNode` leaves unchanged (fields of the video loop). -/
@[simp] theorem setVideoPostProcessingNode_fields (type : VideoEffectType) (enable : Bool) (s : Player) :
    ((setVideoPostProcessingNode type enable s).mVideoRenderer = s.mVideoRenderer) ∧
    ((setVideoPostProcessingNode type enable s).mVideoBuffer = s.mVideoBuffer) ∧
    ((setVideoPostProcessingNode type enable s).mSeeking = s.mSeeking) ∧
    ((setVideoPostProcessingNode type enable s).mSeekTimeUs = s.mSeekTimeUs) ∧
    ((setVideoPostProcessingNode type enable s).mIsVideoSourceJpg = s.mIsVideoSourceJpg) ∧
    ((setVideoPostProcessingNode type enable s).mVideoEventPending = s.mVideoEventPending) ∧
    ((setVideoPostProcessingNode type enable s).mStreamDoneEventPending = s.mStreamDoneEventPending) := by
  refine ⟨?_, ?_, ?_, ?_, ?_, ?_, ?_⟩ <;> simp only [setVideoPostProcessingNode] <;> (repeat' split) <;> first | rfl | simp_all [renderOf, noteOf]

/-- What `setVideoPostProcessingNode` leaves unchanged (sources, clock and pending marks). -/
@[simp] theorem setVideoPostProcessingNode_wiring (type : VideoEffectType) (enable : Bool) (s : Player) :
    ((setVideoPostProcessingNode type enable s).mStreamDoneStatus = s.mStreamDoneStatus) ∧
    ((setVideoPostProcessingNode type enable s).mAudioPlayer = s.mAudioPlayer) ∧
    ((setVideoPostProcessingNode type enable s).mAudioSource = s.mAudioSource) ∧
    ((setVideoPostProcessingNode type enable s).mVideoSource = s.mVideoSource) ∧
    ((setVideoPostProcessingNode type enable s).mTimeSource = s.mTimeSource) ∧
    ((setVideoPostProcessingNode type enable s).mTimeSourceDeltaUs = s.mTimeSourceDeltaUs) ∧
    ((setVideoPostProcessingNode type enable s).mOverlayUpdateEventPosted = s.mOverlayUpdateEventPosted) := by
  refine ⟨?_, ?_, ?_, ?_, ?_, ?_, ?_⟩ <;> simp only [setVideoPostProcessingNode] <;> (repeat' split) <;> first | rfl | simp_all [renderOf, noteOf]

/-- What `setVideoPostProcessingNode` leaves unchanged (the counts of the seek-complete and
start-next notifications and the marks that guard them). -/
@[simp] theorem setVideoPostProcessingNode_notices (type : VideoEffectType) (enable : Bool) (s : Player) :
    (seekCompleteCount (setVideoPostProcessingNode type enable s).trace = seekCompleteCount s.trace) ∧
    ((setVideoPostProcessingNode type enable s).mSeekNotificationSent = s.mSeekNotificationSent) ∧
    (startNextCount (setVideoPostProcessingNode type enable s).trace = startNextCount s.trace) ∧
    ((setVideoPostProcessingNode type enable s).mStartNextPlayer = s.mStartNextPlayer) := by
  refine ⟨?_, ?_, ?_, ?_⟩ <;> simp only [setVideoPostProcessingNode] <;> (repeat' split) <;> first | rfl | simp_all [renderOf, noteOf]

/-- What `setVideoPostProcessingNode` leaves unchanged (the abort mark and the seek state). -/
@[simp] theorem setVideoPostProcessingNode_process (type : VideoEffectType) (enable : Bool) (s : Player) :
    ((setVideoPostProcessingNode type enable s).aborted = s.aborted) ∧
    ((setVideoPostProcessingNode type enable s).mSeeking = s.mSeeking) := by
  refine ⟨?_, ?_⟩ <;> simp only [setVideoPostProcessingNode] <;> (repeat' split) <;> first | rfl | simp_all [renderOf, noteOf]

/-- What `startAudioPlayer_l` leaves unchanged (settings, render calls, completion count, flags). -/
@[simp] theorem startAudioPlayer_l_frame (env : Env) (s : Player) :
    ((startAudioPlayer_l env s).2.cfg = s.cfg) ∧
    (renders (startAudioPlayer_l env s).2.trace = renders s.trace) ∧
    (playbackCompleteCount (startAudioPlayer_l env s).2.trace = playbackCompleteCount s.trace) := by
  refine ⟨?_, ?_, ?_⟩ <;> simp only [startAudioPlayer_l] <;> (repeat' split) <;> first | rfl | simp_all [renderOf, noteOf]

/-- What `startAudioPlayer_l` leaves unchanged (flags). -/
@[simp] theorem startAudioPlayer_l_flags (env : Env) (s : Player) :
    ((startAudioPlayer_l env s).2.mFlags.PLAYING = s.mFlags.PLAYING) ∧
    ((startAudioPlayer_l env s).2.mFlags.AT_EOS = s.mFlags.AT_EOS) ∧
    ((startAudioPlayer_l env s).2.mFlags.INFORMED_AV_EOS = s.mFlags.INFORMED_AV_EOS) ∧
    ((startAudioPlayer_l env s).2.mFlags.CACHE_UNDERRUN = s.mFlags.CACHE_UNDERRUN) ∧
    ((startAudioPlayer_l env s).2.mFlags.LOOPING = s.mFlags.LOOPING) ∧
    ((startAudioPlayer_l env s).2.mFlags.AUTO_LOOPING = s.mFlags.AUTO_LOOPING) ∧
    ((startAudioPlayer_l env s).2.mFlags.VIDEO_AT_EOS = s.mFlags.VIDEO_AT_EOS) ∧
    ((startAudioPlayer_l env s).2.mFlags.AUDIO_AT_EOS = s.mFlags.AUDIO_AT_EOS) ∧
    ((startAudioPlayer_l env s).2.mFlags.FIRST_FRAME = s.mFlags.FIRST_FRAME) ∧
    ((startAudioPlayer_l env s).2.mFlags.SEEK_PREVIEW = s.mFlags.SEEK_PREVIEW) := by
  refine ⟨?_, ?_, ?_, ?_, ?_, ?_, ?_, ?_, ?_, ?_⟩ <;> simp only [startAudioPlayer_l] <;> (repeat' split) <;> first | rfl | simp_all [renderOf, noteOf]

/-- What `startAudioPlayer_l` leaves unchanged (fields of the video loop). -/
@[simp] theorem startAudioPlayer_l_fields (env : Env) (s : Player) :
    ((startAudioPlayer_l env s).2.mCurrentVideoEffect = s.mCurrentVideoEffect) ∧
    ((startAudioPlayer_l env s).2.mVideoRenderer = s.mVideoRenderer) ∧
    ((startAudioPlayer_l env s).2.mVideoBuffer = s.mVideoBuffer) ∧
    ((startAudioPlayer_l env s).2.mSeeking = s.mSeeking) ∧
    ((startAudioPlayer_l env s).2.mSeekTimeUs = s.mSeekTimeUs) ∧
    ((startAudioPlayer_l env s).2.mIsVideoSourceJpg = s.mIsVideoSourceJpg) ∧
    ((startAudioPlayer_l env s).2.mVideoEventPending = s.mVideoEventPending) ∧
    ((startAudioPlayer_l env s).2.mStreamDoneEventPending = s.mStreamDoneEventPending) := by
  refine ⟨?_, ?_, ?_, ?_, ?_, ?_, ?_, ?_⟩ <;> simp only [startAudioPlayer_l] <;> (repeat' split) <;> first | rfl | simp_all [renderOf, noteOf]

/-- What `startAudioPlayer_l` leaves unchanged (sources, clock and pending marks). -/
@[simp] theorem startAudioPlayer_l_wiring (env : Env) (s : Player) :
    ((startAudioPlayer_l env s).2.mStreamDoneStatus = s.mStreamDoneStatus) ∧
    ((startAudioPlayer_l env s).2.mAudioPlayer = s.mAudioPlayer) ∧
    ((startAudioPlayer_l env s).2.mAudioSource = s.mAudioSource) ∧
    ((startAudioPlayer_l env s).2.mVideoSource = s.mVideoSource) ∧
    ((startAudioPlayer_l env s).2.mTimeSource = s.mTimeSource) ∧
    ((startAudioPlayer_l env s).2.mTimeSourceDeltaUs = s.mTimeSourceDeltaUs) ∧
    ((startAudioPlayer_l env s).2.mOverlayUpdateEventPosted = s.mOverlayUpdateEventPosted) := by
  refine ⟨?_, ?_, ?_, ?_, ?_, ?_, ?_⟩ <;> simp only [startAudioPlayer_l] <;> (repeat' split) <;> first | rfl | simp_all [renderOf, noteOf]

/-- What `startAudioPlayer_l` leaves unchanged (the counts of the seek-complete and start-next
notifications and the marks that guard them). -/
@[simp] theorem startAudioPlayer_l_notices (env : Env) (s : Player) :
    (seekCompleteCount (startAudioPlayer_l env s).2.trace = seekCompleteCount s.trace) ∧
    ((startAudioPlayer_l env s).2.mSeekNotificationSent = s.mSeekNotificationSent) ∧
    (startNextCount (startAudioPlayer_l env s).2.trace = startNextCount s.trace) ∧
    ((startAudioPlayer_l env s).2.mStartNextPlayer = s.mStartNextPlayer) := by
  refine ⟨?_, ?_, ?_, ?_⟩ <;> simp only [startAudioPlayer_l] <;> (repeat' split) <;> first | rfl | simp_all [renderOf, noteOf]

/-- What `startAudioPlayer_l` leaves unchanged (the abort mark and the seek state). -/
@[simp] theorem startAudioPlayer_l_process (env : Env) (s : Player) :
    ((startAudioPlayer_l env s).2.aborted = s.aborted) ∧
    ((startAudioPlayer_l env s).2.mSeeking = s.mSeeking) := by
  refine ⟨?_, ?_⟩ <;> simp only [startAudioPlayer_l] <;> (repeat' split) <;> first | rfl | simp_all [renderOf, noteOf]

/-- What `setAudioPlayer_attach` leaves unchanged (settings, render calls, completion count,
flags). -/
@[simp] theorem setAudioPlayer_attach_frame (audioPlayer : AudioPlayer) (s : Player) :
    ((setAudioPlayer_attach audioPlayer s).2.cfg = s.cfg) ∧
    (renders (setAudioPlayer_attach audioPlayer s).2.trace = renders s.trace) ∧
    (playbackCompleteCount (setAudioPlayer_attach audioPlayer s).2.trace = playbackCompleteCount s.trace) ∧
    ((setAudioPlayer_attach audioPlayer s).2.mFlags = s.mFlags) := by
  refine ⟨?_, ?_, ?_, ?_⟩ <;> simp only [setAudioPlayer_attach] <;> (repeat' split) <;> first | rfl | simp_all [renderOf, noteOf]

/-- What `setAudioPlayer_attach` leaves unchanged (the counts of the seek-complete and start-next
notifications and the marks that guard them). -/
@[simp] theorem setAudioPlayer_attach_notices (audioPlayer : AudioPlayer) (s : Player) :
    (seekCompleteCount (setAudioPlayer_attach audioPlayer s).2.trace = seekCompleteCount s.trace) ∧
    ((setAudioPlayer_attach audioPlayer s).2.mSeekNotificationSent = s.mSeekNotificationSent) ∧
    (startNextCount (setAudioPlayer_attach audioPlayer s).2.trace = startNextCount s.trace) ∧
    ((setAudioPlayer_attach audioPlayer s).2.mStartNextPlayer = s.mStartNextPlayer) := by
  refine ⟨?_, ?_, ?_, ?_⟩ <;> simp only [setAudioPlayer_attach] <;> (repeat' split) <;> first | rfl | simp_all [renderOf, noteOf]

/-- What `setAudioPlayer_attach` leaves unchanged (the abort mark and the seek state). -/
@[simp] theorem setAudioPlayer_attach_process (audioPlayer : AudioPlayer) (s : Player) :
    ((setAudioPlayer_attach audioPlayer s).2.aborted = s.aborted) ∧
    ((setAudioPlayer_attach audioPlayer s).2.mSeeking = s.mSeeking) := by
  refine ⟨?_, ?_⟩ <;> simp only [setAudioPlayer_attach] <;> (repeat' split) <;> first | rfl | simp_all [renderOf, noteOf]

/-- What `setAudioPlayer` leaves unchanged (settings, render calls, completion count, flags). -/
@[simp] theorem setAudioPlayer_frame (audioPlayer : AudioPlayer) (s : Player) :
    ((setAudioPlayer audioPlayer s).2.cfg = s.cfg) ∧
    (renders (setAudioPlayer audioPlayer s).2.trace = renders s.trace) ∧
    (playbackCompleteCount (setAudioPlayer audioPlayer s).2.trace = playbackCompleteCount s.trace) ∧
    ((setAudioPlayer audioPlayer s).2.mFlags = s.mFlags) := by
  refine ⟨?_, ?_, ?_, ?_⟩ <;> simp only [setAudioPlayer] <;> (repeat' split) <;> first | rfl | simp_all [renderOf, noteOf]

/-- What `setAudioPlayer` leaves unchanged (the counts of the seek-complete and start-next
notifications and the marks that guard them). -/
@[simp] theorem setAudioPlayer_notices (audioPlayer : AudioPlayer) (s : Player) :
    (seekCompleteCount (setAudioPlayer audioPlayer s).2.trace = seekCompleteCount s.trace) ∧
    ((setAudioPlayer audioPlayer s).2.mSeekNotificationSent = s.mSeekNotificationSent) ∧
    (startNextCount (setAudioPlayer audioPlayer s).2.trace = startNextCount s.trace) ∧
    ((setAudioPlayer audioPlayer s).2.mStartNextPlayer = s.mStartNextPlayer) := by
  refine ⟨?_, ?_, ?_, ?_⟩ <;> simp only [setAudioPlayer] <;> (repeat' split) <;> first | rfl | simp_all [renderOf, noteOf]

/-- What `setAudioPlayer` leaves unchanged (the abort mark and the seek state). -/
@[simp] theorem setAudioPlayer_process (audioPlayer : AudioPlayer) (s : Player) :
    (setAudioPlayer audioPlayer s).2.mSeeking = s.mSeeking := by
  simp only [setAudioPlayer] <;> (repeat' split) <;> first | rfl | simp_all [renderOf, noteOf]

/-- What `onStreamDone_error` leaves unchanged (settings, render calls, completion count, flags). -/
@[simp] theorem onStreamDone_error_frame (s : Player) :
    ((onStreamDone_error s).cfg = s.cfg) ∧
    (renders (onStreamDone_error s).trace = renders s.trace) ∧
    (playbackCompleteCount (onStreamDone_error s).trace = playbackCompleteCount s.trace) := by
  refine ⟨?_, ?_, ?_⟩ <;> simp only [onStreamDone_error] <;> (repeat' split) <;> first | rfl | simp_all [renderOf, noteOf]

/-- What `onStreamDone_error` leaves unchanged (flags). -/
@[simp] theorem onStreamDone_error_flags (s : Player) :
    ((onStreamDone_error s).mFlags.INFORMED_AV_EOS = s.mFlags.INFORMED_AV_EOS) ∧
    ((onStreamDone_error s).mFlags.CACHE_UNDERRUN = s.mFlags.CACHE_UNDERRUN) ∧
    ((onStreamDone_error s).mFlags.LOOPING = s.mFlags.LOOPING) ∧
    ((onStreamDone_error s).mFlags.AUTO_LOOPING = s.mFlags.AUTO_LOOPING) ∧
    ((onStreamDone_error s).mFlags.VIDEO_AT_EOS = s.mFlags.VIDEO_AT_EOS) ∧
    ((onStreamDone_error s).mFlags.AUDIO_AT_EOS = s.mFlags.AUDIO_AT_EOS) ∧
    ((onStreamDone_error s).mFlags.FIRST_FRAME = s.mFlags.FIRST_FRAME) ∧
    ((onStreamDone_error s).mFlags.SEEK_PREVIEW = s.mFlags.SEEK_PREVIEW) := by
  refine ⟨?_, ?_, ?_, ?_, ?_, ?_, ?_, ?_⟩ <;> simp only [onStreamDone_error] <;> (repeat' split) <;> first | rfl | simp_all [renderOf, noteOf]

/-- What `onStreamDone_error` leaves unchanged (fields of the video loop). -/
@[simp] theorem onStreamDone_error_fields (s : Player) :
    ((onStreamDone_error s).mCurrentVideoEffect = s.mCurrentVideoEffect) ∧
    ((onStreamDone_error s).mVideoRenderer = s.mVideoRenderer) ∧
    ((onStreamDone_error s).mVideoBuffer = s.mVideoBuffer) ∧
    ((onStreamDone_error s).mSeeking = s.mSeeking) ∧
    ((onStreamDone_error s).mSeekTimeUs = s.mSeekTimeUs) ∧
    ((onStreamDone_error s).mIsVideoSourceJpg = s.mIsVideoSourceJpg) := by
  refine ⟨?_, ?_, ?_, ?_, ?_, ?_⟩ <;> simp only [onStreamDone_error] <;> (repeat' split) <;> first | rfl | simp_all [renderOf, noteOf]

/-- What `onStreamDone_error` leaves unchanged (sources, clock and pending marks). -/
@[simp] theorem onStreamDone_error_wiring (s : Player) :
    ((onStreamDone_error s).mStreamDoneStatus = s.mStreamDoneStatus) ∧
    ((onStreamDone_error s).mAudioPlayer = s.mAudioPlayer) ∧
    ((onStreamDone_error s).mAudioSource = s.mAudioSource) ∧
    ((onStreamDone_error s).mVideoSource = s.mVideoSource) ∧
    ((onStreamDone_error s).mTimeSource = s.mTimeSource) ∧
    ((onStreamDone_error s).mTimeSourceDeltaUs = s.mTimeSourceDeltaUs) ∧
    ((onStreamDone_error s).mOverlayUpdateEventPosted = s.mOverlayUpdateEventPosted) := by
  refine ⟨?_, ?_, ?_, ?_, ?_, ?_, ?_⟩ <;> simp only [onStreamDone_error] <;> (repeat' split) <;> first | rfl | simp_all [renderOf, noteOf]

/-- What `onStreamDone_error` leaves unchanged (the counts of the seek-complete and start-next
notifications and the marks that guard them). -/
@[simp] theorem onStreamDone_error_notices (s : Player) :
    (seekCompleteCount (onStreamDone_error s).trace = seekCompleteCount s.trace) ∧
    ((onStreamDone_error s).mSeekNotificationSent = s.mSeekNotificationSent) ∧
    (startNextCount (onStreamDone_error s).trace = startNextCount s.trace) ∧
    ((onStreamDone_error s).mStartNextPlayer = s.mStartNextPlayer) := by
  refine ⟨?_, ?_, ?_, ?_⟩ <;> simp only [onStreamDone_error] <;> (repeat' split) <;> first | rfl | simp_all [renderOf, noteOf]

/-- What `onStreamDone_error` leaves unchanged (the abort mark and the seek state). -/
@[simp] theorem onStreamDone_error_process (s : Player) :
    ((onStreamDone_error s).aborted = s.aborted) ∧
    ((onStreamDone_error s).mSeeking = s.mSeeking) := by
  refine ⟨?_, ?_⟩ <;> simp only [onStreamDone_error] <;> (repeat' split) <;> first | rfl | simp_all [renderOf, noteOf]

/-- What `onStreamDone_loop` leaves unchanged (settings, render calls, completion count, flags). -/
@[simp] theorem onStreamDone_loop_frame (env : Env) (s : Player) :
    ((onStreamDone_loop env s).cfg = s.cfg) ∧
    (renders (onStreamDone_loop env s).trace = renders s.trace) ∧
    (playbackCompleteCount (onStreamDone_loop env s).trace = playbackCompleteCount s.trace) := by
  refine ⟨?_, ?_, ?_⟩ <;> simp only [onStreamDone_loop] <;> (repeat' split) <;> first | rfl | simp_all [renderOf, noteOf]

/-- What `onStreamDone_loop` leaves unchanged (flags). -/
@[simp] theorem onStreamDone_loop_flags (env : Env) (s : Player) :
    ((onStreamDone_loop env s).mFlags.LOOPING = s.mFlags.LOOPING) ∧
    ((onStreamDone_loop env s).mFlags.AUTO_LOOPING = s.mFlags.AUTO_LOOPING) := by
  refine ⟨?_, ?_⟩ <;> simp only [onStreamDone_loop] <;> (repeat' split) <;> first | rfl | simp_all [renderOf, noteOf]

/-- What `onStreamDone_loop` leaves unchanged (the counts of the seek-complete and start-next
notifications and the marks that guard them). -/
@[simp] theorem onStreamDone_loop_notices (env : Env) (s : Player) :
    (startNextCount (onStreamDone_loop env s).trace = startNextCount s.trace) ∧
    ((onStreamDone_loop env s).mStartNextPlayer = s.mStartNextPlayer) := by
  refine ⟨?_, ?_⟩ <;> simp only [onStreamDone_loop] <;> (repeat' split) <;> first | rfl | simp_all [renderOf, noteOf]

/-- What `onStreamDone_loop` leaves unchanged (the abort mark and the seek state). -/
@[simp] theorem onStreamDone_loop_process (env : Env) (s : Player) :
    (onStreamDone_loop env s).aborted = s.aborted := by
  simp only [onStreamDone_loop] <;> (repeat' split) <;> first | rfl | simp_all [renderOf, noteOf]

/-- What `onStreamDone_inform` leaves unchanged (settings, render calls, completion count, flags).
-/
@[simp] theorem onStreamDone_inform_frame (s : Player) :
    ((onStreamDone_inform s).cfg = s.cfg) ∧
    (renders (onStreamDone_inform s).trace = renders s.trace) := by
  refine ⟨?_, ?_⟩ <;> simp only [onStreamDone_inform] <;> (repeat' split) <;> first | rfl | simp_all [renderOf, noteOf]

/-- What `onStreamDone_inform` leaves unchanged (flags). -/
@[simp] theorem onStreamDone_inform_flags (s : Player) :
    ((onStreamDone_inform s).mFlags.PLAYING = s.mFlags.PLAYING) ∧
    ((onStreamDone_inform s).mFlags.CACHE_UNDERRUN = s.mFlags.CACHE_UNDERRUN) ∧
    ((onStreamDone_inform s).mFlags.LOOPING = s.mFlags.LOOPING) ∧
    ((onStreamDone_inform s).mFlags.AUTO_LOOPING = s.mFlags.AUTO_LOOPING) ∧
    ((onStreamDone_inform s).mFlags.VIDEO_AT_EOS = s.mFlags.VIDEO_AT_EOS) ∧
    ((onStreamDone_inform s).mFlags.AUDIO_AT_EOS = s.mFlags.AUDIO_AT_EOS) ∧
    ((onStreamDone_inform s).mFlags.FIRST_FRAME = s.mFlags.FIRST_FRAME) ∧
    ((onStreamDone_inform s).mFlags.SEEK_PREVIEW = s.mFlags.SEEK_PREVIEW) ∧
    ((onStreamDone_inform s).mFlags.AUDIO_RUNNING = s.mFlags.AUDIO_RUNNING) := by
  refine ⟨?_, ?_, ?_, ?_, ?_, ?_, ?_, ?_, ?_⟩ <;> simp only [onStreamDone_inform] <;> (repeat' split) <;> first | rfl | simp_all [renderOf, noteOf]

/-- What `onStreamDone_inform` leaves unchanged (fields of the video loop). -/
@[simp] theorem onStreamDone_inform_fields (s : Player) :
    ((onStreamDone_inform s).mCurrentVideoEffect = s.mCurrentVideoEffect) ∧
    ((onStreamDone_inform s).mVideoRenderer = s.mVideoRenderer) ∧
    ((onStreamDone_inform s).mVideoBuffer = s.mVideoBuffer) ∧
    ((onStreamDone_inform s).mSeeking = s.mSeeking) ∧
    ((onStreamDone_inform s).mSeekTimeUs = s.mSeekTimeUs) ∧
    ((onStreamDone_inform s).mIsVideoSourceJpg = s.mIsVideoSourceJpg) ∧
    ((onStreamDone_inform s).mVideoEventPending = s.mVideoEventPending) ∧
    ((onStreamDone_inform s).mStreamDoneEventPending = s.mStreamDoneEventPending) := by
  refine ⟨?_, ?_, ?_, ?_, ?_, ?_, ?_, ?_⟩ <;> simp only [onStreamDone_inform] <;> (repeat' split) <;> first | rfl | simp_all [renderOf, noteOf]

/-- What `onStreamDone_inform` leaves unchanged (sources, clock and pending marks). -/
@[simp] theorem onStreamDone_inform_wiring (s : Player) :
    ((onStreamDone_inform s).mStreamDoneStatus = s.mStreamDoneStatus) ∧
    ((onStreamDone_inform s).mAudioPlayer = s.mAudioPlayer) ∧
    ((onStreamDone_inform s).mAudioSource = s.mAudioSource) ∧
    ((onStreamDone_inform s).mVideoSource = s.mVideoSource) ∧
    ((onStreamDone_inform s).mTimeSource = s.mTimeSource) ∧
    ((onStreamDone_inform s).mTimeSourceDeltaUs = s.mTimeSourceDeltaUs) ∧
    ((onStreamDone_inform s).mOverlayUpdateEventPosted = s.mOverlayUpdateEventPosted) := by
  refine ⟨?_, ?_, ?_, ?_, ?_, ?_, ?_⟩ <;> simp only [onStreamDone_inform] <;> (repeat' split) <;> first | rfl | simp_all [renderOf, noteOf]

/-- What `onStreamDone_inform` leaves unchanged (the counts of the seek-complete and start-next
notifications and the marks that guard them). -/
@[simp] theorem onStreamDone_inform_notices (s : Player) :
    (seekCompleteCount (onStreamDone_inform s).trace = seekCompleteCount s.trace) ∧
    ((onStreamDone_inform s).mSeekNotificationSent = s.mSeekNotificationSent) ∧
    (startNextCount (onStreamDone_inform s).trace = startNextCount s.trace) ∧
    ((onStreamDone_inform s).mStartNextPlayer = s.mStartNextPlayer) := by
  refine ⟨?_, ?_, ?_, ?_⟩ <;> simp only [onStreamDone_inform] <;> (repeat' split) <;> first | rfl | simp_all [renderOf, noteOf]

/-- What `onStreamDone_inform` leaves unchanged (the abort mark and the seek state). -/
@[simp] theorem onStreamDone_inform_process (s : Player) :
    ((onStreamDone_inform s).aborted = s.aborted) ∧
    ((onStreamDone_inform s).mSeeking = s.mSeeking) := by
  refine ⟨?_, ?_⟩ <;> simp only [onStreamDone_inform] <;> (repeat' split) <;> first | rfl | simp_all [renderOf, noteOf]

/-- What `onStreamDone_fire` leaves unchanged (settings, render calls, completion count, flags). -/
@[simp] theorem onStreamDone_fire_frame (env : Env) (s : Player) :
    ((onStreamDone_fire env s).cfg = s.cfg) ∧
    (renders (onStreamDone_fire env s).trace = renders s.trace) := by
  refine ⟨?_, ?_⟩ <;> simp only [onStreamDone_fire] <;> (repeat' split) <;> first | rfl | simp_all [renderOf, noteOf]

/-- What `onStreamDone_fire` leaves unchanged (flags). -/
@[simp] theorem onStreamDone_fire_flags (env : Env) (s : Player) :
    ((onStreamDone_fire env s).mFlags.LOOPING = s.mFlags.LOOPING) ∧
    ((onStreamDone_fire env s).mFlags.AUTO_LOOPING = s.mFlags.AUTO_LOOPING) := by
  refine ⟨?_, ?_⟩ <;> simp only [onStreamDone_fire] <;> (repeat' split) <;> first | rfl | simp_all [renderOf, noteOf]

/-- What `onStreamDone_fire` leaves unchanged (the counts of the seek-complete and start-next
notifications and the marks that guard them). -/
@[simp] theorem onStreamDone_fire_notices (env : Env) (s : Player) :
    (startNextCount (onStreamDone_fire env s).trace = startNextCount s.trace) ∧
    ((onStreamDone_fire env s).mStartNextPlayer = s.mStartNextPlayer) := by
  refine ⟨?_, ?_⟩ <;> simp only [onStreamDone_fire] <;> (repeat' split) <;> first | rfl | simp_all [renderOf, noteOf]

/-- What `onStreamDone_fire` leaves unchanged (the abort mark and the seek state). -/
@[simp] theorem onStreamDone_fire_process (env : Env) (s : Player) :
    (onStreamDone_fire env s).aborted = s.aborted := by
  simp only [onStreamDone_fire] <;> (repeat' split) <;> first | rfl | simp_all [renderOf, noteOf]

/-- What `onStreamDone` leaves unchanged (settings, render calls, completion count, flags). -/
@[simp] theorem onStreamDone_frame (env : Env) (s : Player) :
    ((onStreamDone env s).cfg = s.cfg) ∧
    (renders (onStreamDone env s).trace = renders s.trace) := by
  refine ⟨?_, ?_⟩ <;> simp only [onStreamDone] <;> (repeat' split) <;> first | rfl | simp_all [renderOf, noteOf]

/-- What `onStreamDone` leaves unchanged (flags). -/
@[simp] theorem onStreamDone_flags (env : Env) (s : Player) :
    ((onStreamDone env s).mFlags.LOOPING = s.mFlags.LOOPING) ∧
    ((onStreamDone env s).mFlags.AUTO_LOOPING = s.mFlags.AUTO_LOOPING) := by
  refine ⟨?_, ?_⟩ <;> simp only [onStreamDone] <;> (repeat' split) <;> first | rfl | simp_all [renderOf, noteOf]

/-- What `onStreamDone` leaves unchanged (the counts of the seek-complete and start-next
notifications and the marks that guard them). -/
@[simp] theorem onStreamDone_notices (env : Env) (s : Player) :
    (startNextCount (onStreamDone env s).trace = startNextCount s.trace) ∧
    ((onStreamDone env s).mStartNextPlayer = s.mStartNextPlayer) := by
  refine ⟨?_, ?_⟩ <;> simp only [onStreamDone] <;> (repeat' split) <;> first | rfl | simp_all [renderOf, noteOf]

/-- What `onStreamDone` leaves unchanged (the abort mark and the seek state). -/
@[simp] theorem onStreamDone_process (env : Env) (s : Player) :
    (onStreamDone env s).aborted = s.aborted := by
  simp only [onStreamDone] <;> (repeat' split) <;> first | rfl | simp_all [renderOf, noteOf]

/-- What `finishAsyncPrepare_l` leaves unchanged (settings, render calls, completion count,
flags). -/
@[simp] theorem finishAsyncPrepare_l_frame (s : Player) :
    ((finishAsyncPrepare_l s).cfg = s.cfg) ∧
    (renders (finishAsyncPrepare_l s).trace = renders s.trace) ∧
    (playbackCompleteCount (finishAsyncPrepare_l s).trace = playbackCompleteCount s.trace) := by
  refine ⟨?_, ?_, ?_⟩ <;> simp only [finishAsyncPrepare_l] <;> (repeat' split) <;> first | rfl | simp_all [renderOf, noteOf]

/-- What `finishAsyncPrepare_l` leaves unchanged (flags). -/
@[simp] theorem finishAsyncPrepare_l_flags (s : Player) :
    ((finishAsyncPrepare_l s).mFlags.PLAYING = s.mFlags.PLAYING) ∧
    ((finishAsyncPrepare_l s).mFlags.AT_EOS = s.mFlags.AT_EOS) ∧
    ((finishAsyncPrepare_l s).mFlags.INFORMED_AV_EOS = s.mFlags.INFORMED_AV_EOS) ∧
    ((finishAsyncPrepare_l s).mFlags.CACHE_UNDERRUN = s.mFlags.CACHE_UNDERRUN) ∧
    ((finishAsyncPrepare_l s).mFlags.LOOPING = s.mFlags.LOOPING) ∧
    ((finishAsyncPrepare_l s).mFlags.AUTO_LOOPING = s.mFlags.AUTO_LOOPING) := by
  refine ⟨?_, ?_, ?_, ?_, ?_, ?_⟩ <;> simp only [finishAsyncPrepare_l] <;> (repeat' split) <;> first | rfl | simp_all [renderOf, noteOf]

/-- What `finishAsyncPrepare_l` leaves unchanged (the counts of the seek-complete and start-next
notifications and the marks that guard them). -/
@[simp] theorem finishAsyncPrepare_l_notices (s : Player) :
    (seekCompleteCount (finishAsyncPrepare_l s).trace = seekCompleteCount s.trace) ∧
    ((finishAsyncPrepare_l s).mSeekNotificationSent = s.mSeekNotificationSent) ∧
    (startNextCount (finishAsyncPrepare_l s).trace = startNextCount s.trace) ∧
    ((finishAsyncPrepare_l s).mStartNextPlayer = s.mStartNextPlayer) := by
  refine ⟨?_, ?_, ?_, ?_⟩ <;> simp only [finishAsyncPrepare_l] <;> (repeat' split) <;> first | rfl | simp_all [renderOf, noteOf]

/-- What `finishAsyncPrepare_l` leaves unchanged (the abort mark and the seek state). -/
@[simp] theorem finishAsyncPrepare_l_process (s : Player) :
    ((finishAsyncPrepare_l s).aborted = s.aborted) ∧
    ((finishAsyncPrepare_l s).mSeeking = s.mSeeking) := by
  refine ⟨?_, ?_⟩ <;> simp only [finishAsyncPrepare_l] <;> (repeat' split) <;> first | rfl | simp_all [renderOf, noteOf]

/-- What `updateDuration` leaves unchanged (settings, render calls, completion count, flags). -/
@[simp] theorem updateDuration_frame (track : Option MediaSource) (s : Player) :
    ((updateDuration track s).cfg = s.cfg) ∧
    (renders (updateDuration track s).trace = renders s.trace) ∧
    (playbackCompleteCount (updateDuration track s).trace = playbackCompleteCount s.trace) ∧
    ((updateDuration track s).mFlags = s.mFlags) := by
  refine ⟨?_, ?_, ?_, ?_⟩ <;> simp only [updateDuration] <;> (repeat' split) <;> first | rfl | simp_all [renderOf, noteOf]

/-- What `updateDuration` leaves unchanged (the counts of the seek-complete and start-next
notifications and the marks that guard them). -/
@[simp] theorem updateDuration_notices (track : Option MediaSource) (s : Player) :
    (seekCompleteCount (updateDuration track s).trace = seekCompleteCount s.trace) ∧
    ((updateDuration track s).mSeekNotificationSent = s.mSeekNotificationSent) ∧
    (startNextCount (updateDuration track s).trace = startNextCount s.trace) ∧
    ((updateDuration track s).mStartNextPlayer = s.mStartNextPlayer) := by
  refine ⟨?_, ?_, ?_, ?_⟩ <;> simp only [updateDuration] <;> (repeat' split) <;> first | rfl | simp_all [renderOf, noteOf]

/-- What `updateDuration` leaves unchanged (the abort mark and the seek state). -/
@[simp] theorem updateDuration_process (track : Option MediaSource) (s : Player) :
    ((updateDuration track s).aborted = s.aborted) ∧
    ((updateDuration track s).mSeeking = s.mSeeking) := by
  refine ⟨?_, ?_⟩ <;> simp only [updateDuration] <;> (repeat' split) <;> first | rfl | simp_all [renderOf, noteOf]

/-- What `initVideoDecoder_create` leaves unchanged (settings, render calls, completion count,
flags). -/
@[simp] theorem initVideoDecoder_create_frame (env : Env) (s : Player) :
    ((initVideoDecoder_create env s).2.cfg = s.cfg) ∧
    (renders (initVideoDecoder_create env s).2.trace = renders s.trace) ∧
    (playbackCompleteCount (initVideoDecoder_create env s).2.trace = playbackCompleteCount s.trace) ∧
    ((initVideoDecoder_create env s).2.mFlags = s.mFlags) := by
  refine ⟨?_, ?_, ?_, ?_⟩ <;> simp only [initVideoDecoder_create] <;> (repeat' split) <;> first | rfl | simp_all [renderOf, noteOf]

/-- What `initVideoDecoder_create` leaves unchanged (the counts of the seek-complete and
start-next notifications and the marks that guard them). -/
@[simp] theorem initVideoDecoder_create_notices (env : Env) (s : Player) :
    (seekCompleteCount (initVideoDecoder_create env s).2.trace = seekCompleteCount s.trace) ∧
    ((initVideoDecoder_create env s).2.mSeekNotificationSent = s.mSeekNotificationSent) ∧
    (startNextCount (initVideoDecoder_create env s).2.trace = startNextCount s.trace) ∧
    ((initVideoDecoder_create env s).2.mStartNextPlayer = s.mStartNextPlayer) := by
  refine ⟨?_, ?_, ?_, ?_⟩ <;> simp only [initVideoDecoder_create] <;> (repeat' split) <;> first | rfl | simp_all [renderOf, noteOf]

/-- What `initVideoDecoder_create` leaves unchanged (the abort mark and the seek state). -/
@[simp] theorem initVideoDecoder_create_process (env : Env) (s : Player) :
    ((initVideoDecoder_create env s).2.aborted = s.aborted) ∧
    ((initVideoDecoder_create env s).2.mSeeking = s.mSeeking) := by
  refine ⟨?_, ?_⟩ <;> simp only [initVideoDecoder_create] <;> (repeat' split) <;> first | rfl | simp_all [renderOf, noteOf]

/-- What `initVideoDecoder` leaves unchanged (settings, render calls, completion count, flags). -/
@[simp] theorem initVideoDecoder_frame (env : Env) (s : Player) :
    ((initVideoDecoder env s).2.cfg = s.cfg) ∧
    (renders (initVideoDecoder env s).2.trace = renders s.trace) ∧
    (playbackCompleteCount (initVideoDecoder env s).2.trace = playbackCompleteCount s.trace) ∧
    ((initVideoDecoder env s).2.mFlags = s.mFlags) := by
  refine ⟨?_, ?_, ?_, ?_⟩ <;> simp only [initVideoDecoder] <;> (repeat' split) <;> first | rfl | simp_all [renderOf, noteOf]

/-- What `initVideoDecoder` leaves unchanged (the counts of the seek-complete and start-next
notifications and the marks that guard them). -/
@[simp] theorem initVideoDecoder_notices (env : Env) (s : Player) :
    (seekCompleteCount (initVideoDecoder env s).2.trace = seekCompleteCount s.trace) ∧
    ((initVideoDecoder env s).2.mSeekNotificationSent = s.mSeekNotificationSent) ∧
    (startNextCount (initVideoDecoder env s).2.trace = startNextCount s.trace) ∧
    ((initVideoDecoder env s).2.mStartNextPlayer = s.mStartNextPlayer) := by
  refine ⟨?_, ?_, ?_, ?_⟩ <;> simp only [initVideoDecoder] <;> (repeat' split) <;> first | rfl | simp_all [renderOf, noteOf]

/-- What `initVideoDecoder` leaves unchanged (the abort mark and the seek state). -/
@[simp] theorem initVideoDecoder_process (env : Env) (s : Player) :
    ((initVideoDecoder env s).2.aborted = s.aborted) ∧
    ((initVideoDecoder env s).2.mSeeking = s.mSeeking) := by
  refine ⟨?_, ?_⟩ <;> simp only [initVideoDecoder] <;> (repeat' split) <;> first | rfl | simp_all [renderOf, noteOf]

/-- What `initAudioDecoder_source` leaves unchanged (settings, render calls, completion count,
flags). -/
@[simp] theorem initAudioDecoder_source_frame (env : Env) (s : Player) :
    ((initAudioDecoder_source env s).cfg = s.cfg) ∧
    (renders (initAudioDecoder_source env s).trace = renders s.trace) ∧
    (playbackCompleteCount (initAudioDecoder_source env s).trace = playbackCompleteCount s.trace) ∧
    ((initAudioDecoder_source env s).mFlags = s.mFlags) := by
  refine ⟨?_, ?_, ?_, ?_⟩ <;> simp only [initAudioDecoder_source] <;> (repeat' split) <;> first | rfl | simp_all [renderOf, noteOf]

/-- What `initAudioDecoder_source` leaves unchanged (the counts of the seek-complete and
start-next notifications and the marks that guard them). -/
@[simp] theorem initAudioDecoder_source_notices (env : Env) (s : Player) :
    (seekCompleteCount (initAudioDecoder_source env s).trace = seekCompleteCount s.trace) ∧
    ((initAudioDecoder_source env s).mSeekNotificationSent = s.mSeekNotificationSent) ∧
    (startNextCount (initAudioDecoder_source env s).trace = startNextCount s.trace) ∧
    ((initAudioDecoder_source env s).mStartNextPlayer = s.mStartNextPlayer) := by
  refine ⟨?_, ?_, ?_, ?_⟩ <;> simp only [initAudioDecoder_source] <;> (repeat' split) <;> first | rfl | simp_all [renderOf, noteOf]

/-- What `initAudioDecoder_source` leaves unchanged (the abort mark and the seek state). -/
@[simp] theorem initAudioDecoder_source_process (env : Env) (s : Player) :
    ((initAudioDecoder_source env s).aborted = s.aborted) ∧
    ((initAudioDecoder_source env s).mSeeking = s.mSeeking) := by
  refine ⟨?_, ?_⟩ <;> simp only [initAudioDecoder_source] <;> (repeat' split) <;> first | rfl | simp_all [renderOf, noteOf]

/-- What `initAudioDecoder_start` leaves unchanged (settings, render calls, completion count,
flags). -/
@[simp] theorem initAudioDecoder_start_frame (env : Env) (s : Player) :
    ((initAudioDecoder_start env s).2.cfg = s.cfg) ∧
    (renders (initAudioDecoder_start env s).2.trace = renders s.trace) ∧
    (playbackCompleteCount (initAudioDecoder_start env s).2.trace = playbackCompleteCount s.trace) ∧
    ((initAudioDecoder_start env s).2.mFlags = s.mFlags) := by
  refine ⟨?_, ?_, ?_, ?_⟩ <;> simp only [initAudioDecoder_start] <;> (repeat' split) <;> first | rfl | simp_all [renderOf, noteOf]

/-- What `initAudioDecoder_start` leaves unchanged (the counts of the seek-complete and start-next
notifications and the marks that guard them). -/
@[simp] theorem initAudioDecoder_start_notices (env : Env) (s : Player) :
    (seekCompleteCount (initAudioDecoder_start env s).2.trace = seekCompleteCount s.trace) ∧
    ((initAudioDecoder_start env s).2.mSeekNotificationSent = s.mSeekNotificationSent) ∧
    (startNextCount (initAudioDecoder_start env s).2.trace = startNextCount s.trace) ∧
    ((initAudioDecoder_start env s).2.mStartNextPlayer = s.mStartNextPlayer) := by
  refine ⟨?_, ?_, ?_, ?_⟩ <;> simp only [initAudioDecoder_start] <;> (repeat' split) <;> first | rfl | simp_all [renderOf, noteOf]

/-- What `initAudioDecoder_start` leaves unchanged (the abort mark and the seek state). -/
@[simp] theorem initAudioDecoder_start_process (env : Env) (s : Player) :
    ((initAudioDecoder_start env s).2.aborted = s.aborted) ∧
    ((initAudioDecoder_start env s).2.mSeeking = s.mSeeking) := by
  refine ⟨?_, ?_⟩ <;> simp only [initAudioDecoder_start] <;> (repeat' split) <;> first | rfl | simp_all [renderOf, noteOf]

/-- What `initAudioDecoder` leaves unchanged (settings, render calls, completion count, flags). -/
@[simp] theorem initAudioDecoder_frame (env : Env) (s : Player) :
    ((initAudioDecoder env s).2.cfg = s.cfg) ∧
    (renders (initAudioDecoder env s).2.trace = renders s.trace) ∧
    (playbackCompleteCount (initAudioDecoder env s).2.trace = playbackCompleteCount s.trace) ∧
    ((initAudioDecoder env s).2.mFlags = s.mFlags) := by
  refine ⟨?_, ?_, ?_, ?_⟩ <;> simp only [initAudioDecoder] <;> (repeat' split) <;> first | rfl | simp_all [renderOf, noteOf]

/-- What `initAudioDecoder` leaves unchanged (the counts of the seek-complete and start-next
notifications and the marks that guard them). -/
@[simp] theorem initAudioDecoder_notices (env : Env) (s : Player) :
    (seekCompleteCount (initAudioDecoder env s).2.trace = seekCompleteCount s.trace) ∧
    ((initAudioDecoder env s).2.mSeekNotificationSent = s.mSeekNotificationSent) ∧
    (startNextCount (initAudioDecoder env s).2.trace = startNextCount s.trace) ∧
    ((initAudioDecoder env s).2.mStartNextPlayer = s.mStartNextPlayer) := by
  refine ⟨?_, ?_, ?_, ?_⟩ <;> simp only [initAudioDecoder] <;> (repeat' split) <;> first | rfl | simp_all [renderOf, noteOf]

/-- What `initAudioDecoder` leaves unchanged (the abort mark and the seek state). -/
@[simp] theorem initAudioDecoder_process (env : Env) (s : Player) :
    ((initAudioDecoder env s).2.aborted = s.aborted) ∧
    ((initAudioDecoder env s).2.mSeeking = s.mSeeking) := by
  refine ⟨?_, ?_⟩ <;> simp only [initAudioDecoder] <;> (repeat' split) <;> first | rfl | simp_all [renderOf, noteOf]

/-- What `setDataSource_l_tracks` leaves unchanged (settings, render calls, completion count,
flags). -/
@[simp] theorem setDataSource_l_tracks_frame (extractor : Extractor) (s : Player) :
    ((setDataSource_l_tracks extractor s).cfg = s.cfg) ∧
    (renders (setDataSource_l_tracks extractor s).trace = renders s.trace) ∧
    (playbackCompleteCount (setDataSource_l_tracks extractor s).trace = playbackCompleteCount s.trace) := by
  refine ⟨?_, ?_, ?_⟩ <;> simp only [setDataSource_l_tracks] <;> (repeat' split) <;> first | rfl | simp_all [renderOf, noteOf]

/-- What `setDataSource_l_tracks` leaves unchanged (flags). -/
@[simp] theorem setDataSource_l_tracks_flags (extractor : Extractor) (s : Player) :
    ((setDataSource_l_tracks extractor s).mFlags.PLAYING = s.mFlags.PLAYING) ∧
    ((setDataSource_l_tracks extractor s).mFlags.AT_EOS = s.mFlags.AT_EOS) ∧
    ((setDataSource_l_tracks extractor s).mFlags.INFORMED_AV_EOS = s.mFlags.INFORMED_AV_EOS) ∧
    ((setDataSource_l_tracks extractor s).mFlags.CACHE_UNDERRUN = s.mFlags.CACHE_UNDERRUN) ∧
    ((setDataSource_l_tracks extractor s).mFlags.LOOPING = s.mFlags.LOOPING) := by
  refine ⟨?_, ?_, ?_, ?_, ?_⟩ <;> simp only [setDataSource_l_tracks] <;> (repeat' split) <;> first | rfl | simp_all [renderOf, noteOf]

/-- What `setDataSource_l_tracks` leaves unchanged (the counts of the seek-complete and start-next
notifications and the marks that guard them). -/
@[simp] theorem setDataSource_l_tracks_notices (extractor : Extractor) (s : Player) :
    (seekCompleteCount (setDataSource_l_tracks extractor s).trace = seekCompleteCount s.trace) ∧
    ((setDataSource_l_tracks extractor s).mSeekNotificationSent = s.mSeekNotificationSent) ∧
    (startNextCount (setDataSource_l_tracks extractor s).trace = startNextCount s.trace) ∧
    ((setDataSource_l_tracks extractor s).mStartNextPlayer = s.mStartNextPlayer) := by
  refine ⟨?_, ?_, ?_, ?_⟩ <;> simp only [setDataSource_l_tracks] <;> (repeat' split) <;> first | rfl | simp_all [renderOf, noteOf]

/-- What `setDataSource_l_tracks` leaves unchanged (the abort mark and the seek state). -/
@[simp] theorem setDataSource_l_tracks_process (extractor : Extractor) (s : Player) :
    ((setDataSource_l_tracks extractor s).aborted = s.aborted) ∧
    ((setDataSource_l_tracks extractor s).mSeeking = s.mSeeking) := by
  refine ⟨?_, ?_⟩ <;> simp only [setDataSource_l_tracks] <;> (repeat' split) <;> first | rfl | simp_all [renderOf, noteOf]

/-- What `setDataSource_l_extractor` leaves unchanged (settings, render calls, completion count,
flags). -/
@[simp] theorem setDataSource_l_extractor_frame (env : Env) (extractor : Extractor) (s : Player) :
    ((setDataSource_l_extractor env extractor s).2.cfg = s.cfg) ∧
    (renders (setDataSource_l_extractor env extractor s).2.trace = renders s.trace) ∧
    (playbackCompleteCount (setDataSource_l_extractor env extractor s).2.trace = playbackCompleteCount s.trace) := by
  refine ⟨?_, ?_, ?_⟩ <;> simp only [setDataSource_l_extractor] <;> (repeat' split) <;> first | rfl | simp_all [renderOf, noteOf]

/-- What `setDataSource_l_extractor` leaves unchanged (flags). -/
@[simp] theorem setDataSource_l_extractor_flags (env : Env) (extractor : Extractor) (s : Player) :
    ((setDataSource_l_extractor env extractor s).2.mFlags.PLAYING = s.mFlags.PLAYING) ∧
    ((setDataSource_l_extractor env extractor s).2.mFlags.AT_EOS = s.mFlags.AT_EOS) ∧
    ((setDataSource_l_extractor env extractor s).2.mFlags.INFORMED_AV_EOS = s.mFlags.INFORMED_AV_EOS) ∧
    ((setDataSource_l_extractor env extractor s).2.mFlags.CACHE_UNDERRUN = s.mFlags.CACHE_UNDERRUN) ∧
    ((setDataSource_l_extractor env extractor s).2.mFlags.LOOPING = s.mFlags.LOOPING) := by
  refine ⟨?_, ?_, ?_, ?_, ?_⟩ <;> simp only [setDataSource_l_extractor] <;> (repeat' split) <;> first | rfl | simp_all [renderOf, noteOf]

/-- What `setDataSource_l_extractor` leaves unchanged (the counts of the seek-complete and
start-next notifications and the marks that guard them). -/
@[simp] theorem setDataSource_l_extractor_notices (env : Env) (extractor : Extractor) (s : Player) :
    (seekCompleteCount (setDataSource_l_extractor env extractor s).2.trace = seekCompleteCount s.trace) ∧
    ((setDataSource_l_extractor env extractor s).2.mSeekNotificationSent = s.mSeekNotificationSent) ∧
    (startNextCount (setDataSource_l_extractor env extractor s).2.trace = startNextCount s.trace) ∧
    ((setDataSource_l_extractor env extractor s).2.mStartNextPlayer = s.mStartNextPlayer) := by
  refine ⟨?_, ?_, ?_, ?_⟩ <;> simp only [setDataSource_l_extractor] <;> (repeat' split) <;> first | rfl | simp_all [renderOf, noteOf]

/-- What `setDataSource_l_extractor` leaves unchanged (the abort mark and the seek state). -/
@[simp] theorem setDataSource_l_extractor_process (env : Env) (extractor : Extractor) (s : Player) :
    ((setDataSource_l_extractor env extractor s).2.aborted = s.aborted) ∧
    ((setDataSource_l_extractor env extractor s).2.mSeeking = s.mSeeking) := by
  refine ⟨?_, ?_⟩ <;> simp only [setDataSource_l_extractor] <;> (repeat' split) <;> first | rfl | simp_all [renderOf, noteOf]

/-- What `setDataSource_l_jpg_video` leaves unchanged (settings, render calls, completion count,
flags). -/
@[simp] theorem setDataSource_l_jpg_video_frame (env : Env) (s : Player) :
    ((setDataSource_l_jpg_video env s).cfg = s.cfg) ∧
    (renders (setDataSource_l_jpg_video env s).trace = renders s.trace) ∧
    (playbackCompleteCount (setDataSource_l_jpg_video env s).trace = playbackCompleteCount s.trace) ∧
    ((setDataSource_l_jpg_video env s).mFlags = s.mFlags) := by
  refine ⟨?_, ?_, ?_, ?_⟩ <;> simp only [setDataSource_l_jpg_video] <;> (repeat' split) <;> first | rfl | simp_all [renderOf, noteOf]

/-- What `setDataSource_l_jpg_video` leaves unchanged (the counts of the seek-complete and
start-next notifications and the marks that guard them). -/
@[simp] theorem setDataSource_l_jpg_video_notices (env : Env) (s : Player) :
    (seekCompleteCount (setDataSource_l_jpg_video env s).trace = seekCompleteCount s.trace) ∧
    ((setDataSource_l_jpg_video env s).mSeekNotificationSent = s.mSeekNotificationSent) ∧
    (startNextCount (setDataSource_l_jpg_video env s).trace = startNextCount s.trace) ∧
    ((setDataSource_l_jpg_video env s).mStartNextPlayer = s.mStartNextPlayer) := by
  refine ⟨?_, ?_, ?_, ?_⟩ <;> simp only [setDataSource_l_jpg_video] <;> (repeat' split) <;> first | rfl | simp_all [renderOf, noteOf]

/-- What `setDataSource_l_jpg_video` leaves unchanged (the abort mark and the seek state). -/
@[simp] theorem setDataSource_l_jpg_video_process (env : Env) (s : Player) :
    ((setDataSource_l_jpg_video env s).aborted = s.aborted) ∧
    ((setDataSource_l_jpg_video env s).mSeeking = s.mSeeking) := by
  refine ⟨?_, ?_⟩ <;> simp only [setDataSource_l_jpg_video] <;> (repeat' split) <;> first | rfl | simp_all [renderOf, noteOf]

/-- What `setDataSource_l_jpg` leaves unchanged (settings, render calls, completion count, flags).
-/
@[simp] theorem setDataSource_l_jpg_frame (env : Env) (s : Player) :
    ((setDataSource_l_jpg env s).2.cfg = s.cfg) ∧
    (renders (setDataSource_l_jpg env s).2.trace = renders s.trace) ∧
    (playbackCompleteCount (setDataSource_l_jpg env s).2.trace = playbackCompleteCount s.trace) ∧
    ((setDataSource_l_jpg env s).2.mFlags = s.mFlags) := by
  refine ⟨?_, ?_, ?_, ?_⟩ <;> simp only [setDataSource_l_jpg] <;> (repeat' split) <;> first | rfl | simp_all [renderOf, noteOf]

/-- What `setDataSource_l_jpg` leaves unchanged (the counts of the seek-complete and start-next
notifications and the marks that guard them). -/
@[simp] theorem setDataSource_l_jpg_notices (env : Env) (s : Player) :
    (seekCompleteCount (setDataSource_l_jpg env s).2.trace = seekCompleteCount s.trace) ∧
    ((setDataSource_l_jpg env s).2.mSeekNotificationSent = s.mSeekNotificationSent) ∧
    (startNextCount (setDataSource_l_jpg env s).2.trace = startNextCount s.trace) ∧
    ((setDataSource_l_jpg env s).2.mStartNextPlayer = s.mStartNextPlayer) := by
  refine ⟨?_, ?_, ?_, ?_⟩ <;> simp only [setDataSource_l_jpg] <;> (repeat' split) <;> first | rfl | simp_all [renderOf, noteOf]

/-- What `setDataSource_l_jpg` leaves unchanged (the abort mark and the seek state). -/
@[simp] theorem setDataSource_l_jpg_process (env : Env) (s : Player) :
    ((setDataSource_l_jpg env s).2.aborted = s.aborted) ∧
    ((setDataSource_l_jpg env s).2.mSeeking = s.mSeeking) := by
  refine ⟨?_, ?_⟩ <;> simp only [setDataSource_l_jpg] <;> (repeat' split) <;> first | rfl | simp_all [renderOf, noteOf]

/-- What `finishSetDataSource_l` leaves unchanged (settings, render calls, completion count,
flags). -/
@[simp] theorem finishSetDataSource_l_frame (env : Env) (s : Player) :
    ((finishSetDataSource_l env s).2.cfg = s.cfg) ∧
    (renders (finishSetDataSource_l env s).2.trace = renders s.trace) ∧
    (playbackCompleteCount (finishSetDataSource_l env s).2.trace = playbackCompleteCount s.trace) := by
  refine ⟨?_, ?_, ?_⟩ <;> simp only [finishSetDataSource_l] <;> (repeat' split) <;> first | rfl | simp_all [renderOf, noteOf]

/-- What `finishSetDataSource_l` leaves unchanged (flags). -/
@[simp] theorem finishSetDataSource_l_flags (env : Env) (s : Player) :
    ((finishSetDataSource_l env s).2.mFlags.PLAYING = s.mFlags.PLAYING) ∧
    ((finishSetDataSource_l env s).2.mFlags.AT_EOS = s.mFlags.AT_EOS) ∧
    ((finishSetDataSource_l env s).2.mFlags.INFORMED_AV_EOS = s.mFlags.INFORMED_AV_EOS) ∧
    ((finishSetDataSource_l env s).2.mFlags.CACHE_UNDERRUN = s.mFlags.CACHE_UNDERRUN) ∧
    ((finishSetDataSource_l env s).2.mFlags.LOOPING = s.mFlags.LOOPING) := by
  refine ⟨?_, ?_, ?_, ?_, ?_⟩ <;> simp only [finishSetDataSource_l] <;> (repeat' split) <;> first | rfl | simp_all [renderOf, noteOf]

/-- What `finishSetDataSource_l` leaves unchanged (the counts of the seek-complete and start-next
notifications and the marks that guard them). -/
@[simp] theorem finishSetDataSource_l_notices (env : Env) (s : Player) :
    (seekCompleteCount (finishSetDataSource_l env s).2.trace = seekCompleteCount s.trace) ∧
    ((finishSetDataSource_l env s).2.mSeekNotificationSent = s.mSeekNotificationSent) ∧
    (startNextCount (finishSetDataSource_l env s).2.trace = startNextCount s.trace) ∧
    ((finishSetDataSource_l env s).2.mStartNextPlayer = s.mStartNextPlayer) := by
  refine ⟨?_, ?_, ?_, ?_⟩ <;> simp only [finishSetDataSource_l] <;> (repeat' split) <;> first | rfl | simp_all [renderOf, noteOf]

/-- What `finishSetDataSource_l` leaves unchanged (the abort mark and the seek state). -/
@[simp] theorem finishSetDataSource_l_process (env : Env) (s : Player) :
    ((finishSetDataSource_l env s).2.aborted = s.aborted) ∧
    ((finishSetDataSource_l env s).2.mSeeking = s.mSeeking) := by
  refine ⟨?_, ?_⟩ <;> simp only [finishSetDataSource_l] <;> (repeat' split) <;> first | rfl | simp_all [renderOf, noteOf]

/-- What `onPrepareAsyncEvent_source` leaves unchanged (settings, render calls, completion count,
flags). -/
@[simp] theorem onPrepareAsyncEvent_source_frame (env : Env) (s : Player) :
    ((onPrepareAsyncEvent_source env s).2.cfg = s.cfg) ∧
    (renders (onPrepareAsyncEvent_source env s).2.trace = renders s.trace) ∧
    (playbackCompleteCount (onPrepareAsyncEvent_source env s).2.trace = playbackCompleteCount s.trace) := by
  refine ⟨?_, ?_, ?_⟩ <;> simp only [onPrepareAsyncEvent_source] <;> (repeat' split) <;> first | rfl | simp_all [renderOf, noteOf]

/-- What `onPrepareAsyncEvent_source` leaves unchanged (flags). -/
@[simp] theorem onPrepareAsyncEvent_source_flags (env : Env) (s : Player) :
    ((onPrepareAsyncEvent_source env s).2.mFlags.PLAYING = s.mFlags.PLAYING) ∧
    ((onPrepareAsyncEvent_source env s).2.mFlags.AT_EOS = s.mFlags.AT_EOS) ∧
    ((onPrepareAsyncEvent_source env s).2.mFlags.INFORMED_AV_EOS = s.mFlags.INFORMED_AV_EOS) ∧
    ((onPrepareAsyncEvent_source env s).2.mFlags.CACHE_UNDERRUN = s.mFlags.CACHE_UNDERRUN) ∧
    ((onPrepareAsyncEvent_source env s).2.mFlags.LOOPING = s.mFlags.LOOPING) := by
  refine ⟨?_, ?_, ?_, ?_, ?_⟩ <;> simp only [onPrepareAsyncEvent_source] <;> (repeat' split) <;> first | rfl | simp_all [renderOf, noteOf]

/-- What `onPrepareAsyncEvent_source` leaves unchanged (the counts of the seek-complete and
start-next notifications and the marks that guard them). -/
@[simp] theorem onPrepareAsyncEvent_source_notices (env : Env) (s : Player) :
    (seekCompleteCount (onPrepareAsyncEvent_source env s).2.trace = seekCompleteCount s.trace) ∧
    ((onPrepareAsyncEvent_source env s).2.mSeekNotificationSent = s.mSeekNotificationSent) ∧
    (startNextCount (onPrepareAsyncEvent_source env s).2.trace = startNextCount s.trace) ∧
    ((onPrepareAsyncEvent_source env s).2.mStartNextPlayer = s.mStartNextPlayer) := by
  refine ⟨?_, ?_, ?_, ?_⟩ <;> simp only [onPrepareAsyncEvent_source] <;> (repeat' split) <;> first | rfl | simp_all [renderOf, noteOf]

/-- What `onPrepareAsyncEvent_source` leaves unchanged (the abort mark and the seek state). -/
@[simp] theorem onPrepareAsyncEvent_source_process (env : Env) (s : Player) :
    ((onPrepareAsyncEvent_source env s).2.aborted = s.aborted) ∧
    ((onPrepareAsyncEvent_source env s).2.mSeeking = s.mSeeking) := by
  refine ⟨?_, ?_⟩ <;> simp only [onPrepareAsyncEvent_source] <;> (repeat' split) <;> first | rfl | simp_all [renderOf, noteOf]

/-- What `onPrepareAsyncEvent_video` leaves unchanged (settings, render calls, completion count,
flags). -/
@[simp] theorem onPrepareAsyncEvent_video_frame (env : Env) (s : Player) :
    ((onPrepareAsyncEvent_video env s).2.cfg = s.cfg) ∧
    (renders (onPrepareAsyncEvent_video env s).2.trace = renders s.trace) ∧
    (playbackCompleteCount (onPrepareAsyncEvent_video env s).2.trace = playbackCompleteCount s.trace) ∧
    ((onPrepareAsyncEvent_video env s).2.mFlags = s.mFlags) := by
  refine ⟨?_, ?_, ?_, ?_⟩ <;> simp only [onPrepareAsyncEvent_video] <;> (repeat' split) <;> first | rfl | simp_all [renderOf, noteOf]

/-- What `onPrepareAsyncEvent_video` leaves unchanged (the counts of the seek-complete and
start-next notifications and the marks that guard them). -/
@[simp] theorem onPrepareAsyncEvent_video_notices (env : Env) (s : Player) :
    (seekCompleteCount (onPrepareAsyncEvent_video env s).2.trace = seekCompleteCount s.trace) ∧
    ((onPrepareAsyncEvent_video env s).2.mSeekNotificationSent = s.mSeekNotificationSent) ∧
    (startNextCount (onPrepareAsyncEvent_video env s).2.trace = startNextCount s.trace) ∧
    ((onPrepareAsyncEvent_video env s).2.mStartNextPlayer = s.mStartNextPlayer) := by
  refine ⟨?_, ?_, ?_, ?_⟩ <;> simp only [onPrepareAsyncEvent_video] <;> (repeat' split) <;> first | rfl | simp_all [renderOf, noteOf]

/-- What `onPrepareAsyncEvent_video` leaves unchanged (the abort mark and the seek state). -/
@[simp] theorem onPrepareAsyncEvent_video_process (env : Env) (s : Player) :
    ((onPrepareAsyncEvent_video env s).2.aborted = s.aborted) ∧
    ((onPrepareAsyncEvent_video env s).2.mSeeking = s.mSeeking) := by
  refine ⟨?_, ?_⟩ <;> simp only [onPrepareAsyncEvent_video] <;> (repeat' split) <;> first | rfl | simp_all [renderOf, noteOf]

/-- What `onPrepareAsyncEvent_audio` leaves unchanged (settings, render calls, completion count,
flags). -/
@[simp] theorem onPrepareAsyncEvent_audio_frame (env : Env) (s : Player) :
    ((onPrepareAsyncEvent_audio env s).2.cfg = s.cfg) ∧
    (renders (onPrepareAsyncEvent_audio env s).2.trace = renders s.trace) ∧
    (playbackCompleteCount (onPrepareAsyncEvent_audio env s).2.trace = playbackCompleteCount s.trace) ∧
    ((onPrepareAsyncEvent_audio env s).2.mFlags = s.mFlags) := by
  refine ⟨?_, ?_, ?_, ?_⟩ <;> simp only [onPrepareAsyncEvent_audio] <;> (repeat' split) <;> first | rfl | simp_all [renderOf, noteOf]

/-- What `onPrepareAsyncEvent_audio` leaves unchanged (the counts of the seek-complete and
start-next notifications and the marks that guard them). -/
@[simp] theorem onPrepareAsyncEvent_audio_notices (env : Env) (s : Player) :
    (seekCompleteCount (onPrepareAsyncEvent_audio env s).2.trace = seekCompleteCount s.trace) ∧
    ((onPrepareAsyncEvent_audio env s).2.mSeekNotificationSent = s.mSeekNotificationSent) ∧
    (startNextCount (onPrepareAsyncEvent_audio env s).2.trace = startNextCount s.trace) ∧
    ((onPrepareAsyncEvent_audio env s).2.mStartNextPlayer = s.mStartNextPlayer) := by
  refine ⟨?_, ?_, ?_, ?_⟩ <;> simp only [onPrepareAsyncEvent_audio] <;> (repeat' split) <;> first | rfl | simp_all [renderOf, noteOf]

/-- What `onPrepareAsyncEvent_audio` leaves unchanged (the abort mark and the seek state). -/
@[simp] theorem onPrepareAsyncEvent_audio_process (env : Env) (s : Player) :
    ((onPrepareAsyncEvent_audio env s).2.aborted = s.aborted) ∧
    ((onPrepareAsyncEvent_audio env s).2.mSeeking = s.mSeeking) := by
  refine ⟨?_, ?_⟩ <;> simp only [onPrepareAsyncEvent_audio] <;> (repeat' split) <;> first | rfl | simp_all [renderOf, noteOf]

/-- What `onPrepareAsyncEvent_finish` leaves unchanged (settings, render calls, completion count,
flags). -/
@[simp] theorem onPrepareAsyncEvent_finish_frame (env : Env) (s : Player) :
    ((onPrepareAsyncEvent_finish env s).cfg = s.cfg) ∧
    (renders (onPrepareAsyncEvent_finish env s).trace = renders s.trace) ∧
    (playbackCompleteCount (onPrepareAsyncEvent_finish env s).trace = playbackCompleteCount s.trace) := by
  refine ⟨?_, ?_, ?_⟩ <;> simp only [onPrepareAsyncEvent_finish] <;> (repeat' split) <;> first | rfl | simp_all [renderOf, noteOf]

/-- What `onPrepareAsyncEvent_finish` leaves unchanged (flags). -/
@[simp] theorem onPrepareAsyncEvent_finish_flags (env : Env) (s : Player) :
    ((onPrepareAsyncEvent_finish env s).mFlags.PLAYING = s.mFlags.PLAYING) ∧
    ((onPrepareAsyncEvent_finish env s).mFlags.AT_EOS = s.mFlags.AT_EOS) ∧
    ((onPrepareAsyncEvent_finish env s).mFlags.CACHE_UNDERRUN = s.mFlags.CACHE_UNDERRUN) ∧
    ((onPrepareAsyncEvent_finish env s).mFlags.LOOPING = s.mFlags.LOOPING) ∧
    ((onPrepareAsyncEvent_finish env s).mFlags.AUTO_LOOPING = s.mFlags.AUTO_LOOPING) := by
  refine ⟨?_, ?_, ?_, ?_, ?_⟩ <;> simp only [onPrepareAsyncEvent_finish] <;> (repeat' split) <;> first | rfl | simp_all [renderOf, noteOf]

/-- What `onPrepareAsyncEvent_finish` leaves unchanged (the counts of the seek-complete and
start-next notifications and the marks that guard them). -/
@[simp] theorem onPrepareAsyncEvent_finish_notices (env : Env) (s : Player) :
    (seekCompleteCount (onPrepareAsyncEvent_finish env s).trace = seekCompleteCount s.trace) ∧
    ((onPrepareAsyncEvent_finish env s).mSeekNotificationSent = s.mSeekNotificationSent) ∧
    (startNextCount (onPrepareAsyncEvent_finish env s).trace = startNextCount s.trace) ∧
    ((onPrepareAsyncEvent_finish env s).mStartNextPlayer = s.mStartNextPlayer) := by
  refine ⟨?_, ?_, ?_, ?_⟩ <;> simp only [onPrepareAsyncEvent_finish] <;> (repeat' split) <;> first | rfl | simp_all [renderOf, noteOf]

/-- What `onPrepareAsyncEvent_finish` leaves unchanged (the abort mark and the seek state). -/
@[simp] theorem onPrepareAsyncEvent_finish_process (env : Env) (s : Player) :
    ((onPrepareAsyncEvent_finish env s).aborted = s.aborted) ∧
    ((onPrepareAsyncEvent_finish env s).mSeeking = s.mSeeking) := by
  refine ⟨?_, ?_⟩ <;> simp only [onPrepareAsyncEvent_finish] <;> (repeat' split) <;> first | rfl | simp_all [renderOf, noteOf]

/-- What `onPrepareAsyncEvent_decoders` leaves unchanged (settings, render calls, completion
count, flags). -/
@[simp] theorem onPrepareAsyncEvent_decoders_frame (env : Env) (s : Player) :
    ((onPrepareAsyncEvent_decoders env s).cfg = s.cfg) ∧
    (renders (onPrepareAsyncEvent_decoders env s).trace = renders s.trace) ∧
    (playbackCompleteCount (onPrepareAsyncEvent_decoders env s).trace = playbackCompleteCount s.trace) := by
  refine ⟨?_, ?_, ?_⟩ <;> simp only [onPrepareAsyncEvent_decoders] <;> (repeat' split) <;> first | rfl | simp_all [renderOf, noteOf]

/-- What `onPrepareAsyncEvent_decoders` leaves unchanged (flags). -/
@[simp] theorem onPrepareAsyncEvent_decoders_flags (env : Env) (s : Player) :
    ((onPrepareAsyncEvent_decoders env s).mFlags.PLAYING = s.mFlags.PLAYING) ∧
    ((onPrepareAsyncEvent_decoders env s).mFlags.AT_EOS = s.mFlags.AT_EOS) ∧
    ((onPrepareAsyncEvent_decoders env s).mFlags.CACHE_UNDERRUN = s.mFlags.CACHE_UNDERRUN) ∧
    ((onPrepareAsyncEvent_decoders env s).mFlags.LOOPING = s.mFlags.LOOPING) ∧
    ((onPrepareAsyncEvent_decoders env s).mFlags.AUTO_LOOPING = s.mFlags.AUTO_LOOPING) := by
  refine ⟨?_, ?_, ?_, ?_, ?_⟩ <;> simp only [onPrepareAsyncEvent_decoders] <;> (repeat' split) <;> first | rfl | simp_all [renderOf, noteOf]

/-- What `onPrepareAsyncEvent_decoders` leaves unchanged (the counts of the seek-complete and
start-next notifications and the marks that guard them). -/
@[simp] theorem onPrepareAsyncEvent_decoders_notices (env : Env) (s : Player) :
    (seekCompleteCount (onPrepareAsyncEvent_decoders env s).trace = seekCompleteCount s.trace) ∧
    ((onPrepareAsyncEvent_decoders env s).mSeekNotificationSent = s.mSeekNotificationSent) ∧
    (startNextCount (onPrepareAsyncEvent_decoders env s).trace = startNextCount s.trace) ∧
    ((onPrepareAsyncEvent_decoders env s).mStartNextPlayer = s.mStartNextPlayer) := by
  refine ⟨?_, ?_, ?_, ?_⟩ <;> simp only [onPrepareAsyncEvent_decoders] <;> (repeat' split) <;> first | rfl | simp_all [renderOf, noteOf]

/-- What `onPrepareAsyncEvent_decoders` leaves unchanged (the abort mark and the seek state). -/
@[simp] theorem onPrepareAsyncEvent_decoders_process (env : Env) (s : Player) :
    ((onPrepareAsyncEvent_decoders env s).aborted = s.aborted) ∧
    ((onPrepareAsyncEvent_decoders env s).mSeeking = s.mSeeking) := by
  refine ⟨?_, ?_⟩ <;> simp only [onPrepareAsyncEvent_decoders] <;> (repeat' split) <;> first | rfl | simp_all [renderOf, noteOf]

/-- What `onPrepareAsyncEvent` leaves unchanged (settings, render calls, completion count, flags).
-/
@[simp] theorem onPrepareAsyncEvent_frame (env : Env) (s : Player) :
    ((onPrepareAsyncEvent env s).cfg = s.cfg) ∧
    (renders (onPrepareAsyncEvent env s).trace = renders s.trace) ∧
    (playbackCompleteCount (onPrepareAsyncEvent env s).trace = playbackCompleteCount s.trace) := by
  refine ⟨?_, ?_, ?_⟩ <;> simp only [onPrepareAsyncEvent] <;> (repeat' split) <;> first | rfl | simp_all [renderOf, noteOf]

/-- What `onPrepareAsyncEvent` leaves unchanged (flags). -/
@[simp] theorem onPrepareAsyncEvent_flags (env : Env) (s : Player) :
    ((onPrepareAsyncEvent env s).mFlags.PLAYING = s.mFlags.PLAYING) ∧
    ((onPrepareAsyncEvent env s).mFlags.AT_EOS = s.mFlags.AT_EOS) ∧
    ((onPrepareAsyncEvent env s).mFlags.CACHE_UNDERRUN = s.mFlags.CACHE_UNDERRUN) ∧
    ((onPrepareAsyncEvent env s).mFlags.LOOPING = s.mFlags.LOOPING) := by
  refine ⟨?_, ?_, ?_, ?_⟩ <;> simp only [onPrepareAsyncEvent] <;> (repeat' split) <;> first | rfl | simp_all [renderOf, noteOf]

/-- What `onPrepareAsyncEvent` leaves unchanged (the counts of the seek-complete and start-next
notifications and the marks that guard them). -/
@[simp] theorem onPrepareAsyncEvent_notices (env : Env) (s : Player) :
    (seekCompleteCount (onPrepareAsyncEvent env s).trace = seekCompleteCount s.trace) ∧
    ((onPrepareAsyncEvent env s).mSeekNotificationSent = s.mSeekNotificationSent) ∧
    (startNextCount (onPrepareAsyncEvent env s).trace = startNextCount s.trace) ∧
    ((onPrepareAsyncEvent env s).mStartNextPlayer = s.mStartNextPlayer) := by
  refine ⟨?_, ?_, ?_, ?_⟩ <;> simp only [onPrepareAsyncEvent] <;> (repeat' split) <;> first | rfl | simp_all [renderOf, noteOf]

/-- What `onPrepareAsyncEvent` leaves unchanged (the abort mark and the seek state). -/
@[simp] theorem onPrepareAsyncEvent_process (env : Env) (s : Player) :
    ((onPrepareAsyncEvent env s).aborted = s.aborted) ∧
    ((onPrepareAsyncEvent env s).mSeeking = s.mSeeking) := by
  refine ⟨?_, ?_⟩ <;> simp only [onPrepareAsyncEvent] <;> (repeat' split) <;> first | rfl | simp_all [renderOf, noteOf]

/-- What `prepareAsync_l` leaves unchanged (settings, render calls, completion count, flags). -/
@[simp] theorem prepareAsync_l_frame (s : Player) :
    ((prepareAsync_l s).2.cfg = s.cfg) ∧
    (renders (prepareAsync_l s).2.trace = renders s.trace) ∧
    (playbackCompleteCount (prepareAsync_l s).2.trace = playbackCompleteCount s.trace) := by
  refine ⟨?_, ?_, ?_⟩ <;> simp only [prepareAsync_l] <;> (repeat' split) <;> first | rfl | simp_all [renderOf, noteOf]

/-- What `prepareAsync_l` leaves unchanged (flags). -/
@[simp] theorem prepareAsync_l_flags (s : Player) :
    ((prepareAsync_l s).2.mFlags.PLAYING = s.mFlags.PLAYING) ∧
    ((prepareAsync_l s).2.mFlags.AT_EOS = s.mFlags.AT_EOS) ∧
    ((prepareAsync_l s).2.mFlags.INFORMED_AV_EOS = s.mFlags.INFORMED_AV_EOS) ∧
    ((prepareAsync_l s).2.mFlags.CACHE_UNDERRUN = s.mFlags.CACHE_UNDERRUN) ∧
    ((prepareAsync_l s).2.mFlags.LOOPING = s.mFlags.LOOPING) ∧
    ((prepareAsync_l s).2.mFlags.AUTO_LOOPING = s.mFlags.AUTO_LOOPING) := by
  refine ⟨?_, ?_, ?_, ?_, ?_, ?_⟩ <;> simp only [prepareAsync_l] <;> (repeat' split) <;> first | rfl | simp_all [renderOf, noteOf]

/-- What `prepareAsync_l` leaves unchanged (the counts of the seek-complete and start-next
notifications and the marks that guard them). -/
@[simp] theorem prepareAsync_l_notices (s : Player) :
    (seekCompleteCount (prepareAsync_l s).2.trace = seekCompleteCount s.trace) ∧
    ((prepareAsync_l s).2.mSeekNotificationSent = s.mSeekNotificationSent) ∧
    (startNextCount (prepareAsync_l s).2.trace = startNextCount s.trace) ∧
    ((prepareAsync_l s).2.mStartNextPlayer = s.mStartNextPlayer) := by
  refine ⟨?_, ?_, ?_, ?_⟩ <;> simp only [prepareAsync_l] <;> (repeat' split) <;> first | rfl | simp_all [renderOf, noteOf]

/-- What `prepareAsync_l` leaves unchanged (the abort mark and the seek state). -/
@[simp] theorem prepareAsync_l_process (s : Player) :
    ((prepareAsync_l s).2.aborted = s.aborted) ∧
    ((prepareAsync_l s).2.mSeeking = s.mSeeking) := by
  refine ⟨?_, ?_⟩ <;> simp only [prepareAsync_l] <;> (repeat' split) <;> first | rfl | simp_all [renderOf, noteOf]

/-- What `prepare_l` leaves unchanged (settings, render calls, completion count, flags). -/
@[simp] theorem prepare_l_frame (env : Env) (s : Player) :
    ((prepare_l env s).2.cfg = s.cfg) ∧
    (renders (prepare_l env s).2.trace = renders s.trace) ∧
    (playbackCompleteCount (prepare_l env s).2.trace = playbackCompleteCount s.trace) := by
  refine ⟨?_, ?_, ?_⟩ <;> simp only [prepare_l] <;> (repeat' split) <;> first | rfl | simp_all [renderOf, noteOf]

/-- What `prepare_l` leaves unchanged (flags). -/
@[simp] theorem prepare_l_flags (env : Env) (s : Player) :
    ((prepare_l env s).2.mFlags.PLAYING = s.mFlags.PLAYING) ∧
    ((prepare_l env s).2.mFlags.AT_EOS = s.mFlags.AT_EOS) ∧
    ((prepare_l env s).2.mFlags.CACHE_UNDERRUN = s.mFlags.CACHE_UNDERRUN) ∧
    ((prepare_l env s).2.mFlags.LOOPING = s.mFlags.LOOPING) := by
  refine ⟨?_, ?_, ?_, ?_⟩ <;> simp only [prepare_l] <;> (repeat' split) <;> first | rfl | simp_all [renderOf, noteOf]

/-- What `prepare_l` leaves unchanged (the counts of the seek-complete and start-next
notifications and the marks that guard them). -/
@[simp] theorem prepare_l_notices (env : Env) (s : Player) :
    (seekCompleteCount (prepare_l env s).2.trace = seekCompleteCount s.trace) ∧
    ((prepare_l env s).2.mSeekNotificationSent = s.mSeekNotificationSent) ∧
    (startNextCount (prepare_l env s).2.trace = startNextCount s.trace) ∧
    ((prepare_l env s).2.mStartNextPlayer = s.mStartNextPlayer) := by
  refine ⟨?_, ?_, ?_, ?_⟩ <;> simp only [prepare_l] <;> (repeat' split) <;> first | rfl | simp_all [renderOf, noteOf]

/-- What `prepare_l` leaves unchanged (the abort mark and the seek state). -/
@[simp] theorem prepare_l_process (env : Env) (s : Player) :
    ((prepare_l env s).2.aborted = s.aborted) ∧
    ((prepare_l env s).2.mSeeking = s.mSeeking) := by
  refine ⟨?_, ?_⟩ <;> simp only [prepare_l] <;> (repeat' split) <;> first | rfl | simp_all [renderOf, noteOf]

/-- What `prepare` leaves unchanged (settings, render calls, completion count, flags). -/
@[simp] theorem prepare_frame (env : Env) (s : Player) :
    ((prepare env s).2.cfg = s.cfg) ∧
    (renders (prepare env s).2.trace = renders s.trace) ∧
    (playbackCompleteCount (prepare env s).2.trace = playbackCompleteCount s.trace) := by
  refine ⟨?_, ?_, ?_⟩ <;> simp only [prepare] <;> (repeat' split) <;> first | rfl | simp_all [renderOf, noteOf]

/-- What `prepare` leaves unchanged (flags). -/
@[simp] theorem prepare_flags (env : Env) (s : Player) :
    ((prepare env s).2.mFlags.PLAYING = s.mFlags.PLAYING) ∧
    ((prepare env s).2.mFlags.AT_EOS = s.mFlags.AT_EOS) ∧
    ((prepare env s).2.mFlags.CACHE_UNDERRUN = s.mFlags.CACHE_UNDERRUN) ∧
    ((prepare env s).2.mFlags.LOOPING = s.mFlags.LOOPING) := by
  refine ⟨?_, ?_, ?_, ?_⟩ <;> simp only [prepare] <;> (repeat' split) <;> first | rfl | simp_all [renderOf, noteOf]

/-- What `prepare` leaves unchanged (the counts of the seek-complete and start-next notifications
and the marks that guard them). -/
@[simp] theorem prepare_notices (env : Env) (s : Player) :
    (seekCompleteCount (prepare env s).2.trace = seekCompleteCount s.trace) ∧
    ((prepare env s).2.mSeekNotificationSent = s.mSeekNotificationSent) ∧
    (startNextCount (prepare env s).2.trace = startNextCount s.trace) ∧
    ((prepare env s).2.mStartNextPlayer = s.mStartNextPlayer) := by
  refine ⟨?_, ?_, ?_, ?_⟩ <;> simp only [prepare] <;> (repeat' split) <;> first | rfl | simp_all [renderOf, noteOf]

/-- What `prepare` leaves unchanged (the abort mark and the seek state). -/
@[simp] theorem prepare_process (env : Env) (s : Player) :
    ((prepare env s).2.aborted = s.aborted) ∧
    ((prepare env s).2.mSeeking = s.mSeeking) := by
  refine ⟨?_, ?_⟩ <;> simp only [prepare] <;> (repeat' split) <;> first | rfl | simp_all [renderOf, noteOf]

/-- What `reset_cancelPrepare` leaves unchanged (settings, render calls, completion count, flags).
-/
@[simp] theorem reset_cancelPrepare_frame (s : Player) :
    ((reset_cancelPrepare s).cfg = s.cfg) ∧
    (renders (reset_cancelPrepare s).trace = renders s.trace) ∧
    (playbackCompleteCount (reset_cancelPrepare s).trace = playbackCompleteCount s.trace) := by
  refine ⟨?_, ?_, ?_⟩ <;> simp only [reset_cancelPrepare] <;> (repeat' split) <;> first | rfl | simp_all [renderOf, noteOf]

/-- What `reset_cancelPrepare` leaves unchanged (flags). -/
@[simp] theorem reset_cancelPrepare_flags (s : Player) :
    ((reset_cancelPrepare s).mFlags.PLAYING = s.mFlags.PLAYING) ∧
    ((reset_cancelPrepare s).mFlags.AT_EOS = s.mFlags.AT_EOS) ∧
    ((reset_cancelPrepare s).mFlags.CACHE_UNDERRUN = s.mFlags.CACHE_UNDERRUN) ∧
    ((reset_cancelPrepare s).mFlags.LOOPING = s.mFlags.LOOPING) ∧
    ((reset_cancelPrepare s).mFlags.AUTO_LOOPING = s.mFlags.AUTO_LOOPING) := by
  refine ⟨?_, ?_, ?_, ?_, ?_⟩ <;> simp only [reset_cancelPrepare] <;> (repeat' split) <;> first | rfl | simp_all [renderOf, noteOf]

/-- What `reset_cancelPrepare` leaves unchanged (the counts of the seek-complete and start-next
notifications and the marks that guard them). -/
@[simp] theorem reset_cancelPrepare_notices (s : Player) :
    (seekCompleteCount (reset_cancelPrepare s).trace = seekCompleteCount s.trace) ∧
    ((reset_cancelPrepare s).mSeekNotificationSent = s.mSeekNotificationSent) ∧
    (startNextCount (reset_cancelPrepare s).trace = startNextCount s.trace) ∧
    ((reset_cancelPrepare s).mStartNextPlayer = s.mStartNextPlayer) := by
  refine ⟨?_, ?_, ?_, ?_⟩ <;> simp only [reset_cancelPrepare] <;> (repeat' split) <;> first | rfl | simp_all [renderOf, noteOf]

/-- What `reset_cancelPrepare` leaves unchanged (the abort mark and the seek state). -/
@[simp] theorem reset_cancelPrepare_process (s : Player) :
    ((reset_cancelPrepare s).aborted = s.aborted) ∧
    ((reset_cancelPrepare s).mSeeking = s.mSeeking) := by
  refine ⟨?_, ?_⟩ <;> simp only [reset_cancelPrepare] <;> (repeat' split) <;> first | rfl | simp_all [renderOf, noteOf]

/-- What `reset_audio` leaves unchanged (settings, render calls, completion count, flags). -/
@[simp] theorem reset_audio_frame (s : Player) :
    ((reset_audio s).cfg = s.cfg) ∧
    (renders (reset_audio s).trace = renders s.trace) ∧
    (playbackCompleteCount (reset_audio s).trace = playbackCompleteCount s.trace) ∧
    ((reset_audio s).mFlags = s.mFlags) := by
  refine ⟨?_, ?_, ?_, ?_⟩ <;> simp only [reset_audio] <;> (repeat' split) <;> first | rfl | simp_all [renderOf, noteOf]

/-- What `reset_audio` leaves unchanged (the counts of the seek-complete and start-next
notifications and the marks that guard them). -/
@[simp] theorem reset_audio_notices (s : Player) :
    (seekCompleteCount (reset_audio s).trace = seekCompleteCount s.trace) ∧
    ((reset_audio s).mSeekNotificationSent = s.mSeekNotificationSent) ∧
    (startNextCount (reset_audio s).trace = startNextCount s.trace) ∧
    ((reset_audio s).mStartNextPlayer = s.mStartNextPlayer) := by
  refine ⟨?_, ?_, ?_, ?_⟩ <;> simp only [reset_audio] <;> (repeat' split) <;> first | rfl | simp_all [renderOf, noteOf]

/-- What `reset_audio` leaves unchanged (the abort mark and the seek state). -/
@[simp] theorem reset_audio_process (s : Player) :
    ((reset_audio s).aborted = s.aborted) ∧
    ((reset_audio s).mSeeking = s.mSeeking) := by
  refine ⟨?_, ?_⟩ <;> simp only [reset_audio] <;> (repeat' split) <;> first | rfl | simp_all [renderOf, noteOf]

/-- What `reset_video` leaves unchanged (settings, render calls, completion count, flags). -/
@[simp] theorem reset_video_frame (s : Player) :
    ((reset_video s).cfg = s.cfg) ∧
    (renders (reset_video s).trace = renders s.trace) ∧
    (playbackCompleteCount (reset_video s).trace = playbackCompleteCount s.trace) ∧
    ((reset_video s).mFlags = s.mFlags) := by
  refine ⟨?_, ?_, ?_, ?_⟩ <;> simp only [reset_video] <;> (repeat' split) <;> first | rfl | simp_all [renderOf, noteOf]

/-- What `reset_video` leaves unchanged (the counts of the seek-complete and start-next
notifications and the marks that guard them). -/
@[simp] theorem reset_video_notices (s : Player) :
    (seekCompleteCount (reset_video s).trace = seekCompleteCount s.trace) ∧
    ((reset_video s).mSeekNotificationSent = s.mSeekNotificationSent) ∧
    (startNextCount (reset_video s).trace = startNextCount s.trace) ∧
    ((reset_video s).mStartNextPlayer = s.mStartNextPlayer) := by
  refine ⟨?_, ?_, ?_, ?_⟩ <;> simp only [reset_video] <;> (repeat' split) <;> first | rfl | simp_all [renderOf, noteOf]

/-- What `reset_video` leaves unchanged (the abort mark and the seek state). -/
@[simp] theorem reset_video_process (s : Player) :
    ((reset_video s).aborted = s.aborted) ∧
    ((reset_video s).mSeeking = s.mSeeking) := by
  refine ⟨?_, ?_⟩ <;> simp only [reset_video] <;> (repeat' split) <;> first | rfl | simp_all [renderOf, noteOf]

/-- What `reset_fields` leaves unchanged (settings, render calls, completion count, flags). -/
@[simp] theorem reset_fields_frame (s : Player) :
    ((reset_fields s).cfg = s.cfg) ∧
    (renders (reset_fields s).trace = renders s.trace) ∧
    (playbackCompleteCount (reset_fields s).trace = playbackCompleteCount s.trace) := by
  refine ⟨?_, ?_, ?_⟩ <;> simp only [reset_fields] <;> (repeat' split) <;> first | rfl | simp_all [renderOf, noteOf]

/-- What `reset_fields` leaves unchanged (the counts of the seek-complete and start-next
notifications and the marks that guard them). -/
@[simp] theorem reset_fields_notices (s : Player) :
    (seekCompleteCount (reset_fields s).trace = seekCompleteCount s.trace) ∧
    (startNextCount (reset_fields s).trace = startNextCount s.trace) ∧
    ((reset_fields s).mStartNextPlayer = s.mStartNextPlayer) := by
  refine ⟨?_, ?_, ?_⟩ <;> simp only [reset_fields] <;> (repeat' split) <;> first | rfl | simp_all [renderOf, noteOf]

/-- What `reset_fields` leaves unchanged (the abort mark and the seek state). -/
@[simp] theorem reset_fields_process (s : Player) :
    (reset_fields s).aborted = s.aborted := by
  simp only [reset_fields] <;> (repeat' split) <;> first | rfl | simp_all [renderOf, noteOf]

/-- What `reset_l` leaves unchanged (settings, render calls, completion count, flags). -/
@[simp] theorem reset_l_frame (s : Player) :
    ((reset_l s).cfg = s.cfg) ∧
    (renders (reset_l s).trace = renders s.trace) ∧
    (playbackCompleteCount (reset_l s).trace = playbackCompleteCount s.trace) := by
  refine ⟨?_, ?_, ?_⟩ <;> simp only [reset_l] <;> (repeat' split) <;> first | rfl | simp_all [renderOf, noteOf]

/-- What `reset_l` leaves unchanged (the counts of the seek-complete and start-next notifications
and the marks that guard them). -/
@[simp] theorem reset_l_notices (s : Player) :
    (seekCompleteCount (reset_l s).trace = seekCompleteCount s.trace) ∧
    (startNextCount (reset_l s).trace = startNextCount s.trace) ∧
    ((reset_l s).mStartNextPlayer = s.mStartNextPlayer) := by
  refine ⟨?_, ?_, ?_⟩ <;> simp only [reset_l] <;> (repeat' split) <;> first | rfl | simp_all [renderOf, noteOf]

/-- What `reset_l` leaves unchanged (the abort mark and the seek state). -/
@[simp] theorem reset_l_process (s : Player) :
    (reset_l s).aborted = s.aborted := by
  simp only [reset_l] <;> (repeat' split) <;> first | rfl | simp_all [renderOf, noteOf]

/-- What `reset` leaves unchanged (settings, render calls, completion count, flags). -/
@[simp] theorem reset_frame (s : Player) :
    ((reset s).cfg = s.cfg) ∧
    (renders (reset s).trace = renders s.trace) ∧
    (playbackCompleteCount (reset s).trace = playbackCompleteCount s.trace) := by
  refine ⟨?_, ?_, ?_⟩ <;> simp only [reset] <;> (repeat' split) <;> first | rfl | simp_all [renderOf, noteOf]

/-- What `reset` leaves unchanged (the counts of the seek-complete and start-next notifications
and the marks that guard them). -/
@[simp] theorem reset_notices (s : Player) :
    (seekCompleteCount (reset s).trace = seekCompleteCount s.trace) ∧
    (startNextCount (reset s).trace = startNextCount s.trace) ∧
    ((reset s).mStartNextPlayer = s.mStartNextPlayer) := by
  refine ⟨?_, ?_, ?_⟩ <;> simp only [reset] <;> (repeat' split) <;> first | rfl | simp_all [renderOf, noteOf]

/-- What `reset` leaves unchanged (the abort mark and the seek state). -/
@[simp] theorem reset_process (s : Player) :
    (reset s).aborted = s.aborted := by
  simp only [reset] <;> (repeat' split) <;> first | rfl | simp_all [renderOf, noteOf]

/-- What `setDataSource` leaves unchanged (settings, render calls, completion count, flags). -/
@[simp] theorem setDataSource_frame (uri : Uri) (s : Player) :
    ((setDataSource uri s).2.cfg = s.cfg) ∧
    (renders (setDataSource uri s).2.trace = renders s.trace) ∧
    (playbackCompleteCount (setDataSource uri s).2.trace = playbackCompleteCount s.trace) := by
  refine ⟨?_, ?_, ?_⟩ <;> simp only [setDataSource] <;> (repeat' split) <;> first | rfl | simp_all [renderOf, noteOf]

/-- What `setDataSource` leaves unchanged (the counts of the seek-complete and start-next
notifications and the marks that guard them). -/
@[simp] theorem setDataSource_notices (uri : Uri) (s : Player) :
    (seekCompleteCount (setDataSource uri s).2.trace = seekCompleteCount s.trace) ∧
    (startNextCount (setDataSource uri s).2.trace = startNextCount s.trace) ∧
    ((setDataSource uri s).2.mStartNextPlayer = s.mStartNextPlayer) := by
  refine ⟨?_, ?_, ?_⟩ <;> simp only [setDataSource] <;> (repeat' split) <;> first | rfl | simp_all [renderOf, noteOf]

/-- What `setDataSource` leaves unchanged (the abort mark and the seek state). -/
@[simp] theorem setDataSource_process (uri : Uri) (s : Player) :
    (setDataSource uri s).2.aborted = s.aborted := by
  simp only [setDataSource] <;> (repeat' split) <;> first | rfl | simp_all [renderOf, noteOf]

/-- What `seekTo` leaves unchanged (settings, render calls, completion count, flags). -/
@[simp] theorem seekTo_frame (env : Env) (timeUs : Int) (s : Player) :
    ((seekTo env timeUs s).2.cfg = s.cfg) ∧
    (renders (seekTo env timeUs s).2.trace = renders s.trace) ∧
    (playbackCompleteCount (seekTo env timeUs s).2.trace = playbackCompleteCount s.trace) := by
  refine ⟨?_, ?_, ?_⟩ <;> simp only [seekTo] <;> (repeat' split) <;> first | rfl | simp_all [renderOf, noteOf]

/-- What `seekTo` leaves unchanged (flags). -/
@[simp] theorem seekTo_flags (env : Env) (timeUs : Int) (s : Player) :
    ((seekTo env timeUs s).2.mFlags.LOOPING = s.mFlags.LOOPING) ∧
    ((seekTo env timeUs s).2.mFlags.AUTO_LOOPING = s.mFlags.AUTO_LOOPING) := by
  refine ⟨?_, ?_⟩ <;> simp only [seekTo] <;> (repeat' split) <;> first | rfl | simp_all [renderOf, noteOf]

/-- What `seekTo` leaves unchanged (the counts of the seek-complete and start-next notifications
and the marks that guard them). -/
@[simp] theorem seekTo_notices (env : Env) (timeUs : Int) (s : Player) :
    (startNextCount (seekTo env timeUs s).2.trace = startNextCount s.trace) ∧
    ((seekTo env timeUs s).2.mStartNextPlayer = s.mStartNextPlayer) := by
  refine ⟨?_, ?_⟩ <;> simp only [seekTo] <;> (repeat' split) <;> first | rfl | simp_all [renderOf, noteOf]

/-- What `seekTo` leaves unchanged (the abort mark and the seek state). -/
@[simp] theorem seekTo_process (env : Env) (timeUs : Int) (s : Player) :
    (seekTo env timeUs s).2.aborted = s.aborted := by
  simp only [seekTo] <;> (repeat' split) <;> first | rfl | simp_all [renderOf, noteOf]

/-- What `setReads` leaves unchanged (settings, render calls, completion count, flags). -/
@[simp] theorem setReads_frame (rest : List ReadResult) (s : Player) :
    ((setReads rest s).cfg = s.cfg) ∧
    (renders (setReads rest s).trace = renders s.trace) ∧
    (playbackCompleteCount (setReads rest s).trace = playbackCompleteCount s.trace) ∧
    ((setReads rest s).mFlags = s.mFlags) := by
  refine ⟨?_, ?_, ?_, ?_⟩ <;> simp only [setReads] <;> (repeat' split) <;> first | rfl | simp_all [renderOf, noteOf]

/-- What `setReads` leaves unchanged (fields of the video loop). -/
@[simp] theorem setReads_fields (rest : List ReadResult) (s : Player) :
    ((setReads rest s).mCurrentVideoEffect = s.mCurrentVideoEffect) ∧
    ((setReads rest s).mVideoRenderer = s.mVideoRenderer) ∧
    ((setReads rest s).mVideoBuffer = s.mVideoBuffer) ∧
    ((setReads rest s).mSeeking = s.mSeeking) ∧
    ((setReads rest s).mSeekTimeUs = s.mSeekTimeUs) ∧
    ((setReads rest s).mIsVideoSourceJpg = s.mIsVideoSourceJpg) ∧
    ((setReads rest s).mVideoEventPending = s.mVideoEventPending) ∧
    ((setReads rest s).mStreamDoneEventPending = s.mStreamDoneEventPending) := by
  refine ⟨?_, ?_, ?_, ?_, ?_, ?_, ?_, ?_⟩ <;> simp only [setReads] <;> (repeat' split) <;> first | rfl | simp_all [renderOf, noteOf]

/-- What `setReads` leaves unchanged (sources, clock and pending marks). -/
@[simp] theorem setReads_wiring (rest : List ReadResult) (s : Player) :
    ((setReads rest s).mStreamDoneStatus = s.mStreamDoneStatus) ∧
    ((setReads rest s).mAudioPlayer = s.mAudioPlayer) ∧
    ((setReads rest s).mAudioSource = s.mAudioSource) ∧
    ((setReads rest s).mTimeSource = s.mTimeSource) ∧
    ((setReads rest s).mTimeSourceDeltaUs = s.mTimeSourceDeltaUs) ∧
    ((setReads rest s).mOverlayUpdateEventPosted = s.mOverlayUpdateEventPosted) := by
  refine ⟨?_, ?_, ?_, ?_, ?_, ?_⟩ <;> simp only [setReads] <;> (repeat' split) <;> first | rfl | simp_all [renderOf, noteOf]

/-- What `setReads` leaves unchanged (the counts of the seek-complete and start-next notifications
and the marks that guard them). -/
@[simp] theorem setReads_notices (rest : List ReadResult) (s : Player) :
    (seekCompleteCount (setReads rest s).trace = seekCompleteCount s.trace) ∧
    ((setReads rest s).mSeekNotificationSent = s.mSeekNotificationSent) ∧
    (startNextCount (setReads rest s).trace = startNextCount s.trace) ∧
    ((setReads rest s).mStartNextPlayer = s.mStartNextPlayer) := by
  refine ⟨?_, ?_, ?_, ?_⟩ <;> simp only [setReads] <;> (repeat' split) <;> first | rfl | simp_all [renderOf, noteOf]

/-- What `setReads` leaves unchanged (the abort mark and the seek state). -/
@[simp] theorem setReads_process (rest : List ReadResult) (s : Player) :
    ((setReads rest s).aborted = s.aborted) ∧
    ((setReads rest s).mSeeking = s.mSeeking) := by
  refine ⟨?_, ?_⟩ <;> simp only [setReads] <;> (repeat' split) <;> first | rfl | simp_all [renderOf, noteOf]

/-- What `pauseAudioForSeek` leaves unchanged (settings, render calls, completion count, flags). -/
@[simp] theorem pauseAudioForSeek_frame (s : Player) :
    ((pauseAudioForSeek s).cfg = s.cfg) ∧
    (renders (pauseAudioForSeek s).trace = renders s.trace) ∧
    (playbackCompleteCount (pauseAudioForSeek s).trace = playbackCompleteCount s.trace) := by
  refine ⟨?_, ?_, ?_⟩ <;> simp only [pauseAudioForSeek] <;> (repeat' split) <;> first | rfl | simp_all [renderOf, noteOf]

/-- What `pauseAudioForSeek` leaves unchanged (flags). -/
@[simp] theorem pauseAudioForSeek_flags (s : Player) :
    ((pauseAudioForSeek s).mFlags.PLAYING = s.mFlags.PLAYING) ∧
    ((pauseAudioForSeek s).mFlags.AT_EOS = s.mFlags.AT_EOS) ∧
    ((pauseAudioForSeek s).mFlags.INFORMED_AV_EOS = s.mFlags.INFORMED_AV_EOS) ∧
    ((pauseAudioForSeek s).mFlags.CACHE_UNDERRUN = s.mFlags.CACHE_UNDERRUN) ∧
    ((pauseAudioForSeek s).mFlags.LOOPING = s.mFlags.LOOPING) ∧
    ((pauseAudioForSeek s).mFlags.AUTO_LOOPING = s.mFlags.AUTO_LOOPING) ∧
    ((pauseAudioForSeek s).mFlags.VIDEO_AT_EOS = s.mFlags.VIDEO_AT_EOS) ∧
    ((pauseAudioForSeek s).mFlags.AUDIO_AT_EOS = s.mFlags.AUDIO_AT_EOS) ∧
    ((pauseAudioForSeek s).mFlags.FIRST_FRAME = s.mFlags.FIRST_FRAME) ∧
    ((pauseAudioForSeek s).mFlags.SEEK_PREVIEW = s.mFlags.SEEK_PREVIEW) := by
  refine ⟨?_, ?_, ?_, ?_, ?_, ?_, ?_, ?_, ?_, ?_⟩ <;> simp only [pauseAudioForSeek] <;> (repeat' split) <;> first | rfl | simp_all [renderOf, noteOf]

/-- What `pauseAudioForSeek` leaves unchanged (fields of the video loop). -/
@[simp] theorem pauseAudioForSeek_fields (s : Player) :
    ((pauseAudioForSeek s).mCurrentVideoEffect = s.mCurrentVideoEffect) ∧
    ((pauseAudioForSeek s).mVideoRenderer = s.mVideoRenderer) ∧
    ((pauseAudioForSeek s).mVideoBuffer = s.mVideoBuffer) ∧
    ((pauseAudioForSeek s).mSeeking = s.mSeeking) ∧
    ((pauseAudioForSeek s).mSeekTimeUs = s.mSeekTimeUs) ∧
    ((pauseAudioForSeek s).mIsVideoSourceJpg = s.mIsVideoSourceJpg) ∧
    ((pauseAudioForSeek s).mVideoEventPending = s.mVideoEventPending) ∧
    ((pauseAudioForSeek s).mStreamDoneEventPending = s.mStreamDoneEventPending) := by
  refine ⟨?_, ?_, ?_, ?_, ?_, ?_, ?_, ?_⟩ <;> simp only [pauseAudioForSeek] <;> (repeat' split) <;> first | rfl | simp_all [renderOf, noteOf]

/-- What `pauseAudioForSeek` leaves unchanged (sources, clock and pending marks). -/
@[simp] theorem pauseAudioForSeek_wiring (s : Player) :
    ((pauseAudioForSeek s).mStreamDoneStatus = s.mStreamDoneStatus) ∧
    ((pauseAudioForSeek s).mAudioPlayer = s.mAudioPlayer) ∧
    ((pauseAudioForSeek s).mAudioSource = s.mAudioSource) ∧
    ((pauseAudioForSeek s).mVideoSource = s.mVideoSource) ∧
    ((pauseAudioForSeek s).mTimeSource = s.mTimeSource) ∧
    ((pauseAudioForSeek s).mTimeSourceDeltaUs = s.mTimeSourceDeltaUs) ∧
    ((pauseAudioForSeek s).mOverlayUpdateEventPosted = s.mOverlayUpdateEventPosted) := by
  refine ⟨?_, ?_, ?_, ?_, ?_, ?_, ?_⟩ <;> simp only [pauseAudioForSeek] <;> (repeat' split) <;> first | rfl | simp_all [renderOf, noteOf]

/-- What `pauseAudioForSeek` leaves unchanged (the counts of the seek-complete and start-next
notifications and the marks that guard them). -/
@[simp] theorem pauseAudioForSeek_notices (s : Player) :
    (seekCompleteCount (pauseAudioForSeek s).trace = seekCompleteCount s.trace) ∧
    ((pauseAudioForSeek s).mSeekNotificationSent = s.mSeekNotificationSent) ∧
    (startNextCount (pauseAudioForSeek s).trace = startNextCount s.trace) ∧
    ((pauseAudioForSeek s).mStartNextPlayer = s.mStartNextPlayer) := by
  refine ⟨?_, ?_, ?_, ?_⟩ <;> simp only [pauseAudioForSeek] <;> (repeat' split) <;> first | rfl | simp_all [renderOf, noteOf]

/-- What `pauseAudioForSeek` leaves unchanged (the abort mark and the seek state). -/
@[simp] theorem pauseAudioForSeek_process (s : Player) :
    ((pauseAudioForSeek s).aborted = s.aborted) ∧
    ((pauseAudioForSeek s).mSeeking = s.mSeeking) := by
  refine ⟨?_, ?_⟩ <;> simp only [pauseAudioForSeek] <;> (repeat' split) <;> first | rfl | simp_all [renderOf, noteOf]

/-- What `setVideoFormat` leaves unchanged (settings, render calls, completion count, flags). -/
@[simp] theorem setVideoFormat_frame (width height : Int) (s : Player) :
    ((setVideoFormat width height s).cfg = s.cfg) ∧
    (renders (setVideoFormat width height s).trace = renders s.trace) ∧
    (playbackCompleteCount (setVideoFormat width height s).trace = playbackCompleteCount s.trace) ∧
    ((setVideoFormat width height s).mFlags = s.mFlags) := by
  refine ⟨?_, ?_, ?_, ?_⟩ <;> simp only [setVideoFormat] <;> (repeat' split) <;> first | rfl | simp_all [renderOf, noteOf]

/-- What `setVideoFormat` leaves unchanged (fields of the video loop). -/
@[simp] theorem setVideoFormat_fields (width height : Int) (s : Player) :
    ((setVideoFormat width height s).mCurrentVideoEffect = s.mCurrentVideoEffect) ∧
    ((setVideoFormat width height s).mVideoRenderer = s.mVideoRenderer) ∧
    ((setVideoFormat width height s).mVideoBuffer = s.mVideoBuffer) ∧
    ((setVideoFormat width height s).mSeeking = s.mSeeking) ∧
    ((setVideoFormat width height s).mSeekTimeUs = s.mSeekTimeUs) ∧
    ((setVideoFormat width height s).mIsVideoSourceJpg = s.mIsVideoSourceJpg) ∧
    ((setVideoFormat width height s).mVideoEventPending = s.mVideoEventPending) ∧
    ((setVideoFormat width height s).mStreamDoneEventPending = s.mStreamDoneEventPending) := by
  refine ⟨?_, ?_, ?_, ?_, ?_, ?_, ?_, ?_⟩ <;> simp only [setVideoFormat] <;> (repeat' split) <;> first | rfl | simp_all [renderOf, noteOf]

/-- What `setVideoFormat` leaves unchanged (sources, clock and pending marks). -/
@[simp] theorem setVideoFormat_wiring (width height : Int) (s : Player) :
    ((setVideoFormat width height s).mStreamDoneStatus = s.mStreamDoneStatus) ∧
    ((setVideoFormat width height s).mAudioPlayer = s.mAudioPlayer) ∧
    ((setVideoFormat width height s).mAudioSource = s.mAudioSource) ∧
    ((setVideoFormat width height s).mTimeSource = s.mTimeSource) ∧
    ((setVideoFormat width height s).mTimeSourceDeltaUs = s.mTimeSourceDeltaUs) ∧
    ((setVideoFormat width height s).mOverlayUpdateEventPosted = s.mOverlayUpdateEventPosted) := by
  refine ⟨?_, ?_, ?_, ?_, ?_, ?_⟩ <;> simp only [setVideoFormat] <;> (repeat' split) <;> first | rfl | simp_all [renderOf, noteOf]

/-- What `setVideoFormat` leaves unchanged (the counts of the seek-complete and start-next
notifications and the marks that guard them). -/
@[simp] theorem setVideoFormat_notices (width height : Int) (s : Player) :
    (seekCompleteCount (setVideoFormat width height s).trace = seekCompleteCount s.trace) ∧
    ((setVideoFormat width height s).mSeekNotificationSent = s.mSeekNotificationSent) ∧
    (startNextCount (setVideoFormat width height s).trace = startNextCount s.trace) ∧
    ((setVideoFormat width height s).mStartNextPlayer = s.mStartNextPlayer) := by
  refine ⟨?_, ?_, ?_, ?_⟩ <;> simp only [setVideoFormat] <;> (repeat' split) <;> first | rfl | simp_all [renderOf, noteOf]

/-- What `setVideoFormat` leaves unchanged (the abort mark and the seek state). -/
@[simp] theorem setVideoFormat_process (width height : Int) (s : Player) :
    ((setVideoFormat width height s).aborted = s.aborted) ∧
    ((setVideoFormat width height s).mSeeking = s.mSeeking) := by
  refine ⟨?_, ?_⟩ <;> simp only [setVideoFormat] <;> (repeat' split) <;> first | rfl | simp_all [renderOf, noteOf]

/-- What `onFormatChanged_renderer` leaves unchanged (settings, render calls, completion count,
flags). -/
@[simp] theorem onFormatChanged_renderer_frame (s : Player) :
    ((onFormatChanged_renderer s).cfg = s.cfg) ∧
    (renders (onFormatChanged_renderer s).trace = renders s.trace) ∧
    (playbackCompleteCount (onFormatChanged_renderer s).trace = playbackCompleteCount s.trace) ∧
    ((onFormatChanged_renderer s).mFlags = s.mFlags) := by
  refine ⟨?_, ?_, ?_, ?_⟩ <;> simp only [onFormatChanged_renderer] <;> (repeat' split) <;> first | rfl | simp_all [renderOf, noteOf]

/-- What `onFormatChanged_renderer` leaves unchanged (fields of the video loop). -/
@[simp] theorem onFormatChanged_renderer_fields (s : Player) :
    ((onFormatChanged_renderer s).mCurrentVideoEffect = s.mCurrentVideoEffect) ∧
    ((onFormatChanged_renderer s).mVideoBuffer = s.mVideoBuffer) ∧
    ((onFormatChanged_renderer s).mSeeking = s.mSeeking) ∧
    ((onFormatChanged_renderer s).mSeekTimeUs = s.mSeekTimeUs) ∧
    ((onFormatChanged_renderer s).mIsVideoSourceJpg = s.mIsVideoSourceJpg) ∧
    ((onFormatChanged_renderer s).mVideoEventPending = s.mVideoEventPending) ∧
    ((onFormatChanged_renderer s).mStreamDoneEventPending = s.mStreamDoneEventPending) := by
  refine ⟨?_, ?_, ?_, ?_, ?_, ?_, ?_⟩ <;> simp only [onFormatChanged_renderer] <;> (repeat' split) <;> first | rfl | simp_all [renderOf, noteOf]

/-- What `onFormatChanged_renderer` leaves unchanged (sources, clock and pending marks). -/
@[simp] theorem onFormatChanged_renderer_wiring (s : Player) :
    ((onFormatChanged_renderer s).mStreamDoneStatus = s.mStreamDoneStatus) ∧
    ((onFormatChanged_renderer s).mAudioPlayer = s.mAudioPlayer) ∧
    ((onFormatChanged_renderer s).mAudioSource = s.mAudioSource) ∧
    ((onFormatChanged_renderer s).mVideoSource = s.mVideoSource) ∧
    ((onFormatChanged_renderer s).mTimeSource = s.mTimeSource) ∧
    ((onFormatChanged_renderer s).mTimeSourceDeltaUs = s.mTimeSourceDeltaUs) ∧
    ((onFormatChanged_renderer s).mOverlayUpdateEventPosted = s.mOverlayUpdateEventPosted) := by
  refine ⟨?_, ?_, ?_, ?_, ?_, ?_, ?_⟩ <;> simp only [onFormatChanged_renderer] <;> (repeat' split) <;> first | rfl | simp_all [renderOf, noteOf]

/-- What `onFormatChanged_renderer` leaves unchanged (the counts of the seek-complete and
start-next notifications and the marks that guard them). -/
@[simp] theorem onFormatChanged_renderer_notices (s : Player) :
    (seekCompleteCount (onFormatChanged_renderer s).trace = seekCompleteCount s.trace) ∧
    ((onFormatChanged_renderer s).mSeekNotificationSent = s.mSeekNotificationSent) ∧
    (startNextCount (onFormatChanged_renderer s).trace = startNextCount s.trace) ∧
    ((onFormatChanged_renderer s).mStartNextPlayer = s.mStartNextPlayer) := by
  refine ⟨?_, ?_, ?_, ?_⟩ <;> simp only [onFormatChanged_renderer] <;> (repeat' split) <;> first | rfl | simp_all [renderOf, noteOf]

/-- What `onFormatChanged_renderer` leaves unchanged (the abort mark and the seek state). -/
@[simp] theorem onFormatChanged_renderer_process (s : Player) :
    ((onFormatChanged_renderer s).aborted = s.aborted) ∧
    ((onFormatChanged_renderer s).mSeeking = s.mSeeking) := by
  refine ⟨?_, ?_⟩ <;> simp only [onFormatChanged_renderer] <;> (repeat' split) <;> first | rfl | simp_all [renderOf, noteOf]

/-- What `onFormatChanged` leaves unchanged (settings, render calls, completion count, flags). -/
@[simp] theorem onFormatChanged_frame (width height : Int) (s : Player) :
    ((onFormatChanged width height s).cfg = s.cfg) ∧
    (renders (onFormatChanged width height s).trace = renders s.trace) ∧
    (playbackCompleteCount (onFormatChanged width height s).trace = playbackCompleteCount s.trace) ∧
    ((onFormatChanged width height s).mFlags = s.mFlags) := by
  refine ⟨?_, ?_, ?_, ?_⟩ <;> simp only [onFormatChanged] <;> (repeat' split) <;> first | rfl | simp_all [renderOf, noteOf]

/-- What `onFormatChanged` leaves unchanged (fields of the video loop). -/
@[simp] theorem onFormatChanged_fields (width height : Int) (s : Player) :
    ((onFormatChanged width height s).mCurrentVideoEffect = s.mCurrentVideoEffect) ∧
    ((onFormatChanged width height s).mVideoBuffer = s.mVideoBuffer) ∧
    ((onFormatChanged width height s).mSeeking = s.mSeeking) ∧
    ((onFormatChanged width height s).mSeekTimeUs = s.mSeekTimeUs) ∧
    ((onFormatChanged width height s).mIsVideoSourceJpg = s.mIsVideoSourceJpg) ∧
    ((onFormatChanged width height s).mVideoEventPending = s.mVideoEventPending) ∧
    ((onFormatChanged width height s).mStreamDoneEventPending = s.mStreamDoneEventPending) := by
  refine ⟨?_, ?_, ?_, ?_, ?_, ?_, ?_⟩ <;> simp only [onFormatChanged] <;> (repeat' split) <;> first | rfl | simp_all [renderOf, noteOf]

/-- What `onFormatChanged` leaves unchanged (sources, clock and pending marks). -/
@[simp] theorem onFormatChanged_wiring (width height : Int) (s : Player) :
    ((onFormatChanged width height s).mStreamDoneStatus = s.mStreamDoneStatus) ∧
    ((onFormatChanged width height s).mAudioPlayer = s.mAudioPlayer) ∧
    ((onFormatChanged width height s).mAudioSource = s.mAudioSource) ∧
    ((onFormatChanged width height s).mTimeSource = s.mTimeSource) ∧
    ((onFormatChanged width height s).mTimeSourceDeltaUs = s.mTimeSourceDeltaUs) ∧
    ((onFormatChanged width height s).mOverlayUpdateEventPosted = s.mOverlayUpdateEventPosted) := by
  refine ⟨?_, ?_, ?_, ?_, ?_, ?_⟩ <;> simp only [onFormatChanged] <;> (repeat' split) <;> first | rfl | simp_all [renderOf, noteOf]

/-- What `onFormatChanged` leaves unchanged (the counts of the seek-complete and start-next
notifications and the marks that guard them). -/
@[simp] theorem onFormatChanged_notices (width height : Int) (s : Player) :
    (seekCompleteCount (onFormatChanged width height s).trace = seekCompleteCount s.trace) ∧
    ((onFormatChanged width height s).mSeekNotificationSent = s.mSeekNotificationSent) ∧
    (startNextCount (onFormatChanged width height s).trace = startNextCount s.trace) ∧
    ((onFormatChanged width height s).mStartNextPlayer = s.mStartNextPlayer) := by
  refine ⟨?_, ?_, ?_, ?_⟩ <;> simp only [onFormatChanged] <;> (repeat' split) <;> first | rfl | simp_all [renderOf, noteOf]

/-- What `onFormatChanged` leaves unchanged (the abort mark and the seek state). -/
@[simp] theorem onFormatChanged_process (width height : Int) (s : Player) :
    ((onFormatChanged width height s).aborted = s.aborted) ∧
    ((onFormatChanged width height s).mSeeking = s.mSeeking) := by
  refine ⟨?_, ?_⟩ <;> simp only [onFormatChanged] <;> (repeat' split) <;> first | rfl | simp_all [renderOf, noteOf]

/-- What `onReadError` leaves unchanged (settings, render calls, completion count, flags). -/
@[simp] theorem onReadError_frame (err : Status) (s : Player) :
    ((onReadError err s).cfg = s.cfg) ∧
    (renders (onReadError err s).trace = renders s.trace) ∧
    (playbackCompleteCount (onReadError err s).trace = playbackCompleteCount s.trace) := by
  refine ⟨?_, ?_, ?_⟩ <;> simp only [onReadError] <;> (repeat' split) <;> first | rfl | simp_all [renderOf, noteOf]

/-- What `onReadError` leaves unchanged (flags). -/
@[simp] theorem onReadError_flags (err : Status) (s : Player) :
    ((onReadError err s).mFlags.PLAYING = s.mFlags.PLAYING) ∧
    ((onReadError err s).mFlags.AT_EOS = s.mFlags.AT_EOS) ∧
    ((onReadError err s).mFlags.INFORMED_AV_EOS = s.mFlags.INFORMED_AV_EOS) ∧
    ((onReadError err s).mFlags.CACHE_UNDERRUN = s.mFlags.CACHE_UNDERRUN) ∧
    ((onReadError err s).mFlags.LOOPING = s.mFlags.LOOPING) ∧
    ((onReadError err s).mFlags.AUTO_LOOPING = s.mFlags.AUTO_LOOPING) ∧
    ((onReadError err s).mFlags.SEEK_PREVIEW = s.mFlags.SEEK_PREVIEW) ∧
    ((onReadError err s).mFlags.AUDIO_RUNNING = s.mFlags.AUDIO_RUNNING) := by
  refine ⟨?_, ?_, ?_, ?_, ?_, ?_, ?_, ?_⟩ <;> simp only [onReadError] <;> (repeat' split) <;> first | rfl | simp_all [renderOf, noteOf]

/-- What `onReadError` leaves unchanged (fields of the video loop). -/
@[simp] theorem onReadError_fields (err : Status) (s : Player) :
    ((onReadError err s).mCurrentVideoEffect = s.mCurrentVideoEffect) ∧
    ((onReadError err s).mVideoRenderer = s.mVideoRenderer) ∧
    ((onReadError err s).mVideoBuffer = s.mVideoBuffer) ∧
    ((onReadError err s).mSeekTimeUs = s.mSeekTimeUs) ∧
    ((onReadError err s).mIsVideoSourceJpg = s.mIsVideoSourceJpg) ∧
    ((onReadError err s).mVideoEventPending = s.mVideoEventPending) := by
  refine ⟨?_, ?_, ?_, ?_, ?_, ?_⟩ <;> simp only [onReadError] <;> (repeat' split) <;> first | rfl | simp_all [renderOf, noteOf]

/-- What `onReadError` leaves unchanged (sources, clock and pending marks). -/
@[simp] theorem onReadError_wiring (err : Status) (s : Player) :
    ((onReadError err s).mAudioPlayer = s.mAudioPlayer) ∧
    ((onReadError err s).mAudioSource = s.mAudioSource) ∧
    ((onReadError err s).mVideoSource = s.mVideoSource) ∧
    ((onReadError err s).mTimeSource = s.mTimeSource) ∧
    ((onReadError err s).mTimeSourceDeltaUs = s.mTimeSourceDeltaUs) := by
  refine ⟨?_, ?_, ?_, ?_, ?_⟩ <;> simp only [onReadError] <;> (repeat' split) <;> first | rfl | simp_all [renderOf, noteOf]

/-- What `onReadError` leaves unchanged (the counts of the seek-complete and start-next
notifications and the marks that guard them). -/
@[simp] theorem onReadError_notices (err : Status) (s : Player) :
    (startNextCount (onReadError err s).trace = startNextCount s.trace) ∧
    ((onReadError err s).mStartNextPlayer = s.mStartNextPlayer) := by
  refine ⟨?_, ?_⟩ <;> simp only [onReadError] <;> (repeat' split) <;> first | rfl | simp_all [renderOf, noteOf]

/-- What `onReadError` leaves unchanged (the abort mark and the seek state). -/
@[simp] theorem onReadError_process (err : Status) (s : Player) :
    (onReadError err s).aborted = s.aborted := by
  simp only [onReadError] <;> (repeat' split) <;> first | rfl | simp_all [renderOf, noteOf]

/-- What `readVideoLoop` leaves unchanged (settings, render calls, completion count, flags). -/
@[simp] theorem readVideoLoop_frame (reads : List ReadResult) (s : Player) :
    ((readVideoLoop reads s).cfg = s.cfg) ∧
    (renders (readVideoLoop reads s).trace = renders s.trace) ∧
    (playbackCompleteCount (readVideoLoop reads s).trace = playbackCompleteCount s.trace) := by
  refine ⟨?_, ?_, ?_⟩ <;> (induction reads generalizing s with
    | nil => simp [readVideoLoop]
    | cons r rest ih =>
      cases r <;> simp only [readVideoLoop] <;> (repeat' split) <;> first | rfl | simp_all [renderOf, noteOf])

/-- What `readVideoLoop` leaves unchanged (flags). -/
@[simp] theorem readVideoLoop_flags (reads : List ReadResult) (s : Player) :
    ((readVideoLoop reads s).mFlags.PLAYING = s.mFlags.PLAYING) ∧
    ((readVideoLoop reads s).mFlags.AT_EOS = s.mFlags.AT_EOS) ∧
    ((readVideoLoop reads s).mFlags.INFORMED_AV_EOS = s.mFlags.INFORMED_AV_EOS) ∧
    ((readVideoLoop reads s).mFlags.CACHE_UNDERRUN = s.mFlags.CACHE_UNDERRUN) ∧
    ((readVideoLoop reads s).mFlags.LOOPING = s.mFlags.LOOPING) ∧
    ((readVideoLoop reads s).mFlags.AUTO_LOOPING = s.mFlags.AUTO_LOOPING) ∧
    ((readVideoLoop reads s).mFlags.SEEK_PREVIEW = s.mFlags.SEEK_PREVIEW) ∧
    ((readVideoLoop reads s).mFlags.AUDIO_RUNNING = s.mFlags.AUDIO_RUNNING) := by
  refine ⟨?_, ?_, ?_, ?_, ?_, ?_, ?_, ?_⟩ <;> (induction reads generalizing s with
    | nil => simp [readVideoLoop]
    | cons r rest ih =>
      cases r <;> simp only [readVideoLoop] <;> (repeat' split) <;> first | rfl | simp_all [renderOf, noteOf])

/-- What `readVideoLoop` leaves unchanged (fields of the video loop). -/
@[simp] theorem readVideoLoop_fields (reads : List ReadResult) (s : Player) :
    ((readVideoLoop reads s).mCurrentVideoEffect = s.mCurrentVideoEffect) ∧
    ((readVideoLoop reads s).mSeekTimeUs = s.mSeekTimeUs) ∧
    ((readVideoLoop reads s).mIsVideoSourceJpg = s.mIsVideoSourceJpg) ∧
    ((readVideoLoop reads s).mVideoEventPending = s.mVideoEventPending) := by
  refine ⟨?_, ?_, ?_, ?_⟩ <;> (induction reads generalizing s with
    | nil => simp [readVideoLoop]
    | cons r rest ih =>
      cases r <;> simp only [readVideoLoop] <;> (repeat' split) <;> first | rfl | simp_all [renderOf, noteOf])

/-- What `readVideoLoop` leaves unchanged (sources, clock and pending marks). -/
@[simp] theorem readVideoLoop_wiring (reads : List ReadResult) (s : Player) :
    ((readVideoLoop reads s).mAudioPlayer = s.mAudioPlayer) ∧
    ((readVideoLoop reads s).mAudioSource = s.mAudioSource) ∧
    ((readVideoLoop reads s).mTimeSource = s.mTimeSource) ∧
    ((readVideoLoop reads s).mTimeSourceDeltaUs = s.mTimeSourceDeltaUs) := by
  refine ⟨?_, ?_, ?_, ?_⟩ <;> (induction reads generalizing s with
    | nil => simp [readVideoLoop]
    | cons r rest ih =>
      cases r <;> simp only [readVideoLoop] <;> (repeat' split) <;> first | rfl | simp_all [renderOf, noteOf])

/-- What `readVideoLoop` leaves unchanged (the counts of the seek-complete and start-next
notifications and the marks that guard them). -/
@[simp] theorem readVideoLoop_notices (reads : List ReadResult) (s : Player) :
    (startNextCount (readVideoLoop reads s).trace = startNextCount s.trace) ∧
    ((readVideoLoop reads s).mStartNextPlayer = s.mStartNextPlayer) := by
  refine ⟨?_, ?_⟩ <;> (induction reads generalizing s with
    | nil => simp [readVideoLoop]
    | cons r rest ih =>
      cases r <;> simp only [readVideoLoop] <;> (repeat' split) <;> first | rfl | simp_all [renderOf, noteOf])

/-- What `readVideoLoop` leaves unchanged (the abort mark and the seek state). -/
@[simp] theorem readVideoLoop_process (reads : List ReadResult) (s : Player) :
    (readVideoLoop reads s).aborted = s.aborted := by
  (induction reads generalizing s with
    | nil => simp [readVideoLoop]
    | cons r rest ih =>
      cases r <;> simp only [readVideoLoop] <;> (repeat' split) <;> first | rfl | simp_all [renderOf, noteOf])

/-- What `fetchFrame` leaves unchanged (settings, render calls, completion count, flags). -/
@[simp] theorem fetchFrame_frame (s : Player) :
    ((fetchFrame s).cfg = s.cfg) ∧
    (renders (fetchFrame s).trace = renders s.trace) ∧
    (playbackCompleteCount (fetchFrame s).trace = playbackCompleteCount s.trace) := by
  refine ⟨?_, ?_, ?_⟩ <;> simp only [fetchFrame] <;> (repeat' split) <;> first | rfl | simp_all [renderOf, noteOf]

/-- What `fetchFrame` leaves unchanged (flags). -/
@[simp] theorem fetchFrame_flags (s : Player) :
    ((fetchFrame s).mFlags.PLAYING = s.mFlags.PLAYING) ∧
    ((fetchFrame s).mFlags.AT_EOS = s.mFlags.AT_EOS) ∧
    ((fetchFrame s).mFlags.INFORMED_AV_EOS = s.mFlags.INFORMED_AV_EOS) ∧
    ((fetchFrame s).mFlags.CACHE_UNDERRUN = s.mFlags.CACHE_UNDERRUN) ∧
    ((fetchFrame s).mFlags.LOOPING = s.mFlags.LOOPING) ∧
    ((fetchFrame s).mFlags.AUTO_LOOPING = s.mFlags.AUTO_LOOPING) ∧
    ((fetchFrame s).mFlags.SEEK_PREVIEW = s.mFlags.SEEK_PREVIEW) ∧
    ((fetchFrame s).mFlags.AUDIO_RUNNING = s.mFlags.AUDIO_RUNNING) := by
  refine ⟨?_, ?_, ?_, ?_, ?_, ?_, ?_, ?_⟩ <;> simp only [fetchFrame] <;> (repeat' split) <;> first | rfl | simp_all [renderOf, noteOf]

/-- What `fetchFrame` leaves unchanged (fields of the video loop). -/
@[simp] theorem fetchFrame_fields (s : Player) :
    ((fetchFrame s).mCurrentVideoEffect = s.mCurrentVideoEffect) ∧
    ((fetchFrame s).mSeekTimeUs = s.mSeekTimeUs) ∧
    ((fetchFrame s).mIsVideoSourceJpg = s.mIsVideoSourceJpg) ∧
    ((fetchFrame s).mVideoEventPending = s.mVideoEventPending) := by
  refine ⟨?_, ?_, ?_, ?_⟩ <;> simp only [fetchFrame] <;> (repeat' split) <;> first | rfl | simp_all [renderOf, noteOf]

/-- What `fetchFrame` leaves unchanged (sources, clock and pending marks). -/
@[simp] theorem fetchFrame_wiring (s : Player) :
    ((fetchFrame s).mAudioPlayer = s.mAudioPlayer) ∧
    ((fetchFrame s).mAudioSource = s.mAudioSource) ∧
    ((fetchFrame s).mTimeSource = s.mTimeSource) ∧
    ((fetchFrame s).mTimeSourceDeltaUs = s.mTimeSourceDeltaUs) := by
  refine ⟨?_, ?_, ?_, ?_⟩ <;> simp only [fetchFrame] <;> (repeat' split) <;> first | rfl | simp_all [renderOf, noteOf]

/-- What `fetchFrame` leaves unchanged (the counts of the seek-complete and start-next
notifications and the marks that guard them). -/
@[simp] theorem fetchFrame_notices (s : Player) :
    (startNextCount (fetchFrame s).trace = startNextCount s.trace) ∧
    ((fetchFrame s).mStartNextPlayer = s.mStartNextPlayer) := by
  refine ⟨?_, ?_⟩ <;> simp only [fetchFrame] <;> (repeat' split) <;> first | rfl | simp_all [renderOf, noteOf]

/-- What `fetchFrame` leaves unchanged (the abort mark and the seek state). -/
@[simp] theorem fetchFrame_process (s : Player) :
    (fetchFrame s).aborted = s.aborted := by
  simp only [fetchFrame] <;> (repeat' split) <;> first | rfl | simp_all [renderOf, noteOf]

/-- What `countFrame` leaves unchanged (settings, render calls, completion count, flags). -/
@[simp] theorem countFrame_frame (timeUs : Int) (s : Player) :
    ((countFrame timeUs s).cfg = s.cfg) ∧
    (renders (countFrame timeUs s).trace = renders s.trace) ∧
    (playbackCompleteCount (countFrame timeUs s).trace = playbackCompleteCount s.trace) ∧
    ((countFrame timeUs s).mFlags = s.mFlags) := by
  refine ⟨?_, ?_, ?_, ?_⟩ <;> simp only [countFrame] <;> (repeat' split) <;> first | rfl | simp_all [renderOf, noteOf]

/-- What `countFrame` leaves unchanged (fields of the video loop). -/
@[simp] theorem countFrame_fields (timeUs : Int) (s : Player) :
    ((countFrame timeUs s).mCurrentVideoEffect = s.mCurrentVideoEffect) ∧
    ((countFrame timeUs s).mVideoRenderer = s.mVideoRenderer) ∧
    ((countFrame timeUs s).mVideoBuffer = s.mVideoBuffer) ∧
    ((countFrame timeUs s).mSeeking = s.mSeeking) ∧
    ((countFrame timeUs s).mSeekTimeUs = s.mSeekTimeUs) ∧
    ((countFrame timeUs s).mIsVideoSourceJpg = s.mIsVideoSourceJpg) ∧
    ((countFrame timeUs s).mVideoEventPending = s.mVideoEventPending) ∧
    ((countFrame timeUs s).mStreamDoneEventPending = s.mStreamDoneEventPending) := by
  refine ⟨?_, ?_, ?_, ?_, ?_, ?_, ?_, ?_⟩ <;> simp only [countFrame] <;> (repeat' split) <;> first | rfl | simp_all [renderOf, noteOf]

/-- What `countFrame` leaves unchanged (sources, clock and pending marks). -/
@[simp] theorem countFrame_wiring (timeUs : Int) (s : Player) :
    ((countFrame timeUs s).mStreamDoneStatus = s.mStreamDoneStatus) ∧
    ((countFrame timeUs s).mAudioPlayer = s.mAudioPlayer) ∧
    ((countFrame timeUs s).mAudioSource = s.mAudioSource) ∧
    ((countFrame timeUs s).mVideoSource = s.mVideoSource) ∧
    ((countFrame timeUs s).mTimeSource = s.mTimeSource) ∧
    ((countFrame timeUs s).mTimeSourceDeltaUs = s.mTimeSourceDeltaUs) ∧
    ((countFrame timeUs s).mOverlayUpdateEventPosted = s.mOverlayUpdateEventPosted) := by
  refine ⟨?_, ?_, ?_, ?_, ?_, ?_, ?_⟩ <;> simp only [countFrame] <;> (repeat' split) <;> first | rfl | simp_all [renderOf, noteOf]

/-- What `countFrame` leaves unchanged (the counts of the seek-complete and start-next
notifications and the marks that guard them). -/
@[simp] theorem countFrame_notices (timeUs : Int) (s : Player) :
    (seekCompleteCount (countFrame timeUs s).trace = seekCompleteCount s.trace) ∧
    ((countFrame timeUs s).mSeekNotificationSent = s.mSeekNotificationSent) ∧
    (startNextCount (countFrame timeUs s).trace = startNextCount s.trace) ∧
    ((countFrame timeUs s).mStartNextPlayer = s.mStartNextPlayer) := by
  refine ⟨?_, ?_, ?_, ?_⟩ <;> simp only [countFrame] <;> (repeat' split) <;> first | rfl | simp_all [renderOf, noteOf]

/-- What `countFrame` leaves unchanged (the abort mark and the seek state). -/
@[simp] theorem countFrame_process (timeUs : Int) (s : Player) :
    ((countFrame timeUs s).aborted = s.aborted) ∧
    ((countFrame timeUs s).mSeeking = s.mSeeking) := by
  refine ⟨?_, ?_⟩ <;> simp only [countFrame] <;> (repeat' split) <;> first | rfl | simp_all [renderOf, noteOf]

/-- What `notifyStartNext` leaves unchanged (settings, render calls, completion count, flags). -/
@[simp] theorem notifyStartNext_frame (timeUs : Int) (s : Player) :
    ((notifyStartNext timeUs s).cfg = s.cfg) ∧
    (renders (notifyStartNext timeUs s).trace = renders s.trace) ∧
    (playbackCompleteCount (notifyStartNext timeUs s).trace = playbackCompleteCount s.trace) ∧
    ((notifyStartNext timeUs s).mFlags = s.mFlags) := by
  refine ⟨?_, ?_, ?_, ?_⟩ <;> simp only [notifyStartNext] <;> (repeat' split) <;> first | rfl | simp_all [renderOf, noteOf]

/-- What `notifyStartNext` leaves unchanged (fields of the video loop). -/
@[simp] theorem notifyStartNext_fields (timeUs : Int) (s : Player) :
    ((notifyStartNext timeUs s).mCurrentVideoEffect = s.mCurrentVideoEffect) ∧
    ((notifyStartNext timeUs s).mVideoRenderer = s.mVideoRenderer) ∧
    ((notifyStartNext timeUs s).mVideoBuffer = s.mVideoBuffer) ∧
    ((notifyStartNext timeUs s).mSeeking = s.mSeeking) ∧
    ((notifyStartNext timeUs s).mSeekTimeUs = s.mSeekTimeUs) ∧
    ((notifyStartNext timeUs s).mIsVideoSourceJpg = s.mIsVideoSourceJpg) ∧
    ((notifyStartNext timeUs s).mVideoEventPending = s.mVideoEventPending) ∧
    ((notifyStartNext timeUs s).mStreamDoneEventPending = s.mStreamDoneEventPending) := by
  refine ⟨?_, ?_, ?_, ?_, ?_, ?_, ?_, ?_⟩ <;> simp only [notifyStartNext] <;> (repeat' split) <;> first | rfl | simp_all [renderOf, noteOf]

/-- What `notifyStartNext` leaves unchanged (sources, clock and pending marks). -/
@[simp] theorem notifyStartNext_wiring (timeUs : Int) (s : Player) :
    ((notifyStartNext timeUs s).mStreamDoneStatus = s.mStreamDoneStatus) ∧
    ((notifyStartNext timeUs s).mAudioPlayer = s.mAudioPlayer) ∧
    ((notifyStartNext timeUs s).mAudioSource = s.mAudioSource) ∧
    ((notifyStartNext timeUs s).mVideoSource = s.mVideoSource) ∧
    ((notifyStartNext timeUs s).mTimeSource = s.mTimeSource) ∧
    ((notifyStartNext timeUs s).mTimeSourceDeltaUs = s.mTimeSourceDeltaUs) ∧
    ((notifyStartNext timeUs s).mOverlayUpdateEventPosted = s.mOverlayUpdateEventPosted) := by
  refine ⟨?_, ?_, ?_, ?_, ?_, ?_, ?_⟩ <;> simp only [notifyStartNext] <;> (repeat' split) <;> first | rfl | simp_all [renderOf, noteOf]

/-- What `notifyStartNext` leaves unchanged (the counts of the seek-complete and start-next
notifications and the marks that guard them). -/
@[simp] theorem notifyStartNext_notices (timeUs : Int) (s : Player) :
    (seekCompleteCount (notifyStartNext timeUs s).trace = seekCompleteCount s.trace) ∧
    ((notifyStartNext timeUs s).mSeekNotificationSent = s.mSeekNotificationSent) := by
  refine ⟨?_, ?_⟩ <;> simp only [notifyStartNext] <;> (repeat' split) <;> first | rfl | simp_all [renderOf, noteOf]

/-- What `notifyStartNext` leaves unchanged (the abort mark and the seek state). -/
@[simp] theorem notifyStartNext_process (timeUs : Int) (s : Player) :
    ((notifyStartNext timeUs s).aborted = s.aborted) ∧
    ((notifyStartNext timeUs s).mSeeking = s.mSeeking) := by
  refine ⟨?_, ?_⟩ <;> simp only [notifyStartNext] <;> (repeat' split) <;> first | rfl | simp_all [renderOf, noteOf]

/-- What `startAudioIfNeeded` leaves unchanged (settings, render calls, completion count, flags). -/
@[simp] theorem startAudioIfNeeded_frame (env : Env) (s : Player) :
    ((startAudioIfNeeded env s).2.cfg = s.cfg) ∧
    (renders (startAudioIfNeeded env s).2.trace = renders s.trace) ∧
    (playbackCompleteCount (startAudioIfNeeded env s).2.trace = playbackCompleteCount s.trace) := by
  refine ⟨?_, ?_, ?_⟩ <;> simp only [startAudioIfNeeded] <;> (repeat' split) <;> first | rfl | simp_all [renderOf, noteOf]

/-- What `startAudioIfNeeded` leaves unchanged (flags). -/
@[simp] theorem startAudioIfNeeded_flags (env : Env) (s : Player) :
    ((startAudioIfNeeded env s).2.mFlags.PLAYING = s.mFlags.PLAYING) ∧
    ((startAudioIfNeeded env s).2.mFlags.AT_EOS = s.mFlags.AT_EOS) ∧
    ((startAudioIfNeeded env s).2.mFlags.INFORMED_AV_EOS = s.mFlags.INFORMED_AV_EOS) ∧
    ((startAudioIfNeeded env s).2.mFlags.CACHE_UNDERRUN = s.mFlags.CACHE_UNDERRUN) ∧
    ((startAudioIfNeeded env s).2.mFlags.LOOPING = s.mFlags.LOOPING) ∧
    ((startAudioIfNeeded env s).2.mFlags.AUTO_LOOPING = s.mFlags.AUTO_LOOPING) ∧
    ((startAudioIfNeeded env s).2.mFlags.VIDEO_AT_EOS = s.mFlags.VIDEO_AT_EOS) ∧
    ((startAudioIfNeeded env s).2.mFlags.AUDIO_AT_EOS = s.mFlags.AUDIO_AT_EOS) ∧
    ((startAudioIfNeeded env s).2.mFlags.FIRST_FRAME = s.mFlags.FIRST_FRAME) ∧
    ((startAudioIfNeeded env s).2.mFlags.SEEK_PREVIEW = s.mFlags.SEEK_PREVIEW) := by
  refine ⟨?_, ?_, ?_, ?_, ?_, ?_, ?_, ?_, ?_, ?_⟩ <;> simp only [startAudioIfNeeded] <;> (repeat' split) <;> first | rfl | simp_all [renderOf, noteOf]

/-- What `startAudioIfNeeded` leaves unchanged (fields of the video loop). -/
@[simp] theorem startAudioIfNeeded_fields (env : Env) (s : Player) :
    ((startAudioIfNeeded env s).2.mCurrentVideoEffect = s.mCurrentVideoEffect) ∧
    ((startAudioIfNeeded env s).2.mVideoRenderer = s.mVideoRenderer) ∧
    ((startAudioIfNeeded env s).2.mVideoBuffer = s.mVideoBuffer) ∧
    ((startAudioIfNeeded env s).2.mSeeking = s.mSeeking) ∧
    ((startAudioIfNeeded env s).2.mSeekTimeUs = s.mSeekTimeUs) ∧
    ((startAudioIfNeeded env s).2.mIsVideoSourceJpg = s.mIsVideoSourceJpg) ∧
    ((startAudioIfNeeded env s).2.mVideoEventPending = s.mVideoEventPending) ∧
    ((startAudioIfNeeded env s).2.mStreamDoneEventPending = s.mStreamDoneEventPending) := by
  refine ⟨?_, ?_, ?_, ?_, ?_, ?_, ?_, ?_⟩ <;> simp only [startAudioIfNeeded] <;> (repeat' split) <;> first | rfl | simp_all [renderOf, noteOf]

/-- What `startAudioIfNeeded` leaves unchanged (sources, clock and pending marks). -/
@[simp] theorem startAudioIfNeeded_wiring (env : Env) (s : Player) :
    ((startAudioIfNeeded env s).2.mStreamDoneStatus = s.mStreamDoneStatus) ∧
    ((startAudioIfNeeded env s).2.mAudioPlayer = s.mAudioPlayer) ∧
    ((startAudioIfNeeded env s).2.mAudioSource = s.mAudioSource) ∧
    ((startAudioIfNeeded env s).2.mVideoSource = s.mVideoSource) ∧
    ((startAudioIfNeeded env s).2.mTimeSource = s.mTimeSource) ∧
    ((startAudioIfNeeded env s).2.mTimeSourceDeltaUs = s.mTimeSourceDeltaUs) ∧
    ((startAudioIfNeeded env s).2.mOverlayUpdateEventPosted = s.mOverlayUpdateEventPosted) := by
  refine ⟨?_, ?_, ?_, ?_, ?_, ?_, ?_⟩ <;> simp only [startAudioIfNeeded] <;> (repeat' split) <;> first | rfl | simp_all [renderOf, noteOf]

/-- What `startAudioIfNeeded` leaves unchanged (the counts of the seek-complete and start-next
notifications and the marks that guard them). -/
@[simp] theorem startAudioIfNeeded_notices (env : Env) (s : Player) :
    (seekCompleteCount (startAudioIfNeeded env s).2.trace = seekCompleteCount s.trace) ∧
    ((startAudioIfNeeded env s).2.mSeekNotificationSent = s.mSeekNotificationSent) ∧
    (startNextCount (startAudioIfNeeded env s).2.trace = startNextCount s.trace) ∧
    ((startAudioIfNeeded env s).2.mStartNextPlayer = s.mStartNextPlayer) := by
  refine ⟨?_, ?_, ?_, ?_⟩ <;> simp only [startAudioIfNeeded] <;> (repeat' split) <;> first | rfl | simp_all [renderOf, noteOf]

/-- What `startAudioIfNeeded` leaves unchanged (the abort mark and the seek state). -/
@[simp] theorem startAudioIfNeeded_process (env : Env) (s : Player) :
    ((startAudioIfNeeded env s).2.aborted = s.aborted) ∧
    ((startAudioIfNeeded env s).2.mSeeking = s.mSeeking) := by
  refine ⟨?_, ?_⟩ <;> simp only [startAudioIfNeeded] <;> (repeat' split) <;> first | rfl | simp_all [renderOf, noteOf]

/-- What `syncClock_first` leaves unchanged (settings, render calls, completion count, flags). -/
@[simp] theorem syncClock_first_frame (env : Env) (timeUs : Int) (s : Player) :
    ((syncClock_first env timeUs s).cfg = s.cfg) ∧
    (renders (syncClock_first env timeUs s).trace = renders s.trace) ∧
    (playbackCompleteCount (syncClock_first env timeUs s).trace = playbackCompleteCount s.trace) := by
  refine ⟨?_, ?_, ?_⟩ <;> simp only [syncClock_first] <;> (repeat' split) <;> first | rfl | simp_all [renderOf, noteOf]

/-- What `syncClock_first` leaves unchanged (flags). -/
@[simp] theorem syncClock_first_flags (env : Env) (timeUs : Int) (s : Player) :
    ((syncClock_first env timeUs s).mFlags.PLAYING = s.mFlags.PLAYING) ∧
    ((syncClock_first env timeUs s).mFlags.AT_EOS = s.mFlags.AT_EOS) ∧
    ((syncClock_first env timeUs s).mFlags.INFORMED_AV_EOS = s.mFlags.INFORMED_AV_EOS) ∧
    ((syncClock_first env timeUs s).mFlags.CACHE_UNDERRUN = s.mFlags.CACHE_UNDERRUN) ∧
    ((syncClock_first env timeUs s).mFlags.LOOPING = s.mFlags.LOOPING) ∧
    ((syncClock_first env timeUs s).mFlags.AUTO_LOOPING = s.mFlags.AUTO_LOOPING) ∧
    ((syncClock_first env timeUs s).mFlags.VIDEO_AT_EOS = s.mFlags.VIDEO_AT_EOS) ∧
    ((syncClock_first env timeUs s).mFlags.AUDIO_AT_EOS = s.mFlags.AUDIO_AT_EOS) ∧
    ((syncClock_first env timeUs s).mFlags.SEEK_PREVIEW = s.mFlags.SEEK_PREVIEW) ∧
    ((syncClock_first env timeUs s).mFlags.AUDIO_RUNNING = s.mFlags.AUDIO_RUNNING) := by
  refine ⟨?_, ?_, ?_, ?_, ?_, ?_, ?_, ?_, ?_, ?_⟩ <;> simp only [syncClock_first] <;> (repeat' split) <;> first | rfl | simp_all [renderOf, noteOf]

/-- What `syncClock_first` leaves unchanged (fields of the video loop). -/
@[simp] theorem syncClock_first_fields (env : Env) (timeUs : Int) (s : Player) :
    ((syncClock_first env timeUs s).mCurrentVideoEffect = s.mCurrentVideoEffect) ∧
    ((syncClock_first env timeUs s).mVideoRenderer = s.mVideoRenderer) ∧
    ((syncClock_first env timeUs s).mVideoBuffer = s.mVideoBuffer) ∧
    ((syncClock_first env timeUs s).mSeeking = s.mSeeking) ∧
    ((syncClock_first env timeUs s).mSeekTimeUs = s.mSeekTimeUs) ∧
    ((syncClock_first env timeUs s).mIsVideoSourceJpg = s.mIsVideoSourceJpg) ∧
    ((syncClock_first env timeUs s).mVideoEventPending = s.mVideoEventPending) ∧
    ((syncClock_first env timeUs s).mStreamDoneEventPending = s.mStreamDoneEventPending) := by
  refine ⟨?_, ?_, ?_, ?_, ?_, ?_, ?_, ?_⟩ <;> simp only [syncClock_first] <;> (repeat' split) <;> first | rfl | simp_all [renderOf, noteOf]

/-- What `syncClock_first` leaves unchanged (sources, clock and pending marks). -/
@[simp] theorem syncClock_first_wiring (env : Env) (timeUs : Int) (s : Player) :
    ((syncClock_first env timeUs s).mStreamDoneStatus = s.mStreamDoneStatus) ∧
    ((syncClock_first env timeUs s).mAudioPlayer = s.mAudioPlayer) ∧
    ((syncClock_first env timeUs s).mAudioSource = s.mAudioSource) ∧
    ((syncClock_first env timeUs s).mVideoSource = s.mVideoSource) ∧
    ((syncClock_first env timeUs s).mTimeSource = s.mTimeSource) ∧
    ((syncClock_first env timeUs s).mOverlayUpdateEventPosted = s.mOverlayUpdateEventPosted) := by
  refine ⟨?_, ?_, ?_, ?_, ?_, ?_⟩ <;> simp only [syncClock_first] <;> (repeat' split) <;> first | rfl | simp_all [renderOf, noteOf]

/-- What `syncClock_first` leaves unchanged (the counts of the seek-complete and start-next
notifications and the marks that guard them). -/
@[simp] theorem syncClock_first_notices (env : Env) (timeUs : Int) (s : Player) :
    (seekCompleteCount (syncClock_first env timeUs s).trace = seekCompleteCount s.trace) ∧
    ((syncClock_first env timeUs s).mSeekNotificationSent = s.mSeekNotificationSent) ∧
    (startNextCount (syncClock_first env timeUs s).trace = startNextCount s.trace) ∧
    ((syncClock_first env timeUs s).mStartNextPlayer = s.mStartNextPlayer) := by
  refine ⟨?_, ?_, ?_, ?_⟩ <;> simp only [syncClock_first] <;> (repeat' split) <;> first | rfl | simp_all [renderOf, noteOf]

/-- What `syncClock_first` leaves unchanged (the abort mark and the seek state). -/
@[simp] theorem syncClock_first_process (env : Env) (timeUs : Int) (s : Player) :
    ((syncClock_first env timeUs s).aborted = s.aborted) ∧
    ((syncClock_first env timeUs s).mSeeking = s.mSeeking) := by
  refine ⟨?_, ?_⟩ <;> simp only [syncClock_first] <;> (repeat' split) <;> first | rfl | simp_all [renderOf, noteOf]

/-- What `syncClock_mapping` leaves unchanged (settings, render calls, completion count, flags). -/
@[simp] theorem syncClock_mapping_frame (env : Env) (s : Player) :
    ((syncClock_mapping env s).cfg = s.cfg) ∧
    (renders (syncClock_mapping env s).trace = renders s.trace) ∧
    (playbackCompleteCount (syncClock_mapping env s).trace = playbackCompleteCount s.trace) ∧
    ((syncClock_mapping env s).mFlags = s.mFlags) := by
  refine ⟨?_, ?_, ?_, ?_⟩ <;> simp only [syncClock_mapping] <;> (repeat' split) <;> first | rfl | simp_all [renderOf, noteOf]

/-- What `syncClock_mapping` leaves unchanged (fields of the video loop). -/
@[simp] theorem syncClock_mapping_fields (env : Env) (s : Player) :
    ((syncClock_mapping env s).mCurrentVideoEffect = s.mCurrentVideoEffect) ∧
    ((syncClock_mapping env s).mVideoRenderer = s.mVideoRenderer) ∧
    ((syncClock_mapping env s).mVideoBuffer = s.mVideoBuffer) ∧
    ((syncClock_mapping env s).mSeeking = s.mSeeking) ∧
    ((syncClock_mapping env s).mSeekTimeUs = s.mSeekTimeUs) ∧
    ((syncClock_mapping env s).mIsVideoSourceJpg = s.mIsVideoSourceJpg) ∧
    ((syncClock_mapping env s).mVideoEventPending = s.mVideoEventPending) ∧
    ((syncClock_mapping env s).mStreamDoneEventPending = s.mStreamDoneEventPending) := by
  refine ⟨?_, ?_, ?_, ?_, ?_, ?_, ?_, ?_⟩ <;> simp only [syncClock_mapping] <;> (repeat' split) <;> first | rfl | simp_all [renderOf, noteOf]

/-- What `syncClock_mapping` leaves unchanged (sources, clock and pending marks). -/
@[simp] theorem syncClock_mapping_wiring (env : Env) (s : Player) :
    ((syncClock_mapping env s).mStreamDoneStatus = s.mStreamDoneStatus) ∧
    ((syncClock_mapping env s).mAudioPlayer = s.mAudioPlayer) ∧
    ((syncClock_mapping env s).mAudioSource = s.mAudioSource) ∧
    ((syncClock_mapping env s).mVideoSource = s.mVideoSource) ∧
    ((syncClock_mapping env s).mTimeSource = s.mTimeSource) ∧
    ((syncClock_mapping env s).mOverlayUpdateEventPosted = s.mOverlayUpdateEventPosted) := by
  refine ⟨?_, ?_, ?_, ?_, ?_, ?_⟩ <;> simp only [syncClock_mapping] <;> (repeat' split) <;> first | rfl | simp_all [renderOf, noteOf]

/-- What `syncClock_mapping` leaves unchanged (the counts of the seek-complete and start-next
notifications and the marks that guard them). -/
@[simp] theorem syncClock_mapping_notices (env : Env) (s : Player) :
    (seekCompleteCount (syncClock_mapping env s).trace = seekCompleteCount s.trace) ∧
    ((syncClock_mapping env s).mSeekNotificationSent = s.mSeekNotificationSent) ∧
    (startNextCount (syncClock_mapping env s).trace = startNextCount s.trace) ∧
    ((syncClock_mapping env s).mStartNextPlayer = s.mStartNextPlayer) := by
  refine ⟨?_, ?_, ?_, ?_⟩ <;> simp only [syncClock_mapping] <;> (repeat' split) <;> first | rfl | simp_all [renderOf, noteOf]

/-- What `syncClock_mapping` leaves unchanged (the abort mark and the seek state). -/
@[simp] theorem syncClock_mapping_process (env : Env) (s : Player) :
    ((syncClock_mapping env s).aborted = s.aborted) ∧
    ((syncClock_mapping env s).mSeeking = s.mSeeking) := by
  refine ⟨?_, ?_⟩ <;> simp only [syncClock_mapping] <;> (repeat' split) <;> first | rfl | simp_all [renderOf, noteOf]

/-- What `syncClock` leaves unchanged (settings, render calls, completion count, flags). -/
@[simp] theorem syncClock_frame (env : Env) (timeUs : Int) (s : Player) :
    ((syncClock env timeUs s).cfg = s.cfg) ∧
    (renders (syncClock env timeUs s).trace = renders s.trace) ∧
    (playbackCompleteCount (syncClock env timeUs s).trace = playbackCompleteCount s.trace) := by
  refine ⟨?_, ?_, ?_⟩ <;> simp only [syncClock] <;> (repeat' split) <;> first | rfl | simp_all [renderOf, noteOf]

/-- What `syncClock` leaves unchanged (flags). -/
@[simp] theorem syncClock_flags (env : Env) (timeUs : Int) (s : Player) :
    ((syncClock env timeUs s).mFlags.PLAYING = s.mFlags.PLAYING) ∧
    ((syncClock env timeUs s).mFlags.AT_EOS = s.mFlags.AT_EOS) ∧
    ((syncClock env timeUs s).mFlags.INFORMED_AV_EOS = s.mFlags.INFORMED_AV_EOS) ∧
    ((syncClock env timeUs s).mFlags.CACHE_UNDERRUN = s.mFlags.CACHE_UNDERRUN) ∧
    ((syncClock env timeUs s).mFlags.LOOPING = s.mFlags.LOOPING) ∧
    ((syncClock env timeUs s).mFlags.AUTO_LOOPING = s.mFlags.AUTO_LOOPING) ∧
    ((syncClock env timeUs s).mFlags.VIDEO_AT_EOS = s.mFlags.VIDEO_AT_EOS) ∧
    ((syncClock env timeUs s).mFlags.AUDIO_AT_EOS = s.mFlags.AUDIO_AT_EOS) ∧
    ((syncClock env timeUs s).mFlags.SEEK_PREVIEW = s.mFlags.SEEK_PREVIEW) ∧
    ((syncClock env timeUs s).mFlags.AUDIO_RUNNING = s.mFlags.AUDIO_RUNNING) := by
  refine ⟨?_, ?_, ?_, ?_, ?_, ?_, ?_, ?_, ?_, ?_⟩ <;> simp only [syncClock] <;> (repeat' split) <;> first | rfl | simp_all [renderOf, noteOf]

/-- What `syncClock` leaves unchanged (fields of the video loop). -/
@[simp] theorem syncClock_fields (env : Env) (timeUs : Int) (s : Player) :
    ((syncClock env timeUs s).mCurrentVideoEffect = s.mCurrentVideoEffect) ∧
    ((syncClock env timeUs s).mVideoRenderer = s.mVideoRenderer) ∧
    ((syncClock env timeUs s).mVideoBuffer = s.mVideoBuffer) ∧
    ((syncClock env timeUs s).mSeeking = s.mSeeking) ∧
    ((syncClock env timeUs s).mSeekTimeUs = s.mSeekTimeUs) ∧
    ((syncClock env timeUs s).mIsVideoSourceJpg = s.mIsVideoSourceJpg) ∧
    ((syncClock env timeUs s).mVideoEventPending = s.mVideoEventPending) ∧
    ((syncClock env timeUs s).mStreamDoneEventPending = s.mStreamDoneEventPending) := by
  refine ⟨?_, ?_, ?_, ?_, ?_, ?_, ?_, ?_⟩ <;> simp only [syncClock] <;> (repeat' split) <;> first | rfl | simp_all [renderOf, noteOf]

/-- What `syncClock` leaves unchanged (sources, clock and pending marks). -/
@[simp] theorem syncClock_wiring (env : Env) (timeUs : Int) (s : Player) :
    ((syncClock env timeUs s).mStreamDoneStatus = s.mStreamDoneStatus) ∧
    ((syncClock env timeUs s).mAudioPlayer = s.mAudioPlayer) ∧
    ((syncClock env timeUs s).mAudioSource = s.mAudioSource) ∧
    ((syncClock env timeUs s).mVideoSource = s.mVideoSource) ∧
    ((syncClock env timeUs s).mTimeSource = s.mTimeSource) ∧
    ((syncClock env timeUs s).mOverlayUpdateEventPosted = s.mOverlayUpdateEventPosted) := by
  refine ⟨?_, ?_, ?_, ?_, ?_, ?_⟩ <;> simp only [syncClock] <;> (repeat' split) <;> first | rfl | simp_all [renderOf, noteOf]

/-- What `syncClock` leaves unchanged (the counts of the seek-complete and start-next
notifications and the marks that guard them). -/
@[simp] theorem syncClock_notices (env : Env) (timeUs : Int) (s : Player) :
    (seekCompleteCount (syncClock env timeUs s).trace = seekCompleteCount s.trace) ∧
    ((syncClock env timeUs s).mSeekNotificationSent = s.mSeekNotificationSent) ∧
    (startNextCount (syncClock env timeUs s).trace = startNextCount s.trace) ∧
    ((syncClock env timeUs s).mStartNextPlayer = s.mStartNextPlayer) := by
  refine ⟨?_, ?_, ?_, ?_⟩ <;> simp only [syncClock] <;> (repeat' split) <;> first | rfl | simp_all [renderOf, noteOf]

/-- What `syncClock` leaves unchanged (the abort mark and the seek state). -/
@[simp] theorem syncClock_process (env : Env) (timeUs : Int) (s : Player) :
    ((syncClock env timeUs s).aborted = s.aborted) ∧
    ((syncClock env timeUs s).mSeeking = s.mSeeking) := by
  refine ⟨?_, ?_⟩ <;> simp only [syncClock] <;> (repeat' split) <;> first | rfl | simp_all [renderOf, noteOf]

/-- What `dropLate` leaves unchanged (settings, render calls, completion count, flags). -/
@[simp] theorem dropLate_frame (b : MediaBuffer) (s : Player) :
    ((dropLate b s).cfg = s.cfg) ∧
    (renders (dropLate b s).trace = renders s.trace) ∧
    (playbackCompleteCount (dropLate b s).trace = playbackCompleteCount s.trace) ∧
    ((dropLate b s).mFlags = s.mFlags) := by
  refine ⟨?_, ?_, ?_, ?_⟩ <;> simp only [dropLate] <;> (repeat' split) <;> first | rfl | simp_all [renderOf, noteOf]

/-- What `dropLate` leaves unchanged (fields of the video loop). -/
@[simp] theorem dropLate_fields (b : MediaBuffer) (s : Player) :
    ((dropLate b s).mCurrentVideoEffect = s.mCurrentVideoEffect) ∧
    ((dropLate b s).mVideoRenderer = s.mVideoRenderer) ∧
    ((dropLate b s).mSeeking = s.mSeeking) ∧
    ((dropLate b s).mSeekTimeUs = s.mSeekTimeUs) ∧
    ((dropLate b s).mIsVideoSourceJpg = s.mIsVideoSourceJpg) ∧
    ((dropLate b s).mStreamDoneEventPending = s.mStreamDoneEventPending) := by
  refine ⟨?_, ?_, ?_, ?_, ?_, ?_⟩ <;> simp only [dropLate] <;> (repeat' split) <;> first | rfl | simp_all [renderOf, noteOf]

/-- What `dropLate` leaves unchanged (sources, clock and pending marks). -/
@[simp] theorem dropLate_wiring (b : MediaBuffer) (s : Player) :
    ((dropLate b s).mStreamDoneStatus = s.mStreamDoneStatus) ∧
    ((dropLate b s).mAudioPlayer = s.mAudioPlayer) ∧
    ((dropLate b s).mAudioSource = s.mAudioSource) ∧
    ((dropLate b s).mVideoSource = s.mVideoSource) ∧
    ((dropLate b s).mTimeSource = s.mTimeSource) ∧
    ((dropLate b s).mTimeSourceDeltaUs = s.mTimeSourceDeltaUs) ∧
    ((dropLate b s).mOverlayUpdateEventPosted = s.mOverlayUpdateEventPosted) := by
  refine ⟨?_, ?_, ?_, ?_, ?_, ?_, ?_⟩ <;> simp only [dropLate] <;> (repeat' split) <;> first | rfl | simp_all [renderOf, noteOf]

/-- What `dropLate` leaves unchanged (the counts of the seek-complete and start-next notifications
and the marks that guard them). -/
@[simp] theorem dropLate_notices (b : MediaBuffer) (s : Player) :
    (seekCompleteCount (dropLate b s).trace = seekCompleteCount s.trace) ∧
    ((dropLate b s).mSeekNotificationSent = s.mSeekNotificationSent) ∧
    (startNextCount (dropLate b s).trace = startNextCount s.trace) ∧
    ((dropLate b s).mStartNextPlayer = s.mStartNextPlayer) := by
  refine ⟨?_, ?_, ?_, ?_⟩ <;> simp only [dropLate] <;> (repeat' split) <;> first | rfl | simp_all [renderOf, noteOf]

/-- What `dropLate` leaves unchanged (the abort mark and the seek state). -/
@[simp] theorem dropLate_process (b : MediaBuffer) (s : Player) :
    ((dropLate b s).aborted = s.aborted) ∧
    ((dropLate b s).mSeeking = s.mSeeking) := by
  refine ⟨?_, ?_⟩ <;> simp only [dropLate] <;> (repeat' split) <;> first | rfl | simp_all [renderOf, noteOf]

/-- What `waitEarly` leaves unchanged (settings, render calls, completion count, flags). -/
@[simp] theorem waitEarly_frame (s : Player) :
    ((waitEarly s).cfg = s.cfg) ∧
    (renders (waitEarly s).trace = renders s.trace) ∧
    (playbackCompleteCount (waitEarly s).trace = playbackCompleteCount s.trace) ∧
    ((waitEarly s).mFlags = s.mFlags) := by
  refine ⟨?_, ?_, ?_, ?_⟩ <;> simp only [waitEarly] <;> (repeat' split) <;> first | rfl | simp_all [renderOf, noteOf]

/-- What `waitEarly` leaves unchanged (fields of the video loop). -/
@[simp] theorem waitEarly_fields (s : Player) :
    ((waitEarly s).mCurrentVideoEffect = s.mCurrentVideoEffect) ∧
    ((waitEarly s).mVideoRenderer = s.mVideoRenderer) ∧
    ((waitEarly s).mVideoBuffer = s.mVideoBuffer) ∧
    ((waitEarly s).mSeeking = s.mSeeking) ∧
    ((waitEarly s).mSeekTimeUs = s.mSeekTimeUs) ∧
    ((waitEarly s).mIsVideoSourceJpg = s.mIsVideoSourceJpg) ∧
    ((waitEarly s).mStreamDoneEventPending = s.mStreamDoneEventPending) := by
  refine ⟨?_, ?_, ?_, ?_, ?_, ?_, ?_⟩ <;> simp only [waitEarly] <;> (repeat' split) <;> first | rfl | simp_all [renderOf, noteOf]

/-- What `waitEarly` leaves unchanged (sources, clock and pending marks). -/
@[simp] theorem waitEarly_wiring (s : Player) :
    ((waitEarly s).mStreamDoneStatus = s.mStreamDoneStatus) ∧
    ((waitEarly s).mAudioPlayer = s.mAudioPlayer) ∧
    ((waitEarly s).mAudioSource = s.mAudioSource) ∧
    ((waitEarly s).mVideoSource = s.mVideoSource) ∧
    ((waitEarly s).mTimeSource = s.mTimeSource) ∧
    ((waitEarly s).mTimeSourceDeltaUs = s.mTimeSourceDeltaUs) ∧
    ((waitEarly s).mOverlayUpdateEventPosted = s.mOverlayUpdateEventPosted) := by
  refine ⟨?_, ?_, ?_, ?_, ?_, ?_, ?_⟩ <;> simp only [waitEarly] <;> (repeat' split) <;> first | rfl | simp_all [renderOf, noteOf]

/-- What `waitEarly` leaves unchanged (the counts of the seek-complete and start-next
notifications and the marks that guard them). -/
@[simp] theorem waitEarly_notices (s : Player) :
    (seekCompleteCount (waitEarly s).trace = seekCompleteCount s.trace) ∧
    ((waitEarly s).mSeekNotificationSent = s.mSeekNotificationSent) ∧
    (startNextCount (waitEarly s).trace = startNextCount s.trace) ∧
    ((waitEarly s).mStartNextPlayer = s.mStartNextPlayer) := by
  refine ⟨?_, ?_, ?_, ?_⟩ <;> simp only [waitEarly] <;> (repeat' split) <;> first | rfl | simp_all [renderOf, noteOf]

/-- What `waitEarly` leaves unchanged (the abort mark and the seek state). -/
@[simp] theorem waitEarly_process (s : Player) :
    ((waitEarly s).aborted = s.aborted) ∧
    ((waitEarly s).mSeeking = s.mSeeking) := by
  refine ⟨?_, ?_⟩ <;> simp only [waitEarly] <;> (repeat' split) <;> first | rfl | simp_all [renderOf, noteOf]

/-- What `ensureRenderer` leaves unchanged (settings, render calls, completion count, flags). -/
@[simp] theorem ensureRenderer_frame (s : Player) :
    ((ensureRenderer s).cfg = s.cfg) ∧
    (renders (ensureRenderer s).trace = renders s.trace) ∧
    (playbackCompleteCount (ensureRenderer s).trace = playbackCompleteCount s.trace) ∧
    ((ensureRenderer s).mFlags = s.mFlags) := by
  refine ⟨?_, ?_, ?_, ?_⟩ <;> simp only [ensureRenderer] <;> (repeat' split) <;> first | rfl | simp_all [renderOf, noteOf]

/-- What `ensureRenderer` leaves unchanged (fields of the video loop). -/
@[simp] theorem ensureRenderer_fields (s : Player) :
    ((ensureRenderer s).mCurrentVideoEffect = s.mCurrentVideoEffect) ∧
    ((ensureRenderer s).mVideoBuffer = s.mVideoBuffer) ∧
    ((ensureRenderer s).mSeeking = s.mSeeking) ∧
    ((ensureRenderer s).mSeekTimeUs = s.mSeekTimeUs) ∧
    ((ensureRenderer s).mIsVideoSourceJpg = s.mIsVideoSourceJpg) ∧
    ((ensureRenderer s).mVideoEventPending = s.mVideoEventPending) ∧
    ((ensureRenderer s).mStreamDoneEventPending = s.mStreamDoneEventPending) := by
  refine ⟨?_, ?_, ?_, ?_, ?_, ?_, ?_⟩ <;> simp only [ensureRenderer] <;> (repeat' split) <;> first | rfl | simp_all [renderOf, noteOf]

/-- What `ensureRenderer` leaves unchanged (sources, clock and pending marks). -/
@[simp] theorem ensureRenderer_wiring (s : Player) :
    ((ensureRenderer s).mStreamDoneStatus = s.mStreamDoneStatus) ∧
    ((ensureRenderer s).mAudioPlayer = s.mAudioPlayer) ∧
    ((ensureRenderer s).mAudioSource = s.mAudioSource) ∧
    ((ensureRenderer s).mVideoSource = s.mVideoSource) ∧
    ((ensureRenderer s).mTimeSource = s.mTimeSource) ∧
    ((ensureRenderer s).mTimeSourceDeltaUs = s.mTimeSourceDeltaUs) ∧
    ((ensureRenderer s).mOverlayUpdateEventPosted = s.mOverlayUpdateEventPosted) := by
  refine ⟨?_, ?_, ?_, ?_, ?_, ?_, ?_⟩ <;> simp only [ensureRenderer] <;> (repeat' split) <;> first | rfl | simp_all [renderOf, noteOf]

/-- What `ensureRenderer` leaves unchanged (the counts of the seek-complete and start-next
notifications and the marks that guard them). -/
@[simp] theorem ensureRenderer_notices (s : Player) :
    (seekCompleteCount (ensureRenderer s).trace = seekCompleteCount s.trace) ∧
    ((ensureRenderer s).mSeekNotificationSent = s.mSeekNotificationSent) ∧
    (startNextCount (ensureRenderer s).trace = startNextCount s.trace) ∧
    ((ensureRenderer s).mStartNextPlayer = s.mStartNextPlayer) := by
  refine ⟨?_, ?_, ?_, ?_⟩ <;> simp only [ensureRenderer] <;> (repeat' split) <;> first | rfl | simp_all [renderOf, noteOf]

/-- What `ensureRenderer` leaves unchanged (the abort mark and the seek state). -/
@[simp] theorem ensureRenderer_process (s : Player) :
    ((ensureRenderer s).aborted = s.aborted) ∧
    ((ensureRenderer s).mSeeking = s.mSeeking) := by
  refine ⟨?_, ?_⟩ <;> simp only [ensureRenderer] <;> (repeat' split) <;> first | rfl | simp_all [renderOf, noteOf]

/-- What `markEos` leaves unchanged (settings, render calls, completion count, flags). -/
@[simp] theorem markEos_frame (s : Player) :
    ((markEos s).cfg = s.cfg) ∧
    (renders (markEos s).trace = renders s.trace) ∧
    (playbackCompleteCount (markEos s).trace = playbackCompleteCount s.trace) := by
  refine ⟨?_, ?_, ?_⟩ <;> simp only [markEos] <;> (repeat' split) <;> first | rfl | simp_all [renderOf, noteOf]

/-- What `markEos` leaves unchanged (flags). -/
@[simp] theorem markEos_flags (s : Player) :
    ((markEos s).mFlags.PLAYING = s.mFlags.PLAYING) ∧
    ((markEos s).mFlags.AT_EOS = s.mFlags.AT_EOS) ∧
    ((markEos s).mFlags.INFORMED_AV_EOS = s.mFlags.INFORMED_AV_EOS) ∧
    ((markEos s).mFlags.CACHE_UNDERRUN = s.mFlags.CACHE_UNDERRUN) ∧
    ((markEos s).mFlags.LOOPING = s.mFlags.LOOPING) ∧
    ((markEos s).mFlags.AUTO_LOOPING = s.mFlags.AUTO_LOOPING) ∧
    ((markEos s).mFlags.FIRST_FRAME = s.mFlags.FIRST_FRAME) ∧
    ((markEos s).mFlags.SEEK_PREVIEW = s.mFlags.SEEK_PREVIEW) ∧
    ((markEos s).mFlags.AUDIO_RUNNING = s.mFlags.AUDIO_RUNNING) := by
  refine ⟨?_, ?_, ?_, ?_, ?_, ?_, ?_, ?_, ?_⟩ <;> simp only [markEos] <;> (repeat' split) <;> first | rfl | simp_all [renderOf, noteOf]

/-- What `markEos` leaves unchanged (fields of the video loop). -/
@[simp] theorem markEos_fields (s : Player) :
    ((markEos s).mCurrentVideoEffect = s.mCurrentVideoEffect) ∧
    ((markEos s).mVideoRenderer = s.mVideoRenderer) ∧
    ((markEos s).mVideoBuffer = s.mVideoBuffer) ∧
    ((markEos s).mSeeking = s.mSeeking) ∧
    ((markEos s).mSeekTimeUs = s.mSeekTimeUs) ∧
    ((markEos s).mIsVideoSourceJpg = s.mIsVideoSourceJpg) ∧
    ((markEos s).mVideoEventPending = s.mVideoEventPending) := by
  refine ⟨?_, ?_, ?_, ?_, ?_, ?_, ?_⟩ <;> simp only [markEos] <;> (repeat' split) <;> first | rfl | simp_all [renderOf, noteOf]

/-- What `markEos` leaves unchanged (sources, clock and pending marks). -/
@[simp] theorem markEos_wiring (s : Player) :
    ((markEos s).mAudioPlayer = s.mAudioPlayer) ∧
    ((markEos s).mAudioSource = s.mAudioSource) ∧
    ((markEos s).mVideoSource = s.mVideoSource) ∧
    ((markEos s).mTimeSource = s.mTimeSource) ∧
    ((markEos s).mTimeSourceDeltaUs = s.mTimeSourceDeltaUs) := by
  refine ⟨?_, ?_, ?_, ?_, ?_⟩ <;> simp only [markEos] <;> (repeat' split) <;> first | rfl | simp_all [renderOf, noteOf]

/-- What `markEos` leaves unchanged (the counts of the seek-complete and start-next notifications
and the marks that guard them). -/
@[simp] theorem markEos_notices (s : Player) :
    (seekCompleteCount (markEos s).trace = seekCompleteCount s.trace) ∧
    ((markEos s).mSeekNotificationSent = s.mSeekNotificationSent) ∧
    (startNextCount (markEos s).trace = startNextCount s.trace) ∧
    ((markEos s).mStartNextPlayer = s.mStartNextPlayer) := by
  refine ⟨?_, ?_, ?_, ?_⟩ <;> simp only [markEos] <;> (repeat' split) <;> first | rfl | simp_all [renderOf, noteOf]

/-- What `markEos` leaves unchanged (the abort mark and the seek state). -/
@[simp] theorem markEos_process (s : Player) :
    ((markEos s).aborted = s.aborted) ∧
    ((markEos s).mSeeking = s.mSeeking) := by
  refine ⟨?_, ?_⟩ <;> simp only [markEos] <;> (repeat' split) <;> first | rfl | simp_all [renderOf, noteOf]

/-- What `applyEffect` leaves unchanged (settings, render calls, completion count, flags). -/
@[simp] theorem applyEffect_frame (timeUs : Int) (e : EffectSettings) (s : Player) :
    ((applyEffect timeUs s e).cfg = s.cfg) ∧
    (renders (applyEffect timeUs s e).trace = renders s.trace) ∧
    (playbackCompleteCount (applyEffect timeUs s e).trace = playbackCompleteCount s.trace) ∧
    ((applyEffect timeUs s e).mFlags = s.mFlags) := by
  refine ⟨?_, ?_, ?_, ?_⟩ <;> simp only [applyEffect] <;> (repeat' split) <;> first | rfl | simp_all [renderOf, noteOf]

/-- What `applyEffect` leaves unchanged (fields of the video loop). -/
@[simp] theorem applyEffect_fields (timeUs : Int) (e : EffectSettings) (s : Player) :
    ((applyEffect timeUs s e).mVideoRenderer = s.mVideoRenderer) ∧
    ((applyEffect timeUs s e).mVideoBuffer = s.mVideoBuffer) ∧
    ((applyEffect timeUs s e).mSeeking = s.mSeeking) ∧
    ((applyEffect timeUs s e).mSeekTimeUs = s.mSeekTimeUs) ∧
    ((applyEffect timeUs s e).mIsVideoSourceJpg = s.mIsVideoSourceJpg) ∧
    ((applyEffect timeUs s e).mVideoEventPending = s.mVideoEventPending) ∧
    ((applyEffect timeUs s e).mStreamDoneEventPending = s.mStreamDoneEventPending) := by
  refine ⟨?_, ?_, ?_, ?_, ?_, ?_, ?_⟩ <;> simp only [applyEffect] <;> (repeat' split) <;> first | rfl | simp_all [renderOf, noteOf]

/-- What `applyEffect` leaves unchanged (sources, clock and pending marks). -/
@[simp] theorem applyEffect_wiring (timeUs : Int) (e : EffectSettings) (s : Player) :
    ((applyEffect timeUs s e).mStreamDoneStatus = s.mStreamDoneStatus) ∧
    ((applyEffect timeUs s e).mAudioPlayer = s.mAudioPlayer) ∧
    ((applyEffect timeUs s e).mAudioSource = s.mAudioSource) ∧
    ((applyEffect timeUs s e).mVideoSource = s.mVideoSource) ∧
    ((applyEffect timeUs s e).mTimeSource = s.mTimeSource) ∧
    ((applyEffect timeUs s e).mTimeSourceDeltaUs = s.mTimeSourceDeltaUs) ∧
    ((applyEffect timeUs s e).mOverlayUpdateEventPosted = s.mOverlayUpdateEventPosted) := by
  refine ⟨?_, ?_, ?_, ?_, ?_, ?_, ?_⟩ <;> simp only [applyEffect] <;> (repeat' split) <;> first | rfl | simp_all [renderOf, noteOf]

/-- What `applyEffect` leaves unchanged (the counts of the seek-complete and start-next
notifications and the marks that guard them). -/
@[simp] theorem applyEffect_notices (timeUs : Int) (e : EffectSettings) (s : Player) :
    (seekCompleteCount (applyEffect timeUs s e).trace = seekCompleteCount s.trace) ∧
    ((applyEffect timeUs s e).mSeekNotificationSent = s.mSeekNotificationSent) ∧
    (startNextCount (applyEffect timeUs s e).trace = startNextCount s.trace) ∧
    ((applyEffect timeUs s e).mStartNextPlayer = s.mStartNextPlayer) := by
  refine ⟨?_, ?_, ?_, ?_⟩ <;> simp only [applyEffect] <;> (repeat' split) <;> first | rfl | simp_all [renderOf, noteOf]

/-- What `applyEffect` leaves unchanged (the abort mark and the seek state). -/
@[simp] theorem applyEffect_process (timeUs : Int) (e : EffectSettings) (s : Player) :
    ((applyEffect timeUs s e).aborted = s.aborted) ∧
    ((applyEffect timeUs s e).mSeeking = s.mSeeking) := by
  refine ⟨?_, ?_⟩ <;> simp only [applyEffect] <;> (repeat' split) <;> first | rfl | simp_all [renderOf, noteOf]

/-- What `applyEffects` leaves unchanged (settings, render calls, completion count, flags). -/
@[simp] theorem applyEffects_frame (timeUs : Int) (s : Player) :
    ((applyEffects timeUs s).cfg = s.cfg) ∧
    (renders (applyEffects timeUs s).trace = renders s.trace) ∧
    (playbackCompleteCount (applyEffects timeUs s).trace = playbackCompleteCount s.trace) ∧
    ((applyEffects timeUs s).mFlags = s.mFlags) := by
  simp only [applyEffects]
  generalize s.cfg.mEffectsSettings = l
  induction l generalizing s with
  | nil => simp
  | cons e es ih => simp [List.foldl_cons, ih]

/-- What `applyEffects` leaves unchanged (fields of the video loop). -/
@[simp] theorem applyEffects_fields (timeUs : Int) (s : Player) :
    ((applyEffects timeUs s).mVideoRenderer = s.mVideoRenderer) ∧
    ((applyEffects timeUs s).mVideoBuffer = s.mVideoBuffer) ∧
    ((applyEffects timeUs s).mSeeking = s.mSeeking) ∧
    ((applyEffects timeUs s).mSeekTimeUs = s.mSeekTimeUs) ∧
    ((applyEffects timeUs s).mIsVideoSourceJpg = s.mIsVideoSourceJpg) ∧
    ((applyEffects timeUs s).mVideoEventPending = s.mVideoEventPending) ∧
    ((applyEffects timeUs s).mStreamDoneEventPending = s.mStreamDoneEventPending) := by
  simp only [applyEffects]
  generalize s.cfg.mEffectsSettings = l
  induction l generalizing s with
  | nil => simp
  | cons e es ih => simp [List.foldl_cons, ih]

/-- What `applyEffects` leaves unchanged (sources, clock and pending marks). -/
@[simp] theorem applyEffects_wiring (timeUs : Int) (s : Player) :
    ((applyEffects timeUs s).mStreamDoneStatus = s.mStreamDoneStatus) ∧
    ((applyEffects timeUs s).mAudioPlayer = s.mAudioPlayer) ∧
    ((applyEffects timeUs s).mAudioSource = s.mAudioSource) ∧
    ((applyEffects timeUs s).mVideoSource = s.mVideoSource) ∧
    ((applyEffects timeUs s).mTimeSource = s.mTimeSource) ∧
    ((applyEffects timeUs s).mTimeSourceDeltaUs = s.mTimeSourceDeltaUs) ∧
    ((applyEffects timeUs s).mOverlayUpdateEventPosted = s.mOverlayUpdateEventPosted) := by
  simp only [applyEffects]
  generalize s.cfg.mEffectsSettings = l
  induction l generalizing s with
  | nil => simp
  | cons e es ih => simp [List.foldl_cons, ih]

/-- What `applyEffects` leaves unchanged (the counts of the seek-complete and start-next
notifications and the marks that guard them). -/
@[simp] theorem applyEffects_notices (timeUs : Int) (s : Player) :
    (seekCompleteCount (applyEffects timeUs s).trace = seekCompleteCount s.trace) ∧
    ((applyEffects timeUs s).mSeekNotificationSent = s.mSeekNotificationSent) ∧
    (startNextCount (applyEffects timeUs s).trace = startNextCount s.trace) ∧
    ((applyEffects timeUs s).mStartNextPlayer = s.mStartNextPlayer) := by
  simp only [applyEffects]
  generalize s.cfg.mEffectsSettings = l
  induction l generalizing s with
  | nil => simp
  | cons e es ih => simp [List.foldl_cons, ih]

/-- What `applyEffects` leaves unchanged (the abort mark and the seek state). -/
@[simp] theorem applyEffects_process (timeUs : Int) (s : Player) :
    ((applyEffects timeUs s).aborted = s.aborted) ∧
    ((applyEffects timeUs s).mSeeking = s.mSeeking) := by
  simp only [applyEffects]
  generalize s.cfg.mEffectsSettings = l
  induction l generalizing s with
  | nil => simp
  | cons e es ih => simp [List.foldl_cons, ih]

/-- What `overlayUpdate_framing` leaves unchanged (settings, render calls, completion count,
flags). -/
@[simp] theorem overlayUpdate_framing_frame (s : Player) :
    ((overlayUpdate_framing s).cfg = s.cfg) ∧
    (renders (overlayUpdate_framing s).trace = renders s.trace) ∧
    (playbackCompleteCount (overlayUpdate_framing s).trace = playbackCompleteCount s.trace) ∧
    ((overlayUpdate_framing s).mFlags = s.mFlags) := by
  refine ⟨?_, ?_, ?_, ?_⟩ <;> simp only [overlayUpdate_framing] <;> (repeat' split) <;> first | rfl | simp_all [renderOf, noteOf]

/-- What `overlayUpdate_framing` leaves unchanged (fields of the video loop). -/
@[simp] theorem overlayUpdate_framing_fields (s : Player) :
    ((overlayUpdate_framing s).mVideoRenderer = s.mVideoRenderer) ∧
    ((overlayUpdate_framing s).mVideoBuffer = s.mVideoBuffer) ∧
    ((overlayUpdate_framing s).mSeeking = s.mSeeking) ∧
    ((overlayUpdate_framing s).mSeekTimeUs = s.mSeekTimeUs) ∧
    ((overlayUpdate_framing s).mIsVideoSourceJpg = s.mIsVideoSourceJpg) ∧
    ((overlayUpdate_framing s).mVideoEventPending = s.mVideoEventPending) ∧
    ((overlayUpdate_framing s).mStreamDoneEventPending = s.mStreamDoneEventPending) := by
  refine ⟨?_, ?_, ?_, ?_, ?_, ?_, ?_⟩ <;> simp only [overlayUpdate_framing] <;> (repeat' split) <;> first | rfl | simp_all [renderOf, noteOf]

/-- What `overlayUpdate_framing` leaves unchanged (sources, clock and pending marks). -/
@[simp] theorem overlayUpdate_framing_wiring (s : Player) :
    ((overlayUpdate_framing s).mStreamDoneStatus = s.mStreamDoneStatus) ∧
    ((overlayUpdate_framing s).mAudioPlayer = s.mAudioPlayer) ∧
    ((overlayUpdate_framing s).mAudioSource = s.mAudioSource) ∧
    ((overlayUpdate_framing s).mVideoSource = s.mVideoSource) ∧
    ((overlayUpdate_framing s).mTimeSource = s.mTimeSource) ∧
    ((overlayUpdate_framing s).mTimeSourceDeltaUs = s.mTimeSourceDeltaUs) := by
  refine ⟨?_, ?_, ?_, ?_, ?_, ?_⟩ <;> simp only [overlayUpdate_framing] <;> (repeat' split) <;> first | rfl | simp_all [renderOf, noteOf]

/-- What `overlayUpdate_framing` leaves unchanged (the counts of the seek-complete and start-next
notifications and the marks that guard them). -/
@[simp] theorem overlayUpdate_framing_notices (s : Player) :
    (seekCompleteCount (overlayUpdate_framing s).trace = seekCompleteCount s.trace) ∧
    ((overlayUpdate_framing s).mSeekNotificationSent = s.mSeekNotificationSent) ∧
    (startNextCount (overlayUpdate_framing s).trace = startNextCount s.trace) ∧
    ((overlayUpdate_framing s).mStartNextPlayer = s.mStartNextPlayer) := by
  refine ⟨?_, ?_, ?_, ?_⟩ <;> simp only [overlayUpdate_framing] <;> (repeat' split) <;> first | rfl | simp_all [renderOf, noteOf]

/-- What `overlayUpdate_framing` leaves unchanged (the abort mark and the seek state). -/
@[simp] theorem overlayUpdate_framing_process (s : Player) :
    ((overlayUpdate_framing s).aborted = s.aborted) ∧
    ((overlayUpdate_framing s).mSeeking = s.mSeeking) := by
  refine ⟨?_, ?_⟩ <;> simp only [overlayUpdate_framing] <;> (repeat' split) <;> first | rfl | simp_all [renderOf, noteOf]

/-- What `overlayUpdate` leaves unchanged (settings, render calls, completion count, flags). -/
@[simp] theorem overlayUpdate_frame (s : Player) :
    ((overlayUpdate s).cfg = s.cfg) ∧
    (renders (overlayUpdate s).trace = renders s.trace) ∧
    (playbackCompleteCount (overlayUpdate s).trace = playbackCompleteCount s.trace) ∧
    ((overlayUpdate s).mFlags = s.mFlags) := by
  refine ⟨?_, ?_, ?_, ?_⟩ <;> simp only [overlayUpdate] <;> (repeat' split) <;> first | rfl | simp_all [renderOf, noteOf]

/-- What `overlayUpdate` leaves unchanged (fields of the video loop). -/
@[simp] theorem overlayUpdate_fields (s : Player) :
    ((overlayUpdate s).mVideoRenderer = s.mVideoRenderer) ∧
    ((overlayUpdate s).mVideoBuffer = s.mVideoBuffer) ∧
    ((overlayUpdate s).mSeeking = s.mSeeking) ∧
    ((overlayUpdate s).mSeekTimeUs = s.mSeekTimeUs) ∧
    ((overlayUpdate s).mIsVideoSourceJpg = s.mIsVideoSourceJpg) ∧
    ((overlayUpdate s).mVideoEventPending = s.mVideoEventPending) ∧
    ((overlayUpdate s).mStreamDoneEventPending = s.mStreamDoneEventPending) := by
  refine ⟨?_, ?_, ?_, ?_, ?_, ?_, ?_⟩ <;> simp only [overlayUpdate] <;> (repeat' split) <;> first | rfl | simp_all [renderOf, noteOf]

/-- What `overlayUpdate` leaves unchanged (sources, clock and pending marks). -/
@[simp] theorem overlayUpdate_wiring (s : Player) :
    ((overlayUpdate s).mStreamDoneStatus = s.mStreamDoneStatus) ∧
    ((overlayUpdate s).mAudioPlayer = s.mAudioPlayer) ∧
    ((overlayUpdate s).mAudioSource = s.mAudioSource) ∧
    ((overlayUpdate s).mVideoSource = s.mVideoSource) ∧
    ((overlayUpdate s).mTimeSource = s.mTimeSource) ∧
    ((overlayUpdate s).mTimeSourceDeltaUs = s.mTimeSourceDeltaUs) := by
  refine ⟨?_, ?_, ?_, ?_, ?_, ?_⟩ <;> simp only [overlayUpdate] <;> (repeat' split) <;> first | rfl | simp_all [renderOf, noteOf]

/-- What `overlayUpdate` leaves unchanged (the counts of the seek-complete and start-next
notifications and the marks that guard them). -/
@[simp] theorem overlayUpdate_notices (s : Player) :
    (seekCompleteCount (overlayUpdate s).trace = seekCompleteCount s.trace) ∧
    ((overlayUpdate s).mSeekNotificationSent = s.mSeekNotificationSent) ∧
    (startNextCount (overlayUpdate s).trace = startNextCount s.trace) ∧
    ((overlayUpdate s).mStartNextPlayer = s.mStartNextPlayer) := by
  refine ⟨?_, ?_, ?_, ?_⟩ <;> simp only [overlayUpdate] <;> (repeat' split) <;> first | rfl | simp_all [renderOf, noteOf]

/-- What `overlayUpdate` leaves unchanged (the abort mark and the seek state). -/
@[simp] theorem overlayUpdate_process (s : Player) :
    ((overlayUpdate s).aborted = s.aborted) ∧
    ((overlayUpdate s).mSeeking = s.mSeeking) := by
  refine ⟨?_, ?_⟩ <;> simp only [overlayUpdate] <;> (repeat' split) <;> first | rfl | simp_all [renderOf, noteOf]

/-- What `renderFrame` leaves unchanged (settings, render calls, completion count, flags). -/
@[simp] theorem renderFrame_frame (b : MediaBuffer) (s : Player) :
    ((renderFrame b s).cfg = s.cfg) ∧
    (playbackCompleteCount (renderFrame b s).trace = playbackCompleteCount s.trace) ∧
    ((renderFrame b s).mFlags = s.mFlags) := by
  refine ⟨?_, ?_, ?_⟩ <;> simp only [renderFrame] <;> (repeat' split) <;> first | rfl | simp_all [renderOf, noteOf]

/-- What `renderFrame` leaves unchanged (fields of the video loop). -/
@[simp] theorem renderFrame_fields (b : MediaBuffer) (s : Player) :
    ((renderFrame b s).mCurrentVideoEffect = s.mCurrentVideoEffect) ∧
    ((renderFrame b s).mVideoRenderer = s.mVideoRenderer) ∧
    ((renderFrame b s).mSeeking = s.mSeeking) ∧
    ((renderFrame b s).mSeekTimeUs = s.mSeekTimeUs) ∧
    ((renderFrame b s).mIsVideoSourceJpg = s.mIsVideoSourceJpg) ∧
    ((renderFrame b s).mVideoEventPending = s.mVideoEventPending) ∧
    ((renderFrame b s).mStreamDoneEventPending = s.mStreamDoneEventPending) := by
  refine ⟨?_, ?_, ?_, ?_, ?_, ?_, ?_⟩ <;> simp only [renderFrame] <;> (repeat' split) <;> first | rfl | simp_all [renderOf, noteOf]

/-- What `renderFrame` leaves unchanged (sources, clock and pending marks). -/
@[simp] theorem renderFrame_wiring (b : MediaBuffer) (s : Player) :
    ((renderFrame b s).mStreamDoneStatus = s.mStreamDoneStatus) ∧
    ((renderFrame b s).mAudioPlayer = s.mAudioPlayer) ∧
    ((renderFrame b s).mAudioSource = s.mAudioSource) ∧
    ((renderFrame b s).mVideoSource = s.mVideoSource) ∧
    ((renderFrame b s).mTimeSource = s.mTimeSource) ∧
    ((renderFrame b s).mTimeSourceDeltaUs = s.mTimeSourceDeltaUs) ∧
    ((renderFrame b s).mOverlayUpdateEventPosted = s.mOverlayUpdateEventPosted) := by
  refine ⟨?_, ?_, ?_, ?_, ?_, ?_, ?_⟩ <;> simp only [renderFrame] <;> (repeat' split) <;> first | rfl | simp_all [renderOf, noteOf]

/-- What `renderFrame` leaves unchanged (the counts of the seek-complete and start-next
notifications and the marks that guard them). -/
@[simp] theorem renderFrame_notices (b : MediaBuffer) (s : Player) :
    (seekCompleteCount (renderFrame b s).trace = seekCompleteCount s.trace) ∧
    ((renderFrame b s).mSeekNotificationSent = s.mSeekNotificationSent) ∧
    (startNextCount (renderFrame b s).trace = startNextCount s.trace) ∧
    ((renderFrame b s).mStartNextPlayer = s.mStartNextPlayer) := by
  refine ⟨?_, ?_, ?_, ?_⟩ <;> simp only [renderFrame] <;> (repeat' split) <;> first | rfl | simp_all [renderOf, noteOf]

/-- What `renderFrame` leaves unchanged (the abort mark and the seek state). -/
@[simp] theorem renderFrame_process (b : MediaBuffer) (s : Player) :
    ((renderFrame b s).aborted = s.aborted) ∧
    ((renderFrame b s).mSeeking = s.mSeeking) := by
  refine ⟨?_, ?_⟩ <;> simp only [renderFrame] <;> (repeat' split) <;> first | rfl | simp_all [renderOf, noteOf]

/-- What `progressCallback` leaves unchanged (settings, render calls, completion count, flags). -/
@[simp] theorem progressCallback_frame (s : Player) :
    ((progressCallback s).cfg = s.cfg) ∧
    (renders (progressCallback s).trace = renders s.trace) ∧
    (playbackCompleteCount (progressCallback s).trace = playbackCompleteCount s.trace) ∧
    ((progressCallback s).mFlags = s.mFlags) := by
  refine ⟨?_, ?_, ?_, ?_⟩ <;> simp only [progressCallback] <;> (repeat' split) <;> first | rfl | simp_all [renderOf, noteOf]

/-- What `progressCallback` leaves unchanged (fields of the video loop). -/
@[simp] theorem progressCallback_fields (s : Player) :
    ((progressCallback s).mCurrentVideoEffect = s.mCurrentVideoEffect) ∧
    ((progressCallback s).mVideoRenderer = s.mVideoRenderer) ∧
    ((progressCallback s).mVideoBuffer = s.mVideoBuffer) ∧
    ((progressCallback s).mSeeking = s.mSeeking) ∧
    ((progressCallback s).mSeekTimeUs = s.mSeekTimeUs) ∧
    ((progressCallback s).mIsVideoSourceJpg = s.mIsVideoSourceJpg) ∧
    ((progressCallback s).mVideoEventPending = s.mVideoEventPending) ∧
    ((progressCallback s).mStreamDoneEventPending = s.mStreamDoneEventPending) := by
  refine ⟨?_, ?_, ?_, ?_, ?_, ?_, ?_, ?_⟩ <;> simp only [progressCallback] <;> (repeat' split) <;> first | rfl | simp_all [renderOf, noteOf]

/-- What `progressCallback` leaves unchanged (sources, clock and pending marks). -/
@[simp] theorem progressCallback_wiring (s : Player) :
    ((progressCallback s).mStreamDoneStatus = s.mStreamDoneStatus) ∧
    ((progressCallback s).mAudioPlayer = s.mAudioPlayer) ∧
    ((progressCallback s).mAudioSource = s.mAudioSource) ∧
    ((progressCallback s).mVideoSource = s.mVideoSource) ∧
    ((progressCallback s).mTimeSource = s.mTimeSource) ∧
    ((progressCallback s).mTimeSourceDeltaUs = s.mTimeSourceDeltaUs) ∧
    ((progressCallback s).mOverlayUpdateEventPosted = s.mOverlayUpdateEventPosted) := by
  refine ⟨?_, ?_, ?_, ?_, ?_, ?_, ?_⟩ <;> simp only [progressCallback] <;> (repeat' split) <;> first | rfl | simp_all [renderOf, noteOf]

/-- What `progressCallback` leaves unchanged (the counts of the seek-complete and start-next
notifications and the marks that guard them). -/
@[simp] theorem progressCallback_notices (s : Player) :
    (seekCompleteCount (progressCallback s).trace = seekCompleteCount s.trace) ∧
    ((progressCallback s).mSeekNotificationSent = s.mSeekNotificationSent) ∧
    (startNextCount (progressCallback s).trace = startNextCount s.trace) ∧
    ((progressCallback s).mStartNextPlayer = s.mStartNextPlayer) := by
  refine ⟨?_, ?_, ?_, ?_⟩ <;> simp only [progressCallback] <;> (repeat' split) <;> first | rfl | simp_all [renderOf, noteOf]

/-- What `progressCallback` leaves unchanged (the abort mark and the seek state). -/
@[simp] theorem progressCallback_process (s : Player) :
    ((progressCallback s).aborted = s.aborted) ∧
    ((progressCallback s).mSeeking = s.mSeeking) := by
  refine ⟨?_, ?_⟩ <;> simp only [progressCallback] <;> (repeat' split) <;> first | rfl | simp_all [renderOf, noteOf]

/-- What `afterRender` leaves unchanged (settings, render calls, completion count, flags). -/
@[simp] theorem afterRender_frame (wasSeeking : SeekType) (timeUs : Int) (s : Player) :
    ((afterRender wasSeeking timeUs s).cfg = s.cfg) ∧
    (renders (afterRender wasSeeking timeUs s).trace = renders s.trace) ∧
    (playbackCompleteCount (afterRender wasSeeking timeUs s).trace = playbackCompleteCount s.trace) := by
  refine ⟨?_, ?_, ?_⟩ <;> simp only [afterRender] <;> (repeat' split) <;> first | rfl | simp_all [renderOf, noteOf]

/-- What `afterRender` leaves unchanged (flags). -/
@[simp] theorem afterRender_flags (wasSeeking : SeekType) (timeUs : Int) (s : Player) :
    ((afterRender wasSeeking timeUs s).mFlags.PLAYING = s.mFlags.PLAYING) ∧
    ((afterRender wasSeeking timeUs s).mFlags.AT_EOS = s.mFlags.AT_EOS) ∧
    ((afterRender wasSeeking timeUs s).mFlags.INFORMED_AV_EOS = s.mFlags.INFORMED_AV_EOS) ∧
    ((afterRender wasSeeking timeUs s).mFlags.CACHE_UNDERRUN = s.mFlags.CACHE_UNDERRUN) ∧
    ((afterRender wasSeeking timeUs s).mFlags.LOOPING = s.mFlags.LOOPING) ∧
    ((afterRender wasSeeking timeUs s).mFlags.AUTO_LOOPING = s.mFlags.AUTO_LOOPING) ∧
    ((afterRender wasSeeking timeUs s).mFlags.FIRST_FRAME = s.mFlags.FIRST_FRAME) ∧
    ((afterRender wasSeeking timeUs s).mFlags.AUDIO_RUNNING = s.mFlags.AUDIO_RUNNING) := by
  refine ⟨?_, ?_, ?_, ?_, ?_, ?_, ?_, ?_⟩ <;> simp only [afterRender] <;> (repeat' split) <;> first | rfl | simp_all [renderOf, noteOf]

/-- What `afterRender` leaves unchanged (fields of the video loop). -/
@[simp] theorem afterRender_fields (wasSeeking : SeekType) (timeUs : Int) (s : Player) :
    ((afterRender wasSeeking timeUs s).mCurrentVideoEffect = s.mCurrentVideoEffect) ∧
    ((afterRender wasSeeking timeUs s).mVideoRenderer = s.mVideoRenderer) ∧
    ((afterRender wasSeeking timeUs s).mVideoBuffer = s.mVideoBuffer) ∧
    ((afterRender wasSeeking timeUs s).mSeeking = s.mSeeking) ∧
    ((afterRender wasSeeking timeUs s).mSeekTimeUs = s.mSeekTimeUs) ∧
    ((afterRender wasSeeking timeUs s).mIsVideoSourceJpg = s.mIsVideoSourceJpg) := by
  refine ⟨?_, ?_, ?_, ?_, ?_, ?_⟩ <;> simp only [afterRender] <;> (repeat' split) <;> first | rfl | simp_all [renderOf, noteOf]

/-- What `afterRender` leaves unchanged (sources, clock and pending marks). -/
@[simp] theorem afterRender_wiring (wasSeeking : SeekType) (timeUs : Int) (s : Player) :
    ((afterRender wasSeeking timeUs s).mAudioPlayer = s.mAudioPlayer) ∧
    ((afterRender wasSeeking timeUs s).mAudioSource = s.mAudioSource) ∧
    ((afterRender wasSeeking timeUs s).mVideoSource = s.mVideoSource) ∧
    ((afterRender wasSeeking timeUs s).mTimeSource = s.mTimeSource) ∧
    ((afterRender wasSeeking timeUs s).mTimeSourceDeltaUs = s.mTimeSourceDeltaUs) := by
  refine ⟨?_, ?_, ?_, ?_, ?_⟩ <;> simp only [afterRender] <;> (repeat' split) <;> first | rfl | simp_all [renderOf, noteOf]

/-- What `afterRender` leaves unchanged (the counts of the seek-complete and start-next
notifications and the marks that guard them). -/
@[simp] theorem afterRender_notices (wasSeeking : SeekType) (timeUs : Int) (s : Player) :
    (seekCompleteCount (afterRender wasSeeking timeUs s).trace = seekCompleteCount s.trace) ∧
    ((afterRender wasSeeking timeUs s).mSeekNotificationSent = s.mSeekNotificationSent) ∧
    (startNextCount (afterRender wasSeeking timeUs s).trace = startNextCount s.trace) ∧
    ((afterRender wasSeeking timeUs s).mStartNextPlayer = s.mStartNextPlayer) := by
  refine ⟨?_, ?_, ?_, ?_⟩ <;> simp only [afterRender] <;> (repeat' split) <;> first | rfl | simp_all [renderOf, noteOf]

/-- What `afterRender` leaves unchanged (the abort mark and the seek state). -/
@[simp] theorem afterRender_process (wasSeeking : SeekType) (timeUs : Int) (s : Player) :
    ((afterRender wasSeeking timeUs s).aborted = s.aborted) ∧
    ((afterRender wasSeeking timeUs s).mSeeking = s.mSeeking) := by
  refine ⟨?_, ?_⟩ <;> simp only [afterRender] <;> (repeat' split) <;> first | rfl | simp_all [renderOf, noteOf]

/-- What `dropPastEnd` leaves unchanged (settings, render calls, completion count, flags). -/
@[simp] theorem dropPastEnd_frame (b : MediaBuffer) (s : Player) :
    ((dropPastEnd b s).cfg = s.cfg) ∧
    (renders (dropPastEnd b s).trace = renders s.trace) ∧
    (playbackCompleteCount (dropPastEnd b s).trace = playbackCompleteCount s.trace) := by
  refine ⟨?_, ?_, ?_⟩ <;> simp only [dropPastEnd] <;> (repeat' split) <;> first | rfl | simp_all [renderOf, noteOf]

/-- What `dropPastEnd` leaves unchanged (flags). -/
@[simp] theorem dropPastEnd_flags (b : MediaBuffer) (s : Player) :
    ((dropPastEnd b s).mFlags.PLAYING = s.mFlags.PLAYING) ∧
    ((dropPastEnd b s).mFlags.AT_EOS = s.mFlags.AT_EOS) ∧
    ((dropPastEnd b s).mFlags.INFORMED_AV_EOS = s.mFlags.INFORMED_AV_EOS) ∧
    ((dropPastEnd b s).mFlags.CACHE_UNDERRUN = s.mFlags.CACHE_UNDERRUN) ∧
    ((dropPastEnd b s).mFlags.LOOPING = s.mFlags.LOOPING) ∧
    ((dropPastEnd b s).mFlags.AUTO_LOOPING = s.mFlags.AUTO_LOOPING) ∧
    ((dropPastEnd b s).mFlags.FIRST_FRAME = s.mFlags.FIRST_FRAME) ∧
    ((dropPastEnd b s).mFlags.SEEK_PREVIEW = s.mFlags.SEEK_PREVIEW) ∧
    ((dropPastEnd b s).mFlags.AUDIO_RUNNING = s.mFlags.AUDIO_RUNNING) := by
  refine ⟨?_, ?_, ?_, ?_, ?_, ?_, ?_, ?_, ?_⟩ <;> simp only [dropPastEnd] <;> (repeat' split) <;> first | rfl | simp_all [renderOf, noteOf]

/-- What `dropPastEnd` leaves unchanged (fields of the video loop). -/
@[simp] theorem dropPastEnd_fields (b : MediaBuffer) (s : Player) :
    ((dropPastEnd b s).mCurrentVideoEffect = s.mCurrentVideoEffect) ∧
    ((dropPastEnd b s).mVideoRenderer = s.mVideoRenderer) ∧
    ((dropPastEnd b s).mSeeking = s.mSeeking) ∧
    ((dropPastEnd b s).mSeekTimeUs = s.mSeekTimeUs) ∧
    ((dropPastEnd b s).mIsVideoSourceJpg = s.mIsVideoSourceJpg) ∧
    ((dropPastEnd b s).mVideoEventPending = s.mVideoEventPending) := by
  refine ⟨?_, ?_, ?_, ?_, ?_, ?_⟩ <;> simp only [dropPastEnd] <;> (repeat' split) <;> first | rfl | simp_all [renderOf, noteOf]

/-- What `dropPastEnd` leaves unchanged (sources, clock and pending marks). -/
@[simp] theorem dropPastEnd_wiring (b : MediaBuffer) (s : Player) :
    ((dropPastEnd b s).mAudioPlayer = s.mAudioPlayer) ∧
    ((dropPastEnd b s).mAudioSource = s.mAudioSource) ∧
    ((dropPastEnd b s).mVideoSource = s.mVideoSource) ∧
    ((dropPastEnd b s).mTimeSource = s.mTimeSource) ∧
    ((dropPastEnd b s).mTimeSourceDeltaUs = s.mTimeSourceDeltaUs) := by
  refine ⟨?_, ?_, ?_, ?_, ?_⟩ <;> simp only [dropPastEnd] <;> (repeat' split) <;> first | rfl | simp_all [renderOf, noteOf]

/-- What `dropPastEnd` leaves unchanged (the counts of the seek-complete and start-next
notifications and the marks that guard them). -/
@[simp] theorem dropPastEnd_notices (b : MediaBuffer) (s : Player) :
    (seekCompleteCount (dropPastEnd b s).trace = seekCompleteCount s.trace) ∧
    ((dropPastEnd b s).mSeekNotificationSent = s.mSeekNotificationSent) ∧
    (startNextCount (dropPastEnd b s).trace = startNextCount s.trace) ∧
    ((dropPastEnd b s).mStartNextPlayer = s.mStartNextPlayer) := by
  refine ⟨?_, ?_, ?_, ?_⟩ <;> simp only [dropPastEnd] <;> (repeat' split) <;> first | rfl | simp_all [renderOf, noteOf]

/-- What `dropPastEnd` leaves unchanged (the abort mark and the seek state). -/
@[simp] theorem dropPastEnd_process (b : MediaBuffer) (s : Player) :
    ((dropPastEnd b s).aborted = s.aborted) ∧
    ((dropPastEnd b s).mSeeking = s.mSeeking) := by
  refine ⟨?_, ?_⟩ <;> simp only [dropPastEnd] <;> (repeat' split) <;> first | rfl | simp_all [renderOf, noteOf]

/-- What `renderAndAdvance` leaves unchanged (settings, render calls, completion count, flags). -/
@[simp] theorem renderAndAdvance_frame (wasSeeking : SeekType) (b : MediaBuffer) (s : Player) :
    ((renderAndAdvance wasSeeking b s).cfg = s.cfg) ∧
    (playbackCompleteCount (renderAndAdvance wasSeeking b s).trace = playbackCompleteCount s.trace) := by
  refine ⟨?_, ?_⟩ <;> simp only [renderAndAdvance] <;> (repeat' split) <;> first | rfl | simp_all [renderOf, noteOf]

/-- What `renderAndAdvance` leaves unchanged (flags). -/
@[simp] theorem renderAndAdvance_flags (wasSeeking : SeekType) (b : MediaBuffer) (s : Player) :
    ((renderAndAdvance wasSeeking b s).mFlags.PLAYING = s.mFlags.PLAYING) ∧
    ((renderAndAdvance wasSeeking b s).mFlags.AT_EOS = s.mFlags.AT_EOS) ∧
    ((renderAndAdvance wasSeeking b s).mFlags.INFORMED_AV_EOS = s.mFlags.INFORMED_AV_EOS) ∧
    ((renderAndAdvance wasSeeking b s).mFlags.CACHE_UNDERRUN = s.mFlags.CACHE_UNDERRUN) ∧
    ((renderAndAdvance wasSeeking b s).mFlags.LOOPING = s.mFlags.LOOPING) ∧
    ((renderAndAdvance wasSeeking b s).mFlags.AUTO_LOOPING = s.mFlags.AUTO_LOOPING) ∧
    ((renderAndAdvance wasSeeking b s).mFlags.FIRST_FRAME = s.mFlags.FIRST_FRAME) ∧
    ((renderAndAdvance wasSeeking b s).mFlags.AUDIO_RUNNING = s.mFlags.AUDIO_RUNNING) := by
  refine ⟨?_, ?_, ?_, ?_, ?_, ?_, ?_, ?_⟩ <;> simp only [renderAndAdvance] <;> (repeat' split) <;> first | rfl | simp_all [renderOf, noteOf]

/-- What `renderAndAdvance` leaves unchanged (fields of the video loop). -/
@[simp] theorem renderAndAdvance_fields (wasSeeking : SeekType) (b : MediaBuffer) (s : Player) :
    ((renderAndAdvance wasSeeking b s).mVideoRenderer = s.mVideoRenderer) ∧
    ((renderAndAdvance wasSeeking b s).mSeeking = s.mSeeking) ∧
    ((renderAndAdvance wasSeeking b s).mSeekTimeUs = s.mSeekTimeUs) ∧
    ((renderAndAdvance wasSeeking b s).mIsVideoSourceJpg = s.mIsVideoSourceJpg) := by
  refine ⟨?_, ?_, ?_, ?_⟩ <;> simp only [renderAndAdvance] <;> (repeat' split) <;> first | rfl | simp_all [renderOf, noteOf]

/-- What `renderAndAdvance` leaves unchanged (sources, clock and pending marks). -/
@[simp] theorem renderAndAdvance_wiring (wasSeeking : SeekType) (b : MediaBuffer) (s : Player) :
    ((renderAndAdvance wasSeeking b s).mAudioPlayer = s.mAudioPlayer) ∧
    ((renderAndAdvance wasSeeking b s).mAudioSource = s.mAudioSource) ∧
    ((renderAndAdvance wasSeeking b s).mVideoSource = s.mVideoSource) ∧
    ((renderAndAdvance wasSeeking b s).mTimeSource = s.mTimeSource) ∧
    ((renderAndAdvance wasSeeking b s).mTimeSourceDeltaUs = s.mTimeSourceDeltaUs) := by
  refine ⟨?_, ?_, ?_, ?_, ?_⟩ <;> simp only [renderAndAdvance] <;> (repeat' split) <;> first | rfl | simp_all [renderOf, noteOf]

/-- What `renderAndAdvance` leaves unchanged (the counts of the seek-complete and start-next
notifications and the marks that guard them). -/
@[simp] theorem renderAndAdvance_notices (wasSeeking : SeekType) (b : MediaBuffer) (s : Player) :
    (seekCompleteCount (renderAndAdvance wasSeeking b s).trace = seekCompleteCount s.trace) ∧
    ((renderAndAdvance wasSeeking b s).mSeekNotificationSent = s.mSeekNotificationSent) ∧
    (startNextCount (renderAndAdvance wasSeeking b s).trace = startNextCount s.trace) ∧
    ((renderAndAdvance wasSeeking b s).mStartNextPlayer = s.mStartNextPlayer) := by
  refine ⟨?_, ?_, ?_, ?_⟩ <;> simp only [renderAndAdvance] <;> (repeat' split) <;> first | rfl | simp_all [renderOf, noteOf]

/-- What `renderAndAdvance` leaves unchanged (the abort mark and the seek state). -/
@[simp] theorem renderAndAdvance_process (wasSeeking : SeekType) (b : MediaBuffer) (s : Player) :
    ((renderAndAdvance wasSeeking b s).aborted = s.aborted) ∧
    ((renderAndAdvance wasSeeking b s).mSeeking = s.mSeeking) := by
  refine ⟨?_, ?_⟩ <;> simp only [renderAndAdvance] <;> (repeat' split) <;> first | rfl | simp_all [renderOf, noteOf]

/-- What `renderStage` leaves unchanged (settings, render calls, completion count, flags). -/
@[simp] theorem renderStage_frame (wasSeeking : SeekType) (b : MediaBuffer) (s : Player) :
    ((renderStage wasSeeking b s).cfg = s.cfg) ∧
    (playbackCompleteCount (renderStage wasSeeking b s).trace = playbackCompleteCount s.trace) := by
  refine ⟨?_, ?_⟩ <;> simp only [renderStage] <;> (repeat' split) <;> first | rfl | simp_all [renderOf, noteOf]

/-- What `renderStage` leaves unchanged (flags). -/
@[simp] theorem renderStage_flags (wasSeeking : SeekType) (b : MediaBuffer) (s : Player) :
    ((renderStage wasSeeking b s).mFlags.PLAYING = s.mFlags.PLAYING) ∧
    ((renderStage wasSeeking b s).mFlags.AT_EOS = s.mFlags.AT_EOS) ∧
    ((renderStage wasSeeking b s).mFlags.INFORMED_AV_EOS = s.mFlags.INFORMED_AV_EOS) ∧
    ((renderStage wasSeeking b s).mFlags.CACHE_UNDERRUN = s.mFlags.CACHE_UNDERRUN) ∧
    ((renderStage wasSeeking b s).mFlags.LOOPING = s.mFlags.LOOPING) ∧
    ((renderStage wasSeeking b s).mFlags.AUTO_LOOPING = s.mFlags.AUTO_LOOPING) ∧
    ((renderStage wasSeeking b s).mFlags.FIRST_FRAME = s.mFlags.FIRST_FRAME) ∧
    ((renderStage wasSeeking b s).mFlags.AUDIO_RUNNING = s.mFlags.AUDIO_RUNNING) := by
  refine ⟨?_, ?_, ?_, ?_, ?_, ?_, ?_, ?_⟩ <;> simp only [renderStage] <;> (repeat' split) <;> first | rfl | simp_all [renderOf, noteOf]

/-- What `renderStage` leaves unchanged (fields of the video loop). -/
@[simp] theorem renderStage_fields (wasSeeking : SeekType) (b : MediaBuffer) (s : Player) :
    ((renderStage wasSeeking b s).mSeeking = s.mSeeking) ∧
    ((renderStage wasSeeking b s).mSeekTimeUs = s.mSeekTimeUs) ∧
    ((renderStage wasSeeking b s).mIsVideoSourceJpg = s.mIsVideoSourceJpg) := by
  refine ⟨?_, ?_, ?_⟩ <;> simp only [renderStage] <;> (repeat' split) <;> first | rfl | simp_all [renderOf, noteOf]

/-- What `renderStage` leaves unchanged (sources, clock and pending marks). -/
@[simp] theorem renderStage_wiring (wasSeeking : SeekType) (b : MediaBuffer) (s : Player) :
    ((renderStage wasSeeking b s).mAudioPlayer = s.mAudioPlayer) ∧
    ((renderStage wasSeeking b s).mAudioSource = s.mAudioSource) ∧
    ((renderStage wasSeeking b s).mVideoSource = s.mVideoSource) ∧
    ((renderStage wasSeeking b s).mTimeSource = s.mTimeSource) ∧
    ((renderStage wasSeeking b s).mTimeSourceDeltaUs = s.mTimeSourceDeltaUs) := by
  refine ⟨?_, ?_, ?_, ?_, ?_⟩ <;> simp only [renderStage] <;> (repeat' split) <;> first | rfl | simp_all [renderOf, noteOf]

/-- What `renderStage` leaves unchanged (the counts of the seek-complete and start-next
notifications and the marks that guard them). -/
@[simp] theorem renderStage_notices (wasSeeking : SeekType) (b : MediaBuffer) (s : Player) :
    (seekCompleteCount (renderStage wasSeeking b s).trace = seekCompleteCount s.trace) ∧
    ((renderStage wasSeeking b s).mSeekNotificationSent = s.mSeekNotificationSent) ∧
    (startNextCount (renderStage wasSeeking b s).trace = startNextCount s.trace) ∧
    ((renderStage wasSeeking b s).mStartNextPlayer = s.mStartNextPlayer) := by
  refine ⟨?_, ?_, ?_, ?_⟩ <;> simp only [renderStage] <;> (repeat' split) <;> first | rfl | simp_all [renderOf, noteOf]

/-- What `renderStage` leaves unchanged (the abort mark and the seek state). -/
@[simp] theorem renderStage_process (wasSeeking : SeekType) (b : MediaBuffer) (s : Player) :
    ((renderStage wasSeeking b s).aborted = s.aborted) ∧
    ((renderStage wasSeeking b s).mSeeking = s.mSeeking) := by
  refine ⟨?_, ?_⟩ <;> simp only [renderStage] <;> (repeat' split) <;> first | rfl | simp_all [renderOf, noteOf]

/-- What `avSync_decide` leaves unchanged (settings, render calls, completion count, flags). -/
@[simp] theorem avSync_decide_frame (env : Env) (wasSeeking : SeekType) (b : MediaBuffer) (s : Player) :
    ((avSync_decide env wasSeeking b s).cfg = s.cfg) ∧
    (playbackCompleteCount (avSync_decide env wasSeeking b s).trace = playbackCompleteCount s.trace) := by
  refine ⟨?_, ?_⟩ <;> simp only [avSync_decide] <;> (repeat' split) <;> first | rfl | simp_all [renderOf, noteOf]

/-- What `avSync_decide` leaves unchanged (flags). -/
@[simp] theorem avSync_decide_flags (env : Env) (wasSeeking : SeekType) (b : MediaBuffer) (s : Player) :
    ((avSync_decide env wasSeeking b s).mFlags.PLAYING = s.mFlags.PLAYING) ∧
    ((avSync_decide env wasSeeking b s).mFlags.AT_EOS = s.mFlags.AT_EOS) ∧
    ((avSync_decide env wasSeeking b s).mFlags.INFORMED_AV_EOS = s.mFlags.INFORMED_AV_EOS) ∧
    ((avSync_decide env wasSeeking b s).mFlags.CACHE_UNDERRUN = s.mFlags.CACHE_UNDERRUN) ∧
    ((avSync_decide env wasSeeking b s).mFlags.LOOPING = s.mFlags.LOOPING) ∧
    ((avSync_decide env wasSeeking b s).mFlags.AUTO_LOOPING = s.mFlags.AUTO_LOOPING) ∧
    ((avSync_decide env wasSeeking b s).mFlags.FIRST_FRAME = s.mFlags.FIRST_FRAME) ∧
    ((avSync_decide env wasSeeking b s).mFlags.AUDIO_RUNNING = s.mFlags.AUDIO_RUNNING) := by
  refine ⟨?_, ?_, ?_, ?_, ?_, ?_, ?_, ?_⟩ <;> simp only [avSync_decide] <;> (repeat' split) <;> first | rfl | simp_all [renderOf, noteOf]

/-- What `avSync_decide` leaves unchanged (fields of the video loop). -/
@[simp] theorem avSync_decide_fields (env : Env) (wasSeeking : SeekType) (b : MediaBuffer) (s : Player) :
    ((avSync_decide env wasSeeking b s).mSeeking = s.mSeeking) ∧
    ((avSync_decide env wasSeeking b s).mSeekTimeUs = s.mSeekTimeUs) ∧
    ((avSync_decide env wasSeeking b s).mIsVideoSourceJpg = s.mIsVideoSourceJpg) := by
  refine ⟨?_, ?_, ?_⟩ <;> simp only [avSync_decide] <;> (repeat' split) <;> first | rfl | simp_all [renderOf, noteOf]

/-- What `avSync_decide` leaves unchanged (sources, clock and pending marks). -/
@[simp] theorem avSync_decide_wiring (env : Env) (wasSeeking : SeekType) (b : MediaBuffer) (s : Player) :
    ((avSync_decide env wasSeeking b s).mAudioPlayer = s.mAudioPlayer) ∧
    ((avSync_decide env wasSeeking b s).mAudioSource = s.mAudioSource) ∧
    ((avSync_decide env wasSeeking b s).mVideoSource = s.mVideoSource) ∧
    ((avSync_decide env wasSeeking b s).mTimeSource = s.mTimeSource) ∧
    ((avSync_decide env wasSeeking b s).mTimeSourceDeltaUs = s.mTimeSourceDeltaUs) := by
  refine ⟨?_, ?_, ?_, ?_, ?_⟩ <;> simp only [avSync_decide] <;> (repeat' split) <;> first | rfl | simp_all [renderOf, noteOf]

/-- What `avSync_decide` leaves unchanged (the counts of the seek-complete and start-next
notifications and the marks that guard them). -/
@[simp] theorem avSync_decide_notices (env : Env) (wasSeeking : SeekType) (b : MediaBuffer) (s : Player) :
    (seekCompleteCount (avSync_decide env wasSeeking b s).trace = seekCompleteCount s.trace) ∧
    ((avSync_decide env wasSeeking b s).mSeekNotificationSent = s.mSeekNotificationSent) ∧
    (startNextCount (avSync_decide env wasSeeking b s).trace = startNextCount s.trace) ∧
    ((avSync_decide env wasSeeking b s).mStartNextPlayer = s.mStartNextPlayer) := by
  refine ⟨?_, ?_, ?_, ?_⟩ <;> simp only [avSync_decide] <;> (repeat' split) <;> first | rfl | simp_all [renderOf, noteOf]

/-- What `avSync_decide` leaves unchanged (the abort mark and the seek state). -/
@[simp] theorem avSync_decide_process (env : Env) (wasSeeking : SeekType) (b : MediaBuffer) (s : Player) :
    ((avSync_decide env wasSeeking b s).aborted = s.aborted) ∧
    ((avSync_decide env wasSeeking b s).mSeeking = s.mSeeking) := by
  refine ⟨?_, ?_⟩ <;> simp only [avSync_decide] <;> (repeat' split) <;> first | rfl | simp_all [renderOf, noteOf]

/-- What `avSync` leaves unchanged (settings, render calls, completion count, flags). -/
@[simp] theorem avSync_frame (env : Env) (wasSeeking : SeekType) (b : MediaBuffer) (s : Player) :
    ((avSync env wasSeeking b s).cfg = s.cfg) ∧
    (playbackCompleteCount (avSync env wasSeeking b s).trace = playbackCompleteCount s.trace) := by
  refine ⟨?_, ?_⟩ <;> simp only [avSync] <;> (repeat' split) <;> first | rfl | simp_all [renderOf, noteOf]

/-- What `avSync` leaves unchanged (flags). -/
@[simp] theorem avSync_flags (env : Env) (wasSeeking : SeekType) (b : MediaBuffer) (s : Player) :
    ((avSync env wasSeeking b s).mFlags.PLAYING = s.mFlags.PLAYING) ∧
    ((avSync env wasSeeking b s).mFlags.AT_EOS = s.mFlags.AT_EOS) ∧
    ((avSync env wasSeeking b s).mFlags.INFORMED_AV_EOS = s.mFlags.INFORMED_AV_EOS) ∧
    ((avSync env wasSeeking b s).mFlags.CACHE_UNDERRUN = s.mFlags.CACHE_UNDERRUN) ∧
    ((avSync env wasSeeking b s).mFlags.LOOPING = s.mFlags.LOOPING) ∧
    ((avSync env wasSeeking b s).mFlags.AUTO_LOOPING = s.mFlags.AUTO_LOOPING) ∧
    ((avSync env wasSeeking b s).mFlags.AUDIO_RUNNING = s.mFlags.AUDIO_RUNNING) := by
  refine ⟨?_, ?_, ?_, ?_, ?_, ?_, ?_⟩ <;> simp only [avSync] <;> (repeat' split) <;> first | rfl | simp_all [renderOf, noteOf]

/-- What `avSync` leaves unchanged (fields of the video loop). -/
@[simp] theorem avSync_fields (env : Env) (wasSeeking : SeekType) (b : MediaBuffer) (s : Player) :
    ((avSync env wasSeeking b s).mSeeking = s.mSeeking) ∧
    ((avSync env wasSeeking b s).mSeekTimeUs = s.mSeekTimeUs) ∧
    ((avSync env wasSeeking b s).mIsVideoSourceJpg = s.mIsVideoSourceJpg) := by
  refine ⟨?_, ?_, ?_⟩ <;> simp only [avSync] <;> (repeat' split) <;> first | rfl | simp_all [renderOf, noteOf]

/-- What `avSync` leaves unchanged (sources, clock and pending marks). -/
@[simp] theorem avSync_wiring (env : Env) (wasSeeking : SeekType) (b : MediaBuffer) (s : Player) :
    ((avSync env wasSeeking b s).mAudioPlayer = s.mAudioPlayer) ∧
    ((avSync env wasSeeking b s).mAudioSource = s.mAudioSource) ∧
    ((avSync env wasSeeking b s).mVideoSource = s.mVideoSource) ∧
    ((avSync env wasSeeking b s).mTimeSource = s.mTimeSource) := by
  refine ⟨?_, ?_, ?_, ?_⟩ <;> simp only [avSync] <;> (repeat' split) <;> first | rfl | simp_all [renderOf, noteOf]

/-- What `avSync` leaves unchanged (the counts of the seek-complete and start-next notifications
and the marks that guard them). -/
@[simp] theorem avSync_notices (env : Env) (wasSeeking : SeekType) (b : MediaBuffer) (s : Player) :
    (seekCompleteCount (avSync env wasSeeking b s).trace = seekCompleteCount s.trace) ∧
    ((avSync env wasSeeking b s).mSeekNotificationSent = s.mSeekNotificationSent) ∧
    (startNextCount (avSync env wasSeeking b s).trace = startNextCount s.trace) ∧
    ((avSync env wasSeeking b s).mStartNextPlayer = s.mStartNextPlayer) := by
  refine ⟨?_, ?_, ?_, ?_⟩ <;> simp only [avSync] <;> (repeat' split) <;> first | rfl | simp_all [renderOf, noteOf]

/-- What `avSync` leaves unchanged (the abort mark and the seek state). -/
@[simp] theorem avSync_process (env : Env) (wasSeeking : SeekType) (b : MediaBuffer) (s : Player) :
    ((avSync env wasSeeking b s).aborted = s.aborted) ∧
    ((avSync env wasSeeking b s).mSeeking = s.mSeeking) := by
  refine ⟨?_, ?_⟩ <;> simp only [avSync] <;> (repeat' split) <;> first | rfl | simp_all [renderOf, noteOf]

/-- What `processFrame_sync` leaves unchanged (settings, render calls, completion count, flags). -/
@[simp] theorem processFrame_sync_frame (env : Env) (wasSeeking : SeekType) (b : MediaBuffer) (s : Player) :
    ((processFrame_sync env wasSeeking b s).cfg = s.cfg) ∧
    (playbackCompleteCount (processFrame_sync env wasSeeking b s).trace = playbackCompleteCount s.trace) := by
  refine ⟨?_, ?_⟩ <;> simp only [processFrame_sync] <;> (repeat' split) <;> first | rfl | simp_all [renderOf, noteOf]

/-- What `processFrame_sync` leaves unchanged (flags). -/
@[simp] theorem processFrame_sync_flags (env : Env) (wasSeeking : SeekType) (b : MediaBuffer) (s : Player) :
    ((processFrame_sync env wasSeeking b s).mFlags.PLAYING = s.mFlags.PLAYING) ∧
    ((processFrame_sync env wasSeeking b s).mFlags.AT_EOS = s.mFlags.AT_EOS) ∧
    ((processFrame_sync env wasSeeking b s).mFlags.INFORMED_AV_EOS = s.mFlags.INFORMED_AV_EOS) ∧
    ((processFrame_sync env wasSeeking b s).mFlags.CACHE_UNDERRUN = s.mFlags.CACHE_UNDERRUN) ∧
    ((processFrame_sync env wasSeeking b s).mFlags.LOOPING = s.mFlags.LOOPING) ∧
    ((processFrame_sync env wasSeeking b s).mFlags.AUTO_LOOPING = s.mFlags.AUTO_LOOPING) ∧
    ((processFrame_sync env wasSeeking b s).mFlags.AUDIO_RUNNING = s.mFlags.AUDIO_RUNNING) := by
  refine ⟨?_, ?_, ?_, ?_, ?_, ?_, ?_⟩ <;> simp only [processFrame_sync] <;> (repeat' split) <;> first | rfl | simp_all [renderOf, noteOf]

/-- What `processFrame_sync` leaves unchanged (fields of the video loop). -/
@[simp] theorem processFrame_sync_fields (env : Env) (wasSeeking : SeekType) (b : MediaBuffer) (s : Player) :
    ((processFrame_sync env wasSeeking b s).mSeeking = s.mSeeking) ∧
    ((processFrame_sync env wasSeeking b s).mSeekTimeUs = s.mSeekTimeUs) ∧
    ((processFrame_sync env wasSeeking b s).mIsVideoSourceJpg = s.mIsVideoSourceJpg) := by
  refine ⟨?_, ?_, ?_⟩ <;> simp only [processFrame_sync] <;> (repeat' split) <;> first | rfl | simp_all [renderOf, noteOf]

/-- What `processFrame_sync` leaves unchanged (sources, clock and pending marks). -/
@[simp] theorem processFrame_sync_wiring (env : Env) (wasSeeking : SeekType) (b : MediaBuffer) (s : Player) :
    ((processFrame_sync env wasSeeking b s).mAudioPlayer = s.mAudioPlayer) ∧
    ((processFrame_sync env wasSeeking b s).mAudioSource = s.mAudioSource) ∧
    ((processFrame_sync env wasSeeking b s).mVideoSource = s.mVideoSource) ∧
    ((processFrame_sync env wasSeeking b s).mTimeSource = s.mTimeSource) := by
  refine ⟨?_, ?_, ?_, ?_⟩ <;> simp only [processFrame_sync] <;> (repeat' split) <;> first | rfl | simp_all [renderOf, noteOf]

/-- What `processFrame_sync` leaves unchanged (the counts of the seek-complete and start-next
notifications and the marks that guard them). -/
@[simp] theorem processFrame_sync_notices (env : Env) (wasSeeking : SeekType) (b : MediaBuffer) (s : Player) :
    (seekCompleteCount (processFrame_sync env wasSeeking b s).trace = seekCompleteCount s.trace) ∧
    ((processFrame_sync env wasSeeking b s).mSeekNotificationSent = s.mSeekNotificationSent) ∧
    (startNextCount (processFrame_sync env wasSeeking b s).trace = startNextCount s.trace) ∧
    ((processFrame_sync env wasSeeking b s).mStartNextPlayer = s.mStartNextPlayer) := by
  refine ⟨?_, ?_, ?_, ?_⟩ <;> simp only [processFrame_sync] <;> (repeat' split) <;> first | rfl | simp_all [renderOf, noteOf]

/-- What `processFrame_sync` leaves unchanged (the abort mark and the seek state). -/
@[simp] theorem processFrame_sync_process (env : Env) (wasSeeking : SeekType) (b : MediaBuffer) (s : Player) :
    ((processFrame_sync env wasSeeking b s).aborted = s.aborted) ∧
    ((processFrame_sync env wasSeeking b s).mSeeking = s.mSeeking) := by
  refine ⟨?_, ?_⟩ <;> simp only [processFrame_sync] <;> (repeat' split) <;> first | rfl | simp_all [renderOf, noteOf]

/-- What `processFrame_seek` leaves unchanged (settings, render calls, completion count, flags). -/
@[simp] theorem processFrame_seek_frame (env : Env) (b : MediaBuffer) (s : Player) :
    ((processFrame_seek env b s).cfg = s.cfg) ∧
    (playbackCompleteCount (processFrame_seek env b s).trace = playbackCompleteCount s.trace) := by
  refine ⟨?_, ?_⟩ <;> simp only [processFrame_seek] <;> (repeat' split) <;> first | rfl | simp_all [renderOf, noteOf]

/-- What `processFrame_seek` leaves unchanged (flags). -/
@[simp] theorem processFrame_seek_flags (env : Env) (b : MediaBuffer) (s : Player) :
    ((processFrame_seek env b s).mFlags.PLAYING = s.mFlags.PLAYING) ∧
    ((processFrame_seek env b s).mFlags.AT_EOS = s.mFlags.AT_EOS) ∧
    ((processFrame_seek env b s).mFlags.INFORMED_AV_EOS = s.mFlags.INFORMED_AV_EOS) ∧
    ((processFrame_seek env b s).mFlags.CACHE_UNDERRUN = s.mFlags.CACHE_UNDERRUN) ∧
    ((processFrame_seek env b s).mFlags.LOOPING = s.mFlags.LOOPING) ∧
    ((processFrame_seek env b s).mFlags.AUTO_LOOPING = s.mFlags.AUTO_LOOPING) := by
  refine ⟨?_, ?_, ?_, ?_, ?_, ?_⟩ <;> simp only [processFrame_seek] <;> (repeat' split) <;> first | rfl | simp_all [renderOf, noteOf]

/-- What `processFrame_seek` leaves unchanged (fields of the video loop). -/
@[simp] theorem processFrame_seek_fields (env : Env) (b : MediaBuffer) (s : Player) :
    ((processFrame_seek env b s).mSeekTimeUs = s.mSeekTimeUs) ∧
    ((processFrame_seek env b s).mIsVideoSourceJpg = s.mIsVideoSourceJpg) := by
  refine ⟨?_, ?_⟩ <;> simp only [processFrame_seek] <;> (repeat' split) <;> first | rfl | simp_all [renderOf, noteOf]

/-- What `processFrame_seek` leaves unchanged (sources, clock and pending marks). -/
@[simp] theorem processFrame_seek_wiring (env : Env) (b : MediaBuffer) (s : Player) :
    ((processFrame_seek env b s).mAudioPlayer = s.mAudioPlayer) ∧
    ((processFrame_seek env b s).mAudioSource = s.mAudioSource) ∧
    ((processFrame_seek env b s).mVideoSource = s.mVideoSource) ∧
    ((processFrame_seek env b s).mTimeSource = s.mTimeSource) := by
  refine ⟨?_, ?_, ?_, ?_⟩ <;> simp only [processFrame_seek] <;> (repeat' split) <;> first | rfl | simp_all [renderOf, noteOf]

/-- What `processFrame_seek` leaves unchanged (the counts of the seek-complete and start-next
notifications and the marks that guard them). -/
@[simp] theorem processFrame_seek_notices (env : Env) (b : MediaBuffer) (s : Player) :
    (startNextCount (processFrame_seek env b s).trace = startNextCount s.trace) ∧
    ((processFrame_seek env b s).mStartNextPlayer = s.mStartNextPlayer) := by
  refine ⟨?_, ?_⟩ <;> simp only [processFrame_seek] <;> (repeat' split) <;> first | rfl | simp_all [renderOf, noteOf]

/-- What `processFrame_seek` leaves unchanged (the abort mark and the seek state). -/
@[simp] theorem processFrame_seek_process (env : Env) (b : MediaBuffer) (s : Player) :
    (processFrame_seek env b s).aborted = s.aborted := by
  simp only [processFrame_seek] <;> (repeat' split) <;> first | rfl | simp_all [renderOf, noteOf]

/-- What `processFrame` leaves unchanged (settings, render calls, completion count, flags). -/
@[simp] theorem processFrame_frame (env : Env) (b : MediaBuffer) (s : Player) :
    ((processFrame env b s).cfg = s.cfg) ∧
    (playbackCompleteCount (processFrame env b s).trace = playbackCompleteCount s.trace) := by
  refine ⟨?_, ?_⟩ <;> simp only [processFrame] <;> (repeat' split) <;> first | rfl | simp_all [renderOf, noteOf]

/-- What `processFrame` leaves unchanged (flags). -/
@[simp] theorem processFrame_flags (env : Env) (b : MediaBuffer) (s : Player) :
    ((processFrame env b s).mFlags.PLAYING = s.mFlags.PLAYING) ∧
    ((processFrame env b s).mFlags.AT_EOS = s.mFlags.AT_EOS) ∧
    ((processFrame env b s).mFlags.INFORMED_AV_EOS = s.mFlags.INFORMED_AV_EOS) ∧
    ((processFrame env b s).mFlags.CACHE_UNDERRUN = s.mFlags.CACHE_UNDERRUN) ∧
    ((processFrame env b s).mFlags.LOOPING = s.mFlags.LOOPING) ∧
    ((processFrame env b s).mFlags.AUTO_LOOPING = s.mFlags.AUTO_LOOPING) := by
  refine ⟨?_, ?_, ?_, ?_, ?_, ?_⟩ <;> simp only [processFrame] <;> (repeat' split) <;> first | rfl | simp_all [renderOf, noteOf]

/-- What `processFrame` leaves unchanged (fields of the video loop). -/
@[simp] theorem processFrame_fields (env : Env) (b : MediaBuffer) (s : Player) :
    ((processFrame env b s).mSeekTimeUs = s.mSeekTimeUs) ∧
    ((processFrame env b s).mIsVideoSourceJpg = s.mIsVideoSourceJpg) := by
  refine ⟨?_, ?_⟩ <;> simp only [processFrame] <;> (repeat' split) <;> first | rfl | simp_all [renderOf, noteOf]

/-- What `processFrame` leaves unchanged (sources, clock and pending marks). -/
@[simp] theorem processFrame_wiring (env : Env) (b : MediaBuffer) (s : Player) :
    ((processFrame env b s).mAudioPlayer = s.mAudioPlayer) ∧
    ((processFrame env b s).mAudioSource = s.mAudioSource) ∧
    ((processFrame env b s).mVideoSource = s.mVideoSource) ∧
    ((processFrame env b s).mTimeSource = s.mTimeSource) := by
  refine ⟨?_, ?_, ?_, ?_⟩ <;> simp only [processFrame] <;> (repeat' split) <;> first | rfl | simp_all [renderOf, noteOf]

/-- What `processFrame` leaves unchanged (the abort mark and the seek state). -/
@[simp] theorem processFrame_process (env : Env) (b : MediaBuffer) (s : Player) :
    (processFrame env b s).aborted = s.aborted := by
  simp only [processFrame] <;> (repeat' split) <;> first | rfl | simp_all [renderOf, noteOf]

/-- What `frameState` leaves unchanged (settings, render calls, completion count, flags). -/
@[simp] theorem frameState_frame (s : Player) :
    ((frameState s).cfg = s.cfg) ∧
    (renders (frameState s).trace = renders s.trace) ∧
    (playbackCompleteCount (frameState s).trace = playbackCompleteCount s.trace) := by
  refine ⟨?_, ?_, ?_⟩ <;> simp only [frameState] <;> (repeat' split) <;> first | rfl | simp_all [renderOf, noteOf]

/-- What `frameState` leaves unchanged (flags). -/
@[simp] theorem frameState_flags (s : Player) :
    ((frameState s).mFlags.PLAYING = s.mFlags.PLAYING) ∧
    ((frameState s).mFlags.AT_EOS = s.mFlags.AT_EOS) ∧
    ((frameState s).mFlags.INFORMED_AV_EOS = s.mFlags.INFORMED_AV_EOS) ∧
    ((frameState s).mFlags.CACHE_UNDERRUN = s.mFlags.CACHE_UNDERRUN) ∧
    ((frameState s).mFlags.LOOPING = s.mFlags.LOOPING) ∧
    ((frameState s).mFlags.AUTO_LOOPING = s.mFlags.AUTO_LOOPING) ∧
    ((frameState s).mFlags.SEEK_PREVIEW = s.mFlags.SEEK_PREVIEW) := by
  refine ⟨?_, ?_, ?_, ?_, ?_, ?_, ?_⟩ <;> simp only [frameState] <;> (repeat' split) <;> first | rfl | simp_all [renderOf, noteOf]

/-- What `frameState` leaves unchanged (fields of the video loop). -/
@[simp] theorem frameState_fields (s : Player) :
    ((frameState s).mCurrentVideoEffect = s.mCurrentVideoEffect) ∧
    ((frameState s).mSeekTimeUs = s.mSeekTimeUs) ∧
    ((frameState s).mIsVideoSourceJpg = s.mIsVideoSourceJpg) := by
  refine ⟨?_, ?_, ?_⟩ <;> simp only [frameState] <;> (repeat' split) <;> first | rfl | simp_all [renderOf, noteOf]

/-- What `frameState` leaves unchanged (sources, clock and pending marks). -/
@[simp] theorem frameState_wiring (s : Player) :
    ((frameState s).mAudioPlayer = s.mAudioPlayer) ∧
    ((frameState s).mAudioSource = s.mAudioSource) ∧
    ((frameState s).mTimeSource = s.mTimeSource) ∧
    ((frameState s).mTimeSourceDeltaUs = s.mTimeSourceDeltaUs) := by
  refine ⟨?_, ?_, ?_, ?_⟩ <;> simp only [frameState] <;> (repeat' split) <;> first | rfl | simp_all [renderOf, noteOf]

/-- What `frameState` leaves unchanged (the counts of the seek-complete and start-next
notifications and the marks that guard them). -/
@[simp] theorem frameState_notices (s : Player) :
    (startNextCount (frameState s).trace = startNextCount s.trace) ∧
    ((frameState s).mStartNextPlayer = s.mStartNextPlayer) := by
  refine ⟨?_, ?_⟩ <;> simp only [frameState] <;> (repeat' split) <;> first | rfl | simp_all [renderOf, noteOf]

/-- What `frameState` leaves unchanged (the abort mark and the seek state). -/
@[simp] theorem frameState_process (s : Player) :
    (frameState s).aborted = s.aborted := by
  simp only [frameState] <;> (repeat' split) <;> first | rfl | simp_all [renderOf, noteOf]

/-- What `onVideoEvent` leaves unchanged (settings, render calls, completion count, flags). -/
@[simp] theorem onVideoEvent_frame (env : Env) (s : Player) :
    ((onVideoEvent env s).cfg = s.cfg) ∧
    (playbackCompleteCount (onVideoEvent env s).trace = playbackCompleteCount s.trace) := by
  refine ⟨?_, ?_⟩ <;> simp only [onVideoEvent] <;> (repeat' split) <;> first | rfl | simp_all [renderOf, noteOf]

/-- What `onVideoEvent` leaves unchanged (flags). -/
@[simp] theorem onVideoEvent_flags (env : Env) (s : Player) :
    ((onVideoEvent env s).mFlags.PLAYING = s.mFlags.PLAYING) ∧
    ((onVideoEvent env s).mFlags.AT_EOS = s.mFlags.AT_EOS) ∧
    ((onVideoEvent env s).mFlags.INFORMED_AV_EOS = s.mFlags.INFORMED_AV_EOS) ∧
    ((onVideoEvent env s).mFlags.CACHE_UNDERRUN = s.mFlags.CACHE_UNDERRUN) ∧
    ((onVideoEvent env s).mFlags.LOOPING = s.mFlags.LOOPING) ∧
    ((onVideoEvent env s).mFlags.AUTO_LOOPING = s.mFlags.AUTO_LOOPING) := by
  refine ⟨?_, ?_, ?_, ?_, ?_, ?_⟩ <;> simp only [onVideoEvent] <;> (repeat' split) <;> first | rfl | simp_all [renderOf, noteOf]

/-- What `onVideoEvent` leaves unchanged (fields of the video loop). -/
@[simp] theorem onVideoEvent_fields (env : Env) (s : Player) :
    ((onVideoEvent env s).mSeekTimeUs = s.mSeekTimeUs) ∧
    ((onVideoEvent env s).mIsVideoSourceJpg = s.mIsVideoSourceJpg) := by
  refine ⟨?_, ?_⟩ <;> simp only [onVideoEvent] <;> (repeat' split) <;> first | rfl | simp_all [renderOf, noteOf]

/-- What `onVideoEvent` leaves unchanged (sources, clock and pending marks). -/
@[simp] theorem onVideoEvent_wiring (env : Env) (s : Player) :
    ((onVideoEvent env s).mAudioPlayer = s.mAudioPlayer) ∧
    ((onVideoEvent env s).mAudioSource = s.mAudioSource) ∧
    ((onVideoEvent env s).mTimeSource = s.mTimeSource) := by
  refine ⟨?_, ?_, ?_⟩ <;> simp only [onVideoEvent] <;> (repeat' split) <;> first | rfl | simp_all [renderOf, noteOf]

/-- What `onVideoEvent` leaves unchanged (the abort mark and the seek state). -/
@[simp] theorem onVideoEvent_process (env : Env) (s : Player) :
    (onVideoEvent env s).aborted = s.aborted := by
  simp only [onVideoEvent] <;> (repeat' split) <;> first | rfl | simp_all [renderOf, noteOf]

/-- What `play_l_newAudioPlayer` leaves unchanged (settings, render calls, completion count,
flags). -/
@[simp] theorem play_l_newAudioPlayer_frame (env : Env) (s : Player) :
    ((play_l_newAudioPlayer env s).2.2.cfg = s.cfg) ∧
    (renders (play_l_newAudioPlayer env s).2.2.trace = renders s.trace) ∧
    (playbackCompleteCount (play_l_newAudioPlayer env s).2.2.trace = playbackCompleteCount s.trace) := by
  refine ⟨?_, ?_, ?_⟩ <;> simp only [play_l_newAudioPlayer] <;> (repeat' split) <;> first | rfl | simp_all [renderOf, noteOf]

/-- What `play_l_newAudioPlayer` leaves unchanged (flags). -/
@[simp] theorem play_l_newAudioPlayer_flags (env : Env) (s : Player) :
    ((play_l_newAudioPlayer env s).2.2.mFlags.AT_EOS = s.mFlags.AT_EOS) ∧
    ((play_l_newAudioPlayer env s).2.2.mFlags.INFORMED_AV_EOS = s.mFlags.INFORMED_AV_EOS) ∧
    ((play_l_newAudioPlayer env s).2.2.mFlags.CACHE_UNDERRUN = s.mFlags.CACHE_UNDERRUN) ∧
    ((play_l_newAudioPlayer env s).2.2.mFlags.LOOPING = s.mFlags.LOOPING) ∧
    ((play_l_newAudioPlayer env s).2.2.mFlags.AUTO_LOOPING = s.mFlags.AUTO_LOOPING) ∧
    ((play_l_newAudioPlayer env s).2.2.mFlags.VIDEO_AT_EOS = s.mFlags.VIDEO_AT_EOS) ∧
    ((play_l_newAudioPlayer env s).2.2.mFlags.AUDIO_AT_EOS = s.mFlags.AUDIO_AT_EOS) ∧
    ((play_l_newAudioPlayer env s).2.2.mFlags.SEEK_PREVIEW = s.mFlags.SEEK_PREVIEW) := by
  refine ⟨?_, ?_, ?_, ?_, ?_, ?_, ?_, ?_⟩ <;> simp only [play_l_newAudioPlayer] <;> (repeat' split) <;> first | rfl | simp_all [renderOf, noteOf]

/-- What `play_l_newAudioPlayer` leaves unchanged (fields of the video loop). -/
@[simp] theorem play_l_newAudioPlayer_fields (env : Env) (s : Player) :
    ((play_l_newAudioPlayer env s).2.2.mCurrentVideoEffect = s.mCurrentVideoEffect) ∧
    ((play_l_newAudioPlayer env s).2.2.mVideoRenderer = s.mVideoRenderer) ∧
    ((play_l_newAudioPlayer env s).2.2.mVideoBuffer = s.mVideoBuffer) ∧
    ((play_l_newAudioPlayer env s).2.2.mSeeking = s.mSeeking) ∧
    ((play_l_newAudioPlayer env s).2.2.mSeekTimeUs = s.mSeekTimeUs) ∧
    ((play_l_newAudioPlayer env s).2.2.mIsVideoSourceJpg = s.mIsVideoSourceJpg) ∧
    ((play_l_newAudioPlayer env s).2.2.mVideoEventPending = s.mVideoEventPending) ∧
    ((play_l_newAudioPlayer env s).2.2.mStreamDoneEventPending = s.mStreamDoneEventPending) := by
  refine ⟨?_, ?_, ?_, ?_, ?_, ?_, ?_, ?_⟩ <;> simp only [play_l_newAudioPlayer] <;> (repeat' split) <;> first | rfl | simp_all [renderOf, noteOf]

/-- What `play_l_newAudioPlayer` leaves unchanged (sources, clock and pending marks). -/
@[simp] theorem play_l_newAudioPlayer_wiring (env : Env) (s : Player) :
    ((play_l_newAudioPlayer env s).2.2.mStreamDoneStatus = s.mStreamDoneStatus) ∧
    ((play_l_newAudioPlayer env s).2.2.mAudioSource = s.mAudioSource) ∧
    ((play_l_newAudioPlayer env s).2.2.mVideoSource = s.mVideoSource) ∧
    ((play_l_newAudioPlayer env s).2.2.mTimeSourceDeltaUs = s.mTimeSourceDeltaUs) ∧
    ((play_l_newAudioPlayer env s).2.2.mOverlayUpdateEventPosted = s.mOverlayUpdateEventPosted) := by
  refine ⟨?_, ?_, ?_, ?_, ?_⟩ <;> simp only [play_l_newAudioPlayer] <;> (repeat' split) <;> first | rfl | simp_all [renderOf, noteOf]

/-- What `play_l_newAudioPlayer` leaves unchanged (the counts of the seek-complete and start-next
notifications and the marks that guard them). -/
@[simp] theorem play_l_newAudioPlayer_notices (env : Env) (s : Player) :
    (seekCompleteCount (play_l_newAudioPlayer env s).2.2.trace = seekCompleteCount s.trace) ∧
    ((play_l_newAudioPlayer env s).2.2.mSeekNotificationSent = s.mSeekNotificationSent) ∧
    (startNextCount (play_l_newAudioPlayer env s).2.2.trace = startNextCount s.trace) ∧
    ((play_l_newAudioPlayer env s).2.2.mStartNextPlayer = s.mStartNextPlayer) := by
  refine ⟨?_, ?_, ?_, ?_⟩ <;> simp only [play_l_newAudioPlayer] <;> (repeat' split) <;> first | rfl | simp_all [renderOf, noteOf]

/-- What `play_l_newAudioPlayer` leaves unchanged (the abort mark and the seek state). -/
@[simp] theorem play_l_newAudioPlayer_process (env : Env) (s : Player) :
    ((play_l_newAudioPlayer env s).2.2.aborted = s.aborted) ∧
    ((play_l_newAudioPlayer env s).2.2.mSeeking = s.mSeeking) := by
  refine ⟨?_, ?_⟩ <;> simp only [play_l_newAudioPlayer] <;> (repeat' split) <;> first | rfl | simp_all [renderOf, noteOf]

/-- What `play_l_changeSource` leaves unchanged (settings, render calls, completion count, flags).
-/
@[simp] theorem play_l_changeSource_frame (env : Env) (ap : AudioPlayer) (s : Player) :
    ((play_l_changeSource env ap s).2.cfg = s.cfg) ∧
    (renders (play_l_changeSource env ap s).2.trace = renders s.trace) ∧
    (playbackCompleteCount (play_l_changeSource env ap s).2.trace = playbackCompleteCount s.trace) := by
  refine ⟨?_, ?_, ?_⟩ <;> simp only [play_l_changeSource] <;> (repeat' split) <;> first | rfl | simp_all [renderOf, noteOf]

/-- What `play_l_changeSource` leaves unchanged (flags). -/
@[simp] theorem play_l_changeSource_flags (env : Env) (ap : AudioPlayer) (s : Player) :
    ((play_l_changeSource env ap s).2.mFlags.AT_EOS = s.mFlags.AT_EOS) ∧
    ((play_l_changeSource env ap s).2.mFlags.INFORMED_AV_EOS = s.mFlags.INFORMED_AV_EOS) ∧
    ((play_l_changeSource env ap s).2.mFlags.CACHE_UNDERRUN = s.mFlags.CACHE_UNDERRUN) ∧
    ((play_l_changeSource env ap s).2.mFlags.LOOPING = s.mFlags.LOOPING) ∧
    ((play_l_changeSource env ap s).2.mFlags.AUTO_LOOPING = s.mFlags.AUTO_LOOPING) ∧
    ((play_l_changeSource env ap s).2.mFlags.VIDEO_AT_EOS = s.mFlags.VIDEO_AT_EOS) ∧
    ((play_l_changeSource env ap s).2.mFlags.AUDIO_AT_EOS = s.mFlags.AUDIO_AT_EOS) ∧
    ((play_l_changeSource env ap s).2.mFlags.SEEK_PREVIEW = s.mFlags.SEEK_PREVIEW) ∧
    ((play_l_changeSource env ap s).2.mFlags.AUDIO_RUNNING = s.mFlags.AUDIO_RUNNING) := by
  refine ⟨?_, ?_, ?_, ?_, ?_, ?_, ?_, ?_, ?_⟩ <;> simp only [play_l_changeSource] <;> (repeat' split) <;> first | rfl | simp_all [renderOf, noteOf]

/-- What `play_l_changeSource` leaves unchanged (fields of the video loop). -/
@[simp] theorem play_l_changeSource_fields (env : Env) (ap : AudioPlayer) (s : Player) :
    ((play_l_changeSource env ap s).2.mCurrentVideoEffect = s.mCurrentVideoEffect) ∧
    ((play_l_changeSource env ap s).2.mVideoRenderer = s.mVideoRenderer) ∧
    ((play_l_changeSource env ap s).2.mVideoBuffer = s.mVideoBuffer) ∧
    ((play_l_changeSource env ap s).2.mSeeking = s.mSeeking) ∧
    ((play_l_changeSource env ap s).2.mSeekTimeUs = s.mSeekTimeUs) ∧
    ((play_l_changeSource env ap s).2.mIsVideoSourceJpg = s.mIsVideoSourceJpg) ∧
    ((play_l_changeSource env ap s).2.mVideoEventPending = s.mVideoEventPending) ∧
    ((play_l_changeSource env ap s).2.mStreamDoneEventPending = s.mStreamDoneEventPending) := by
  refine ⟨?_, ?_, ?_, ?_, ?_, ?_, ?_, ?_⟩ <;> simp only [play_l_changeSource] <;> (repeat' split) <;> first | rfl | simp_all [renderOf, noteOf]

/-- What `play_l_changeSource` leaves unchanged (sources, clock and pending marks). -/
@[simp] theorem play_l_changeSource_wiring (env : Env) (ap : AudioPlayer) (s : Player) :
    ((play_l_changeSource env ap s).2.mStreamDoneStatus = s.mStreamDoneStatus) ∧
    ((play_l_changeSource env ap s).2.mAudioSource = s.mAudioSource) ∧
    ((play_l_changeSource env ap s).2.mVideoSource = s.mVideoSource) ∧
    ((play_l_changeSource env ap s).2.mTimeSource = s.mTimeSource) ∧
    ((play_l_changeSource env ap s).2.mTimeSourceDeltaUs = s.mTimeSourceDeltaUs) ∧
    ((play_l_changeSource env ap s).2.mOverlayUpdateEventPosted = s.mOverlayUpdateEventPosted) := by
  refine ⟨?_, ?_, ?_, ?_, ?_, ?_⟩ <;> simp only [play_l_changeSource] <;> (repeat' split) <;> first | rfl | simp_all [renderOf, noteOf]

/-- What `play_l_changeSource` leaves unchanged (the counts of the seek-complete and start-next
notifications and the marks that guard them). -/
@[simp] theorem play_l_changeSource_notices (env : Env) (ap : AudioPlayer) (s : Player) :
    (seekCompleteCount (play_l_changeSource env ap s).2.trace = seekCompleteCount s.trace) ∧
    ((play_l_changeSource env ap s).2.mSeekNotificationSent = s.mSeekNotificationSent) ∧
    (startNextCount (play_l_changeSource env ap s).2.trace = startNextCount s.trace) ∧
    ((play_l_changeSource env ap s).2.mStartNextPlayer = s.mStartNextPlayer) := by
  refine ⟨?_, ?_, ?_, ?_⟩ <;> simp only [play_l_changeSource] <;> (repeat' split) <;> first | rfl | simp_all [renderOf, noteOf]

/-- What `play_l_changeSource` leaves unchanged (the abort mark and the seek state). -/
@[simp] theorem play_l_changeSource_process (env : Env) (ap : AudioPlayer) (s : Player) :
    ((play_l_changeSource env ap s).2.aborted = s.aborted) ∧
    ((play_l_changeSource env ap s).2.mSeeking = s.mSeeking) := by
  refine ⟨?_, ?_⟩ <;> simp only [play_l_changeSource] <;> (repeat' split) <;> first | rfl | simp_all [renderOf, noteOf]

/-- What `play_l_keepSource` leaves unchanged (settings, render calls, completion count, flags). -/
@[simp] theorem play_l_keepSource_frame (s : Player) :
    ((play_l_keepSource s).cfg = s.cfg) ∧
    (renders (play_l_keepSource s).trace = renders s.trace) ∧
    (playbackCompleteCount (play_l_keepSource s).trace = playbackCompleteCount s.trace) ∧
    ((play_l_keepSource s).mFlags = s.mFlags) := by
  refine ⟨?_, ?_, ?_, ?_⟩ <;> simp only [play_l_keepSource] <;> (repeat' split) <;> first | rfl | simp_all [renderOf, noteOf]

/-- What `play_l_keepSource` leaves unchanged (fields of the video loop). -/
@[simp] theorem play_l_keepSource_fields (s : Player) :
    ((play_l_keepSource s).mCurrentVideoEffect = s.mCurrentVideoEffect) ∧
    ((play_l_keepSource s).mVideoRenderer = s.mVideoRenderer) ∧
    ((play_l_keepSource s).mVideoBuffer = s.mVideoBuffer) ∧
    ((play_l_keepSource s).mSeeking = s.mSeeking) ∧
    ((play_l_keepSource s).mSeekTimeUs = s.mSeekTimeUs) ∧
    ((play_l_keepSource s).mIsVideoSourceJpg = s.mIsVideoSourceJpg) ∧
    ((play_l_keepSource s).mVideoEventPending = s.mVideoEventPending) ∧
    ((play_l_keepSource s).mStreamDoneEventPending = s.mStreamDoneEventPending) := by
  refine ⟨?_, ?_, ?_, ?_, ?_, ?_, ?_, ?_⟩ <;> simp only [play_l_keepSource] <;> (repeat' split) <;> first | rfl | simp_all [renderOf, noteOf]

/-- What `play_l_keepSource` leaves unchanged (sources, clock and pending marks). -/
@[simp] theorem play_l_keepSource_wiring (s : Player) :
    ((play_l_keepSource s).mStreamDoneStatus = s.mStreamDoneStatus) ∧
    ((play_l_keepSource s).mAudioPlayer = s.mAudioPlayer) ∧
    ((play_l_keepSource s).mAudioSource = s.mAudioSource) ∧
    ((play_l_keepSource s).mVideoSource = s.mVideoSource) ∧
    ((play_l_keepSource s).mTimeSource = s.mTimeSource) ∧
    ((play_l_keepSource s).mTimeSourceDeltaUs = s.mTimeSourceDeltaUs) ∧
    ((play_l_keepSource s).mOverlayUpdateEventPosted = s.mOverlayUpdateEventPosted) := by
  refine ⟨?_, ?_, ?_, ?_, ?_, ?_, ?_⟩ <;> simp only [play_l_keepSource] <;> (repeat' split) <;> first | rfl | simp_all [renderOf, noteOf]

/-- What `play_l_keepSource` leaves unchanged (the counts of the seek-complete and start-next
notifications and the marks that guard them). -/
@[simp] theorem play_l_keepSource_notices (s : Player) :
    (seekCompleteCount (play_l_keepSource s).trace = seekCompleteCount s.trace) ∧
    ((play_l_keepSource s).mSeekNotificationSent = s.mSeekNotificationSent) ∧
    (startNextCount (play_l_keepSource s).trace = startNextCount s.trace) ∧
    ((play_l_keepSource s).mStartNextPlayer = s.mStartNextPlayer) := by
  refine ⟨?_, ?_, ?_, ?_⟩ <;> simp only [play_l_keepSource] <;> (repeat' split) <;> first | rfl | simp_all [renderOf, noteOf]

/-- What `play_l_keepSource` leaves unchanged (the abort mark and the seek state). -/
@[simp] theorem play_l_keepSource_process (s : Player) :
    ((play_l_keepSource s).aborted = s.aborted) ∧
    ((play_l_keepSource s).mSeeking = s.mSeeking) := by
  refine ⟨?_, ?_⟩ <;> simp only [play_l_keepSource] <;> (repeat' split) <;> first | rfl | simp_all [renderOf, noteOf]

/-- What `play_l_source` leaves unchanged (settings, render calls, completion count, flags). -/
@[simp] theorem play_l_source_frame (env : Env) (ap : AudioPlayer) (s : Player) :
    ((play_l_source env ap s).2.cfg = s.cfg) ∧
    (renders (play_l_source env ap s).2.trace = renders s.trace) ∧
    (playbackCompleteCount (play_l_source env ap s).2.trace = playbackCompleteCount s.trace) := by
  refine ⟨?_, ?_, ?_⟩ <;> simp only [play_l_source] <;> (repeat' split) <;> first | rfl | simp_all [renderOf, noteOf]

/-- What `play_l_source` leaves unchanged (flags). -/
@[simp] theorem play_l_source_flags (env : Env) (ap : AudioPlayer) (s : Player) :
    ((play_l_source env ap s).2.mFlags.AT_EOS = s.mFlags.AT_EOS) ∧
    ((play_l_source env ap s).2.mFlags.INFORMED_AV_EOS = s.mFlags.INFORMED_AV_EOS) ∧
    ((play_l_source env ap s).2.mFlags.CACHE_UNDERRUN = s.mFlags.CACHE_UNDERRUN) ∧
    ((play_l_source env ap s).2.mFlags.LOOPING = s.mFlags.LOOPING) ∧
    ((play_l_source env ap s).2.mFlags.AUTO_LOOPING = s.mFlags.AUTO_LOOPING) ∧
    ((play_l_source env ap s).2.mFlags.VIDEO_AT_EOS = s.mFlags.VIDEO_AT_EOS) ∧
    ((play_l_source env ap s).2.mFlags.AUDIO_AT_EOS = s.mFlags.AUDIO_AT_EOS) ∧
    ((play_l_source env ap s).2.mFlags.SEEK_PREVIEW = s.mFlags.SEEK_PREVIEW) ∧
    ((play_l_source env ap s).2.mFlags.AUDIO_RUNNING = s.mFlags.AUDIO_RUNNING) := by
  refine ⟨?_, ?_, ?_, ?_, ?_, ?_, ?_, ?_, ?_⟩ <;> simp only [play_l_source] <;> (repeat' split) <;> first | rfl | simp_all [renderOf, noteOf]

/-- What `play_l_source` leaves unchanged (fields of the video loop). -/
@[simp] theorem play_l_source_fields (env : Env) (ap : AudioPlayer) (s : Player) :
    ((play_l_source env ap s).2.mCurrentVideoEffect = s.mCurrentVideoEffect) ∧
    ((play_l_source env ap s).2.mVideoRenderer = s.mVideoRenderer) ∧
    ((play_l_source env ap s).2.mVideoBuffer = s.mVideoBuffer) ∧
    ((play_l_source env ap s).2.mSeeking = s.mSeeking) ∧
    ((play_l_source env ap s).2.mSeekTimeUs = s.mSeekTimeUs) ∧
    ((play_l_source env ap s).2.mIsVideoSourceJpg = s.mIsVideoSourceJpg) ∧
    ((play_l_source env ap s).2.mVideoEventPending = s.mVideoEventPending) ∧
    ((play_l_source env ap s).2.mStreamDoneEventPending = s.mStreamDoneEventPending) := by
  refine ⟨?_, ?_, ?_, ?_, ?_, ?_, ?_, ?_⟩ <;> simp only [play_l_source] <;> (repeat' split) <;> first | rfl | simp_all [renderOf, noteOf]

/-- What `play_l_source` leaves unchanged (sources, clock and pending marks). -/
@[simp] theorem play_l_source_wiring (env : Env) (ap : AudioPlayer) (s : Player) :
    ((play_l_source env ap s).2.mStreamDoneStatus = s.mStreamDoneStatus) ∧
    ((play_l_source env ap s).2.mAudioSource = s.mAudioSource) ∧
    ((play_l_source env ap s).2.mVideoSource = s.mVideoSource) ∧
    ((play_l_source env ap s).2.mTimeSource = s.mTimeSource) ∧
    ((play_l_source env ap s).2.mTimeSourceDeltaUs = s.mTimeSourceDeltaUs) ∧
    ((play_l_source env ap s).2.mOverlayUpdateEventPosted = s.mOverlayUpdateEventPosted) := by
  refine ⟨?_, ?_, ?_, ?_, ?_, ?_⟩ <;> simp only [play_l_source] <;> (repeat' split) <;> first | rfl | simp_all [renderOf, noteOf]

/-- What `play_l_source` leaves unchanged (the counts of the seek-complete and start-next
notifications and the marks that guard them). -/
@[simp] theorem play_l_source_notices (env : Env) (ap : AudioPlayer) (s : Player) :
    (seekCompleteCount (play_l_source env ap s).2.trace = seekCompleteCount s.trace) ∧
    ((play_l_source env ap s).2.mSeekNotificationSent = s.mSeekNotificationSent) ∧
    (startNextCount (play_l_source env ap s).2.trace = startNextCount s.trace) ∧
    ((play_l_source env ap s).2.mStartNextPlayer = s.mStartNextPlayer) := by
  refine ⟨?_, ?_, ?_, ?_⟩ <;> simp only [play_l_source] <;> (repeat' split) <;> first | rfl | simp_all [renderOf, noteOf]

/-- What `play_l_source` leaves unchanged (the abort mark and the seek state). -/
@[simp] theorem play_l_source_process (env : Env) (ap : AudioPlayer) (s : Player) :
    ((play_l_source env ap s).2.aborted = s.aborted) ∧
    ((play_l_source env ap s).2.mSeeking = s.mSeeking) := by
  refine ⟨?_, ?_⟩ <;> simp only [play_l_source] <;> (repeat' split) <;> first | rfl | simp_all [renderOf, noteOf]

/-- What `play_l_audioRunning` leaves unchanged (settings, render calls, completion count, flags).
-/
@[simp] theorem play_l_audioRunning_frame (s : Player) :
    ((play_l_audioRunning s).cfg = s.cfg) ∧
    (renders (play_l_audioRunning s).trace = renders s.trace) ∧
    (playbackCompleteCount (play_l_audioRunning s).trace = playbackCompleteCount s.trace) := by
  refine ⟨?_, ?_, ?_⟩ <;> simp only [play_l_audioRunning] <;> (repeat' split) <;> first | rfl | simp_all [renderOf, noteOf]

/-- What `play_l_audioRunning` leaves unchanged (flags). -/
@[simp] theorem play_l_audioRunning_flags (s : Player) :
    ((play_l_audioRunning s).mFlags.PLAYING = s.mFlags.PLAYING) ∧
    ((play_l_audioRunning s).mFlags.AT_EOS = s.mFlags.AT_EOS) ∧
    ((play_l_audioRunning s).mFlags.INFORMED_AV_EOS = s.mFlags.INFORMED_AV_EOS) ∧
    ((play_l_audioRunning s).mFlags.CACHE_UNDERRUN = s.mFlags.CACHE_UNDERRUN) ∧
    ((play_l_audioRunning s).mFlags.LOOPING = s.mFlags.LOOPING) ∧
    ((play_l_audioRunning s).mFlags.AUTO_LOOPING = s.mFlags.AUTO_LOOPING) ∧
    ((play_l_audioRunning s).mFlags.VIDEO_AT_EOS = s.mFlags.VIDEO_AT_EOS) ∧
    ((play_l_audioRunning s).mFlags.AUDIO_AT_EOS = s.mFlags.AUDIO_AT_EOS) ∧
    ((play_l_audioRunning s).mFlags.FIRST_FRAME = s.mFlags.FIRST_FRAME) ∧
    ((play_l_audioRunning s).mFlags.SEEK_PREVIEW = s.mFlags.SEEK_PREVIEW) := by
  refine ⟨?_, ?_, ?_, ?_, ?_, ?_, ?_, ?_, ?_, ?_⟩ <;> simp only [play_l_audioRunning] <;> (repeat' split) <;> first | rfl | simp_all [renderOf, noteOf]

/-- What `play_l_audioRunning` leaves unchanged (fields of the video loop). -/
@[simp] theorem play_l_audioRunning_fields (s : Player) :
    ((play_l_audioRunning s).mCurrentVideoEffect = s.mCurrentVideoEffect) ∧
    ((play_l_audioRunning s).mVideoRenderer = s.mVideoRenderer) ∧
    ((play_l_audioRunning s).mVideoBuffer = s.mVideoBuffer) ∧
    ((play_l_audioRunning s).mSeeking = s.mSeeking) ∧
    ((play_l_audioRunning s).mSeekTimeUs = s.mSeekTimeUs) ∧
    ((play_l_audioRunning s).mIsVideoSourceJpg = s.mIsVideoSourceJpg) ∧
    ((play_l_audioRunning s).mVideoEventPending = s.mVideoEventPending) ∧
    ((play_l_audioRunning s).mStreamDoneEventPending = s.mStreamDoneEventPending) := by
  refine ⟨?_, ?_, ?_, ?_, ?_, ?_, ?_, ?_⟩ <;> simp only [play_l_audioRunning] <;> (repeat' split) <;> first | rfl | simp_all [renderOf, noteOf]

/-- What `play_l_audioRunning` leaves unchanged (sources, clock and pending marks). -/
@[simp] theorem play_l_audioRunning_wiring (s : Player) :
    ((play_l_audioRunning s).mStreamDoneStatus = s.mStreamDoneStatus) ∧
    ((play_l_audioRunning s).mAudioPlayer = s.mAudioPlayer) ∧
    ((play_l_audioRunning s).mAudioSource = s.mAudioSource) ∧
    ((play_l_audioRunning s).mVideoSource = s.mVideoSource) ∧
    ((play_l_audioRunning s).mTimeSourceDeltaUs = s.mTimeSourceDeltaUs) ∧
    ((play_l_audioRunning s).mOverlayUpdateEventPosted = s.mOverlayUpdateEventPosted) := by
  refine ⟨?_, ?_, ?_, ?_, ?_, ?_⟩ <;> simp only [play_l_audioRunning] <;> (repeat' split) <;> first | rfl | simp_all [renderOf, noteOf]

/-- What `play_l_audioRunning` leaves unchanged (the counts of the seek-complete and start-next
notifications and the marks that guard them). -/
@[simp] theorem play_l_audioRunning_notices (s : Player) :
    (seekCompleteCount (play_l_audioRunning s).trace = seekCompleteCount s.trace) ∧
    ((play_l_audioRunning s).mSeekNotificationSent = s.mSeekNotificationSent) ∧
    (startNextCount (play_l_audioRunning s).trace = startNextCount s.trace) ∧
    ((play_l_audioRunning s).mStartNextPlayer = s.mStartNextPlayer) := by
  refine ⟨?_, ?_, ?_, ?_⟩ <;> simp only [play_l_audioRunning] <;> (repeat' split) <;> first | rfl | simp_all [renderOf, noteOf]

/-- What `play_l_audioRunning` leaves unchanged (the abort mark and the seek state). -/
@[simp] theorem play_l_audioRunning_process (s : Player) :
    ((play_l_audioRunning s).aborted = s.aborted) ∧
    ((play_l_audioRunning s).mSeeking = s.mSeeking) := by
  refine ⟨?_, ?_⟩ <;> simp only [play_l_audioRunning] <;> (repeat' split) <;> first | rfl | simp_all [renderOf, noteOf]

/-- What `play_l_sharedAudioPlayer` leaves unchanged (settings, render calls, completion count,
flags). -/
@[simp] theorem play_l_sharedAudioPlayer_frame (env : Env) (ap : AudioPlayer) (s : Player) :
    ((play_l_sharedAudioPlayer env ap s).2.2.cfg = s.cfg) ∧
    (renders (play_l_sharedAudioPlayer env ap s).2.2.trace = renders s.trace) ∧
    (playbackCompleteCount (play_l_sharedAudioPlayer env ap s).2.2.trace = playbackCompleteCount s.trace) := by
  refine ⟨?_, ?_, ?_⟩ <;> simp only [play_l_sharedAudioPlayer] <;> (repeat' split) <;> first | rfl | simp_all [renderOf, noteOf]

/-- What `play_l_sharedAudioPlayer` leaves unchanged (flags). -/
@[simp] theorem play_l_sharedAudioPlayer_flags (env : Env) (ap : AudioPlayer) (s : Player) :
    ((play_l_sharedAudioPlayer env ap s).2.2.mFlags.AT_EOS = s.mFlags.AT_EOS) ∧
    ((play_l_sharedAudioPlayer env ap s).2.2.mFlags.INFORMED_AV_EOS = s.mFlags.INFORMED_AV_EOS) ∧
    ((play_l_sharedAudioPlayer env ap s).2.2.mFlags.CACHE_UNDERRUN = s.mFlags.CACHE_UNDERRUN) ∧
    ((play_l_sharedAudioPlayer env ap s).2.2.mFlags.LOOPING = s.mFlags.LOOPING) ∧
    ((play_l_sharedAudioPlayer env ap s).2.2.mFlags.AUTO_LOOPING = s.mFlags.AUTO_LOOPING) ∧
    ((play_l_sharedAudioPlayer env ap s).2.2.mFlags.VIDEO_AT_EOS = s.mFlags.VIDEO_AT_EOS) ∧
    ((play_l_sharedAudioPlayer env ap s).2.2.mFlags.AUDIO_AT_EOS = s.mFlags.AUDIO_AT_EOS) ∧
    ((play_l_sharedAudioPlayer env ap s).2.2.mFlags.SEEK_PREVIEW = s.mFlags.SEEK_PREVIEW) := by
  refine ⟨?_, ?_, ?_, ?_, ?_, ?_, ?_, ?_⟩ <;> simp only [play_l_sharedAudioPlayer] <;> (repeat' split) <;> first | rfl | simp_all [renderOf, noteOf]

/-- What `play_l_sharedAudioPlayer` leaves unchanged (fields of the video loop). -/
@[simp] theorem play_l_sharedAudioPlayer_fields (env : Env) (ap : AudioPlayer) (s : Player) :
    ((play_l_sharedAudioPlayer env ap s).2.2.mCurrentVideoEffect = s.mCurrentVideoEffect) ∧
    ((play_l_sharedAudioPlayer env ap s).2.2.mVideoRenderer = s.mVideoRenderer) ∧
    ((play_l_sharedAudioPlayer env ap s).2.2.mVideoBuffer = s.mVideoBuffer) ∧
    ((play_l_sharedAudioPlayer env ap s).2.2.mSeeking = s.mSeeking) ∧
    ((play_l_sharedAudioPlayer env ap s).2.2.mSeekTimeUs = s.mSeekTimeUs) ∧
    ((play_l_sharedAudioPlayer env ap s).2.2.mIsVideoSourceJpg = s.mIsVideoSourceJpg) ∧
    ((play_l_sharedAudioPlayer env ap s).2.2.mVideoEventPending = s.mVideoEventPending) ∧
    ((play_l_sharedAudioPlayer env ap s).2.2.mStreamDoneEventPending = s.mStreamDoneEventPending) := by
  refine ⟨?_, ?_, ?_, ?_, ?_, ?_, ?_, ?_⟩ <;> simp only [play_l_sharedAudioPlayer] <;> (repeat' split) <;> first | rfl | simp_all [renderOf, noteOf]

/-- What `play_l_sharedAudioPlayer` leaves unchanged (sources, clock and pending marks). -/
@[simp] theorem play_l_sharedAudioPlayer_wiring (env : Env) (ap : AudioPlayer) (s : Player) :
    ((play_l_sharedAudioPlayer env ap s).2.2.mStreamDoneStatus = s.mStreamDoneStatus) ∧
    ((play_l_sharedAudioPlayer env ap s).2.2.mAudioSource = s.mAudioSource) ∧
    ((play_l_sharedAudioPlayer env ap s).2.2.mVideoSource = s.mVideoSource) ∧
    ((play_l_sharedAudioPlayer env ap s).2.2.mTimeSourceDeltaUs = s.mTimeSourceDeltaUs) ∧
    ((play_l_sharedAudioPlayer env ap s).2.2.mOverlayUpdateEventPosted = s.mOverlayUpdateEventPosted) := by
  refine ⟨?_, ?_, ?_, ?_, ?_⟩ <;> simp only [play_l_sharedAudioPlayer] <;> (repeat' split) <;> first | rfl | simp_all [renderOf, noteOf]

/-- What `play_l_sharedAudioPlayer` leaves unchanged (the counts of the seek-complete and
start-next notifications and the marks that guard them). -/
@[simp] theorem play_l_sharedAudioPlayer_notices (env : Env) (ap : AudioPlayer) (s : Player) :
    (seekCompleteCount (play_l_sharedAudioPlayer env ap s).2.2.trace = seekCompleteCount s.trace) ∧
    ((play_l_sharedAudioPlayer env ap s).2.2.mSeekNotificationSent = s.mSeekNotificationSent) ∧
    (startNextCount (play_l_sharedAudioPlayer env ap s).2.2.trace = startNextCount s.trace) ∧
    ((play_l_sharedAudioPlayer env ap s).2.2.mStartNextPlayer = s.mStartNextPlayer) := by
  refine ⟨?_, ?_, ?_, ?_⟩ <;> simp only [play_l_sharedAudioPlayer] <;> (repeat' split) <;> first | rfl | simp_all [renderOf, noteOf]

/-- What `play_l_sharedAudioPlayer` leaves unchanged (the abort mark and the seek state). -/
@[simp] theorem play_l_sharedAudioPlayer_process (env : Env) (ap : AudioPlayer) (s : Player) :
    ((play_l_sharedAudioPlayer env ap s).2.2.aborted = s.aborted) ∧
    ((play_l_sharedAudioPlayer env ap s).2.2.mSeeking = s.mSeeking) := by
  refine ⟨?_, ?_⟩ <;> simp only [play_l_sharedAudioPlayer] <;> (repeat' split) <;> first | rfl | simp_all [renderOf, noteOf]

/-- What `play_l_audio` leaves unchanged (settings, render calls, completion count, flags). -/
@[simp] theorem play_l_audio_frame (env : Env) (s : Player) :
    ((play_l_audio env s).2.2.cfg = s.cfg) ∧
    (renders (play_l_audio env s).2.2.trace = renders s.trace) ∧
    (playbackCompleteCount (play_l_audio env s).2.2.trace = playbackCompleteCount s.trace) := by
  refine ⟨?_, ?_, ?_⟩ <;> simp only [play_l_audio] <;> (repeat' split) <;> first | rfl | simp_all [renderOf, noteOf]

/-- What `play_l_audio` leaves unchanged (flags). -/
@[simp] theorem play_l_audio_flags (env : Env) (s : Player) :
    ((play_l_audio env s).2.2.mFlags.AT_EOS = s.mFlags.AT_EOS) ∧
    ((play_l_audio env s).2.2.mFlags.INFORMED_AV_EOS = s.mFlags.INFORMED_AV_EOS) ∧
    ((play_l_audio env s).2.2.mFlags.CACHE_UNDERRUN = s.mFlags.CACHE_UNDERRUN) ∧
    ((play_l_audio env s).2.2.mFlags.LOOPING = s.mFlags.LOOPING) ∧
    ((play_l_audio env s).2.2.mFlags.AUTO_LOOPING = s.mFlags.AUTO_LOOPING) ∧
    ((play_l_audio env s).2.2.mFlags.VIDEO_AT_EOS = s.mFlags.VIDEO_AT_EOS) ∧
    ((play_l_audio env s).2.2.mFlags.AUDIO_AT_EOS = s.mFlags.AUDIO_AT_EOS) ∧
    ((play_l_audio env s).2.2.mFlags.SEEK_PREVIEW = s.mFlags.SEEK_PREVIEW) := by
  refine ⟨?_, ?_, ?_, ?_, ?_, ?_, ?_, ?_⟩ <;> simp only [play_l_audio] <;> (repeat' split) <;> first | rfl | simp_all [renderOf, noteOf]

/-- What `play_l_audio` leaves unchanged (fields of the video loop). -/
@[simp] theorem play_l_audio_fields (env : Env) (s : Player) :
    ((play_l_audio env s).2.2.mCurrentVideoEffect = s.mCurrentVideoEffect) ∧
    ((play_l_audio env s).2.2.mVideoRenderer = s.mVideoRenderer) ∧
    ((play_l_audio env s).2.2.mVideoBuffer = s.mVideoBuffer) ∧
    ((play_l_audio env s).2.2.mSeeking = s.mSeeking) ∧
    ((play_l_audio env s).2.2.mSeekTimeUs = s.mSeekTimeUs) ∧
    ((play_l_audio env s).2.2.mIsVideoSourceJpg = s.mIsVideoSourceJpg) ∧
    ((play_l_audio env s).2.2.mVideoEventPending = s.mVideoEventPending) ∧
    ((play_l_audio env s).2.2.mStreamDoneEventPending = s.mStreamDoneEventPending) := by
  refine ⟨?_, ?_, ?_, ?_, ?_, ?_, ?_, ?_⟩ <;> simp only [play_l_audio] <;> (repeat' split) <;> first | rfl | simp_all [renderOf, noteOf]

/-- What `play_l_audio` leaves unchanged (sources, clock and pending marks). -/
@[simp] theorem play_l_audio_wiring (env : Env) (s : Player) :
    ((play_l_audio env s).2.2.mStreamDoneStatus = s.mStreamDoneStatus) ∧
    ((play_l_audio env s).2.2.mAudioSource = s.mAudioSource) ∧
    ((play_l_audio env s).2.2.mVideoSource = s.mVideoSource) ∧
    ((play_l_audio env s).2.2.mTimeSourceDeltaUs = s.mTimeSourceDeltaUs) ∧
    ((play_l_audio env s).2.2.mOverlayUpdateEventPosted = s.mOverlayUpdateEventPosted) := by
  refine ⟨?_, ?_, ?_, ?_, ?_⟩ <;> simp only [play_l_audio] <;> (repeat' split) <;> first | rfl | simp_all [renderOf, noteOf]

/-- What `play_l_audio` leaves unchanged (the counts of the seek-complete and start-next
notifications and the marks that guard them). -/
@[simp] theorem play_l_audio_notices (env : Env) (s : Player) :
    (seekCompleteCount (play_l_audio env s).2.2.trace = seekCompleteCount s.trace) ∧
    ((play_l_audio env s).2.2.mSeekNotificationSent = s.mSeekNotificationSent) ∧
    (startNextCount (play_l_audio env s).2.2.trace = startNextCount s.trace) ∧
    ((play_l_audio env s).2.2.mStartNextPlayer = s.mStartNextPlayer) := by
  refine ⟨?_, ?_, ?_, ?_⟩ <;> simp only [play_l_audio] <;> (repeat' split) <;> first | rfl | simp_all [renderOf, noteOf]

/-- What `play_l_audio` leaves unchanged (the abort mark and the seek state). -/
@[simp] theorem play_l_audio_process (env : Env) (s : Player) :
    ((play_l_audio env s).2.2.aborted = s.aborted) ∧
    ((play_l_audio env s).2.2.mSeeking = s.mSeeking) := by
  refine ⟨?_, ?_⟩ <;> simp only [play_l_audio] <;> (repeat' split) <;> first | rfl | simp_all [renderOf, noteOf]

/-- What `play_l_clock` leaves unchanged (settings, render calls, completion count, flags). -/
@[simp] theorem play_l_clock_frame (s : Player) :
    ((play_l_clock s).cfg = s.cfg) ∧
    (renders (play_l_clock s).trace = renders s.trace) ∧
    (playbackCompleteCount (play_l_clock s).trace = playbackCompleteCount s.trace) ∧
    ((play_l_clock s).mFlags = s.mFlags) := by
  refine ⟨?_, ?_, ?_, ?_⟩ <;> simp only [play_l_clock] <;> (repeat' split) <;> first | rfl | simp_all [renderOf, noteOf]

/-- What `play_l_clock` leaves unchanged (fields of the video loop). -/
@[simp] theorem play_l_clock_fields (s : Player) :
    ((play_l_clock s).mCurrentVideoEffect = s.mCurrentVideoEffect) ∧
    ((play_l_clock s).mVideoRenderer = s.mVideoRenderer) ∧
    ((play_l_clock s).mVideoBuffer = s.mVideoBuffer) ∧
    ((play_l_clock s).mSeeking = s.mSeeking) ∧
    ((play_l_clock s).mSeekTimeUs = s.mSeekTimeUs) ∧
    ((play_l_clock s).mIsVideoSourceJpg = s.mIsVideoSourceJpg) ∧
    ((play_l_clock s).mVideoEventPending = s.mVideoEventPending) ∧
    ((play_l_clock s).mStreamDoneEventPending = s.mStreamDoneEventPending) := by
  refine ⟨?_, ?_, ?_, ?_, ?_, ?_, ?_, ?_⟩ <;> simp only [play_l_clock] <;> (repeat' split) <;> first | rfl | simp_all [renderOf, noteOf]

/-- What `play_l_clock` leaves unchanged (sources, clock and pending marks). -/
@[simp] theorem play_l_clock_wiring (s : Player) :
    ((play_l_clock s).mStreamDoneStatus = s.mStreamDoneStatus) ∧
    ((play_l_clock s).mAudioPlayer = s.mAudioPlayer) ∧
    ((play_l_clock s).mAudioSource = s.mAudioSource) ∧
    ((play_l_clock s).mVideoSource = s.mVideoSource) ∧
    ((play_l_clock s).mTimeSourceDeltaUs = s.mTimeSourceDeltaUs) ∧
    ((play_l_clock s).mOverlayUpdateEventPosted = s.mOverlayUpdateEventPosted) := by
  refine ⟨?_, ?_, ?_, ?_, ?_, ?_⟩ <;> simp only [play_l_clock] <;> (repeat' split) <;> first | rfl | simp_all [renderOf, noteOf]

/-- What `play_l_clock` leaves unchanged (the counts of the seek-complete and start-next
notifications and the marks that guard them). -/
@[simp] theorem play_l_clock_notices (s : Player) :
    (seekCompleteCount (play_l_clock s).trace = seekCompleteCount s.trace) ∧
    ((play_l_clock s).mSeekNotificationSent = s.mSeekNotificationSent) ∧
    (startNextCount (play_l_clock s).trace = startNextCount s.trace) ∧
    ((play_l_clock s).mStartNextPlayer = s.mStartNextPlayer) := by
  refine ⟨?_, ?_, ?_, ?_⟩ <;> simp only [play_l_clock] <;> (repeat' split) <;> first | rfl | simp_all [renderOf, noteOf]

/-- What `play_l_clock` leaves unchanged (the abort mark and the seek state). -/
@[simp] theorem play_l_clock_process (s : Player) :
    ((play_l_clock s).aborted = s.aborted) ∧
    ((play_l_clock s).mSeeking = s.mSeeking) := by
  refine ⟨?_, ?_⟩ <;> simp only [play_l_clock] <;> (repeat' split) <;> first | rfl | simp_all [renderOf, noteOf]

/-- What `play_l_jpgRead` leaves unchanged (settings, render calls, completion count, flags). -/
@[simp] theorem play_l_jpgRead_frame (s : Player) :
    ((play_l_jpgRead s).cfg = s.cfg) ∧
    (renders (play_l_jpgRead s).trace = renders s.trace) ∧
    (playbackCompleteCount (play_l_jpgRead s).trace = playbackCompleteCount s.trace) ∧
    ((play_l_jpgRead s).mFlags = s.mFlags) := by
  refine ⟨?_, ?_, ?_, ?_⟩ <;> simp only [play_l_jpgRead] <;> (repeat' split) <;> first | rfl | simp_all [renderOf, noteOf]

/-- What `play_l_jpgRead` leaves unchanged (fields of the video loop). -/
@[simp] theorem play_l_jpgRead_fields (s : Player) :
    ((play_l_jpgRead s).mCurrentVideoEffect = s.mCurrentVideoEffect) ∧
    ((play_l_jpgRead s).mVideoRenderer = s.mVideoRenderer) ∧
    ((play_l_jpgRead s).mVideoBuffer = s.mVideoBuffer) ∧
    ((play_l_jpgRead s).mSeeking = s.mSeeking) ∧
    ((play_l_jpgRead s).mSeekTimeUs = s.mSeekTimeUs) ∧
    ((play_l_jpgRead s).mIsVideoSourceJpg = s.mIsVideoSourceJpg) ∧
    ((play_l_jpgRead s).mVideoEventPending = s.mVideoEventPending) ∧
    ((play_l_jpgRead s).mStreamDoneEventPending = s.mStreamDoneEventPending) := by
  refine ⟨?_, ?_, ?_, ?_, ?_, ?_, ?_, ?_⟩ <;> simp only [play_l_jpgRead] <;> (repeat' split) <;> first | rfl | simp_all [renderOf, noteOf]

/-- What `play_l_jpgRead` leaves unchanged (sources, clock and pending marks). -/
@[simp] theorem play_l_jpgRead_wiring (s : Player) :
    ((play_l_jpgRead s).mStreamDoneStatus = s.mStreamDoneStatus) ∧
    ((play_l_jpgRead s).mAudioPlayer = s.mAudioPlayer) ∧
    ((play_l_jpgRead s).mAudioSource = s.mAudioSource) ∧
    ((play_l_jpgRead s).mTimeSource = s.mTimeSource) ∧
    ((play_l_jpgRead s).mTimeSourceDeltaUs = s.mTimeSourceDeltaUs) ∧
    ((play_l_jpgRead s).mOverlayUpdateEventPosted = s.mOverlayUpdateEventPosted) := by
  refine ⟨?_, ?_, ?_, ?_, ?_, ?_⟩ <;> simp only [play_l_jpgRead] <;> (repeat' split) <;> first | rfl | simp_all [renderOf, noteOf]

/-- What `play_l_jpgRead` leaves unchanged (the counts of the seek-complete and start-next
notifications and the marks that guard them). -/
@[simp] theorem play_l_jpgRead_notices (s : Player) :
    (seekCompleteCount (play_l_jpgRead s).trace = seekCompleteCount s.trace) ∧
    ((play_l_jpgRead s).mSeekNotificationSent = s.mSeekNotificationSent) ∧
    (startNextCount (play_l_jpgRead s).trace = startNextCount s.trace) ∧
    ((play_l_jpgRead s).mStartNextPlayer = s.mStartNextPlayer) := by
  refine ⟨?_, ?_, ?_, ?_⟩ <;> simp only [play_l_jpgRead] <;> (repeat' split) <;> first | rfl | simp_all [renderOf, noteOf]

/-- What `play_l_jpgRead` leaves unchanged (the abort mark and the seek state). -/
@[simp] theorem play_l_jpgRead_process (s : Player) :
    (play_l_jpgRead s).mSeeking = s.mSeeking := by
  simp only [play_l_jpgRead] <;> (repeat' split) <;> first | rfl | simp_all [renderOf, noteOf]

/-- What `play_l_kick` leaves unchanged (settings, render calls, completion count, flags). -/
@[simp] theorem play_l_kick_frame (s : Player) :
    ((play_l_kick s).cfg = s.cfg) ∧
    (renders (play_l_kick s).trace = renders s.trace) ∧
    (playbackCompleteCount (play_l_kick s).trace = playbackCompleteCount s.trace) ∧
    ((play_l_kick s).mFlags = s.mFlags) := by
  refine ⟨?_, ?_, ?_, ?_⟩ <;> simp only [play_l_kick] <;> (repeat' split) <;> first | rfl | simp_all [renderOf, noteOf]

/-- What `play_l_kick` leaves unchanged (fields of the video loop). -/
@[simp] theorem play_l_kick_fields (s : Player) :
    ((play_l_kick s).mCurrentVideoEffect = s.mCurrentVideoEffect) ∧
    ((play_l_kick s).mVideoRenderer = s.mVideoRenderer) ∧
    ((play_l_kick s).mVideoBuffer = s.mVideoBuffer) ∧
    ((play_l_kick s).mSeeking = s.mSeeking) ∧
    ((play_l_kick s).mSeekTimeUs = s.mSeekTimeUs) ∧
    ((play_l_kick s).mIsVideoSourceJpg = s.mIsVideoSourceJpg) ∧
    ((play_l_kick s).mStreamDoneEventPending = s.mStreamDoneEventPending) := by
  refine ⟨?_, ?_, ?_, ?_, ?_, ?_, ?_⟩ <;> simp only [play_l_kick] <;> (repeat' split) <;> first | rfl | simp_all [renderOf, noteOf]

/-- What `play_l_kick` leaves unchanged (sources, clock and pending marks). -/
@[simp] theorem play_l_kick_wiring (s : Player) :
    ((play_l_kick s).mStreamDoneStatus = s.mStreamDoneStatus) ∧
    ((play_l_kick s).mAudioPlayer = s.mAudioPlayer) ∧
    ((play_l_kick s).mAudioSource = s.mAudioSource) ∧
    ((play_l_kick s).mVideoSource = s.mVideoSource) ∧
    ((play_l_kick s).mTimeSource = s.mTimeSource) ∧
    ((play_l_kick s).mTimeSourceDeltaUs = s.mTimeSourceDeltaUs) ∧
    ((play_l_kick s).mOverlayUpdateEventPosted = s.mOverlayUpdateEventPosted) := by
  refine ⟨?_, ?_, ?_, ?_, ?_, ?_, ?_⟩ <;> simp only [play_l_kick] <;> (repeat' split) <;> first | rfl | simp_all [renderOf, noteOf]

/-- What `play_l_kick` leaves unchanged (the counts of the seek-complete and start-next
notifications and the marks that guard them). -/
@[simp] theorem play_l_kick_notices (s : Player) :
    (seekCompleteCount (play_l_kick s).trace = seekCompleteCount s.trace) ∧
    ((play_l_kick s).mSeekNotificationSent = s.mSeekNotificationSent) ∧
    (startNextCount (play_l_kick s).trace = startNextCount s.trace) ∧
    ((play_l_kick s).mStartNextPlayer = s.mStartNextPlayer) := by
  refine ⟨?_, ?_, ?_, ?_⟩ <;> simp only [play_l_kick] <;> (repeat' split) <;> first | rfl | simp_all [renderOf, noteOf]

/-- What `play_l_kick` leaves unchanged (the abort mark and the seek state). -/
@[simp] theorem play_l_kick_process (s : Player) :
    ((play_l_kick s).aborted = s.aborted) ∧
    ((play_l_kick s).mSeeking = s.mSeeking) := by
  refine ⟨?_, ?_⟩ <;> simp only [play_l_kick] <;> (repeat' split) <;> first | rfl | simp_all [renderOf, noteOf]

/-- What `play_l_deferred` leaves unchanged (settings, render calls, completion count, flags). -/
@[simp] theorem play_l_deferred_frame (deferredAudioSeek : Bool) (s : Player) :
    ((play_l_deferred deferredAudioSeek s).cfg = s.cfg) ∧
    (renders (play_l_deferred deferredAudioSeek s).trace = renders s.trace) ∧
    (playbackCompleteCount (play_l_deferred deferredAudioSeek s).trace = playbackCompleteCount s.trace) ∧
    ((play_l_deferred deferredAudioSeek s).mFlags = s.mFlags) := by
  refine ⟨?_, ?_, ?_, ?_⟩ <;> simp only [play_l_deferred] <;> (repeat' split) <;> first | rfl | simp_all [renderOf, noteOf]

/-- What `play_l_deferred` leaves unchanged (fields of the video loop). -/
@[simp] theorem play_l_deferred_fields (deferredAudioSeek : Bool) (s : Player) :
    ((play_l_deferred deferredAudioSeek s).mCurrentVideoEffect = s.mCurrentVideoEffect) ∧
    ((play_l_deferred deferredAudioSeek s).mVideoRenderer = s.mVideoRenderer) ∧
    ((play_l_deferred deferredAudioSeek s).mVideoBuffer = s.mVideoBuffer) ∧
    ((play_l_deferred deferredAudioSeek s).mSeeking = s.mSeeking) ∧
    ((play_l_deferred deferredAudioSeek s).mSeekTimeUs = s.mSeekTimeUs) ∧
    ((play_l_deferred deferredAudioSeek s).mIsVideoSourceJpg = s.mIsVideoSourceJpg) ∧
    ((play_l_deferred deferredAudioSeek s).mVideoEventPending = s.mVideoEventPending) ∧
    ((play_l_deferred deferredAudioSeek s).mStreamDoneEventPending = s.mStreamDoneEventPending) := by
  refine ⟨?_, ?_, ?_, ?_, ?_, ?_, ?_, ?_⟩ <;> simp only [play_l_deferred] <;> (repeat' split) <;> first | rfl | simp_all [renderOf, noteOf]

/-- What `play_l_deferred` leaves unchanged (sources, clock and pending marks). -/
@[simp] theorem play_l_deferred_wiring (deferredAudioSeek : Bool) (s : Player) :
    ((play_l_deferred deferredAudioSeek s).mStreamDoneStatus = s.mStreamDoneStatus) ∧
    ((play_l_deferred deferredAudioSeek s).mAudioPlayer = s.mAudioPlayer) ∧
    ((play_l_deferred deferredAudioSeek s).mAudioSource = s.mAudioSource) ∧
    ((play_l_deferred deferredAudioSeek s).mVideoSource = s.mVideoSource) ∧
    ((play_l_deferred deferredAudioSeek s).mTimeSource = s.mTimeSource) ∧
    ((play_l_deferred deferredAudioSeek s).mTimeSourceDeltaUs = s.mTimeSourceDeltaUs) ∧
    ((play_l_deferred deferredAudioSeek s).mOverlayUpdateEventPosted = s.mOverlayUpdateEventPosted) := by
  refine ⟨?_, ?_, ?_, ?_, ?_, ?_, ?_⟩ <;> simp only [play_l_deferred] <;> (repeat' split) <;> first | rfl | simp_all [renderOf, noteOf]

/-- What `play_l_deferred` leaves unchanged (the counts of the seek-complete and start-next
notifications and the marks that guard them). -/
@[simp] theorem play_l_deferred_notices (deferredAudioSeek : Bool) (s : Player) :
    (seekCompleteCount (play_l_deferred deferredAudioSeek s).trace = seekCompleteCount s.trace) ∧
    ((play_l_deferred deferredAudioSeek s).mSeekNotificationSent = s.mSeekNotificationSent) ∧
    (startNextCount (play_l_deferred deferredAudioSeek s).trace = startNextCount s.trace) ∧
    ((play_l_deferred deferredAudioSeek s).mStartNextPlayer = s.mStartNextPlayer) := by
  refine ⟨?_, ?_, ?_, ?_⟩ <;> simp only [play_l_deferred] <;> (repeat' split) <;> first | rfl | simp_all [renderOf, noteOf]

/-- What `play_l_deferred` leaves unchanged (the abort mark and the seek state). -/
@[simp] theorem play_l_deferred_process (deferredAudioSeek : Bool) (s : Player) :
    ((play_l_deferred deferredAudioSeek s).aborted = s.aborted) ∧
    ((play_l_deferred deferredAudioSeek s).mSeeking = s.mSeeking) := by
  refine ⟨?_, ?_⟩ <;> simp only [play_l_deferred] <;> (repeat' split) <;> first | rfl | simp_all [renderOf, noteOf]

/-- What `play_l_replay` leaves unchanged (settings, render calls, completion count, flags). -/
@[simp] theorem play_l_replay_frame (env : Env) (s : Player) :
    ((play_l_replay env s).cfg = s.cfg) ∧
    (renders (play_l_replay env s).trace = renders s.trace) ∧
    (playbackCompleteCount (play_l_replay env s).trace = playbackCompleteCount s.trace) := by
  refine ⟨?_, ?_, ?_⟩ <;> simp only [play_l_replay] <;> (repeat' split) <;> first | rfl | simp_all [renderOf, noteOf]

/-- What `play_l_replay` leaves unchanged (flags). -/
@[simp] theorem play_l_replay_flags (env : Env) (s : Player) :
    ((play_l_replay env s).mFlags.LOOPING = s.mFlags.LOOPING) ∧
    ((play_l_replay env s).mFlags.AUTO_LOOPING = s.mFlags.AUTO_LOOPING) := by
  refine ⟨?_, ?_⟩ <;> simp only [play_l_replay] <;> (repeat' split) <;> first | rfl | simp_all [renderOf, noteOf]

/-- What `play_l_replay` leaves unchanged (the counts of the seek-complete and start-next
notifications and the marks that guard them). -/
@[simp] theorem play_l_replay_notices (env : Env) (s : Player) :
    (startNextCount (play_l_replay env s).trace = startNextCount s.trace) ∧
    ((play_l_replay env s).mStartNextPlayer = s.mStartNextPlayer) := by
  refine ⟨?_, ?_⟩ <;> simp only [play_l_replay] <;> (repeat' split) <;> first | rfl | simp_all [renderOf, noteOf]

/-- What `play_l_replay` leaves unchanged (the abort mark and the seek state). -/
@[simp] theorem play_l_replay_process (env : Env) (s : Player) :
    (play_l_replay env s).aborted = s.aborted := by
  simp only [play_l_replay] <;> (repeat' split) <;> first | rfl | simp_all [renderOf, noteOf]

/-- What `play_l_post` leaves unchanged (settings, render calls, completion count, flags). -/
@[simp] theorem play_l_post_frame (env : Env) (deferredAudioSeek : Bool) (s : Player) :
    ((play_l_post env deferredAudioSeek s).cfg = s.cfg) ∧
    (renders (play_l_post env deferredAudioSeek s).trace = renders s.trace) ∧
    (playbackCompleteCount (play_l_post env deferredAudioSeek s).trace = playbackCompleteCount s.trace) := by
  refine ⟨?_, ?_, ?_⟩ <;> simp only [play_l_post] <;> (repeat' split) <;> first | rfl | simp_all [renderOf, noteOf]

/-- What `play_l_post` leaves unchanged (flags). -/
@[simp] theorem play_l_post_flags (env : Env) (deferredAudioSeek : Bool) (s : Player) :
    ((play_l_post env deferredAudioSeek s).mFlags.LOOPING = s.mFlags.LOOPING) ∧
    ((play_l_post env deferredAudioSeek s).mFlags.AUTO_LOOPING = s.mFlags.AUTO_LOOPING) := by
  refine ⟨?_, ?_⟩ <;> simp only [play_l_post] <;> (repeat' split) <;> first | rfl | simp_all [renderOf, noteOf]

/-- What `play_l_post` leaves unchanged (the counts of the seek-complete and start-next
notifications and the marks that guard them). -/
@[simp] theorem play_l_post_notices (env : Env) (deferredAudioSeek : Bool) (s : Player) :
    (startNextCount (play_l_post env deferredAudioSeek s).trace = startNextCount s.trace) ∧
    ((play_l_post env deferredAudioSeek s).mStartNextPlayer = s.mStartNextPlayer) := by
  refine ⟨?_, ?_⟩ <;> simp only [play_l_post] <;> (repeat' split) <;> first | rfl | simp_all [renderOf, noteOf]

/-- What `play_l_post` leaves unchanged (the abort mark and the seek state). -/
@[simp] theorem play_l_post_process (env : Env) (deferredAudioSeek : Bool) (s : Player) :
    (play_l_post env deferredAudioSeek s).aborted = s.aborted := by
  simp only [play_l_post] <;> (repeat' split) <;> first | rfl | simp_all [renderOf, noteOf]

/-- What `play_l_finish` leaves unchanged (settings, render calls, completion count, flags). -/
@[simp] theorem play_l_finish_frame (env : Env) (deferredAudioSeek : Bool) (s : Player) :
    ((play_l_finish env deferredAudioSeek s).cfg = s.cfg) ∧
    (renders (play_l_finish env deferredAudioSeek s).trace = renders s.trace) ∧
    (playbackCompleteCount (play_l_finish env deferredAudioSeek s).trace = playbackCompleteCount s.trace) := by
  refine ⟨?_, ?_, ?_⟩ <;> simp only [play_l_finish] <;> (repeat' split) <;> first | rfl | simp_all [renderOf, noteOf]

/-- What `play_l_finish` leaves unchanged (flags). -/
@[simp] theorem play_l_finish_flags (env : Env) (deferredAudioSeek : Bool) (s : Player) :
    ((play_l_finish env deferredAudioSeek s).mFlags.LOOPING = s.mFlags.LOOPING) ∧
    ((play_l_finish env deferredAudioSeek s).mFlags.AUTO_LOOPING = s.mFlags.AUTO_LOOPING) := by
  refine ⟨?_, ?_⟩ <;> simp only [play_l_finish] <;> (repeat' split) <;> first | rfl | simp_all [renderOf, noteOf]

/-- What `play_l_finish` leaves unchanged (the counts of the seek-complete and start-next
notifications and the marks that guard them). -/
@[simp] theorem play_l_finish_notices (env : Env) (deferredAudioSeek : Bool) (s : Player) :
    (startNextCount (play_l_finish env deferredAudioSeek s).trace = startNextCount s.trace) ∧
    ((play_l_finish env deferredAudioSeek s).mStartNextPlayer = s.mStartNextPlayer) := by
  refine ⟨?_, ?_⟩ <;> simp only [play_l_finish] <;> (repeat' split) <;> first | rfl | simp_all [renderOf, noteOf]

/-- What `play_l_prepare` leaves unchanged (settings, render calls, completion count, flags). -/
@[simp] theorem play_l_prepare_frame (env : Env) (s : Player) :
    ((play_l_prepare env s).2.cfg = s.cfg) ∧
    (renders (play_l_prepare env s).2.trace = renders s.trace) ∧
    (playbackCompleteCount (play_l_prepare env s).2.trace = playbackCompleteCount s.trace) := by
  refine ⟨?_, ?_, ?_⟩ <;> simp only [play_l_prepare] <;> (repeat' split) <;> first | rfl | simp_all [renderOf, noteOf]

/-- What `play_l_prepare` leaves unchanged (flags). -/
@[simp] theorem play_l_prepare_flags (env : Env) (s : Player) :
    ((play_l_prepare env s).2.mFlags.PLAYING = s.mFlags.PLAYING) ∧
    ((play_l_prepare env s).2.mFlags.AT_EOS = s.mFlags.AT_EOS) ∧
    ((play_l_prepare env s).2.mFlags.CACHE_UNDERRUN = s.mFlags.CACHE_UNDERRUN) ∧
    ((play_l_prepare env s).2.mFlags.LOOPING = s.mFlags.LOOPING) := by
  refine ⟨?_, ?_, ?_, ?_⟩ <;> simp only [play_l_prepare] <;> (repeat' split) <;> first | rfl | simp_all [renderOf, noteOf]

/-- What `play_l_prepare` leaves unchanged (the counts of the seek-complete and start-next
notifications and the marks that guard them). -/
@[simp] theorem play_l_prepare_notices (env : Env) (s : Player) :
    (seekCompleteCount (play_l_prepare env s).2.trace = seekCompleteCount s.trace) ∧
    ((play_l_prepare env s).2.mSeekNotificationSent = s.mSeekNotificationSent) ∧
    (startNextCount (play_l_prepare env s).2.trace = startNextCount s.trace) ∧
    ((play_l_prepare env s).2.mStartNextPlayer = s.mStartNextPlayer) := by
  refine ⟨?_, ?_, ?_, ?_⟩ <;> simp only [play_l_prepare] <;> (repeat' split) <;> first | rfl | simp_all [renderOf, noteOf]

/-- What `play_l_prepare` leaves unchanged (the abort mark and the seek state). -/
@[simp] theorem play_l_prepare_process (env : Env) (s : Player) :
    ((play_l_prepare env s).2.aborted = s.aborted) ∧
    ((play_l_prepare env s).2.mSeeking = s.mSeeking) := by
  refine ⟨?_, ?_⟩ <;> simp only [play_l_prepare] <;> (repeat' split) <;> first | rfl | simp_all [renderOf, noteOf]

/-- What `play_l_run` leaves unchanged (settings, render calls, completion count, flags). -/
@[simp] theorem play_l_run_frame (env : Env) (s : Player) :
    ((play_l_run env s).2.cfg = s.cfg) ∧
    (renders (play_l_run env s).2.trace = renders s.trace) ∧
    (playbackCompleteCount (play_l_run env s).2.trace = playbackCompleteCount s.trace) := by
  refine ⟨?_, ?_, ?_⟩ <;> simp only [play_l_run] <;> (repeat' split) <;> first | rfl | simp_all [renderOf, noteOf]

/-- What `play_l_run` leaves unchanged (flags). -/
@[simp] theorem play_l_run_flags (env : Env) (s : Player) :
    ((play_l_run env s).2.mFlags.LOOPING = s.mFlags.LOOPING) ∧
    ((play_l_run env s).2.mFlags.AUTO_LOOPING = s.mFlags.AUTO_LOOPING) := by
  refine ⟨?_, ?_⟩ <;> simp only [play_l_run] <;> (repeat' split) <;> first | rfl | simp_all [renderOf, noteOf]

/-- What `play_l_run` leaves unchanged (the counts of the seek-complete and start-next
notifications and the marks that guard them). -/
@[simp] theorem play_l_run_notices (env : Env) (s : Player) :
    (startNextCount (play_l_run env s).2.trace = startNextCount s.trace) ∧
    ((play_l_run env s).2.mStartNextPlayer = s.mStartNextPlayer) := by
  refine ⟨?_, ?_⟩ <;> simp only [play_l_run] <;> (repeat' split) <;> first | rfl | simp_all [renderOf, noteOf]

/-- What `play_l` leaves unchanged (settings, render calls, completion count, flags). -/
@[simp] theorem play_l_frame (env : Env) (s : Player) :
    ((play_l env s).2.cfg = s.cfg) ∧
    (renders (play_l env s).2.trace = renders s.trace) ∧
    (playbackCompleteCount (play_l env s).2.trace = playbackCompleteCount s.trace) := by
  refine ⟨?_, ?_, ?_⟩ <;> simp only [play_l] <;> (repeat' split) <;> first | rfl | simp_all [renderOf, noteOf]

/-- What `play_l` leaves unchanged (flags). -/
@[simp] theorem play_l_flags (env : Env) (s : Player) :
    (play_l env s).2.mFlags.LOOPING = s.mFlags.LOOPING := by
  simp only [play_l] <;> (repeat' split) <;> first | rfl | simp_all [renderOf, noteOf]

/-- What `play_l` leaves unchanged (the counts of the seek-complete and start-next notifications
and the marks that guard them). -/
@[simp] theorem play_l_notices (env : Env) (s : Player) :
    startNextCount (play_l env s).2.trace = startNextCount s.trace := by
  simp only [play_l] <;> (repeat' split) <;> first | rfl | simp_all [renderOf, noteOf]

/-- What `play` leaves unchanged (settings, render calls, completion count, flags). -/
@[simp] theorem play_frame (env : Env) (s : Player) :
    ((play env s).2.cfg = s.cfg) ∧
    (renders (play env s).2.trace = renders s.trace) ∧
    (playbackCompleteCount (play env s).2.trace = playbackCompleteCount s.trace) := by
  refine ⟨?_, ?_, ?_⟩ <;> simp only [play] <;> (repeat' split) <;> first | rfl | simp_all [renderOf, noteOf]

/-- What `play` leaves unchanged (flags). -/
@[simp] theorem play_flags (env : Env) (s : Player) :
    (play env s).2.mFlags.LOOPING = s.mFlags.LOOPING := by
  simp only [play] <;> (repeat' split) <;> first | rfl | simp_all [renderOf, noteOf]

/-- What `play` leaves unchanged (the counts of the seek-complete and start-next notifications and
the marks that guard them). -/
@[simp] theorem play_notices (env : Env) (s : Player) :
    startNextCount (play env s).2.trace = startNextCount s.trace := by
  simp only [play] <;> (repeat' split) <;> first | rfl | simp_all [renderOf, noteOf]

/-- What `checkAudioSeekComplete` leaves unchanged (settings, render calls, completion count,
flags). -/
@[simp] theorem checkAudioSeekComplete_frame (env : Env) (s : Player) :
    ((checkAudioSeekComplete env s).cfg = s.cfg) ∧
    (renders (checkAudioSeekComplete env s).trace = renders s.trace) ∧
    (playbackCompleteCount (checkAudioSeekComplete env s).trace = playbackCompleteCount s.trace) ∧
    ((checkAudioSeekComplete env s).mFlags = s.mFlags) := by
  refine ⟨?_, ?_, ?_, ?_⟩ <;> simp only [checkAudioSeekComplete] <;> (repeat' split) <;> first | rfl | simp_all [renderOf, noteOf]

/-- What `checkAudioSeekComplete` leaves unchanged (fields of the video loop). -/
@[simp] theorem checkAudioSeekComplete_fields (env : Env) (s : Player) :
    ((checkAudioSeekComplete env s).mCurrentVideoEffect = s.mCurrentVideoEffect) ∧
    ((checkAudioSeekComplete env s).mVideoRenderer = s.mVideoRenderer) ∧
    ((checkAudioSeekComplete env s).mVideoBuffer = s.mVideoBuffer) ∧
    ((checkAudioSeekComplete env s).mSeekTimeUs = s.mSeekTimeUs) ∧
    ((checkAudioSeekComplete env s).mIsVideoSourceJpg = s.mIsVideoSourceJpg) ∧
    ((checkAudioSeekComplete env s).mVideoEventPending = s.mVideoEventPending) ∧
    ((checkAudioSeekComplete env s).mStreamDoneEventPending = s.mStreamDoneEventPending) := by
  refine ⟨?_, ?_, ?_, ?_, ?_, ?_, ?_⟩ <;> simp only [checkAudioSeekComplete] <;> (repeat' split) <;> first | rfl | simp_all [renderOf, noteOf]

/-- What `checkAudioSeekComplete` leaves unchanged (sources, clock and pending marks). -/
@[simp] theorem checkAudioSeekComplete_wiring (env : Env) (s : Player) :
    ((checkAudioSeekComplete env s).mStreamDoneStatus = s.mStreamDoneStatus) ∧
    ((checkAudioSeekComplete env s).mAudioPlayer = s.mAudioPlayer) ∧
    ((checkAudioSeekComplete env s).mAudioSource = s.mAudioSource) ∧
    ((checkAudioSeekComplete env s).mVideoSource = s.mVideoSource) ∧
    ((checkAudioSeekComplete env s).mTimeSource = s.mTimeSource) ∧
    ((checkAudioSeekComplete env s).mTimeSourceDeltaUs = s.mTimeSourceDeltaUs) ∧
    ((checkAudioSeekComplete env s).mOverlayUpdateEventPosted = s.mOverlayUpdateEventPosted) := by
  refine ⟨?_, ?_, ?_, ?_, ?_, ?_, ?_⟩ <;> simp only [checkAudioSeekComplete] <;> (repeat' split) <;> first | rfl | simp_all [renderOf, noteOf]

/-- What `checkAudioSeekComplete` leaves unchanged (the counts of the seek-complete and start-next
notifications and the marks that guard them). -/
@[simp] theorem checkAudioSeekComplete_notices (env : Env) (s : Player) :
    (startNextCount (checkAudioSeekComplete env s).trace = startNextCount s.trace) ∧
    ((checkAudioSeekComplete env s).mStartNextPlayer = s.mStartNextPlayer) := by
  refine ⟨?_, ?_⟩ <;> simp only [checkAudioSeekComplete] <;> (repeat' split) <;> first | rfl | simp_all [renderOf, noteOf]

/-- What `checkAudioSeekComplete` leaves unchanged (the abort mark and the seek state). -/
@[simp] theorem checkAudioSeekComplete_process (env : Env) (s : Player) :
    (checkAudioSeekComplete env s).aborted = s.aborted := by
  simp only [checkAudioSeekComplete] <;> (repeat' split) <;> first | rfl | simp_all [renderOf, noteOf]

/-- What `checkAudioEOS` leaves unchanged (settings, render calls, completion count, flags). -/
@[simp] theorem checkAudioEOS_frame (env : Env) (s : Player) :
    ((checkAudioEOS env s).cfg = s.cfg) ∧
    (renders (checkAudioEOS env s).trace = renders s.trace) ∧
    (playbackCompleteCount (checkAudioEOS env s).trace = playbackCompleteCount s.trace) := by
  refine ⟨?_, ?_, ?_⟩ <;> simp only [checkAudioEOS] <;> (repeat' split) <;> first | rfl | simp_all [renderOf, noteOf]

/-- What `checkAudioEOS` leaves unchanged (flags). -/
@[simp] theorem checkAudioEOS_flags (env : Env) (s : Player) :
    ((checkAudioEOS env s).mFlags.PLAYING = s.mFlags.PLAYING) ∧
    ((checkAudioEOS env s).mFlags.AT_EOS = s.mFlags.AT_EOS) ∧
    ((checkAudioEOS env s).mFlags.INFORMED_AV_EOS = s.mFlags.INFORMED_AV_EOS) ∧
    ((checkAudioEOS env s).mFlags.CACHE_UNDERRUN = s.mFlags.CACHE_UNDERRUN) ∧
    ((checkAudioEOS env s).mFlags.LOOPING = s.mFlags.LOOPING) ∧
    ((checkAudioEOS env s).mFlags.AUTO_LOOPING = s.mFlags.AUTO_LOOPING) ∧
    ((checkAudioEOS env s).mFlags.VIDEO_AT_EOS = s.mFlags.VIDEO_AT_EOS) ∧
    ((checkAudioEOS env s).mFlags.SEEK_PREVIEW = s.mFlags.SEEK_PREVIEW) ∧
    ((checkAudioEOS env s).mFlags.AUDIO_RUNNING = s.mFlags.AUDIO_RUNNING) := by
  refine ⟨?_, ?_, ?_, ?_, ?_, ?_, ?_, ?_, ?_⟩ <;> simp only [checkAudioEOS] <;> (repeat' split) <;> first | rfl | simp_all [renderOf, noteOf]

/-- What `checkAudioEOS` leaves unchanged (fields of the video loop). -/
@[simp] theorem checkAudioEOS_fields (env : Env) (s : Player) :
    ((checkAudioEOS env s).mCurrentVideoEffect = s.mCurrentVideoEffect) ∧
    ((checkAudioEOS env s).mVideoRenderer = s.mVideoRenderer) ∧
    ((checkAudioEOS env s).mVideoBuffer = s.mVideoBuffer) ∧
    ((checkAudioEOS env s).mSeeking = s.mSeeking) ∧
    ((checkAudioEOS env s).mSeekTimeUs = s.mSeekTimeUs) ∧
    ((checkAudioEOS env s).mIsVideoSourceJpg = s.mIsVideoSourceJpg) ∧
    ((checkAudioEOS env s).mVideoEventPending = s.mVideoEventPending) := by
  refine ⟨?_, ?_, ?_, ?_, ?_, ?_, ?_⟩ <;> simp only [checkAudioEOS] <;> (repeat' split) <;> first | rfl | simp_all [renderOf, noteOf]

/-- What `checkAudioEOS` leaves unchanged (sources, clock and pending marks). -/
@[simp] theorem checkAudioEOS_wiring (env : Env) (s : Player) :
    ((checkAudioEOS env s).mAudioPlayer = s.mAudioPlayer) ∧
    ((checkAudioEOS env s).mAudioSource = s.mAudioSource) ∧
    ((checkAudioEOS env s).mVideoSource = s.mVideoSource) ∧
    ((checkAudioEOS env s).mTimeSource = s.mTimeSource) ∧
    ((checkAudioEOS env s).mTimeSourceDeltaUs = s.mTimeSourceDeltaUs) ∧
    ((checkAudioEOS env s).mOverlayUpdateEventPosted = s.mOverlayUpdateEventPosted) := by
  refine ⟨?_, ?_, ?_, ?_, ?_, ?_⟩ <;> simp only [checkAudioEOS] <;> (repeat' split) <;> first | rfl | simp_all [renderOf, noteOf]

/-- What `checkAudioEOS` leaves unchanged (the counts of the seek-complete and start-next
notifications and the marks that guard them). -/
@[simp] theorem checkAudioEOS_notices (env : Env) (s : Player) :
    (seekCompleteCount (checkAudioEOS env s).trace = seekCompleteCount s.trace) ∧
    ((checkAudioEOS env s).mSeekNotificationSent = s.mSeekNotificationSent) ∧
    (startNextCount (checkAudioEOS env s).trace = startNextCount s.trace) ∧
    ((checkAudioEOS env s).mStartNextPlayer = s.mStartNextPlayer) := by
  refine ⟨?_, ?_, ?_, ?_⟩ <;> simp only [checkAudioEOS] <;> (repeat' split) <;> first | rfl | simp_all [renderOf, noteOf]

/-- What `checkAudioEOS` leaves unchanged (the abort mark and the seek state). -/
@[simp] theorem checkAudioEOS_process (env : Env) (s : Player) :
    ((checkAudioEOS env s).aborted = s.aborted) ∧
    ((checkAudioEOS env s).mSeeking = s.mSeeking) := by
  refine ⟨?_, ?_⟩ <;> simp only [checkAudioEOS] <;> (repeat' split) <;> first | rfl | simp_all [renderOf, noteOf]

/-- What `onCheckAudioStatus` leaves unchanged (settings, render calls, completion count, flags). -/
@[simp] theorem onCheckAudioStatus_frame (env : Env) (s : Player) :
    ((onCheckAudioStatus env s).cfg = s.cfg) ∧
    (renders (onCheckAudioStatus env s).trace = renders s.trace) ∧
    (playbackCompleteCount (onCheckAudioStatus env s).trace = playbackCompleteCount s.trace) := by
  refine ⟨?_, ?_, ?_⟩ <;> simp only [onCheckAudioStatus] <;> (repeat' split) <;> first | rfl | simp_all [renderOf, noteOf]

/-- What `onCheckAudioStatus` leaves unchanged (flags). -/
@[simp] theorem onCheckAudioStatus_flags (env : Env) (s : Player) :
    ((onCheckAudioStatus env s).mFlags.PLAYING = s.mFlags.PLAYING) ∧
    ((onCheckAudioStatus env s).mFlags.AT_EOS = s.mFlags.AT_EOS) ∧
    ((onCheckAudioStatus env s).mFlags.INFORMED_AV_EOS = s.mFlags.INFORMED_AV_EOS) ∧
    ((onCheckAudioStatus env s).mFlags.CACHE_UNDERRUN = s.mFlags.CACHE_UNDERRUN) ∧
    ((onCheckAudioStatus env s).mFlags.LOOPING = s.mFlags.LOOPING) ∧
    ((onCheckAudioStatus env s).mFlags.AUTO_LOOPING = s.mFlags.AUTO_LOOPING) ∧
    ((onCheckAudioStatus env s).mFlags.VIDEO_AT_EOS = s.mFlags.VIDEO_AT_EOS) ∧
    ((onCheckAudioStatus env s).mFlags.SEEK_PREVIEW = s.mFlags.SEEK_PREVIEW) ∧
    ((onCheckAudioStatus env s).mFlags.AUDIO_RUNNING = s.mFlags.AUDIO_RUNNING) := by
  refine ⟨?_, ?_, ?_, ?_, ?_, ?_, ?_, ?_, ?_⟩ <;> simp only [onCheckAudioStatus] <;> (repeat' split) <;> first | rfl | simp_all [renderOf, noteOf]

/-- What `onCheckAudioStatus` leaves unchanged (fields of the video loop). -/
@[simp] theorem onCheckAudioStatus_fields (env : Env) (s : Player) :
    ((onCheckAudioStatus env s).mCurrentVideoEffect = s.mCurrentVideoEffect) ∧
    ((onCheckAudioStatus env s).mVideoRenderer = s.mVideoRenderer) ∧
    ((onCheckAudioStatus env s).mVideoBuffer = s.mVideoBuffer) ∧
    ((onCheckAudioStatus env s).mSeekTimeUs = s.mSeekTimeUs) ∧
    ((onCheckAudioStatus env s).mIsVideoSourceJpg = s.mIsVideoSourceJpg) ∧
    ((onCheckAudioStatus env s).mVideoEventPending = s.mVideoEventPending) := by
  refine ⟨?_, ?_, ?_, ?_, ?_, ?_⟩ <;> simp only [onCheckAudioStatus] <;> (repeat' split) <;> first | rfl | simp_all [renderOf, noteOf]

/-- What `onCheckAudioStatus` leaves unchanged (sources, clock and pending marks). -/
@[simp] theorem onCheckAudioStatus_wiring (env : Env) (s : Player) :
    ((onCheckAudioStatus env s).mAudioPlayer = s.mAudioPlayer) ∧
    ((onCheckAudioStatus env s).mAudioSource = s.mAudioSource) ∧
    ((onCheckAudioStatus env s).mVideoSource = s.mVideoSource) ∧
    ((onCheckAudioStatus env s).mTimeSource = s.mTimeSource) ∧
    ((onCheckAudioStatus env s).mTimeSourceDeltaUs = s.mTimeSourceDeltaUs) ∧
    ((onCheckAudioStatus env s).mOverlayUpdateEventPosted = s.mOverlayUpdateEventPosted) := by
  refine ⟨?_, ?_, ?_, ?_, ?_, ?_⟩ <;> simp only [onCheckAudioStatus] <;> (repeat' split) <;> first | rfl | simp_all [renderOf, noteOf]

/-- What `onCheckAudioStatus` leaves unchanged (the counts of the seek-complete and start-next
notifications and the marks that guard them). -/
@[simp] theorem onCheckAudioStatus_notices (env : Env) (s : Player) :
    (startNextCount (onCheckAudioStatus env s).trace = startNextCount s.trace) ∧
    ((onCheckAudioStatus env s).mStartNextPlayer = s.mStartNextPlayer) := by
  refine ⟨?_, ?_⟩ <;> simp only [onCheckAudioStatus] <;> (repeat' split) <;> first | rfl | simp_all [renderOf, noteOf]

/-- What `onCheckAudioStatus` leaves unchanged (the abort mark and the seek state). -/
@[simp] theorem onCheckAudioStatus_process (env : Env) (s : Player) :
    (onCheckAudioStatus env s).aborted = s.aborted := by
  simp only [onCheckAudioStatus] <;> (repeat' split) <;> first | rfl | simp_all [renderOf, noteOf]

/-- What `onProgressCbEvent` leaves unchanged (settings, render calls, completion count, flags). -/
@[simp] theorem onProgressCbEvent_frame (s : Player) :
    ((onProgressCbEvent s).cfg = s.cfg) ∧
    (renders (onProgressCbEvent s).trace = renders s.trace) ∧
    (playbackCompleteCount (onProgressCbEvent s).trace = playbackCompleteCount s.trace) ∧
    ((onProgressCbEvent s).mFlags = s.mFlags) := by
  refine ⟨?_, ?_, ?_, ?_⟩ <;> simp only [onProgressCbEvent] <;> (repeat' split) <;> first | rfl | simp_all [renderOf, noteOf]

/-- What `onProgressCbEvent` leaves unchanged (fields of the video loop). -/
@[simp] theorem onProgressCbEvent_fields (s : Player) :
    ((onProgressCbEvent s).mCurrentVideoEffect = s.mCurrentVideoEffect) ∧
    ((onProgressCbEvent s).mVideoRenderer = s.mVideoRenderer) ∧
    ((onProgressCbEvent s).mVideoBuffer = s.mVideoBuffer) ∧
    ((onProgressCbEvent s).mSeeking = s.mSeeking) ∧
    ((onProgressCbEvent s).mSeekTimeUs = s.mSeekTimeUs) ∧
    ((onProgressCbEvent s).mIsVideoSourceJpg = s.mIsVideoSourceJpg) ∧
    ((onProgressCbEvent s).mVideoEventPending = s.mVideoEventPending) ∧
    ((onProgressCbEvent s).mStreamDoneEventPending = s.mStreamDoneEventPending) := by
  refine ⟨?_, ?_, ?_, ?_, ?_, ?_, ?_, ?_⟩ <;> simp only [onProgressCbEvent] <;> (repeat' split) <;> first | rfl | simp_all [renderOf, noteOf]

/-- What `onProgressCbEvent` leaves unchanged (sources, clock and pending marks). -/
@[simp] theorem onProgressCbEvent_wiring (s : Player) :
    ((onProgressCbEvent s).mStreamDoneStatus = s.mStreamDoneStatus) ∧
    ((onProgressCbEvent s).mAudioPlayer = s.mAudioPlayer) ∧
    ((onProgressCbEvent s).mAudioSource = s.mAudioSource) ∧
    ((onProgressCbEvent s).mVideoSource = s.mVideoSource) ∧
    ((onProgressCbEvent s).mTimeSource = s.mTimeSource) ∧
    ((onProgressCbEvent s).mTimeSourceDeltaUs = s.mTimeSourceDeltaUs) ∧
    ((onProgressCbEvent s).mOverlayUpdateEventPosted = s.mOverlayUpdateEventPosted) := by
  refine ⟨?_, ?_, ?_, ?_, ?_, ?_, ?_⟩ <;> simp only [onProgressCbEvent] <;> (repeat' split) <;> first | rfl | simp_all [renderOf, noteOf]

/-- What `onProgressCbEvent` leaves unchanged (the counts of the seek-complete and start-next
notifications and the marks that guard them). -/
@[simp] theorem onProgressCbEvent_notices (s : Player) :
    (seekCompleteCount (onProgressCbEvent s).trace = seekCompleteCount s.trace) ∧
    ((onProgressCbEvent s).mSeekNotificationSent = s.mSeekNotificationSent) ∧
    (startNextCount (onProgressCbEvent s).trace = startNextCount s.trace) ∧
    ((onProgressCbEvent s).mStartNextPlayer = s.mStartNextPlayer) := by
  refine ⟨?_, ?_, ?_, ?_⟩ <;> simp only [onProgressCbEvent] <;> (repeat' split) <;> first | rfl | simp_all [renderOf, noteOf]

/-- What `onProgressCbEvent` leaves unchanged (the abort mark and the seek state). -/
@[simp] theorem onProgressCbEvent_process (s : Player) :
    ((onProgressCbEvent s).aborted = s.aborted) ∧
    ((onProgressCbEvent s).mSeeking = s.mSeeking) := by
  refine ⟨?_, ?_⟩ <;> simp only [onProgressCbEvent] <;> (repeat' split) <;> first | rfl | simp_all [renderOf, noteOf]

/-- What `onUpdateOverlayEvent` leaves unchanged (settings, render calls, completion count,
flags). -/
@[simp] theorem onUpdateOverlayEvent_frame (s : Player) :
    ((onUpdateOverlayEvent s).cfg = s.cfg) ∧
    (renders (onUpdateOverlayEvent s).trace = renders s.trace) ∧
    (playbackCompleteCount (onUpdateOverlayEvent s).trace = playbackCompleteCount s.trace) ∧
    ((onUpdateOverlayEvent s).mFlags = s.mFlags) := by
  refine ⟨?_, ?_, ?_, ?_⟩ <;> simp only [onUpdateOverlayEvent] <;> (repeat' split) <;> first | rfl | simp_all [renderOf, noteOf]

/-- What `onUpdateOverlayEvent` leaves unchanged (fields of the video loop). -/
@[simp] theorem onUpdateOverlayEvent_fields (s : Player) :
    ((onUpdateOverlayEvent s).mCurrentVideoEffect = s.mCurrentVideoEffect) ∧
    ((onUpdateOverlayEvent s).mVideoRenderer = s.mVideoRenderer) ∧
    ((onUpdateOverlayEvent s).mVideoBuffer = s.mVideoBuffer) ∧
    ((onUpdateOverlayEvent s).mSeeking = s.mSeeking) ∧
    ((onUpdateOverlayEvent s).mSeekTimeUs = s.mSeekTimeUs) ∧
    ((onUpdateOverlayEvent s).mIsVideoSourceJpg = s.mIsVideoSourceJpg) ∧
    ((onUpdateOverlayEvent s).mVideoEventPending = s.mVideoEventPending) ∧
    ((onUpdateOverlayEvent s).mStreamDoneEventPending = s.mStreamDoneEventPending) := by
  refine ⟨?_, ?_, ?_, ?_, ?_, ?_, ?_, ?_⟩ <;> simp only [onUpdateOverlayEvent] <;> (repeat' split) <;> first | rfl | simp_all [renderOf, noteOf]

/-- What `onUpdateOverlayEvent` leaves unchanged (sources, clock and pending marks). -/
@[simp] theorem onUpdateOverlayEvent_wiring (s : Player) :
    ((onUpdateOverlayEvent s).mStreamDoneStatus = s.mStreamDoneStatus) ∧
    ((onUpdateOverlayEvent s).mAudioPlayer = s.mAudioPlayer) ∧
    ((onUpdateOverlayEvent s).mAudioSource = s.mAudioSource) ∧
    ((onUpdateOverlayEvent s).mVideoSource = s.mVideoSource) ∧
    ((onUpdateOverlayEvent s).mTimeSource = s.mTimeSource) ∧
    ((onUpdateOverlayEvent s).mTimeSourceDeltaUs = s.mTimeSourceDeltaUs) ∧
    ((onUpdateOverlayEvent s).mOverlayUpdateEventPosted = s.mOverlayUpdateEventPosted) := by
  refine ⟨?_, ?_, ?_, ?_, ?_, ?_, ?_⟩ <;> simp only [onUpdateOverlayEvent] <;> (repeat' split) <;> first | rfl | simp_all [renderOf, noteOf]

/-- What `onUpdateOverlayEvent` leaves unchanged (the counts of the seek-complete and start-next
notifications and the marks that guard them). -/
@[simp] theorem onUpdateOverlayEvent_notices (s : Player) :
    (seekCompleteCount (onUpdateOverlayEvent s).trace = seekCompleteCount s.trace) ∧
    ((onUpdateOverlayEvent s).mSeekNotificationSent = s.mSeekNotificationSent) ∧
    (startNextCount (onUpdateOverlayEvent s).trace = startNextCount s.trace) ∧
    ((onUpdateOverlayEvent s).mStartNextPlayer = s.mStartNextPlayer) := by
  refine ⟨?_, ?_, ?_, ?_⟩ <;> simp only [onUpdateOverlayEvent] <;> (repeat' split) <;> first | rfl | simp_all [renderOf, noteOf]

/-- What `onUpdateOverlayEvent` leaves unchanged (the abort mark and the seek state). -/
@[simp] theorem onUpdateOverlayEvent_process (s : Player) :
    ((onUpdateOverlayEvent s).aborted = s.aborted) ∧
    ((onUpdateOverlayEvent s).mSeeking = s.mSeeking) := by
  refine ⟨?_, ?_⟩ <;> simp only [onUpdateOverlayEvent] <;> (repeat' split) <;> first | rfl | simp_all [renderOf, noteOf]

/-- What `onFirstReadError` leaves unchanged (settings, render calls, completion count, flags). -/
@[simp] theorem onFirstReadError_frame (err : Status) (s : Player) :
    ((onFirstReadError err s).cfg = s.cfg) ∧
    (renders (onFirstReadError err s).trace = renders s.trace) ∧
    (playbackCompleteCount (onFirstReadError err s).trace = playbackCompleteCount s.trace) := by
  refine ⟨?_, ?_, ?_⟩ <;> simp only [onFirstReadError] <;> (repeat' split) <;> first | rfl | simp_all [renderOf, noteOf]

/-- What `onFirstReadError` leaves unchanged (flags). -/
@[simp] theorem onFirstReadError_flags (err : Status) (s : Player) :
    ((onFirstReadError err s).mFlags.PLAYING = s.mFlags.PLAYING) ∧
    ((onFirstReadError err s).mFlags.AT_EOS = s.mFlags.AT_EOS) ∧
    ((onFirstReadError err s).mFlags.INFORMED_AV_EOS = s.mFlags.INFORMED_AV_EOS) ∧
    ((onFirstReadError err s).mFlags.CACHE_UNDERRUN = s.mFlags.CACHE_UNDERRUN) ∧
    ((onFirstReadError err s).mFlags.LOOPING = s.mFlags.LOOPING) ∧
    ((onFirstReadError err s).mFlags.AUTO_LOOPING = s.mFlags.AUTO_LOOPING) := by
  refine ⟨?_, ?_, ?_, ?_, ?_, ?_⟩ <;> simp only [onFirstReadError] <;> (repeat' split) <;> first | rfl | simp_all [renderOf, noteOf]

/-- What `onFirstReadError` leaves unchanged (the counts of the seek-complete and start-next
notifications and the marks that guard them). -/
@[simp] theorem onFirstReadError_notices (err : Status) (s : Player) :
    (seekCompleteCount (onFirstReadError err s).trace = seekCompleteCount s.trace) ∧
    ((onFirstReadError err s).mSeekNotificationSent = s.mSeekNotificationSent) ∧
    (startNextCount (onFirstReadError err s).trace = startNextCount s.trace) ∧
    ((onFirstReadError err s).mStartNextPlayer = s.mStartNextPlayer) := by
  refine ⟨?_, ?_, ?_, ?_⟩ <;> simp only [onFirstReadError] <;> (repeat' split) <;> first | rfl | simp_all [renderOf, noteOf]

/-- What `onFirstReadError` leaves unchanged (the abort mark and the seek state). -/
@[simp] theorem onFirstReadError_process (err : Status) (s : Player) :
    ((onFirstReadError err s).aborted = s.aborted) ∧
    ((onFirstReadError err s).mSeeking = s.mSeeking) := by
  refine ⟨?_, ?_⟩ <;> simp only [onFirstReadError] <;> (repeat' split) <;> first | rfl | simp_all [renderOf, noteOf]

/-- What `readFirstLoop` leaves unchanged (settings, render calls, completion count, flags). -/
@[simp] theorem readFirstLoop_frame (reads : List ReadResult) (s : Player) :
    ((readFirstLoop reads s).cfg = s.cfg) ∧
    (renders (readFirstLoop reads s).trace = renders s.trace) ∧
    (playbackCompleteCount (readFirstLoop reads s).trace = playbackCompleteCount s.trace) := by
  refine ⟨?_, ?_, ?_⟩ <;> (induction reads generalizing s with
    | nil => simp [readFirstLoop]
    | cons r rest ih =>
      cases r <;> simp only [readFirstLoop] <;> (repeat' split) <;> first | rfl | simp_all [renderOf, noteOf])

/-- What `readFirstLoop` leaves unchanged (flags). -/
@[simp] theorem readFirstLoop_flags (reads : List ReadResult) (s : Player) :
    ((readFirstLoop reads s).mFlags.PLAYING = s.mFlags.PLAYING) ∧
    ((readFirstLoop reads s).mFlags.AT_EOS = s.mFlags.AT_EOS) ∧
    ((readFirstLoop reads s).mFlags.INFORMED_AV_EOS = s.mFlags.INFORMED_AV_EOS) ∧
    ((readFirstLoop reads s).mFlags.CACHE_UNDERRUN = s.mFlags.CACHE_UNDERRUN) ∧
    ((readFirstLoop reads s).mFlags.LOOPING = s.mFlags.LOOPING) ∧
    ((readFirstLoop reads s).mFlags.AUTO_LOOPING = s.mFlags.AUTO_LOOPING) := by
  refine ⟨?_, ?_, ?_, ?_, ?_, ?_⟩ <;> (induction reads generalizing s with
    | nil => simp [readFirstLoop]
    | cons r rest ih =>
      cases r <;> simp only [readFirstLoop] <;> (repeat' split) <;> first | rfl | simp_all [renderOf, noteOf])

/-- What `readFirstLoop` leaves unchanged (the counts of the seek-complete and start-next
notifications and the marks that guard them). -/
@[simp] theorem readFirstLoop_notices (reads : List ReadResult) (s : Player) :
    (seekCompleteCount (readFirstLoop reads s).trace = seekCompleteCount s.trace) ∧
    ((readFirstLoop reads s).mSeekNotificationSent = s.mSeekNotificationSent) ∧
    (startNextCount (readFirstLoop reads s).trace = startNextCount s.trace) ∧
    ((readFirstLoop reads s).mStartNextPlayer = s.mStartNextPlayer) := by
  refine ⟨?_, ?_, ?_, ?_⟩ <;> (induction reads generalizing s with
    | nil => simp [readFirstLoop]
    | cons r rest ih =>
      cases r <;> simp only [readFirstLoop] <;> (repeat' split) <;> first | rfl | simp_all [renderOf, noteOf])

/-- What `readFirstLoop` leaves unchanged (the abort mark and the seek state). -/
@[simp] theorem readFirstLoop_process (reads : List ReadResult) (s : Player) :
    ((readFirstLoop reads s).aborted = s.aborted) ∧
    ((readFirstLoop reads s).mSeeking = s.mSeeking) := by
  refine ⟨?_, ?_⟩ <;> (induction reads generalizing s with
    | nil => simp [readFirstLoop]
    | cons r rest ih =>
      cases r <;> simp only [readFirstLoop] <;> (repeat' split) <;> first | rfl | simp_all [renderOf, noteOf])

/-- What `fetchFirstFrame` leaves unchanged (settings, render calls, completion count, flags). -/
@[simp] theorem fetchFirstFrame_frame (s : Player) :
    ((fetchFirstFrame s).cfg = s.cfg) ∧
    (renders (fetchFirstFrame s).trace = renders s.trace) ∧
    (playbackCompleteCount (fetchFirstFrame s).trace = playbackCompleteCount s.trace) := by
  refine ⟨?_, ?_, ?_⟩ <;> simp only [fetchFirstFrame] <;> (repeat' split) <;> first | rfl | simp_all [renderOf, noteOf]

/-- What `fetchFirstFrame` leaves unchanged (flags). -/
@[simp] theorem fetchFirstFrame_flags (s : Player) :
    ((fetchFirstFrame s).mFlags.PLAYING = s.mFlags.PLAYING) ∧
    ((fetchFirstFrame s).mFlags.AT_EOS = s.mFlags.AT_EOS) ∧
    ((fetchFirstFrame s).mFlags.INFORMED_AV_EOS = s.mFlags.INFORMED_AV_EOS) ∧
    ((fetchFirstFrame s).mFlags.CACHE_UNDERRUN = s.mFlags.CACHE_UNDERRUN) ∧
    ((fetchFirstFrame s).mFlags.LOOPING = s.mFlags.LOOPING) ∧
    ((fetchFirstFrame s).mFlags.AUTO_LOOPING = s.mFlags.AUTO_LOOPING) := by
  refine ⟨?_, ?_, ?_, ?_, ?_, ?_⟩ <;> simp only [fetchFirstFrame] <;> (repeat' split) <;> first | rfl | simp_all [renderOf, noteOf]

/-- What `fetchFirstFrame` leaves unchanged (the counts of the seek-complete and start-next
notifications and the marks that guard them). -/
@[simp] theorem fetchFirstFrame_notices (s : Player) :
    (seekCompleteCount (fetchFirstFrame s).trace = seekCompleteCount s.trace) ∧
    ((fetchFirstFrame s).mSeekNotificationSent = s.mSeekNotificationSent) ∧
    (startNextCount (fetchFirstFrame s).trace = startNextCount s.trace) ∧
    ((fetchFirstFrame s).mStartNextPlayer = s.mStartNextPlayer) := by
  refine ⟨?_, ?_, ?_, ?_⟩ <;> simp only [fetchFirstFrame] <;> (repeat' split) <;> first | rfl | simp_all [renderOf, noteOf]

/-- What `fetchFirstFrame` leaves unchanged (the abort mark and the seek state). -/
@[simp] theorem fetchFirstFrame_process (s : Player) :
    ((fetchFirstFrame s).aborted = s.aborted) ∧
    ((fetchFirstFrame s).mSeeking = s.mSeeking) := by
  refine ⟨?_, ?_⟩ <;> simp only [fetchFirstFrame] <;> (repeat' split) <;> first | rfl | simp_all [renderOf, noteOf]

/-- What `readFirstVideoFrame` leaves unchanged (settings, render calls, completion count, flags).
-/
@[simp] theorem readFirstVideoFrame_frame (s : Player) :
    ((readFirstVideoFrame s).2.cfg = s.cfg) ∧
    (renders (readFirstVideoFrame s).2.trace = renders s.trace) ∧
    (playbackCompleteCount (readFirstVideoFrame s).2.trace = playbackCompleteCount s.trace) := by
  refine ⟨?_, ?_, ?_⟩ <;> simp only [readFirstVideoFrame] <;> (repeat' split) <;> first | rfl | simp_all [renderOf, noteOf]

/-- What `readFirstVideoFrame` leaves unchanged (flags). -/
@[simp] theorem readFirstVideoFrame_flags (s : Player) :
    ((readFirstVideoFrame s).2.mFlags.PLAYING = s.mFlags.PLAYING) ∧
    ((readFirstVideoFrame s).2.mFlags.AT_EOS = s.mFlags.AT_EOS) ∧
    ((readFirstVideoFrame s).2.mFlags.INFORMED_AV_EOS = s.mFlags.INFORMED_AV_EOS) ∧
    ((readFirstVideoFrame s).2.mFlags.CACHE_UNDERRUN = s.mFlags.CACHE_UNDERRUN) ∧
    ((readFirstVideoFrame s).2.mFlags.LOOPING = s.mFlags.LOOPING) ∧
    ((readFirstVideoFrame s).2.mFlags.AUTO_LOOPING = s.mFlags.AUTO_LOOPING) := by
  refine ⟨?_, ?_, ?_, ?_, ?_, ?_⟩ <;> simp only [readFirstVideoFrame] <;> (repeat' split) <;> first | rfl | simp_all [renderOf, noteOf]

/-- What `readFirstVideoFrame` leaves unchanged (the counts of the seek-complete and start-next
notifications and the marks that guard them). -/
@[simp] theorem readFirstVideoFrame_notices (s : Player) :
    (seekCompleteCount (readFirstVideoFrame s).2.trace = seekCompleteCount s.trace) ∧
    ((readFirstVideoFrame s).2.mSeekNotificationSent = s.mSeekNotificationSent) ∧
    (startNextCount (readFirstVideoFrame s).2.trace = startNextCount s.trace) ∧
    ((readFirstVideoFrame s).2.mStartNextPlayer = s.mStartNextPlayer) := by
  refine ⟨?_, ?_, ?_, ?_⟩ <;> simp only [readFirstVideoFrame] <;> (repeat' split) <;> first | rfl | simp_all [renderOf, noteOf]

/-- What `readFirstVideoFrame` leaves unchanged (the abort mark and the seek state). -/
@[simp] theorem readFirstVideoFrame_process (s : Player) :
    ((readFirstVideoFrame s).2.aborted = s.aborted) ∧
    ((readFirstVideoFrame s).2.mSeeking = s.mSeeking) := by
  refine ⟨?_, ?_⟩ <;> simp only [readFirstVideoFrame] <;> (repeat' split) <;> first | rfl | simp_all [renderOf, noteOf]

/-! ## Steps of a run -/

/-- A property of the player after a step holds when it holds for the player
before the step, for that player marked `aborted`, and for the player after
the call when neither the process before nor the call has aborted. -/
theorem step_inv (P : Player → Prop) (s : Player) (op : Op) (hs : P s)
    (hab : P { s with aborted := true })
    (hcall : s.aborted = false → (call s op).aborted = false → P (call s op)) :
    P (step s op) := by
  unfold step
  split
  · exact hs
  · rename_i h1
    split
    · exact hab
    · rename_i h2
      exact hcall (by simpa using h1) (by simpa using h2)

/-! ## The flags `CACHE_UNDERRUN` and `INFORMED_AV_EOS` outside a cache underrun -/

theorem seekTo_l_underrun_clear (env : Env) (s : Player)
    (hcache : s.mFlags.CACHE_UNDERRUN = false) : seekTo_l_underrun env s = s := by
  simp [seekTo_l_underrun, hcache]

theorem seekTo_l_clear (env : Env) (timeUs : Int) (s : Player)
    (hc : s.mFlags.CACHE_UNDERRUN = false) :
    (seekTo_l env timeUs s).2.mFlags.INFORMED_AV_EOS = s.mFlags.INFORMED_AV_EOS ∧
    (seekTo_l env timeUs s).2.mFlags.CACHE_UNDERRUN = false := by
  simp only [seekTo_l, seekTo_l_underrun_clear env s hc]
  exact ⟨by simp, by simpa using hc⟩

theorem seekTo_clear (env : Env) (timeUs : Int) (s : Player)
    (hc : s.mFlags.CACHE_UNDERRUN = false) :
    (seekTo env timeUs s).2.mFlags.INFORMED_AV_EOS = s.mFlags.INFORMED_AV_EOS ∧
    (seekTo env timeUs s).2.mFlags.CACHE_UNDERRUN = false := by
  simp only [seekTo]
  split
  · exact seekTo_l_clear env timeUs s hc
  · exact ⟨rfl, hc⟩

theorem onStreamDone_loop_clear (env : Env) (s : Player)
    (hc : s.mFlags.CACHE_UNDERRUN = false) :
    (onStreamDone_loop env s).mFlags.INFORMED_AV_EOS = s.mFlags.INFORMED_AV_EOS ∧
    (onStreamDone_loop env s).mFlags.CACHE_UNDERRUN = false := by
  obtain ⟨h1, h2⟩ := seekTo_l_clear env 0 s hc
  simp only [onStreamDone_loop]
  split
  · exact ⟨by simpa using h1, by simpa using h2⟩
  · exact ⟨h1, h2⟩

theorem onStreamDone_clear (env : Env) (s : Player)
    (hc : s.mFlags.CACHE_UNDERRUN = false) :
    (onStreamDone env s).mFlags.CACHE_UNDERRUN = false := by
  simp only [onStreamDone]
  split
  · exact hc
  · simp only [onStreamDone_fire]
    split
    · simpa using hc
    · split
      · exact hc
      · split
        · exact (onStreamDone_loop_clear env _ (by simpa using hc)).2
        · simpa using hc

theorem pause_clear (s : Player) :
    (pause s).2.mFlags.INFORMED_AV_EOS = s.mFlags.INFORMED_AV_EOS ∧
    (pause s).2.mFlags.CACHE_UNDERRUN = false := by
  simp [pause]

theorem play_l_replay_clear (env : Env) (s : Player)
    (hc : s.mFlags.CACHE_UNDERRUN = false) :
    (play_l_replay env s).mFlags.INFORMED_AV_EOS = s.mFlags.INFORMED_AV_EOS ∧
    (play_l_replay env s).mFlags.CACHE_UNDERRUN = false := by
  simp only [play_l_replay]
  split
  · exact seekTo_l_clear env 0 s hc
  · exact ⟨rfl, hc⟩

theorem play_l_finish_clear (env : Env) (d : Bool) (s : Player)
    (hc : s.mFlags.CACHE_UNDERRUN = false) :
    (play_l_finish env d s).mFlags.INFORMED_AV_EOS = s.mFlags.INFORMED_AV_EOS ∧
    (play_l_finish env d s).mFlags.CACHE_UNDERRUN = false := by
  simp only [play_l_finish]
  split
  · exact ⟨by simp, by simpa using hc⟩
  · obtain ⟨h1, h2⟩ := play_l_replay_clear env
      (play_l_deferred d (play_l_kick (play_l_jpgRead (play_l_clock s)))) (by simpa using hc)
    simp only [play_l_post]
    exact ⟨by simpa using h1, h2⟩

theorem abortPrepare_informed (err : Status) (s : Player) :
    (abortPrepare err s).mFlags.INFORMED_AV_EOS = false := by
  simp [abortPrepare]

theorem onPrepareAsyncEvent_informed (env : Env) (s : Player)
    (h : s.mFlags.INFORMED_AV_EOS = false) :
    (onPrepareAsyncEvent env s).mFlags.INFORMED_AV_EOS = false := by
  simp only [onPrepareAsyncEvent, onPrepareAsyncEvent_decoders, onPrepareAsyncEvent_finish]
  repeat' split
  all_goals first | exact abortPrepare_informed _ _ | simpa using h

theorem prepare_l_informed (env : Env) (s : Player)
    (h : s.mFlags.INFORMED_AV_EOS = false) :
    (prepare_l env s).2.mFlags.INFORMED_AV_EOS = false := by
  simp only [prepare_l]
  repeat' split
  · exact h
  · exact h
  · exact onPrepareAsyncEvent_informed env _ (by simpa using h)

/-- After `play` the bits `INFORMED_AV_EOS` and `CACHE_UNDERRUN` are clear. -/
theorem play_clear (env : Env) (s : Player) :
    (play env s).2.mFlags.INFORMED_AV_EOS = false ∧
    (play env s).2.mFlags.CACHE_UNDERRUN = false := by
  simp only [play, play_l]
  split
  · exact ⟨rfl, rfl⟩
  · have hp : (play_l_prepare env
        { s with
          mFlags :=
            { ({ s with
                  mFlags :=
                    { s.mFlags with CACHE_UNDERRUN := false,
                                    INFORMED_AV_EOS := false } } : Player).mFlags with
              SEEK_PREVIEW := false },
          mStartNextPlayer := false }).2.mFlags.INFORMED_AV_EOS = false ∧
        (play_l_prepare env
        { s with
          mFlags :=
            { ({ s with
                  mFlags :=
                    { s.mFlags with CACHE_UNDERRUN := false,
                                    INFORMED_AV_EOS := false } } : Player).mFlags with
              SEEK_PREVIEW := false },
          mStartNextPlayer := false }).2.mFlags.CACHE_UNDERRUN = false := by
      constructor
      · simp only [play_l_prepare]
        split
        · exact prepare_l_informed env _ rfl
        · rfl
      · simp
    split
    · exact hp
    · generalize (play_l_prepare env
        { s with
          mFlags :=
            { ({ s with
                  mFlags :=
                    { s.mFlags with CACHE_UNDERRUN := false,
                                    INFORMED_AV_EOS := false } } : Player).mFlags with
              SEEK_PREVIEW := false },
          mStartNextPlayer := false }).2 = x at hp
      obtain ⟨hx1, hx2⟩ := hp
      simp only [play_l_run]
      split
      · exact ⟨by simpa using hx1, by simpa using hx2⟩
      · obtain ⟨h1, h2⟩ := play_l_finish_clear env
          (play_l_audio env
            { x with mFlags := { x.mFlags with PLAYING := true, FIRST_FRAME := true } }).2.1
          (play_l_audio env
            { x with mFlags := { x.mFlags with PLAYING := true, FIRST_FRAME := true } }).2.2
          (by simpa using hx2)
        exact ⟨by rw [h1]; simpa using hx1, h2⟩

/-- Outside a cache underrun, a call that keeps the session leaves
`CACHE_UNDERRUN` clear and, unless it is the stream-done event, leaves
`INFORMED_AV_EOS` as it is. -/
theorem call_keepsSession (s : Player) (op : Op) (h : keepsSession s op = true)
    (hc : s.mFlags.CACHE_UNDERRUN = false) :
    (call s op).mFlags.CACHE_UNDERRUN = false ∧
    ((∀ env, op ≠ Op.onStreamDone env) →
      (call s op).mFlags.INFORMED_AV_EOS = s.mFlags.INFORMED_AV_EOS) := by
  cases op with
  | play env => simp [keepsSession] at h
  | reset => simp [keepsSession] at h
  | setDataSource uri => simp [keepsSession] at h
  | prepare env =>
    simp only [keepsSession, Bool.or_eq_true] at h
    rcases h with h | h
    · simp [call, prepare, prepare_l, h, hc]
    · cases hp : s.mFlags.PREPARED <;> simp [call, prepare, prepare_l, h, hp, hc]
  | onPrepareAsyncEvent env => simp [keepsSession] at h
  | onStreamDone env =>
    exact ⟨onStreamDone_clear env s hc, fun hne => absurd rfl (hne env)⟩
  | pause => exact ⟨(pause_clear s).2, fun _ => (pause_clear s).1⟩
  | seekTo env timeUs =>
    exact ⟨(seekTo_clear env timeUs s hc).2, fun _ => (seekTo_clear env timeUs s hc).1⟩
  | prepareAsync => exact ⟨by simpa [call] using hc, fun _ => by simp [call]⟩
  | readFirstVideoFrame => exact ⟨by simpa [call] using hc, fun _ => by simp [call]⟩
  | setAudioPlayer ap => exact ⟨by simpa [call] using hc, fun _ => by simp [call]⟩
  | onVideoEvent env => exact ⟨by simpa [call] using hc, fun _ => by simp [call]⟩
  | onCheckAudioStatus env => exact ⟨by simpa [call] using hc, fun _ => by simp [call]⟩
  | onProgressCbEvent => exact ⟨by simpa [call] using hc, fun _ => by simp [call]⟩
  | onUpdateOverlayEvent => exact ⟨by simpa [call] using hc, fun _ => by simp [call]⟩
  | postAudioEOS d => exact ⟨by simpa [call] using hc, fun _ => by simp [call]⟩
  | postAudioSeekComplete => exact ⟨by simpa [call] using hc, fun _ => by simp [call]⟩

/-! # C1: rendered frames and the cut times -/

/-! ## The render call of a video event -/

theorem setBit_same (m : EffectMask) (k : VideoEffect) : setBit m k (m k) = m := by
  funext x
  simp only [setBit]
  split <;> simp_all

theorem setVideoPostProcessingNode_mask (type : VideoEffectType) (enable : Bool) (s : Player) :
    (setVideoPostProcessingNode type enable s).mCurrentVideoEffect =
      match effectOfType type with
      | none => s.mCurrentVideoEffect
      | some effect => setBit s.mCurrentVideoEffect effect enable := by
  simp only [setVideoPostProcessingNode]
  cases effectOfType type with
  | none => rfl
  | some effect =>
    cases enable <;> cases h : s.mCurrentVideoEffect effect <;> simp [h]
    · rw [← h, setBit_same]
    · rw [← h, setBit_same]

theorem applyEffect_mask (timeUs : Int) (s : Player) (e : EffectSettings) :
    (applyEffect timeUs s e).mCurrentVideoEffect = maskStep timeUs s.cfg s.mCurrentVideoEffect e := by
  simp only [applyEffect, maskStep]
  split
  · rw [setVideoPostProcessingNode_mask]
  · rfl

theorem foldl_applyEffect_mask (timeUs : Int) (l : List EffectSettings) (s : Player) :
    (l.foldl (applyEffect timeUs) s).mCurrentVideoEffect =
      l.foldl (maskStep timeUs s.cfg) s.mCurrentVideoEffect := by
  induction l generalizing s with
  | nil => rfl
  | cons e es ih =>
    simp only [List.foldl_cons]
    rw [ih, applyEffect_mask]
    simp

theorem applyEffects_mask (timeUs : Int) (s : Player) :
    (applyEffects timeUs s).mCurrentVideoEffect =
      s.cfg.mEffectsSettings.foldl (maskStep timeUs s.cfg) s.mCurrentVideoEffect := by
  simp only [applyEffects]
  exact foldl_applyEffect_mask _ _ _

theorem overlayUpdate_mask (s : Player) :
    (overlayUpdate s).mCurrentVideoEffect = setBit s.mCurrentVideoEffect VideoEffect.FRAMING false := by
  simp only [overlayUpdate, overlayUpdate_framing]
  repeat' split
  all_goals first
    | rfl
    | simp
    | skip
  all_goals
    rename_i h _
    have h2 : s.mCurrentVideoEffect VideoEffect.FRAMING = false := by simpa using h
    rw [← h2, setBit_same]

theorem renderFrame_renders (b : MediaBuffer) (s : Player) :
    renders (renderFrame b s).trace =
      renders s.trace ++ (if s.mVideoRenderer then [(b.timeUs, s.mCurrentVideoEffect)] else []) := by
  simp only [renderFrame]
  split <;> simp [renderOf]

theorem renderAndAdvance_renders (wasSeeking : SeekType) (b : MediaBuffer) (s : Player) :
    renders (renderAndAdvance wasSeeking b s).trace =
      renders s.trace ++
        (if s.mVideoRenderer then [(b.timeUs, frameMask b.timeUs s.cfg s.mCurrentVideoEffect)]
          else []) := by
  simp only [renderAndAdvance]
  simp [renderFrame_renders, overlayUpdate_mask, applyEffects_mask, frameMask]

theorem rendersFrame_of_same {b : MediaBuffer} {s s' t : Player} (hc : s'.cfg = s.cfg)
    (hm : s'.mCurrentVideoEffect = s.mCurrentVideoEffect)
    (hr : renders s'.trace = renders s.trace) (h : RendersFrame b s' t) : RendersFrame b s t := by
  simpa [RendersFrame, hc, hm, hr] using h

theorem renderStage_rendersFrame (wasSeeking : SeekType) (b : MediaBuffer) (s : Player) :
    RendersFrame b s (renderStage wasSeeking b s) := by
  simp only [renderStage, RendersFrame]
  split
  · left; simp [dropPastEnd, renderOf]
  · rename_i h
    simp only [renderAndAdvance_renders]
    split
    · right
      exact ⟨by simpa using h, by simp⟩
    · left; simp

theorem avSync_rendersFrame (env : Env) (wasSeeking : SeekType) (b : MediaBuffer) (s : Player) :
    RendersFrame b s (avSync env wasSeeking b s) := by
  simp only [avSync]
  split
  · exact renderStage_rendersFrame _ _ _
  · simp only [avSync_decide]
    split
    · left; simp [dropLate, renderOf]
    · split
      · left; simp [waitEarly]
      · exact rendersFrame_of_same (by simp) (by simp) (by simp) (renderStage_rendersFrame _ _ _)

theorem processFrame_rendersFrame (env : Env) (b : MediaBuffer) (s : Player) :
    RendersFrame b s (processFrame env b s) := by
  simp only [processFrame, processFrame_seek]
  split
  · left; simp
  · simp only [processFrame_sync]
    split
    · left; simp [renderOf]
    · exact rendersFrame_of_same (by simp) (by simp) (by simp) (avSync_rendersFrame _ _ _ _)

theorem onVideoEvent_rendersFrame (env : Env) (s : Player) :
    renders (onVideoEvent env s).trace = renders s.trace ∨
      ∃ b, (frameState s).mVideoBuffer = some b ∧ RendersFrame b s (onVideoEvent env s) := by
  simp only [onVideoEvent]
  split
  · left; rfl
  · split
    · left; rfl
    · split
      · left; simp
      · rename_i b hb
        right
        exact ⟨b, hb, rendersFrame_of_same (by simp) (by simp) (by simp)
          (processFrame_rendersFrame env b (frameState s))⟩

/-! ## The frame that a video event works on -/

theorem skipBuffer_congr (b : MediaBuffer) {s t : Player} (hc : t.cfg = s.cfg)
    (hs : t.mSeeking = s.mSeeking) (ht : t.mSeekTimeUs = s.mSeekTimeUs) :
    skipBuffer b t = skipBuffer b s := by
  simp [skipBuffer, hc, hs, ht]

theorem readVideoLoop_buffer (reads : List ReadResult) (s : Player) (b : MediaBuffer)
    (hnone : s.mVideoBuffer = none) (h : (readVideoLoop reads s).mVideoBuffer = some b) :
    skipBuffer b s = false := by
  induction reads generalizing s with
  | nil => simp [readVideoLoop, hnone] at h
  | cons r rest ih =>
    cases r with
    | buffer b0 =>
      simp only [readVideoLoop] at h
      split at h
      · rw [← skipBuffer_congr b (s := s) (t := emit (Action.release b0.timeUs) s)
          (by simp) (by simp) (by simp)]
        exact ih _ (by simpa using hnone) h
      · split at h
        · rw [← skipBuffer_congr b (s := s) (t := emit (Action.release b0.timeUs) s)
            (by simp) (by simp) (by simp)]
          exact ih _ (by simpa using hnone) h
        · rename_i hskip
          simp at h
          subst h
          simpa using hskip
    | formatChanged w h' =>
      simp only [readVideoLoop] at h
      rw [← skipBuffer_congr b (s := s) (t := onFormatChanged w h' s) (by simp) (by simp) (by simp)]
      exact ih _ (by simpa using hnone) h
    | endOfStream => simp [readVideoLoop, hnone] at h
    | error code => simp [readVideoLoop, hnone] at h

theorem frameState_buffer (s : Player) (b : MediaBuffer)
    (h : (frameState s).mVideoBuffer = some b) :
    s.mVideoBuffer = some b ∨ (s.mVideoBuffer = none ∧ skipBuffer b s = false) := by
  simp only [frameState, fetchFrame] at h
  split at h
  · left; simpa using h
  · rename_i hnone
    right
    have hnone' : s.mVideoBuffer = none := by simpa using hnone
    refine ⟨hnone', ?_⟩
    split at h
    · rw [← skipBuffer_congr b (s := s)
        (t := pauseAudioForSeek { s with mVideoEventPending := false })
        (by simp) (by simp) (by simp)]
      exact readVideoLoop_buffer _ _ _ (by simpa using hnone') h
    · simp [hnone'] at h

/-- C1, as amended: a video event passes at most one frame to the renderer; that
frame is not past the end cut time; it is the frame held before the event, or
it was read in this event and is then not before the begin cut time when no
seek is in progress, and not before the seek time when one is. -/
theorem rendered_frame_within_cut (env : Env) (s : Player) :
    renderedTimes (onVideoEvent env s).trace = renderedTimes s.trace ∨
    ∃ b : MediaBuffer,
      renderedTimes (onVideoEvent env s).trace = renderedTimes s.trace ++ [b.timeUs] ∧
      Int.tdiv b.timeUs 1000 ≤ (s.cfg.mPlayEndTimeMsec : Int) ∧
      (s.mVideoBuffer = some b ∨
        (s.mVideoBuffer = none ∧ s.mSeeking = SeekType.NO_SEEK ∧
          (s.cfg.mPlayBeginTimeMsec : Int) ≤ Int.tdiv b.timeUs 1000) ∨
        (s.mVideoBuffer = none ∧ s.mSeeking ≠ SeekType.NO_SEEK ∧ s.mSeekTimeUs ≤ b.timeUs)) := by
  rcases onVideoEvent_rendersFrame env s with h | ⟨b, hb, h | ⟨hend, h⟩⟩
  · left; simp [renderedTimes, h]
  · left; simp [renderedTimes, h]
  · right
    refine ⟨b, by simp [renderedTimes, h], hend, ?_⟩
    rcases frameState_buffer s b hb with h1 | ⟨h1, h2⟩
    · left; exact h1
    · right
      simp only [skipBuffer] at h2
      split at h2
      · right; exact ⟨h1, by assumption, by simpa using h2⟩
      · rename_i hs
        left; exact ⟨h1, by simpa using hs, by simpa using h2⟩

/-- Counterexample to C1 as stated: with the begin cut at 1000 ms, a seek to 0
makes the next video event render the frame at 500 ms. -/
theorem seek_renders_frame_before_begin_cut :
    seekBeforeBeginCut.cfg.mPlayBeginTimeMsec = 1000 ∧
    renderedTimes seekBeforeBeginCut.trace = [500000] ∧
    ¬ ((seekBeforeBeginCut.cfg.mPlayBeginTimeMsec : Int) ≤ Int.tdiv 500000 1000) := by
  decide

/-! # C2: the frame rendered after a seek -/

/-- C2 fails in the code: `seekTo(5000000)` is accepted while the frame at
100 ms is held; the next video event renders that frame, which is before the
seek target. -/
theorem held_frame_rendered_after_seek :
    seekWithHeldFrame.mSeeking = SeekType.SEEK ∧
    seekWithHeldFrame.mSeekTimeUs = 5000000 ∧
    seekWithHeldFrame.mVideoBuffer = some { timeUs := 100000, rangeLength := 1 } ∧
    renderedTimes (newActions seekWithHeldFrame (onVideoEvent (atTime 27000) seekWithHeldFrame)) =
      [100000] ∧
    ¬ ((5000000 : Int) ≤ 100000) := by
  decide

/-! # C3: `MEDIA_PLAYBACK_COMPLETE` within a session -/

/-! ## `MEDIA_PLAYBACK_COMPLETE` and `INFORMED_AV_EOS` -/

theorem onStreamDone_inform_budget (s : Player) :
    completionBudget (onStreamDone_inform s) = completionBudget s := by
  simp only [completionBudget, onStreamDone_inform]
  split <;> simp_all [noteOf]

theorem onStreamDone_budget (env : Env) (s : Player)
    (hc : s.mFlags.CACHE_UNDERRUN = false) :
    completionBudget (onStreamDone env s) = completionBudget s := by
  simp only [onStreamDone]
  split
  · rfl
  · simp only [onStreamDone_fire]
    split
    · simp [completionBudget, onStreamDone_error, noteOf]
    · split
      · simp [completionBudget]
      · split
        · have h1 := (onStreamDone_loop_clear env
            { s with mStreamDoneEventPending := false } (by simpa using hc)).1
          simp only [completionBudget, h1]
          simp
        · rw [onStreamDone_inform_budget]
          simp [completionBudget]

theorem call_budget (s : Player) (op : Op) (h : keepsSession s op = true)
    (hc : s.mFlags.CACHE_UNDERRUN = false) :
    completionBudget (call s op) = completionBudget s := by
  have hk := (call_keepsSession s op h hc).2
  cases op with
  | play env => simp [keepsSession] at h
  | reset => simp [keepsSession] at h
  | setDataSource uri => simp [keepsSession] at h
  | onPrepareAsyncEvent env => simp [keepsSession] at h
  | onStreamDone env => exact onStreamDone_budget env s hc
  | prepare env =>
    simp only [keepsSession, Bool.or_eq_true] at h
    rcases h with h | h
    · simp [call, prepare, prepare_l, h]
    · cases hp : s.mFlags.PREPARED <;> simp [call, prepare, prepare_l, h, hp]
  | pause => simp only [completionBudget, hk (by simp)]; simp [call]
  | seekTo env timeUs => simp only [completionBudget, hk (by simp)]; simp [call]
  | prepareAsync => simp only [completionBudget, hk (by simp)]; simp [call]
  | readFirstVideoFrame => simp only [completionBudget, hk (by simp)]; simp [call]
  | setAudioPlayer ap => simp only [completionBudget, hk (by simp)]; simp [call]
  | onVideoEvent env => simp only [completionBudget, hk (by simp)]; simp [call]
  | onCheckAudioStatus env => simp only [completionBudget, hk (by simp)]; simp [call]
  | onProgressCbEvent => simp only [completionBudget, hk (by simp)]; simp [call]
  | onUpdateOverlayEvent => simp only [completionBudget, hk (by simp)]; simp [call]
  | postAudioEOS d => simp only [completionBudget, hk (by simp)]; simp [call]
  | postAudioSeekComplete => simp only [completionBudget, hk (by simp)]; simp [call]

theorem step_budget (s : Player) (op : Op) (h : keepsSession s op = true)
    (hc : s.mFlags.CACHE_UNDERRUN = false) :
    completionBudget (step s op) = completionBudget s ∧
    (step s op).mFlags.CACHE_UNDERRUN = false :=
  step_inv
    (fun t => completionBudget t = completionBudget s ∧ t.mFlags.CACHE_UNDERRUN = false)
    s op ⟨rfl, hc⟩ ⟨rfl, hc⟩
    (fun _ _ => ⟨call_budget s op h hc, (call_keepsSession s op h hc).1⟩)

theorem run_budget (ops : List Op) (s : Player) (h : sessionRun s ops = true)
    (hc : s.mFlags.CACHE_UNDERRUN = false) :
    completionBudget (run s ops) = completionBudget s := by
  induction ops generalizing s with
  | nil => rfl
  | cons op ops ih =>
    simp only [sessionRun, Bool.and_eq_true] at h
    have h1 := step_budget s op h.1 hc
    have h2 := ih (step s op) h.2 h1.2
    simp only [run, List.foldl_cons] at h2 ⊢
    rw [h2, h1.1]

theorem play_budget (env : Env) (s : Player) :
    completionBudget (play env s).2 = playbackCompleteCount s.trace + 1 := by
  simp [completionBudget, (play_clear env s).1]

/-- C3, as amended: after a `play` call, a run of operations and event handlers
that holds no `play`, `reset`, `setDataSource` or prepare event, and in which
every `prepare` finds the player prepared or preparing, notifies at most one
`MEDIA_PLAYBACK_COMPLETE`. -/
theorem playback_complete_at_most_once (env : Env) (s : Player) (ops : List Op)
    (h : sessionRun (play env s).2 ops = true) :
    playbackCompleteCount (run (play env s).2 ops).trace ≤ playbackCompleteCount s.trace + 1 := by
  have h1 := run_budget ops (play env s).2 h (play_clear env s).2
  rw [play_budget] at h1
  simp only [completionBudget] at h1
  omega

theorem playback_complete_at_most_once_witness :
    playbackCompleteCount
        (run (play {} (preparedClip 0 1000 [frameAt 1000000])).2
          [Op.onVideoEvent (atTime 1000), Op.onStreamDone {}, Op.prepare {},
            Op.onVideoEvent (atTime 2000), Op.onStreamDone {}]).trace = 1 ∧
    playbackCompleteCount
        (run (play {} (preparedClip 0 1000 [frameAt 1000000])).2
          [Op.onVideoEvent (atTime 1000), Op.onStreamDone {}, Op.prepare {},
            Op.onVideoEvent (atTime 2000), Op.onStreamDone {}]).trace ≤
      playbackCompleteCount (preparedClip 0 1000 [frameAt 1000000]).trace + 1 :=
  ⟨by decide,
    playback_complete_at_most_once {} (preparedClip 0 1000 [frameAt 1000000])
      [Op.onVideoEvent (atTime 1000), Op.onStreamDone {}, Op.prepare {},
        Op.onVideoEvent (atTime 2000), Op.onStreamDone {}] (by decide)⟩

/-- Counterexample to C3 as stated: after `play`, with no further `play`, the
operations `completeThenReload` notify `MEDIA_PLAYBACK_COMPLETE` twice, and so
do the operations `completeThenPrepare`, which hold no `play`, `reset` or
`setDataSource`: the prepare event of the base class, which aborts, clears the
bit 2048 under its name `PREPARING_CONNECTED`. -/
theorem completion_repeats_without_play :
    (∀ op ∈ completeThenReload, ∀ env : Env, op ≠ Op.play env) ∧
    playbackCompleteCount
      (newActions playingShortClip (run playingShortClip completeThenReload)) = 2 ∧
    (∀ op ∈ completeThenPrepare, ∀ env : Env,
      op ≠ Op.play env ∧ op ≠ Op.reset ∧ ∀ uri, op ≠ Op.setDataSource uri) ∧
    (run playingShortClip (completeThenPrepare.take 2)).mFlags.INFORMED_AV_EOS = true ∧
    (run playingShortClip (completeThenPrepare.take 4)).mFlags.INFORMED_AV_EOS = false ∧
    playbackCompleteCount
      (newActions playingShortClip (run playingShortClip completeThenPrepare)) = 2 := by
  refine ⟨?_, by decide, ?_, by decide, by decide, by decide⟩
  · intro op h env
    simp only [completeThenReload, List.mem_cons, List.mem_singleton, List.mem_nil_iff,
      or_false] at h
    rcases h with h | h | h | h | h | h <;> subst h <;> simp
  · intro op h env
    simp only [completeThenPrepare, List.mem_cons, List.mem_singleton, List.mem_nil_iff,
      or_false] at h
    rcases h with h | h | h | h | h | h <;> subst h <;> simp

/-! # C4: the effect mask handed to the renderer -/

theorem maskStep_bit (timeUs : Int) (c : Config) (m : EffectMask) (e : EffectSettings)
    (k : VideoEffect) :
    maskStep timeUs c m e k =
      if effectBelongsToClip e c && decide (effectOfType e.VideoEffectType = some k) then
        effectAppliesToFrame e timeUs c
      else m k := by
  simp only [maskStep]
  cases hb : effectBelongsToClip e c
  · simp
  · cases ht : effectOfType e.VideoEffectType with
    | none => simp
    | some k' =>
      by_cases hk : k' = k
      · subst hk; simp [setBit]
      · have hk' : ¬ k = k' := fun h => hk h.symm
        simp [setBit, hk, hk']

theorem foldl_maskStep_bit (timeUs : Int) (c : Config) (k : VideoEffect)
    (l : List EffectSettings) (m : EffectMask) :
    (l.foldl (maskStep timeUs c) m) k =
      match (effectsOfKind k c l).getLast? with
      | none => m k
      | some e => effectAppliesToFrame e timeUs c := by
  induction l generalizing m with
  | nil => simp [effectsOfKind]
  | cons e es ih =>
    simp only [List.foldl_cons]
    rw [ih, maskStep_bit]
    simp only [effectsOfKind, List.filter_cons]
    cases hp : (effectBelongsToClip e c && decide (effectOfType e.VideoEffectType = some k))
    · simp
    · simp only [if_true]
      cases hl : List.filter
          (fun e => effectBelongsToClip e c && decide (effectOfType e.VideoEffectType = some k)) es with
      | nil => simp
      | cons x xs => simp [List.getLast?_cons_cons, List.getLast?_eq_getLast, List.getLast?]

theorem frameMask_framing (timeUs : Int) (c : Config) (m : EffectMask) :
    frameMask timeUs c m VideoEffect.FRAMING = false := by
  simp [frameMask, setBit]

theorem onVideoEvent_render_mask (env : Env) (s : Player) (t : Int) (m : EffectMask)
    (hr : renders (onVideoEvent env s).trace = renders s.trace ++ [(t, m)]) :
    m = frameMask t s.cfg s.mCurrentVideoEffect ∧ Int.tdiv t 1000 ≤ (s.cfg.mPlayEndTimeMsec : Int) := by
  rcases onVideoEvent_rendersFrame env s with h | ⟨b, _, h | ⟨hend, h⟩⟩
  · rw [h] at hr
    have := congrArg List.length hr
    simp at this
  · rw [h] at hr
    have := congrArg List.length hr
    simp at this
  · rw [h] at hr
    have h2 := List.append_cancel_left hr
    simp only [List.cons.injEq, and_true, Prod.mk.injEq] at h2
    obtain ⟨h3, h4⟩ := h2
    subst h3
    exact ⟨h4.symm, hend⟩

/-- Scenario S4: with storyboard offset 0, cut times 0 and 3000 ms, the sepia
effect from 1000 ms for 1000 ms as the only effect and no bit other than sepia
set before the event, a frame is rendered with the sepia bit alone when its
time is in 1000..2000 ms, and with the mask 0 otherwise. -/
theorem sepia_window_instance (env : Env) (s : Player) (t : Int) (m : EffectMask)
    (hoff : s.cfg.mDecVideoTsStoryBoard = 0) (hbegin : s.cfg.mPlayBeginTimeMsec = 0)
    (hend : s.cfg.mPlayEndTimeMsec = 3000) (heff : s.cfg.mEffectsSettings = [sepiaEffect])
    (hmask : ∀ k, k ≠ VideoEffect.SEPIA → s.mCurrentVideoEffect k = false)
    (hr : renders (onVideoEvent env s).trace = renders s.trace ++ [(t, m)]) :
    m = if 1000 ≤ Int.tdiv t 1000 ∧ Int.tdiv t 1000 ≤ 2000 then
          setBit VIDEO_EFFECT_NONE VideoEffect.SEPIA true
        else VIDEO_EFFECT_NONE := by
  obtain ⟨hm, _⟩ := onVideoEvent_render_mask env s t m hr
  subst hm
  funext k
  have happ : effectAppliesToFrame sepiaEffect t s.cfg =
      decide (1000 ≤ Int.tdiv t 1000 ∧ Int.tdiv t 1000 ≤ 2000) := by
    simp [effectAppliesToFrame, frameStoryboardMs, hoff, hbegin, sepiaEffect, UINT32, Bool.and_comm]
  have hbel : effectBelongsToClip sepiaEffect s.cfg = true := by
    simp [effectBelongsToClip, clipWindowEnd, UINT64, hoff, hbegin, hend, sepiaEffect]
  by_cases hk : k = VideoEffect.SEPIA
  · subst hk
    simp only [frameMask, heff, List.foldl_cons, List.foldl_nil, maskStep, hbel, happ]
    by_cases hwin : 1000 ≤ Int.tdiv t 1000 ∧ Int.tdiv t 1000 ≤ 2000
    · simp [hwin, setBit, sepiaEffect, effectOfType]
    · simp [hwin, setBit, sepiaEffect, effectOfType, VIDEO_EFFECT_NONE]
  · have h0 := hmask k hk
    simp only [frameMask, heff, List.foldl_cons, List.foldl_nil, maskStep, hbel, happ]
    by_cases hwin : 1000 ≤ Int.tdiv t 1000 ∧ Int.tdiv t 1000 ≤ 2000
    · simp [hwin, setBit, sepiaEffect, effectOfType, hk, h0, VIDEO_EFFECT_NONE]
    · simp [hwin, setBit, sepiaEffect, effectOfType, hk, h0, VIDEO_EFFECT_NONE]

theorem pause_l_not_playing (at_eos : Bool) (s : Player) :
    (pause_l at_eos s).2.mFlags.PLAYING = false := by
  simp only [pause_l]
  split
  · simp_all
  · simp only [pause_l_stop]
    split <;> simp

theorem seekTo_l_body_not_atEos (timeUs : Int) (s : Player) :
    (seekTo_l_body timeUs s).2.mFlags.AT_EOS = false := by
  simp [seekTo_l_body, seekTo_l_record]

theorem seekTo_l_not_atEos (env : Env) (timeUs : Int) (s : Player) :
    (seekTo_l env timeUs s).2.mFlags.AT_EOS = false := by
  simp only [seekTo_l]
  exact seekTo_l_body_not_atEos _ _

theorem play_l_replay_not_atEos (env : Env) (s : Player) :
    (play_l_replay env s).mFlags.AT_EOS = false := by
  simp only [play_l_replay]
  split
  · exact seekTo_l_not_atEos _ _ _
  · simp_all

theorem play_l_audio_failed (env : Env) (s : Player) (h : (play_l_audio env s).1 ≠ Status.OK) :
    (play_l_audio env s).2.2.mFlags.PLAYING = false := by
  revert h
  simp only [play_l_audio, play_l_newAudioPlayer, play_l_sharedAudioPlayer, play_l_source,
    play_l_changeSource]
  repeat' split
  all_goals simp_all

theorem play_l_atEosNotPlaying (env : Env) (s : Player) (h : AtEosNotPlaying s)
    (hna : (play_l env s).2.aborted = false) :
    AtEosNotPlaying (play_l env s).2 := by
  unfold AtEosNotPlaying at *
  revert hna
  simp only [play_l]
  split
  · intro _
    simpa using h
  · rename_i hp
    split
    · rename_i hr
      intro _ _
      simpa using hp
    · simp only [play_l_run]
      split
      · intro _ _
        exact play_l_audio_failed _ _ (by assumption)
      · simp only [play_l_finish]
        split
        · rename_i hab
          intro hna
          rw [hab] at hna
          cases hna
        · intro _ h2
          simp [play_l_post, play_l_replay_not_atEos] at h2

theorem onStreamDone_atEosNotPlaying (env : Env) (s : Player) (h : AtEosNotPlaying s) :
    AtEosNotPlaying (onStreamDone env s) := by
  unfold AtEosNotPlaying at *
  simp only [onStreamDone]
  split
  · exact h
  · simp only [onStreamDone_fire]
    split
    · intro _
      simp only [onStreamDone_error]
      exact pause_l_not_playing _ _
    · split
      · simpa using h
      · split
        · intro h2
          simp only [onStreamDone_loop] at h2
          split at h2
          · simp [seekTo_l_not_atEos] at h2
          · simp [seekTo_l_not_atEos] at h2
        · intro _
          simp only [onStreamDone_inform]
          split
          · exact pause_l_not_playing _ _
          · exact pause_l_not_playing _ _

theorem step_atEosNotPlaying (s : Player) (op : Op) (h : AtEosNotPlaying s) :
    AtEosNotPlaying (step s op) := by
  refine step_inv AtEosNotPlaying s op h h (fun _ hna => ?_)
  cases op with
  | play env =>
    apply play_l_atEosNotPlaying
    · simpa [AtEosNotPlaying] using h
    · exact hna
  | pause =>
    intro _
    exact pause_l_not_playing _ _
  | seekTo env timeUs =>
    simp only [call, seekTo]
    split
    · intro h2
      simp [seekTo_l_not_atEos] at h2
    · exact h
  | reset => simp [call, AtEosNotPlaying, reset, reset_l, reset_fields]
  | setDataSource uri => simp [call, AtEosNotPlaying, setDataSource, reset_l, reset_fields]
  | onStreamDone env => exact onStreamDone_atEosNotPlaying env s h
  | prepare env => simpa [call, AtEosNotPlaying] using h
  | prepareAsync => simpa [call, AtEosNotPlaying] using h
  | readFirstVideoFrame => simpa [call, AtEosNotPlaying] using h
  | setAudioPlayer ap => simpa [call, AtEosNotPlaying] using h
  | onVideoEvent env => simpa [call, AtEosNotPlaying] using h
  | onCheckAudioStatus env => simpa [call, AtEosNotPlaying] using h
  | onProgressCbEvent => simpa [call, AtEosNotPlaying] using h
  | onUpdateOverlayEvent => simpa [call, AtEosNotPlaying] using h
  | onPrepareAsyncEvent env => simpa [call, AtEosNotPlaying] using h
  | postAudioEOS d => simpa [call, AtEosNotPlaying] using h
  | postAudioSeekComplete => simpa [call, AtEosNotPlaying] using h

theorem run_atEosNotPlaying (ops : List Op) (s : Player) (h : AtEosNotPlaying s) :
    AtEosNotPlaying (run s ops) := by
  induction ops generalizing s with
  | nil => exact h
  | cons op ops ih => exact ih _ (step_atEosNotPlaying s op h)

/-- C5: in every state reached from a freshly reset player by any sequence of
operations and event handlers, `AT_EOS` implies that `PLAYING` is clear. -/
theorem atEos_implies_not_playing (s₀ : Player) (ops : List Op) :
    (run (reset s₀) ops).mFlags.AT_EOS = true → (run (reset s₀) ops).mFlags.PLAYING = false :=
  run_atEosNotPlaying ops (reset s₀) (by simp [AtEosNotPlaying, reset, reset_l, reset_fields])

theorem atEos_implies_not_playing_witness :
    (run (reset (setPlaybackEndTime 1000 (setPlaybackBeginTime 1000 (setSurface {}))))
        [Op.setDataSource { size := 9 }, Op.prepare (clipEnv [frameAt 1000000]), Op.play {},
          Op.onVideoEvent (atTime 1000), Op.onStreamDone {}]).mFlags.AT_EOS = true ∧
    (run (reset (setPlaybackEndTime 1000 (setPlaybackBeginTime 1000 (setSurface {}))))
        [Op.setDataSource { size := 9 }, Op.prepare (clipEnv [frameAt 1000000]), Op.play {},
          Op.onVideoEvent (atTime 1000), Op.onStreamDone {}]).mFlags.PLAYING = false :=
  ⟨by decide,
    atEos_implies_not_playing (setPlaybackEndTime 1000 (setPlaybackBeginTime 1000 (setSurface {})))
      [Op.setDataSource { size := 9 }, Op.prepare (clipEnv [frameAt 1000000]), Op.play {},
        Op.onVideoEvent (atTime 1000), Op.onStreamDone {}] (by decide)⟩

/-! # C6: `prepare` on a prepared or preparing player -/

theorem abortPrepare_result (err : Status) (s : Player) :
    (abortPrepare err s).mPrepareResult = err := by
  simp [abortPrepare]

theorem finishAsyncPrepare_l_prepared (s : Player) :
    (finishAsyncPrepare_l s).mFlags.PREPARED = true := by
  simp [finishAsyncPrepare_l]

theorem onPrepareAsyncEvent_prepared (env : Env) (s : Player)
    (h : (onPrepareAsyncEvent env s).mPrepareResult = Status.OK) :
    (onPrepareAsyncEvent env s).mFlags.PREPARED = true := by
  simp only [onPrepareAsyncEvent, onPrepareAsyncEvent_decoders, onPrepareAsyncEvent_finish] at h ⊢
  split at h
  · simp [abortPrepare_result] at h
  · split at h
    · rename_i h1
      rw [abortPrepare_result] at h
      exact absurd h h1
    · split at h
      · rename_i h1
        rw [abortPrepare_result] at h
        exact absurd h h1
      · split at h
        · rename_i h1
          rw [abortPrepare_result] at h
          exact absurd h h1
        · simp [*, finishAsyncPrepare_l_prepared]

theorem prepare_ok_prepared (env : Env) (s : Player) (h : (prepare env s).1 = Status.OK) :
    (prepare env s).2.mFlags.PREPARED = true := by
  simp only [prepare, prepare_l] at h ⊢
  split
  · assumption
  · split
    · rename_i h1 h2
      simp [h1, h2] at h
    · rename_i h1 h2
      simp only [h1, h2] at h
      exact onPrepareAsyncEvent_prepared _ _ (by simpa using h)

/-- C6, as amended: `prepare` on a player that is `PREPARED` returns `OK` and
leaves the player as it is; on a player that is `PREPARING` and not `PREPARED`
it returns `UNKNOWN_ERROR` and leaves the player as it is; and after a `prepare`
that returned `OK`, a second `prepare` returns `OK` and changes nothing. -/
theorem prepare_when_prepared_or_preparing (env env2 : Env) (s : Player) :
    (s.mFlags.PREPARED = true → prepare env s = (Status.OK, s)) ∧
    (s.mFlags.PREPARED = false → s.mFlags.PREPARING = true →
      prepare env s = (Status.UNKNOWN_ERROR, s)) ∧
    ((prepare env s).1 = Status.OK →
      prepare env2 (prepare env s).2 = (Status.OK, (prepare env s).2)) := by
  have h1 : ∀ (e : Env) (t : Player), t.mFlags.PREPARED = true → prepare e t = (Status.OK, t) := by
    intro e t h
    simp [prepare, prepare_l, h]
  refine ⟨h1 env s, ?_, fun h => h1 env2 _ (prepare_ok_prepared env s h)⟩
  intro hp hq
  simp [prepare, prepare_l, hp, hq]

/-- The three cases of C6 on concrete players: a prepared clip, a clip in the
middle of an asynchronous prepare, and a clip whose `prepare` succeeds. -/
theorem prepare_when_prepared_or_preparing_witness :
    prepare {} (preparedClip 0 3000 [frameAt 0]) = (Status.OK, preparedClip 0 3000 [frameAt 0]) ∧
    prepare {} preparingClip = (Status.UNKNOWN_ERROR, preparingClip) ∧
    prepare {} (prepare (clipEnv [frameAt 0]) unpreparedClip).2 =
      (Status.OK, (prepare (clipEnv [frameAt 0]) unpreparedClip).2) :=
  ⟨(prepare_when_prepared_or_preparing {} {} _).1 (by decide),
    (prepare_when_prepared_or_preparing {} {} _).2.1 (by decide) (by decide),
    (prepare_when_prepared_or_preparing (clipEnv [frameAt 0]) {} _).2.2 (by decide)⟩

/-- Counterexample to C6 as stated: after a `prepare` that failed, a second
`prepare` is not a no-op, it posts the prepare event again; and `prepare` on a
player that is `PREPARING` and also `PREPARED` returns `OK`, not an error. -/
theorem prepare_repeats_after_failure :
    (prepare noSourceEnv unpreparedClip).1 = Status.UNKNOWN_ERROR ∧
    newActions (prepare noSourceEnv unpreparedClip).2
        (prepare noSourceEnv (prepare noSourceEnv unpreparedClip).2).2 =
      [Action.post Event.asyncPrepare 0] ∧
    (prepare noSourceEnv (prepare noSourceEnv unpreparedClip).2).2.trace ≠
      (prepare noSourceEnv unpreparedClip).2.trace ∧
    prepareThenPrepareAsync.mFlags.PREPARING = true ∧
    (prepare {} prepareThenPrepareAsync).1 = Status.OK := by
  decide

/-! # C7: `PREPARED` and `PREPARING` -/

/-- C7 fails in the code: `prepareAsync` on a prepared player returns `OK` and
leaves `PREPARED` and `PREPARING` both set. -/
theorem prepareAsync_on_prepared_sets_both :
    (preparedClip 0 3000 [frameAt 0]).mFlags.PREPARED = true ∧
    (PreviewPlayerBase.prepareAsync (preparedClip 0 3000 [frameAt 0])).1 = Status.OK ∧
    prepareThenPrepareAsync.mFlags.PREPARED = true ∧
    prepareThenPrepareAsync.mFlags.PREPARING = true := by
  decide

/-! # C8 and C9: late and early frames -/

/-! ## The AV-sync test -/

theorem readVideoLoop_seeking (reads : List ReadResult) (s : Player) (b : MediaBuffer)
    (hnone : s.mVideoBuffer = none) (h : (readVideoLoop reads s).mVideoBuffer = some b) :
    (readVideoLoop reads s).mSeeking = s.mSeeking := by
  induction reads generalizing s with
  | nil => simp [readVideoLoop, hnone] at h
  | cons r rest ih =>
    cases r with
    | buffer b0 =>
      simp only [readVideoLoop] at h ⊢
      split
      · rename_i h0
        simp only [h0, if_true] at h
        rw [ih _ (by simpa using hnone) h]
        simp
      · rename_i h0
        simp only [h0, if_false] at h
        split
        · rename_i h1
          simp only [h1, if_true] at h
          rw [ih _ (by simpa using hnone) h]
          simp
        · simp [setReads]
    | formatChanged w h' =>
      simp only [readVideoLoop] at h ⊢
      rw [ih _ (by simpa using hnone) h]
      simp
    | endOfStream => simp [readVideoLoop, hnone] at h
    | error code => simp [readVideoLoop, hnone] at h

theorem frameState_seeking (s : Player) (b : MediaBuffer)
    (h : (frameState s).mVideoBuffer = some b) : (frameState s).mSeeking = s.mSeeking := by
  simp only [frameState, fetchFrame] at h ⊢
  split
  · simp
  · rename_i hnone
    simp only [hnone, if_false] at h
    split
    · rename_i v hv
      simp only [hv] at h
      rw [readVideoLoop_seeking _ _ b (by simpa using hnone) h]
      simp
    · simp

theorem frameState_notPending (s : Player) : (frameState s).mVideoEventPending = false := by
  simp [frameState]

theorem syncState_notPending (env : Env) (b : MediaBuffer) (s : Player) :
    (syncState env b s).mVideoEventPending = false := by
  simp [syncState, syncInput, frameState_notPending]

theorem syncState_buffer (env : Env) (b : MediaBuffer) (s : Player) :
    (syncState env b s).mVideoBuffer = (frameState s).mVideoBuffer := by
  simp [syncState, syncInput]

theorem syncState_renders (env : Env) (b : MediaBuffer) (s : Player) :
    renders (syncState env b s).trace = renders s.trace := by
  simp [syncState, syncInput]

theorem syncState_videoSource (env : Env) (b : MediaBuffer) (s : Player) :
    (syncState env b s).mVideoSource = (frameState s).mVideoSource := by
  simp [syncState, syncInput]

/-- A pending video event outside `SEEK_PREVIEW` whose frame `b` gets past the
start of the audio player and finds a clock comes to the AV-sync stage. -/
theorem onVideoEvent_toSync (env : Env) (s : Player) (b : MediaBuffer)
    (hp : s.mVideoEventPending = true) (hsp : s.mFlags.SEEK_PREVIEW = false)
    (hb : (frameState s).mVideoBuffer = some b)
    (haudio : (syncInput env b s).1 = Status.OK)
    (hts : pickTimeSource (syncInput env b s).2 ≠ none) :
    onVideoEvent env s = avSync env s.mSeeking b (syncInput env b s).2 := by
  simp only [onVideoEvent, hp, hsp, hb, processFrame, processFrame_seek]
  simp only [syncInput] at haudio hts
  simp only [Bool.not_true, Bool.false_eq_true, if_false, haudio, ne_eq, not_true_eq_false,
    processFrame_sync]
  split
  · rename_i h
    exact absurd h hts
  · simp only [syncInput]
    rw [← frameState_seeking s b hb]
    simp

/-- The same for a clip that is not a still image: the event comes to the
AV-sync test in the state `syncState`. -/
theorem onVideoEvent_atSync (env : Env) (s : Player) (b : MediaBuffer)
    (hp : s.mVideoEventPending = true) (hsp : s.mFlags.SEEK_PREVIEW = false)
    (hjpg : s.mIsVideoSourceJpg = false)
    (hb : (frameState s).mVideoBuffer = some b)
    (haudio : (syncInput env b s).1 = Status.OK)
    (hts : pickTimeSource (syncInput env b s).2 ≠ none) :
    onVideoEvent env s = avSync_decide env s.mSeeking b (syncState env b s) := by
  have hjpg' : (syncInput env b s).2.mIsVideoSourceJpg = false := by
    simp [syncInput, hjpg]
  rw [onVideoEvent_toSync env s b hp hsp hb haudio hts]
  simp only [avSync, hjpg', Bool.false_eq_true, if_false, syncState]

theorem dropLate_effect (b : MediaBuffer) (s : Player) (hp : s.mVideoEventPending = false) :
    (dropLate b s).mVideoBuffer = none ∧
    (dropLate b s).mVideoEventPending = true ∧
    (dropLate b s).trace = s.trace ++ [Action.release b.timeUs, Action.post Event.video 0] ∧
    (dropLate b s).mVideoSource = s.mVideoSource := by
  simp [dropLate, postVideoEvent_l, hp]

theorem waitEarly_effect (s : Player) (hp : s.mVideoEventPending = false) :
    (waitEarly s).mVideoBuffer = s.mVideoBuffer ∧
    (waitEarly s).mVideoEventPending = true ∧
    (waitEarly s).trace = s.trace ++ [Action.post Event.video 25000] ∧
    (waitEarly s).mVideoSource = s.mVideoSource := by
  simp [waitEarly, postVideoEvent_l, hp]

/-- C8: for a clip that is not a still image and a frame `b` that is not the
first after a seek, a video event that comes to the AV-sync test with a
lateness above 40000 us releases the frame without rendering it, holds no frame
afterwards and posts a video event with delay 0; with a lateness of at most
40000 us the frame is either kept for the early wait or goes on to the render
stage. -/
theorem late_frame_dropped (env : Env) (s : Player) (b : MediaBuffer)
    (hp : s.mVideoEventPending = true) (hsp : s.mFlags.SEEK_PREVIEW = false)
    (hjpg : s.mIsVideoSourceJpg = false) (hseek : s.mSeeking = SeekType.NO_SEEK)
    (hb : (frameState s).mVideoBuffer = some b)
    (haudio : (syncInput env b s).1 = Status.OK)
    (hts : pickTimeSource (syncInput env b s).2 ≠ none) :
    (env.realTimeUs2 - (syncState env b s).mTimeSourceDeltaUs - b.timeUs > 40000 →
      renders (onVideoEvent env s).trace = renders s.trace ∧
      (onVideoEvent env s).mVideoBuffer = none ∧
      (onVideoEvent env s).mVideoEventPending = true ∧
      (onVideoEvent env s).trace =
        (syncState env b s).trace ++ [Action.release b.timeUs, Action.post Event.video 0]) ∧
    (env.realTimeUs2 - (syncState env b s).mTimeSourceDeltaUs - b.timeUs ≤ 40000 →
      ((onVideoEvent env s).mVideoBuffer = some b ∧
        (onVideoEvent env s).trace = (syncState env b s).trace ++ [Action.post Event.video 25000]) ∨
      onVideoEvent env s = renderStage SeekType.NO_SEEK b (syncState env b s)) := by
  rw [onVideoEvent_atSync env s b hp hsp hjpg hb haudio hts, hseek]
  have hpend := syncState_notPending env b s
  constructor
  · intro hl
    have h1 : avSync_decide env SeekType.NO_SEEK b (syncState env b s) =
        dropLate b (syncState env b s) := by
      simp [avSync_decide, latenessUs, hl]
    rw [h1]
    obtain ⟨h2, h3, h4, _⟩ := dropLate_effect b (syncState env b s) hpend
    exact ⟨by rw [h4]; simp [renderOf, syncState_renders], h2, h3, h4⟩
  · intro hl
    have hl' : ¬ (env.realTimeUs2 - (syncState env b s).mTimeSourceDeltaUs - b.timeUs > 40000) :=
      not_lt.mpr hl
    by_cases he : env.realTimeUs2 - (syncState env b s).mTimeSourceDeltaUs - b.timeUs < -25000
    · left
      have h1 : avSync_decide env SeekType.NO_SEEK b (syncState env b s) =
          waitEarly (syncState env b s) := by
        simp [avSync_decide, latenessUs, hl', he]
      rw [h1]
      obtain ⟨h2, _, h4, _⟩ := waitEarly_effect (syncState env b s) hpend
      exact ⟨by rw [h2, syncState_buffer, hb], h4⟩
    · right
      simp [avSync_decide, latenessUs, hl', he]

theorem late_frame_dropped_witness :
    (atTime 94000).realTimeUs2
        - (syncState (atTime 94000) { timeUs := 33000, rangeLength := 1 } lateFrameClip).mTimeSourceDeltaUs
        - 33000 = 60000 ∧
    renders (onVideoEvent (atTime 94000) lateFrameClip).trace = renders lateFrameClip.trace ∧
    (onVideoEvent (atTime 94000) lateFrameClip).mVideoBuffer = none ∧
    (onVideoEvent (atTime 94000) lateFrameClip).mVideoEventPending = true :=
  have h := (late_frame_dropped (atTime 94000) lateFrameClip { timeUs := 33000, rangeLength := 1 }
    (by decide) (by decide) (by decide) (by decide) (by decide) (by decide) (by decide)).1
    (by decide)
  ⟨by decide, h.1, h.2.1, h.2.2.1⟩

theorem frameState_held (s : Player) (b : MediaBuffer) (h : s.mVideoBuffer = some b) :
    frameState s = pauseAudioForSeek { s with mVideoEventPending := false } := by
  simp [frameState, fetchFrame, h]

theorem onVideoEvent_held_videoSource (env : Env) (s : Player) (b : MediaBuffer)
    (h : s.mVideoBuffer = some b) : (onVideoEvent env s).mVideoSource = s.mVideoSource := by
  simp only [onVideoEvent]
  split
  · rfl
  · split
    · rfl
    · rw [frameState_held s b h]
      split <;> simp

/-- C9: for a clip that is not a still image and a frame `b` that is not the
first after a seek, a video event that comes to the AV-sync test with a
lateness below -25000 us renders nothing, keeps `b` in `mVideoBuffer` and posts
a video event with delay 25000; the next video event works on the held frame
`b` and leaves the decoder output as it is. -/
theorem early_frame_held (env env2 : Env) (s : Player) (b : MediaBuffer)
    (hp : s.mVideoEventPending = true) (hsp : s.mFlags.SEEK_PREVIEW = false)
    (hjpg : s.mIsVideoSourceJpg = false) (hseek : s.mSeeking = SeekType.NO_SEEK)
    (hb : (frameState s).mVideoBuffer = some b)
    (haudio : (syncInput env b s).1 = Status.OK)
    (hts : pickTimeSource (syncInput env b s).2 ≠ none)
    (hl : env.realTimeUs2 - (syncState env b s).mTimeSourceDeltaUs - b.timeUs < -25000) :
    renders (onVideoEvent env s).trace = renders s.trace ∧
    (onVideoEvent env s).mVideoBuffer = some b ∧
    (onVideoEvent env s).mVideoEventPending = true ∧
    (onVideoEvent env s).trace = (syncState env b s).trace ++ [Action.post Event.video 25000] ∧
    (frameState (onVideoEvent env s)).mVideoBuffer = some b ∧
    (onVideoEvent env2 (onVideoEvent env s)).mVideoSource = (onVideoEvent env s).mVideoSource := by
  have hheld : (onVideoEvent env s).mVideoBuffer = some b := by
    rw [onVideoEvent_atSync env s b hp hsp hjpg hb haudio hts, hseek]
    have h1 : avSync_decide env SeekType.NO_SEEK b (syncState env b s) =
        waitEarly (syncState env b s) := by
      have hl' : ¬ (env.realTimeUs2 - (syncState env b s).mTimeSourceDeltaUs - b.timeUs > 40000) := by
        omega
      simp [avSync_decide, latenessUs, hl', hl]
    rw [h1, (waitEarly_effect _ (syncState_notPending env b s)).1, syncState_buffer, hb]
  refine ⟨?_, hheld, ?_, ?_, ?_, onVideoEvent_held_videoSource env2 _ b hheld⟩
  · rw [onVideoEvent_atSync env s b hp hsp hjpg hb haudio hts, hseek]
    have hl' : ¬ (env.realTimeUs2 - (syncState env b s).mTimeSourceDeltaUs - b.timeUs > 40000) := by
      omega
    simp [avSync_decide, latenessUs, hl', hl, syncState_renders]
  · rw [onVideoEvent_atSync env s b hp hsp hjpg hb haudio hts, hseek]
    have hl' : ¬ (env.realTimeUs2 - (syncState env b s).mTimeSourceDeltaUs - b.timeUs > 40000) := by
      omega
    simp [avSync_decide, latenessUs, hl', hl,
      (waitEarly_effect _ (syncState_notPending env b s)).2.1]
  · rw [onVideoEvent_atSync env s b hp hsp hjpg hb haudio hts, hseek]
    have hl' : ¬ (env.realTimeUs2 - (syncState env b s).mTimeSourceDeltaUs - b.timeUs > 40000) := by
      omega
    simp [avSync_decide, latenessUs, hl', hl,
      (waitEarly_effect _ (syncState_notPending env b s)).2.2.1]
  · rw [frameState_held _ b hheld]
    simpa using hheld

theorem early_frame_held_witness :
    (atTime 2000).realTimeUs2
        - (syncState (atTime 2000) { timeUs := 100000, rangeLength := 1 } earlyFrameClip).mTimeSourceDeltaUs
        - 100000 = -99000 ∧
    renders (onVideoEvent (atTime 2000) earlyFrameClip).trace = renders earlyFrameClip.trace ∧
    (onVideoEvent (atTime 2000) earlyFrameClip).mVideoBuffer =
      some { timeUs := 100000, rangeLength := 1 } ∧
    (onVideoEvent (atTime 27000) (onVideoEvent (atTime 2000) earlyFrameClip)).mVideoSource =
      (onVideoEvent (atTime 2000) earlyFrameClip).mVideoSource :=
  have h := early_frame_held (atTime 2000) (atTime 27000) earlyFrameClip
    { timeUs := 100000, rangeLength := 1 }
    (by decide) (by decide) (by decide) (by decide) (by decide) (by decide) (by decide)
    (by decide)
  ⟨by decide, h.1, h.2.1, h.2.2.2.2.2⟩

/-! # C10: a clip whose cut times are equal -/

/-! ## A clip whose cut times are equal -/

theorem finishSeekIfNecessary_noSeek (videoTimeUs : Int) (s : Player)
    (h : s.mSeeking = SeekType.NO_SEEK) : finishSeekIfNecessary videoTimeUs s = s := by
  simp [finishSeekIfNecessary, h]

theorem onReadError_seeking (err : Status) (s : Player) (h : s.mSeeking = SeekType.NO_SEEK) :
    (onReadError err s).mSeeking = SeekType.NO_SEEK := by
  simp [onReadError, finishSeekIfNecessary_noSeek _ s h, h]

theorem readVideoLoop_noSeek (reads : List ReadResult) (s : Player)
    (h : s.mSeeking = SeekType.NO_SEEK) : (readVideoLoop reads s).mSeeking = SeekType.NO_SEEK := by
  induction reads generalizing s with
  | nil => exact onReadError_seeking _ _ (by simpa [setReads] using h)
  | cons r rest ih =>
    cases r with
    | buffer b0 =>
      simp only [readVideoLoop]
      split
      · exact ih _ (by simpa using h)
      · split
        · exact ih _ (by simpa using h)
        · simpa [setReads] using h
    | formatChanged w h' =>
      simp only [readVideoLoop]
      exact ih _ (by simpa using h)
    | endOfStream => exact onReadError_seeking _ _ (by simpa [setReads] using h)
    | error code => exact onReadError_seeking _ _ (by simpa [setReads] using h)

theorem frameState_noSeek (s : Player) (h : s.mSeeking = SeekType.NO_SEEK) :
    (frameState s).mSeeking = SeekType.NO_SEEK := by
  simp only [frameState, fetchFrame]
  split
  · simpa using h
  · split
    · exact readVideoLoop_noSeek _ _ (by simpa using h)
    · simpa using h

theorem processFrame_noSeek (env : Env) (b : MediaBuffer) (s : Player)
    (h : s.mSeeking = SeekType.NO_SEEK) : (processFrame env b s).mSeeking = SeekType.NO_SEEK := by
  have h1 : (notifyStartNext b.timeUs (countFrame b.timeUs s)).mSeeking = SeekType.NO_SEEK := by
    simpa using h
  simp only [processFrame, processFrame_seek, finishSeekIfNecessary_noSeek _ _ h1]
  split
  · simpa using h
  · simp only [processFrame_sync]
    split
    · simpa using h
    · simpa using h

theorem onVideoEvent_noSeek (env : Env) (s : Player) (h : s.mSeeking = SeekType.NO_SEEK) :
    (onVideoEvent env s).mSeeking = SeekType.NO_SEEK := by
  simp only [onVideoEvent]
  split
  · exact h
  · split
    · exact h
    · split
      · exact frameState_noSeek s h
      · exact processFrame_noSeek _ _ _ (frameState_noSeek s h)

theorem afterRender_atEnd (wasSeeking : SeekType) (timeUs : Int) (s : Player)
    (hend : (s.cfg.mPlayEndTimeMsec : Int) ≤ Int.tdiv timeUs 1000) :
    afterRender wasSeeking timeUs s = markEos s := by
  simp [afterRender, hend]

/-- At or past the end cut time the render stage ends in `markEos`. -/
theorem renderStage_atEnd (wasSeeking : SeekType) (b : MediaBuffer) (s : Player)
    (hend : (s.cfg.mPlayEndTimeMsec : Int) ≤ Int.tdiv b.timeUs 1000) :
    ∃ x, renderStage wasSeeking b s = markEos x ∧
      x.mVideoEventPending = s.mVideoEventPending ∧ x.mVideoBuffer = none ∧
      x.mStreamDoneEventPending = s.mStreamDoneEventPending ∧
      x.mFlags.INFORMED_AV_EOS = s.mFlags.INFORMED_AV_EOS ∧
      x.mFlags.LOOPING = s.mFlags.LOOPING ∧ x.mFlags.AUTO_LOOPING = s.mFlags.AUTO_LOOPING ∧
      playbackCompleteCount x.trace = playbackCompleteCount s.trace := by
  simp only [renderStage]
  split
  · exact ⟨_, rfl, by simp, by simp, by simp, by simp, by simp, by simp, by simp [noteOf]⟩
  · simp only [renderAndAdvance]
    rw [afterRender_atEnd _ _ _ (by simpa using hend)]
    exact ⟨_, rfl, by simp, by simp [renderFrame], by simp, by simp, by simp, by simp, by simp⟩

theorem markEos_effect (s : Player) :
    (markEos s).mStreamDoneEventPending = true ∧
    (s.mStreamDoneEventPending = false →
      (markEos s).mStreamDoneStatus = Status.ERROR_END_OF_STREAM) ∧
    (markEos s).mFlags.VIDEO_AT_EOS = true ∧ (markEos s).mFlags.AUDIO_AT_EOS = true := by
  simp only [markEos, postStreamDoneEvent_l]
  split <;> simp_all

theorem processFrame_buffer (env : Env) (b : MediaBuffer) (s : Player) :
    (processFrame env b s).mVideoBuffer = none ∨
      (processFrame env b s).mVideoBuffer = s.mVideoBuffer := by
  simp only [processFrame, processFrame_seek]
  split
  · right; simp
  · simp only [processFrame_sync]
    split
    · left; rfl
    · simp only [avSync, avSync_decide]
      have hrs : ∀ (w : SeekType) (x : Player), (renderStage w b x).mVideoBuffer = none := by
        intro w x
        simp only [renderStage]
        split
        · simp [dropPastEnd]
        · simp [renderAndAdvance, afterRender, renderFrame]
          repeat' split
          all_goals simp [renderFrame]
      split
      · left; exact hrs _ _
      · split
        · left; simp [dropLate]
        · split
          · right; simp [waitEarly]
          · left; exact hrs _ _

theorem onVideoEvent_buffer (env : Env) (s : Player) (b : MediaBuffer)
    (h : (onVideoEvent env s).mVideoBuffer = some b) :
    s.mVideoBuffer = some b ∨ (s.mVideoBuffer = none ∧ skipBuffer b s = false) := by
  simp only [onVideoEvent] at h
  split at h
  · left; exact h
  · split at h
    · left; exact h
    · split at h
      · rename_i h0
        rw [h0] at h
        cases h
      · rename_i b0 hb0
        rcases processFrame_buffer env b0 (frameState s) with h1 | h1
        · rw [h1] at h
          cases h
        · rw [h1] at h
          exact frameState_buffer s b h

theorem processFrame_pending (env : Env) (b : MediaBuffer) (s : Player)
    (hp : s.mVideoEventPending = false)
    (hend : (s.cfg.mPlayEndTimeMsec : Int) ≤ Int.tdiv b.timeUs 1000) :
    renders (processFrame env b s).trace = renders s.trace ∨
      (processFrame env b s).mVideoEventPending = false := by
  have hrs : ∀ (w : SeekType) (x : Player), x.cfg = s.cfg → x.mVideoEventPending = false →
      (renderStage w b x).mVideoEventPending = false := by
    intro w x hc hx
    obtain ⟨y, hy, h1, _⟩ := renderStage_atEnd w b x (by rw [hc]; exact hend)
    rw [hy]
    simp [h1, hx]
  simp only [processFrame, processFrame_seek]
  split
  · right; simpa using hp
  · simp only [processFrame_sync]
    split
    · right; simpa using hp
    · simp only [avSync, avSync_decide]
      split
      · right; exact hrs _ _ (by simp) (by simpa using hp)
      · split
        · left; simp [dropLate, renderOf]
        · split
          · left; simp [waitEarly]
          · right; exact hrs _ _ (by simp) (by simpa using hp)

theorem pause_l_session (at_eos : Bool) (s : Player) :
    (pause_l at_eos s).2.mSeeking = s.mSeeking ∧
    (pause_l at_eos s).2.mVideoBuffer = s.mVideoBuffer ∧
    (s.mVideoEventPending = false → (pause_l at_eos s).2.mVideoEventPending = false) := by
  simp only [pause_l, pause_l_stop, PreviewPlayerBase.cancelPlayerEvents]
  repeat' split
  all_goals simp_all

/-- Without looping, the stream-done event keeps a session that is not seeking
so, keeps the held frame, and posts no video event. -/
theorem onStreamDone_session (env : Env) (s : Player)
    (hloop : s.mFlags.LOOPING = false) (hauto : s.mFlags.AUTO_LOOPING = false) :
    (onStreamDone env s).mSeeking = s.mSeeking ∧
    (onStreamDone env s).mVideoBuffer = s.mVideoBuffer ∧
    (s.mVideoEventPending = false → (onStreamDone env s).mVideoEventPending = false) := by
  simp only [onStreamDone]
  split
  · simp
  · simp only [onStreamDone_fire]
    split
    · have h := pause_l_session true
        (emit (Action.notifyError s.mStreamDoneStatus) { s with mStreamDoneEventPending := false })
      simp only [onStreamDone_error]
      refine ⟨?_, ?_, ?_⟩
      · simp
      · simp
      · intro hp
        simpa using h.2.2 (by simpa using hp)
    · split
      · simp
      · have h := pause_l_session true { s with mStreamDoneEventPending := false }
        simp only [hloop, hauto, Bool.or_self, Bool.false_eq_true, if_false, onStreamDone_inform]
        refine ⟨?_, ?_, ?_⟩
        · split <;> simp
        · split <;> simp
        · intro hp
          split <;> simpa using h.2.2 (by simpa using hp)

theorem onVideoEvent_emptyCut (c : Nat) (r0 : List Int) (env : Env) (s : Player)
    (h : EmptyCutSession c r0 s) : EmptyCutSession c r0 (onVideoEvent env s) := by
  obtain ⟨hb, he, hseek, hloop, hauto, hheld, hr⟩ := h
  by_cases hp : s.mVideoEventPending = true
  · have hr0 : renderedTimes s.trace = r0 := by
      rcases hr with hr | ⟨t, _, _, hpf⟩
      · exact hr
      · rw [hpf] at hp
        cases hp
    have hheld' : ∀ b, (onVideoEvent env s).mVideoBuffer = some b →
        (c : Int) ≤ Int.tdiv b.timeUs 1000 := by
      intro b hb'
      rcases onVideoEvent_buffer env s b hb' with h1 | ⟨_, h2⟩
      · exact hheld b h1
      · simpa [skipBuffer, hseek, hb] using h2
    refine ⟨by simpa using hb, by simpa using he, onVideoEvent_noSeek env s hseek,
      by simpa using hloop, by simpa using hauto, hheld', ?_⟩
    by_cases hsp : s.mFlags.SEEK_PREVIEW = true
    · left
      simp [onVideoEvent, hp, hsp, hr0]
    · have hsp' : s.mFlags.SEEK_PREVIEW = false := by simpa using hsp
      cases hfb : (frameState s).mVideoBuffer with
      | none =>
        left
        simp [onVideoEvent, hp, hsp', hfb, renderedTimes, ← hr0]
      | some b =>
        have hcb : (c : Int) ≤ Int.tdiv b.timeUs 1000 := by
          rcases frameState_buffer s b hfb with h1 | ⟨_, h2⟩
          · exact hheld b h1
          · simpa [skipBuffer, hseek, hb] using h2
        have hev : onVideoEvent env s = processFrame env b (frameState s) := by
          simp [onVideoEvent, hp, hsp', hfb]
        rcases processFrame_rendersFrame env b (frameState s) with h1 | ⟨h1, h2⟩
        · left
          rw [hev]
          simp [renderedTimes, h1, ← hr0]
        · rcases processFrame_pending env b (frameState s) (frameState_notPending s)
            (by simpa [he] using hcb) with h3 | h3
          · left
            rw [hev]
            simp [renderedTimes, h3, ← hr0]
          · right
            refine ⟨b.timeUs, ?_, ?_, by rw [hev]; exact h3⟩
            · rw [hev]
              simp [renderedTimes, h2, ← hr0]
            · have h4 : Int.tdiv b.timeUs 1000 ≤ (c : Int) := by simpa [he] using h1
              omega
  · have hp' : s.mVideoEventPending = false := by simpa using hp
    have hid : onVideoEvent env s = s := by simp [onVideoEvent, hp']
    rw [hid]
    exact ⟨hb, he, hseek, hloop, hauto, hheld, hr⟩

theorem onStreamDone_emptyCut (c : Nat) (r0 : List Int) (env : Env) (s : Player)
    (h : EmptyCutSession c r0 s) : EmptyCutSession c r0 (onStreamDone env s) := by
  obtain ⟨hb, he, hseek, hloop, hauto, hheld, hr⟩ := h
  obtain ⟨h1, h2, h3⟩ := onStreamDone_session env s hloop hauto
  refine ⟨by simpa using hb, by simpa using he, by rw [h1]; exact hseek,
    by simpa using hloop, by simpa using hauto, by rw [h2]; exact hheld, ?_⟩
  rcases hr with hr | ⟨t, ht, htc, hpf⟩
  · left
    simpa [renderedTimes] using hr
  · right
    exact ⟨t, by simpa [renderedTimes] using ht, htc, h3 hpf⟩

theorem run_emptyCut (c : Nat) (r0 : List Int) (evs : List Op) (s : Player)
    (hevs : ∀ op ∈ evs, isVideoOrStreamDone op = true) (h : EmptyCutSession c r0 s) :
    EmptyCutSession c r0 (run s evs) := by
  induction evs generalizing s with
  | nil => exact h
  | cons op ops ih =>
    have hop := hevs op (List.mem_cons_self _ _)
    have hrest : ∀ o ∈ ops, isVideoOrStreamDone o = true :=
      fun o ho => hevs o (List.mem_cons_of_mem _ ho)
    simp only [run, List.foldl_cons]
    cases op with
    | onVideoEvent env =>
      exact ih _ hrest (step_inv (EmptyCutSession c r0) s _ h h
        (fun _ _ => onVideoEvent_emptyCut c r0 env s h))
    | onStreamDone env =>
      exact ih _ hrest (step_inv (EmptyCutSession c r0) s _ h h
        (fun _ _ => onStreamDone_emptyCut c r0 env s h))
    | play env => simp [isVideoOrStreamDone] at hop
    | pause => simp [isVideoOrStreamDone] at hop
    | seekTo env timeUs => simp [isVideoOrStreamDone] at hop
    | prepare env => simp [isVideoOrStreamDone] at hop
    | prepareAsync => simp [isVideoOrStreamDone] at hop
    | reset => simp [isVideoOrStreamDone] at hop
    | setDataSource uri => simp [isVideoOrStreamDone] at hop
    | readFirstVideoFrame => simp [isVideoOrStreamDone] at hop
    | setAudioPlayer ap => simp [isVideoOrStreamDone] at hop
    | onCheckAudioStatus env => simp [isVideoOrStreamDone] at hop
    | onProgressCbEvent => simp [isVideoOrStreamDone] at hop
    | onUpdateOverlayEvent => simp [isVideoOrStreamDone] at hop
    | onPrepareAsyncEvent env => simp [isVideoOrStreamDone] at hop
    | postAudioEOS d => simp [isVideoOrStreamDone] at hop
    | postAudioSeekComplete => simp [isVideoOrStreamDone] at hop

/-! ## The completion of a clip whose cut times are equal -/

theorem onReadError_eos (s : Player) (hseek : s.mSeeking = SeekType.NO_SEEK)
    (hsd : s.mStreamDoneEventPending = false) :
    (onReadError Status.ERROR_END_OF_STREAM s).mStreamDoneEventPending = true ∧
    (onReadError Status.ERROR_END_OF_STREAM s).mStreamDoneStatus = Status.ERROR_END_OF_STREAM ∧
    (onReadError Status.ERROR_END_OF_STREAM s).mFlags.VIDEO_AT_EOS = true ∧
    (onReadError Status.ERROR_END_OF_STREAM s).mFlags.AUDIO_AT_EOS = true := by
  simp [onReadError, finishSeekIfNecessary_noSeek _ s hseek, postStreamDoneEvent_l, hsd]

theorem readVideoLoop_eos (reads : List ReadResult) (s : Player)
    (hreads : ∀ r ∈ reads, ∀ code, r ≠ ReadResult.error code)
    (hseek : s.mSeeking = SeekType.NO_SEEK) (hsd : s.mStreamDoneEventPending = false)
    (h : (readVideoLoop reads s).mVideoBuffer = none) :
    (readVideoLoop reads s).mStreamDoneEventPending = true ∧
    (readVideoLoop reads s).mStreamDoneStatus = Status.ERROR_END_OF_STREAM ∧
    (readVideoLoop reads s).mFlags.VIDEO_AT_EOS = true ∧
    (readVideoLoop reads s).mFlags.AUDIO_AT_EOS = true := by
  induction reads generalizing s with
  | nil =>
    exact onReadError_eos _ (by simpa [setReads] using hseek) (by simpa [setReads] using hsd)
  | cons r rest ih =>
    have hrest : ∀ x ∈ rest, ∀ code, x ≠ ReadResult.error code :=
      fun x hx => hreads x (List.mem_cons_of_mem _ hx)
    cases r with
    | buffer b0 =>
      simp only [readVideoLoop] at h ⊢
      split
      · rename_i h0
        simp only [h0, if_true] at h
        exact ih _ hrest (by simpa using hseek) (by simpa using hsd) h
      · rename_i h0
        simp only [h0, if_false] at h
        split
        · rename_i h1
          simp only [h1, if_true] at h
          exact ih _ hrest (by simpa using hseek) (by simpa using hsd) h
        · rename_i h1
          simp [h1] at h
    | formatChanged w h' =>
      simp only [readVideoLoop] at h ⊢
      exact ih _ hrest (by simpa using hseek) (by simpa using hsd) h
    | endOfStream =>
      exact onReadError_eos _ (by simpa [setReads] using hseek) (by simpa [setReads] using hsd)
    | error code => exact absurd rfl (hreads _ (List.mem_cons_self _ _) code)

theorem readVideoLoop_got (reads : List ReadResult) (s : Player) (b : MediaBuffer)
    (hnone : s.mVideoBuffer = none) (h : (readVideoLoop reads s).mVideoBuffer = some b) :
    (readVideoLoop reads s).mStreamDoneEventPending = s.mStreamDoneEventPending ∧
    (readVideoLoop reads s).mFlags.FIRST_FRAME = s.mFlags.FIRST_FRAME := by
  induction reads generalizing s with
  | nil => simp [readVideoLoop, hnone] at h
  | cons r rest ih =>
    cases r with
    | buffer b0 =>
      simp only [readVideoLoop] at h ⊢
      split
      · rename_i h0
        simp only [h0, if_true] at h
        have := ih _ (by simpa using hnone) h
        simpa using this
      · rename_i h0
        simp only [h0, if_false] at h
        split
        · rename_i h1
          simp only [h1, if_true] at h
          have := ih _ (by simpa using hnone) h
          simpa using this
        · simp [setReads]
    | formatChanged w h' =>
      simp only [readVideoLoop] at h ⊢
      have := ih _ (by simpa using hnone) h
      simpa using this
    | endOfStream => simp [readVideoLoop, hnone] at h
    | error code => simp [readVideoLoop, hnone] at h

theorem frameState_read (s : Player) (v : MediaSource) (hseek : s.mSeeking = SeekType.NO_SEEK)
    (hbuf : s.mVideoBuffer = none) (hsrc : s.mVideoSource = some v) :
    frameState s = readVideoLoop v.reads { s with mVideoEventPending := false } := by
  simp [frameState, fetchFrame, pauseAudioForSeek, hseek, hbuf, hsrc]

theorem startAudioIfNeeded_ok (env : Env) (s : Player) (h : env.audioStart = Status.OK) :
    (startAudioIfNeeded env s).1 = Status.OK := by
  simp only [startAudioIfNeeded, startAudioPlayer_l]
  repeat' split
  all_goals simp_all

theorem syncClock_onTime (env : Env) (timeUs : Int) (s : Player)
    (hfirst : s.mFlags.FIRST_FRAME = true) (hmap : env.mediaTimeMapping = none) :
    latenessUs env SeekType.NO_SEEK timeUs (syncClock env timeUs s) =
      env.realTimeUs2 - env.realTimeUs1 := by
  have h1 : ∀ x : Player, syncClock_mapping env x = x := by
    intro x
    simp only [syncClock_mapping, hmap]
    split <;> rfl
  simp only [latenessUs, syncClock, h1, syncClock_first, hfirst]
  simp only [ne_eq, not_true_eq_false, if_false, if_true]
  omega

theorem onStreamDone_inform_count (s : Player) (h : s.mFlags.INFORMED_AV_EOS = false) :
    playbackCompleteCount (onStreamDone_inform s).trace = playbackCompleteCount s.trace + 1 := by
  simp [onStreamDone_inform, h, noteOf]

theorem onStreamDone_completes (env : Env) (s : Player) (h : AwaitsCompletion s) :
    playbackCompleteCount (onStreamDone env s).trace = playbackCompleteCount s.trace + 1 := by
  obtain ⟨h1, h2, h3, h4, h5, h6, h7⟩ := h
  have hev : onStreamDone env s =
      onStreamDone_inform (pause_l true { s with mStreamDoneEventPending := false }).2 := by
    simp [onStreamDone, onStreamDone_fire, h1, h2, allDone, h3, h4, h6, h7]
  rw [hev, onStreamDone_inform_count _ (by simpa using h5)]
  simp

/-- The first video event of the session, on time: it ends with the stream-done
event pending for the end of the stream. -/
theorem onVideoEvent_awaitsCompletion (env : Env) (p : Player) (v : MediaSource)
    (hcut : p.cfg.mPlayBeginTimeMsec = p.cfg.mPlayEndTimeMsec)
    (hseek : p.mSeeking = SeekType.NO_SEEK) (hbuf : p.mVideoBuffer = none)
    (hloop : p.mFlags.LOOPING = false) (hauto : p.mFlags.AUTO_LOOPING = false)
    (hpend : p.mVideoEventPending = true) (hsd : p.mStreamDoneEventPending = false)
    (hsp : p.mFlags.SEEK_PREVIEW = false) (hinf : p.mFlags.INFORMED_AV_EOS = false)
    (hsrc : p.mVideoSource = some v)
    (hreads : ∀ r ∈ v.reads, ∀ code, r ≠ ReadResult.error code)
    (hfirst : p.mFlags.FIRST_FRAME = true) (hts : p.mTimeSource ≠ none)
    (haudio : env.audioStart = Status.OK) (hmap : env.mediaTimeMapping = none)
    (hlo : -25000 ≤ env.realTimeUs2 - env.realTimeUs1)
    (hhi : env.realTimeUs2 - env.realTimeUs1 ≤ 40000) :
    AwaitsCompletion (onVideoEvent env p) ∧
      playbackCompleteCount (onVideoEvent env p).trace = playbackCompleteCount p.trace := by
  refine ⟨?_, by simp⟩
  have hread := frameState_read p v hseek hbuf hsrc
  have hflags : (onVideoEvent env p).mFlags.INFORMED_AV_EOS = false ∧
      (onVideoEvent env p).mFlags.LOOPING = false ∧
      (onVideoEvent env p).mFlags.AUTO_LOOPING = false := by
    simp [hinf, hloop, hauto]
  cases hfb : (frameState p).mVideoBuffer with
  | none =>
    have hev : onVideoEvent env p = frameState p := by
      simp [onVideoEvent, hpend, hsp, hfb]
    have h := readVideoLoop_eos v.reads { p with mVideoEventPending := false } hreads
      (by simpa using hseek) (by simpa using hsd) (by rw [← hread]; exact hfb)
    rw [← hread, ← hev] at h
    exact ⟨h.1, h.2.1, h.2.2.1, h.2.2.2, hflags⟩
  | some b =>
    have hgot := readVideoLoop_got v.reads { p with mVideoEventPending := false } b
      (by simpa using hbuf) (by rw [← hread]; exact hfb)
    rw [← hread] at hgot
    have hcb : (p.cfg.mPlayEndTimeMsec : Int) ≤ Int.tdiv b.timeUs 1000 := by
      rcases frameState_buffer p b hfb with h1 | ⟨_, h2⟩
      · rw [hbuf] at h1
        cases h1
      · simpa [skipBuffer, hseek, hcut] using h2
    have hin_ok : (syncInput env b p).1 = Status.OK := startAudioIfNeeded_ok env _ haudio
    have hin_ts : pickTimeSource (syncInput env b p).2 ≠ none := by
      simp only [pickTimeSource]
      split
      · simp
      · simpa [syncInput] using hts
    have hev := onVideoEvent_toSync env p b hpend hsp hfb hin_ok hin_ts
    have hin_sd : (syncInput env b p).2.mStreamDoneEventPending = false := by
      have h0 : (frameState p).mSeeking = SeekType.NO_SEEK := frameState_noSeek p hseek
      have h1 : (notifyStartNext b.timeUs (countFrame b.timeUs (frameState p))).mSeeking =
          SeekType.NO_SEEK := by simpa using h0
      simp only [syncInput, finishSeekIfNecessary_noSeek _ _ h1]
      simpa [hsd] using hgot.1
    have hin_first : (syncInput env b p).2.mFlags.FIRST_FRAME = true := by
      have h0 : (frameState p).mSeeking = SeekType.NO_SEEK := frameState_noSeek p hseek
      have h1 : (notifyStartNext b.timeUs (countFrame b.timeUs (frameState p))).mSeeking =
          SeekType.NO_SEEK := by simpa using h0
      simp only [syncInput, finishSeekIfNecessary_noSeek _ _ h1]
      simpa [hfirst] using hgot.2
    have hstage : ∃ x, onVideoEvent env p = renderStage SeekType.NO_SEEK b x ∧
        x.cfg = p.cfg ∧ x.mStreamDoneEventPending = false := by
      rw [hev, hseek]
      simp only [avSync]
      split
      · exact ⟨_, rfl, by simp [syncInput], hin_sd⟩
      · have hl := syncClock_onTime env b.timeUs (syncInput env b p).2 hin_first hmap
        have h1 : ¬ (latenessUs env SeekType.NO_SEEK b.timeUs
            (syncClock env b.timeUs (syncInput env b p).2) > 40000) := by
          rw [hl]; omega
        have h2 : ¬ (latenessUs env SeekType.NO_SEEK b.timeUs
            (syncClock env b.timeUs (syncInput env b p).2) < -25000) := by
          rw [hl]; omega
        simp only [avSync_decide, h1, h2, if_false]
        exact ⟨_, rfl, by simp [syncInput], by simpa using hin_sd⟩
    obtain ⟨x, hx, hxc, hxsd⟩ := hstage
    obtain ⟨y, hy, _, _, hysd, _⟩ := renderStage_atEnd SeekType.NO_SEEK b x (by rw [hxc]; exact hcb)
    have hm := markEos_effect y
    rw [← hy, ← hx] at hm
    exact ⟨hm.1, hm.2.1 (by rw [hysd]; exact hxsd), hm.2.2.1, hm.2.2.2, hflags⟩

/-- C10, as amended: in a play session without looping and without a seek, of
a clip whose begin and end cut times are equal, the video and stream-done
events render at most one frame, and only a frame whose time in ms equals the
cut time; and when the decoder returns no error and the first video event is
on time, that event followed by the stream-done event notifies
`MEDIA_PLAYBACK_COMPLETE` once. -/
theorem empty_cut_renders_only_cut_frame (env1 env2 : Env) (p : Player) (v : MediaSource)
    (evs : List Op)
    (hcut : p.cfg.mPlayBeginTimeMsec = p.cfg.mPlayEndTimeMsec)
    (hseek : p.mSeeking = SeekType.NO_SEEK) (hbuf : p.mVideoBuffer = none)
    (hloop : p.mFlags.LOOPING = false) (hauto : p.mFlags.AUTO_LOOPING = false)
    (hevs : ∀ op ∈ evs, isVideoOrStreamDone op = true)
    (hpend : p.mVideoEventPending = true) (hsd : p.mStreamDoneEventPending = false)
    (hsp : p.mFlags.SEEK_PREVIEW = false) (hinf : p.mFlags.INFORMED_AV_EOS = false)
    (hsrc : p.mVideoSource = some v)
    (hreads : ∀ r ∈ v.reads, ∀ code, r ≠ ReadResult.error code)
    (hfirst : p.mFlags.FIRST_FRAME = true) (hts : p.mTimeSource ≠ none)
    (haudio : env1.audioStart = Status.OK) (hmap : env1.mediaTimeMapping = none)
    (hlo : -25000 ≤ env1.realTimeUs2 - env1.realTimeUs1)
    (hhi : env1.realTimeUs2 - env1.realTimeUs1 ≤ 40000) :
    (renderedTimes (run p evs).trace = renderedTimes p.trace ∨
      ∃ t, renderedTimes (run p evs).trace = renderedTimes p.trace ++ [t] ∧
        Int.tdiv t 1000 = (p.cfg.mPlayEndTimeMsec : Int)) ∧
    playbackCompleteCount (onStreamDone env2 (onVideoEvent env1 p)).trace =
      playbackCompleteCount p.trace + 1 := by
  constructor
  · have hinv : EmptyCutSession p.cfg.mPlayEndTimeMsec (renderedTimes p.trace) p :=
      ⟨hcut, rfl, hseek, hloop, hauto, by simp [hbuf], Or.inl rfl⟩
    obtain ⟨_, _, _, _, _, _, hr⟩ := run_emptyCut _ _ evs p hevs hinv
    rcases hr with hr | ⟨t, ht, htc, _⟩
    · exact Or.inl hr
    · exact Or.inr ⟨t, ht, htc⟩
  · obtain ⟨hdone, hcount⟩ := onVideoEvent_awaitsCompletion env1 p v hcut hseek hbuf hloop hauto
      hpend hsd hsp hinf hsrc hreads hfirst hts haudio hmap hlo hhi
    rw [onStreamDone_completes env2 _ hdone, hcount]

theorem empty_cut_renders_only_cut_frame_witness :
    (renderedTimes emptyCutClip.trace =
        renderedTimes (play {} (preparedClip 1000 1000 [frameAt 1000000])).2.trace ∨
      ∃ t, renderedTimes emptyCutClip.trace =
          renderedTimes (play {} (preparedClip 1000 1000 [frameAt 1000000])).2.trace ++ [t] ∧
        Int.tdiv t 1000 = 1000) ∧
    playbackCompleteCount emptyCutClip.trace =
      playbackCompleteCount (play {} (preparedClip 1000 1000 [frameAt 1000000])).2.trace + 1 :=
  empty_cut_renders_only_cut_frame (atTime 1000) {}
    (play {} (preparedClip 1000 1000 [frameAt 1000000])).2 { reads := [frameAt 1000000] }
    [Op.onVideoEvent (atTime 1000), Op.onStreamDone {}]
    (by decide) (by decide) (by decide) (by decide) (by decide) (by decide) (by decide)
    (by decide) (by decide) (by decide) (by decide)
    (by
      intro r hr code
      simp only [List.mem_singleton] at hr
      subst hr
      simp [frameAt])
    (by decide) (by decide) (by decide) (by decide) (by decide) (by decide)

/-- Counterexample to C10 as stated: with both cut times at 1000 ms, the frame
at 1000 ms is rendered before `MEDIA_PLAYBACK_COMPLETE` is notified. -/
theorem frame_at_cut_time_rendered :
    emptyCutClip.cfg.mPlayBeginTimeMsec = 1000 ∧
    emptyCutClip.cfg.mPlayEndTimeMsec = 1000 ∧
    renderedTimes emptyCutClip.trace = [1000000] ∧
    playbackCompleteCount emptyCutClip.trace = 1 := by
  decide

/-! # C11: `seekTo` on a paused and on a playing player -/

theorem seekTo_eq_body (env : Env) (timeUs : Int) (s : Player)
    (hcan : (s.mExtractorFlagsCanSeek || s.mIsVideoSourceJpg) = true)
    (hcache : s.mFlags.CACHE_UNDERRUN = false) :
    seekTo env timeUs s =
      (Status.OK,
        seekTo_l_paused (seekAudioIfNecessary_l (seekTo_l_record timeUs (seekTo_l_repost s)))) := by
  simp only [seekTo, hcan, if_true, seekTo_l, seekTo_l_underrun_clear env s hcache, seekTo_l_body]

theorem notes_seekToStart (timeUs : Int) (s : Player) :
    notes (seekAudioIfNecessary_l (seekTo_l_record timeUs (seekTo_l_repost s))).trace =
      notes s.trace := by
  simp only [seekAudioIfNecessary_l, seekTo_l_record, seekTo_l_repost, postVideoEvent_l]
  repeat' split
  all_goals simp [noteOf]

theorem seekToStart_flags (timeUs : Int) (s : Player) :
    (seekAudioIfNecessary_l (seekTo_l_record timeUs (seekTo_l_repost s))).mFlags.PLAYING =
        s.mFlags.PLAYING ∧
    (seekAudioIfNecessary_l (seekTo_l_record timeUs (seekTo_l_repost s))).mFlags.PREPARED =
        s.mFlags.PREPARED ∧
    (seekAudioIfNecessary_l (seekTo_l_record timeUs (seekTo_l_repost s))).mFlags.SEEK_PREVIEW =
        s.mFlags.SEEK_PREVIEW ∧
    (seekAudioIfNecessary_l (seekTo_l_record timeUs (seekTo_l_repost s))).mVideoSource =
        s.mVideoSource ∧
    (seekAudioIfNecessary_l (seekTo_l_record timeUs (seekTo_l_repost s))).mSeeking =
        SeekType.SEEK ∧
    (seekAudioIfNecessary_l (seekTo_l_record timeUs (seekTo_l_repost s))).mSeekTimeUs = timeUs ∧
    (s.mFlags.PLAYING = false →
      (seekAudioIfNecessary_l (seekTo_l_record timeUs (seekTo_l_repost s))).mVideoEventPending =
        s.mVideoEventPending) := by
  simp only [seekAudioIfNecessary_l, seekTo_l_record, seekTo_l_repost, postVideoEvent_l]
  repeat' split
  all_goals simp_all

/-- The effect of an accepted `seekTo`, on a player that is not `PLAYING` and on
one that is. -/
theorem seekTo_accepted (env : Env) (timeUs : Int) (s : Player)
    (hcan : (s.mExtractorFlagsCanSeek || s.mIsVideoSourceJpg) = true)
    (hcache : s.mFlags.CACHE_UNDERRUN = false) :
    (seekTo env timeUs s).1 = Status.OK ∧
    (seekTo env timeUs s).2.mSeeking = SeekType.SEEK ∧
    (seekTo env timeUs s).2.mSeekTimeUs = timeUs ∧
    (s.mFlags.PLAYING = false →
      notes (seekTo env timeUs s).2.trace =
          notes s.trace ++ [Note.event Msg.MEDIA_SEEK_COMPLETE 0 0] ∧
        (seekTo env timeUs s).2.mFlags.SEEK_PREVIEW =
          (s.mFlags.SEEK_PREVIEW || (s.mFlags.PREPARED && s.mVideoSource.isSome)) ∧
        (seekTo env timeUs s).2.mVideoEventPending =
          (s.mVideoEventPending || (s.mFlags.PREPARED && s.mVideoSource.isSome))) ∧
    (s.mFlags.PLAYING = true →
      notes (seekTo env timeUs s).2.trace = notes s.trace ∧
        (seekTo env timeUs s).2.mFlags.SEEK_PREVIEW = s.mFlags.SEEK_PREVIEW) := by
  rw [seekTo_eq_body env timeUs s hcan hcache]
  obtain ⟨h1, h2, h3, h4, h5, h6, h7⟩ := seekToStart_flags timeUs s
  have hn := notes_seekToStart timeUs s
  generalize seekAudioIfNecessary_l (seekTo_l_record timeUs (seekTo_l_repost s)) = x at *
  refine ⟨rfl, ?_, ?_, ?_, ?_⟩
  · simp only [seekTo_l_paused, postVideoEvent_l]
    repeat' split
    all_goals simp_all
  · simp only [seekTo_l_paused, postVideoEvent_l]
    repeat' split
    all_goals simp_all
  · intro hp
    have hx : x.mFlags.PLAYING = false := by rw [h1]; exact hp
    have hpend := h7 hp
    simp only [seekTo_l_paused, postVideoEvent_l, hx]
    cases hv : s.mVideoSource <;> cases hq : s.mFlags.PREPARED <;>
      cases hvp : s.mVideoEventPending <;> simp_all [noteOf]
  · intro hp
    have hx : x.mFlags.PLAYING = true := by rw [h1]; exact hp
    simp [seekTo_l_paused, hx, hn, h3]

/-- C11, as amended: when the source can seek (or is a still image) and
`CACHE_UNDERRUN` is clear, `seekTo(t)` returns `OK` with the seek state `SEEK`
and the target `t`; on a player that is not `PLAYING` it notifies
`MEDIA_SEEK_COMPLETE` once and, exactly when the player is `PREPARED` and has a
video source, sets `SEEK_PREVIEW` and leaves the video event pending; on a
`PLAYING` player it notifies nothing and leaves `SEEK_PREVIEW` as it is. -/
theorem seekTo_paused_or_playing (env : Env) (timeUs : Int) (s : Player)
    (hcan : (s.mExtractorFlagsCanSeek || s.mIsVideoSourceJpg) = true)
    (hcache : s.mFlags.CACHE_UNDERRUN = false) :
    (seekTo env timeUs s).1 = Status.OK ∧
    (seekTo env timeUs s).2.mSeeking = SeekType.SEEK ∧
    (seekTo env timeUs s).2.mSeekTimeUs = timeUs ∧
    (s.mFlags.PLAYING = false →
      notes (seekTo env timeUs s).2.trace =
          notes s.trace ++ [Note.event Msg.MEDIA_SEEK_COMPLETE 0 0] ∧
        (seekTo env timeUs s).2.mFlags.SEEK_PREVIEW =
          (s.mFlags.SEEK_PREVIEW || (s.mFlags.PREPARED && s.mVideoSource.isSome)) ∧
        (seekTo env timeUs s).2.mVideoEventPending =
          (s.mVideoEventPending || (s.mFlags.PREPARED && s.mVideoSource.isSome))) ∧
    (s.mFlags.PLAYING = true →
      notes (seekTo env timeUs s).2.trace = notes s.trace ∧
        (seekTo env timeUs s).2.mFlags.SEEK_PREVIEW = s.mFlags.SEEK_PREVIEW) :=
  seekTo_accepted env timeUs s hcan hcache

theorem seekTo_paused_or_playing_witness :
    notes (seekTo {} 1500000 pausedClip).2.trace =
        notes pausedClip.trace ++ [Note.event Msg.MEDIA_SEEK_COMPLETE 0 0] ∧
      (seekTo {} 1500000 pausedClip).2.mFlags.SEEK_PREVIEW = true ∧
      (seekTo {} 1500000 pausedClip).2.mVideoEventPending = true :=
  have h := (seekTo_paused_or_playing {} 1500000 pausedClip (by decide) (by decide)).2.2.2.1
    (by decide)
  ⟨h.1, by rw [h.2.1]; decide, by rw [h.2.2]; decide⟩

/-- Counterexample to C11 as stated: on a prepared, paused clip whose extractor
cannot seek, `seekTo` returns `OK` and does nothing: the seek state stays
`NO_SEEK` and nothing is notified. -/
theorem seekTo_ignored_without_can_seek :
    fixedClip.mFlags.PLAYING = false ∧ fixedClip.mFlags.PREPARED = true ∧
    (seekTo {} 1500000 fixedClip).1 = Status.OK ∧
    (seekTo {} 1500000 fixedClip).2.mSeeking = SeekType.NO_SEEK ∧
    notes (seekTo {} 1500000 fixedClip).2.trace = notes fixedClip.trace ∧
    (seekTo {} 1500000 fixedClip).2.mFlags.SEEK_PREVIEW = false := by
  decide

/-! # C12: the video event posted by a paused seek -/

/-- C12, as amended: on a prepared player with a video source that is not
`PLAYING`, `seekTo(t)` followed by the dispatch of the video event renders no
frame: the event clears `SEEK_PREVIEW` and returns, no video event is pending
afterwards, further video events do nothing, and the seek to `t` stays
recorded. -/
theorem paused_seek_event_renders_nothing (env env2 env3 : Env) (timeUs : Int) (s : Player)
    (hcan : (s.mExtractorFlagsCanSeek || s.mIsVideoSourceJpg) = true)
    (hcache : s.mFlags.CACHE_UNDERRUN = false)
    (hplay : s.mFlags.PLAYING = false) (hprep : s.mFlags.PREPARED = true)
    (hvid : s.mVideoSource.isSome = true) :
    renders (onVideoEvent env2 (seekTo env timeUs s).2).trace = renders s.trace ∧
    notes (onVideoEvent env2 (seekTo env timeUs s).2).trace =
      notes s.trace ++ [Note.event Msg.MEDIA_SEEK_COMPLETE 0 0] ∧
    (onVideoEvent env2 (seekTo env timeUs s).2).mVideoEventPending = false ∧
    (onVideoEvent env2 (seekTo env timeUs s).2).mFlags.SEEK_PREVIEW = false ∧
    (onVideoEvent env2 (seekTo env timeUs s).2).mSeeking = SeekType.SEEK ∧
    (onVideoEvent env2 (seekTo env timeUs s).2).mSeekTimeUs = timeUs ∧
    onVideoEvent env3 (onVideoEvent env2 (seekTo env timeUs s).2) =
      onVideoEvent env2 (seekTo env timeUs s).2 := by
  obtain ⟨_, h2, h3, h4, _⟩ := seekTo_accepted env timeUs s hcan hcache
  obtain ⟨h5, h6, h7⟩ := h4 hplay
  have hsp : (seekTo env timeUs s).2.mFlags.SEEK_PREVIEW = true := by
    rw [h6]; simp [hprep, hvid]
  have hpend : (seekTo env timeUs s).2.mVideoEventPending = true := by
    rw [h7]; simp [hprep, hvid]
  have hr : renders (seekTo env timeUs s).2.trace = renders s.trace := by simp
  generalize (seekTo env timeUs s).2 = x at *
  have hev : onVideoEvent env2 x =
      { x with mVideoEventPending := false, mFlags := { x.mFlags with SEEK_PREVIEW := false } } := by
    simp [onVideoEvent, hpend, hsp]
  rw [hev]
  refine ⟨hr, h5, rfl, rfl, h2, h3, ?_⟩
  simp [onVideoEvent]

theorem paused_seek_event_renders_nothing_witness :
    renders (onVideoEvent (atTime 0) (seekTo {} 1500000 pausedClip).2).trace =
        renders pausedClip.trace ∧
      (onVideoEvent (atTime 0) (seekTo {} 1500000 pausedClip).2).mVideoEventPending = false :=
  have h := paused_seek_event_renders_nothing {} (atTime 0) {} 1500000 pausedClip
    (by decide) (by decide) (by decide) (by decide) (by decide)
  ⟨h.1, h.2.2.1⟩

/-- Counterexample to C12 as stated: in scenario S2 the decoder has the frame at
1500000 us ready, yet `seekTo(1500000)` followed by the video event it posted
renders no frame. -/
theorem paused_seek_renders_no_frame :
    pausedClip.mFlags.PREPARED = true ∧ pausedClip.mFlags.PLAYING = false ∧
    (seekTo {} 1500000 pausedClip).2.mVideoEventPending = true ∧
    renderedTimes (onVideoEvent (atTime 0) (seekTo {} 1500000 pausedClip).2).trace = [] ∧
    (onVideoEvent (atTime 0) (seekTo {} 1500000 pausedClip).2).mVideoEventPending = false := by
  decide

/-! # C13: `AUDIO_RUNNING` -/

/-- C13 fails in the code: after a paused seek, a `play` that fails at the start
of its audio player, and `setAudioPlayer`, the pending video event starts the
audio player of a player that is not `PLAYING`. -/
theorem audio_running_while_not_playing :
    (run (sinkClip [frameAt 0, frameAt 33000]) [Op.seekTo {} 0]).mVideoEventPending = true ∧
    (play failEnv (run (sinkClip [frameAt 0, frameAt 33000]) [Op.seekTo {} 0])).1 =
      Status.UNKNOWN_ERROR ∧
    (run (sinkClip [frameAt 0, frameAt 33000])
      [Op.seekTo {} 0, Op.play failEnv]).mVideoEventPending = true ∧
    audioStartedWhilePaused.mFlags.AUDIO_RUNNING = true ∧
    audioStartedWhilePaused.mFlags.PLAYING = false := by
  decide

/-! # C14: `AT_EOS` and the end of the two streams -/

theorem emit_eosSession (a : Action) (s : Player) (h : EosSession s) :
    EosSession (emit a s) := by
  simp only [EosSession, emit] at h ⊢
  repeat' split
  all_goals simp_all

theorem notifyListener_l_eosSession (msg : Msg) (e1 e2 : Int) (s : Player) (h : EosSession s) :
    EosSession (notifyListener_l msg e1 e2 s) := by
  simp only [EosSession, notifyListener_l, emit] at h ⊢
  repeat' split
  all_goals simp_all

theorem postVideoEvent_l_eosSession (d : Int) (s : Player) (h : EosSession s) :
    EosSession (postVideoEvent_l d s) := by
  simp only [EosSession, postVideoEvent_l] at h ⊢
  repeat' split
  all_goals simp_all

theorem postStreamDoneEvent_l_eosSession (st : Status) (s : Player) (h : EosSession s) :
    EosSession (postStreamDoneEvent_l st s) := by
  simp only [EosSession, postStreamDoneEvent_l] at h ⊢
  repeat' split
  all_goals simp_all

theorem postCheckAudioStatusEvent_l_eosSession (d : Int) (s : Player) (h : EosSession s) :
    EosSession (postCheckAudioStatusEvent_l d s) := by
  simp only [EosSession, postCheckAudioStatusEvent_l] at h ⊢
  repeat' split
  all_goals simp_all

theorem postProgressCallbackEvent_l_eosSession (s : Player) (h : EosSession s) :
    EosSession (postProgressCallbackEvent_l s) := by
  simp only [EosSession, postProgressCallbackEvent_l] at h ⊢
  repeat' split
  all_goals simp_all

theorem postOverlayUpdateEvent_l_eosSession (s : Player) (h : EosSession s) :
    EosSession (postOverlayUpdateEvent_l s) := by
  simp only [EosSession, postOverlayUpdateEvent_l] at h ⊢
  repeat' split
  all_goals simp_all

theorem seekAudioIfNecessary_l_eosSession (s : Player) (h : EosSession s) :
    EosSession (seekAudioIfNecessary_l s) := by
  simp only [EosSession, seekAudioIfNecessary_l] at h ⊢
  repeat' split
  all_goals simp_all

theorem pause_l_eosSession (at_eos : Bool) (s : Player) (h : EosSession s) :
    EosSession ((pause_l at_eos s).2) := by
  simp only [EosSession, pause_l, pause_l_stop, PreviewPlayerBase.cancelPlayerEvents] at h ⊢
  repeat' split
  all_goals simp_all

theorem finishSeekIfNecessary_eosSession (t : Int) (s : Player) (h : EosSession s) :
    EosSession (finishSeekIfNecessary t s) := by
  simp only [EosSession, finishSeekIfNecessary] at h ⊢
  repeat' split
  all_goals simp_all

theorem initRenderer_l_eosSession (s : Player) (h : EosSession s) :
    EosSession (initRenderer_l s) := by
  simp only [EosSession, initRenderer_l] at h ⊢
  repeat' split
  all_goals simp_all

theorem updateSizeToRender_eosSession (s : Player) (h : EosSession s) :
    EosSession (updateSizeToRender s) := by
  simp only [EosSession, updateSizeToRender, emit] at h ⊢
  repeat' split
  all_goals simp_all

theorem notifyVideoSize_l_eosSession (s : Player) (h : EosSession s) :
    EosSession (notifyVideoSize_l s) := by
  simp only [EosSession, notifyVideoSize_l, notifyListener_l, emit] at h ⊢
  repeat' split
  all_goals simp_all

theorem setVideoFormat_eosSession (w h0 : Int) (s : Player) (h : EosSession s) :
    EosSession (setVideoFormat w h0 s) := by
  simp only [EosSession, setVideoFormat] at h ⊢
  repeat' split
  all_goals simp_all

theorem setReads_eosSession (r : List ReadResult) (s : Player) (h : EosSession s) :
    EosSession (setReads r s) := by
  simp only [EosSession, setReads] at h ⊢
  repeat' split
  all_goals simp_all

theorem pauseAudioForSeek_eosSession (s : Player) (h : EosSession s) :
    EosSession (pauseAudioForSeek s) := by
  simp only [EosSession, pauseAudioForSeek, emit] at h ⊢
  repeat' split
  all_goals simp_all

theorem countFrame_eosSession (t : Int) (s : Player) (h : EosSession s) :
    EosSession (countFrame t s) := by
  simp only [EosSession, countFrame] at h ⊢
  repeat' split
  all_goals simp_all

theorem notifyStartNext_eosSession (t : Int) (s : Player) (h : EosSession s) :
    EosSession (notifyStartNext t s) := by
  simp only [EosSession, notifyStartNext] at h ⊢
  repeat' split
  all_goals simp_all

theorem startAudioIfNeeded_eosSession (env : Env) (s : Player) (h : EosSession s) :
    EosSession ((startAudioIfNeeded env s).2) := by
  simp only [EosSession, startAudioIfNeeded, startAudioPlayer_l] at h ⊢
  repeat' split
  all_goals simp_all

theorem syncClock_eosSession (env : Env) (t : Int) (s : Player) (h : EosSession s) :
    EosSession (syncClock env t s) := by
  simp only [EosSession, syncClock, syncClock_mapping, syncClock_first] at h ⊢
  repeat' split
  all_goals simp_all

theorem setVideoPostProcessingNode_eosSession (ty : VideoEffectType) (en : Bool) (s : Player) (h : EosSession s) :
    EosSession (setVideoPostProcessingNode ty en s) := by
  simp only [EosSession, setVideoPostProcessingNode] at h ⊢
  repeat' split
  all_goals simp_all

theorem renderFrame_eosSession (b : MediaBuffer) (s : Player) (h : EosSession s) :
    EosSession (renderFrame b s) := by
  simp only [EosSession, renderFrame] at h ⊢
  repeat' split
  all_goals simp_all

theorem overlayUpdate_eosSession (s : Player) (h : EosSession s) :
    EosSession (overlayUpdate s) := by
  simp only [EosSession, overlayUpdate, overlayUpdate_framing, postOverlayUpdateEvent_l] at h ⊢
  repeat' split
  all_goals simp_all

theorem progressCallback_eosSession (s : Player) (h : EosSession s) :
    EosSession (progressCallback s) := by
  simp only [EosSession, progressCallback, postProgressCallbackEvent_l] at h ⊢
  repeat' split
  all_goals simp_all

theorem checkAudioSeekComplete_eosSession (env : Env) (s : Player) (h : EosSession s) :
    EosSession (checkAudioSeekComplete env s) := by
  simp only [EosSession, checkAudioSeekComplete] at h ⊢
  repeat' split
  all_goals simp_all

theorem checkAudioEOS_eosSession (env : Env) (s : Player) (h : EosSession s) :
    EosSession (checkAudioEOS env s) := by
  simp only [EosSession, checkAudioEOS, postStreamDoneEvent_l] at h ⊢
  repeat' split
  all_goals simp_all

theorem onProgressCbEvent_eosSession (s : Player) (h : EosSession s) :
    EosSession (onProgressCbEvent s) := by
  simp only [EosSession, onProgressCbEvent] at h ⊢
  repeat' split
  all_goals simp_all

theorem onUpdateOverlayEvent_eosSession (s : Player) (h : EosSession s) :
    EosSession (onUpdateOverlayEvent s) := by
  simp only [EosSession, onUpdateOverlayEvent] at h ⊢
  repeat' split
  all_goals simp_all

theorem setAudioPlayer_eosSession (ap : AudioPlayer) (s : Player) (h : EosSession s) :
    EosSession ((setAudioPlayer ap s).2) := by
  simp only [EosSession, setAudioPlayer, setAudioPlayer_attach] at h ⊢
  repeat' split
  all_goals simp_all

theorem play_l_audio_eosSession (env : Env) (s : Player) (h : EosSession s) :
    EosSession ((play_l_audio env s).2.2) := by
  simp only [EosSession, play_l_audio, play_l_newAudioPlayer, play_l_sharedAudioPlayer, play_l_source, play_l_changeSource, play_l_keepSource, play_l_audioRunning] at h ⊢
  repeat' split
  all_goals simp_all

theorem play_l_clock_eosSession (s : Player) (h : EosSession s) :
    EosSession (play_l_clock s) := by
  simp only [EosSession, play_l_clock] at h ⊢
  repeat' split
  all_goals simp_all

theorem play_l_jpgRead_eosSession (s : Player) (h : EosSession s) :
    EosSession (play_l_jpgRead s) := by
  simp only [EosSession, play_l_jpgRead, setReads, emit] at h ⊢
  repeat' split
  all_goals simp_all

theorem play_l_kick_eosSession (s : Player) (h : EosSession s) :
    EosSession (play_l_kick s) := by
  simp only [EosSession, play_l_kick, postVideoEvent_l] at h ⊢
  repeat' split
  all_goals simp_all

theorem seekTo_l_repost_eosSession (s : Player) (h : EosSession s) :
    EosSession (seekTo_l_repost s) := by
  simp only [EosSession, seekTo_l_repost, postVideoEvent_l] at h ⊢
  repeat' split
  all_goals simp_all

theorem seekTo_l_paused_eosSession (s : Player) (h : EosSession s) :
    EosSession (seekTo_l_paused s) := by
  simp only [EosSession, seekTo_l_paused, postVideoEvent_l] at h ⊢
  repeat' split
  all_goals simp_all

theorem seekTo_l_record_eosSession (t : Int) (s : Player) (h : EosSession s) :
    EosSession (seekTo_l_record t s) := by
  simp only [EosSession, seekTo_l_record] at h ⊢
  repeat' split
  all_goals simp_all

theorem markEos_eosSession (s : Player) (h : EosSession s) :
    EosSession (markEos s) := by
  simp only [EosSession, markEos, postStreamDoneEvent_l] at h ⊢
  repeat' split
  all_goals simp_all

theorem onReadError_eosSession (err : Status) (s : Player) (h : EosSession s) :
    EosSession (onReadError err s) := by
  simp only [EosSession, onReadError, postStreamDoneEvent_l, finishSeekIfNecessary] at h ⊢
  repeat' split
  all_goals simp_all

theorem onFirstReadError_eosSession (err : Status) (s : Player) (h : EosSession s) :
    EosSession (onFirstReadError err s) := by
  simp only [EosSession, onFirstReadError, postStreamDoneEvent_l] at h ⊢
  repeat' split
  all_goals simp_all

theorem dropLate_eosSession (b : MediaBuffer) (s : Player) (h : EosSession s) :
    EosSession (dropLate b s) := by
  simp only [EosSession, dropLate, postVideoEvent_l] at h ⊢
  repeat' split
  all_goals simp_all

theorem waitEarly_eosSession (s : Player) (h : EosSession s) :
    EosSession (waitEarly s) := by
  simp only [EosSession, waitEarly, postVideoEvent_l] at h ⊢
  repeat' split
  all_goals simp_all

theorem pause_eosSession (s : Player) (h : EosSession s) :
    EosSession ((pause s).2) := by
  simp only [EosSession, pause, pause_l, pause_l_stop, PreviewPlayerBase.cancelPlayerEvents] at h ⊢
  repeat' split
  all_goals simp_all

theorem postAudioEOS_eosSession (d : Int) (s : Player) (h : EosSession s) :
    EosSession (postAudioEOS d s) := by
  simp only [EosSession, postAudioEOS, postCheckAudioStatusEvent_l] at h ⊢
  repeat' split
  all_goals simp_all

theorem postAudioSeekComplete_eosSession (s : Player) (h : EosSession s) :
    EosSession (postAudioSeekComplete s) := by
  simp only [EosSession, postAudioSeekComplete, postCheckAudioStatusEvent_l] at h ⊢
  repeat' split
  all_goals simp_all
theorem eosSession_congr {s t : Player} (h : EosSession s)
    (hp : t.mFlags.PREPARED = true) (hc : t.mFlags.CACHE_UNDERRUN = false)
    (ha : t.mFlags.AT_EOS = s.mFlags.AT_EOS)
    (hv : t.mFlags.VIDEO_AT_EOS = s.mFlags.VIDEO_AT_EOS)
    (hau : t.mFlags.AUDIO_AT_EOS = s.mFlags.AUDIO_AT_EOS)
    (hvs : t.mVideoSource = s.mVideoSource) (has : t.mAudioSource = s.mAudioSource) :
    EosSession t := by
  simp only [EosSession, hp, hc, ha, hv, hau, hvs, has]
  exact ⟨trivial, trivial, h.2.2⟩

theorem onFormatChanged_eosSession (w h0 : Int) (s : Player) (h : EosSession s) :
    EosSession (onFormatChanged w h0 s) := by
  have h1 := notifyVideoSize_l_eosSession _ (setVideoFormat_eosSession w h0 s h)
  simp only [onFormatChanged, onFormatChanged_renderer]
  apply updateSizeToRender_eosSession
  split
  · apply initRenderer_l_eosSession
    simpa [EosSession] using h1
  · exact h1

theorem readVideoLoop_eosSession (reads : List ReadResult) (s : Player) (h : EosSession s) :
    EosSession (readVideoLoop reads s) := by
  induction reads generalizing s with
  | nil => exact onReadError_eosSession _ _ (setReads_eosSession _ _ h)
  | cons r rest ih =>
    cases r with
    | buffer b0 =>
      simp only [readVideoLoop]
      split
      · exact ih _ (emit_eosSession _ _ h)
      · split
        · exact ih _ (emit_eosSession _ _ h)
        · have h1 := setReads_eosSession rest s h
          simpa [EosSession] using h1
    | formatChanged w h' =>
      simp only [readVideoLoop]
      exact ih _ (onFormatChanged_eosSession _ _ _ h)
    | endOfStream => exact onReadError_eosSession _ _ (setReads_eosSession _ _ h)
    | error code => exact onReadError_eosSession _ _ (setReads_eosSession _ _ h)

theorem frameState_eosSession (s : Player) (h : EosSession s) : EosSession (frameState s) := by
  have h1 : EosSession (pauseAudioForSeek { s with mVideoEventPending := false }) :=
    pauseAudioForSeek_eosSession _ (by simpa [EosSession] using h)
  simp only [frameState, fetchFrame]
  split
  · exact h1
  · split
    · exact readVideoLoop_eosSession _ _ h1
    · exact h1

theorem ensureRenderer_eosSession (s : Player) (h : EosSession s) :
    EosSession (ensureRenderer s) := by
  simp only [ensureRenderer]
  split
  · apply initRenderer_l_eosSession
    simpa [EosSession] using h
  · exact h

theorem applyEffects_eosSession (t : Int) (s : Player) (h : EosSession s) :
    EosSession (applyEffects t s) := by
  simp only [applyEffects]
  generalize s.cfg.mEffectsSettings = l
  induction l generalizing s with
  | nil => exact h
  | cons e es ih =>
    simp only [List.foldl_cons]
    apply ih
    simp only [applyEffect]
    split
    · exact setVideoPostProcessingNode_eosSession _ _ _ h
    · exact h

theorem afterRender_eosSession (w : SeekType) (t : Int) (s : Player) (h : EosSession s) :
    EosSession (afterRender w t s) := by
  simp only [afterRender]
  split
  · exact markEos_eosSession _ h
  · split
    · simpa [EosSession] using h
    · exact postVideoEvent_l_eosSession _ _ h

theorem renderStage_eosSession (w : SeekType) (b : MediaBuffer) (s : Player)
    (h : EosSession s) : EosSession (renderStage w b s) := by
  have h1 := ensureRenderer_eosSession s h
  simp only [renderStage]
  split
  · simp only [dropPastEnd]
    apply markEos_eosSession
    simpa [EosSession] using h1
  · simp only [renderAndAdvance]
    apply afterRender_eosSession
    apply progressCallback_eosSession
    apply renderFrame_eosSession
    apply overlayUpdate_eosSession
    apply applyEffects_eosSession
    simpa [EosSession] using h1

theorem avSync_eosSession (env : Env) (w : SeekType) (b : MediaBuffer) (s : Player)
    (h : EosSession s) : EosSession (avSync env w b s) := by
  simp only [avSync]
  split
  · exact renderStage_eosSession _ _ _ h
  · have h1 := syncClock_eosSession env b.timeUs s h
    simp only [avSync_decide]
    split
    · exact dropLate_eosSession _ _ h1
    · split
      · exact waitEarly_eosSession _ h1
      · exact renderStage_eosSession _ _ _ h1

theorem processFrame_eosSession (env : Env) (b : MediaBuffer) (s : Player)
    (h : EosSession s) : EosSession (processFrame env b s) := by
  have h1 := startAudioIfNeeded_eosSession env _
    (finishSeekIfNecessary_eosSession b.timeUs _
      (notifyStartNext_eosSession b.timeUs _ (countFrame_eosSession b.timeUs s h)))
  simp only [processFrame, processFrame_seek]
  split
  · exact h1
  · simp only [processFrame_sync]
    split
    · simpa [EosSession] using h1
    · exact avSync_eosSession _ _ _ _ h1

theorem onVideoEvent_eosSession (env : Env) (s : Player) (h : EosSession s) :
    EosSession (onVideoEvent env s) := by
  simp only [onVideoEvent]
  split
  · exact h
  · split
    · simpa [EosSession] using h
    · split
      · exact frameState_eosSession s h
      · exact processFrame_eosSession _ _ _ (frameState_eosSession s h)

theorem seekTo_l_eosSession (env : Env) (t : Int) (s : Player) (h : EosSession s) :
    EosSession (seekTo_l env t s).2 := by
  have hc : s.mFlags.CACHE_UNDERRUN = false := h.2.1
  simp only [seekTo_l, seekTo_l_underrun, hc, Bool.false_eq_true, if_false, seekTo_l_body]
  exact seekTo_l_paused_eosSession _ (seekAudioIfNecessary_l_eosSession _
    (seekTo_l_record_eosSession _ _ (seekTo_l_repost_eosSession _ h)))

theorem seekTo_eosSession (env : Env) (t : Int) (s : Player) (h : EosSession s) :
    EosSession (seekTo env t s).2 := by
  simp only [seekTo]
  split
  · exact seekTo_l_eosSession _ _ _ h
  · exact h

theorem play_l_finish_eosSession (env : Env) (d : Bool) (s : Player) (h : EosSession s) :
    EosSession (play_l_finish env d s) := by
  have h0 := play_l_jpgRead_eosSession _ (play_l_clock_eosSession s h)
  have h1 := play_l_kick_eosSession _ h0
  have h2 : EosSession (play_l_deferred d (play_l_kick (play_l_jpgRead (play_l_clock s)))) := by
    simp only [play_l_deferred]
    split
    · exact seekAudioIfNecessary_l_eosSession _ h1
    · exact h1
  simp only [play_l_finish, play_l_post, play_l_replay]
  split
  · exact h0
  · split
    · exact seekTo_l_eosSession _ _ _ h2
    · exact h2

theorem play_l_run_eosSession (env : Env) (x : Player) (h : EosSession x) :
    EosSession (play_l_run env x).2 := by
  have h1 : EosSession (play_l_audio env
      { x with mFlags := { x.mFlags with PLAYING := true, FIRST_FRAME := true } }).2.2 :=
    play_l_audio_eosSession env _ (by simpa [EosSession] using h)
  simp only [play_l_run]
  split
  · exact h1
  · exact play_l_finish_eosSession _ _ _ h1

theorem play_eosSession (env : Env) (s : Player) (h : EosSession s) :
    EosSession (play env s).2 := by
  have hp : s.mFlags.PREPARED = true := h.1
  simp only [play, play_l]
  split
  · exact eosSession_congr h h.1 rfl rfl rfl rfl rfl rfl
  · simp only [play_l_prepare, hp, Bool.not_true, Bool.false_eq_true, if_false, ne_eq,
      not_true_eq_false]
    apply play_l_run_eosSession
    exact eosSession_congr h rfl rfl rfl rfl rfl rfl rfl

theorem prepare_eosSession (env : Env) (s : Player) (h : EosSession s) :
    EosSession (prepare env s).2 := by
  have hp : s.mFlags.PREPARED = true := h.1
  simpa [prepare, prepare_l, hp] using h

theorem onCheckAudioStatus_eosSession (env : Env) (s : Player) (h : EosSession s) :
    EosSession (onCheckAudioStatus env s) := by
  simp only [onCheckAudioStatus]
  split
  · exact h
  · exact checkAudioEOS_eosSession _ _ (checkAudioSeekComplete_eosSession _ _
      (by simpa [EosSession] using h))

theorem readFirstLoop_eosSession (reads : List ReadResult) (s : Player) (h : EosSession s) :
    EosSession (readFirstLoop reads s) := by
  induction reads generalizing s with
  | nil => exact onFirstReadError_eosSession _ _ (setReads_eosSession _ _ h)
  | cons r rest ih =>
    cases r with
    | buffer b0 =>
      simp only [readFirstLoop]
      split
      · exact ih _ (emit_eosSession _ _ h)
      · split
        · exact ih _ (emit_eosSession _ _ h)
        · have h1 := setReads_eosSession rest s h
          simpa [EosSession] using h1
    | formatChanged w h' =>
      simp only [readFirstLoop]
      exact ih _ (onFormatChanged_eosSession _ _ _ h)
    | endOfStream => exact onFirstReadError_eosSession _ _ (setReads_eosSession _ _ h)
    | error code => exact onFirstReadError_eosSession _ _ (setReads_eosSession _ _ h)

theorem readFirstVideoFrame_eosSession (s : Player) (h : EosSession s) :
    EosSession (readFirstVideoFrame s).2 := by
  have h1 : EosSession (fetchFirstFrame s) := by
    simp only [fetchFirstFrame]
    split
    · exact h
    · split
      · exact readFirstLoop_eosSession _ _ h
      · exact h
  simp only [readFirstVideoFrame]
  split
  · exact h1
  · simpa [EosSession] using h1

theorem pause_l_allDone (at_eos : Bool) (x : Player) :
    allDone (pause_l at_eos x).2 = allDone x := by
  simp only [allDone, pause_l, pause_l_stop, PreviewPlayerBase.cancelPlayerEvents]
  repeat' split
  all_goals rfl

theorem onStreamDone_inform_eosSession (y : Player) (h1 : EosSession y)
    (h2 : allDone y = true) : EosSession (onStreamDone_inform y) := by
  simp only [EosSession, onStreamDone_inform, allDone] at h1 h2 ⊢
  split
  all_goals simp_all
  all_goals tauto

/-- A stream-done event that does not fire with an error status keeps the
invariant: `AT_EOS` is set only when `allDone` holds. -/
theorem onStreamDone_eosSession (env : Env) (s : Player) (h : EosSession s)
    (hst : s.mStreamDoneEventPending = true →
      s.mStreamDoneStatus = Status.ERROR_END_OF_STREAM) :
    EosSession (onStreamDone env s) := by
  simp only [onStreamDone]
  split
  · exact h
  · rename_i hp
    have hp2 : s.mStreamDoneEventPending = true := by simpa using hp
    have h0 : EosSession { s with mStreamDoneEventPending := false } := by
      unfold EosSession
      exact h
    simp only [onStreamDone_fire, hst hp2, ne_eq, not_true_eq_false, if_false]
    split
    · exact h0
    · rename_i hall
      split
      · simp only [onStreamDone_loop]
        split
        · exact postVideoEvent_l_eosSession _ _ (seekTo_l_eosSession _ _ _ h0)
        · exact seekTo_l_eosSession _ _ _ h0
      · exact onStreamDone_inform_eosSession _ (pause_l_eosSession true _ h0)
          (by rw [pause_l_allDone]; simpa using hall)

theorem step_eosSession (s : Player) (op : Op) (h : EosSession s)
    (hk : keepsPrepared op = true) (hf : firesWithError s op = false) :
    EosSession (step s op) := by
  refine step_inv EosSession s op h (by simpa [EosSession] using h) (fun _ _ => ?_)
  cases op with
  | play env => exact play_eosSession env s h
  | pause => exact pause_eosSession s h
  | seekTo env timeUs => exact seekTo_eosSession env timeUs s h
  | prepare env => exact prepare_eosSession env s h
  | prepareAsync => simp [keepsPrepared] at hk
  | reset => simp [keepsPrepared] at hk
  | setDataSource uri => simp [keepsPrepared] at hk
  | readFirstVideoFrame => exact readFirstVideoFrame_eosSession s h
  | setAudioPlayer audioPlayer => exact setAudioPlayer_eosSession audioPlayer s h
  | onVideoEvent env => exact onVideoEvent_eosSession env s h
  | onStreamDone env =>
    refine onStreamDone_eosSession env s h (fun hp => ?_)
    simpa [firesWithError, hp] using hf
  | onCheckAudioStatus env => exact onCheckAudioStatus_eosSession env s h
  | onProgressCbEvent => exact onProgressCbEvent_eosSession s h
  | onUpdateOverlayEvent => exact onUpdateOverlayEvent_eosSession s h
  | onPrepareAsyncEvent env => simp [keepsPrepared] at hk
  | postAudioEOS delayUs => exact postAudioEOS_eosSession delayUs s h
  | postAudioSeekComplete => exact postAudioSeekComplete_eosSession s h

theorem run_eosSession (ops : List Op) (s : Player) (h : EosSession s)
    (hrun : eosRun s ops = true) : EosSession (run s ops) := by
  induction ops generalizing s with
  | nil => exact h
  | cons op ops ih =>
    simp only [eosRun, Bool.and_eq_true, Bool.not_eq_true'] at hrun
    exact ih _ (step_eosSession s op h hrun.1.1 hrun.1.2) hrun.2

/-- C14, as amended: from a prepared player outside a cache underrun that
satisfies the invariant, every run of operations other than `reset`,
`setDataSource`, `prepareAsync` and the prepare event, in which no stream-done
event fires with a status other than `ERROR_END_OF_STREAM`, ends in a state
where `AT_EOS` implies (`VIDEO_AT_EOS` or no video source) and (`AUDIO_AT_EOS`
or no audio source). -/
theorem at_eos_implies_streams_ended (s : Player) (ops : List Op) (h : EosSession s)
    (hrun : eosRun s ops = true) :
    (run s ops).mFlags.AT_EOS = true →
      ((run s ops).mFlags.VIDEO_AT_EOS = true ∨ (run s ops).mVideoSource = none) ∧
      ((run s ops).mFlags.AUDIO_AT_EOS = true ∨ (run s ops).mAudioSource = none) :=
  (run_eosSession ops s h hrun).2.2

theorem at_eos_implies_streams_ended_witness :
    EosSession (sinkClip [frameAt 0]) ∧ eosRun (sinkClip [frameAt 0]) playedToEnd = true ∧
    (run (sinkClip [frameAt 0]) playedToEnd).mFlags.AT_EOS = true ∧
    ((run (sinkClip [frameAt 0]) playedToEnd).mFlags.VIDEO_AT_EOS = true ∨
      (run (sinkClip [frameAt 0]) playedToEnd).mVideoSource = none) ∧
    ((run (sinkClip [frameAt 0]) playedToEnd).mFlags.AUDIO_AT_EOS = true ∨
      (run (sinkClip [frameAt 0]) playedToEnd).mAudioSource = none) :=
  have h0 : EosSession (sinkClip [frameAt 0]) := by
    unfold EosSession
    decide
  have h1 : (run (sinkClip [frameAt 0]) playedToEnd).mFlags.AT_EOS = true := by decide
  ⟨h0, by decide, h1,
    at_eos_implies_streams_ended (sinkClip [frameAt 0]) playedToEnd h0 (by decide) h1⟩

/-- C14 fails as stated: when the audio player of a playing clip ends with the
status 5, the stream-done event sets `AT_EOS` while the video source exists and
`VIDEO_AT_EOS` is clear. -/
theorem at_eos_after_error_without_video_eos :
    EosSession (sinkClip [frameAt 0, frameAt 33000]) ∧
    (run (sinkClip [frameAt 0, frameAt 33000])
      [Op.play {}, Op.onVideoEvent (atTime 0), Op.postAudioEOS 0,
        Op.onCheckAudioStatus (audioEndEnv (Status.other 5))]).mStreamDoneStatus =
      Status.other 5 ∧
    audioErrorAtEos.mFlags.AT_EOS = true ∧
    audioErrorAtEos.mFlags.VIDEO_AT_EOS = false ∧
    audioErrorAtEos.mVideoSource ≠ none ∧
    notes audioErrorAtEos.trace = [Note.error (Status.other 5)] := by
  unfold EosSession
  decide

/-! # C15: `INFORMED_AV_EOS` -/

theorem onStreamDone_informed (env : Env) (s : Player)
    (hc : s.mFlags.CACHE_UNDERRUN = false) (hset : s.mFlags.INFORMED_AV_EOS = true) :
    (onStreamDone env s).mFlags.INFORMED_AV_EOS = true := by
  simp only [onStreamDone]
  split
  · exact hset
  · simp only [onStreamDone_fire]
    split
    · simpa using hset
    · split
      · simpa using hset
      · split
        · rw [(onStreamDone_loop_clear env _ (by simpa using hc)).1]
          simpa using hset
        · simp only [onStreamDone_inform]
          split <;> simp_all

theorem step_informed (s : Player) (op : Op) (h : keepsSession s op = true)
    (hc : s.mFlags.CACHE_UNDERRUN = false) (hset : s.mFlags.INFORMED_AV_EOS = true) :
    (step s op).mFlags.INFORMED_AV_EOS = true ∧ (step s op).mFlags.CACHE_UNDERRUN = false := by
  refine step_inv
    (fun t => t.mFlags.INFORMED_AV_EOS = true ∧ t.mFlags.CACHE_UNDERRUN = false)
    s op ⟨hset, hc⟩ ⟨hset, hc⟩ (fun _ _ => ⟨?_, (call_keepsSession s op h hc).1⟩)
  by_cases hop : ∀ env, op ≠ Op.onStreamDone env
  · rw [(call_keepsSession s op h hc).2 hop]
    exact hset
  · push_neg at hop
    obtain ⟨env, rfl⟩ := hop
    exact onStreamDone_informed env s hc hset

theorem run_informed (ops : List Op) (s : Player) (h : sessionRun s ops = true)
    (hc : s.mFlags.CACHE_UNDERRUN = false) (hset : s.mFlags.INFORMED_AV_EOS = true) :
    (run s ops).mFlags.INFORMED_AV_EOS = true := by
  induction ops generalizing s with
  | nil => exact hset
  | cons op ops ih =>
    simp only [sessionRun, Bool.and_eq_true] at h
    have h1 := step_informed s op h.1 hc hset
    exact ih (step s op) h.2 h1.2 h1.1

/-- C15, as amended: once `INFORMED_AV_EOS` is set, outside a cache underrun,
every run of operations and event handlers that holds no `play`, `reset`,
`setDataSource` or prepare event, and in which every `prepare` finds the player
prepared or preparing, leaves it set, so it is set at most once between two of
these; `play`, `reset` and `setDataSource` clear it. -/
theorem informed_av_eos_latched (env : Env) (uri : Uri) (s : Player) (ops : List Op)
    (hops : sessionRun s ops = true)
    (hc : s.mFlags.CACHE_UNDERRUN = false)
    (hset : s.mFlags.INFORMED_AV_EOS = true) :
    (run s ops).mFlags.INFORMED_AV_EOS = true ∧
    (play env (run s ops)).2.mFlags.INFORMED_AV_EOS = false ∧
    (reset (run s ops)).mFlags.INFORMED_AV_EOS = false ∧
    (setDataSource uri (run s ops)).2.mFlags.INFORMED_AV_EOS = false := by
  refine ⟨run_informed ops s hops hc hset, (play_clear env _).1, ?_, ?_⟩
  · simp [reset, reset_l, reset_fields]
  · simp [setDataSource, reset_l, reset_fields]

theorem informed_av_eos_latched_witness :
    emptyCutClip.mFlags.INFORMED_AV_EOS = true ∧
    (run emptyCutClip [Op.pause, Op.seekTo {} 0, Op.prepare {}, Op.onVideoEvent (atTime 0),
      Op.onStreamDone {}]).mFlags.INFORMED_AV_EOS = true :=
  ⟨by decide,
    (informed_av_eos_latched {} {} emptyCutClip
      [Op.pause, Op.seekTo {} 0, Op.prepare {}, Op.onVideoEvent (atTime 0), Op.onStreamDone {}]
      (by decide) (by decide) (by decide)).1⟩

/-- Counterexample to C15 as stated: `reset` and `setDataSource` clear
`INFORMED_AV_EOS`, and so does the prepare event that `prepareAsync` posts,
which clears the bit 2048 under its name `PREPARING_CONNECTED`. -/
theorem reset_clears_informed_av_eos :
    emptyCutClip.mFlags.INFORMED_AV_EOS = true ∧
    (step emptyCutClip Op.reset).mFlags.INFORMED_AV_EOS = false ∧
    (step emptyCutClip (Op.setDataSource { size := 9 })).mFlags.INFORMED_AV_EOS = false ∧
    (run emptyCutClip [Op.prepareAsync]).mFlags.INFORMED_AV_EOS = true ∧
    (run emptyCutClip [Op.prepareAsync, Op.onPrepareAsyncEvent {}]).mFlags.INFORMED_AV_EOS =
      false := by
  decide

/-! # C16: a stream-done event with an error status -/

theorem pause_l_flags_after (at_eos : Bool) (s : Player) :
    (pause_l at_eos s).2.mFlags.PLAYING = false ∧
    (pause_l at_eos s).2.mFlags.AUDIO_RUNNING =
      (s.mFlags.AUDIO_RUNNING && !(s.mFlags.PLAYING && s.mAudioPlayer.isSome)) ∧
    notes (pause_l at_eos s).2.trace = notes s.trace := by
  simp only [pause_l, pause_l_stop, PreviewPlayerBase.cancelPlayerEvents]
  cases hp : s.mFlags.PLAYING <;> cases ha : s.mFlags.AUDIO_RUNNING <;>
    cases hb : s.mAudioPlayer <;> cases at_eos <;> simp_all [noteOf]

/-- C16, as amended: when a pending stream-done event fires with a status other
than `ERROR_END_OF_STREAM`, `onStreamDone` notifies one `MEDIA_ERROR` with that
status and no `MEDIA_PLAYBACK_COMPLETE`, clears `PLAYING`, sets `AT_EOS` and
leaves `INFORMED_AV_EOS` as it is; `AUDIO_RUNNING` is cleared when the player
was `PLAYING` with an audio player, and is left as it was otherwise. -/
theorem stream_done_error_pauses (env : Env) (s : Player)
    (hp : s.mStreamDoneEventPending = true)
    (hst : s.mStreamDoneStatus ≠ Status.ERROR_END_OF_STREAM) :
    notes (onStreamDone env s).trace = notes s.trace ++ [Note.error s.mStreamDoneStatus] ∧
    (onStreamDone env s).mFlags.PLAYING = false ∧
    (onStreamDone env s).mFlags.AT_EOS = true ∧
    (onStreamDone env s).mFlags.INFORMED_AV_EOS = s.mFlags.INFORMED_AV_EOS ∧
    (onStreamDone env s).mFlags.AUDIO_RUNNING =
      (s.mFlags.AUDIO_RUNNING && !(s.mFlags.PLAYING && s.mAudioPlayer.isSome)) ∧
    (onStreamDone env s).mStreamDoneEventPending = false := by
  have hev : onStreamDone env s = onStreamDone_error { s with mStreamDoneEventPending := false } := by
    simp [onStreamDone, onStreamDone_fire, hp, hst]
  obtain ⟨h1, h2, h3⟩ := pause_l_flags_after true
    (emit (Action.notifyError s.mStreamDoneStatus) { s with mStreamDoneEventPending := false })
  rw [hev]
  refine ⟨?_, ?_, ?_, ?_, ?_, ?_⟩
  · simp only [onStreamDone_error]
    rw [h3]
    simp [emit, noteOf]
  · simp only [onStreamDone_error]
    exact h1
  · simp [onStreamDone_error]
  · simp
  · simp only [onStreamDone_error]
    rw [h2]
    simp [emit]
  · simp only [onStreamDone_error, pause_l, pause_l_stop, PreviewPlayerBase.cancelPlayerEvents,
      emit]
    repeat' split
    all_goals simp

theorem stream_done_error_pauses_witness :
    readErrorPending.mStreamDoneEventPending = true ∧
    readErrorPending.mStreamDoneStatus = Status.other 7 ∧
    readErrorPending.mFlags.PLAYING = true ∧
    readErrorPending.mFlags.AUDIO_RUNNING = true ∧
    notes (onStreamDone {} readErrorPending).trace =
      notes readErrorPending.trace ++ [Note.error (Status.other 7)] ∧
    (onStreamDone {} readErrorPending).mFlags.PLAYING = false ∧
    (onStreamDone {} readErrorPending).mFlags.AT_EOS = true ∧
    (onStreamDone {} readErrorPending).mFlags.AUDIO_RUNNING = false :=
  have h := stream_done_error_pauses {} readErrorPending (by decide) (by decide)
  ⟨by decide, by decide, by decide, by decide,
    h.1.trans (by decide), h.2.1, h.2.2.1, h.2.2.2.2.1.trans (by decide)⟩

/-- C16 fails as stated: a stream-done event with the status 5 fires on a player
that is not `PLAYING` while `AUDIO_RUNNING` is set; the error is notified and
`AT_EOS` is set, but `AUDIO_RUNNING` stays set. -/
theorem stream_done_error_keeps_audio_running :
    audioErrorPending.mStreamDoneEventPending = true ∧
    audioErrorPending.mStreamDoneStatus = Status.other 5 ∧
    audioErrorPending.mFlags.PLAYING = false ∧
    audioErrorPending.mFlags.AUDIO_RUNNING = true ∧
    notes (onStreamDone {} audioErrorPending).trace =
      notes audioErrorPending.trace ++ [Note.error (Status.other 5)] ∧
    (onStreamDone {} audioErrorPending).mFlags.AT_EOS = true ∧
    (onStreamDone {} audioErrorPending).mFlags.AUDIO_RUNNING = true := by
  decide

/-! # C17: `setAudioPlayer` -/

/-- C17, as amended: on a player with an audio source B that is not playing
(the call aborts on a playing one), `setAudioPlayer` sets
`mIsChangeSourceRequired` to false exactly when the current source A of the
shared player is the dummy audio source, B is the dummy audio source, and the
video source is not a decoder other than the dummy video source (it is the
dummy video source, or absent, or names no decoder component); in that case the
duration of A becomes the end cut time in us and B is stopped; in every other
case `mIsChangeSourceRequired` is true, A is as it was and nothing is called. -/
theorem setAudioPlayer_change_required (ap : AudioPlayer) (s : Player) (b : MediaSource)
    (hb : s.mAudioSource = some b) (hnp : s.mFlags.PLAYING = false) :
    ((setAudioPlayer ap s).2.mIsChangeSourceRequired = false ↔
      (ap.source.any (fun a => a.hasDecoderComponent && a.isDummy) = true ∧
        (b.hasDecoderComponent && b.isDummy) = true ∧
        s.mVideoSource.all (fun v => !v.hasDecoderComponent || v.isDummy) = true)) ∧
    ((setAudioPlayer ap s).2.mIsChangeSourceRequired = false →
      ∀ a, ap.source = some a →
        (setAudioPlayer ap s).2.mAudioPlayer =
          some { ap with source := some { a with
            durationUs := some ((s.cfg.mPlayEndTimeMsec : Int) * 1000) } } ∧
        (setAudioPlayer ap s).2.trace = s.trace ++
          [Action.audioSource (SourceCall.setDuration ((s.cfg.mPlayEndTimeMsec : Int) * 1000)),
            Action.audioSource SourceCall.stop]) ∧
    ((setAudioPlayer ap s).2.mIsChangeSourceRequired = true →
      (setAudioPlayer ap s).2.mAudioPlayer = some ap ∧
        (setAudioPlayer ap s).2.trace = s.trace) ∧
    (setAudioPlayer ap s).1 = Status.OK := by
  simp only [setAudioPlayer, hnp, Bool.false_eq_true, if_false, setAudioPlayer_attach,
    keepsAudioSource, hb]
  cases ha : ap.source with
  | none => simp
  | some a =>
    cases hv : s.mVideoSource with
    | none =>
      cases h1 : a.hasDecoderComponent <;> cases h2 : a.isDummy <;>
        cases h3 : b.hasDecoderComponent <;> cases h4 : b.isDummy <;> simp [h1, h2, h3, h4]
    | some v =>
      cases h1 : a.hasDecoderComponent <;> cases h2 : a.isDummy <;>
        cases h3 : b.hasDecoderComponent <;> cases h4 : b.isDummy <;>
        cases h5 : v.hasDecoderComponent <;> cases h6 : v.isDummy <;>
        simp [h1, h2, h3, h4, h5, h6]

theorem setAudioPlayer_change_required_witness :
    (setAudioPlayer sharedDummyPlayer (imageClip 4000)).2.mIsChangeSourceRequired = false ∧
    (setAudioPlayer sharedDummyPlayer (imageClip 4000)).2.mAudioPlayer =
      some { source := some (dummyAudioSource 4000000) } ∧
    (setAudioPlayer sharedDummyPlayer (imageClip 4000)).2.trace = (imageClip 4000).trace ++
      [Action.audioSource (SourceCall.setDuration 4000000),
        Action.audioSource SourceCall.stop] :=
  have h := setAudioPlayer_change_required sharedDummyPlayer (imageClip 4000)
    (dummyAudioSource 4000000) (by decide) (by decide)
  have hk : (setAudioPlayer sharedDummyPlayer (imageClip 4000)).2.mIsChangeSourceRequired = false :=
    h.1.mpr (by decide)
  ⟨hk, (h.2.1 hk (dummyAudioSource 2000000) rfl).1, (h.2.1 hk (dummyAudioSource 2000000) rfl).2⟩

/-- Counterexample to C17 as stated: on a clip that has the dummy audio source
and no video source at all, `setAudioPlayer` with a shared player on the dummy
audio source sets `mIsChangeSourceRequired` to false. -/
theorem setAudioPlayer_keeps_source_without_video :
    silentClip.mFlags.PREPARED = true ∧
    silentClip.mVideoSource = none ∧
    silentClip.mAudioSource = some (dummyAudioSource 4000000) ∧
    (setAudioPlayer sharedDummyPlayer silentClip).2.mIsChangeSourceRequired = false := by
  decide

/-! # C18: `play` with a shared audio player -/

theorem audioCalls_append (l₁ l₂ : List Action) :
    audioCalls (l₁ ++ l₂) = audioCalls l₁ ++ audioCalls l₂ := by
  simp [audioCalls]

theorem seekAudioIfNecessary_l_audioCalls (x : Player) :
    ∃ seeks, (∀ c ∈ seeks, isAudioSeek c = true) ∧ (x.mVideoSource ≠ none → seeks = []) ∧
      audioCalls (seekAudioIfNecessary_l x).trace = audioCalls x.trace ++ seeks := by
  simp only [seekAudioIfNecessary_l]
  split
  · rename_i h
    exact ⟨[AudioCall.seekTo x.mSeekTimeUs], by simp [isAudioSeek],
      fun hv => absurd h.2.1 hv, by simp [audioCalls, audioCallOf]⟩
  · exact ⟨[], by simp, fun _ => rfl, by simp⟩

theorem postVideoEvent_l_audioCalls (dl : Int) (x : Player) :
    audioCalls (postVideoEvent_l dl x).trace = audioCalls x.trace := by
  simp only [postVideoEvent_l]
  split <;> simp [audioCalls, audioCallOf]

theorem play_l_replay_audioCalls (env : Env) (y : Player)
    (hc : y.mFlags.CACHE_UNDERRUN = false) :
    ∃ seeks, (∀ c ∈ seeks, isAudioSeek c = true) ∧ (y.mVideoSource ≠ none → seeks = []) ∧
      audioCalls (play_l_replay env y).trace = audioCalls y.trace ++ seeks := by
  simp only [play_l_replay]
  split
  · simp only [seekTo_l, seekTo_l_underrun, hc, Bool.false_eq_true, if_false, seekTo_l_body]
    obtain ⟨seeks2, hs2, hv2, he2⟩ := seekAudioIfNecessary_l_audioCalls
      (seekTo_l_record 0 (seekTo_l_repost y))
    have h3 : audioCalls (seekTo_l_record 0 (seekTo_l_repost y)).trace = audioCalls y.trace := by
      simp only [seekTo_l_record, seekTo_l_repost]
      split
      · exact postVideoEvent_l_audioCalls _ _
      · rfl
    have h4 : ∀ x : Player, audioCalls (seekTo_l_paused x).trace = audioCalls x.trace := by
      intro x
      simp only [seekTo_l_paused, postVideoEvent_l]
      repeat' split
      all_goals simp [audioCalls, audioCallOf]
    exact ⟨seeks2, hs2, fun hv => hv2 (by simpa using hv), by rw [h4, he2, h3]⟩
  · exact ⟨[], by simp, fun _ => rfl, by simp⟩

/-- The steps of `play_l` after the audio player is set up call nothing on it
but `seekTo`, and that only for a player without a video source; they leave the
audio player as it is. -/
theorem play_l_finish_audioCalls (env : Env) (d : Bool) (s : Player)
    (hcache : s.mFlags.CACHE_UNDERRUN = false) :
    (∃ seeks, (∀ c ∈ seeks, isAudioSeek c = true) ∧ (s.mVideoSource ≠ none → seeks = []) ∧
      audioCalls (play_l_finish env d s).trace = audioCalls s.trace ++ seeks) ∧
    (play_l_finish env d s).mAudioPlayer = s.mAudioPlayer := by
  have h0 : audioCalls (play_l_jpgRead (play_l_clock s)).trace = audioCalls s.trace := by
    simp only [play_l_jpgRead, play_l_clock, setReads, emit]
    repeat' split
    all_goals simp [audioCalls, audioCallOf]
  by_cases hab : (play_l_jpgRead (play_l_clock s)).aborted = true
  · simp only [play_l_finish, if_pos hab]
    exact ⟨⟨[], by simp, fun _ => rfl, by simp [h0]⟩, by simp⟩
  have h1 : audioCalls (play_l_kick (play_l_jpgRead (play_l_clock s))).trace =
      audioCalls s.trace := by
    simp only [play_l_kick]
    split
    · rw [postVideoEvent_l_audioCalls]
      simp only [play_l_jpgRead, play_l_clock, setReads, emit]
      repeat' split
      all_goals simp [audioCalls, audioCallOf]
    · simp only [play_l_jpgRead, play_l_clock, setReads, emit]
      repeat' split
      all_goals simp [audioCalls, audioCallOf]
  have hv1 : s.mVideoSource ≠ none →
      (play_l_kick (play_l_jpgRead (play_l_clock s))).mVideoSource ≠ none := by
    intro hv
    cases hvs : s.mVideoSource with
    | none => exact absurd hvs hv
    | some v =>
      simp only [play_l_kick, play_l_jpgRead, play_l_clock, setReads, emit, postVideoEvent_l]
      repeat' split
      all_goals simp_all
  have h2 : ∃ seeks, (∀ c ∈ seeks, isAudioSeek c = true) ∧ (s.mVideoSource ≠ none → seeks = []) ∧
      audioCalls (play_l_deferred d (play_l_kick (play_l_jpgRead (play_l_clock s)))).trace =
        audioCalls s.trace ++ seeks := by
    simp only [play_l_deferred]
    split
    · obtain ⟨seeks, hs, hv, he⟩ :=
        seekAudioIfNecessary_l_audioCalls (play_l_kick (play_l_jpgRead (play_l_clock s)))
      exact ⟨seeks, hs, fun h => hv (hv1 h), by rw [he, h1]⟩
    · exact ⟨[], by simp, fun _ => rfl, by simp [h1]⟩
  have hv2 : s.mVideoSource ≠ none →
      (play_l_deferred d (play_l_kick (play_l_jpgRead (play_l_clock s)))).mVideoSource ≠ none := by
    intro hv
    have := hv1 hv
    simp only [play_l_deferred]
    split
    · simpa using this
    · exact this
  have hc : (play_l_deferred d (play_l_kick (play_l_jpgRead (play_l_clock s)))).mFlags.CACHE_UNDERRUN
      = false := by simpa using hcache
  constructor
  · obtain ⟨seeks, hs, hv, he⟩ := h2
    obtain ⟨seeks2, hs2, hvv2, he2⟩ := play_l_replay_audioCalls env _ hc
    refine ⟨seeks ++ seeks2, ?_, ?_, ?_⟩
    · intro c hcm
      rcases List.mem_append.mp hcm with h | h
      · exact hs c h
      · exact hs2 c h
    · intro h
      rw [hv h, hvv2 (hv2 h)]
      rfl
    · simp only [play_l_finish, if_neg hab, play_l_post]
      rw [he2, he, List.append_assoc]
  · simp only [play_l_finish, if_neg hab, play_l_post, play_l_replay]
    split
    · simp only [seekTo_l, seekTo_l_underrun, hc, Bool.false_eq_true, if_false, seekTo_l_body]
      simp
    · simp

/-- C18: when `play` runs on a prepared player that is not `PLAYING`, has an
audio source and has the shared audio player `ap` attached, then with
`mIsChangeSourceRequired == false` it calls on the audio player only the
storyboard-skim setter and `resume` (and, on a player without a video source,
`seekTo` for a pending seek), never
`setSource`, `pause` or `start`, the audio player keeps its source, and the
call returns `OK` unless the read of a still image, which comes after the
calls on the audio player, aborts the process; with
`mIsChangeSourceRequired == true` it calls `pause` iff the audio player is
started, then `setSource`, `setObserver`, the mix settings and the skim setter,
then `resume` iff it is started and `start` otherwise, and on success the
source of the audio player is the audio source of this player. -/
theorem play_shared_audio_player (env : Env) (s : Player) (ap : AudioPlayer)
    (hplay : s.mFlags.PLAYING = false) (hprep : s.mFlags.PREPARED = true)
    (hsrc : s.mAudioSource ≠ none) (hap : s.mAudioPlayer = some ap) :
    (s.mIsChangeSourceRequired = false →
      ((play env s).2.aborted = false → (play env s).1 = Status.OK) ∧
      (play env s).2.mAudioPlayer = some ap ∧
      ∃ seeks, (∀ c ∈ seeks, isAudioSeek c = true) ∧ (s.mVideoSource ≠ none → seeks = []) ∧
        audioCalls (play env s).2.trace = audioCalls s.trace ++
          [AudioCall.setAudioMixStoryBoardSkimTimeStamp s.cfg.mAudioMixStoryBoardTS
              s.cfg.mCurrentMediaBeginCutTime s.cfg.mCurrentMediaVolumeValue,
            AudioCall.resume] ++ seeks) ∧
    (s.mIsChangeSourceRequired = true →
      ((play env s).1 = Status.OK →
        (play env s).2.mAudioPlayer = some { ap with source := s.mAudioSource }) ∧
      ∃ seeks, (∀ c ∈ seeks, isAudioSeek c = true) ∧ (s.mVideoSource ≠ none → seeks = []) ∧
        audioCalls (play env s).2.trace = audioCalls s.trace ++
          ((if env.audioIsStarted then [AudioCall.pause false] else []) ++
            [AudioCall.setSource, AudioCall.setObserver, AudioCall.setAudioMixSettings,
              AudioCall.setAudioMixStoryBoardSkimTimeStamp s.cfg.mAudioMixStoryBoardTS
                s.cfg.mCurrentMediaBeginCutTime s.cfg.mCurrentMediaVolumeValue] ++
            (if env.audioIsStarted then [AudioCall.resume] else [AudioCall.start])) ++ seeks) := by
  have hrun : ∃ x, play env s = play_l_run env x ∧ x.cfg = s.cfg ∧
      x.mVideoSource = s.mVideoSource ∧
      x.mAudioSource = s.mAudioSource ∧ x.mAudioPlayer = s.mAudioPlayer ∧
      x.trace = s.trace ∧ x.mIsChangeSourceRequired = s.mIsChangeSourceRequired ∧
      x.mFlags.CACHE_UNDERRUN = false := by
    simp only [play, play_l, hplay, Bool.false_eq_true, if_false, play_l_prepare, hprep,
      Bool.not_true, ne_eq, not_true_eq_false]
    exact ⟨_, rfl, by simp⟩
  obtain ⟨x, hx, hcfg, hxv, hxsrc, hxap, hxtr, hxchg, hxc⟩ := hrun
  rw [hx, ← hcfg, ← hxtr, ← hxsrc, ← hxchg, ← hxv]
  rw [← hxsrc] at hsrc
  rw [← hxap] at hap
  clear hx hcfg hxsrc hxap hxtr hxchg hplay hprep hxv
  have hfin := fun (y : Player) (hy : y.mFlags.CACHE_UNDERRUN = false) =>
    play_l_finish_audioCalls env true y hy
  constructor
  · intro hkeep
    have ha : play_l_audio env
        { x with mFlags := { x.mFlags with PLAYING := true, FIRST_FRAME := true } } =
        (Status.OK, true, play_l_audioRunning (play_l_keepSource
          { x with mFlags := { x.mFlags with PLAYING := true, FIRST_FRAME := true } })) := by
      simp [play_l_audio, hsrc, hap, play_l_sharedAudioPlayer, play_l_source, hkeep]
    simp only [play_l_run, ha, ne_eq, not_true_eq_false, if_false]
    obtain ⟨⟨seeks, hs, hvs, he⟩, hp⟩ := hfin
      (play_l_audioRunning (play_l_keepSource
        { x with mFlags := { x.mFlags with PLAYING := true, FIRST_FRAME := true } }))
      (by simp [play_l_audioRunning, play_l_keepSource, hxc])
    refine ⟨fun hlive => by simp [play_l_status, hlive], ?_, seeks, hs, ?_, ?_⟩
    · rw [hp]
      simp [play_l_audioRunning, play_l_keepSource, hap]
    · intro h
      exact hvs (by simpa [play_l_audioRunning, play_l_keepSource] using h)
    · rw [he]
      simp [play_l_audioRunning, play_l_keepSource, audioCalls, audioCallOf]
  · intro hchg
    by_cases hfail : env.audioIsStarted = false ∧ env.audioStart ≠ Status.OK
    · have ha : play_l_audio env
          { x with mFlags := { x.mFlags with PLAYING := true, FIRST_FRAME := true } } =
          (env.audioStart, false, (play_l_changeSource env ap
            { x with mFlags := { x.mFlags with PLAYING := true, FIRST_FRAME := true } }).2) := by
        simp [play_l_audio, hsrc, hap, play_l_sharedAudioPlayer, play_l_source, hchg,
          play_l_changeSource, hfail]
      simp only [play_l_run, ha]
      rw [if_pos hfail.2]
      refine ⟨fun h => absurd h hfail.2, [], by simp, fun _ => rfl, ?_⟩
      simp [play_l_changeSource, hfail, changeSourceCalls, audioCalls, audioCallOf]
    · have hok : ¬ (env.audioIsStarted = false ∧ ¬ env.audioStart = Status.OK) := hfail
      have ha : play_l_audio env
          { x with mFlags := { x.mFlags with PLAYING := true, FIRST_FRAME := true } } =
          (Status.OK, true, play_l_audioRunning (play_l_changeSource env ap
            { x with mFlags := { x.mFlags with PLAYING := true, FIRST_FRAME := true } }).2) := by
        simp [play_l_audio, hsrc, hap, play_l_sharedAudioPlayer, play_l_source, hchg,
          play_l_changeSource, hok]
      simp only [play_l_run, ha, ne_eq, not_true_eq_false, if_false]
      obtain ⟨⟨seeks, hs, hvs, he⟩, hp⟩ := hfin
        (play_l_audioRunning (play_l_changeSource env ap
          { x with mFlags := { x.mFlags with PLAYING := true, FIRST_FRAME := true } }).2)
        (by simp [play_l_audioRunning, play_l_changeSource, hok, hxc])
      refine ⟨fun _ => ?_, seeks, hs, ?_, ?_⟩
      · rw [hp]
        simp [play_l_audioRunning, play_l_changeSource, hok]
      · intro h
        exact hvs (by simpa [play_l_audioRunning, play_l_changeSource, hok] using h)
      · rw [he]
        cases hst : env.audioIsStarted
        · have hst2 : env.audioStart = Status.OK := by simpa [hst] using hok
          simp [play_l_audioRunning, play_l_changeSource, changeSourceCalls, audioCalls,
            audioCallOf, hst, hst2]
        · simp [play_l_audioRunning, play_l_changeSource, changeSourceCalls, audioCalls,
            audioCallOf, hst]

theorem play_shared_audio_player_witness :
    (play {} imageClipShared).2.aborted = false ∧
    (play {} imageClipShared).1 = Status.OK ∧
    (play {} imageClipShared).2.mAudioPlayer =
      some { source := some (dummyAudioSource 4000000) } ∧
    audioCalls (play {} imageClipShared).2.trace =
      [AudioCall.setAudioMixStoryBoardSkimTimeStamp 0 0 0, AudioCall.resume] :=
  have h := (play_shared_audio_player {} imageClipShared
    { source := some (dummyAudioSource 4000000) }
    (by decide) (by decide) (by decide) (by decide)).1 (by decide)
  ⟨by decide, h.1 (by decide), h.2.1, by decide⟩

/-! # C19: the overlay-update notification -/

@[simp] theorem emit_overlay (a : Action) (s : Player) :
    overlayState (emit a s) = overlayState s := rfl

@[simp] theorem notifyListener_l_overlay (msg : Msg) (e1 e2 : Int) (s : Player) :
    overlayState (notifyListener_l msg e1 e2 s) = overlayState s := rfl

@[simp] theorem postStreamDoneEvent_l_overlay (st : Status) (s : Player) :
    overlayState (postStreamDoneEvent_l st s) = overlayState s := by
  simp only [postStreamDoneEvent_l]; split <;> rfl

@[simp] theorem postProgressCallbackEvent_l_overlay (s : Player) :
    overlayState (postProgressCallbackEvent_l s) = overlayState s := by
  simp only [postProgressCallbackEvent_l]; split <;> rfl

@[simp] theorem finishSeekIfNecessary_overlay (t : Int) (s : Player) :
    overlayState (finishSeekIfNecessary t s) = overlayState s := by
  simp only [finishSeekIfNecessary]; repeat' split
  all_goals rfl

@[simp] theorem initRenderer_l_overlay (s : Player) :
    overlayState (initRenderer_l s) = overlayState s := by
  simp only [initRenderer_l]; repeat' split
  all_goals rfl

@[simp] theorem updateSizeToRender_overlay (s : Player) :
    overlayState (updateSizeToRender s) = overlayState s := by
  simp only [updateSizeToRender]; split <;> rfl

@[simp] theorem notifyVideoSize_l_overlay (s : Player) :
    overlayState (notifyVideoSize_l s) = overlayState s := by
  simp only [notifyVideoSize_l]; split <;> rfl

@[simp] theorem setVideoFormat_overlay (w h : Int) (s : Player) :
    overlayState (setVideoFormat w h s) = overlayState s := rfl

@[simp] theorem setReads_overlay (r : List ReadResult) (s : Player) :
    overlayState (setReads r s) = overlayState s := rfl

@[simp] theorem onFormatChanged_overlay (w h : Int) (s : Player) :
    overlayState (onFormatChanged w h s) = overlayState s := by
  have h1 : ∀ x : Player, overlayState { x with mVideoRendererIsPreview := false } =
      overlayState x := fun _ => rfl
  simp only [onFormatChanged, onFormatChanged_renderer]
  split <;> simp only [updateSizeToRender_overlay, initRenderer_l_overlay, h1,
    notifyVideoSize_l_overlay, setVideoFormat_overlay]

@[simp] theorem countFrame_overlay (t : Int) (s : Player) :
    overlayState (countFrame t s) = overlayState s := rfl

@[simp] theorem notifyStartNext_overlay (t : Int) (s : Player) :
    overlayState (notifyStartNext t s) = overlayState s := by
  simp only [notifyStartNext]; split <;> rfl

@[simp] theorem startAudioIfNeeded_overlay (env : Env) (s : Player) :
    overlayState (startAudioIfNeeded env s).2 = overlayState s := by
  simp only [startAudioIfNeeded, startAudioPlayer_l]; repeat' split
  all_goals rfl

@[simp] theorem syncClock_overlay (env : Env) (t : Int) (s : Player) :
    overlayState (syncClock env t s) = overlayState s := by
  simp only [syncClock, syncClock_mapping, syncClock_first]; repeat' split
  all_goals rfl

@[simp] theorem ensureRenderer_overlay (s : Player) :
    overlayState (ensureRenderer s) = overlayState s := by
  have h1 : ∀ x : Player, overlayState { x with mVideoRendererIsPreview := false } =
      overlayState x := fun _ => rfl
  simp only [ensureRenderer]
  split
  · simp only [initRenderer_l_overlay, h1]
  · rfl

theorem play_audio_start_fails (env : Env) (s : Player)
    (hplay : s.mFlags.PLAYING = false) (hprep : s.mFlags.PREPARED = true)
    (hsrc : s.mAudioSource ≠ none)
    (hstart : (s.mAudioPlayer = none ∧ s.cfg.mAudioSink = true) ∨
      (s.mAudioPlayer ≠ none ∧ s.mIsChangeSourceRequired = true ∧ env.audioIsStarted = false))
    (hfail : env.audioStart ≠ Status.OK) :
    (play env s).1 = env.audioStart ∧
    notes (play env s).2.trace = notes s.trace ∧
    (play env s).2.mFlags.PLAYING = false ∧
    (play env s).2.mFlags.FIRST_FRAME = false ∧
    (play env s).2.mAudioPlayer = none := by
  simp only [play, play_l, hplay, Bool.false_eq_true, if_false, play_l_prepare, hprep,
    Bool.not_true, ne_eq, not_true_eq_false, play_l_run, play_l_audio, hsrc, not_false_eq_true,
    if_true]
  rcases hstart with ⟨h1, h2⟩ | ⟨h1, h2, h3⟩
  · simp [h1, h2, play_l_newAudioPlayer, hfail, newAudioPlayerCalls, noteOf]
  · cases hap : s.mAudioPlayer with
    | none => exact absurd hap h1
    | some ap =>
      simp [play_l_sharedAudioPlayer, play_l_source, h2, play_l_changeSource, h3, hfail,
        changeSourceCalls, noteOf]

theorem startAudioIfNeeded_fails (env : Env) (x : Player)
    (h : (startAudioIfNeeded env x).1 ≠ Status.OK) :
    (startAudioIfNeeded env x).1 = env.audioStart ∧
    notes (startAudioIfNeeded env x).2.trace = notes x.trace ++ [Note.error env.audioStart] := by
  simp only [startAudioIfNeeded, startAudioPlayer_l] at h ⊢
  repeat' split
  all_goals simp_all [noteOf]

theorem event_audio_start_fails (env : Env) (s : Player) (b : MediaBuffer)
    (hpend : s.mVideoEventPending = true) (hsp : s.mFlags.SEEK_PREVIEW = false)
    (hb : (frameState s).mVideoBuffer = some b)
    (hfail : (syncInput env b s).1 ≠ Status.OK) :
    onVideoEvent env s = (syncInput env b s).2 ∧
    (syncInput env b s).1 = env.audioStart ∧
    notes (syncInput env b s).2.trace =
      notes (finishSeekIfNecessary b.timeUs
        (notifyStartNext b.timeUs (countFrame b.timeUs (frameState s)))).trace ++
        [Note.error env.audioStart] ∧
    (syncInput env b s).2.mFlags.PLAYING = s.mFlags.PLAYING ∧
    (syncInput env b s).2.mFlags.FIRST_FRAME =
      (finishSeekIfNecessary b.timeUs
        (notifyStartNext b.timeUs (countFrame b.timeUs (frameState s)))).mFlags.FIRST_FRAME ∧
    (syncInput env b s).2.mVideoBuffer = some b ∧
    (syncInput env b s).2.mVideoEventPending = false := by
  have hev : onVideoEvent env s = (syncInput env b s).2 := by
    simp only [onVideoEvent, hpend, hsp, hb, processFrame, processFrame_seek]
    simp only [syncInput] at hfail
    simp [hfail, syncInput]
  have hf := startAudioIfNeeded_fails env _ hfail
  exact ⟨hev, hf.1, hf.2, by simp [syncInput], by simp [syncInput], by simp [syncInput, hb],
    by simp [syncInput, frameState_notPending]⟩

/-- C20, as amended: a failing start of the audio player in `play` makes `play`
return the error, clears `PLAYING` and `FIRST_FRAME` and drops the audio
player, and notifies nothing; a failing start in the video event notifies
`MEDIA_ERROR` with the error and ends the event with the frame held, and leaves
`PLAYING` and `FIRST_FRAME` as they were. -/
theorem audio_start_failure (env env2 : Env) (s s2 : Player) (b : MediaBuffer)
    (hplay : s.mFlags.PLAYING = false) (hprep : s.mFlags.PREPARED = true)
    (hsrc : s.mAudioSource ≠ none)
    (hstart : (s.mAudioPlayer = none ∧ s.cfg.mAudioSink = true) ∨
      (s.mAudioPlayer ≠ none ∧ s.mIsChangeSourceRequired = true ∧ env.audioIsStarted = false))
    (hfail : env.audioStart ≠ Status.OK)
    (hpend : s2.mVideoEventPending = true) (hsp : s2.mFlags.SEEK_PREVIEW = false)
    (hb : (frameState s2).mVideoBuffer = some b)
    (hfail2 : (syncInput env2 b s2).1 ≠ Status.OK) :
    ((play env s).1 = env.audioStart ∧
      notes (play env s).2.trace = notes s.trace ∧
      (play env s).2.mFlags.PLAYING = false ∧
      (play env s).2.mFlags.FIRST_FRAME = false ∧
      (play env s).2.mAudioPlayer = none) ∧
    ((syncInput env2 b s2).1 = env2.audioStart ∧
      notes (onVideoEvent env2 s2).trace =
        notes (finishSeekIfNecessary b.timeUs
          (notifyStartNext b.timeUs (countFrame b.timeUs (frameState s2)))).trace ++
          [Note.error env2.audioStart] ∧
      (onVideoEvent env2 s2).mFlags.PLAYING = s2.mFlags.PLAYING ∧
      (onVideoEvent env2 s2).mFlags.FIRST_FRAME =
        (finishSeekIfNecessary b.timeUs
          (notifyStartNext b.timeUs (countFrame b.timeUs (frameState s2)))).mFlags.FIRST_FRAME ∧
      (onVideoEvent env2 s2).mVideoBuffer = some b ∧
      (onVideoEvent env2 s2).mVideoEventPending = false) := by
  obtain ⟨h1, h2, h3, h4, h5, h6, h7⟩ := event_audio_start_fails env2 s2 b hpend hsp hb hfail2
  rw [h1]
  exact ⟨play_audio_start_fails env s hplay hprep hsrc hstart hfail, h2, h3, h4, h5, h6, h7⟩

theorem audio_start_failure_witness :
    (play failEnv (sinkClip [frameAt 0])).1 = Status.UNKNOWN_ERROR ∧
    notes (play failEnv (sinkClip [frameAt 0])).2.trace = notes (sinkClip [frameAt 0]).trace ∧
    attachedAfterFailedPlay.aborted = false ∧
    (onVideoEvent failEnv attachedAfterFailedPlay).mFlags.PLAYING =
      attachedAfterFailedPlay.mFlags.PLAYING ∧
    (onVideoEvent failEnv attachedAfterFailedPlay).mVideoBuffer =
      some { timeUs := 0, rangeLength := 1 } :=
  have h := audio_start_failure failEnv failEnv (sinkClip [frameAt 0]) attachedAfterFailedPlay
    { timeUs := 0, rangeLength := 1 }
    (by decide) (by decide) (by decide) (by decide) (by decide) (by decide) (by decide)
    (by decide) (by decide)
  ⟨h.1.1, h.1.2.1, by decide, h.2.2.2.1, h.2.2.2.2.2.1⟩

/-- Counterexample to C20 as stated: the start of the audio player fails in
`play`, which returns the error and clears `PLAYING` and `FIRST_FRAME` but
notifies no `MEDIA_ERROR`. That failed `play` leaves the video event of an
earlier seek pending; after a new `setAudioPlayer` the start fails in that
event, on a player that is not `PLAYING`: the event notifies `MEDIA_ERROR` and
`FIRST_FRAME`, which the event has set, stays set. -/
theorem audio_start_failure_half_handled :
    (play failEnv (sinkClip [frameAt 0])).1 = Status.UNKNOWN_ERROR ∧
    notes (play failEnv (sinkClip [frameAt 0])).2.trace = [] ∧
    (play failEnv (sinkClip [frameAt 0])).2.mFlags.PLAYING = false ∧
    (play failEnv (sinkClip [frameAt 0])).2.mFlags.FIRST_FRAME = false ∧
    attachedAfterFailedPlay.aborted = false ∧
    attachedAfterFailedPlay.mFlags.PLAYING = false ∧
    attachedAfterFailedPlay.mFlags.FIRST_FRAME = false ∧
    notes (newActions attachedAfterFailedPlay
      (step attachedAfterFailedPlay (Op.onVideoEvent failEnv))) =
      [Note.error Status.UNKNOWN_ERROR] ∧
    (step attachedAfterFailedPlay (Op.onVideoEvent failEnv)).mFlags.FIRST_FRAME = true := by
  decide

/-! # C21: a decoder that fails during prepare -/

theorem abortPrepare_prepared (err : Status) (s : Player) :
    (abortPrepare err s).mFlags.PREPARED = s.mFlags.PREPARED := by
  simp [abortPrepare]

theorem onPrepareAsyncEvent_source_prepared (env : Env) (s : Player) :
    (onPrepareAsyncEvent_source env s).2.mFlags.PREPARED = s.mFlags.PREPARED := by
  simp only [onPrepareAsyncEvent_source, finishSetDataSource_l, setDataSource_l_jpg,
    setDataSource_l_jpg_video, setDataSource_l_extractor, setDataSource_l_tracks]
  repeat' split
  all_goals simp_all

/-- C21, as amended: in a prepare event that is not cancelled and whose source
is set up, a failure of the video decoder initialisation aborts the prepare
with that status whatever the audio track would do, a failure of the audio
decoder initialisation after a successful video decoder initialisation aborts
it with that status, and in both cases `PREPARED` is left as it was; the
result is `OK` with `PREPARED` set only when both steps return `OK`. -/
theorem prepare_event_needs_both_decoders (env : Env) (s : Player)
    (hc : s.mFlags.PREPARE_CANCELLED = false)
    (hsrc : (onPrepareAsyncEvent_source env s).1 = Status.OK) :
    ((onPrepareAsyncEvent_video env (onPrepareAsyncEvent_source env s).2).1 ≠ Status.OK →
      (onPrepareAsyncEvent env s).mPrepareResult =
        (onPrepareAsyncEvent_video env (onPrepareAsyncEvent_source env s).2).1 ∧
      (onPrepareAsyncEvent env s).mFlags.PREPARED = s.mFlags.PREPARED) ∧
    ((onPrepareAsyncEvent_video env (onPrepareAsyncEvent_source env s).2).1 = Status.OK →
      (onPrepareAsyncEvent_audio env
        (onPrepareAsyncEvent_video env (onPrepareAsyncEvent_source env s).2).2).1 ≠ Status.OK →
      (onPrepareAsyncEvent env s).mPrepareResult =
        (onPrepareAsyncEvent_audio env
          (onPrepareAsyncEvent_video env (onPrepareAsyncEvent_source env s).2).2).1 ∧
      (onPrepareAsyncEvent env s).mFlags.PREPARED = s.mFlags.PREPARED) ∧
    ((onPrepareAsyncEvent_video env (onPrepareAsyncEvent_source env s).2).1 = Status.OK →
      (onPrepareAsyncEvent_audio env
        (onPrepareAsyncEvent_video env (onPrepareAsyncEvent_source env s).2).2).1 = Status.OK →
      (onPrepareAsyncEvent env s).mPrepareResult = Status.OK ∧
      (onPrepareAsyncEvent env s).mFlags.PREPARED = true) := by
  have h0 := onPrepareAsyncEvent_source_prepared env s
  simp only [onPrepareAsyncEvent, hc, Bool.false_eq_true, if_false, hsrc, ne_eq,
    not_true_eq_false, onPrepareAsyncEvent_decoders, onPrepareAsyncEvent_finish]
  generalize (onPrepareAsyncEvent_source env s).2 = x at h0 ⊢
  refine ⟨?_, ?_, ?_⟩
  · intro hv
    rw [if_pos hv]
    exact ⟨abortPrepare_result _ _, by rw [abortPrepare_prepared]; simpa using h0⟩
  · intro hv ha
    rw [if_neg (by simpa using hv), if_pos ha]
    exact ⟨abortPrepare_result _ _, by rw [abortPrepare_prepared]; simpa using h0⟩
  · intro hv ha
    rw [if_neg (by simpa using hv), if_neg (by simpa using ha)]
    exact ⟨by simp [finishAsyncPrepare_l], finishAsyncPrepare_l_prepared _⟩

theorem prepare_event_needs_both_decoders_witness :
    (onPrepareAsyncEvent (noAudioCodecEnv [frameAt 0]) sourcedPlayer).mPrepareResult =
      Status.UNKNOWN_ERROR ∧
    (onPrepareAsyncEvent (noAudioCodecEnv [frameAt 0]) sourcedPlayer).mFlags.PREPARED = false ∧
    (onPrepareAsyncEvent (bothTracksEnv [frameAt 0]) sourcedPlayer).mPrepareResult = Status.OK ∧
    (onPrepareAsyncEvent (bothTracksEnv [frameAt 0]) sourcedPlayer).mFlags.PREPARED = true :=
  have h := (prepare_event_needs_both_decoders (noAudioCodecEnv [frameAt 0]) sourcedPlayer
    (by decide) (by decide)).2.1 (by decide) (by decide)
  have h2 := (prepare_event_needs_both_decoders (bothTracksEnv [frameAt 0]) sourcedPlayer
    (by decide) (by decide)).2.2 (by decide) (by decide)
  ⟨h.1.trans (by decide), h.2.trans (by decide), h2.1, h2.2⟩

/-- C21 fails as stated: with a video decoder that initialises and an audio
track without a decoder, `prepare` returns `UNKNOWN_ERROR` and the player is
not `PREPARED`, although the video source is up; and with a raw audio track and
a video track without a decoder it fails in the same way. Only the missing
decoder of a QCELP track is passed over. -/
theorem prepare_fails_when_one_decoder_fails :
    (prepare (noAudioCodecEnv [frameAt 0]) sourcedPlayer).1 = Status.UNKNOWN_ERROR ∧
    (prepare (noAudioCodecEnv [frameAt 0]) sourcedPlayer).2.mFlags.PREPARED = false ∧
    (prepare (noAudioCodecEnv [frameAt 0]) sourcedPlayer).2.mVideoSource ≠ none ∧
    (prepare noVideoCodecEnv sourcedPlayer).1 = Status.UNKNOWN_ERROR ∧
    (prepare noVideoCodecEnv sourcedPlayer).2.mFlags.PREPARED = false ∧
    (prepare (bothTracksEnv [frameAt 0]) sourcedPlayer).1 = Status.OK ∧
    (prepare (qcelpEnv [frameAt 0]) sourcedPlayer).1 = Status.OK ∧
    (prepare (qcelpEnv [frameAt 0]) sourcedPlayer).2.mAudioSource = none ∧
    (prepare (qcelpEnv [frameAt 0]) sourcedPlayer).2.mFlags.PREPARED = true := by
  decide

/-! # C22: the progress value -/

theorem toInt32_of_range (x : Int) (h0 : -2147483648 ≤ x) (h1 : x < 2147483648) :
    toInt32 x = x := by
  simp only [toInt32]
  rw [Int.emod_eq_of_lt (by omega) (by omega)]
  omega

theorem progressMs_at (s : Player) (ts : Int) :
    progressMs { s with mDecodedVideoTs := ts } =
      if Int.tdiv ts 1000 < (s.cfg.mPlayBeginTimeMsec : Int) then
        Int.tdiv s.cfg.mDecVideoTsStoryBoard 1000
      else Int.tdiv (ts + s.cfg.mDecVideoTsStoryBoard) 1000 - (s.cfg.mPlayBeginTimeMsec : Int) :=
  rfl

theorem progressMs_nonneg (s : Player) (ts : Int) (hoff : 0 ≤ s.cfg.mDecVideoTsStoryBoard)
    (h0 : 0 ≤ ts) : 0 ≤ progressMs { s with mDecodedVideoTs := ts } := by
  rw [progressMs_at]
  have hb : (0 : Int) ≤ (s.cfg.mPlayBeginTimeMsec : Int) := Int.ofNat_nonneg _
  have e0 := Int.tdiv_add_tmod s.cfg.mDecVideoTsStoryBoard 1000
  have e1 := Int.tdiv_add_tmod ts 1000
  have e2 := Int.tdiv_add_tmod (ts + s.cfg.mDecVideoTsStoryBoard) 1000
  have m0 := Int.tmod_nonneg (1000 : Int) hoff
  have m0' := Int.tmod_lt_of_pos s.cfg.mDecVideoTsStoryBoard (by norm_num : (0 : Int) < 1000)
  have m1 := Int.tmod_nonneg (1000 : Int) h0
  have m1' := Int.tmod_lt_of_pos ts (by norm_num : (0 : Int) < 1000)
  have m2 := Int.tmod_nonneg (1000 : Int) (by omega : 0 ≤ ts + s.cfg.mDecVideoTsStoryBoard)
  have m2' := Int.tmod_lt_of_pos (ts + s.cfg.mDecVideoTsStoryBoard)
    (by norm_num : (0 : Int) < 1000)
  split <;> omega

theorem progressMs_mono (s : Player) (ts1 ts2 : Int) (hoff : 0 ≤ s.cfg.mDecVideoTsStoryBoard)
    (h0 : 0 ≤ ts1) (h12 : ts1 ≤ ts2) :
    progressMs { s with mDecodedVideoTs := ts1 } ≤ progressMs { s with mDecodedVideoTs := ts2 } ∧
    ((s.cfg.mPlayBeginTimeMsec : Int) ≤ Int.tdiv ts1 1000 → 1000 ≤ ts2 - ts1 →
      progressMs { s with mDecodedVideoTs := ts1 } <
        progressMs { s with mDecodedVideoTs := ts2 }) := by
  rw [progressMs_at, progressMs_at]
  have hb : (0 : Int) ≤ (s.cfg.mPlayBeginTimeMsec : Int) := Int.ofNat_nonneg _
  have e0 := Int.tdiv_add_tmod s.cfg.mDecVideoTsStoryBoard 1000
  have e1 := Int.tdiv_add_tmod ts1 1000
  have e2 := Int.tdiv_add_tmod ts2 1000
  have e3 := Int.tdiv_add_tmod (ts1 + s.cfg.mDecVideoTsStoryBoard) 1000
  have e4 := Int.tdiv_add_tmod (ts2 + s.cfg.mDecVideoTsStoryBoard) 1000
  have m0 := Int.tmod_nonneg (1000 : Int) hoff
  have m0' := Int.tmod_lt_of_pos s.cfg.mDecVideoTsStoryBoard (by norm_num : (0 : Int) < 1000)
  have m1 := Int.tmod_nonneg (1000 : Int) h0
  have m1' := Int.tmod_lt_of_pos ts1 (by norm_num : (0 : Int) < 1000)
  have m2 := Int.tmod_nonneg (1000 : Int) (by omega : 0 ≤ ts2)
  have m2' := Int.tmod_lt_of_pos ts2 (by norm_num : (0 : Int) < 1000)
  have m3 := Int.tmod_nonneg (1000 : Int) (by omega : 0 ≤ ts1 + s.cfg.mDecVideoTsStoryBoard)
  have m3' := Int.tmod_lt_of_pos (ts1 + s.cfg.mDecVideoTsStoryBoard)
    (by norm_num : (0 : Int) < 1000)
  have m4 := Int.tmod_nonneg (1000 : Int) (by omega : 0 ≤ ts2 + s.cfg.mDecVideoTsStoryBoard)
  have m4' := Int.tmod_lt_of_pos (ts2 + s.cfg.mDecVideoTsStoryBoard)
    (by norm_num : (0 : Int) < 1000)
  constructor
  · split <;> split <;> omega
  · intro hb1 hd
    split <;> split <;> omega

/-- C22, as amended: with a storyboard offset that is not negative, the progress
value `p(ts)` that `onProgressCbEvent` computes is monotone in the decoded time
stamp `ts ≥ 0`, and strictly so for time stamps at or after the begin cut that
are 1000 us or more apart; the event reports `p(ts)` converted to `int`, which
is `p(ts)` itself as long as `p(ts) < 2^31`, so the reported `ext2` values are
ordered in the same way for time stamps with `p(ts2) < 2^31`. -/
theorem progress_value_monotone (s : Player) (ts1 ts2 : Int)
    (hoff : 0 ≤ s.cfg.mDecVideoTsStoryBoard) (h0 : 0 ≤ ts1) (h12 : ts1 ≤ ts2)
    (hp : s.mProgressCbEventPending = true) :
    progressMs { s with mDecodedVideoTs := ts1 } ≤ progressMs { s with mDecodedVideoTs := ts2 } ∧
    ((s.cfg.mPlayBeginTimeMsec : Int) ≤ Int.tdiv ts1 1000 → 1000 ≤ ts2 - ts1 →
      progressMs { s with mDecodedVideoTs := ts1 } <
        progressMs { s with mDecodedVideoTs := ts2 }) ∧
    notes (onProgressCbEvent { s with mDecodedVideoTs := ts2 }).trace =
      notes s.trace ++
        [Note.event Msg.MEDIA_INFO 0 (toInt32 (progressMs { s with mDecodedVideoTs := ts2 }))] ∧
    (progressMs { s with mDecodedVideoTs := ts2 } < 2147483648 →
      toInt32 (progressMs { s with mDecodedVideoTs := ts1 }) =
        progressMs { s with mDecodedVideoTs := ts1 } ∧
      toInt32 (progressMs { s with mDecodedVideoTs := ts2 }) =
        progressMs { s with mDecodedVideoTs := ts2 }) := by
  obtain ⟨hm, hs⟩ := progressMs_mono s ts1 ts2 hoff h0 h12
  have hn1 := progressMs_nonneg s ts1 hoff h0
  have hn2 := progressMs_nonneg s ts2 hoff (by omega)
  refine ⟨hm, hs, ?_, ?_⟩
  · simp [onProgressCbEvent, hp, noteOf]
  · intro hlt
    exact ⟨toInt32_of_range _ (by omega) (by omega), toInt32_of_range _ (by omega) (by omega)⟩

theorem progress_value_monotone_witness :
    progressMs { shortClipProgress with mDecodedVideoTs := 0 } <
      progressMs { shortClipProgress with mDecodedVideoTs := 1000000 } ∧
    notes shortClipProgress.trace =
      [Note.event Msg.MEDIA_INFO 0 0, Note.event Msg.MEDIA_INFO 0 1000] :=
  have h := progress_value_monotone
    { shortClipProgress with mProgressCbEventPending := true } 0 1000000
    (by decide) (by decide) (by decide) rfl
  ⟨h.2.1 (by decide) (by decide), by decide⟩

/-- C22 fails as stated: on a clip cut to 0..3000000000 ms the frames at
2147483647000 us and 2147483648000 us are rendered in turn, and the progress
notifications carry 2147483647 and then -2147483648, because the 64-bit value
is passed as an `int`. -/
theorem progress_value_wraps :
    renderedTimes longClipProgress.trace = [2147483647000, 2147483648000] ∧
    notes longClipProgress.trace =
      [Note.event Msg.MEDIA_INFO 0 2147483647, Note.event Msg.MEDIA_INFO 0 (-2147483648)] := by
  decide

/-! # C23: a stream-done event with the status end-of-stream -/

theorem seekTo_l_seeking (env : Env) (timeUs : Int) (s : Player) :
    (seekTo_l env timeUs s).2.mSeeking = SeekType.SEEK ∧
    (seekTo_l env timeUs s).2.mSeekTimeUs = timeUs := by
  simp only [seekTo_l, seekTo_l_body, seekTo_l_paused, seekAudioIfNecessary_l, seekTo_l_record,
    postVideoEvent_l]
  constructor <;> (repeat' split) <;> simp_all

theorem seekTo_l_body_pending (timeUs : Int) (s : Player) :
    (s.mVideoSource = none →
      (seekTo_l_body timeUs s).2.mVideoEventPending = s.mVideoEventPending) := by
  intro h
  simp only [seekTo_l_body, seekTo_l_paused, seekAudioIfNecessary_l, seekTo_l_record,
    seekTo_l_repost, postVideoEvent_l]
  repeat' split
  all_goals simp_all

theorem onStreamDone_fire_eos (env : Env) (t : Player)
    (ht : t.mStreamDoneStatus = Status.ERROR_END_OF_STREAM) :
    onStreamDone_fire env t =
      if allDone t = false then t
      else if (t.mFlags.LOOPING || t.mFlags.AUTO_LOOPING) = true then onStreamDone_loop env t
      else onStreamDone_inform (pause_l true t).2 := by
  simp only [onStreamDone_fire, ht, ne_eq, not_true_eq_false, if_false]
  cases allDone t <;> simp

/-- C23, as amended: when a pending stream-done event fires with the status
end-of-stream, playback is all-done iff (no video source or `VIDEO_AT_EOS`) and
(no audio source or `AUDIO_AT_EOS`). When it is not all-done only the pending
mark changes. When it is all-done and `LOOPING` or `AUTO_LOOPING` is set, the
player seeks to 0 (seek state `SEEK`, target 0), `AT_EOS` is clear and no
`MEDIA_PLAYBACK_COMPLETE` is notified; outside a cache underrun a video event
is pending afterwards when there is a video source, and without a video source
none is posted. When it is all-done without looping, `PLAYING` is cleared and
`AT_EOS` is set. -/
theorem stream_done_end_of_stream (env : Env) (s : Player)
    (hp : s.mStreamDoneEventPending = true)
    (hst : s.mStreamDoneStatus = Status.ERROR_END_OF_STREAM) :
    (allDone s = true ↔
      (s.mVideoSource = none ∨ s.mFlags.VIDEO_AT_EOS = true) ∧
      (s.mAudioSource = none ∨ s.mFlags.AUDIO_AT_EOS = true)) ∧
    (allDone s = false → onStreamDone env s = { s with mStreamDoneEventPending := false }) ∧
    (allDone s = true → (s.mFlags.LOOPING || s.mFlags.AUTO_LOOPING) = true →
      (onStreamDone env s).mSeeking = SeekType.SEEK ∧
      (onStreamDone env s).mSeekTimeUs = 0 ∧
      (onStreamDone env s).mFlags.AT_EOS = false ∧
      playbackCompleteCount (onStreamDone env s).trace = playbackCompleteCount s.trace ∧
      (s.mFlags.CACHE_UNDERRUN = false → s.mVideoSource ≠ none →
        (onStreamDone env s).mVideoEventPending = true) ∧
      (s.mFlags.CACHE_UNDERRUN = false → s.mVideoSource = none →
        (onStreamDone env s).mVideoEventPending = s.mVideoEventPending)) ∧
    (allDone s = true → (s.mFlags.LOOPING || s.mFlags.AUTO_LOOPING) = false →
      (onStreamDone env s).mFlags.PLAYING = false ∧
      (onStreamDone env s).mFlags.AT_EOS = true) := by
  have hst1 : ({ s with mStreamDoneEventPending := false } : Player).mStreamDoneStatus =
      Status.ERROR_END_OF_STREAM := hst
  have hfire := onStreamDone_fire_eos env { s with mStreamDoneEventPending := false } hst1
  have hev0 : onStreamDone env s =
      onStreamDone_fire env { s with mStreamDoneEventPending := false } := by
    simp only [onStreamDone, hp]
    rfl
  have hall : allDone { s with mStreamDoneEventPending := false } = allDone s := rfl
  have hlp : ({ s with mStreamDoneEventPending := false } : Player).mFlags = s.mFlags := rfl
  rw [hall, hlp] at hfire
  refine ⟨by simp [allDone], ?_, ?_, ?_⟩
  · intro h
    rw [hev0, hfire, if_pos h]
  · intro h hl
    have hev : onStreamDone env s =
        onStreamDone_loop env { s with mStreamDoneEventPending := false } := by
      rw [hev0, hfire, if_neg (by simp [h]), if_pos hl]
    rw [hev]
    obtain ⟨hs1, hs2⟩ := seekTo_l_seeking env 0 { s with mStreamDoneEventPending := false }
    have hat := seekTo_l_not_atEos env 0 { s with mStreamDoneEventPending := false }
    refine ⟨?_, ?_, ?_, ?_, ?_, ?_⟩
    · simp only [onStreamDone_loop]
      split
      · simpa using hs1
      · exact hs1
    · simp only [onStreamDone_loop]
      split
      · simpa using hs2
      · exact hs2
    · simp only [onStreamDone_loop]
      split
      · simpa using hat
      · exact hat
    · simp only [onStreamDone_loop]
      split <;> simp
    · intro hc hv
      have hvs : (seekTo_l env 0 { s with mStreamDoneEventPending := false }).2.mVideoSource ≠
          none := by
        simp only [seekTo_l, seekTo_l_underrun, hc, Bool.false_eq_true, if_false]
        simpa using hv
      simp only [onStreamDone_loop, hvs, ne_eq, not_false_eq_true, if_true, postVideoEvent_l]
      split <;> simp_all
    · intro hc hv
      have hvs : (seekTo_l env 0 { s with mStreamDoneEventPending := false }).2.mVideoSource =
          none := by
        simp only [seekTo_l, seekTo_l_underrun, hc, Bool.false_eq_true, if_false]
        simpa using hv
      simp only [onStreamDone_loop, hvs, ne_eq, not_true_eq_false, if_false]
      simp only [seekTo_l, seekTo_l_underrun, hc, Bool.false_eq_true, if_false]
      exact seekTo_l_body_pending 0 _ hv
  · intro h hl
    have hev : onStreamDone env s =
        onStreamDone_inform (pause_l true { s with mStreamDoneEventPending := false }).2 := by
      rw [hev0, hfire, if_neg (by simp [h]), if_neg (by simp [hl])]
    rw [hev]
    have hpl := pause_l_not_playing true { s with mStreamDoneEventPending := false }
    constructor
    · simp only [onStreamDone_inform]
      split <;> simpa using hpl
    · simp only [onStreamDone_inform]
      split <;> simp

theorem stream_done_end_of_stream_witness :
    allDone loopingAtEnd = true ∧ loopingAtEnd.mFlags.LOOPING = true ∧
    (onStreamDone {} loopingAtEnd).mSeeking = SeekType.SEEK ∧
    (onStreamDone {} loopingAtEnd).mSeekTimeUs = 0 ∧
    (onStreamDone {} loopingAtEnd).mFlags.AT_EOS = false ∧
    (onStreamDone {} loopingAtEnd).mVideoEventPending = true :=
  have h := (stream_done_end_of_stream {} loopingAtEnd (by decide) (by decide)).2.2.1
    (by decide) (by decide)
  ⟨by decide, by decide, h.1, h.2.1, h.2.2.1, h.2.2.2.2.1 (by decide) (by decide)⟩

/-- C23 fails as stated: a looping clip without a video source reaches the end of
its audio; the stream-done event seeks to 0 and leaves no video event
pending. -/
theorem looping_without_video_posts_no_event :
    audioOnlyAtEnd.mStreamDoneEventPending = true ∧
    audioOnlyAtEnd.mStreamDoneStatus = Status.ERROR_END_OF_STREAM ∧
    audioOnlyAtEnd.mVideoSource = none ∧
    allDone audioOnlyAtEnd = true ∧
    audioOnlyAtEnd.mFlags.LOOPING = true ∧
    (onStreamDone {} audioOnlyAtEnd).mSeeking = SeekType.SEEK ∧
    (onStreamDone {} audioOnlyAtEnd).mSeekTimeUs = 0 ∧
    (onStreamDone {} audioOnlyAtEnd).mVideoEventPending = false := by
  decide

/-! # C24: the frame that passed the AV-sync test -/

theorem readVideoLoop_streamDone (reads : List ReadResult) (s : Player) (b : MediaBuffer)
    (hnone : s.mVideoBuffer = none) (h : (readVideoLoop reads s).mVideoBuffer = some b) :
    (readVideoLoop reads s).mStreamDoneEventPending = s.mStreamDoneEventPending ∧
    (readVideoLoop reads s).mStreamDoneStatus = s.mStreamDoneStatus := by
  induction reads generalizing s with
  | nil => simp [readVideoLoop, hnone] at h
  | cons r rest ih =>
    cases r with
    | buffer b0 =>
      simp only [readVideoLoop] at h ⊢
      split
      · rename_i h0
        simp only [h0, if_true] at h
        rw [(ih _ (by simpa using hnone) h).1, (ih _ (by simpa using hnone) h).2]
        simp
      · rename_i h0
        simp only [h0, if_false] at h
        split
        · rename_i h1
          simp only [h1, if_true] at h
          rw [(ih _ (by simpa using hnone) h).1, (ih _ (by simpa using hnone) h).2]
          simp
        · simp [setReads]
    | formatChanged w h' =>
      simp only [readVideoLoop] at h ⊢
      rw [(ih _ (by simpa using hnone) h).1, (ih _ (by simpa using hnone) h).2]
      simp
    | endOfStream => simp [readVideoLoop, hnone] at h
    | error code => simp [readVideoLoop, hnone] at h

theorem frameState_streamDone (s : Player) (b : MediaBuffer)
    (h : (frameState s).mVideoBuffer = some b) :
    (frameState s).mStreamDoneEventPending = s.mStreamDoneEventPending ∧
    (frameState s).mStreamDoneStatus = s.mStreamDoneStatus := by
  simp only [frameState, fetchFrame] at h ⊢
  split
  · simp
  · rename_i hnone
    simp only [hnone, if_false] at h
    split
    · rename_i v hv
      simp only [hv] at h
      rw [(readVideoLoop_streamDone _ _ b (by simpa using hnone) h).1,
        (readVideoLoop_streamDone _ _ b (by simpa using hnone) h).2]
      simp
    · simp

theorem markEos_signals (s x : Player) (hc : x.cfg = s.cfg)
    (hsp : x.mStreamDoneEventPending = s.mStreamDoneEventPending)
    (hss : x.mStreamDoneStatus = s.mStreamDoneStatus) : EosSignalled s (markEos x) := by
  simp only [EosSignalled, markEos, postStreamDoneEvent_l]
  split <;> simp_all

theorem ensureRenderer_renderer (s : Player) (h : s.cfg.mSurface = true) :
    (ensureRenderer s).mVideoRenderer = true := by
  simp only [ensureRenderer, initRenderer_l]
  repeat' split
  all_goals simp_all

/-- The three cases of `renderStage` on a state `x` that agrees with `s` on the
fields listed in the hypotheses. -/
theorem renderStage_cases (w : SeekType) (b : MediaBuffer) (s x : Player)
    (hc : x.cfg = s.cfg) (hr : renders x.trace = renders s.trace)
    (hsp : x.mStreamDoneEventPending = s.mStreamDoneEventPending)
    (hss : x.mStreamDoneStatus = s.mStreamDoneStatus)
    (hj : x.mIsVideoSourceJpg = s.mIsVideoSourceJpg)
    (hprev : x.mFlags.SEEK_PREVIEW = false) (hpend : x.mVideoEventPending = false) :
    (Int.tdiv b.timeUs 1000 > (s.cfg.mPlayEndTimeMsec : Int) →
      renders (renderStage w b x).trace = renders s.trace ∧
      (renderStage w b x).mVideoBuffer = none ∧
      EosSignalled s (renderStage w b x)) ∧
    (Int.tdiv b.timeUs 1000 = (s.cfg.mPlayEndTimeMsec : Int) →
      (s.cfg.mSurface = true →
        renderedTimes (renderStage w b x).trace = renderedTimes s.trace ++ [b.timeUs]) ∧
      EosSignalled s (renderStage w b x) ∧
      (renderStage w b x).mVideoEventPending = false) ∧
    (Int.tdiv b.timeUs 1000 < (s.cfg.mPlayEndTimeMsec : Int) →
      (s.cfg.mSurface = true →
        renderedTimes (renderStage w b x).trace = renderedTimes s.trace ++ [b.timeUs]) ∧
      (renderStage w b x).mVideoEventPending = true ∧
      (renderStage w b x).trace.getLast? =
        some (Action.post Event.video (if s.mIsVideoSourceJpg then 33000 else 0))) := by
  have hce : (ensureRenderer x).cfg = s.cfg := by simp [hc]
  have hrt : ∀ (hsf : s.cfg.mSurface = true),
      renderedTimes (renderAndAdvance w b (ensureRenderer x)).trace =
        renderedTimes s.trace ++ [b.timeUs] := by
    intro hsf
    have h1 := ensureRenderer_renderer x (by rw [hc]; exact hsf)
    simp only [renderedTimes, renderAndAdvance_renders, h1, if_true]
    simp [hr]
  refine ⟨?_, ?_, ?_⟩
  · intro h
    have hrs : renderStage w b x = dropPastEnd b (ensureRenderer x) := by
      simp only [renderStage, hce, h, if_true]
    rw [hrs]
    refine ⟨?_, ?_, ?_⟩
    · simp [dropPastEnd, renderOf, hr]
    · simp [dropPastEnd]
    · exact markEos_signals s _ (by simpa using hc) (by simpa using hsp) (by simpa using hss)
  · intro h
    have hrs : renderStage w b x = renderAndAdvance w b (ensureRenderer x) := by
      simp only [renderStage, hce, h, gt_iff_lt, lt_self_iff_false, if_false]
    rw [hrs]
    refine ⟨hrt, ?_, ?_⟩
    · simp only [renderAndAdvance]
      rw [afterRender_atEnd _ _ _ (by simp [hc, h])]
      exact markEos_signals s _ (by simpa using hc) (by simpa using hsp) (by simpa using hss)
    · simp only [renderAndAdvance]
      rw [afterRender_atEnd _ _ _ (by simp [hc, h])]
      simpa using hpend
  · intro h
    have hrs : renderStage w b x = renderAndAdvance w b (ensureRenderer x) := by
      simp only [renderStage, hce, gt_iff_lt, not_lt.mpr (le_of_lt h), if_false]
    rw [hrs]
    refine ⟨hrt, ?_, ?_⟩
    · simp only [renderAndAdvance, afterRender, postVideoEvent_l]
      repeat' split
      all_goals simp_all
      all_goals omega
    · simp only [renderAndAdvance, afterRender, postVideoEvent_l]
      repeat' split
      all_goals simp_all
      all_goals omega

/-- C24, as amended: a pending video event outside `SEEK_PREVIEW` whose frame `b`
gets past the start of the audio player, finds a clock and passes the AV-sync
test (a still image, or a lateness within [-25000, 40000] microseconds). If
`b.timeUs / 1000` exceeds the end cut time the frame is not rendered, the
buffer is dropped and the end of the stream is signalled. If it equals the end
cut time the frame is rendered (with a surface), the end of the stream is
signalled and no video event is pending. If it is below, the frame is rendered
(with a surface) and the last action posts a video event with delay 0, or
33000 for a still image. Signalling sets `VIDEO_AT_EOS` and `AUDIO_AT_EOS`,
records the end cut time times 1000 and leaves a stream-done event pending,
whose status is end-of-stream only when none was pending before; a pending one
keeps its status. -/
theorem frame_past_sync_cases (env : Env) (s : Player) (b : MediaBuffer)
    (hp : s.mVideoEventPending = true) (hsp : s.mFlags.SEEK_PREVIEW = false)
    (hb : (frameState s).mVideoBuffer = some b)
    (haudio : (syncInput env b s).1 = Status.OK)
    (hts : pickTimeSource (syncInput env b s).2 ≠ none)
    (hsync : s.mIsVideoSourceJpg = true ∨
      (-25000 ≤ latenessUs env s.mSeeking b.timeUs (syncState env b s) ∧
        latenessUs env s.mSeeking b.timeUs (syncState env b s) ≤ 40000)) :
    (Int.tdiv b.timeUs 1000 > (s.cfg.mPlayEndTimeMsec : Int) →
      renders (onVideoEvent env s).trace = renders s.trace ∧
      (onVideoEvent env s).mVideoBuffer = none ∧
      EosSignalled s (onVideoEvent env s)) ∧
    (Int.tdiv b.timeUs 1000 = (s.cfg.mPlayEndTimeMsec : Int) →
      (s.cfg.mSurface = true →
        renderedTimes (onVideoEvent env s).trace = renderedTimes s.trace ++ [b.timeUs]) ∧
      EosSignalled s (onVideoEvent env s) ∧
      (onVideoEvent env s).mVideoEventPending = false) ∧
    (Int.tdiv b.timeUs 1000 < (s.cfg.mPlayEndTimeMsec : Int) →
      (s.cfg.mSurface = true →
        renderedTimes (onVideoEvent env s).trace = renderedTimes s.trace ++ [b.timeUs]) ∧
      (onVideoEvent env s).mVideoEventPending = true ∧
      (onVideoEvent env s).trace.getLast? =
        some (Action.post Event.video (if s.mIsVideoSourceJpg then 33000 else 0))) := by
  obtain ⟨hfp, hfs⟩ := frameState_streamDone s b hb
  have hev := onVideoEvent_toSync env s b hp hsp hb haudio hts
  have hjx : (syncInput env b s).2.mIsVideoSourceJpg = s.mIsVideoSourceJpg := by
    simp [syncInput]
  by_cases hj : s.mIsVideoSourceJpg = true
  · have h1 : onVideoEvent env s = renderStage s.mSeeking b (syncInput env b s).2 := by
      rw [hev]
      simp only [avSync, hjx, hj, if_true]
    rw [h1]
    exact renderStage_cases s.mSeeking b s _ (by simp [syncInput]) (by simp [syncInput])
      (by simp [syncInput, hfp]) (by simp [syncInput, hfs]) hjx
      (by simp [syncInput, hsp]) (by simp [syncInput, frameState_notPending])
  · have hj0 : s.mIsVideoSourceJpg = false := by simpa using hj
    obtain ⟨hl1, hl2⟩ := hsync.resolve_left hj
    have h1 : onVideoEvent env s = renderStage s.mSeeking b (syncState env b s) := by
      rw [onVideoEvent_atSync env s b hp hsp hj0 hb haudio hts]
      simp only [avSync_decide, not_lt.mpr hl2, not_lt.mpr hl1, if_false]
    rw [h1]
    exact renderStage_cases s.mSeeking b s _ (by simp [syncState, syncInput])
      (syncState_renders env b s)
      (by simp [syncState, syncInput, hfp]) (by simp [syncState, syncInput, hfs])
      (by simp [syncState, syncInput])
      (by simp [syncState, syncInput, hsp]) (syncState_notPending env b s)

theorem frame_past_sync_cases_witness :
    renderedTimes (onVideoEvent (atTime 0) firstFrameDue).trace =
      renderedTimes firstFrameDue.trace ++ [0] ∧
    (onVideoEvent (atTime 0) firstFrameDue).mVideoEventPending = true ∧
    (onVideoEvent (atTime 0) firstFrameDue).trace.getLast? =
      some (Action.post Event.video 0) :=
  have h := (frame_past_sync_cases (atTime 0) firstFrameDue { timeUs := 0, rangeLength := 1 } (by decide)
    (by decide) (by decide) (by decide) (by decide) (Or.inr (by decide))).2.2 (by decide)
  ⟨h.1 (by decide), h.2.1, h.2.2⟩

/-- C24 fails as stated: the audio player has ended with an error, so a
stream-done event with that status is pending when the frame at the end cut
time arrives; the frame is rendered and both end-of-stream flags are set, but
no stream-done event with the end-of-stream status is posted: the pending
event keeps the error status and the trace gains no post. -/
theorem end_cut_keeps_pending_error :
    errorBeforeEndCut.mStreamDoneEventPending = true ∧
    errorBeforeEndCut.mStreamDoneStatus = Status.other 5 ∧
    renderedTimes (onVideoEvent (atTime 5000000) errorBeforeEndCut).trace =
      renderedTimes errorBeforeEndCut.trace ++ [5000000] ∧
    (onVideoEvent (atTime 5000000) errorBeforeEndCut).mFlags.VIDEO_AT_EOS = true ∧
    (onVideoEvent (atTime 5000000) errorBeforeEndCut).mStreamDoneStatus = Status.other 5 ∧
    (onVideoEvent (atTime 5000000) errorBeforeEndCut).trace.getLast? =
      some (Action.release 5000000) := by
  decide

/-! # C25: `finishSeekIfNecessary` -/

/-! ## The seek state `SEEK_VIDEO_ONLY` is never entered -/

theorem finishSeekIfNecessary_seekState (videoTimeUs : Int) (s : Player)
    (h : s.mSeeking ≠ SeekType.SEEK_VIDEO_ONLY) :
    (finishSeekIfNecessary videoTimeUs s).mSeeking ≠ SeekType.SEEK_VIDEO_ONLY := by
  simp only [finishSeekIfNecessary]
  all_goals (repeat' split)
  all_goals first | exact h | simp_all

theorem seekTo_l_record_seekState (timeUs : Int) (s : Player)
    (h : s.mSeeking ≠ SeekType.SEEK_VIDEO_ONLY) :
    (seekTo_l_record timeUs s).mSeeking ≠ SeekType.SEEK_VIDEO_ONLY := by
  simp only [seekTo_l_record]
  all_goals (repeat' split)
  all_goals first
    | exact h
    | simp_all [finishSeekIfNecessary_seekState]

theorem seekTo_l_body_seekState (timeUs : Int) (s : Player)
    (h : s.mSeeking ≠ SeekType.SEEK_VIDEO_ONLY) :
    (seekTo_l_body timeUs s).2.mSeeking ≠ SeekType.SEEK_VIDEO_ONLY := by
  simp only [seekTo_l_body]
  all_goals (repeat' split)
  all_goals first
    | exact h
    | simp_all [finishSeekIfNecessary_seekState, seekTo_l_record_seekState]

theorem base_play_l_replay_seekState (s : Player)
    (h : s.mSeeking ≠ SeekType.SEEK_VIDEO_ONLY) :
    (PreviewPlayerBase.play_l_replay s).mSeeking ≠ SeekType.SEEK_VIDEO_ONLY := by
  simp only [PreviewPlayerBase.play_l_replay]
  all_goals (repeat' split)
  all_goals first
    | exact h
    | simp_all [finishSeekIfNecessary_seekState, seekTo_l_record_seekState,
        seekTo_l_body_seekState]

theorem base_play_l_run_seekState (env : Env) (s : Player)
    (h : s.mSeeking ≠ SeekType.SEEK_VIDEO_ONLY) :
    (PreviewPlayerBase.play_l_run env s).2.mSeeking ≠ SeekType.SEEK_VIDEO_ONLY := by
  simp only [PreviewPlayerBase.play_l_run]
  all_goals (repeat' split)
  all_goals first
    | exact h
    | simp_all [finishSeekIfNecessary_seekState, seekTo_l_record_seekState,
        seekTo_l_body_seekState, base_play_l_replay_seekState]

theorem base_play_l_seekState (env : Env) (s : Player)
    (h : s.mSeeking ≠ SeekType.SEEK_VIDEO_ONLY) :
    (PreviewPlayerBase.play_l env s).2.mSeeking ≠ SeekType.SEEK_VIDEO_ONLY := by
  simp only [PreviewPlayerBase.play_l]
  all_goals (repeat' split)
  all_goals first
    | exact h
    | simp_all [finishSeekIfNecessary_seekState, seekTo_l_record_seekState,
        seekTo_l_body_seekState, base_play_l_replay_seekState, base_play_l_run_seekState]

theorem seekTo_l_underrun_seekState (env : Env) (s : Player)
    (h : s.mSeeking ≠ SeekType.SEEK_VIDEO_ONLY) :
    (seekTo_l_underrun env s).mSeeking ≠ SeekType.SEEK_VIDEO_ONLY := by
  simp only [seekTo_l_underrun]
  all_goals (repeat' split)
  all_goals first
    | exact h
    | simp_all [finishSeekIfNecessary_seekState, seekTo_l_record_seekState,
        seekTo_l_body_seekState, base_play_l_replay_seekState, base_play_l_run_seekState,
        base_play_l_seekState]

theorem seekTo_l_seekState (env : Env) (timeUs : Int) (s : Player)
    (h : s.mSeeking ≠ SeekType.SEEK_VIDEO_ONLY) :
    (seekTo_l env timeUs s).2.mSeeking ≠ SeekType.SEEK_VIDEO_ONLY := by
  simp only [seekTo_l]
  all_goals (repeat' split)
  all_goals first
    | exact h
    | simp_all [finishSeekIfNecessary_seekState, seekTo_l_record_seekState,
        seekTo_l_body_seekState, base_play_l_replay_seekState, base_play_l_run_seekState,
        base_play_l_seekState, seekTo_l_underrun_seekState]

theorem onStreamDone_loop_seekState (env : Env) (s : Player)
    (h : s.mSeeking ≠ SeekType.SEEK_VIDEO_ONLY) :
    (onStreamDone_loop env s).mSeeking ≠ SeekType.SEEK_VIDEO_ONLY := by
  simp only [onStreamDone_loop]
  all_goals (repeat' split)
  all_goals first
    | exact h
    | simp_all [finishSeekIfNecessary_seekState, seekTo_l_record_seekState,
        seekTo_l_body_seekState, base_play_l_replay_seekState, base_play_l_run_seekState,
        base_play_l_seekState, seekTo_l_underrun_seekState, seekTo_l_seekState]

theorem onStreamDone_fire_seekState (env : Env) (s : Player)
    (h : s.mSeeking ≠ SeekType.SEEK_VIDEO_ONLY) :
    (onStreamDone_fire env s).mSeeking ≠ SeekType.SEEK_VIDEO_ONLY := by
  simp only [onStreamDone_fire]
  all_goals (repeat' split)
  all_goals first
    | exact h
    | simp_all [finishSeekIfNecessary_seekState, seekTo_l_record_seekState,
        seekTo_l_body_seekState, base_play_l_replay_seekState, base_play_l_run_seekState,
        base_play_l_seekState, seekTo_l_underrun_seekState, seekTo_l_seekState,
        onStreamDone_loop_seekState]

theorem onStreamDone_seekState (env : Env) (s : Player)
    (h : s.mSeeking ≠ SeekType.SEEK_VIDEO_ONLY) :
    (onStreamDone env s).mSeeking ≠ SeekType.SEEK_VIDEO_ONLY := by
  simp only [onStreamDone]
  all_goals (repeat' split)
  all_goals first
    | exact h
    | simp_all [finishSeekIfNecessary_seekState, seekTo_l_record_seekState,
        seekTo_l_body_seekState, base_play_l_replay_seekState, base_play_l_run_seekState,
        base_play_l_seekState, seekTo_l_underrun_seekState, seekTo_l_seekState,
        onStreamDone_loop_seekState, onStreamDone_fire_seekState]

theorem reset_fields_seekState (s : Player)
    (h : s.mSeeking ≠ SeekType.SEEK_VIDEO_ONLY) :
    (reset_fields s).mSeeking ≠ SeekType.SEEK_VIDEO_ONLY := by
  simp only [reset_fields]
  all_goals (repeat' split)
  all_goals first
    | exact h
    | simp_all [finishSeekIfNecessary_seekState, seekTo_l_record_seekState,
        seekTo_l_body_seekState, base_play_l_replay_seekState, base_play_l_run_seekState,
        base_play_l_seekState, seekTo_l_underrun_seekState, seekTo_l_seekState,
        onStreamDone_loop_seekState, onStreamDone_fire_seekState, onStreamDone_seekState]

theorem reset_l_seekState (s : Player)
    (h : s.mSeeking ≠ SeekType.SEEK_VIDEO_ONLY) :
    (reset_l s).mSeeking ≠ SeekType.SEEK_VIDEO_ONLY := by
  simp only [reset_l]
  all_goals (repeat' split)
  all_goals first
    | exact h
    | simp_all [finishSeekIfNecessary_seekState, seekTo_l_record_seekState,
        seekTo_l_body_seekState, base_play_l_replay_seekState, base_play_l_run_seekState,
        base_play_l_seekState, seekTo_l_underrun_seekState, seekTo_l_seekState,
        onStreamDone_loop_seekState, onStreamDone_fire_seekState, onStreamDone_seekState,
        reset_fields_seekState]

theorem reset_seekState (s : Player)
    (h : s.mSeeking ≠ SeekType.SEEK_VIDEO_ONLY) :
    (reset s).mSeeking ≠ SeekType.SEEK_VIDEO_ONLY := by
  simp only [reset]
  all_goals (repeat' split)
  all_goals first
    | exact h
    | simp_all [finishSeekIfNecessary_seekState, seekTo_l_record_seekState,
        seekTo_l_body_seekState, base_play_l_replay_seekState, base_play_l_run_seekState,
        base_play_l_seekState, seekTo_l_underrun_seekState, seekTo_l_seekState,
        onStreamDone_loop_seekState, onStreamDone_fire_seekState, onStreamDone_seekState,
        reset_fields_seekState, reset_l_seekState]

theorem setDataSource_seekState (uri : Uri) (s : Player)
    (h : s.mSeeking ≠ SeekType.SEEK_VIDEO_ONLY) :
    (setDataSource uri s).2.mSeeking ≠ SeekType.SEEK_VIDEO_ONLY := by
  simp only [setDataSource]
  all_goals (repeat' split)
  all_goals first
    | exact h
    | simp_all [finishSeekIfNecessary_seekState, seekTo_l_record_seekState,
        seekTo_l_body_seekState, base_play_l_replay_seekState, base_play_l_run_seekState,
        base_play_l_seekState, seekTo_l_underrun_seekState, seekTo_l_seekState,
        onStreamDone_loop_seekState, onStreamDone_fire_seekState, onStreamDone_seekState,
        reset_fields_seekState, reset_l_seekState, reset_seekState]

theorem seekTo_seekState (env : Env) (timeUs : Int) (s : Player)
    (h : s.mSeeking ≠ SeekType.SEEK_VIDEO_ONLY) :
    (seekTo env timeUs s).2.mSeeking ≠ SeekType.SEEK_VIDEO_ONLY := by
  simp only [seekTo]
  all_goals (repeat' split)
  all_goals first
    | exact h
    | simp_all [finishSeekIfNecessary_seekState, seekTo_l_record_seekState,
        seekTo_l_body_seekState, base_play_l_replay_seekState, base_play_l_run_seekState,
        base_play_l_seekState, seekTo_l_underrun_seekState, seekTo_l_seekState,
        onStreamDone_loop_seekState, onStreamDone_fire_seekState, onStreamDone_seekState,
        reset_fields_seekState, reset_l_seekState, reset_seekState, setDataSource_seekState]

theorem onReadError_seekState (err : Status) (s : Player)
    (h : s.mSeeking ≠ SeekType.SEEK_VIDEO_ONLY) :
    (onReadError err s).mSeeking ≠ SeekType.SEEK_VIDEO_ONLY := by
  simp only [onReadError]
  all_goals (repeat' split)
  all_goals first
    | exact h
    | simp_all [finishSeekIfNecessary_seekState, seekTo_l_record_seekState,
        seekTo_l_body_seekState, base_play_l_replay_seekState, base_play_l_run_seekState,
        base_play_l_seekState, seekTo_l_underrun_seekState, seekTo_l_seekState,
        onStreamDone_loop_seekState, onStreamDone_fire_seekState, onStreamDone_seekState,
        reset_fields_seekState, reset_l_seekState, reset_seekState, setDataSource_seekState,
        seekTo_seekState]

theorem readVideoLoop_seekState (reads : List ReadResult) (s : Player)
    (h : s.mSeeking ≠ SeekType.SEEK_VIDEO_ONLY) :
    (readVideoLoop reads s).mSeeking ≠ SeekType.SEEK_VIDEO_ONLY := by
  induction reads generalizing s with
  | nil => simp only [readVideoLoop]; simp_all [onReadError_seekState]
  | cons r rest ih =>
    cases r <;> simp only [readVideoLoop]
    all_goals (repeat' split)
    all_goals first
      | exact h
      | (apply ih; simp_all [finishSeekIfNecessary_seekState, seekTo_l_record_seekState,
          seekTo_l_body_seekState, base_play_l_replay_seekState, base_play_l_run_seekState,
          base_play_l_seekState, seekTo_l_underrun_seekState, seekTo_l_seekState,
          onStreamDone_loop_seekState, onStreamDone_fire_seekState, onStreamDone_seekState,
          reset_fields_seekState, reset_l_seekState, reset_seekState, setDataSource_seekState,
          seekTo_seekState, onReadError_seekState])
      | simp_all [finishSeekIfNecessary_seekState, seekTo_l_record_seekState,
          seekTo_l_body_seekState, base_play_l_replay_seekState, base_play_l_run_seekState,
          base_play_l_seekState, seekTo_l_underrun_seekState, seekTo_l_seekState,
          onStreamDone_loop_seekState, onStreamDone_fire_seekState, onStreamDone_seekState,
          reset_fields_seekState, reset_l_seekState, reset_seekState, setDataSource_seekState,
          seekTo_seekState, onReadError_seekState]

theorem fetchFrame_seekState (s : Player)
    (h : s.mSeeking ≠ SeekType.SEEK_VIDEO_ONLY) :
    (fetchFrame s).mSeeking ≠ SeekType.SEEK_VIDEO_ONLY := by
  simp only [fetchFrame]
  all_goals (repeat' split)
  all_goals first
    | exact h
    | simp_all [finishSeekIfNecessary_seekState, seekTo_l_record_seekState,
        seekTo_l_body_seekState, base_play_l_replay_seekState, base_play_l_run_seekState,
        base_play_l_seekState, seekTo_l_underrun_seekState, seekTo_l_seekState,
        onStreamDone_loop_seekState, onStreamDone_fire_seekState, onStreamDone_seekState,
        reset_fields_seekState, reset_l_seekState, reset_seekState, setDataSource_seekState,
        seekTo_seekState, onReadError_seekState, readVideoLoop_seekState]

theorem processFrame_seek_seekState (env : Env) (b : MediaBuffer) (s : Player)
    (h : s.mSeeking ≠ SeekType.SEEK_VIDEO_ONLY) :
    (processFrame_seek env b s).mSeeking ≠ SeekType.SEEK_VIDEO_ONLY := by
  simp only [processFrame_seek]
  all_goals (repeat' split)
  all_goals first
    | exact h
    | simp_all [finishSeekIfNecessary_seekState, seekTo_l_record_seekState,
        seekTo_l_body_seekState, base_play_l_replay_seekState, base_play_l_run_seekState,
        base_play_l_seekState, seekTo_l_underrun_seekState, seekTo_l_seekState,
        onStreamDone_loop_seekState, onStreamDone_fire_seekState, onStreamDone_seekState,
        reset_fields_seekState, reset_l_seekState, reset_seekState, setDataSource_seekState,
        seekTo_seekState, onReadError_seekState, readVideoLoop_seekState, fetchFrame_seekState]

theorem processFrame_seekState (env : Env) (b : MediaBuffer) (s : Player)
    (h : s.mSeeking ≠ SeekType.SEEK_VIDEO_ONLY) :
    (processFrame env b s).mSeeking ≠ SeekType.SEEK_VIDEO_ONLY := by
  simp only [processFrame]
  all_goals (repeat' split)
  all_goals first
    | exact h
    | simp_all [finishSeekIfNecessary_seekState, seekTo_l_record_seekState,
        seekTo_l_body_seekState, base_play_l_replay_seekState, base_play_l_run_seekState,
        base_play_l_seekState, seekTo_l_underrun_seekState, seekTo_l_seekState,
        onStreamDone_loop_seekState, onStreamDone_fire_seekState, onStreamDone_seekState,
        reset_fields_seekState, reset_l_seekState, reset_seekState, setDataSource_seekState,
        seekTo_seekState, onReadError_seekState, readVideoLoop_seekState, fetchFrame_seekState,
        processFrame_seek_seekState]

theorem frameState_seekState (s : Player)
    (h : s.mSeeking ≠ SeekType.SEEK_VIDEO_ONLY) :
    (frameState s).mSeeking ≠ SeekType.SEEK_VIDEO_ONLY := by
  simp only [frameState]
  all_goals (repeat' split)
  all_goals first
    | exact h
    | simp_all [finishSeekIfNecessary_seekState, seekTo_l_record_seekState,
        seekTo_l_body_seekState, base_play_l_replay_seekState, base_play_l_run_seekState,
        base_play_l_seekState, seekTo_l_underrun_seekState, seekTo_l_seekState,
        onStreamDone_loop_seekState, onStreamDone_fire_seekState, onStreamDone_seekState,
        reset_fields_seekState, reset_l_seekState, reset_seekState, setDataSource_seekState,
        seekTo_seekState, onReadError_seekState, readVideoLoop_seekState, fetchFrame_seekState,
        processFrame_seek_seekState, processFrame_seekState]

theorem onVideoEvent_seekState (env : Env) (s : Player)
    (h : s.mSeeking ≠ SeekType.SEEK_VIDEO_ONLY) :
    (onVideoEvent env s).mSeeking ≠ SeekType.SEEK_VIDEO_ONLY := by
  simp only [onVideoEvent]
  all_goals (repeat' split)
  all_goals first
    | exact h
    | simp_all [finishSeekIfNecessary_seekState, seekTo_l_record_seekState,
        seekTo_l_body_seekState, base_play_l_replay_seekState, base_play_l_run_seekState,
        base_play_l_seekState, seekTo_l_underrun_seekState, seekTo_l_seekState,
        onStreamDone_loop_seekState, onStreamDone_fire_seekState, onStreamDone_seekState,
        reset_fields_seekState, reset_l_seekState, reset_seekState, setDataSource_seekState,
        seekTo_seekState, onReadError_seekState, readVideoLoop_seekState, fetchFrame_seekState,
        processFrame_seek_seekState, processFrame_seekState, frameState_seekState]

theorem play_l_replay_seekState (env : Env) (s : Player)
    (h : s.mSeeking ≠ SeekType.SEEK_VIDEO_ONLY) :
    (play_l_replay env s).mSeeking ≠ SeekType.SEEK_VIDEO_ONLY := by
  simp only [play_l_replay]
  all_goals (repeat' split)
  all_goals first
    | exact h
    | simp_all [finishSeekIfNecessary_seekState, seekTo_l_record_seekState,
        seekTo_l_body_seekState, base_play_l_replay_seekState, base_play_l_run_seekState,
        base_play_l_seekState, seekTo_l_underrun_seekState, seekTo_l_seekState,
        onStreamDone_loop_seekState, onStreamDone_fire_seekState, onStreamDone_seekState,
        reset_fields_seekState, reset_l_seekState, reset_seekState, setDataSource_seekState,
        seekTo_seekState, onReadError_seekState, readVideoLoop_seekState, fetchFrame_seekState,
        processFrame_seek_seekState, processFrame_seekState, frameState_seekState,
        onVideoEvent_seekState]

theorem play_l_post_seekState (env : Env) (deferredAudioSeek : Bool) (s : Player)
    (h : s.mSeeking ≠ SeekType.SEEK_VIDEO_ONLY) :
    (play_l_post env deferredAudioSeek s).mSeeking ≠ SeekType.SEEK_VIDEO_ONLY := by
  simp only [play_l_post]
  all_goals (repeat' split)
  all_goals first
    | exact h
    | simp_all [finishSeekIfNecessary_seekState, seekTo_l_record_seekState,
        seekTo_l_body_seekState, base_play_l_replay_seekState, base_play_l_run_seekState,
        base_play_l_seekState, seekTo_l_underrun_seekState, seekTo_l_seekState,
        onStreamDone_loop_seekState, onStreamDone_fire_seekState, onStreamDone_seekState,
        reset_fields_seekState, reset_l_seekState, reset_seekState, setDataSource_seekState,
        seekTo_seekState, onReadError_seekState, readVideoLoop_seekState, fetchFrame_seekState,
        processFrame_seek_seekState, processFrame_seekState, frameState_seekState,
        onVideoEvent_seekState, play_l_replay_seekState]

theorem play_l_finish_seekState (env : Env) (deferredAudioSeek : Bool) (s : Player)
    (h : s.mSeeking ≠ SeekType.SEEK_VIDEO_ONLY) :
    (play_l_finish env deferredAudioSeek s).mSeeking ≠ SeekType.SEEK_VIDEO_ONLY := by
  simp only [play_l_finish]
  all_goals (repeat' split)
  all_goals first
    | exact h
    | simp_all [finishSeekIfNecessary_seekState, seekTo_l_record_seekState,
        seekTo_l_body_seekState, base_play_l_replay_seekState, base_play_l_run_seekState,
        base_play_l_seekState, seekTo_l_underrun_seekState, seekTo_l_seekState,
        onStreamDone_loop_seekState, onStreamDone_fire_seekState, onStreamDone_seekState,
        reset_fields_seekState, reset_l_seekState, reset_seekState, setDataSource_seekState,
        seekTo_seekState, onReadError_seekState, readVideoLoop_seekState, fetchFrame_seekState,
        processFrame_seek_seekState, processFrame_seekState, frameState_seekState,
        onVideoEvent_seekState, play_l_replay_seekState, play_l_post_seekState]

theorem play_l_run_seekState (env : Env) (s : Player)
    (h : s.mSeeking ≠ SeekType.SEEK_VIDEO_ONLY) :
    (play_l_run env s).2.mSeeking ≠ SeekType.SEEK_VIDEO_ONLY := by
  simp only [play_l_run]
  all_goals (repeat' split)
  all_goals first
    | exact h
    | simp_all [finishSeekIfNecessary_seekState, seekTo_l_record_seekState,
        seekTo_l_body_seekState, base_play_l_replay_seekState, base_play_l_run_seekState,
        base_play_l_seekState, seekTo_l_underrun_seekState, seekTo_l_seekState,
        onStreamDone_loop_seekState, onStreamDone_fire_seekState, onStreamDone_seekState,
        reset_fields_seekState, reset_l_seekState, reset_seekState, setDataSource_seekState,
        seekTo_seekState, onReadError_seekState, readVideoLoop_seekState, fetchFrame_seekState,
        processFrame_seek_seekState, processFrame_seekState, frameState_seekState,
        onVideoEvent_seekState, play_l_replay_seekState, play_l_post_seekState,
        play_l_finish_seekState]

theorem play_l_seekState (env : Env) (s : Player)
    (h : s.mSeeking ≠ SeekType.SEEK_VIDEO_ONLY) :
    (play_l env s).2.mSeeking ≠ SeekType.SEEK_VIDEO_ONLY := by
  simp only [play_l]
  all_goals (repeat' split)
  all_goals first
    | exact h
    | simp_all [finishSeekIfNecessary_seekState, seekTo_l_record_seekState,
        seekTo_l_body_seekState, base_play_l_replay_seekState, base_play_l_run_seekState,
        base_play_l_seekState, seekTo_l_underrun_seekState, seekTo_l_seekState,
        onStreamDone_loop_seekState, onStreamDone_fire_seekState, onStreamDone_seekState,
        reset_fields_seekState, reset_l_seekState, reset_seekState, setDataSource_seekState,
        seekTo_seekState, onReadError_seekState, readVideoLoop_seekState, fetchFrame_seekState,
        processFrame_seek_seekState, processFrame_seekState, frameState_seekState,
        onVideoEvent_seekState, play_l_replay_seekState, play_l_post_seekState,
        play_l_finish_seekState, play_l_run_seekState]

theorem play_seekState (env : Env) (s : Player)
    (h : s.mSeeking ≠ SeekType.SEEK_VIDEO_ONLY) :
    (play env s).2.mSeeking ≠ SeekType.SEEK_VIDEO_ONLY := by
  simp only [play]
  all_goals (repeat' split)
  all_goals first
    | exact h
    | simp_all [finishSeekIfNecessary_seekState, seekTo_l_record_seekState,
        seekTo_l_body_seekState, base_play_l_replay_seekState, base_play_l_run_seekState,
        base_play_l_seekState, seekTo_l_underrun_seekState, seekTo_l_seekState,
        onStreamDone_loop_seekState, onStreamDone_fire_seekState, onStreamDone_seekState,
        reset_fields_seekState, reset_l_seekState, reset_seekState, setDataSource_seekState,
        seekTo_seekState, onReadError_seekState, readVideoLoop_seekState, fetchFrame_seekState,
        processFrame_seek_seekState, processFrame_seekState, frameState_seekState,
        onVideoEvent_seekState, play_l_replay_seekState, play_l_post_seekState,
        play_l_finish_seekState, play_l_run_seekState, play_l_seekState]

theorem checkAudioSeekComplete_seekState (env : Env) (s : Player)
    (h : s.mSeeking ≠ SeekType.SEEK_VIDEO_ONLY) :
    (checkAudioSeekComplete env s).mSeeking ≠ SeekType.SEEK_VIDEO_ONLY := by
  simp only [checkAudioSeekComplete]
  all_goals (repeat' split)
  all_goals first
    | exact h
    | simp_all [finishSeekIfNecessary_seekState, seekTo_l_record_seekState,
        seekTo_l_body_seekState, base_play_l_replay_seekState, base_play_l_run_seekState,
        base_play_l_seekState, seekTo_l_underrun_seekState, seekTo_l_seekState,
        onStreamDone_loop_seekState, onStreamDone_fire_seekState, onStreamDone_seekState,
        reset_fields_seekState, reset_l_seekState, reset_seekState, setDataSource_seekState,
        seekTo_seekState, onReadError_seekState, readVideoLoop_seekState, fetchFrame_seekState,
        processFrame_seek_seekState, processFrame_seekState, frameState_seekState,
        onVideoEvent_seekState, play_l_replay_seekState, play_l_post_seekState,
        play_l_finish_seekState, play_l_run_seekState, play_l_seekState, play_seekState]

theorem onCheckAudioStatus_seekState (env : Env) (s : Player)
    (h : s.mSeeking ≠ SeekType.SEEK_VIDEO_ONLY) :
    (onCheckAudioStatus env s).mSeeking ≠ SeekType.SEEK_VIDEO_ONLY := by
  simp only [onCheckAudioStatus]
  all_goals (repeat' split)
  all_goals first
    | exact h
    | simp_all [finishSeekIfNecessary_seekState, seekTo_l_record_seekState,
        seekTo_l_body_seekState, base_play_l_replay_seekState, base_play_l_run_seekState,
        base_play_l_seekState, seekTo_l_underrun_seekState, seekTo_l_seekState,
        onStreamDone_loop_seekState, onStreamDone_fire_seekState, onStreamDone_seekState,
        reset_fields_seekState, reset_l_seekState, reset_seekState, setDataSource_seekState,
        seekTo_seekState, onReadError_seekState, readVideoLoop_seekState, fetchFrame_seekState,
        processFrame_seek_seekState, processFrame_seekState, frameState_seekState,
        onVideoEvent_seekState, play_l_replay_seekState, play_l_post_seekState,
        play_l_finish_seekState, play_l_run_seekState, play_l_seekState, play_seekState,
        checkAudioSeekComplete_seekState]

theorem call_seekState (s : Player) (op : Op) (h : s.mSeeking ≠ SeekType.SEEK_VIDEO_ONLY) :
    (call s op).mSeeking ≠ SeekType.SEEK_VIDEO_ONLY := by
  cases op with
  | play env => exact play_seekState env s h
  | seekTo env timeUs => exact seekTo_seekState env timeUs s h
  | reset => exact reset_seekState s h
  | setDataSource uri => exact setDataSource_seekState uri s h
  | onVideoEvent env => exact onVideoEvent_seekState env s h
  | onStreamDone env => exact onStreamDone_seekState env s h
  | onCheckAudioStatus env => exact onCheckAudioStatus_seekState env s h
  | pause => simpa [call] using h
  | prepare env => simpa [call] using h
  | prepareAsync => simpa [call] using h
  | readFirstVideoFrame => simpa [call] using h
  | setAudioPlayer ap => simpa [call] using h
  | onProgressCbEvent => simpa [call] using h
  | onUpdateOverlayEvent => simpa [call] using h
  | onPrepareAsyncEvent env => simpa [call] using h
  | postAudioEOS d => simpa [call] using h
  | postAudioSeekComplete => simpa [call] using h

theorem run_seekState (ops : List Op) (s : Player)
    (h : s.mSeeking ≠ SeekType.SEEK_VIDEO_ONLY) :
    (run s ops).mSeeking ≠ SeekType.SEEK_VIDEO_ONLY := by
  induction ops generalizing s with
  | nil => exact h
  | cons op ops ih =>
    exact ih (step s op)
      (step_inv (fun t => t.mSeeking ≠ SeekType.SEEK_VIDEO_ONLY) s op h h
        (fun _ _ => call_seekState s op h))

/-- C25: let `s` be a player that a run of operations and events reaches from a
player whose seek state is not `SEEK_VIDEO_ONLY` (a new player is in `NO_SEEK`).
The seek state of `s` is not `SEEK_VIDEO_ONLY`. In the seek state `SEEK` with
`SEEK_PREVIEW` clear, `finishSeekIfNecessary(video_ts)` sets `FIRST_FRAME` and
the seek state `NO_SEEK`; with an audio player it seeks the audio player to
`video_ts`, or to the seek target when `video_ts < 0`, watches for the audio
seek-complete and the audio end and notifies nothing; without an audio player
it notifies `MEDIA_SEEK_COMPLETE` unless one was sent for this seek, and marks
it sent. In the seek state `NO_SEEK`, or with `SEEK_PREVIEW` set, it changes
nothing. -/
theorem finishSeekIfNecessary_cases (videoTimeUs : Int) (s0 : Player) (ops : List Op)
    (s : Player) (h0 : s0.mSeeking ≠ SeekType.SEEK_VIDEO_ONLY) (hs : s = run s0 ops) :
    s.mSeeking ≠ SeekType.SEEK_VIDEO_ONLY ∧
    (s.mSeeking = SeekType.SEEK → s.mFlags.SEEK_PREVIEW = false →
      (finishSeekIfNecessary videoTimeUs s).mFlags.FIRST_FRAME = true ∧
      (finishSeekIfNecessary videoTimeUs s).mSeeking = SeekType.NO_SEEK ∧
      (s.mAudioPlayer ≠ none →
        (finishSeekIfNecessary videoTimeUs s).trace = s.trace ++
          [Action.audioPlayer
            (AudioCall.seekTo (if videoTimeUs < 0 then s.mSeekTimeUs else videoTimeUs))] ∧
        (finishSeekIfNecessary videoTimeUs s).mWatchForAudioSeekComplete = true ∧
        (finishSeekIfNecessary videoTimeUs s).mWatchForAudioEOS = true ∧
        (finishSeekIfNecessary videoTimeUs s).mSeekNotificationSent = s.mSeekNotificationSent) ∧
      (s.mAudioPlayer = none →
        (finishSeekIfNecessary videoTimeUs s).trace = s.trace ++
          (if s.mSeekNotificationSent then []
            else [Action.notify Msg.MEDIA_SEEK_COMPLETE 0 0]) ∧
        (finishSeekIfNecessary videoTimeUs s).mSeekNotificationSent = true)) ∧
    (s.mSeeking = SeekType.NO_SEEK ∨ s.mFlags.SEEK_PREVIEW = true →
      finishSeekIfNecessary videoTimeUs s = s) := by
  have hinv : s.mSeeking ≠ SeekType.SEEK_VIDEO_ONLY := hs ▸ run_seekState ops s0 h0
  refine ⟨hinv, ?_, ?_⟩
  · intro h1 h2
    cases ha : s.mAudioPlayer <;> cases hn : s.mSeekNotificationSent <;>
      simp [finishSeekIfNecessary, h1, h2, ha, hn]
  · intro h1
    rcases h1 with h1 | h1
    · simp [finishSeekIfNecessary, h1]
    · cases hk : s.mSeeking with
      | NO_SEEK => simp [finishSeekIfNecessary, hk]
      | SEEK => simp [finishSeekIfNecessary, hk, h1]
      | SEEK_VIDEO_ONLY => exact absurd hk hinv

theorem finishSeekIfNecessary_cases_witness :
    seekingWithAudio.mSeeking = SeekType.SEEK ∧
    (finishSeekIfNecessary 33000 seekingWithAudio).mSeeking = SeekType.NO_SEEK ∧
    (finishSeekIfNecessary 33000 seekingWithAudio).mFlags.FIRST_FRAME = true ∧
    (finishSeekIfNecessary 33000 seekingWithAudio).trace = seekingWithAudio.trace ++
      [Action.audioPlayer (AudioCall.seekTo 33000)] :=
  have h := (finishSeekIfNecessary_cases 33000 (sinkClip [frameAt 0, frameAt 33000])
    [Op.play {}, Op.seekTo {} 33000] seekingWithAudio (by decide) rfl).2.1
    (by decide) (by decide)
  ⟨by decide, h.2.1, h.1, (h.2.2.1 (by decide)).1⟩

/-! # C26: effects outside the storyboard window of the clip -/

theorem effectBelongsToClip_false_iff (e : EffectSettings) (c : Config) :
    effectBelongsToClip e c = false ↔
      ((e.uiStartTime : Int) < Int.tdiv c.mDecVideoTsStoryBoard 1000 ∨
        (e.uiStartTime : Int) ≥ clipWindowEnd c) := by
  simp [effectBelongsToClip]
  constructor
  · intro h
    by_cases h1 : (e.uiStartTime : Int) < Int.tdiv c.mDecVideoTsStoryBoard 1000
    · exact Or.inl h1
    · exact Or.inr (h (not_lt.mp h1))
  · rintro (h | h) h1
    · omega
    · exact h

theorem foldl_applyEffect_skip (t : Int) (e : EffectSettings) (l₁ l₂ : List EffectSettings)
    (s : Player) (h : effectBelongsToClip e s.cfg = false) :
    (l₁ ++ e :: l₂).foldl (applyEffect t) s = (l₁ ++ l₂).foldl (applyEffect t) s := by
  have hc : ((l₁.foldl (applyEffect t) s)).cfg = s.cfg := by
    induction l₁ generalizing s with
    | nil => rfl
    | cons x xs ih =>
      simp only [List.foldl_cons]
      rw [ih (applyEffect t s x) (by simpa using h)]
      simp
  simp only [List.foldl_append, List.foldl_cons]
  have h1 : applyEffect t (l₁.foldl (applyEffect t) s) e = l₁.foldl (applyEffect t) s := by
    simp [applyEffect, hc, h]
  rw [h1]

/-- C26, as amended: the end of the storyboard window of the clip is the
storyboard offset (in ms) plus end cut minus begin cut in unsigned 64-bit
arithmetic: that sum when the begin cut is at most the offset plus the end cut,
and the sum plus 2^64 when the begin cut is larger. An effect whose start time
is before the offset or at or after that end is skipped by the effect pass: its
round leaves the player as it is; the pass over a list that holds it gives what
the pass over the list without it gives; and when every effect of a kind in the
list is outside the window, the bit of that kind is after the pass what it was
before. -/
theorem effect_outside_clip_skipped (timeUs : Int) (s : Player) (e : EffectSettings)
    (hout : (e.uiStartTime : Int) < Int.tdiv s.cfg.mDecVideoTsStoryBoard 1000 ∨
      (e.uiStartTime : Int) ≥ clipWindowEnd s.cfg) :
    applyEffect timeUs s e = s ∧
    (∀ l₁ l₂, s.cfg.mEffectsSettings = l₁ ++ e :: l₂ →
      applyEffects timeUs s = (l₁ ++ l₂).foldl (applyEffect timeUs) s) ∧
    (∀ k, (∀ x ∈ s.cfg.mEffectsSettings, effectOfType x.VideoEffectType = some k →
        ((x.uiStartTime : Int) < Int.tdiv s.cfg.mDecVideoTsStoryBoard 1000 ∨
          (x.uiStartTime : Int) ≥ clipWindowEnd s.cfg)) →
      (applyEffects timeUs s).mCurrentVideoEffect k = s.mCurrentVideoEffect k) ∧
    ((s.cfg.mPlayBeginTimeMsec : Int) ≤
        Int.tdiv s.cfg.mDecVideoTsStoryBoard 1000 + (s.cfg.mPlayEndTimeMsec : Int) →
      Int.tdiv s.cfg.mDecVideoTsStoryBoard 1000 + (s.cfg.mPlayEndTimeMsec : Int)
        - (s.cfg.mPlayBeginTimeMsec : Int) < (UINT64 : Int) →
      clipWindowEnd s.cfg =
        Int.tdiv s.cfg.mDecVideoTsStoryBoard 1000 + (s.cfg.mPlayEndTimeMsec : Int)
          - (s.cfg.mPlayBeginTimeMsec : Int)) ∧
    (Int.tdiv s.cfg.mDecVideoTsStoryBoard 1000 + (s.cfg.mPlayEndTimeMsec : Int) <
        (s.cfg.mPlayBeginTimeMsec : Int) →
      - (UINT64 : Int) ≤ Int.tdiv s.cfg.mDecVideoTsStoryBoard 1000
        + (s.cfg.mPlayEndTimeMsec : Int) - (s.cfg.mPlayBeginTimeMsec : Int) →
      clipWindowEnd s.cfg =
        Int.tdiv s.cfg.mDecVideoTsStoryBoard 1000 + (s.cfg.mPlayEndTimeMsec : Int)
          - (s.cfg.mPlayBeginTimeMsec : Int) + (UINT64 : Int)) := by
  have hb : effectBelongsToClip e s.cfg = false := (effectBelongsToClip_false_iff e s.cfg).mpr hout
  refine ⟨by simp [applyEffect, hb], ?_, ?_, ?_, ?_⟩
  · intro l₁ l₂ hl
    simp only [applyEffects, hl]
    exact foldl_applyEffect_skip timeUs e l₁ l₂ s hb
  · intro k hk
    rw [applyEffects_mask, foldl_maskStep_bit]
    have hnil : effectsOfKind k s.cfg s.cfg.mEffectsSettings = [] := by
      simp only [effectsOfKind]
      rw [List.filter_eq_nil_iff]
      intro x hx
      by_cases hx2 : effectOfType x.VideoEffectType = some k
      · simp [(effectBelongsToClip_false_iff x s.cfg).mpr (hk x hx hx2)]
      · simp [hx2]
    rw [hnil]
    rfl
  · intro h1 h2
    simp only [clipWindowEnd]
    exact Int.emod_eq_of_lt (by omega) h2
  · intro h1 h2
    simp only [clipWindowEnd]
    rw [← Int.add_emod_self]
    exact Int.emod_eq_of_lt (by omega) (by omega)

theorem effect_outside_clip_skipped_witness :
    applyEffect 1500000 (effectsPlayer 3000 [lateSepiaEffect]) lateSepiaEffect =
      effectsPlayer 3000 [lateSepiaEffect] ∧
    (applyEffects 1500000 (effectsPlayer 3000 [lateSepiaEffect])).mCurrentVideoEffect
      VideoEffect.SEPIA = false :=
  have h := effect_outside_clip_skipped 1500000 (effectsPlayer 3000 [lateSepiaEffect])
    lateSepiaEffect (by decide)
  ⟨h.1, (h.2.2.1 VideoEffect.SEPIA (by decide)).trans (by decide)⟩

/-- Counterexample to C26 as stated: a clip cut to 0..5000 ms with a sepia
effect from 1000 ms renders its frame at 1500 ms with the sepia bit set. The
begin cut is then set to 6000 ms. The start of the effect, 1000, is at or after
the offset plus end cut minus begin cut, 0 + 5000 - 6000, so the claim has the
effect skipped and the bit left set; the code computes the end of the window
as 2^64 - 1000, takes the effect as one of the clip, and the pass on the next
rendered frame clears the bit. -/
theorem effect_outside_window_processed :
    sepiaShown.mCurrentVideoEffect VideoEffect.SEPIA = true ∧
    sepiaAfterLateBeginCut.aborted = false ∧
    sepiaAfterLateBeginCut.cfg.mEffectsSettings = [sepiaEffect] ∧
    (sepiaEffect.uiStartTime : Int) ≥
      Int.tdiv sepiaAfterLateBeginCut.cfg.mDecVideoTsStoryBoard 1000
        + (sepiaAfterLateBeginCut.cfg.mPlayEndTimeMsec : Int)
        - (sepiaAfterLateBeginCut.cfg.mPlayBeginTimeMsec : Int) ∧
    clipWindowEnd sepiaAfterLateBeginCut.cfg = 18446744073709550616 ∧
    effectBelongsToClip sepiaEffect sepiaAfterLateBeginCut.cfg = true ∧
    (renders sepiaAfterLateBeginCut.trace).map (fun p => (p.1, p.2 VideoEffect.SEPIA)) =
      [(1500000, true), (1533000, false)] ∧
    sepiaAfterLateBeginCut.mCurrentVideoEffect VideoEffect.SEPIA = false := by
  decide

/-! # C27: the notification that starts the next player -/

theorem startNextBudget_congr {s t : Player}
    (h1 : startNextCount t.trace = startNextCount s.trace)
    (h2 : t.mStartNextPlayer = s.mStartNextPlayer) :
    startNextBudget t = startNextBudget s := by
  simp [startNextBudget, h1, h2]

/-- The rest of `processFrame` after `notifyStartNext` changes neither the count
nor the mark. -/
theorem processFrame_seek_startNext (env : Env) (b : MediaBuffer) (s : Player) :
    startNextCount (processFrame_seek env b s).trace = startNextCount s.trace ∧
    (processFrame_seek env b s).mStartNextPlayer = s.mStartNextPlayer := by
  simp only [processFrame_seek]
  split <;> simp

/-- What a video event that works on the frame `b` does to the count and the
mark. -/
theorem onVideoEvent_startNext_frame (env : Env) (s : Player) (b : MediaBuffer)
    (hp : s.mVideoEventPending = true) (hsp : s.mFlags.SEEK_PREVIEW = false)
    (hb : (frameState s).mVideoBuffer = some b) :
    startNextCount (onVideoEvent env s).trace =
      startNextCount s.trace +
        (if s.mStartNextPlayer = false ∧
            (s.cfg.mPlayEndTimeMsec : Int) * 1000 - b.timeUs ≤ 1500000 then 1 else 0) ∧
    (onVideoEvent env s).mStartNextPlayer =
      (s.mStartNextPlayer ||
        decide ((s.cfg.mPlayEndTimeMsec : Int) * 1000 - b.timeUs ≤ 1500000)) := by
  have hev : onVideoEvent env s = processFrame env b (frameState s) := by
    simp only [onVideoEvent, hp, hsp, hb]
    simp
  rw [hev]
  simp only [processFrame]
  obtain ⟨h1, h2⟩ := processFrame_seek_startNext env b
    (notifyStartNext b.timeUs (countFrame b.timeUs (frameState s)))
  rw [h1, h2]
  simp only [notifyStartNext]
  have hc : (countFrame b.timeUs (frameState s)).cfg = s.cfg := by simp
  have hn : (countFrame b.timeUs (frameState s)).mStartNextPlayer = s.mStartNextPlayer := by
    simp
  have ht : startNextCount (countFrame b.timeUs (frameState s)).trace =
      startNextCount s.trace := by simp
  rw [hc, hn]
  cases hs : s.mStartNextPlayer <;>
    by_cases hr : (s.cfg.mPlayEndTimeMsec : Int) * 1000 - b.timeUs ≤ 1500000 <;>
    simp [hr, noteOf, ht, hn, hs]

/-- A video event that works on no frame changes neither the count nor the
mark. -/
theorem onVideoEvent_startNext_idle (env : Env) (s : Player)
    (h : s.mVideoEventPending = false ∨ s.mFlags.SEEK_PREVIEW = true ∨
      (frameState s).mVideoBuffer = none) :
    startNextCount (onVideoEvent env s).trace = startNextCount s.trace ∧
    (onVideoEvent env s).mStartNextPlayer = s.mStartNextPlayer := by
  by_cases hp : s.mVideoEventPending = true
  · by_cases hsp : s.mFlags.SEEK_PREVIEW = true
    · simp only [onVideoEvent, hp, hsp]
      exact ⟨rfl, rfl⟩
    · have hb : (frameState s).mVideoBuffer = none := by
        rcases h with h | h | h
        · rw [h] at hp
          cases hp
        · exact absurd h hsp
        · exact h
      have hev : onVideoEvent env s = frameState s := by
        simp only [onVideoEvent, hp, hsp, hb]
        simp
      rw [hev]
      simp
  · have hev : onVideoEvent env s = s := by
      simp only [onVideoEvent]
      rw [if_pos (by simpa using hp)]
    rw [hev]
    exact ⟨rfl, rfl⟩

theorem onVideoEvent_startNextBudget (env : Env) (s : Player) :
    startNextBudget (onVideoEvent env s) = startNextBudget s := by
  by_cases hp : s.mVideoEventPending = true
  · by_cases hsp : s.mFlags.SEEK_PREVIEW = true
    · obtain ⟨h1, h2⟩ := onVideoEvent_startNext_idle env s (Or.inr (Or.inl hsp))
      exact startNextBudget_congr h1 h2
    · cases hb : (frameState s).mVideoBuffer with
      | none =>
        obtain ⟨h1, h2⟩ := onVideoEvent_startNext_idle env s (Or.inr (Or.inr hb))
        exact startNextBudget_congr h1 h2
      | some b =>
        obtain ⟨h1, h2⟩ := onVideoEvent_startNext_frame env s b hp (by simpa using hsp) hb
        simp only [startNextBudget, h1, h2]
        cases hs : s.mStartNextPlayer <;>
          by_cases hr : (s.cfg.mPlayEndTimeMsec : Int) * 1000 - b.timeUs ≤ 1500000 <;>
          simp [hr]
  · obtain ⟨h1, h2⟩ := onVideoEvent_startNext_idle env s (Or.inl (by simpa using hp))
    exact startNextBudget_congr h1 h2

theorem play_l_run_startNext (env : Env) (s : Player) :
    startNextCount (play_l_run env s).2.trace = startNextCount s.trace ∧
    (play_l_run env s).2.mStartNextPlayer = s.mStartNextPlayer := by
  simp only [play_l_run]
  split <;> simp

theorem play_startNext_playing (env : Env) (s : Player) (h : s.mFlags.PLAYING = true) :
    startNextBudget (play env s).2 = startNextBudget s := by
  simp only [play, play_l]
  rw [if_pos (by simpa using h)]
  rfl

theorem play_startNext_restart (env : Env) (s : Player) (h : s.mFlags.PLAYING = false) :
    startNextBudget (play env s).2 = startNextCount s.trace + 1 := by
  simp only [play, play_l]
  rw [if_neg (by simp [h])]
  have hr : ∀ x : Player, startNextCount x.trace = startNextCount s.trace →
      x.mStartNextPlayer = false → startNextBudget x = startNextCount s.trace + 1 := by
    intro x h1 h2
    simp [startNextBudget, h1, h2]
  split
  · exact hr _ (by simp) (by simp)
  · obtain ⟨h1, h2⟩ := play_l_run_startNext env
      (play_l_prepare env
        { s with
          mFlags :=
            { ({ s with
                  mFlags :=
                    { s.mFlags with CACHE_UNDERRUN := false,
                                    INFORMED_AV_EOS := false } } : Player).mFlags with
              SEEK_PREVIEW := false },
          mStartNextPlayer := false }).2
    exact hr _ (by rw [h1]; simp) (by rw [h2]; simp)

theorem step_startNextBudget (s : Player) (op : Op) (h : clearsStartNext s op = false) :
    startNextBudget (step s op) = startNextBudget s := by
  refine step_inv (fun t => startNextBudget t = startNextBudget s) s op rfl rfl (fun _ _ => ?_)
  show startNextBudget (call s op) = startNextBudget s
  cases op with
  | play env =>
    exact play_startNext_playing env s (by simpa [clearsStartNext] using h)
  | onVideoEvent env => exact onVideoEvent_startNextBudget env s
  | pause => exact startNextBudget_congr (by simp [call]) (by simp [call])
  | reset => exact startNextBudget_congr (by simp [call]) (by simp [call])
  | setDataSource uri => exact startNextBudget_congr (by simp [call]) (by simp [call])
  | onStreamDone env => exact startNextBudget_congr (by simp [call]) (by simp [call])
  | seekTo env timeUs => exact startNextBudget_congr (by simp [call]) (by simp [call])
  | prepare env => exact startNextBudget_congr (by simp [call]) (by simp [call])
  | prepareAsync => exact startNextBudget_congr (by simp [call]) (by simp [call])
  | readFirstVideoFrame => exact startNextBudget_congr (by simp [call]) (by simp [call])
  | setAudioPlayer ap => exact startNextBudget_congr (by simp [call]) (by simp [call])
  | onCheckAudioStatus env => exact startNextBudget_congr (by simp [call]) (by simp [call])
  | onProgressCbEvent => exact startNextBudget_congr (by simp [call]) (by simp [call])
  | onUpdateOverlayEvent => exact startNextBudget_congr (by simp [call]) (by simp [call])
  | onPrepareAsyncEvent env => exact startNextBudget_congr (by simp [call]) (by simp [call])
  | postAudioEOS d => exact startNextBudget_congr (by simp [call]) (by simp [call])
  | postAudioSeekComplete => exact startNextBudget_congr (by simp [call]) (by simp [call])

theorem run_startNextBudget (ops : List Op) (s : Player) (h : noPlayRestart s ops = true) :
    startNextBudget (run s ops) = startNextBudget s := by
  induction ops generalizing s with
  | nil => rfl
  | cons op ops ih =>
    simp only [noPlayRestart, Bool.and_eq_true, Bool.not_eq_true'] at h
    have h1 := step_startNextBudget s op h.1
    have h2 := ih (step s op) h.2
    simp only [run, List.foldl_cons] at h2 ⊢
    rw [h2, h1]

/-- C27, what the code guarantees: after a `play` on a player that is not
`PLAYING`, as long as no further `play` is called on a player that is not
`PLAYING`, at most one notification `0xAAAAAAAA` is made, whatever else is
called. A video event that works on the frame `b` makes the notification
exactly when `mStartNextPlayer` is clear and the end cut time times 1000 minus
`b.timeUs` is at most 1500000, and then sets the mark; a video event that works
on no frame makes none. -/
theorem start_next_once_per_play_call (env : Env) (s : Player) (ops : List Op)
    (hs : s.mFlags.PLAYING = false) (hops : noPlayRestart (play env s).2 ops = true) :
    startNextCount (run (play env s).2 ops).trace ≤ startNextCount s.trace + 1 ∧
    (∀ (e : Env) (x : Player) (b : MediaBuffer), x.mVideoEventPending = true →
      x.mFlags.SEEK_PREVIEW = false → (frameState x).mVideoBuffer = some b →
      startNextCount (onVideoEvent e x).trace =
        startNextCount x.trace +
          (if x.mStartNextPlayer = false ∧
              (x.cfg.mPlayEndTimeMsec : Int) * 1000 - b.timeUs ≤ 1500000 then 1 else 0) ∧
      (onVideoEvent e x).mStartNextPlayer =
        (x.mStartNextPlayer ||
          decide ((x.cfg.mPlayEndTimeMsec : Int) * 1000 - b.timeUs ≤ 1500000))) ∧
    (∀ (e : Env) (x : Player),
      x.mVideoEventPending = false ∨ x.mFlags.SEEK_PREVIEW = true ∨
        (frameState x).mVideoBuffer = none →
      startNextCount (onVideoEvent e x).trace = startNextCount x.trace) := by
  refine ⟨?_, fun e x b => onVideoEvent_startNext_frame e x b,
    fun e x h => (onVideoEvent_startNext_idle e x h).1⟩
  have h1 := run_startNextBudget ops (play env s).2 hops
  rw [play_startNext_restart env s hs] at h1
  rw [← h1]
  simp [startNextBudget]

theorem start_next_once_per_play_call_witness :
    lastSecondClip.mFlags.PLAYING = false ∧
    noPlayRestart (play {} lastSecondClip).2 playedOn = true ∧
    startNextCount (run (play {} lastSecondClip).2 playedOn).trace ≤
      startNextCount lastSecondClip.trace + 1 ∧
    startNextCount lastSecondClip.trace = 0 ∧
    startNextCount (run (play {} lastSecondClip).2 playedOn).trace = 1 :=
  ⟨by decide, by decide,
    (start_next_once_per_play_call {} lastSecondClip playedOn (by decide) (by decide)).1,
    by decide, by decide⟩

/-- C27 fails in the code: `play` starts playback and the first video event
notifies `0xAAAAAAAA`. After a pause, a fresh audio player and a seek, a `play`
fails at the start of the audio player: it does not start playback, but it has
cleared `mStartNextPlayer` and leaves the video event of the seek pending. That
event notifies `0xAAAAAAAA` a second time, before any further `play`. -/
theorem start_next_twice_after_failed_play :
    (play {} lastSecondClip).1 = Status.OK ∧
    startNextCount (run lastSecondClip (failedRestart.take 2)).trace = 1 ∧
    (play failEnv (run lastSecondClip (failedRestart.take 5))).1 = Status.UNKNOWN_ERROR ∧
    (run lastSecondClip failedRestart).mFlags.PLAYING = false ∧
    (run lastSecondClip failedRestart).mStartNextPlayer = false ∧
    (run lastSecondClip failedRestart).mVideoEventPending = true ∧
    startNextCount (run lastSecondClip failedRestart).trace = 1 ∧
    startNextCount (onVideoEvent (atTime 0) (run lastSecondClip failedRestart)).trace = 2 := by
  decide

/-! # C28: several effects of one kind -/

theorem seekBudget_congr {s t : Player}
    (h1 : seekCompleteCount t.trace = seekCompleteCount s.trace)
    (h2 : t.mSeekNotificationSent = s.mSeekNotificationSent) : seekBudget t = seekBudget s := by
  simp [seekBudget, h1, h2]

theorem finishSeekIfNecessary_seekBudget (videoTimeUs : Int) (s : Player) :
    seekBudget (finishSeekIfNecessary videoTimeUs s) = seekBudget s := by
  simp only [seekBudget, finishSeekIfNecessary]
  repeat' split
  all_goals simp_all [noteOf]

theorem onReadError_seekBudget (err : Status) (s : Player) :
    seekBudget (onReadError err s) = seekBudget s := by
  rw [← finishSeekIfNecessary_seekBudget (-1) s]
  exact seekBudget_congr (by simp [onReadError]) (by simp [onReadError])

theorem readVideoLoop_seekBudget (reads : List ReadResult) (s : Player) :
    seekBudget (readVideoLoop reads s) = seekBudget s := by
  induction reads generalizing s with
  | nil =>
    simp only [readVideoLoop, onReadError_seekBudget]
    exact seekBudget_congr (by simp) (by simp)
  | cons r rest ih =>
    cases r with
    | buffer b0 =>
      simp only [readVideoLoop]
      split
      · rw [ih]
        exact seekBudget_congr (by simp [noteOf]) (by simp)
      · split
        · rw [ih]
          exact seekBudget_congr (by simp [noteOf]) (by simp)
        · exact seekBudget_congr (by simp) (by simp)
    | formatChanged w h' =>
      simp only [readVideoLoop]
      rw [ih]
      exact seekBudget_congr (by simp) (by simp)
    | endOfStream =>
      simp only [readVideoLoop, onReadError_seekBudget]
      exact seekBudget_congr (by simp) (by simp)
    | error code =>
      simp only [readVideoLoop, onReadError_seekBudget]
      exact seekBudget_congr (by simp) (by simp)

theorem fetchFrame_seekBudget (s : Player) : seekBudget (fetchFrame s) = seekBudget s := by
  simp only [fetchFrame]
  split
  · rfl
  · split
    · exact readVideoLoop_seekBudget _ _
    · rfl

theorem frameState_seekBudget (s : Player) : seekBudget (frameState s) = seekBudget s := by
  simp only [frameState, fetchFrame_seekBudget]
  exact seekBudget_congr (by simp) (by simp)

theorem processFrame_sync_seekBudget (env : Env) (w : SeekType) (b : MediaBuffer) (s : Player) :
    seekBudget (processFrame_sync env w b s) = seekBudget s :=
  seekBudget_congr (by simp) (by simp)

theorem processFrame_seekBudget (env : Env) (b : MediaBuffer) (s : Player) :
    seekBudget (processFrame env b s) = seekBudget s := by
  have h0 : seekBudget (notifyStartNext b.timeUs (countFrame b.timeUs s)) = seekBudget s := by
    simp only [notifyStartNext]
    split
    · exact seekBudget_congr (by simp [noteOf]) (by simp)
    · exact seekBudget_congr (by simp) (by simp)
  have h1 : ∀ x : Player,
      seekBudget (startAudioIfNeeded env (finishSeekIfNecessary b.timeUs x)).2 =
        seekBudget x := by
    intro x
    rw [← finishSeekIfNecessary_seekBudget b.timeUs x]
    exact seekBudget_congr (by simp) (by simp)
  simp only [processFrame, processFrame_seek]
  split
  · rw [h1, h0]
  · rw [processFrame_sync_seekBudget, h1, h0]

theorem onVideoEvent_seekBudget (env : Env) (s : Player) :
    seekBudget (onVideoEvent env s) = seekBudget s := by
  simp only [onVideoEvent]
  split
  · rfl
  · split
    · rfl
    · split
      · exact frameState_seekBudget s
      · rw [processFrame_seekBudget, frameState_seekBudget]

theorem checkAudioSeekComplete_seekBudget (env : Env) (s : Player) :
    seekBudget (checkAudioSeekComplete env s) = seekBudget s := by
  simp only [seekBudget, checkAudioSeekComplete]
  repeat' split
  all_goals simp_all [noteOf]

theorem onCheckAudioStatus_seekBudget (env : Env) (s : Player) :
    seekBudget (onCheckAudioStatus env s) = seekBudget s := by
  simp only [onCheckAudioStatus]
  split
  · rfl
  · have h : seekBudget (checkAudioEOS env
        (checkAudioSeekComplete env { s with mAudioStatusEventPending := false })) =
        seekBudget (checkAudioSeekComplete env { s with mAudioStatusEventPending := false }) :=
      seekBudget_congr (by simp) (by simp)
    rw [h, checkAudioSeekComplete_seekBudget]
    rfl

theorem seekTo_l_body_seekBudget (timeUs : Int) (s : Player) :
    seekBudget (seekTo_l_body timeUs s).2 = seekCompleteCount s.trace + 1 := by
  simp only [seekBudget, seekTo_l_body, seekTo_l_paused, seekTo_l_record]
  repeat' split
  all_goals simp_all [noteOf]

theorem play_l_finish_seekBudget (env : Env) (d : Bool) (s : Player)
    (h : s.mFlags.AT_EOS = false) :
    seekBudget (play_l_finish env d s) = seekBudget s ∧
    (play_l_finish env d s).mFlags.AT_EOS = false := by
  simp only [play_l_finish, play_l_post, play_l_replay]
  split
  · exact ⟨seekBudget_congr (by simp) (by simp), by simpa using h⟩
  · rw [if_neg (by simpa using h)]
    exact ⟨seekBudget_congr (by simp) (by simp), by simpa using h⟩

theorem play_l_seekBudget (env : Env) (s : Player) (h : s.mFlags.AT_EOS = false) :
    seekBudget (play_l env s).2 = seekBudget s ∧ (play_l env s).2.mFlags.AT_EOS = false := by
  simp only [play_l]
  split
  · exact ⟨rfl, h⟩
  · have hr : seekBudget (play_l_prepare env
        { s with mFlags := { s.mFlags with SEEK_PREVIEW := false },
                 mStartNextPlayer := false }).2 = seekBudget s ∧
        (play_l_prepare env
          { s with mFlags := { s.mFlags with SEEK_PREVIEW := false },
                   mStartNextPlayer := false }).2.mFlags.AT_EOS = false :=
      ⟨seekBudget_congr (by simp) (by simp), by simpa using h⟩
    split
    · exact hr
    · generalize (play_l_prepare env
        { s with mFlags := { s.mFlags with SEEK_PREVIEW := false },
                 mStartNextPlayer := false }).2 = x at hr
      obtain ⟨hx1, hx2⟩ := hr
      have ha : seekBudget (play_l_audio env
          { x with mFlags := { x.mFlags with PLAYING := true, FIRST_FRAME := true } }).2.2 =
          seekBudget s ∧
          (play_l_audio env
            { x with mFlags := { x.mFlags with PLAYING := true,
                                               FIRST_FRAME := true } }).2.2.mFlags.AT_EOS =
            false := by
        constructor
        · rw [← hx1]
          exact seekBudget_congr (by simp) (by simp)
        · simpa using hx2
      simp only [play_l_run]
      split
      · exact ha
      · have hf := play_l_finish_seekBudget env
          (play_l_audio env
            { x with mFlags := { x.mFlags with PLAYING := true, FIRST_FRAME := true } }).2.1
          (play_l_audio env
            { x with mFlags := { x.mFlags with PLAYING := true, FIRST_FRAME := true } }).2.2
          ha.2
        exact ⟨hf.1.trans ha.1, hf.2⟩

theorem step_seekBudget (s : Player) (op : Op) (hop : afterSeekOp op = true)
    (h : s.mFlags.AT_EOS = false) :
    seekBudget (step s op) = seekBudget s ∧ (step s op).mFlags.AT_EOS = false := by
  refine step_inv (fun t => seekBudget t = seekBudget s ∧ t.mFlags.AT_EOS = false) s op
    ⟨rfl, h⟩ ⟨rfl, h⟩ (fun _ _ => ?_)
  show seekBudget (call s op) = seekBudget s ∧ (call s op).mFlags.AT_EOS = false
  cases op with
  | play env =>
    simp only [call, play]
    have := play_l_seekBudget env
      { s with mFlags := { s.mFlags with CACHE_UNDERRUN := false, INFORMED_AV_EOS := false } }
      (by simpa using h)
    exact ⟨this.1, this.2⟩
  | pause => exact ⟨seekBudget_congr (by simp [call]) (by simp [call]), by simpa [call] using h⟩
  | onVideoEvent env => exact ⟨onVideoEvent_seekBudget env s, by simpa [call] using h⟩
  | onCheckAudioStatus env =>
    exact ⟨onCheckAudioStatus_seekBudget env s, by simpa [call] using h⟩
  | postAudioEOS d =>
    exact ⟨seekBudget_congr (by simp [call]) (by simp [call]), by simpa [call] using h⟩
  | postAudioSeekComplete =>
    exact ⟨seekBudget_congr (by simp [call]) (by simp [call]), by simpa [call] using h⟩
  | reset => simp [afterSeekOp] at hop
  | setDataSource uri => simp [afterSeekOp] at hop
  | onStreamDone env => simp [afterSeekOp] at hop
  | seekTo env timeUs => simp [afterSeekOp] at hop
  | prepare env => simp [afterSeekOp] at hop
  | prepareAsync => simp [afterSeekOp] at hop
  | readFirstVideoFrame => simp [afterSeekOp] at hop
  | setAudioPlayer ap => simp [afterSeekOp] at hop
  | onProgressCbEvent => simp [afterSeekOp] at hop
  | onUpdateOverlayEvent => simp [afterSeekOp] at hop
  | onPrepareAsyncEvent env => simp [afterSeekOp] at hop

theorem run_seekBudget (ops : List Op) (s : Player) (hops : ∀ op ∈ ops, afterSeekOp op = true)
    (h : s.mFlags.AT_EOS = false) :
    seekBudget (run s ops) = seekBudget s ∧ (run s ops).mFlags.AT_EOS = false := by
  induction ops generalizing s with
  | nil => exact ⟨rfl, h⟩
  | cons op ops ih =>
    have h1 := step_seekBudget s op (hops op (List.mem_cons_self _ _)) h
    have h2 := ih (step s op) (fun o ho => hops o (List.mem_cons_of_mem _ ho)) h1.2
    simp only [run, List.foldl_cons] at h2 ⊢
    exact ⟨h2.1.trans h1.1, h2.2⟩

/-- C29: after `seekTo_l`, over every sequence of video events, audio status
events (and the audio player callbacks that post them), `pause` and `play`,
the number of `MEDIA_SEEK_COMPLETE` notifications exceeds by at most one the
number made when `seekTo_l` recorded the seek (after its `CACHE_UNDERRUN`
block); the count plus one while `mSeekNotificationSent` is clear stays equal to
that bound, and `AT_EOS` stays clear, so that no `play` of the sequence seeks. -/
theorem seek_complete_at_most_once (env : Env) (timeUs : Int) (s : Player) (ops : List Op)
    (hops : ∀ op ∈ ops, afterSeekOp op = true) :
    seekCompleteCount (run (seekTo_l env timeUs s).2 ops).trace ≤
      seekCompleteCount (seekTo_l_underrun env s).trace + 1 ∧
    seekBudget (run (seekTo_l env timeUs s).2 ops) =
      seekCompleteCount (seekTo_l_underrun env s).trace + 1 ∧
    (run (seekTo_l env timeUs s).2 ops).mFlags.AT_EOS = false ∧
    (s.mFlags.CACHE_UNDERRUN = false →
      seekCompleteCount (run (seekTo_l env timeUs s).2 ops).trace ≤
        seekCompleteCount s.trace + 1) := by
  have h1 := run_seekBudget ops (seekTo_l env timeUs s).2 hops (seekTo_l_not_atEos env timeUs s)
  have h2 : seekBudget (seekTo_l env timeUs s).2 =
      seekCompleteCount (seekTo_l_underrun env s).trace + 1 := by
    simp only [seekTo_l]
    exact seekTo_l_body_seekBudget _ _
  have h3 : seekCompleteCount (run (seekTo_l env timeUs s).2 ops).trace ≤
      seekCompleteCount (seekTo_l_underrun env s).trace + 1 := by
    rw [← h2, ← h1.1]
    simp [seekBudget]
  refine ⟨h3, h1.1.trans h2, h1.2, ?_⟩
  intro hc
  have h4 : seekTo_l_underrun env s = s := by simp [seekTo_l_underrun, hc]
  rw [h4] at h3
  exact h3

theorem seek_complete_at_most_once_witness :
    (∀ op ∈ afterSeekCalls, afterSeekOp op = true) ∧
    seekCompleteCount (run (seekTo_l {} 33000 playingAvClip).2 afterSeekCalls).trace ≤
      seekCompleteCount (seekTo_l_underrun {} playingAvClip).trace + 1 ∧
    seekCompleteCount (seekTo_l_underrun {} playingAvClip).trace = 0 ∧
    seekCompleteCount (run (seekTo_l {} 33000 playingAvClip).2 afterSeekCalls).trace = 1 :=
  ⟨by decide,
    (seek_complete_at_most_once {} 33000 playingAvClip afterSeekCalls (by decide)).1,
    by decide, by decide⟩

/-! # C30: the framing bit and the renderer -/

theorem step_renders_framing (s : Player) (op : Op)
    (h : ∀ p ∈ renders s.trace, p.2 VideoEffect.FRAMING = false) :
    ∀ p ∈ renders (step s op).trace, p.2 VideoEffect.FRAMING = false := by
  refine step_inv (fun t => ∀ p ∈ renders t.trace, p.2 VideoEffect.FRAMING = false) s op
    h h (fun _ _ => ?_)
  show ∀ p ∈ renders (call s op).trace, p.2 VideoEffect.FRAMING = false
  cases op with
  | onVideoEvent env =>
    simp only [call]
    rcases onVideoEvent_rendersFrame env s with h1 | ⟨b, _, h1 | ⟨_, h1⟩⟩
    · rw [h1]; exact h
    · rw [h1]; exact h
    · rw [h1]
      intro p hp
      rcases List.mem_append.mp hp with hp | hp
      · exact h p hp
      · simp only [List.mem_singleton] at hp
        rw [hp]
        exact frameMask_framing b.timeUs s.cfg s.mCurrentVideoEffect
  | play env => simpa [call] using h
  | pause => simpa [call] using h
  | seekTo env timeUs => simpa [call] using h
  | prepare env => simpa [call] using h
  | prepareAsync => simpa [call] using h
  | reset => simpa [call] using h
  | setDataSource uri => simpa [call] using h
  | readFirstVideoFrame => simpa [call] using h
  | setAudioPlayer ap => simpa [call] using h
  | onStreamDone env => simpa [call] using h
  | onCheckAudioStatus env => simpa [call] using h
  | onProgressCbEvent => simpa [call] using h
  | onUpdateOverlayEvent => simpa [call] using h
  | onPrepareAsyncEvent env => simpa [call] using h
  | postAudioEOS d => simpa [call] using h
  | postAudioSeekComplete => simpa [call] using h

theorem run_renders_framing (ops : List Op) (s : Player)
    (h : ∀ p ∈ renders s.trace, p.2 VideoEffect.FRAMING = false) :
    ∀ p ∈ renders (run s ops).trace, p.2 VideoEffect.FRAMING = false := by
  induction ops generalizing s with
  | nil => exact h
  | cons op ops ih => exact ih (step s op) (step_renders_framing s op h)

/-- C30: from a state whose render calls so far had the framing bit clear, every
render call of every run has the framing bit clear in its effect mask, whatever
the effect list and the frames; and after the effect pass and the overlay step
the framing bit of the current effect mask is clear. -/
theorem rendered_mask_never_framing (s : Player) (ops : List Op)
    (h : ∀ p ∈ renders s.trace, p.2 VideoEffect.FRAMING = false) :
    (∀ p ∈ renders (run s ops).trace, p.2 VideoEffect.FRAMING = false) ∧
    (∀ (timeUs : Int) (x : Player),
      (overlayUpdate (applyEffects timeUs x)).mCurrentVideoEffect VideoEffect.FRAMING = false) :=
  ⟨run_renders_framing ops s h, fun timeUs x => by simp [overlayUpdate_mask, setBit]⟩

theorem rendered_mask_never_framing_witness :
    renders (loadEffectsSettings [framingEffect] (preparedClip 0 3000 [frameAt 500000])).trace
      = [] ∧
    renderedTimes framedClip.trace = [500000] ∧
    (∀ p ∈ renders framedClip.trace, p.2 VideoEffect.FRAMING = false) :=
  ⟨by decide, by decide,
    (rendered_mask_never_framing
      (loadEffectsSettings [framingEffect] (preparedClip 0 3000 [frameAt 500000]))
      [Op.play {}, Op.onVideoEvent (atTime 1000)] (by decide)).1⟩

end Lvpp
